import Mathlib

/-!
# Protocol Bunker session engine

A shallow embedding of the Go session engine of `server-go` (files `game.go`,
`game_runtime.go`, `world_logic.go`, `dev_engine.go`, `rules.go`) and proofs about it.

Conventions of the embedding:

* a Go `map[string]V` is an association list `GoMap V`; a lookup takes the first binding of a
  key, `mapSet` and `mapDel` remove every binding of the key, and `mapLen` counts distinct
  keys, so that every list denotes a Go map.  Go leaves the iteration order of a map
  unspecified; the embedding iterates in list order;
* a `*T` that may be nil is an `Option T`; players are updated in place in the `Players` map
  (`mapModify`), which is what a write through a `*gamePlayer` does;
* Go's `int`/`int64` are `Int` (no arithmetic of the engine comes near `2^63`);
* `g.rng` is the stream of raw values that the generator will produce (`List Nat`, continued
  by zeros); `rand.Intn n` takes the next raw value modulo `n`;
* `time.Now().UnixMilli()` is an explicit argument `now` of every function that reads the
  clock;
* a method with a pointer receiver that mutates the session returns the new session.
-/

namespace ProtocolBunker

/-! ## Go maps -/

/-- Go `map[string]V`. -/
abbrev GoMap (V : Type) := List (String × V)

/-- Lookup `m[k]` with the presence flag: the first binding of `k`. -/
def mapGet? {V : Type} : GoMap V → String → Option V
  | [], _ => none
  | (k', v) :: t, k => if k' = k then some v else mapGet? t k

/-- Presence test `_, ok := m[k]`. -/
def mapHas {V : Type} (m : GoMap V) (k : String) : Bool := (mapGet? m k).isSome

/-- The builtin `delete(m, k)`. -/
def mapDel {V : Type} (m : GoMap V) (k : String) : GoMap V :=
  m.filter (fun e => decide (e.1 ≠ k))

/-- Write through a pointer stored in the map: the value bound to `k` is replaced by `f v`,
the map itself is not touched. -/
def mapModify {V : Type} : GoMap V → String → (V → V) → GoMap V
  | [], _, _ => []
  | (k', v) :: t, k, f => if k' = k then (k', f v) :: t else (k', v) :: mapModify t k f

/-- Assignment `m[k] = v`: the binding of `k` is replaced where it stands, a new key is
added at the end. -/
def mapSet {V : Type} (m : GoMap V) (k : String) (v : V) : GoMap V :=
  if mapHas m k then mapModify m k (fun _ => v) else m ++ [(k, v)]

/-- The bindings visited by `for k, v := range m`: one per distinct key. -/
def mapEntries {V : Type} : GoMap V → GoMap V
  | [] => []
  | (k, v) :: t => (k, v) :: (mapEntries t).filter (fun e => decide (e.1 ≠ k))

/-- The keys visited by `for k := range m`. -/
def mapKeys {V : Type} (m : GoMap V) : List String := (mapEntries m).map Prod.fst

/-- The builtin `len(m)`. -/
def mapLen {V : Type} (m : GoMap V) : Nat := (mapEntries m).length

/-- Lookup `m[k]` in a `map[string]bool`: `false` when absent. -/
def mapGetB (m : GoMap Bool) (k : String) : Bool := (mapGet? m k).getD false

/-- Lookup `m[k]` in a `map[string]string`: `""` when absent. -/
def mapGetS (m : GoMap String) (k : String) : String := (mapGet? m k).getD ""

/-! ## Text helpers -/

/-- The `unicode.IsSpace` test behind `strings.TrimSpace`. -/
def isSpace (c : Char) : Bool :=
  let n := c.toNat
  n == 0x20 || (0x09 ≤ n && n ≤ 0x0D) || n == 0x85 || n == 0xA0 || n == 0x1680 ||
    (0x2000 ≤ n && n ≤ 0x200A) || n == 0x2028 || n == 0x2029 || n == 0x202F ||
    n == 0x205F || n == 0x3000

/-- The function `strings.TrimSpace`. -/
def trimSpace (s : String) : String :=
  String.mk ((s.data.dropWhile isSpace).reverse.dropWhile isSpace).reverse

/-- The mapping `unicode.ToLower` on Basic Latin, Latin-1 and the Cyrillic block
U+0400..U+042F (the scripts of the game's tables); other code points are left as they are. -/
def lowerChar (c : Char) : Char :=
  let n := c.toNat
  if 0x41 ≤ n ∧ n ≤ 0x5A then Char.ofNat (n + 0x20)
  else if 0xC0 ≤ n ∧ n ≤ 0xDE ∧ n ≠ 0xD7 then Char.ofNat (n + 0x20)
  else if 0x400 ≤ n ∧ n ≤ 0x40F then Char.ofNat (n + 0x50)
  else if 0x410 ≤ n ∧ n ≤ 0x42F then Char.ofNat (n + 0x20)
  else c

/-- The function `strings.ToLower` (see `lowerChar`). -/
def toLower (s : String) : String := String.mk (s.data.map lowerChar)

/-- The test `unicode.IsLetter(r) || unicode.IsNumber(r)` on Basic Latin, Latin-1 and the
Cyrillic blocks; other code points count as neither. -/
def isLetterOrNumber (c : Char) : Bool :=
  let n := c.toNat
  (0x30 ≤ n && n ≤ 0x39) || (0x41 ≤ n && n ≤ 0x5A) || (0x61 ≤ n && n ≤ 0x7A) ||
    n == 0xAA || n == 0xB2 || n == 0xB3 || n == 0xB5 || n == 0xB9 || n == 0xBA ||
    (0xBC ≤ n && n ≤ 0xBE) || (0xC0 ≤ n && n ≤ 0xD6) || (0xD8 ≤ n && n ≤ 0xF6) ||
    (0xF8 ≤ n && n ≤ 0xFF) || (0x400 ≤ n && n ≤ 0x481) || (0x48A ≤ n && n ≤ 0x52F)

/-- The function `normalizeSpecialKey`: lower-case, `ё` replaced by `е`, only letters and
numbers kept. -/
def normalizeSpecialKey (value : String) : String :=
  let lower := (toLower (trimSpace value)).data.map (fun c => if c = 'ё' then 'е' else c)
  String.mk (lower.filter isLetterOrNumber)

/-- The function `sanitizeHumanText` without its mojibake repair (which the specification
puts out of scope): the trimmed text, or the fallback when that is empty. -/
def sanitizeHumanText (text fallback : String) : String :=
  let value := trimSpace text
  if value = "" then fallback else value

/-- The function `defaultEventMessage`. -/
def defaultEventMessage (kind : String) : String :=
  match kind with
  | "votingStart" => "Voting started."
  | "elimination" => "A player was eliminated."
  | "playerLeftBunker" => "A player left the bunker."
  | "playerDisconnected" => "A player disconnected."
  | "playerReconnected" => "A player reconnected."
  | _ => "Game state updated."

/-- Byte-wise `<` on strings, the order of `slices.Sort` on `[]string` (UTF-8 keeps the
order of code points). -/
def charsLt : List Char → List Char → Bool
  | _, [] => false
  | [], _ :: _ => true
  | a :: s, b :: t => a.toNat < b.toNat || (a.toNat == b.toNat && charsLt s t)

/-- Insertion into a sorted list of strings. -/
def insertSorted (a : String) : List String → List String
  | [] => [a]
  | b :: t => if charsLt a.data b.data then a :: b :: t else b :: insertSorted a t

/-- The call `slices.Sort(top)`. -/
def sortStrings : List String → List String
  | [] => []
  | a :: t => insertSorted a (sortStrings t)

/-- The verb `%d` of `fmt.Sprintf`. -/
def fmtInt (n : Int) : String := toString n

/-- The call `strings.Join(xs, sep)`. -/
def joinStrings (sep : String) : List String → String
  | [] => ""
  | [a] => a
  | a :: b :: t => a ++ sep ++ joinStrings sep (b :: t)

/-! ## Dynamic values (`any`) -/

/-- A Go `any` found in a payload or in ability parameters.  A JSON number is represented by
the integer that the conversion `int(v)` of `asInt` gives. -/
inductive AnyLeaf where
  | null
  | str (s : String)
  | num (n : Int)
  | bool (b : Bool)
  | other
  deriving DecidableEq, Repr

/-- A value of the action payload: a leaf, or a nested object (`payload["payload"]`). -/
inductive AnyVal where
  | leaf (v : AnyLeaf)
  | obj (m : GoMap AnyLeaf)
  deriving DecidableEq, Repr

/-- The function `asString` on an optional map entry. -/
def asString (v : Option AnyLeaf) : String :=
  match v with
  | some (.str s) => s
  | _ => ""

/-- Decimal digits of `strconv.Atoi`. -/
def digitsValue : List Char → Option Nat
  | [] => none
  | cs => cs.foldl (fun acc c =>
      match acc with
      | none => none
      | some n => if c.isDigit then some (n * 10 + (c.toNat - 48)) else none) (some 0)

/-- The function `strconv.Atoi`: an optional sign and decimal digits, within `int64`. -/
def atoi (s : String) : Option Int :=
  let parsed : Option Int :=
    match s.data with
    | '-' :: rest => (digitsValue rest).map (fun n => - (n : Int))
    | '+' :: rest => (digitsValue rest).map (fun n => (n : Int))
    | cs => (digitsValue cs).map (fun n => (n : Int))
  match parsed with
  | some i => if -9223372036854775808 ≤ i ∧ i ≤ 9223372036854775807 then some i else none
  | none => none

/-- The function `asInt` on an optional map entry. -/
def asInt (v : Option AnyLeaf) (fallback : Int) : Int :=
  match v with
  | some (.num n) => n
  | some (.str s) => (atoi (trimSpace s)).getD fallback
  | _ => fallback

/-- Case-insensitive comparison `strings.EqualFold(v, "true")`. -/
def equalFoldTrue (v : String) : Bool := toLower v = "true"

/-- The function `asBool` on an optional map entry. -/
def asBool (v : Option AnyLeaf) : Bool :=
  match v with
  | some (.bool b) => b
  | some (.str s) => equalFoldTrue s || s = "1"
  | _ => false

/-- The type assertion `payload[key].(string)`. -/
def payloadString (payload : GoMap AnyVal) (key : String) : String :=
  match mapGet? payload key with
  | some (.leaf (.str s)) => s
  | _ => ""

/-- The entry `payload[key]` seen as a leaf (a nested object is `other`). -/
def payloadLeaf (payload : GoMap AnyVal) (key : String) : Option AnyLeaf :=
  match mapGet? payload key with
  | some (.leaf v) => some v
  | some (.obj _) => some .other
  | none => none

/-- The type assertion `payload["payload"].(map[string]any)`, `{}` when it fails. -/
def payloadObject (payload : GoMap AnyVal) (key : String) : GoMap AnyLeaf :=
  match mapGet? payload key with
  | some (.obj m) => m
  | _ => []

/-! ## Constants -/

def scenarioPhaseReveal : String := "reveal"
def scenarioPhaseRevealDiscussion : String := "reveal_discussion"
def scenarioPhaseVoting : String := "voting"
def scenarioPhaseResolution : String := "resolution"
def scenarioPhaseEnded : String := "ended"
def timerKindResolutionAuto : String := "resolution_auto"
def votePhaseVoting : String := "voting"
def votePhaseSpecialWindow : String := "voteSpecialWindow"
def votePhaseResolve : String := "voteResolve"
def scenarioClassic : String := "classic"
def scenarioDevTest : String := "dev_test"
def playerAlive : String := "alive"
def playerEliminated : String := "eliminated"
def playerLeftBunker : String := "left_bunker"
def devTestBunkerCapacity : Int := 5

def coreDecks : List String := ["Профессия", "Здоровье", "Хобби", "Багаж", "Биология"]
def factsDeck : String := "Факты"
def factsSlotOrder : List String := ["facts1", "facts2"]
def categoryOrder : List String :=
  ["Профессия", "Здоровье", "Хобби", "Багаж", "Факт №1", "Факт №2", "Биология", "Особые условия"]

def votingWindowEffectTypes : GoMap Bool :=
  [("banVoteAgainst", true), ("disableVote", true), ("voteWeight", true), ("forceRevote", true),
   ("doubleVotesAgainst_and_disableSelfVote", true)]

def categoryKeyToDeck : GoMap String :=
  [("profession", "Профессия"), ("health", "Здоровье"), ("hobby", "Хобби"), ("baggage", "Багаж"),
   ("facts", "Факты"), ("facts1", "Факты"), ("facts2", "Факты"), ("biology", "Биология")]

def categoryKeyToSlot : GoMap String := [("facts1", "facts1"), ("facts2", "facts2")]

def categoryKeyToLabel : GoMap String :=
  [("profession", "Профессия"), ("health", "Здоровье"), ("hobby", "Хобби"), ("baggage", "Багаж"),
   ("facts", "Факт №1"), ("facts1", "Факт №1"), ("facts2", "Факт №2"), ("biology", "Биология")]

def specialDeckCategoryName : String := "Особые условия"

/-! ## Data model -/

structure deckSlotConfig where
  deck : String
  slot : String
  deriving DecidableEq, Repr

structure handCard where
  InstanceID : String
  CardID : String
  Deck : String
  SlotKey : String
  Label : String
  Revealed : Bool
  Missing : Bool
  deriving DecidableEq, Repr

structure voteRecord where
  TargetID : String
  Submitted : Int
  IsValid : Bool
  ReasonText : String
  deriving DecidableEq, Repr

structure effectiveVoteRecord where
  TargetID : String
  Status : String
  ReasonText : String
  Weight : Int
  Submitted : Int
  deriving DecidableEq, Repr

/-- The struct `specialEffect`; its field `Type` is `EffectType` here. -/
structure specialEffect where
  EffectType : String
  Params : GoMap AnyLeaf
  deriving DecidableEq, Repr

structure specialDefinition where
  ID : String
  Title : String
  Text : String
  Trigger : String
  Effect : specialEffect
  Implemented : Bool
  Requires : List String
  ChoiceKind : String
  TargetScope : String
  AllowSelf : Bool
  AssetID : String
  deriving DecidableEq, Repr

structure specialConditionState where
  InstanceID : String
  Definition : specialDefinition
  RevealedPublic : Bool
  Used : Bool
  deriving DecidableEq, Repr

structure gamePlayer where
  PlayerID : String
  Name : String
  Status : String
  Hand : List handCard
  Specials : List specialConditionState
  IsBot : Bool
  BannedAgainst : GoMap Bool
  ForcedWastedVoteNext : Bool
  deriving DecidableEq, Repr

structure gameEvent where
  ID : String
  Kind : String
  Message : String
  CreatedAt : Int
  deriving DecidableEq, Repr

structure gameActionResult where
  StateChanged : Bool
  Events : List gameEvent
  Error : String
  deriving DecidableEq, Repr

structure gameSettings where
  EnableRevealDiscussionTimer : Bool
  RevealDiscussionSeconds : Int
  EnablePreVoteDiscussionTime : Bool
  PreVoteDiscussionSeconds : Int
  EnablePostVoteDiscussion : Bool
  PostVoteDiscussionSeconds : Int
  EnablePresenterMode : Bool
  ContinuePermission : String
  RevealTimeoutAction : String
  RevealsBeforeVoting : Int
  SpecialUsage : String
  MaxPlayers : Int
  FinalThreatReveal : String
  deriving DecidableEq, Repr

/-- The struct `gameRuleset` (its `ManualCfg` pointer is not read by the engine). -/
structure gameRuleset where
  PlayerCount : Int
  VotesPerRnd : List Int
  TotalExiles : Int
  BunkerSeats : Int
  RulesetMode : String
  deriving DecidableEq, Repr

structure roundRulesPublic where
  NoTalkUntilVoting : Bool
  ForcedCategory : String
  deriving DecidableEq, Repr

structure gameTimerState where
  Kind : String
  EndsAt : Int
  deriving DecidableEq, Repr

structure worldCardView where
  Kind : String
  ID : String
  Title : String
  Description : String
  Text : String
  ImageID : String
  deriving DecidableEq, Repr

structure worldFacedCardView where
  Kind : String
  ID : String
  Title : String
  Description : String
  Text : String
  ImageID : String
  IsRevealed : Bool
  RevealedAtRound : Option Int
  RevealedBy : String
  deriving DecidableEq, Repr

/-- The struct `worldStateView`; `CountsBunker`/`CountsThreats` are `Counts.Bunker` and
`Counts.Threats`. -/
structure worldStateView where
  Disaster : worldCardView
  Bunker : List worldFacedCardView
  Threats : List worldFacedCardView
  CountsBunker : Int
  CountsThreats : Int
  deriving DecidableEq, Repr

structure worldEventView where
  EventType : String
  Index : Int
  Round : Int
  deriving DecidableEq, Repr

structure postGameStateView where
  IsActive : Bool
  EnteredAt : Int
  Outcome : String
  DecidedBy : String
  DecidedAt : Int
  deriving DecidableEq, Repr

structure threatModifierView where
  Delta : Int
  Reasons : List String
  BaseCount : Int
  FinalCount : Int
  deriving DecidableEq, Repr

structure assetCard where
  ID : String
  Deck : String
  Label : String
  deriving DecidableEq, Repr

/-- The room's `player`, as far as `newGameSession` reads it. -/
structure player where
  ID : String
  Name : String
  deriving DecidableEq, Repr

structure gameSession where
  RoomCode : String
  HostID : String
  Scenario : String
  IsDev : Bool
  Settings : gameSettings
  Ruleset : gameRuleset
  Players : GoMap gamePlayer
  Order : List String
  Phase : String
  Round : Int
  CurrentTurnID : String
  RevealedThisRnd : GoMap Bool
  LastRevealerID : String
  VotePhase : String
  Votes : GoMap voteRecord
  BaseVotes : GoMap voteRecord
  VoteResults : GoMap voteRecord
  VoteCandidates : GoMap Bool
  VoteDisabled : GoMap String
  VoteWeights : GoMap Int
  AutoWastedVoters : GoMap Bool
  RevoteDisallow : GoMap Bool
  DoubleAgainst : String
  TieBreakUsed : Bool
  VotesRemaining : Int
  LastEliminatedID : String
  ResolutionNote : String
  Winners : List String
  LastStageText : String
  TotalExiles : Int
  EventCounter : Int
  World : worldStateView
  WorldEvent : Option worldEventView
  PostGame : Option postGameStateView
  FinalThreats : List String
  FirstHealthRevealerID : String
  RoundRules : roundRulesPublic
  ActiveTimer : Option gameTimerState
  DeckPools : GoMap (List assetCard)
  CardCounter : Int
  DevBotCounter : Int
  rng : List Nat
  specialPool : List specialDefinition
  specialCounter : Int
  deriving Repr

/-- The call `rng.Intn(n)`: the next raw value of the stream modulo `n`, and the rest of the
stream. -/
def intn (rng : List Nat) (n : Nat) : Nat × List Nat :=
  match rng with
  | [] => (0, [])
  | r :: rest => (r % n, rest)

/-- The function `maxInt`. -/
def maxInt (a b : Int) : Int := if a > b then a else b

/-! ## Session helpers (`game.go`) -/

/-- The function `votesForRound`. -/
def votesForRound (g : gameSession) (round : Int) : Int :=
  let index := round - 1
  if index < 0 ∨ index ≥ (g.Ruleset.VotesPerRnd.length : Int) then 0
  else maxInt 0 (g.Ruleset.VotesPerRnd.getD index.toNat 0)

/-- The test `player != nil && player.Status == playerAlive` for `player := g.Players[id]`. -/
def playerIsAlive (g : gameSession) (id : String) : Bool :=
  match mapGet? g.Players id with
  | some p => p.Status = playerAlive
  | none => false

/-- The function `aliveIDs`. -/
def aliveIDs (g : gameSession) : List String := g.Order.filter (playerIsAlive g)

/-- The function `firstAliveID`. -/
def firstAliveID (g : gameSession) : String := ((g.Order.find? (playerIsAlive g)).getD "")

/-- The index loop `for i, id := range g.Order { if id == currentID { start = i; break } }`. -/
def orderStart (order : List String) (currentID : String) : Nat :=
  if order.indexOf currentID < order.length then order.indexOf currentID else 0

/-- The positions `(start + offset) % len` for `offset = 1 .. len`, in that order. -/
def rotateAfter (order : List String) (start : Nat) : List String :=
  order.drop (start + 1) ++ order.take (start + 1)

/-- The function `nextUnrevealedAliveAfter`. -/
def nextUnrevealedAliveAfter (g : gameSession) (currentID : String) : String :=
  if g.Order.length = 0 then ""
  else
    ((rotateAfter g.Order (orderStart g.Order currentID)).find?
      (fun id => playerIsAlive g id && !mapGetB g.RevealedThisRnd id)).getD ""

/-- The function `allAliveRevealed`. -/
def allAliveRevealed (g : gameSession) : Bool :=
  g.Order.all (fun id => !playerIsAlive g id || mapGetB g.RevealedThisRnd id)

/-- The function `makeEvent`. -/
def makeEvent (g : gameSession) (kind message : String) (now : Int) : gameSession × gameEvent :=
  let g1 := { g with EventCounter := g.EventCounter + 1 }
  (g1, { ID := g.RoomCode ++ "-" ++ fmtInt now ++ "-" ++ fmtInt g1.EventCounter,
         Kind := kind,
         Message := sanitizeHumanText message (defaultEventMessage kind),
         CreatedAt := now })

/-- The function `clearActiveTimer`. -/
def clearActiveTimer (g : gameSession) : gameSession := { g with ActiveTimer := none }

/-- The function `schedulePhaseTimer`. -/
def schedulePhaseTimer (g : gameSession) (kind : String) (seconds : Int) (now : Int) :
    gameSession :=
  if seconds ≤ 0 then g
  else { g with ActiveTimer := some { Kind := kind, EndsAt := now + seconds * 1000 } }

/-- The function `scheduleRevealTimeoutIfNeeded`. -/
def scheduleRevealTimeoutIfNeeded (g : gameSession) (now : Int) : gameSession :=
  if g.Phase ≠ scenarioPhaseReveal ∨ g.CurrentTurnID = "" then g
  else if !g.Settings.EnableRevealDiscussionTimer then g
  else schedulePhaseTimer g scenarioPhaseRevealDiscussion g.Settings.RevealDiscussionSeconds now

/-- The function `markVoteWasted`. -/
def markVoteWasted (g : gameSession) (voterID reason : String) (now : Int) : gameSession :=
  let reason := if reason = "" then "Голос заблокирован." else reason
  { g with
    AutoWastedVoters := mapSet g.AutoWastedVoters voterID true
    VoteDisabled := mapSet g.VoteDisabled voterID reason
    Votes := mapSet g.Votes voterID
      { TargetID := "", Submitted := now, IsValid := false, ReasonText := reason } }

/-- One round of the loop `for _, p := range g.Players` of `startVoting`. -/
def startVotingStep (now : Int) (g : gameSession) (e : String × gamePlayer) : gameSession :=
  if e.2.Status ≠ playerAlive then g
  else if e.2.ForcedWastedVoteNext then
    let g1 := markVoteWasted g e.2.PlayerID "Голос потрачен." now
    { g1 with Players :=
        mapModify g1.Players e.1 (fun p => { p with ForcedWastedVoteNext := false }) }
  else g

/-- The function `startVoting`. -/
def startVoting (g : gameSession) (now : Int) : gameSession :=
  let g1 := clearActiveTimer g
  let g2 := { g1 with
    Phase := scenarioPhaseVoting
    VotePhase := votePhaseVoting
    Votes := []
    BaseVotes := []
    VoteResults := []
    VoteCandidates := []
    VoteDisabled := []
    VoteWeights := []
    AutoWastedVoters := []
    RevoteDisallow := []
    DoubleAgainst := ""
    TieBreakUsed := false }
  let g3 := { g2 with
    VoteCandidates := (aliveIDs g2).foldl (fun m id => mapSet m id true) g2.VoteCandidates }
  let g4 := (mapEntries g3.Players).foldl (startVotingStep now) g3
  { g4 with
    ResolutionNote := ""
    RoundRules := { g4.RoundRules with NoTalkUntilVoting := false }
    LastStageText := "Раунд " ++ fmtInt g4.Round ++ ". Голосование." }

/-! ## World cards (`world_logic.go`) -/

/-- The loop of `revealNextBunkerCard` on the bunker cards from position `i` on: the cards
after the reveal, and the position of the revealed card. -/
def revealFirstHidden (round : Int) : List worldFacedCardView → Nat →
    List worldFacedCardView × Option Nat
  | [], _ => ([], none)
  | c :: t, i =>
    if c.IsRevealed then
      let r := revealFirstHidden round t (i + 1)
      (c :: r.1, r.2)
    else ({ c with IsRevealed := true, RevealedAtRound := some round } :: t, some i)

/-- The function `revealNextBunkerCard`. -/
def revealNextBunkerCard (g : gameSession) (round : Int) : gameSession :=
  match revealFirstHidden round g.World.Bunker 0 with
  | (cards, some i) =>
    { g with
      World := { g.World with Bunker := cards }
      WorldEvent := some { EventType := "bunker_revealed", Index := (i : Int), Round := round } }
  | (_, none) => g

/-- The function `ensureAllBunkerCardsRevealed`. -/
def ensureAllBunkerCardsRevealed (g : gameSession) : gameSession :=
  let revealRound := maxInt 1 (g.Ruleset.VotesPerRnd.length : Int)
  { g with World := { g.World with Bunker := g.World.Bunker.map (fun c =>
      if c.IsRevealed then c
      else { c with IsRevealed := true, RevealedAtRound := some revealRound }) } }

/-! ## Ending and advancing (`game.go`) -/

/-- The test `g.PostGame != nil && g.PostGame.IsActive`. -/
def postGameActive (g : gameSession) : Bool :=
  match g.PostGame with
  | some pg => pg.IsActive
  | none => false

/-- The names of the alive players in `Order` (the `winners` loop of `finishGame`). -/
def aliveNames (g : gameSession) : List String :=
  g.Order.filterMap (fun id =>
    match mapGet? g.Players id with
    | some p => if p.Status = playerAlive then some p.Name else none
    | none => none)

/-- The function `finishGame`. -/
def finishGame (g : gameSession) (reason : String) (now : Int) :
    gameSession × gameActionResult :=
  if g.Phase = scenarioPhaseEnded ∧ postGameActive g then
    (g, { StateChanged := false, Events := [], Error := "" })
  else
    let g1 := ensureAllBunkerCardsRevealed (clearActiveTimer g)
    let g2 := { g1 with
      Phase := scenarioPhaseEnded
      VotePhase := ""
      CurrentTurnID := ""
      PostGame := some
        { IsActive := true, EnteredAt := now, Outcome := "", DecidedBy := "", DecidedAt := 0 } }
    let winners := aliveNames g2
    let g3 := { g2 with
      Winners := winners
      LastStageText :=
        if winners.length = 0 then "Игра завершена."
        else "Игра завершена. В бункер попали: " ++ joinStrings "," winners ++ "." }
    let (g4, event) := makeEvent g3 "gameEnd" g3.LastStageText now
    let event := if reason ≠ "" then
        { event with Message := event.Message ++ " (" ++ reason ++ ")" } else event
    (g4, { StateChanged := true, Events := [event], Error := "" })

/-- The function `shouldEnd`. -/
def shouldEnd (g : gameSession) : Bool :=
  if ((aliveIDs g).length : Int) ≤ g.Ruleset.BunkerSeats then true
  else if g.TotalExiles ≥ g.Ruleset.TotalExiles then true
  else false

/-- The function `startNextRoundOrEnd`. -/
def startNextRoundOrEnd (g : gameSession) (now : Int) : gameSession × gameActionResult :=
  if shouldEnd g then finishGame g "условия завершения достигнуты" now
  else
    let nextRound := g.Round + 1
    if nextRound > (g.Ruleset.VotesPerRnd.length : Int) then finishGame g "закончились раунды" now
    else
      let g1 := clearActiveTimer { g with Round := nextRound }
      let g2 := revealNextBunkerCard { g1 with WorldEvent := none } nextRound
      let g3 := { g2 with
        Phase := scenarioPhaseReveal
        VotePhase := ""
        Votes := []
        BaseVotes := []
        VoteResults := []
        VoteCandidates := []
        VoteDisabled := []
        VoteWeights := []
        AutoWastedVoters := []
        RevoteDisallow := []
        DoubleAgainst := ""
        TieBreakUsed := false
        RevealedThisRnd := [] }
      let g4 := { g3 with CurrentTurnID := firstAliveID g3 }
      let g5 := { g4 with
        VotesRemaining := votesForRound g4 nextRound
        LastRevealerID := ""
        ResolutionNote := ""
        RoundRules := { NoTalkUntilVoting := false, ForcedCategory := "" }
        LastStageText := "Раунд " ++ fmtInt nextRound ++ ". Раскрытие карт." }
      let g6 := scheduleRevealTimeoutIfNeeded g5 now
      let (g7, event) := makeEvent g6 "roundStart" g6.LastStageText now
      (g7, { StateChanged := true, Events := [event], Error := "" })

/-- An error result. -/
def errorResult (msg : String) : gameActionResult :=
  { StateChanged := false, Events := [], Error := msg }

/-- The zero result `gameActionResult{}`. -/
def emptyResult : gameActionResult := { StateChanged := false, Events := [], Error := "" }

/-- The result `gameActionResult{StateChanged: true}`. -/
def changedResult (events : List gameEvent) : gameActionResult :=
  { StateChanged := true, Events := events, Error := "" }

/-! ## Category tables (`game.go`) -/

/-- The table `categoryToDeckSlot` built by `buildCategoryToDeckSlot`. -/
def categoryToDeckSlot : GoMap deckSlotConfig :=
  [("Профессия", { deck := "Профессия", slot := "" }),
   ("Здоровье", { deck := "Здоровье", slot := "" }),
   ("Хобби", { deck := "Хобби", slot := "" }),
   ("Багаж", { deck := "Багаж", slot := "" }),
   ("Факт №1", { deck := "Факты", slot := "facts1" }),
   ("Факт №2", { deck := "Факты", slot := "facts2" }),
   ("Биология", { deck := "Биология", slot := "" })]

/-- The third loop of `resolveCategoryDeckSlot`, over `categoryKeyToLabel`. -/
def resolveByLabel (normalized : String) : GoMap String → Option deckSlotConfig
  | [] => none
  | (categoryKey, label) :: t =>
    if normalizeSpecialKey label ≠ normalized ∧ normalizeSpecialKey categoryKey ≠ normalized then
      resolveByLabel normalized t
    else if mapGetS categoryKeyToDeck categoryKey = "" then resolveByLabel normalized t
    else some { deck := mapGetS categoryKeyToDeck categoryKey,
                slot := mapGetS categoryKeyToSlot categoryKey }

/-- The function `resolveCategoryDeckSlot` (`none` is its `false`). -/
def resolveCategoryDeckSlot (category : String) : Option deckSlotConfig :=
  match mapGet? categoryToDeckSlot category with
  | some cfg => some cfg
  | none =>
    let normalized := normalizeSpecialKey category
    if normalized = "" then none
    else
      match categoryToDeckSlot.find? (fun e => normalizeSpecialKey e.1 = normalized) with
      | some e => some e.2
      | none => resolveByLabel normalized categoryKeyToLabel

/-- The function `healthDeckName`. -/
def healthDeckName : String := coreDecks.getD 1 (mapGetS categoryKeyToDeck "health")

/-- The test "the card lies in the deck (and slot) of `cfg`". -/
def cardInSlot (cfg : deckSlotConfig) (card : handCard) : Bool :=
  card.Deck = cfg.deck && (cfg.slot = "" || card.SlotKey = cfg.slot)

/-! ## Reveal phase -/

/-- Write `Revealed = true` through the pointer to the first card whose instance id is
`cardID`. -/
def revealFirstMatching (cardID : String) : List handCard → List handCard
  | [] => []
  | c :: t =>
    if c.InstanceID = cardID then { c with Revealed := true } :: t
    else c :: revealFirstMatching cardID t

/-- The function `enterRevealDiscussion` (its result is always the zero result). -/
def enterRevealDiscussion (g : gameSession) (now : Int) : gameSession :=
  let g1 := clearActiveTimer g
  let g2 := { g1 with Phase := scenarioPhaseRevealDiscussion, VotePhase := "" }
  let roundComplete := allAliveRevealed g2
  if roundComplete ∧ g2.VotesRemaining > 0 ∧ g2.Settings.EnablePreVoteDiscussionTime then
    schedulePhaseTimer g2 "pre_vote" g2.Settings.PreVoteDiscussionSeconds now
  else if g2.Settings.EnableRevealDiscussionTimer then
    schedulePhaseTimer g2 scenarioPhaseRevealDiscussion g2.Settings.RevealDiscussionSeconds now
  else g2

/-- The function `revealCard`. -/
def revealCard (g : gameSession) (actorID cardID : String) (now : Int) :
    gameSession × gameActionResult :=
  match mapGet? g.Players actorID with
  | none => (g, errorResult "Игрок не найден.")
  | some player =>
    if g.Phase = scenarioPhaseEnded then
      if (match g.PostGame with
          | none => true
          | some pg => !pg.IsActive || pg.Outcome ≠ "") then
        (g, errorResult "Игра уже завершена.")
      else if player.Status = playerLeftBunker then (g, errorResult "Вы покинули игру.")
      else
        match player.Hand.find? (fun c => c.InstanceID = cardID) with
        | none => (g, errorResult "Карта не найдена.")
        | some card =>
          if card.Revealed then (g, errorResult "Карта уже раскрыта.")
          else
            ({ g with Players := mapModify g.Players actorID (fun p =>
                { p with Hand := revealFirstMatching cardID p.Hand }) }, changedResult [])
    else if g.Phase ≠ scenarioPhaseReveal then (g, errorResult "Сейчас нельзя раскрывать карту.")
    else if actorID ≠ g.CurrentTurnID then (g, errorResult "Сейчас ход другого игрока.")
    else if player.Status ≠ playerAlive then
      (g, errorResult "Игрок не может выполнить действие.")
    else
      match player.Hand.find? (fun c => c.InstanceID = cardID) with
      | none => (g, errorResult "Карта не найдена.")
      | some targetCard =>
        if targetCard.Revealed then (g, errorResult "Карта уже раскрыта.")
        else
          let forced := g.RoundRules.ForcedCategory
          let cfg := resolveCategoryDeckSlot forced
          let hasForcedHidden : Bool :=
            match cfg with
            | some c => player.Hand.any (fun card => cardInSlot c card && !card.Revealed)
            | none => false
          let matchesForced : Bool :=
            match cfg with
            | some c => cardInSlot c targetCard
            | none => true
          if forced ≠ "" ∧ hasForcedHidden ∧ !matchesForced then
            (g, errorResult
              ("В этом раунде нужно раскрыть карту категории \"" ++ forced ++ "\"."))
          else
            let g1 := { g with Players := mapModify g.Players actorID (fun p =>
              { p with Hand := revealFirstMatching cardID p.Hand }) }
            let g2 :=
              if targetCard.Deck = healthDeckName ∧ g1.FirstHealthRevealerID = "" then
                { g1 with FirstHealthRevealerID := actorID }
              else g1
            let g3 := { g2 with
              RevealedThisRnd := mapSet g2.RevealedThisRnd actorID true
              LastRevealerID := actorID
              LastStageText := player.Name ++ " раскрыл карту." }
            let g4 := enterRevealDiscussion g3 now
            let (g5, event) := makeEvent g4 "info" g4.LastStageText now
            (g5, changedResult [event])

/-- The function `advanceAfterDiscussion`. -/
def advanceAfterDiscussion (g : gameSession) (now : Int) : gameSession × gameActionResult :=
  if g.Phase ≠ scenarioPhaseRevealDiscussion then (g, errorResult "Сейчас нельзя продолжить ход.")
  else
    let g1 := clearActiveTimer g
    if !allAliveRevealed g1 then
      let nextTurn := nextUnrevealedAliveAfter g1 g1.CurrentTurnID
      let nextTurn := if nextTurn = "" then firstAliveID g1 else nextTurn
      let g2 := { g1 with
        CurrentTurnID := nextTurn
        Phase := scenarioPhaseReveal
        LastStageText := "Следующий ход раскрытия." }
      let g3 := scheduleRevealTimeoutIfNeeded g2 now
      let (g4, event) := makeEvent g3 "info" g3.LastStageText now
      (g4, changedResult [event])
    else if g1.VotesRemaining > 0 then
      let g2 := startVoting g1 now
      let (g3, event) := makeEvent g2 "votingStart" g2.LastStageText now
      (g3, changedResult [event])
    else startNextRoundOrEnd g1 now

/-- The function `canContinue`. -/
def canContinue (g : gameSession) (actorID : String) : Bool :=
  match g.Settings.ContinuePermission with
  | "anyone" => true
  | "host_only" => actorID = g.HostID
  | "revealer_only" =>
    if g.Phase = scenarioPhaseRevealDiscussion then g.LastRevealerID = actorID
    else actorID = g.HostID
  | _ => actorID = g.HostID

/-! ## Votes (`game_runtime.go`) -/

/-- The function `copyVotes`: a map with the same bindings. -/
def copyVotes (input : GoMap voteRecord) : GoMap voteRecord := input

/-- The function `currentVoteSource`. -/
def currentVoteSource (g : gameSession) : GoMap voteRecord :=
  if g.VotePhase = votePhaseResolve ∧ mapLen g.VoteResults > 0 then g.VoteResults
  else if g.VotePhase = votePhaseResolve ∧ mapLen g.BaseVotes > 0 then g.BaseVotes
  else if g.VotePhase = votePhaseSpecialWindow ∧ mapLen g.BaseVotes > 0 then g.BaseVotes
  else if g.VotePhase = votePhaseResolve then g.VoteResults
  else g.Votes

/-- The function `enterVoteSpecialWindow`. -/
def enterVoteSpecialWindow (g : gameSession) (now : Int) : gameSession × gameActionResult :=
  let g1 := { g with
    BaseVotes := copyVotes g.Votes
    VotePhase := votePhaseSpecialWindow
    LastStageText := "Сбор голосов завершён. Окно спецусловий." }
  let g2 := clearActiveTimer g1
  let g3 :=
    if g2.Settings.EnablePostVoteDiscussion then
      schedulePhaseTimer g2 "post_vote" g2.Settings.PostVoteDiscussionSeconds now
    else g2
  let (g4, event) := makeEvent g3 "info" g3.LastStageText now
  (g4, changedResult [event])

/-- The function `resetVotesForRevote`. -/
def resetVotesForRevote (g : gameSession) (now : Int) : gameSession :=
  let g1 := { g with Votes := [], BaseVotes := [] }
  (mapKeys g1.AutoWastedVoters).foldl (fun acc voterID =>
    markVoteWasted acc voterID "Голос потрачен." now) g1

/-- The function `startTieBreakRevote`. -/
def startTieBreakRevote (g : gameSession) (candidates : List String) (now : Int) :
    gameSession :=
  let g1 := { g with
    TieBreakUsed := true
    VoteCandidates := candidates.foldl (fun m c => mapSet m c true) []
    RevoteDisallow := [] }
  let g2 := resetVotesForRevote g1 now
  let g3 := clearActiveTimer { g2 with VotePhase := votePhaseVoting }
  { g3 with LastStageText := "Ничья. Переголосование между топ-кандидатами." }

/-- The test `target != nil && target.BannedAgainst[playerID]` for `target := g.Players[id]`. -/
def targetBans (g : gameSession) (targetID voterID : String) : Bool :=
  match mapGet? g.Players targetID with
  | some target => mapGetB target.BannedAgainst voterID
  | none => false

/-- The body of the loop of `buildEffectiveVotes` for one player with a submitted record. -/
def effectiveVoteOf (g : gameSession) (playerID : String) (record : voteRecord) :
    effectiveVoteRecord :=
  let info : effectiveVoteRecord :=
    { TargetID := record.TargetID, Status := "voted", ReasonText := record.ReasonText,
      Weight := 1, Submitted := record.Submitted }
  let info := if !record.IsValid then { info with Status := "invalid" } else info
  let info := if info.TargetID = "" then { info with Status := "not_voted" } else info
  let info :=
    match mapGet? g.VoteDisabled playerID with
    | some reason =>
      { info with Status := "invalid",
                  ReasonText := if info.ReasonText = "" then reason else info.ReasonText }
    | none => info
  let info :=
    if info.TargetID ≠ "" ∧ mapGetB g.RevoteDisallow info.TargetID then
      { info with Status := "invalid",
                  ReasonText := if info.ReasonText = "" then "Нельзя голосовать за этого кандидата."
                                else info.ReasonText }
    else info
  let info :=
    if info.TargetID ≠ "" ∧ !mapGetB g.VoteCandidates info.TargetID then
      { info with Status := "invalid",
                  ReasonText := if info.ReasonText = "" then "Кандидат недоступен."
                                else info.ReasonText }
    else info
  let info :=
    if info.TargetID ≠ "" ∧ targetBans g info.TargetID playerID then
      { info with Status := "invalid",
                  ReasonText := if info.ReasonText = "" then "Голос против этого игрока запрещён."
                                else info.ReasonText }
    else info
  if info.Status = "voted" ∧ info.TargetID ≠ "" then
    let info :=
      match mapGet? g.VoteWeights playerID with
      | some weight => if weight > 0 then { info with Weight := weight } else info
      | none => info
    if g.DoubleAgainst ≠ "" ∧ g.DoubleAgainst = info.TargetID then
      { info with Weight := info.Weight * 2 }
    else info
  else { info with TargetID := "", Weight := 0 }

/-- One round of the loop of `buildEffectiveVotes`. -/
def buildEffectiveVotesStep (g : gameSession) (source : GoMap voteRecord)
    (out : GoMap effectiveVoteRecord) (playerID : String) : GoMap effectiveVoteRecord :=
  match mapGet? g.Players playerID with
  | none => out
  | some _ =>
    match mapGet? source playerID with
    | none =>
      mapSet out playerID
        { TargetID := "", Status := "not_voted", ReasonText := "", Weight := 0, Submitted := 0 }
    | some record => mapSet out playerID (effectiveVoteOf g playerID record)

/-- The function `buildEffectiveVotes`. -/
def buildEffectiveVotes (g : gameSession) (source : GoMap voteRecord) :
    GoMap effectiveVoteRecord :=
  g.Order.foldl (buildEffectiveVotesStep g source) []

/-- One round of the loop of `computeVoteTotals` that adds the weights. -/
def addVoteStep (g : gameSession) (totals : GoMap Int) (e : String × effectiveVoteRecord) :
    GoMap Int :=
  if e.2.Status ≠ "voted" ∨ e.2.TargetID = "" then totals
  else if !playerIsAlive g e.1 then totals
  else mapSet totals e.2.TargetID ((mapGet? totals e.2.TargetID).getD 0 + e.2.Weight)

/-- One round of the loop of `computeVoteTotals` that tracks the maximum. -/
def topStep (acc : Int × List String) (e : String × Int) : Int × List String :=
  if e.2 > acc.1 then (e.2, [e.1])
  else if e.2 = acc.1 then (acc.1, acc.2 ++ [e.1])
  else acc

/-- The function `computeVoteTotals`. -/
def computeVoteTotals (g : gameSession) (source : GoMap voteRecord) :
    GoMap Int × List String :=
  let totals0 : GoMap Int := (mapKeys g.VoteCandidates).foldl (fun t c => mapSet t c 0) []
  let effective := buildEffectiveVotes g source
  let totals := (mapEntries effective).foldl (addVoteStep g) totals0
  let top := ((mapEntries totals).foldl topStep (0, [])).2
  let top := if top.length = 0 then top ++ mapKeys g.VoteCandidates else top
  (totals, sortStrings top)

/-- The function `removeFromVoting`. -/
def removeFromVoting (g : gameSession) (targetID : String) : gameSession :=
  { g with
    VoteCandidates := mapDel g.VoteCandidates targetID
    Votes := mapDel g.Votes targetID
    BaseVotes := mapDel g.BaseVotes targetID
    VoteResults := mapDel g.VoteResults targetID
    VoteWeights := mapDel g.VoteWeights targetID
    VoteDisabled := mapDel g.VoteDisabled targetID
    AutoWastedVoters := mapDel g.AutoWastedVoters targetID
    RevoteDisallow := mapDel g.RevoteDisallow targetID
    DoubleAgainst := if g.DoubleAgainst = targetID then "" else g.DoubleAgainst }

/-! ## Elimination (`game_runtime.go`) -/

/-- The test of `handleOnOwnerEliminated` that lets an ability fire. -/
def ownerTriggerReady (special : specialConditionState) : Bool :=
  !special.Used && special.Definition.Trigger = "onOwnerEliminated" &&
    special.Definition.Implemented

/-- The threat key appended by an `addFinalThreat` effect. -/
def threatKeyOf (definition : specialDefinition) : String :=
  let threatKey := asString (mapGet? definition.Effect.Params "threatKey")
  if trimSpace threatKey = "" then definition.ID else threatKey

/-- The function `handleOnOwnerEliminated` for the player stored under `playerID`. -/
def handleOnOwnerEliminated (g : gameSession) (playerID : String) : gameSession :=
  match mapGet? g.Players playerID with
  | none => g
  | some player =>
    let threats := (player.Specials.filter (fun s =>
      ownerTriggerReady s && s.Definition.Effect.EffectType = "addFinalThreat")).map
        (fun s => threatKeyOf s.Definition)
    let fire : specialConditionState → specialConditionState :=
      fun s => if ownerTriggerReady s then { s with Used := true } else s
    { g with
      Players := mapModify g.Players playerID (fun p => { p with Specials := p.Specials.map fire })
      FinalThreats := g.FinalThreats ++ threats }

/-- The closure `aliveOrTarget` of `neighborIDs`. -/
def aliveOrTarget (g : gameSession) (includeEliminatedID id : String) : Bool :=
  id = includeEliminatedID || playerIsAlive g id

/-- The function `neighborIDs`: the positions `(index - step + len) % len` and
`(index + step) % len` for `step = 1 .. len` are scanned in that order. -/
def neighborIDs (g : gameSession) (playerID includeEliminatedID : String) : String × String :=
  let index := g.Order.indexOf playerID
  if index ≥ g.Order.length ∨ g.Order.length = 0 then ("", "")
  else
    let leftScan := (g.Order.take index).reverse ++ (g.Order.drop index).reverse
    let rightScan := g.Order.drop (index + 1) ++ g.Order.take (index + 1)
    ((leftScan.find? (aliveOrTarget g includeEliminatedID)).getD "",
     (rightScan.find? (aliveOrTarget g includeEliminatedID)).getD "")

/-- The leftmost match of the regular expression `\d{1,3}`. -/
def firstDigits (cs : List Char) : List Char :=
  ((cs.dropWhile (fun c => !c.isDigit)).takeWhile Char.isDigit).take 3

/-- The function `parseRevealedAge` (`none` is its `false`). -/
def parseRevealedAge (p : gamePlayer) : Option Int :=
  match p.Hand.find? (fun card => card.Deck = "Биология" && card.Revealed) with
  | none => none
  | some card =>
    let m := String.mk (firstDigits card.Label.data)
    if m = "" then none
    else
      let age := asInt (some (.str m)) (-1)
      if age < 1 ∨ age > 120 then none else some age

/-- The state of the loop of `computeAgeExtremes`. -/
structure ageScan where
  youngestAge : Int
  oldestAge : Int
  youngestID : String
  oldestID : String
  deriving DecidableEq, Repr

/-- One round of the loop of `computeAgeExtremes`. -/
def ageScanStep (g : gameSession) (acc : ageScan) (playerID : String) : ageScan :=
  match mapGet? g.Players playerID with
  | none => acc
  | some p =>
    if p.Status ≠ playerAlive then acc
    else
      match parseRevealedAge p with
      | none => acc
      | some age =>
        let acc1 := if age < acc.youngestAge then
            { acc with youngestAge := age, youngestID := playerID } else acc
        if age > acc1.oldestAge then { acc1 with oldestAge := age, oldestID := playerID }
        else acc1

/-- The function `computeAgeExtremes` (`none` is its `ok = false`). -/
def computeAgeExtremes (g : gameSession) : Option (String × String) :=
  let r := g.Order.foldl (ageScanStep g)
    { youngestAge := 1073741824, oldestAge := -1, youngestID := "", oldestID := "" }
  if r.youngestID = "" ∨ r.oldestID = "" then none else some (r.youngestID, r.oldestID)

/-- The `switch condition` of `handleSecretEliminationTriggers`. -/
def secretConditionHolds (g : gameSession) (ages : Option (String × String))
    (playerID eliminatedID condition : String) : Bool :=
  match condition with
  | "leftNeighborEliminated" => (neighborIDs g playerID eliminatedID).1 = eliminatedID
  | "rightNeighborEliminated" => (neighborIDs g playerID eliminatedID).2 = eliminatedID
  | "youngestByRevealedAgeEliminated" =>
    (match ages with
     | some a => a.1 = eliminatedID
     | none => false)
  | "oldestByRevealedAgeEliminated" =>
    (match ages with
     | some a => a.2 = eliminatedID
     | none => false)
  | "firstRevealedHealthEliminated" =>
    g.FirstHealthRevealerID ≠ "" && g.FirstHealthRevealerID = eliminatedID
  | _ => false

/-- The test of `handleSecretEliminationTriggers` that makes an ability of `playerID` fire. -/
def secretFires (g : gameSession) (ages : Option (String × String))
    (playerID eliminatedID : String) (special : specialConditionState) : Bool :=
  !special.Used && special.Definition.Trigger = "secret_onEliminate" &&
    special.Definition.Implemented &&
    secretConditionHolds g ages playerID eliminatedID
      (asString (mapGet? special.Definition.Effect.Params "condition"))

/-- The inner loop of `handleSecretEliminationTriggers` on one player. -/
def applySecretTriggers (g : gameSession) (ages : Option (String × String))
    (playerID eliminatedID : String) (p : gamePlayer) : gamePlayer :=
  { p with
    Specials := p.Specials.map (fun s =>
      if secretFires g ages playerID eliminatedID s then { s with Used := true } else s)
    ForcedWastedVoteNext :=
      p.ForcedWastedVoteNext || p.Specials.any (secretFires g ages playerID eliminatedID) }

/-- The function `handleSecretEliminationTriggers`. -/
def handleSecretEliminationTriggers (g : gameSession) (eliminatedID : String) : gameSession :=
  let ages := computeAgeExtremes g
  g.Order.foldl (fun acc playerID =>
    { acc with Players :=
        mapModify acc.Players playerID (applySecretTriggers acc ages playerID eliminatedID) }) g

/-- The function `applyElimination`. -/
def applyElimination (g : gameSession) (targetID : String) : gameSession :=
  match mapGet? g.Players targetID with
  | none => g
  | some target =>
    if target.Status ≠ playerAlive then g
    else
      let g1 := { g with
        Players := mapModify g.Players targetID (fun p => { p with Status := playerEliminated })
        TotalExiles := g.TotalExiles + 1
        LastEliminatedID := targetID
        VotesRemaining := if g.VotesRemaining > 0 then g.VotesRemaining - 1 else g.VotesRemaining }
      removeFromVoting (handleSecretEliminationTriggers (handleOnOwnerEliminated g1 targetID)
        targetID) targetID

/-- The function `playerName`. -/
def playerName (g : gameSession) (playerID : String) : String :=
  match mapGet? g.Players playerID with
  | none => "игрок"
  | some p => p.Name

/-! ## Voting actions (`game.go`) -/

/-- The vote source read by `finalizeVoting`: `currentVoteSource`, replaced by `BaseVotes`
when it is empty and `BaseVotes` is not. -/
def finalizeSource (g : gameSession) : GoMap voteRecord :=
  if mapLen (currentVoteSource g) = 0 ∧ mapLen g.BaseVotes > 0 then g.BaseVotes
  else currentVoteSource g

/-- The function `finalizeVoting`. -/
def finalizeVoting (g : gameSession) (actorID : String) (now : Int) :
    gameSession × gameActionResult :=
  if g.Phase ≠ scenarioPhaseVoting then (g, errorResult "voting is not active")
  else if g.VotePhase ≠ votePhaseSpecialWindow ∧ g.VotePhase ≠ votePhaseVoting then
    (g, errorResult "voting already finalized")
  else if actorID ≠ g.HostID then (g, errorResult "only CONTROL can finalize voting")
  else
    let g1 := clearActiveTimer g
    let source := finalizeSource g1
    let g2 := { g1 with VoteResults := copyVotes source }
    let topCandidates := (computeVoteTotals g2 source).2
    if topCandidates.length > 1 ∧ !g2.TieBreakUsed then
      let g3 := startTieBreakRevote g2 topCandidates now
      let (g4, event) := makeEvent g3 "info" g3.LastStageText now
      (g4, changedResult [event])
    else
      let pick := intn g2.rng topCandidates.length
      let eliminatedID :=
        if topCandidates.length > 0 then topCandidates.getD pick.1 "" else ""
      let g3 := if topCandidates.length > 0 then { g2 with rng := pick.2 } else g2
      let (g4, events) : gameSession × List gameEvent :=
        if eliminatedID ≠ "" then
          let e1 := applyElimination g3 eliminatedID
          if e1.LastEliminatedID ≠ "" then
            let e2 := { e1 with ResolutionNote :=
              "Voting result: " ++ playerName e1 e1.LastEliminatedID ++ " eliminated." }
            let (e3, event) := makeEvent e2 "elimination" e2.ResolutionNote now
            (e3, [event])
          else (e1, [])
        else
          let e1 := { g3 with ResolutionNote := "Tie: no one eliminated." }
          let (e2, event) := makeEvent e1 "info" e1.ResolutionNote now
          (e2, [event])
      let g5 := { g4 with
        Phase := scenarioPhaseResolution
        VotePhase := votePhaseResolve
        LastStageText := g4.ResolutionNote
        Votes := [] }
      if shouldEnd g5 then
        let fin := finishGame g5 "after_voting" now
        (fin.1, changedResult (events ++ fin.2.Events))
      else
        (schedulePhaseTimer g5 timerKindResolutionAuto 2 now, changedResult events)

/-- The function `continueRound`. -/
def continueRound (g : gameSession) (actorID : String) (now : Int) :
    gameSession × gameActionResult :=
  if g.Phase = scenarioPhaseEnded then (g, errorResult "Игра уже завершена.")
  else if !canContinue g actorID then (g, errorResult "Недостаточно прав для продолжения.")
  else if g.Phase = scenarioPhaseRevealDiscussion then advanceAfterDiscussion g now
  else if g.Phase = scenarioPhaseResolution then
    if shouldEnd g then finishGame g "условия завершения достигнуты" now
    else if g.VotesRemaining > 0 then
      let g1 := startVoting g now
      let (g2, event) := makeEvent g1 "votingStart" g1.LastStageText now
      (g2, changedResult [event])
    else startNextRoundOrEnd g now
  else if g.Phase = scenarioPhaseVoting then
    if g.VotePhase = votePhaseSpecialWindow then finalizeVoting g actorID now
    else (g, errorResult "Сначала завершите голосование.")
  else (g, errorResult "Команда недоступна в текущей фазе.")

/-- The function `vote`. -/
def vote (g : gameSession) (actorID targetID : String) (now : Int) :
    gameSession × gameActionResult :=
  if g.Phase ≠ scenarioPhaseVoting ∨ g.VotePhase ≠ votePhaseVoting then
    (g, errorResult "Сейчас нет активного голосования.")
  else if actorID = targetID then (g, errorResult "Нельзя голосовать за себя.")
  else if !mapGetB g.VoteCandidates targetID then (g, errorResult "Недопустимый кандидат.")
  else if mapGetB g.RevoteDisallow targetID then
    (g, errorResult "Нельзя голосовать за этого кандидата.")
  else
    match mapGet? g.VoteDisabled actorID with
    | some reason => (g, errorResult (if reason = "" then "Ваш голос заблокирован." else reason))
    | none =>
      match mapGet? g.Players actorID, mapGet? g.Players targetID with
      | some actor, some target =>
        if actor.Status ≠ playerAlive then (g, errorResult "Вы исключены из игры.")
        else if target.Status ≠ playerAlive then (g, errorResult "Кандидат не в игре.")
        else if mapGetB target.BannedAgainst actorID then
          (g, errorResult "Вы не можете голосовать против этого игрока.")
        else if mapHas g.Votes actorID then (g, errorResult "Вы уже проголосовали.")
        else
          let record : voteRecord :=
            { TargetID := targetID, Submitted := now, IsValid := true, ReasonText := "" }
          let g1 := { g with Votes := mapSet g.Votes actorID record }
          if mapLen g1.Votes ≥ (aliveIDs g1).length then enterVoteSpecialWindow g1 now
          else (g1, changedResult [])
      | _, _ => (g, errorResult "Игрок не найден.")

/-- The function `kickPlayer`. -/
def kickPlayer (g : gameSession) (targetID : String) (now : Int) :
    gameSession × gameActionResult :=
  match mapGet? g.Players targetID with
  | none => (g, errorResult "Игрок не найден.")
  | some player =>
    if player.Status ≠ playerAlive then (g, errorResult "Игрок уже неактивен.")
    else
      let g1 := applyElimination g targetID
      let g2 := removeFromVoting
        { g1 with ResolutionNote := "Игрок " ++ player.Name ++ " исключён вручную." } targetID
      let g3 :=
        if g2.CurrentTurnID = targetID then
          { g2 with CurrentTurnID := nextUnrevealedAliveAfter g2 targetID }
        else g2
      if shouldEnd g3 then
        let fin := finishGame g3 "ручное исключение" now
        let (g5, event) := makeEvent fin.1 "elimination" fin.1.ResolutionNote now
        (g5, changedResult (event :: fin.2.Events))
      else
        let (g4, event) := makeEvent g3 "elimination" g3.ResolutionNote now
        (g4, changedResult [event])

/-! ## Cards and ability instances -/

/-- The function `drawRandomCard`: the card (`none` is `ok = false`), the rest of the pool
and the rest of the random stream. -/
def drawRandomCard (pool : List assetCard) (rng : List Nat) :
    Option assetCard × List assetCard × List Nat :=
  if pool.length = 0 then (none, pool, rng)
  else
    let pick := intn rng pool.length
    let zero : assetCard := { ID := "", Deck := "", Label := "" }
    let last := pool.length - 1
    (some (pool.getD pick.1 zero), (pool.set pick.1 (pool.getD last zero)).take last, pick.2)

/-- The function `drawCardFromDeck`. -/
def drawCardFromDeck (g : gameSession) (deckName : String) : gameSession × Option assetCard :=
  let r := drawRandomCard ((mapGet? g.DeckPools deckName).getD []) g.rng
  ({ g with DeckPools := mapSet g.DeckPools deckName r.2.1, rng := r.2.2 }, r.1)

/-- The function `nextCardInstanceID`. -/
def nextCardInstanceID (g : gameSession) (playerID : String) : gameSession × String :=
  let g1 := { g with CardCounter := g.CardCounter + 1 }
  (g1, playerID ++ "-" ++ fmtInt g1.CardCounter)

/-- The function `nextSpecialInstanceID`. -/
def nextSpecialInstanceID (g : gameSession) (playerID : String) : gameSession × String :=
  let g1 := { g with specialCounter := g.specialCounter + 1 }
  (g1, "special-" ++ playerID ++ "-" ++ fmtInt g1.specialCounter)

/-- The closure `drawFor` of `drawInitialHandForPlayer`. -/
def drawFor (g : gameSession) (playerID deckName slot : String) : gameSession × handCard :=
  let (g1, card) := drawCardFromDeck g deckName
  let (g2, instanceID) := nextCardInstanceID g1 playerID
  match card with
  | none =>
    (g2, { InstanceID := instanceID, CardID := "", Deck := deckName, SlotKey := slot,
           Label := "Нет карты", Revealed := false, Missing := true })
  | some c =>
    (g2, { InstanceID := instanceID, CardID := c.ID, Deck := c.Deck, SlotKey := slot,
           Label := c.Label, Revealed := false, Missing := false })

/-- The function `drawInitialHandForPlayer`. -/
def drawInitialHandForPlayer (g : gameSession) (playerID : String) :
    gameSession × List handCard :=
  let r := coreDecks.foldl (fun (acc : gameSession × List handCard) deck =>
    let d := drawFor acc.1 playerID deck ""
    (d.1, acc.2 ++ [d.2])) (g, [])
  let f1 := drawFor r.1 playerID factsDeck "facts1"
  let f2 := drawFor f1.1 playerID factsDeck "facts2"
  (f2.1, r.2 ++ [f1.2, f2.2])

/-- The zero value `specialDefinition{}`. -/
def zeroSpecialDefinition : specialDefinition :=
  { ID := "", Title := "", Text := "", Trigger := "", Effect := { EffectType := "", Params := [] },
    Implemented := false, Requires := [], ChoiceKind := "", TargetScope := "",
    AllowSelf := false, AssetID := "" }

/-- The function `drawSpecialFromPool`. -/
def drawSpecialFromPool (g : gameSession) : gameSession × specialDefinition :=
  if g.specialPool.length = 0 then
    (g, { ID := "missing-special", Title := "Нет доступного условия",
          Text := "Колода особых условий пуста.", Trigger := "active",
          Effect := { EffectType := "none", Params := [] }, Implemented := false,
          Requires := [], ChoiceKind := "none", TargetScope := "", AllowSelf := false,
          AssetID := "" })
  else
    let pick := intn g.rng g.specialPool.length
    let last := g.specialPool.length - 1
    let definition := g.specialPool.getD pick.1 zeroSpecialDefinition
    ({ g with
       rng := pick.2
       specialPool :=
         (g.specialPool.set pick.1 (g.specialPool.getD last zeroSpecialDefinition)).take last },
     definition)

/-! ### Asset references of abilities -/

/-- The call `strings.ReplaceAll(s, "\\", "/")`. -/
def slashed (cs : List Char) : List Char := cs.map (fun c => if c = '\\' then '/' else c)

/-- The call `strings.TrimPrefix`. -/
def trimPrefix (pre cs : List Char) : List Char :=
  if pre.isPrefixOf cs then cs.drop pre.length else cs

/-- The function `trimCardFileExt`. -/
def trimCardFileExt (name : String) : String :=
  let lower := (toLower name).data
  match [".png", ".jpg", ".jpeg", ".webp"].find? (fun (ext : String) =>
      ext.data.isSuffixOf lower) with
  | some ext => String.mk (name.data.take (name.data.length - ext.data.length))
  | none => name

/-- The function `normalizeSpecialAssetRef`. -/
def normalizeSpecialAssetRef (value : String) : String :=
  let raw := trimSpace value
  if raw = "" then ""
  else
    let r := trimPrefix "decks/".data (trimPrefix "assets/".data
      (trimPrefix "./".data (trimPrefix "/".data (slashed raw.data))))
    normalizeSpecialKey (trimCardFileExt (String.mk r))

/-- The function `normalizeAssetIDPath`. -/
def normalizeAssetIDPath (raw : String) : String :=
  let value := trimSpace (sanitizeHumanText raw raw)
  if value = "" then ""
  else
    let v1 := trimPrefix "/".data (slashed value.data)
    let v2 := if "assets/".data.isPrefixOf (toLower (String.mk v1)).data then v1.drop 7 else v1
    if "decks/".data.isPrefixOf (toLower (String.mk v2)).data then String.mk v2
    else "decks/" ++ String.mk (trimPrefix "/".data v2)

/-- The function `filepath.Base` on a path with `/` separators. -/
def pathBase (cs : List Char) : List Char :=
  if cs = [] then ['.']
  else
    let stripped := (cs.reverse.dropWhile (fun c => c = '/')).reverse
    if stripped = [] then ['/']
    else (stripped.reverse.takeWhile (fun c => c ≠ '/')).reverse

/-- The function `specialLookupCandidates`. -/
def specialLookupCandidates (definition : specialDefinition) : List String :=
  let base := [definition.AssetID, definition.Title, definition.ID,
    sanitizeHumanText definition.AssetID definition.AssetID,
    sanitizeHumanText definition.Title definition.Title,
    sanitizeHumanText definition.ID definition.ID]
  base.foldl (fun expanded item =>
    let item := trimSpace item
    if item = "" then expanded
    else
      let sl := slashed item.data
      let leaf := pathBase sl
      if leaf ≠ ['.'] ∧ leaf ≠ [] ∧ leaf ≠ sl then
        expanded ++ [item, String.mk leaf, trimCardFileExt (String.mk leaf)]
      else expanded ++ [item]) []

/-- The call `strings.Contains(s, sub)`. -/
def containsChars (sub : List Char) : List Char → Bool
  | [] => sub.isPrefixOf []
  | c :: t => sub.isPrefixOf (c :: t) || containsChars sub t

/-- The closure `addCandidate` of `buildSpecialAssetLookup`. -/
def addCandidate (lookup : GoMap String) (key assetID : String) : GoMap String :=
  let normalized := normalizeSpecialAssetRef key
  if normalized = "" ∨ assetID = "" then lookup
  else if mapHas lookup normalized then lookup
  else mapSet lookup normalized assetID

/-- The function `buildSpecialAssetLookup`. -/
def buildSpecialAssetLookup (g : gameSession) : GoMap String :=
  (mapEntries g.DeckPools).foldl (fun lookup e =>
    let normalizedDeck := normalizeSpecialKey e.1
    if normalizedDeck = "" ∨
        (!containsChars (normalizeSpecialKey specialDeckCategoryName).data normalizedDeck.data ∧
         !containsChars "special".data normalizedDeck.data) then lookup
    else
      e.2.foldl (fun lookup card =>
        if card.ID = "" then lookup
        else
          let label := trimSpace (sanitizeHumanText card.Label card.Label)
          let deck := trimSpace (sanitizeHumanText e.1 e.1)
          let baseName := String.mk (pathBase (slashed card.ID.data))
          let l1 := addCandidate lookup card.ID card.ID
          let l2 := addCandidate l1 (String.mk (trimPrefix "decks/".data card.ID.data)) card.ID
          let l3 := addCandidate l2 label card.ID
          let l4 := addCandidate l3 baseName card.ID
          let l5 := addCandidate l4 (trimCardFileExt baseName) card.ID
          let l6 := addCandidate l5 (deck ++ "/" ++ baseName) card.ID
          addCandidate l6 (deck ++ "/" ++ trimCardFileExt baseName) card.ID) lookup) []

/-- The function `resolveSpecialAssetID`. -/
def resolveSpecialAssetID (definition : specialDefinition) (assetLookup : GoMap String) :
    String :=
  let found := (specialLookupCandidates definition).findSome? (fun candidate =>
    let key := normalizeSpecialAssetRef candidate
    if key = "" then none else mapGet? assetLookup key)
  match (if mapLen assetLookup > 0 then found else none) with
  | some assetID => assetID
  | none => normalizeAssetIDPath definition.AssetID

/-- The table `implementedSpecialDefinitions` of `specials_data.go`. -/
def implementedSpecialDefinitions : List specialDefinition :=
  [
  { ID := "ban_vote_against", Title := "Будь Другом",
    Text := "Выбранный игрок до конца игры не голосует против тебя.",
    Trigger := "active",
    Effect := { EffectType := "banVoteAgainst", Params := [("scope", .str "untilGameEnd")] },
    Implemented := true, Requires := ["phase=voting"],
    ChoiceKind := "player", TargetScope := "any_alive",
    AllowSelf := false, AssetID := "" },
  { ID := "vote_weight", Title := "Громкий Голос",
    Text := "Твой голос считается за два в этом голосовании.",
    Trigger := "onVote",
    Effect := { EffectType := "voteWeight", Params := [("weight", .num 2), ("scope", .str "thisVoting")] },
    Implemented := true, Requires := ["phase=voting"], ChoiceKind := "none", TargetScope := "",
    AllowSelf := false, AssetID := "" },
  { ID := "redeal_baggage", Title := "Давайте На Чистоту Багажа",
    Text := "Перераздать все раскрытые карты багажа между живыми игроками.",
    Trigger := "active",
    Effect := { EffectType := "redealAllRevealed", Params := [("category", .str "baggage"), ("scope", .str "aliveOnly")] },
    Implemented := true, Requires := ["phase=any"], ChoiceKind := "none", TargetScope := "",
    AllowSelf := false, AssetID := "" },
  { ID := "redeal_biology", Title := "Давайте На Чистоту Биология",
    Text := "Перераздать все раскрытые карты биологии между живыми игроками.",
    Trigger := "active",
    Effect := { EffectType := "redealAllRevealed", Params := [("category", .str "biology"), ("scope", .str "aliveOnly")] },
    Implemented := true, Requires := ["phase=any"], ChoiceKind := "none", TargetScope := "",
    AllowSelf := false, AssetID := "" },
  { ID := "redeal_health", Title := "Давайте На Чистоту Здоровья",
    Text := "Перераздать все раскрытые карты здоровья между живыми игроками.",
    Trigger := "active",
    Effect := { EffectType := "redealAllRevealed", Params := [("category", .str "health"), ("scope", .str "aliveOnly")] },
    Implemented := true, Requires := ["phase=any"], ChoiceKind := "none", TargetScope := "",
    AllowSelf := false, AssetID := "" },
  { ID := "redeal_facts", Title := "Давайте На Чистоту Фактов",
    Text := "Перераздать раскрытые факты между живыми игроками.",
    Trigger := "active",
    Effect := { EffectType := "redealAllRevealed", Params := [("category", .str "facts"), ("scope", .str "aliveOnly")] },
    Implemented := true, Requires := ["phase=any"], ChoiceKind := "none", TargetScope := "",
    AllowSelf := false, AssetID := "" },
  { ID := "redeal_hobby", Title := "Давайте На Чистоту Хобби",
    Text := "Перераздать раскрытые карты хобби между живыми игроками.",
    Trigger := "active",
    Effect := { EffectType := "redealAllRevealed", Params := [("category", .str "hobby"), ("scope", .str "aliveOnly")] },
    Implemented := true, Requires := ["phase=any"], ChoiceKind := "none", TargetScope := "",
    AllowSelf := false, AssetID := "" },
  { ID := "disable_vote", Title := "Дискредитация",
    Text := "Лиши выбранного игрока голоса в текущем голосовании.",
    Trigger := "active",
    Effect := { EffectType := "disableVote", Params := [("scope", .str "thisVoting")] },
    Implemented := true, Requires := ["phase=voting"],
    ChoiceKind := "player", TargetScope := "any_alive",
    AllowSelf := false, AssetID := "" },
  { ID := "protect_left", Title := "Защити Игрока Слева",
    Text := "Если левый сосед исключён, твой следующий голос тратится.",
    Trigger := "secret_onEliminate",
    Effect := { EffectType := "forcedWastedVoteOnNextVoting", Params := [("condition", .str "leftNeighborEliminated")] },
    Implemented := true, Requires := ["needsNeighborIndexing"],
    ChoiceKind := "none", TargetScope := "",
    AllowSelf := false, AssetID := "" },
  { ID := "protect_right", Title := "Защити Игрока Справа",
    Text := "Если правый сосед исключён, твой следующий голос тратится.",
    Trigger := "secret_onEliminate",
    Effect := { EffectType := "forcedWastedVoteOnNextVoting", Params := [("condition", .str "rightNeighborEliminated")] },
    Implemented := true, Requires := ["needsNeighborIndexing"],
    ChoiceKind := "none", TargetScope := "",
    AllowSelf := false, AssetID := "" },
  { ID := "protect_youngest", Title := "Защити Младшего",
    Text := "Если исключён самый младший по раскрытому возрасту, твой следующий голос тратится.",
    Trigger := "secret_onEliminate",
    Effect := { EffectType := "forcedWastedVoteOnNextVoting", Params := [("condition", .str "youngestByRevealedAgeEliminated")] },
    Implemented := true, Requires := ["ageFieldAvailable", "someRevealedAges"],
    ChoiceKind := "none", TargetScope := "",
    AllowSelf := false, AssetID := "" },
  { ID := "protect_brave", Title := "Защити Смелого",
    Text := "Если исключён первый раскрывший здоровье, твой следующий голос тратится.",
    Trigger := "secret_onEliminate",
    Effect := { EffectType := "forcedWastedVoteOnNextVoting", Params := [("condition", .str "firstRevealedHealthEliminated")] },
    Implemented := true, Requires := ["trackFirstRevealHealth"],
    ChoiceKind := "none", TargetScope := "",
    AllowSelf := false, AssetID := "" },
  { ID := "protect_oldest", Title := "Защити Старшего",
    Text := "Если исключён самый старший по раскрытому возрасту, твой следующий голос тратится.",
    Trigger := "secret_onEliminate",
    Effect := { EffectType := "forcedWastedVoteOnNextVoting", Params := [("condition", .str "oldestByRevealedAgeEliminated")] },
    Implemented := true, Requires := ["ageFieldAvailable", "someRevealedAges"],
    ChoiceKind := "none", TargetScope := "",
    AllowSelf := false, AssetID := "" },
  { ID := "compromat", Title := "Компромат",
    Text := "Голоса против выбранного игрока считаются двойными, твой голос тратится.",
    Trigger := "active",
    Effect := { EffectType := "doubleVotesAgainst_and_disableSelfVote", Params := [("scope", .str "thisVoting")] },
    Implemented := true, Requires := ["phase=voting"],
    ChoiceKind := "player", TargetScope := "any_alive",
    AllowSelf := false, AssetID := "" },
  { ID := "need_more", Title := "Мне Нужнее",
    Text := "Забери багаж у выбранного игрока и выдай ему новое спецусловие.",
    Trigger := "active",
    Effect := { EffectType := "stealBaggage_and_giveSpecial", Params := [("giveSpecialCount", .num 1)] },
    Implemented := true, Requires := ["targetHasBaggage"],
    ChoiceKind := "player", TargetScope := "any_alive",
    AllowSelf := false, AssetID := "" },
  { ID := "silence", Title := "Молчание",
    Text := "До голосования нельзя говорить.",
    Trigger := "onRevealOrActive",
    Effect := { EffectType := "setRoundRule", Params := [("noTalkUntilVoting", .bool true), ("scope", .str "thisRound")] },
    Implemented := true, Requires := ["phase=reveal"], ChoiceKind := "none", TargetScope := "",
    AllowSelf := false, AssetID := "" },
  { ID := "swap_baggage", Title := "Обмен Карт Багаж",
    Text := "Поменяйся раскрытой картой багажа с соседом.",
    Trigger := "active",
    Effect := { EffectType := "swapRevealedWithNeighbor", Params := [("category", .str "baggage")] },
    Implemented := true, Requires := ["targetHasRevealedSameCategory", "needsNeighborIndexing"],
    ChoiceKind := "neighbor", TargetScope := "neighbors",
    AllowSelf := false, AssetID := "" },
  { ID := "swap_biology", Title := "Обмен Карт Биология",
    Text := "Поменяйся раскрытой картой биологии с соседом.",
    Trigger := "active",
    Effect := { EffectType := "swapRevealedWithNeighbor", Params := [("category", .str "biology")] },
    Implemented := true, Requires := ["targetHasRevealedSameCategory", "needsNeighborIndexing"],
    ChoiceKind := "neighbor", TargetScope := "neighbors",
    AllowSelf := false, AssetID := "" },
  { ID := "swap_health", Title := "Обмен Карт Здоровье",
    Text := "Поменяйся раскрытой картой здоровья с соседом.",
    Trigger := "active",
    Effect := { EffectType := "swapRevealedWithNeighbor", Params := [("category", .str "health")] },
    Implemented := true, Requires := ["targetHasRevealedSameCategory", "needsNeighborIndexing"],
    ChoiceKind := "neighbor", TargetScope := "neighbors",
    AllowSelf := false, AssetID := "" },
  { ID := "swap_facts", Title := "Обмен Карт Фактов",
    Text := "Поменяйся раскрытой картой факта с соседом.",
    Trigger := "active",
    Effect := { EffectType := "swapRevealedWithNeighbor", Params := [("category", .str "facts")] },
    Implemented := true, Requires := ["targetHasRevealedSameCategory", "needsNeighborIndexing"],
    ChoiceKind := "neighbor", TargetScope := "neighbors",
    AllowSelf := false, AssetID := "" },
  { ID := "swap_hobby", Title := "Обмен Карт Хобби",
    Text := "Поменяйся раскрытой картой хобби с соседом.",
    Trigger := "active",
    Effect := { EffectType := "swapRevealedWithNeighbor", Params := [("category", .str "hobby")] },
    Implemented := true, Requires := ["targetHasRevealedSameCategory", "needsNeighborIndexing"],
    ChoiceKind := "neighbor", TargetScope := "neighbors",
    AllowSelf := false, AssetID := "" },
  { ID := "plan_b", Title := "План Б",
    Text := "Запускает переголосование. Лидеров предыдущего голоса нельзя выбрать.",
    Trigger := "active",
    Effect := { EffectType := "forceRevote", Params := [("disallowPreviousCandidate", .bool true)] },
    Implemented := true, Requires := ["phase=voting", "votingStarted"],
    ChoiceKind := "none", TargetScope := "",
    AllowSelf := false, AssetID := "" },
  { ID := "replace_health", Title := "Просроченные Таблетки",
    Text := "Замени раскрытую карту здоровья у выбранного игрока.",
    Trigger := "active",
    Effect := { EffectType := "replaceRevealedCard", Params := [("category", .str "health"), ("source", .str "deckRandom")] },
    Implemented := true, Requires := ["targetHasRevealedHealth"],
    ChoiceKind := "player", TargetScope := "any_alive",
    AllowSelf := false, AssetID := "" },
  { ID := "force_category", Title := "Прямой Вопрос",
    Text := "Выбери категорию, которую все обязаны раскрыть в этом раунде.",
    Trigger := "active",
    Effect := { EffectType := "forceRevealCategoryForAll", Params := [("scope", .str "thisRound"), ("onlyIfHidden", .bool true)] },
    Implemented := true, Requires := ["phase=reveal"], ChoiceKind := "category", TargetScope := "",
    AllowSelf := false, AssetID := "" },
  { ID := "final_threat", Title := "Тайная Угроза",
    Text := "При исключении владельца добавляет финальную угрозу.",
    Trigger := "onOwnerEliminated",
    Effect := { EffectType := "addFinalThreat", Params := [("threatKey", .str "raiders_know_bunker")] },
    Implemented := true, Requires := ["ownerEliminated"], ChoiceKind := "none", TargetScope := "",
    AllowSelf := false, AssetID := "" },
  { ID := "replace_profession", Title := "Фейковый Диплом",
    Text := "Замени раскрытую карту профессии у выбранного игрока.",
    Trigger := "active",
    Effect := { EffectType := "replaceRevealedCard", Params := [("category", .str "profession"), ("source", .str "deckRandom")] },
    Implemented := true, Requires := ["targetHasRevealedProfession"],
    ChoiceKind := "player", TargetScope := "any_alive",
    AllowSelf := false, AssetID := "" },
  { ID := "discard_health", Title := "Хорошие Таблетки",
    Text := "Сбрасывает раскрытую карту здоровья и выдаёт новую скрытую.",
    Trigger := "active",
    Effect := { EffectType := "discardRevealedAndDealHidden", Params := [("category", .str "health"), ("dealFrom", .str "healthDeck")] },
    Implemented := true, Requires := ["targetHasRevealedHealth"],
    ChoiceKind := "player", TargetScope := "any_alive",
    AllowSelf := false, AssetID := "" }
  ]

/-- The function `buildDevChoiceDefinition` (`none` is its `false`). -/
def buildDevChoiceDefinition (playerID : String) : Option specialDefinition :=
  let found :=
    match implementedSpecialDefinitions.find? (fun item =>
        item.Effect.EffectType = "forceRevealCategoryForAll") with
    | some item => some item
    | none => implementedSpecialDefinitions.find? (fun item =>
        item.ChoiceKind ≠ "" && item.ChoiceKind ≠ "none")
  match found with
  | none => none
  | some base =>
    let copyDef := { base with
      ID := "dev-choice-" ++ playerID
      Title := trimSpace base.Title ++ "(DEV)"
      Implemented := true }
    if base.Effect.EffectType = "forceRevealCategoryForAll" then
      some { copyDef with Requires := [], ChoiceKind := "category", TargetScope := "",
                          AllowSelf := false }
    else some copyDef

/-- The function `assignInitialSpecialsForPlayer`: the session and the player's new
`Specials`. -/
def assignInitialSpecialsForPlayer (g : gameSession) (playerID : String)
    (assetLookup : GoMap String) : gameSession × List specialConditionState :=
  let (g1, drawn) := drawSpecialFromPool g
  let definition := { drawn with AssetID := resolveSpecialAssetID drawn assetLookup }
  let (g2, id1) := nextSpecialInstanceID g1 playerID
  let first : specialConditionState :=
    { InstanceID := id1, Definition := definition, RevealedPublic := g2.IsDev, Used := false }
  if g2.IsDev then
    match buildDevChoiceDefinition playerID with
    | some devChoice =>
      let (g3, id2) := nextSpecialInstanceID g2 playerID
      (g3, [first, { InstanceID := id2, Definition := devChoice, RevealedPublic := true,
                     Used := false }])
    | none => (g2, [first])
  else (g2, [first])

/-- The function `assignInitialSpecials`. -/
def assignInitialSpecials (g : gameSession) : gameSession :=
  if mapLen g.Players = 0 then g
  else
    let assetLookup := buildSpecialAssetLookup g
    g.Order.foldl (fun acc playerID =>
      match mapGet? acc.Players playerID with
      | none => acc
      | some _ =>
        let r := assignInitialSpecialsForPlayer acc playerID assetLookup
        let give : gamePlayer → gamePlayer := fun p => { p with Specials := r.2 }
        { r.1 with Players := mapModify r.1.Players playerID give }) g

/-! ## Dev and departure actions (`game.go`) -/

/-- The id `fmt.Sprintf("dev-%s-%d", strings.ToLower(g.RoomCode), counter)`. -/
def devPlayerID (g : gameSession) (counter : Int) : String :=
  "dev-" ++ toLower g.RoomCode ++ "-" ++ fmtInt counter

/-- The loop `for g.Players[playerID] != nil { g.DevBotCounter++; ... }` of `devAddPlayer`,
run for at most `fuel` rounds: the value of the counter when it stops. -/
def devFreshCounter (g : gameSession) : Nat → Int → Int
  | 0, counter => counter
  | fuel + 1, counter =>
    if mapHas g.Players (devPlayerID g counter) then devFreshCounter g fuel (counter + 1)
    else counter

/-- The function `devAddPlayer`.  Its search for a free id is run with `len(Players) + 1`
rounds of fuel, which always suffice (`devFreshCounter_free`). -/
def devAddPlayer (g : gameSession) (name : String) (now : Int) :
    gameSession × gameActionResult :=
  if !g.IsDev then (g, errorResult "DEV-режим доступен только в сценарии dev_test.")
  else
    let counter := devFreshCounter g (g.Players.length + 1) (g.DevBotCounter + 1)
    let g1 := { g with DevBotCounter := counter }
    let playerID := devPlayerID g1 counter
    let fallbackName := "DEV Игрок " ++ fmtInt counter
    let displayName := sanitizeHumanText (trimSpace name) fallbackName
    let (g2, hand) := drawInitialHandForPlayer g1 playerID
    let (g3, specials) := assignInitialSpecialsForPlayer g2 playerID (buildSpecialAssetLookup g2)
    let newPlayer : gamePlayer :=
      { PlayerID := playerID, Name := displayName, Status := playerAlive, Hand := hand,
        Specials := specials, IsBot := true, BannedAgainst := [],
        ForcedWastedVoteNext := false }
    let g4 := { g3 with
      Players := mapSet g3.Players playerID newPlayer
      Order := g3.Order ++ [playerID] }
    let g5 :=
      if g4.Phase = scenarioPhaseVoting then
        { g4 with VoteCandidates := mapSet g4.VoteCandidates playerID true }
      else g4
    let g6 :=
      if g5.CurrentTurnID = "" ∧ g5.Phase = scenarioPhaseReveal then
        { g5 with CurrentTurnID := firstAliveID g5 }
      else g5
    let (g7, event) := makeEvent g6 "info" ("DEV: добавлен игрок " ++ displayName ++ ".") now
    (g7, changedResult [event])

/-- The test `candidate != nil && candidate.IsBot` for `candidate := g.Players[id]`. -/
def playerIsBot (g : gameSession) (id : String) : Bool :=
  match mapGet? g.Players id with
  | some p => p.IsBot
  | none => false

/-- The turn hand-over `next := nextUnrevealedAliveAfter(id); if next == "" { next =
firstAliveID() }` done when the current turn belongs to `id`. -/
def passTurnFrom (g : gameSession) (id : String) : gameSession :=
  if g.CurrentTurnID = id then
    let next := nextUnrevealedAliveAfter g id
    { g with CurrentTurnID := if next = "" then firstAliveID g else next }
  else g

/-- The function `devRemovePlayer`. -/
def devRemovePlayer (g : gameSession) (targetID : String) (now : Int) :
    gameSession × gameActionResult :=
  if !g.IsDev then (g, errorResult "DEV-действие доступно только в dev_test.")
  else
    let removeID := trimSpace targetID
    let removeID :=
      if removeID = "" then (g.Order.reverse.find? (playerIsBot g)).getD "" else removeID
    if removeID = "" then (g, errorResult "Нет игрока для удаления.")
    else
      match mapGet? g.Players removeID with
      | none => (g, errorResult "Игрок не найден.")
      | some target =>
        let g1 := { g with
          Players := mapDel g.Players removeID
          Order := g.Order.filter (fun id => id ≠ removeID) }
        let g2 := passTurnFrom (removeFromVoting g1 removeID) removeID
        let (g3, event) := makeEvent g2 "info" ("Удалён игрок " ++ target.Name ++ ".") now
        if shouldEnd g3 then
          let fin := finishGame g3 "DEV: удаление игрока" now
          (fin.1, changedResult (event :: fin.2.Events))
        else (g3, changedResult [event])

/-- The function `markLeftBunker` of the core session. -/
def markLeftBunker (g : gameSession) (targetID : String) (now : Int) :
    gameSession × gameActionResult :=
  let targetID := trimSpace targetID
  if targetID = "" then (g, errorResult "Нужно указать targetPlayerId.")
  else
    match mapGet? g.Players targetID with
    | none => (g, errorResult "Игрок не найден.")
    | some player =>
      if player.Status = playerLeftBunker then (g, errorResult "Игрок уже покинул бункер.")
      else
        let wasAlive : Bool := player.Status = playerAlive
        let leave : gamePlayer → gamePlayer := fun p => { p with Status := playerLeftBunker }
        let g1 := { g with Players := mapModify g.Players targetID leave }
        let g2 := passTurnFrom (removeFromVoting g1 targetID) targetID
        let (g3, event) := makeEvent g2 "playerLeftBunker"
          ("Игрок " ++ player.Name ++ " покинул бункер.") now
        let g4 :=
          if wasAlive then
            { g3 with
              TotalExiles := g3.TotalExiles + 1
              VotesRemaining :=
                if g3.VotesRemaining > 0 then g3.VotesRemaining - 1 else g3.VotesRemaining }
          else g3
        if g4.Phase = scenarioPhaseVoting ∧ wasAlive then
          let g5 := clearActiveTimer g4
          let g6 := { g5 with
            Phase := scenarioPhaseResolution
            VotePhase := votePhaseResolve
            ResolutionNote := "Голосование пропущено: " ++ player.Name ++ " покинул игру." }
          let g7 := { g6 with LastStageText := g6.ResolutionNote }
          let (g8, info) := makeEvent g7 "info" g7.ResolutionNote now
          if shouldEnd g8 then
            let fin := finishGame g8 "после выхода игрока" now
            (fin.1, changedResult ([event, info] ++ fin.2.Events))
          else
            (schedulePhaseTimer g8 timerKindResolutionAuto 2 now, changedResult [event, info])
        else if shouldEnd g4 then
          let fin := finishGame g4 "после выхода игрока" now
          (fin.1, changedResult (event :: fin.2.Events))
        else (g4, changedResult [event])

/-! ## Special abilities (`game_runtime.go`) -/

/-- Write through a pointer to the element at position `i` of a slice. -/
def listModify {α : Type} : List α → Nat → (α → α) → List α
  | [], _, _ => []
  | a :: t, 0, f => f a :: t
  | a :: t, i + 1, f => a :: listModify t i f

/-- The function `resolveNeighborChoice`: target, side and error text. -/
def resolveNeighborChoice (g : gameSession) (actorID : String) (payload : GoMap AnyLeaf) :
    String × String × String :=
  let n := neighborIDs g actorID ""
  let targetID := trimSpace (asString (mapGet? payload "targetPlayerId"))
  let side := trimSpace (toLower (asString (mapGet? payload "side")))
  if targetID ≠ "" then
    if targetID = n.1 then (n.1, "left", "")
    else if targetID = n.2 then (n.2, "right", "")
    else ("", "", "Недопустимый сосед.")
  else if side = "left" ∧ n.1 ≠ "" then (n.1, "left", "")
  else if side = "right" ∧ n.2 ≠ "" then (n.2, "right", "")
  else ("", "", "Сосед не найден.")

/-- The function `getTargetCandidates`. -/
def getTargetCandidates (g : gameSession) (scope actorID : String) : List String :=
  match scope with
  | "self" => [actorID]
  | "neighbors" =>
    let n := neighborIDs g actorID ""
    (if n.1 ≠ "" then [n.1] else []) ++ (if n.2 ≠ "" ∧ n.2 ≠ n.1 then [n.2] else [])
  | "any_alive" => aliveIDs g
  | "any_including_self" => aliveIDs g
  | _ => []

/-- The function `getCardsByCategoryKey`: the positions in `player.Hand` of the cards it
returns pointers to. -/
def getCardsByCategoryKey (p : gamePlayer) (categoryKey : String) (onlyRevealed : Bool) :
    List Nat :=
  let deckName :=
    if mapGetS categoryKeyToDeck categoryKey = "" then categoryKey
    else mapGetS categoryKeyToDeck categoryKey
  let slot := mapGetS categoryKeyToSlot categoryKey
  (p.Hand.enum.filter (fun e =>
    e.2.Deck = deckName && (slot = "" || e.2.SlotKey = slot) &&
      (!onlyRevealed || e.2.Revealed))).map Prod.fst

/-- The loops of `resolveCategoryKey` over `categoryKeyToLabel`. -/
def resolveCategoryKeyIn (normalized : String) : GoMap String → String
  | [] => ""
  | (key, label) :: t =>
    if normalizeSpecialKey key = normalized ∨ normalizeSpecialKey label = normalized then key
    else if mapGetS categoryKeyToDeck key ≠ "" ∧
        normalizeSpecialKey (mapGetS categoryKeyToDeck key) = normalized then key
    else resolveCategoryKeyIn normalized t

/-- The function `resolveCategoryKey`. -/
def resolveCategoryKey (input : String) : String :=
  let raw := trimSpace input
  if raw = "" then ""
  else if mapHas categoryKeyToLabel raw then raw
  else
    let normalized := normalizeSpecialKey raw
    if normalized = "" then "" else resolveCategoryKeyIn normalized categoryKeyToLabel

/-- The function `getFirstRevealedCard` (a position in the hand). -/
def getFirstRevealedCard (p : gamePlayer) (categoryKey : String) : Option Nat :=
  (getCardsByCategoryKey p categoryKey true).head?

/-- The function `getFirstCardForSpecial` on `player := g.Players[id]` (a position in the
hand). -/
def getFirstCardForSpecial (g : gameSession) (id : String) (categoryKey : String) :
    Option Nat :=
  match mapGet? g.Players id with
  | none => none
  | some p =>
    match getFirstRevealedCard p categoryKey with
    | some i => some i
    | none =>
      if !g.IsDev then none else (getCardsByCategoryKey p categoryKey false).head?

/-- The length of `getCardsByCategoryKey(target, key, onlyRevealed)` for
`target := g.Players[id]`; `none` when the target is nil. -/
def targetCardCount (g : gameSession) (id categoryKey : String) (onlyRevealed : Bool) :
    Option Nat :=
  (mapGet? g.Players id).map (fun p => (getCardsByCategoryKey p categoryKey onlyRevealed).length)

/-- One `case` of the `switch requirement` of `validateSpecialRequires`: the error text, `""`
when the requirement is met. -/
def requirementError (g : gameSession) (special : specialConditionState)
    (payload : GoMap AnyLeaf) (requirement : String) : String :=
  let targetID := trimSpace (asString (mapGet? payload "targetPlayerId"))
  let lacks (categoryKey : String) (onlyRevealed : Bool) : Bool :=
    match targetCardCount g targetID categoryKey onlyRevealed with
    | none => true
    | some n => n = 0
  match requirement with
  | "phase=voting" =>
    if !g.IsDev ∧ g.Phase ≠ scenarioPhaseVoting then
      "Эту карту можно использовать только в фазе голосования." else ""
  | "phase=reveal" =>
    if !g.IsDev ∧ g.Phase ≠ scenarioPhaseReveal then
      "Эту карту можно использовать только в фазе раскрытия." else ""
  | "votingStarted" =>
    if !g.IsDev ∧ mapLen g.Votes = 0 ∧ mapLen g.BaseVotes = 0 then
      "Голосование ещё не началось." else ""
  | "targetHasBaggage" =>
    if lacks "baggage" false then "У выбранного игрока нет багажа." else ""
  | "targetHasRevealedHealth" =>
    if lacks "health" (!g.IsDev) then "У выбранного игрока нет раскрытого здоровья." else ""
  | "targetHasRevealedProfession" =>
    if lacks "profession" (!g.IsDev) then "У выбранного игрока нет раскрытой профессии." else ""
  | "targetHasRevealedSameCategory" =>
    if lacks (asString (mapGet? special.Definition.Effect.Params "category")) (!g.IsDev) then
      "У соседа нет раскрытой карты этой категории." else ""
  | "needsNeighborIndexing" =>
    if g.Order.length ≤ 1 then "Недостаточно игроков для соседей." else ""
  | "ageFieldAvailable" =>
    if (computeAgeExtremes g).isNone then "Возраст ещё не раскрыт ни у одного игрока." else ""
  | "someRevealedAges" =>
    if (computeAgeExtremes g).isNone then "Возраст ещё не раскрыт ни у одного игрока." else ""
  | "trackFirstRevealHealth" =>
    if g.FirstHealthRevealerID = "" then "Ещё нет первого раскрытия здоровья." else ""
  | _ => ""

/-- The function `validateSpecialRequires`: the first error text, `""` when there is none. -/
def validateSpecialRequires (g : gameSession) (special : specialConditionState)
    (payload : GoMap AnyLeaf) : String :=
  ((special.Definition.Requires.map (requirementError g special payload)).find?
    (fun e => e ≠ "")).getD ""

/-- The write `special.Used = true` through the pointer to the ability at position `idx` of
the actor's `Specials`. -/
def markSpecialUsed (g : gameSession) (actorID : String) (idx : Nat) : gameSession :=
  { g with Players := mapModify g.Players actorID (fun p =>
      { p with Specials := listModify p.Specials idx (fun s => { s with Used := true }) }) }

/-- The write to the card at position `idx` of the hand of the player stored under `id`. -/
def modifyCard (g : gameSession) (id : String) (idx : Nat) (f : handCard → handCard) :
    gameSession :=
  { g with Players := mapModify g.Players id (fun p =>
      { p with Hand := listModify p.Hand idx f }) }

/-- The card behind the pointer (player `id`, position `idx`). -/
def cardAt (g : gameSession) (slot : String × Nat) : Option handCard :=
  match mapGet? g.Players slot.1 with
  | none => none
  | some p => p.Hand.get? slot.2

/-- The zero value `handCard{}`. -/
def zeroHandCard : handCard :=
  { InstanceID := "", CardID := "", Deck := "", SlotKey := "", Label := "", Revealed := false,
    Missing := false }

/-- Exchange of the elements at positions `i` and `j`. -/
def listSwap {α : Type} (l : List α) (i j : Nat) : List α :=
  match l.get? i, l.get? j with
  | some a, some b => (l.set i b).set j a
  | _, _ => l

/-- The shuffle loop `for i := len-1; i > 0; i-- { j := rng.Intn(i+1); swap }`, started at
position `i`. -/
def shuffleFrom {α : Type} : Nat → List α → List Nat → List α × List Nat
  | 0, l, rng => (l, rng)
  | i + 1, l, rng =>
    let pick := intn rng (i + 2)
    shuffleFrom i (listSwap l (i + 1) pick.1) pick.2

/-- One round of the copy loop of `redealAllRevealed`: the card behind `to` receives the
`CardID`, `Label` and `Missing` that the card behind `src` has at that moment. -/
def redealCopy (g : gameSession) (pair : (String × Nat) × (String × Nat)) : gameSession :=
  match cardAt g pair.1 with
  | none => g
  | some src =>
    modifyCard g pair.2.1 pair.2.2 (fun c =>
      { c with CardID := src.CardID, Label := src.Label, Missing := src.Missing })

/-- The state of the loop of `slices.DeleteFunc`: the array and the write position. -/
structure deleteState where
  arr : List handCard
  i : Nat

/-- One round `if v := s[j]; !del(v) { s[i] = v; i++ }` for the closure `del` that compares
with the instance id behind the pointer `stolen`, which points to position `p` of the array
being compacted. -/
def deleteStep (p : Nat) (st : deleteState) (j : Nat) : deleteState :=
  match st.arr.get? j, st.arr.get? p with
  | some v, some stolen =>
    if v.InstanceID = stolen.InstanceID then st
    else { arr := st.arr.set st.i v, i := st.i + 1 }
  | _, _ => st

/-- The call `slices.DeleteFunc(target.Hand, func(card) bool { return card.InstanceID ==
stolen.InstanceID })` with `stolen` pointing to position `p` of `target.Hand` (Go 1.22: the
tail left over is zeroed): the new hand and the card behind `stolen` afterwards. -/
def deleteStolen (hand : List handCard) (p : Nat) : List handCard × handCard :=
  match hand.get? p with
  | none => (hand, zeroHandCard)
  | some stolen =>
    let first := hand.findIdx (fun c => c.InstanceID = stolen.InstanceID)
    let st := ((List.range hand.length).drop (first + 1)).foldl (deleteStep p)
      { arr := hand, i := first }
    let cleared := st.arr.take st.i ++ List.replicate (st.arr.length - st.i) zeroHandCard
    (st.arr.take st.i, cleared.getD p zeroHandCard)

/-- Whether `append` to a slice of length `len` allocates a new array, for a slice that was
created by a one-element literal and only grew by `append` of single elements (the slices
`Specials`): its capacity is the least power of two that holds it (element size 200 bytes,
lengths up to 32). -/
def appendReallocates (len : Nat) : Bool :=
  len = 0 || len = 1 || len = 2 || len = 4 || len = 8 || len = 16 || len = 32

/-- The loop of `stealBaggage_and_giveSpecial` that gives `giveCount` abilities to the target;
the flag tells whether some `append` moved `target.Specials` to a new array. -/
def giveSpecials (targetID : String) : Nat → gameSession → Bool → gameSession × Bool
  | 0, g, moved => (g, moved)
  | n + 1, g, moved =>
    match mapGet? g.Players targetID with
    | none => (g, moved)
    | some target =>
      let (g1, defToGive) := drawSpecialFromPool g
      let (g2, instanceID) := nextSpecialInstanceID g1 target.PlayerID
      let given : specialConditionState :=
        { InstanceID := instanceID, Definition := defToGive, RevealedPublic := false,
          Used := false }
      let g3 := { g2 with Players := mapModify g2.Players targetID (fun p =>
        { p with Specials := p.Specials ++ [given] }) }
      giveSpecials targetID n g3 (moved || appendReallocates target.Specials.length)

/-- The name `target.Name` for `target := g.Players[id]`. -/
def nameOf (g : gameSession) (id : String) : String :=
  match mapGet? g.Players id with
  | some p => p.Name
  | none => ""

/-- The replacement of a revealed card by a freshly drawn one, shared by the effects
`replaceRevealedCard` (`hide = false`) and `discardRevealedAndDealHidden` (`hide = true`). -/
def replaceCardEffect (g : gameSession) (actorID : String) (player : gamePlayer) (idx : Nat)
    (definition : specialDefinition) (payload : GoMap AnyLeaf) (hide : Bool) (now : Int) :
    gameSession × gameActionResult :=
  let targetID := trimSpace (asString (mapGet? payload "targetPlayerId"))
  let categoryKey := asString (mapGet? definition.Effect.Params "category")
  let deckName := mapGetS categoryKeyToDeck categoryKey
  if !playerIsAlive g targetID then (g, errorResult "Цель не в игре.")
  else if deckName = "" then (g, errorResult "Неизвестная категория.")
  else
    match getFirstCardForSpecial g targetID categoryKey with
    | none => (g, errorResult "У цели нет раскрытой карты этой категории.")
    | some ci =>
      match drawCardFromDeck g deckName with
      | (g1, none) =>
        (g1, errorResult ("В колоде категории \"" ++ deckName ++ "\" больше нет карт."))
      | (g1, some newCard) =>
        let g2 := modifyCard g1 targetID ci (fun c =>
          { c with CardID := newCard.ID, Label := newCard.Label, Missing := false,
                   Revealed := if hide then false else c.Revealed })
        let g3 := markSpecialUsed g2 actorID idx
        let text := if hide then " сбрасывает раскрытую карту у " else " заменяет раскрытую карту у "
        let (g4, event) := makeEvent g3 "info"
          (player.Name ++ text ++ nameOf g3 targetID ++ ".") now
        (g4, changedResult [event])

/-- The effect `redealAllRevealed`. -/
def redealEffect (g : gameSession) (actorID : String) (player : gamePlayer) (idx : Nat)
    (definition : specialDefinition) (now : Int) : gameSession × gameActionResult :=
  let categoryKey := asString (mapGet? definition.Effect.Params "category")
  let deckName := mapGetS categoryKeyToDeck categoryKey
  if deckName = "" then (g, errorResult "Неизвестная категория.")
  else
    let revealedSlots : List (String × Nat) := g.Order.foldl (fun slots targetID =>
      match mapGet? g.Players targetID with
      | none => slots
      | some target =>
        if target.Status ≠ playerAlive then slots
        else
          let revealed := getCardsByCategoryKey target categoryKey true
          let cards :=
            if g.IsDev ∧ revealed.length = 0 then getCardsByCategoryKey target categoryKey false
            else revealed
          slots ++ cards.map (fun i => (targetID, i))) []
    if revealedSlots.length = 0 then (g, errorResult "Нет раскрытых карт для перераздачи.")
    else
      let sh := shuffleFrom (revealedSlots.length - 1) revealedSlots g.rng
      let g1 := { g with rng := sh.2 }
      let g2 := (sh.1.zip revealedSlots).foldl redealCopy g1
      let g3 := markSpecialUsed g2 actorID idx
      let (g4, event) := makeEvent g3 "info"
        (player.Name ++ " перераздаёт раскрытые карты категории " ++ deckName ++ ".") now
      (g4, changedResult [event])

/-- The effect `stealBaggage_and_giveSpecial`; the flag tells whether the pointer `special`
still points into the actor's `Specials` afterwards. -/
def stealBaggageEffect (g : gameSession) (actorID : String) (player : gamePlayer) (idx : Nat)
    (definition : specialDefinition) (payload : GoMap AnyLeaf) (now : Int) :
    gameSession × gameActionResult × Bool :=
  let targetID := trimSpace (asString (mapGet? payload "targetPlayerId"))
  match mapGet? g.Players targetID with
  | none => (g, errorResult "Цель не в игре.", true)
  | some target =>
    if target.Status ≠ playerAlive then (g, errorResult "Цель не в игре.", true)
    else if targetID = player.PlayerID ∧ !definition.AllowSelf then
      (g, errorResult "Нельзя выбрать себя.", true)
    else
      match (getCardsByCategoryKey target "baggage" false).head? with
      | none => (g, errorResult "У цели нет багажа.", true)
      | some si =>
        let giveCount := asInt (mapGet? definition.Effect.Params "giveSpecialCount") 1
        let giveCount := if giveCount < 1 then 1 else giveCount
        if (g.specialPool.length : Int) < giveCount then
          (g, errorResult "В колоде особых условий больше нет карт.", true)
        else
          let del := deleteStolen target.Hand si
          let stolen := del.2
          let g1 := { g with Players := mapModify g.Players targetID (fun p =>
            { p with Hand := del.1 }) }
          let (g2, instanceID) := nextCardInstanceID g1 player.PlayerID
          let taken : handCard :=
            { InstanceID := instanceID, CardID := stolen.CardID, Deck := stolen.Deck,
              SlotKey := stolen.SlotKey, Label := stolen.Label, Revealed := stolen.Revealed,
              Missing := stolen.Missing }
          let g3 := { g2 with Players := mapModify g2.Players actorID (fun p =>
            { p with Hand := p.Hand ++ [taken] }) }
          let gave := giveSpecials targetID giveCount.toNat g3 false
          let attached : Bool := !(targetID = actorID && gave.2)
          let g4 := if attached then markSpecialUsed gave.1 actorID idx else gave.1
          let (g5, event) := makeEvent g4 "info"
            (player.Name ++ " забирает багаж у " ++ target.Name ++ ".") now
          (g5, changedResult [event], attached)

/-- The function `applySpecialEffect` for the actor `player := g.Players[actorID]` and the
ability `special` at position `idx` of `player.Specials`.  The flag of the result tells
whether the pointer `special` still points into `player.Specials` afterwards. -/
def applySpecialEffect (g : gameSession) (actorID : String) (player : gamePlayer) (idx : Nat)
    (special : specialConditionState) (payload : GoMap AnyLeaf) (now : Int) :
    gameSession × gameActionResult × Bool :=
  let definition := special.Definition
  let effectType := definition.Effect.EffectType
  let targetID := trimSpace (asString (mapGet? payload "targetPlayerId"))
  if !g.IsDev ∧ mapGetB votingWindowEffectTypes effectType ∧
      g.VotePhase ≠ votePhaseSpecialWindow then
    (g, errorResult "Эту карту можно использовать только в окне спецусловий голосования.", true)
  else
    match effectType with
    | "banVoteAgainst" =>
      if g.Phase ≠ scenarioPhaseVoting then (g, errorResult "Сейчас нет голосования.", true)
      else if !playerIsAlive g targetID then (g, errorResult "Цель не в игре.", true)
      else if targetID = player.PlayerID ∧ !definition.AllowSelf then
        (g, errorResult "Нельзя выбрать себя.", true)
      else
        let g1 := { g with Players := mapModify g.Players actorID (fun p =>
          { p with BannedAgainst := mapSet p.BannedAgainst targetID true }) }
        let g2 := markSpecialUsed g1 actorID idx
        let (g3, event) := makeEvent g2 "info"
          (player.Name ++ " использует карту \"" ++ definition.Title ++ "\".") now
        (g3, changedResult [event], true)
    | "voteWeight" =>
      if g.Phase ≠ scenarioPhaseVoting then (g, errorResult "Сейчас нет голосования.", true)
      else
        let weight := asInt (mapGet? definition.Effect.Params "weight") 2
        let weight := if weight ≤ 0 then 2 else weight
        let g1 := { g with VoteWeights := mapSet g.VoteWeights player.PlayerID weight }
        let g2 := markSpecialUsed g1 actorID idx
        let (g3, event) := makeEvent g2 "info" (player.Name ++ " усиливает свой голос.") now
        (g3, changedResult [event], true)
    | "disableVote" =>
      if g.Phase ≠ scenarioPhaseVoting then (g, errorResult "Сейчас нет голосования.", true)
      else if !playerIsAlive g targetID then (g, errorResult "Цель не в игре.", true)
      else if targetID = player.PlayerID ∧ !definition.AllowSelf then
        (g, errorResult "Нельзя выбрать себя.", true)
      else
        let g1 := markVoteWasted g targetID "Голос заблокирован." now
        let g2 := markSpecialUsed g1 actorID idx
        let (g3, event) := makeEvent g2 "info"
          (player.Name ++ " блокирует голос игрока " ++ nameOf g2 targetID ++ ".") now
        (g3, changedResult [event], true)
    | "doubleVotesAgainst_and_disableSelfVote" =>
      if g.Phase ≠ scenarioPhaseVoting then (g, errorResult "Сейчас нет голосования.", true)
      else if !playerIsAlive g targetID then (g, errorResult "Цель не в игре.", true)
      else if targetID = player.PlayerID ∧ !definition.AllowSelf then
        (g, errorResult "Нельзя выбрать себя.", true)
      else
        let g1 := markVoteWasted { g with DoubleAgainst := targetID } player.PlayerID
          "Ваш голос потрачен." now
        let g2 := markSpecialUsed g1 actorID idx
        let (g3, event) := makeEvent g2 "info"
          (player.Name ++ " усиливает голоса против " ++ nameOf g2 targetID ++ ".") now
        (g3, changedResult [event], true)
    | "forceRevote" =>
      if g.Phase ≠ scenarioPhaseVoting then (g, errorResult "Сейчас нет голосования.", true)
      else if mapLen (currentVoteSource g) = 0 then
        (g, errorResult "Нет данных голосования.", true)
      else
        let g1 :=
          if asBool (mapGet? definition.Effect.Params "disallowPreviousCandidate") then
            { g with RevoteDisallow :=
                (computeVoteTotals g (currentVoteSource g)).2.foldl (fun m c => mapSet m c true) [] }
          else g
        let g2 := clearActiveTimer { resetVotesForRevote g1 now with VotePhase := votePhaseVoting }
        let g3 := markSpecialUsed g2 actorID idx
        let (g4, event) := makeEvent g3 "info" (player.Name ++ " запускает переголосование.") now
        (g4, changedResult [event], true)
    | "swapRevealedWithNeighbor" =>
      let categoryKey := asString (mapGet? definition.Effect.Params "category")
      if !playerIsAlive g targetID then (g, errorResult "Сосед не найден.", true)
      else
        match getFirstCardForSpecial g actorID categoryKey,
              getFirstCardForSpecial g targetID categoryKey with
        | some yi, some ti =>
          match cardAt g (actorID, yi), cardAt g (targetID, ti) with
          | some yours, some theirs =>
            let g1 := modifyCard g actorID yi (fun c =>
              { c with CardID := theirs.CardID, Label := theirs.Label, Missing := theirs.Missing })
            let g2 := modifyCard g1 targetID ti (fun c =>
              { c with CardID := yours.CardID, Label := yours.Label, Missing := yours.Missing })
            let g3 := markSpecialUsed g2 actorID idx
            let (g4, event) := makeEvent g3 "info"
              (player.Name ++ " меняется раскрытой картой с " ++ nameOf g3 targetID ++ ".") now
            (g4, changedResult [event], true)
          | _, _ => (g, errorResult "Нужны раскрытые карты у обоих игроков.", true)
        | _, _ => (g, errorResult "Нужны раскрытые карты у обоих игроков.", true)
    | "replaceRevealedCard" =>
      let r := replaceCardEffect g actorID player idx definition payload false now
      (r.1, r.2, true)
    | "discardRevealedAndDealHidden" =>
      let r := replaceCardEffect g actorID player idx definition payload true now
      (r.1, r.2, true)
    | "redealAllRevealed" =>
      let r := redealEffect g actorID player idx definition now
      (r.1, r.2, true)
    | "forceRevealCategoryForAll" =>
      let fromPayload := resolveCategoryKey (asString (mapGet? payload "category"))
      let categoryKey :=
        if fromPayload = "" then
          resolveCategoryKey (asString (mapGet? definition.Effect.Params "category"))
        else fromPayload
      if categoryKey = "" then (g, errorResult "Нужно выбрать категорию.", true)
      else
        let label := mapGetS categoryKeyToLabel categoryKey
        let deckName :=
          if mapGetS categoryKeyToDeck categoryKey = "" then categoryKey
          else mapGetS categoryKeyToDeck categoryKey
        let forcedLabel := if label = "" then deckName else label
        let g1 := { g with RoundRules := { g.RoundRules with ForcedCategory := forcedLabel } }
        let g2 := markSpecialUsed g1 actorID idx
        let (g3, event) := makeEvent g2 "info"
          (player.Name ++ " требует раскрыть категорию " ++ forcedLabel ++ ".") now
        (g3, changedResult [event], true)
    | "setRoundRule" =>
      let flag :=
        match mapGet? definition.Effect.Params "noTalkUntilVoting" with
        | some raw => asBool (some raw)
        | none => true
      let g1 := { g with RoundRules := { g.RoundRules with NoTalkUntilVoting := flag } }
      let g2 := markSpecialUsed g1 actorID idx
      let (g3, event) := makeEvent g2 "info" (player.Name ++ " вводит правило раунда.") now
      (g3, changedResult [event], true)
    | "stealBaggage_and_giveSpecial" =>
      stealBaggageEffect g actorID player idx definition payload now
    | "addFinalThreat" =>
      let g1 := { g with FinalThreats := g.FinalThreats ++ [threatKeyOf definition] }
      let g2 := markSpecialUsed g1 actorID idx
      let (g3, event) := makeEvent g2 "info" (player.Name ++ " добавляет угрозу в финал.") now
      (g3, changedResult [event], true)
    | _ => (g, errorResult "Эффект не поддерживается", true)

/-- The target resolution of `applySpecial`: the effective payload, or an error text. -/
def resolveSpecialTarget (g : gameSession) (actorID : String) (targetScope : String)
    (payload : GoMap AnyLeaf) : Except String (GoMap AnyLeaf) :=
  if targetScope = "neighbors" then
    let r := resolveNeighborChoice g actorID payload
    if r.2.2 ≠ "" then .error r.2.2
    else .ok (mapSet (mapSet payload "targetPlayerId" (.str r.1)) "side" (.str r.2.1))
  else if targetScope = "self" then .ok (mapSet payload "targetPlayerId" (.str actorID))
  else if targetScope = "any_alive" ∨ targetScope = "any_including_self" then
    let targetID := trimSpace (asString (mapGet? payload "targetPlayerId"))
    if targetID = "" then .error "Нужно выбрать цель."
    else if !(getTargetCandidates g targetScope actorID).contains targetID then
      .error "Недопустимая цель."
    else .ok payload
  else .ok payload

/-- The function `applySpecial`. -/
def applySpecial (g : gameSession) (actorID specialInstanceID : String)
    (payload : GoMap AnyLeaf) (now : Int) : gameSession × gameActionResult :=
  match mapGet? g.Players actorID with
  | none => (g, errorResult "Игрок не найден.")
  | some player =>
    if player.Status ≠ playerAlive then (g, errorResult "Игрок не найден.")
    else if g.Phase = scenarioPhaseEnded then (g, errorResult "Игра уже завершена.")
    else if specialInstanceID = "" then (g, errorResult "Особое условие не найдено.")
    else
      let idx := player.Specials.findIdx (fun sp => sp.InstanceID = specialInstanceID)
      match player.Specials.get? idx with
      | none => (g, errorResult "Особое условие не найдено.")
      | some special =>
        if !special.Definition.Implemented then (g, errorResult "Эта карта ещё не реализована.")
        else if special.Used then (g, errorResult "Эта карта уже использована.")
        else if !g.IsDev ∧ g.Settings.SpecialUsage = "only_during_voting" ∧
            g.Phase ≠ scenarioPhaseVoting then
          (g, errorResult "Особые условия можно использовать только во время голосования.")
        else if special.Definition.Trigger = "onOwnerEliminated" ∨
            special.Definition.Trigger = "secret_onEliminate" then
          (g, errorResult "Эта карта срабатывает автоматически.")
        else
          let choiceKind := special.Definition.ChoiceKind
          if choiceKind ≠ "" ∧ choiceKind ≠ "none" ∧ mapLen payload = 0 ∧
              !(choiceKind = "category" ∧
                asString (mapGet? special.Definition.Effect.Params "category") ≠ "") then
            (g, errorResult "Нужен выбор для применения карты.")
          else
            match resolveSpecialTarget g actorID special.Definition.TargetScope
                (mapEntries payload) with
            | .error errText => (g, errorResult errText)
            | .ok effectivePayload =>
              if choiceKind = "player" ∧ !special.Definition.AllowSelf ∧
                  trimSpace (asString (mapGet? effectivePayload "targetPlayerId")) ≠ "" ∧
                  trimSpace (asString (mapGet? effectivePayload "targetPlayerId")) = actorID then
                (g, errorResult "Нельзя выбрать себя.")
              else if validateSpecialRequires g special effectivePayload ≠ "" then
                (g, errorResult (validateSpecialRequires g special effectivePayload))
              else
                let r := applySpecialEffect g actorID player idx special effectivePayload now
                if r.2.1.Error ≠ "" then (r.1, r.2.1)
                else if !r.2.1.StateChanged then (r.1, r.2.1)
                else if !special.RevealedPublic then
                  let g1 :=
                    if r.2.2 then
                      { r.1 with Players := mapModify r.1.Players actorID (fun p =>
                          { p with Specials := listModify p.Specials idx (fun sp =>
                              { sp with RevealedPublic := true }) }) }
                    else r.1
                  let (g2, event) := makeEvent g1 "info"
                    (player.Name ++ " применяет особое условие: " ++
                      special.Definition.Title ++ ".") now
                  (g2, { r.2.1 with Events := r.2.1.Events ++ [event] })
                else (r.1, r.2.1)

/-! ## World threats and outcome (`world_logic.go`) -/

/-- The mapping `unicode.ToUpper` on Basic Latin, Latin-1 and the Cyrillic block
U+0430..U+045F; other code points are left as they are. -/
def upperChar (c : Char) : Char :=
  let n := c.toNat
  if 0x61 ≤ n ∧ n ≤ 0x7A then Char.ofNat (n - 0x20)
  else if n = 0xB5 then Char.ofNat 0x39C
  else if 0xE0 ≤ n ∧ n ≤ 0xFE ∧ n ≠ 0xF7 then Char.ofNat (n - 0x20)
  else if n = 0xFF then Char.ofNat 0x178
  else if 0x430 ≤ n ∧ n ≤ 0x44F then Char.ofNat (n - 0x20)
  else if 0x450 ≤ n ∧ n ≤ 0x45F then Char.ofNat (n - 0x50)
  else c

/-- The call `strings.Fields`: the maximal runs of non-space characters. -/
def fields : List Char → List Char → List (List Char)
  | [], cur => if cur = [] then [] else [cur]
  | c :: t, cur =>
    if isSpace c then (if cur = [] then fields t [] else cur :: fields t [])
    else fields t (cur ++ [c])

/-- The function `normalizeThreatTitle`. -/
def normalizeThreatTitle (value : String) : String :=
  let upper := (trimSpace value).data.map upperChar
  joinStrings " " ((fields upper []).map String.mk)

/-- The table `modifierByTitle` of `currentThreatModifier`. -/
def modifierByTitle : GoMap Int := [("ВМЕСТЕ НА 10 ЛЕТ", 1), ("ЗАГАДОЧНЫЙ ЖУРНАЛ", -1)]

/-- The function `currentThreatModifier`. -/
def currentThreatModifier (g : gameSession) : threatModifierView :=
  let baseCount := g.World.CountsThreats
  let counted := g.World.Bunker.filter (fun card =>
    card.IsRevealed && (mapGet? modifierByTitle (normalizeThreatTitle card.Title)).getD 0 ≠ 0)
  let delta := (counted.map (fun card =>
    (mapGet? modifierByTitle (normalizeThreatTitle card.Title)).getD 0)).sum
  let finalCount := baseCount + delta
  let finalCount := if finalCount < 0 then 0 else finalCount
  let finalCount :=
    if finalCount > (g.World.Threats.length : Int) then (g.World.Threats.length : Int)
    else finalCount
  { Delta := delta, Reasons := counted.map (fun card => card.Title), BaseCount := baseCount,
    FinalCount := finalCount }

/-- The function `revealWorldThreat`. -/
def revealWorldThreat (g : gameSession) (actorID : String) (index : Int) :
    gameSession × gameActionResult :=
  if g.Phase ≠ scenarioPhaseEnded then (g, errorResult "Угрозы раскрываются в конце игры.")
  else if index < 0 ∨ index ≥ (currentThreatModifier g).FinalCount then
    (g, errorResult "Некорректная карта угроз.")
  else if g.Settings.FinalThreatReveal = "host" ∧ actorID ≠ g.HostID then
    (g, errorResult "Только хост может открывать угрозы.")
  else
    match g.World.Threats.get? index.toNat with
    | none => (g, emptyResult)
    | some target =>
      if target.IsRevealed then (g, emptyResult)
      else
        let reveal : worldFacedCardView → worldFacedCardView :=
          fun c => { c with IsRevealed := true, RevealedBy := actorID }
        let threats := listModify g.World.Threats index.toNat reveal
        ({ g with World := { g.World with Threats := threats } }, changedResult [])

/-- The function `setBunkerOutcome`. -/
def setBunkerOutcome (g : gameSession) (actorID outcome : String) (now : Int) :
    gameSession × gameActionResult :=
  match g.PostGame with
  | none => (g, errorResult "Игра ещё не завершена.")
  | some pg =>
    if g.Phase ≠ scenarioPhaseEnded ∨ !pg.IsActive then (g, errorResult "Игра ещё не завершена.")
    else if actorID ≠ g.HostID then (g, errorResult "Только хост может выбрать исход бункера.")
    else if pg.Outcome ≠ "" then (g, errorResult "Исход уже выбран.")
    else if outcome ≠ "survived" ∧ outcome ≠ "failed" then (g, errorResult "Некорректный исход.")
    else
      let g1 := { g with
        PostGame := some { pg with Outcome := outcome, DecidedBy := actorID, DecidedAt := now }
        LastStageText :=
          if outcome = "survived" then "Финал: бункер выжил." else "Финал: бункер не выжил." }
      let (g2, event) := makeEvent g1 "info" g1.LastStageText now
      (g2, changedResult [event])

/-! ## Entry points of the core session -/

/-- The function `gameSession.handleAction`. -/
def handleAction (g : gameSession) (actorID actionType : String) (payload : GoMap AnyVal)
    (now : Int) : gameSession × gameActionResult :=
  match mapGet? g.Players actorID with
  | none => (g, errorResult "Игрок не найден.")
  | some _ =>
    match actionType with
    | "revealCard" => revealCard g actorID (payloadString payload "cardId") now
    | "continueRound" => continueRound g actorID now
    | "vote" => vote g actorID (payloadString payload "targetPlayerId") now
    | "finalizeVoting" => finalizeVoting g actorID now
    | "applySpecial" =>
      applySpecial g actorID (payloadString payload "specialInstanceId")
        (payloadObject payload "payload") now
    | "revealWorldThreat" => revealWorldThreat g actorID (asInt (payloadLeaf payload "index") (-1))
    | "setBunkerOutcome" => setBunkerOutcome g actorID (payloadString payload "outcome") now
    | "devSkipRound" => startNextRoundOrEnd g now
    | "devKickPlayer" => kickPlayer g (payloadString payload "targetPlayerId") now
    | "devAddPlayer" => devAddPlayer g (payloadString payload "name") now
    | "devRemovePlayer" => devRemovePlayer g (payloadString payload "targetPlayerId") now
    | "markLeftBunker" => markLeftBunker g (payloadString payload "targetPlayerId") now
    | _ => (g, errorResult "Неизвестное действие.")

/-- The function `handleRevealPhaseTimeout`. -/
def handleRevealPhaseTimeout (g : gameSession) (now : Int) : gameSession × gameActionResult :=
  let actorID := g.CurrentTurnID
  if actorID = "" then (g, emptyResult)
  else
    let skipped (player : gamePlayer) : gameSession × gameActionResult :=
      let g1 := { g with
        RevealedThisRnd := mapSet g.RevealedThisRnd actorID true
        LastRevealerID := actorID }
      if allAliveRevealed g1 then
        if g1.VotesRemaining > 0 then
          let g2 := startVoting g1 now
          let g3 := { g2 with LastStageText := "Таймаут: ход " ++ player.Name ++ " пропущен." }
          let (g4, e1) := makeEvent g3 "info" g3.LastStageText now
          let (g5, e2) := makeEvent g4 "votingStart" g4.LastStageText now
          (g5, changedResult [e1, e2])
        else
          let next := startNextRoundOrEnd g1 now
          if next.2.StateChanged then
            let (g3, e1) := makeEvent next.1 "info"
              ("Таймаут: ход " ++ player.Name ++ " пропущен.") now
            (g3, { next.2 with Events := e1 :: next.2.Events })
          else next
      else
        let nextTurn := nextUnrevealedAliveAfter g1 actorID
        let nextTurn := if nextTurn = "" then firstAliveID g1 else nextTurn
        let g2 := { g1 with
          CurrentTurnID := nextTurn
          Phase := scenarioPhaseReveal
          LastStageText := "Таймаут: ход " ++ player.Name ++ " пропущен." }
        let g3 := scheduleRevealTimeoutIfNeeded g2 now
        let (g4, event) := makeEvent g3 "info" g3.LastStageText now
        (g4, changedResult [event])
    match mapGet? g.Players actorID with
    | none =>
      let nextTurn := nextUnrevealedAliveAfter g actorID
      (scheduleRevealTimeoutIfNeeded { g with CurrentTurnID := nextTurn } now,
       { StateChanged := nextTurn ≠ "", Events := [], Error := "" })
    | some player =>
      if player.Status ≠ playerAlive then
        let nextTurn := nextUnrevealedAliveAfter g actorID
        (scheduleRevealTimeoutIfNeeded { g with CurrentTurnID := nextTurn } now,
         { StateChanged := nextTurn ≠ "", Events := [], Error := "" })
      else
        let hidden := (player.Hand.enum.filter (fun e => !e.2.Revealed)).map Prod.fst
        if g.Settings.RevealTimeoutAction = "random_card" ∧ hidden.length > 0 then
          let pick := intn g.rng hidden.length
          let cardIndex := hidden.getD pick.1 0
          let deck := ((player.Hand.get? cardIndex).map (fun c => c.Deck)).getD ""
          let g1 := modifyCard { g with rng := pick.2 } actorID cardIndex (fun c =>
            { c with Revealed := true })
          let g2 :=
            if deck = "Здоровье" ∧ g1.FirstHealthRevealerID = "" then
              { g1 with FirstHealthRevealerID := actorID }
            else g1
          let g3 := { g2 with
            RevealedThisRnd := mapSet g2.RevealedThisRnd actorID true
            LastRevealerID := actorID
            LastStageText := "Таймаут: " ++ player.Name ++ " автоматически раскрыл карту." }
          let g4 := enterRevealDiscussion g3 now
          let (g5, event) := makeEvent g4 "info" g4.LastStageText now
          (g5, changedResult [event])
        else skipped player

/-- The function `gameSession.handleTimerExpired`; `now` is also the clock reading of the
call. -/
def handleTimerExpired (g : gameSession) (now : Int) : gameSession × gameActionResult :=
  match g.ActiveTimer with
  | none => (g, emptyResult)
  | some timer =>
    if now < timer.EndsAt then (g, emptyResult)
    else
      let g1 := clearActiveTimer g
      if timer.Kind = scenarioPhaseRevealDiscussion then
        if g1.Phase = scenarioPhaseReveal then handleRevealPhaseTimeout g1 now
        else if g1.Phase = scenarioPhaseRevealDiscussion then advanceAfterDiscussion g1 now
        else (g1, emptyResult)
      else if timer.Kind = "pre_vote" then
        if g1.Phase = scenarioPhaseRevealDiscussion then advanceAfterDiscussion g1 now
        else (g1, emptyResult)
      else if timer.Kind = "post_vote" then
        if g1.Phase = scenarioPhaseVoting ∧ g1.VotePhase = votePhaseSpecialWindow then
          finalizeVoting g1 g1.HostID now
        else (g1, emptyResult)
      else if timer.Kind = timerKindResolutionAuto then
        if g1.Phase = scenarioPhaseResolution then
          if shouldEnd g1 then finishGame g1 "auto_after_resolution" now
          else if g1.VotesRemaining > 0 then
            let g2 := startVoting g1 now
            let (g3, event) := makeEvent g2 "votingStart" g2.LastStageText now
            (g3, changedResult [event])
          else startNextRoundOrEnd g1 now
        else (g1, emptyResult)
      else (g1, emptyResult)

/-- The function `gameSession.setHostID`. -/
def setHostID (g : gameSession) (hostID : String) : gameSession := { g with HostID := hostID }

/-! ## Session creation (`game.go`, `world_logic.go`) -/

/-- The function `worldCounts` over `worldCountTable`. -/
def worldCounts (playerCount : Int) : Int × Int :=
  if playerCount ≥ 4 ∧ playerCount ≤ 4 then (5, 3)
  else if playerCount ≥ 5 ∧ playerCount ≤ 6 then (5, 4)
  else if playerCount ≥ 7 ∧ playerCount ≤ 9 then (5, 5)
  else if playerCount ≥ 10 ∧ playerCount ≤ 16 then (5, 6)
  else (5, 6)

/-- The function `normalizeDeckKey`. -/
def normalizeDeckKey (raw : String) : String :=
  let key := (trimSpace (toLower raw)).data.map (fun c => if c = 'ё' then 'е' else c)
  String.mk (key.filter (fun c => c ≠ ' ' ∧ c ≠ '_' ∧ c ≠ '-'))

/-- The function `findDeckByKeyword`. -/
def findDeckByKeyword (decks : GoMap (List assetCard)) (keyword : String) : String :=
  ((mapKeys decks).find? (fun deckName =>
    containsChars (normalizeDeckKey keyword).data (normalizeDeckKey deckName).data)).getD ""

/-- The function `drawWorldMany`, for the cards numbered `i + 1 ..`: the cards, the pools and
the rest of the random stream. -/
def drawWorldMany (deckName kind : String) :
    Nat → Nat → GoMap (List assetCard) → List Nat →
      List worldFacedCardView × GoMap (List assetCard) × List Nat
  | 0, _, pools, rng => ([], pools, rng)
  | count + 1, i, pools, rng =>
    let r := drawRandomCard ((mapGet? pools deckName).getD []) rng
    let pools1 := mapSet pools deckName r.2.1
    let card : worldFacedCardView :=
      match r.1 with
      | none =>
        { Kind := kind, ID := kind ++ "_fallback_" ++ fmtInt (i + 1),
          Title := kind ++ " #" ++ fmtInt (i + 1), Description := "", Text := "", ImageID := "",
          IsRevealed := false, RevealedAtRound := none, RevealedBy := "" }
      | some c =>
        { Kind := kind, ID := c.ID, Title := c.Label, Description := c.Label, Text := "",
          ImageID := c.ID, IsRevealed := false, RevealedAtRound := none, RevealedBy := "" }
    let rest := drawWorldMany deckName kind count (i + 1) pools1 r.2.2
    (card :: rest.1, rest.2.1, rest.2.2)

/-- The function `drawWorldDisaster`. -/
def drawWorldDisaster (deckName : String) (pools : GoMap (List assetCard)) (rng : List Nat) :
    worldCardView × GoMap (List assetCard) × List Nat :=
  let r := drawRandomCard ((mapGet? pools deckName).getD []) rng
  let card : worldCardView :=
    match r.1 with
    | none =>
      { Kind := "disaster", ID := "disaster_fallback", Title := "Катастрофа",
        Description := "Катастрофа", Text := "", ImageID := "" }
    | some c =>
      { Kind := "disaster", ID := c.ID, Title := c.Label, Description := c.Label, Text := "",
        ImageID := c.ID }
  (card, mapSet pools deckName r.2.1, r.2.2)

/-- The function `rollWorldFromPools`. -/
def rollWorldFromPools (pools : GoMap (List assetCard)) (rng : List Nat) (playerCount : Int) :
    worldStateView × GoMap (List assetCard) × List Nat :=
  let counts := worldCounts playerCount
  let bunkerDeck := findDeckByKeyword pools "бункер"
  let disasterDeck := findDeckByKeyword pools "катастроф"
  let threatDeck := findDeckByKeyword pools "угроз"
  let d := drawWorldDisaster disasterDeck pools rng
  let b := drawWorldMany bunkerDeck "bunker" counts.1.toNat 0 d.2.1 d.2.2
  let t := drawWorldMany threatDeck "threat" (counts.2 + 1).toNat 0 b.2.1 b.2.2
  ({ Disaster := d.1, Bunker := b.1, Threats := t.1, CountsBunker := counts.1,
     CountsThreats := counts.2 }, t.2.1, t.2.2)

/-- One round of the roster loop of `newGameSession`. -/
def addRosterPlayer (g : gameSession) (rp : player) : gameSession :=
  let (g1, hand) := drawInitialHandForPlayer g rp.ID
  let newPlayer : gamePlayer :=
    { PlayerID := rp.ID, Name := rp.Name, Status := playerAlive, Hand := hand, Specials := [],
      IsBot := false, BannedAgainst := [], ForcedWastedVoteNext := false }
  { g1 with Players := mapSet g1.Players rp.ID newPlayer, Order := g1.Order ++ [rp.ID] }

/-- The function `newGameSession`; `rng` is the random stream that the seed determines, and
`now` the clock reading of the call. -/
def newGameSession (roomCode hostID scenarioID : String) (settings : gameSettings)
    (ruleset : gameRuleset) (roomPlayers : List player) (assets : GoMap (List assetCard))
    (specialDefinitions : List specialDefinition) (rng : List Nat) (now : Int) : gameSession :=
  let world := rollWorldFromPools (mapEntries assets) rng (roomPlayers.length : Int)
  let session : gameSession :=
    { RoomCode := roomCode, HostID := hostID, Scenario := scenarioID,
      IsDev := scenarioID = scenarioDevTest, Settings := settings, Ruleset := ruleset,
      Players := [], Order := [], Phase := scenarioPhaseReveal, Round := 1, CurrentTurnID := "",
      RevealedThisRnd := [], LastRevealerID := "", VotePhase := "", Votes := [], BaseVotes := [],
      VoteResults := [], VoteCandidates := [], VoteDisabled := [], VoteWeights := [],
      AutoWastedVoters := [], RevoteDisallow := [], DoubleAgainst := "", TieBreakUsed := false,
      VotesRemaining := 0, LastEliminatedID := "", ResolutionNote := "", Winners := [],
      LastStageText := "", TotalExiles := 0, EventCounter := 0, World := world.1,
      WorldEvent := none, PostGame := none, FinalThreats := [], FirstHealthRevealerID := "",
      RoundRules := { NoTalkUntilVoting := false, ForcedCategory := "" }, ActiveTimer := none,
      DeckPools := world.2.1, CardCounter := 0, DevBotCounter := 0, rng := world.2.2,
      specialPool :=
        if specialDefinitions.length = 0 then implementedSpecialDefinitions
        else specialDefinitions,
      specialCounter := 0 }
  let s1 := assignInitialSpecials (roomPlayers.foldl addRosterPlayer session)
  let s2 := { s1 with CurrentTurnID := firstAliveID s1 }
  let s3 := { s2 with VotesRemaining := votesForRound s2 s2.Round, WorldEvent := none }
  let s4 := revealNextBunkerCard s3 s3.Round
  scheduleRevealTimeoutIfNeeded { s4 with LastStageText := "Раунд 1. Раскрытие карт." } now

/-! ## The dev wrapper (`dev_engine.go`) -/

/-- The struct `devTestSession`. -/
structure devTestSession where
  core : gameSession

/-- The function `newDevTestSession`. -/
def newDevTestSession (roomCode hostID : String) (settings : gameSettings)
    (ruleset : gameRuleset) (roomPlayers : List player) (assets : GoMap (List assetCard))
    (specialDefinitions : List specialDefinition) (rng : List Nat) (now : Int) :
    devTestSession :=
  { core := newGameSession roomCode hostID scenarioDevTest settings ruleset roomPlayers assets
      specialDefinitions rng now }

/-- The function `mergeActionResult`. -/
def mergeActionResult (base next : gameActionResult) : gameActionResult :=
  { Error := if base.Error = "" ∧ next.Error ≠ "" then next.Error else base.Error
    StateChanged := base.StateChanged || next.StateChanged
    Events := base.Events ++ next.Events }

/-- The function `devTestSession.shouldEnd`. -/
def devShouldEnd (g : gameSession) : Bool :=
  if g.Phase = scenarioPhaseEnded then false
  else if g.LastEliminatedID = "" then false
  else decide (((aliveIDs g).length : Int) ≤ devTestBunkerCapacity)

/-- The function `devTestSession.autoRevealBots`. -/
def autoRevealBots (g : gameSession) (now : Int) : gameSession × gameActionResult :=
  let currentID := g.CurrentTurnID
  if currentID = "" then (g, emptyResult)
  else
    match mapGet? g.Players currentID with
    | none => (g, emptyResult)
    | some p =>
      if p.Status ≠ playerAlive ∨ !p.IsBot then (g, emptyResult)
      else
        let forcedID : String :=
          if g.RoundRules.ForcedCategory ≠ "" then
            match resolveCategoryDeckSlot g.RoundRules.ForcedCategory with
            | some cfg =>
              ((p.Hand.find? (fun card => !card.Revealed && cardInSlot cfg card)).map
                (fun card => card.InstanceID)).getD ""
            | none => ""
          else ""
        let cardID :=
          if forcedID = "" then
            ((p.Hand.find? (fun card => !card.Revealed)).map (fun card => card.InstanceID)).getD ""
          else forcedID
        if cardID = "" then (g, emptyResult) else revealCard g currentID cardID now

/-- The candidates `viable` of a bot in `autoVoteBots`. -/
def viableCandidates (g : gameSession) (voterID : String) : List String :=
  (mapKeys g.VoteCandidates).filter (fun candidateID =>
    candidateID ≠ voterID && playerIsAlive g candidateID &&
      !targetBans g candidateID voterID && !mapGetB g.RevoteDisallow candidateID)

/-- One round of the voter loop of `autoVoteBots`: the session and the flag `changed`. -/
def autoVoteStep (now : Int) (acc : gameSession × Bool) (voterID : String) :
    gameSession × Bool :=
  let g := acc.1
  match mapGet? g.Players voterID with
  | none => acc
  | some voter =>
    if voter.Status ≠ playerAlive ∨ !voter.IsBot then acc
    else if mapHas g.Votes voterID then acc
    else
      match mapGet? g.VoteDisabled voterID with
      | some reason => (markVoteWasted g voterID reason now, true)
      | none =>
        let viable := viableCandidates g voterID
        if viable.length = 0 then (markVoteWasted g voterID "Нет доступных кандидатов." now, true)
        else
          let pick := intn g.rng viable.length
          let record : voteRecord :=
            { TargetID := viable.getD pick.1 "", Submitted := now, IsValid := true,
              ReasonText := "" }
          ({ g with rng := pick.2, Votes := mapSet g.Votes voterID record }, true)

/-- The function `devTestSession.autoVoteBots`. -/
def autoVoteBots (g : gameSession) (now : Int) : gameSession × gameActionResult :=
  if g.VotePhase ≠ votePhaseVoting then (g, emptyResult)
  else
    let aliveCount := (aliveIDs g).length
    if aliveCount = 0 then (g, emptyResult)
    else
      let r := g.Order.foldl (autoVoteStep now) (g, false)
      if !r.2 then (r.1, emptyResult)
      else if mapLen r.1.Votes ≥ aliveCount ∧ r.1.VotePhase = votePhaseVoting then
        let w := enterVoteSpecialWindow r.1 now
        (w.1, mergeActionResult (changedResult []) w.2)
      else (r.1, changedResult [])

/-- The state of the loop of `postProcess`. -/
structure postState where
  session : gameSession
  combined : gameActionResult
  changed : Bool
  returned : Bool

/-- One round of the `for` loop of `postProcess` and, while the round triggered something,
the following ones, at most `fuel` rounds in all; `returned` tells that an automatic step
failed and `postProcess` returned `combined` at once. -/
def postProcessLoop (now : Int) : Nat → postState → postState
  | 0, st => st
  | fuel + 1, st =>
    let r1 : postState × Bool :=
      if st.session.Phase = scenarioPhaseReveal then
        let auto := autoRevealBots st.session now
        let merged := mergeActionResult st.combined auto.2
        if auto.2.Error ≠ "" then
          ({ st with session := auto.1, combined := merged, returned := true }, false)
        else ({ st with session := auto.1, combined := merged }, auto.2.StateChanged)
      else (st, false)
    if r1.1.returned then r1.1
    else
      let r2 : postState × Bool :=
        if r1.1.session.Phase = scenarioPhaseVoting ∧
            r1.1.session.VotePhase = votePhaseVoting then
          let auto := autoVoteBots r1.1.session now
          let merged := mergeActionResult r1.1.combined auto.2
          if auto.2.Error ≠ "" then
            ({ r1.1 with session := auto.1, combined := merged, returned := true }, false)
          else ({ r1.1 with session := auto.1, combined := merged }, r1.2 || auto.2.StateChanged)
        else r1
      if r2.1.returned then r2.1
      else if !r2.2 then r2.1
      else postProcessLoop now fuel { r2.1 with changed := true }

/-- The function `devTestSession.postProcess`.  Its loop is run with three rounds of fuel; it
stops by itself within two. -/
def postProcess (g : gameSession) (result : gameActionResult) (now : Int) :
    gameSession × gameActionResult :=
  if result.Error ≠ "" then (g, result)
  else
    let st := postProcessLoop now 3
      { session := g, combined := result, changed := result.StateChanged, returned := false }
    if st.returned then (st.session, st.combined)
    else if devShouldEnd st.session then
      let fin := finishGame st.session "dev_test_bunker_capacity" now
      let combined := mergeActionResult st.combined fin.2
      let changed := st.changed || fin.2.StateChanged
      (fin.1, { combined with StateChanged := changed || combined.StateChanged })
    else (st.session, { st.combined with StateChanged := st.changed || st.combined.StateChanged })

/-- The function `devTestSession.removeFromVotingDev`. -/
def removeFromVotingDev (g : gameSession) (targetID : String) (now : Int) : gameSession :=
  let g1 := removeFromVoting g targetID
  if g1.Phase = scenarioPhaseVoting ∧ g1.VotePhase = votePhaseVoting ∧
      (aliveIDs g1).length > 0 ∧ mapLen g1.Votes ≥ (aliveIDs g1).length then
    (enterVoteSpecialWindow g1 now).1
  else g1

/-- The function `devTestSession.markLeftBunker`. -/
def devMarkLeftBunker (g : gameSession) (targetID : String) (now : Int) :
    gameSession × gameActionResult :=
  let targetID := trimSpace targetID
  if targetID = "" then (g, errorResult "Игрок не найден.")
  else
    match mapGet? g.Players targetID with
    | none => (g, errorResult "Игрок не найден.")
    | some target =>
      if target.Status = playerLeftBunker then (g, errorResult "Игрок не найден.")
      else
        let leave : gamePlayer → gamePlayer := fun p => { p with Status := playerLeftBunker }
        let g1 := { g with
          Players := mapModify g.Players targetID leave
          RevealedThisRnd := mapDel g.RevealedThisRnd targetID }
        (passTurnFrom (removeFromVotingDev g1 targetID now) targetID, changedResult [])

/-- The function `devTestSession.devSkipRound`. -/
def devSkipRound (g : gameSession) (actorID : String) (now : Int) :
    gameSession × gameActionResult :=
  if actorID ≠ g.HostID then (g, errorResult "Только хост может пропустить раунд.")
  else if g.Phase = scenarioPhaseVoting ∨ g.Phase = scenarioPhaseResolution then
    (g, errorResult "Нельзя пропустить раунд во время голосования.")
  else if g.Phase = scenarioPhaseEnded then (g, errorResult "Игра уже завершена.")
  else
    let g1 := { g with RevealedThisRnd :=
      (aliveIDs g).foldl (fun m id => mapSet m id true) g.RevealedThisRnd }
    advanceAfterDiscussion { g1 with Phase := scenarioPhaseRevealDiscussion } now

/-- The function `devTestSession.handleAction`, on the core session that the wrapper
holds. -/
def devHandleAction (g : gameSession) (actorID actionType : String) (payload : GoMap AnyVal)
    (now : Int) : gameSession × gameActionResult :=
  let viaCore : gameSession × gameActionResult :=
    let r := handleAction g actorID actionType payload now
    postProcess r.1 r.2 now
  match actionType with
  | "setBunkerOutcome" => viaCore
  | "devKickPlayer" => (g, errorResult "Неизвестное действие.")
  | "devSkipRound" =>
    let r := devSkipRound g actorID now
    postProcess r.1 r.2 now
  | "markLeftBunker" =>
    let r := devMarkLeftBunker g (payloadString payload "targetPlayerId") now
    postProcess r.1 r.2 now
  | "devAddPlayer" => viaCore
  | "devRemovePlayer" => viaCore
  | "revealWorldThreat" => viaCore
  | _ =>
    match mapGet? g.Players actorID with
    | none => (g, errorResult "Игрок не найден.")
    | some p =>
      if p.Status ≠ playerAlive then (g, errorResult "Вы исключены из игры.")
      else if g.Phase = scenarioPhaseEnded then (g, errorResult "Игра уже завершена.")
      else if actionType = "finalizeVoting" ∧ g.VotePhase ≠ votePhaseSpecialWindow then
        (g, errorResult "Окно спецусловий ещё не открыто.")
      else viaCore

/-- The function `devTestSession.handleTimerExpired`, on the core session that the wrapper
holds. -/
def devHandleTimerExpired (g : gameSession) (now : Int) : gameSession × gameActionResult :=
  let r := handleTimerExpired g now
  postProcess r.1 r.2 now

/-- The method `devTestSession.handleAction`. -/
def devTestSession.handleAction (d : devTestSession) (actorID actionType : String)
    (payload : GoMap AnyVal) (now : Int) : devTestSession × gameActionResult :=
  let r := devHandleAction d.core actorID actionType payload now
  ({ core := r.1 }, r.2)

/-- The method `devTestSession.handleTimerExpired`. -/
def devTestSession.handleTimerExpired (d : devTestSession) (now : Int) :
    devTestSession × gameActionResult :=
  let r := devHandleTimerExpired d.core now
  ({ core := r.1 }, r.2)

/-! ## Specification-level definitions -/

/-- The acceptance condition of the `vote` action, in the words of the specification: the
voting window is open, the target is another player who is an eligible candidate and not
excluded from the revote, the actor's vote is not disabled, both are alive, the target has
not banned the actor, and the actor has no record in `Votes` yet. -/
def voteAcceptable (g : gameSession) (actorID targetID : String) : Prop :=
  g.Phase = scenarioPhaseVoting ∧ g.VotePhase = votePhaseVoting ∧ targetID ≠ actorID ∧
    mapGetB g.VoteCandidates targetID = true ∧ mapGetB g.RevoteDisallow targetID = false ∧
    mapHas g.VoteDisabled actorID = false ∧ playerIsAlive g actorID = true ∧
    playerIsAlive g targetID = true ∧ targetBans g targetID actorID = false ∧
    mapHas g.Votes actorID = false

/-- The test "the vote is invalid" in the words of the claim on `buildEffectiveVotes`: the
voter is in `VoteDisabled`, or the non-empty target is in `RevoteDisallow`, is not in
`VoteCandidates`, or has banned the voter. -/
def claimedInvalid (g : gameSession) (voterID : String) (record : voteRecord) : Bool :=
  mapHas g.VoteDisabled voterID ||
    (record.TargetID ≠ "" &&
      (mapGetB g.RevoteDisallow record.TargetID || !mapGetB g.VoteCandidates record.TargetID ||
        targetBans g record.TargetID voterID))

/-- The weight of a counted vote in the words of the claim: the voter's `VoteWeights`
override if positive, else 1, multiplied by 2 when the target equals `DoubleAgainst`. -/
def claimedWeight (g : gameSession) (voterID targetID : String) : Int :=
  (match mapGet? g.VoteWeights voterID with
   | some w => if w > 0 then w else 1
   | none => 1) * (if targetID = g.DoubleAgainst then 2 else 1)

/-- Status and weight of the effective vote of a player of `Order`, in the words of the
claim on `buildEffectiveVotes`. -/
def claimedEffectiveVote (g : gameSession) (source : GoMap voteRecord) (voterID : String) :
    String × Int :=
  match mapGet? source voterID with
  | none => ("not_voted", 0)
  | some record =>
    if claimedInvalid g voterID record then ("invalid", 0)
    else if record.TargetID = "" then ("not_voted", 0)
    else ("voted", claimedWeight g voterID record.TargetID)

/-- Status and weight of the effective vote with the guard of `buildEffectiveVotes` on the
flag `IsValid`: a record with a non-empty target whose flag is false is invalid as well. -/
def guardedEffectiveVote (g : gameSession) (source : GoMap voteRecord) (voterID : String) :
    String × Int :=
  match mapGet? source voterID with
  | none => ("not_voted", 0)
  | some record =>
    if claimedInvalid g voterID record || (record.TargetID ≠ "" && !record.IsValid) then
      ("invalid", 0)
    else if record.TargetID = "" then ("not_voted", 0)
    else ("voted", claimedWeight g voterID record.TargetID)

/-- The reason carried by an invalid effective vote: the record's own reason, else the
reason stored in `VoteDisabled`, else the text of the first rejection that applies (revote
exclusion, not a candidate, banned by the target), else none. -/
def invalidReason (g : gameSession) (voterID : String) (record : voteRecord) : String :=
  if record.ReasonText ≠ "" then record.ReasonText
  else if mapGetS g.VoteDisabled voterID ≠ "" then mapGetS g.VoteDisabled voterID
  else if record.TargetID ≠ "" ∧ mapGetB g.RevoteDisallow record.TargetID then
    "Нельзя голосовать за этого кандидата."
  else if record.TargetID ≠ "" ∧ !mapGetB g.VoteCandidates record.TargetID then
    "Кандидат недоступен."
  else if record.TargetID ≠ "" ∧ targetBans g record.TargetID voterID then
    "Голос против этого игрока запрещён."
  else ""

/-- The status of the player stored under `id` (`none`: no such player). -/
def statusOf (g : gameSession) (id : String) : Option String :=
  (mapGet? g.Players id).map (fun p => p.Status)

/-- Status monotonicity between two states, in the words of the specification: a player who
is eliminated or has left the bunker in `g` is not alive in `g2`. -/
def NoRevive (g g2 : gameSession) : Prop :=
  ∀ id, (statusOf g id = some playerEliminated ∨ statusOf g id = some playerLeftBunker) →
    statusOf g2 id ≠ some playerAlive

/-- Between two states no id gains the status alive: the status stored under every id is
the same as before or is not alive. -/
def StatusDecay (g g2 : gameSession) : Prop :=
  ∀ id, statusOf g2 id = statusOf g id ∨ statusOf g2 id ≠ some playerAlive

/-- The part of a session that the rules of the game read: the roster with the statuses,
the phase, the round, the vote quota, the exile count and the records of the voting. Cards,
abilities, texts, timers, events and the random stream are left out. -/
structure hardView where
  IsDev : Bool
  Ruleset : gameRuleset
  Order : List String
  statuses : GoMap String
  playerIDs : GoMap String
  Phase : String
  Round : Int
  VotePhase : String
  Votes : GoMap voteRecord
  BaseVotes : GoMap voteRecord
  VoteCandidates : GoMap Bool
  VoteDisabled : GoMap String
  AutoWastedVoters : GoMap Bool
  TieBreakUsed : Bool
  VotesRemaining : Int
  TotalExiles : Int
  bunker : List worldFacedCardView

/-- The statuses of the stored players, key by key. -/
def playerStatuses (ps : GoMap gamePlayer) : GoMap String :=
  ps.map (fun e => (e.1, e.2.Status))

/-- The field `PlayerID` of the stored players, key by key. -/
def playerIDsOf (ps : GoMap gamePlayer) : GoMap String :=
  ps.map (fun e => (e.1, e.2.PlayerID))

/-- The view `hardView` of a session. -/
def hard (g : gameSession) : hardView :=
  { IsDev := g.IsDev, Ruleset := g.Ruleset, Order := g.Order,
    statuses := playerStatuses g.Players, playerIDs := playerIDsOf g.Players,
    Phase := g.Phase, Round := g.Round, VotePhase := g.VotePhase, Votes := g.Votes,
    BaseVotes := g.BaseVotes, VoteCandidates := g.VoteCandidates,
    VoteDisabled := g.VoteDisabled, AutoWastedVoters := g.AutoWastedVoters,
    TieBreakUsed := g.TieBreakUsed, VotesRemaining := g.VotesRemaining,
    TotalExiles := g.TotalExiles, bunker := g.World.Bunker }

/-- The roster part of a session: who plays, in which order and with which status, the
round, the vote quota that is left and the number of exiles. -/
structure rosterView where
  IsDev : Bool
  Ruleset : gameRuleset
  Order : List String
  statuses : GoMap String
  playerIDs : GoMap String
  Round : Int
  VotesRemaining : Int
  TotalExiles : Int

/-- The roster part of a session. -/
def roster (g : gameSession) : rosterView :=
  { IsDev := g.IsDev, Ruleset := g.Ruleset, Order := g.Order,
    statuses := playerStatuses g.Players, playerIDs := playerIDsOf g.Players,
    Round := g.Round, VotesRemaining := g.VotesRemaining, TotalExiles := g.TotalExiles }

/-- The quota after one more player has gone: `if v > 0 { v-- }`. -/
def quotaAfterExit (v : Int) : Int := if v > 0 then v - 1 else v

/-- What one call of the session does to the roster. -/
inductive RosterStep (r r2 : rosterView) : Prop
  /-- Nothing. -/
  | still (h : r2 = r)
  /-- The next round starts with a quota that is not negative. -/
  | advance (v : Int) (hv : 0 ≤ v)
      (h : r2 = { r with Round := r.Round + 1, VotesRemaining := v })
  /-- An alive player `t` is eliminated or leaves the bunker: one more exile, one vote less. -/
  | exit (t s : String) (halive : mapGet? r.statuses t = some playerAlive)
      (hs : s = playerEliminated ∨ s = playerLeftBunker)
      (h : r2 = { r with statuses := mapModify r.statuses t (fun _ => s),
                         TotalExiles := r.TotalExiles + 1,
                         VotesRemaining := quotaAfterExit r.VotesRemaining })
  /-- A player `t` who is not alive is marked as having left the bunker. -/
  | relabel (t : String) (hdead : mapGet? r.statuses t ≠ some playerAlive)
      (h : r2 = { r with statuses := mapModify r.statuses t (fun _ => playerLeftBunker) })
  /-- The dev wrapper marks a player `t` as having left the bunker, without counting. -/
  | devLeave (t : String)
      (h : r2 = { r with statuses := mapModify r.statuses t (fun _ => playerLeftBunker) })
  /-- A new alive player is stored under an id `id` that was free. -/
  | added (id : String) (hfree : mapGet? r.statuses id = none) (hid : id ≠ "")
      (h : r2 = { r with statuses := r.statuses ++ [(id, playerAlive)],
                         playerIDs := r.playerIDs ++ [(id, id)],
                         Order := r.Order ++ [id] })
  /-- The player stored under `id` is deleted. -/
  | removed (id : String)
      (h : r2 = { r with statuses := mapDel r.statuses id,
                         playerIDs := mapDel r.playerIDs id,
                         Order := r.Order.filter (fun x => x ≠ id) })

/-- The ability instance that `applySpecial` finds for the actor under an instance id: the
first one of the actor's own list with that id. -/
def namedSpecial (g : gameSession) (actorID specialInstanceID : String) :
    Option specialConditionState :=
  match mapGet? g.Players actorID with
  | none => none
  | some p => p.Specials.find? (fun sp => sp.InstanceID = specialInstanceID)

/-- The card that `revealCard` finds in the actor's own hand under an instance id: the first
one with that id. -/
def ownCard (g : gameSession) (actorID cardID : String) : Option handCard :=
  match mapGet? g.Players actorID with
  | none => none
  | some p => p.Hand.find? (fun c => c.InstanceID = cardID)

/-- The forced category of the round, in the words of the specification, bars the reveal of
`card` by the stored player `actorID`: the category resolves to a deck (and slot), the card
lies outside it, and the actor still holds an unrevealed card in it. -/
def forcedCategoryBars (g : gameSession) (actorID : String) (card : handCard) : Prop :=
  ∃ cfg p, resolveCategoryDeckSlot g.RoundRules.ForcedCategory = some cfg ∧
    mapGet? g.Players actorID = some p ∧ cardInSlot cfg card = false ∧
    ∃ held, held ∈ p.Hand ∧ cardInSlot cfg held = true ∧ held.Revealed = false

/-- The session `g2` is the session `g` except, at most, for entries of `DeckPools` that hold
no card: every deck has the same pool of cards in both, an absent pool counting as empty. -/
def SameButEmptyPools (g g2 : gameSession) : Prop :=
  g2 = { g with DeckPools := g2.DeckPools } ∧
    ∀ deck, (mapGet? g2.DeckPools deck).getD [] = (mapGet? g.DeckPools deck).getD []

/-- A relation between the record of a player before and after a call that every write of
the session engine to a stored player respects: it is reflexive and transitive, and it
holds for a new hand, a new list of abilities, a new wasted-vote flag, a status other than
`alive`, and one more entry in `BannedAgainst`. -/
structure PlayerFrame (R : gamePlayer → gamePlayer → Prop) : Prop where
  refl : ∀ p, R p p
  trans : ∀ p q r, R p q → R q r → R p r
  hand : ∀ p h, R p { p with Hand := h }
  specials : ∀ p s, R p { p with Specials := s }
  flag : ∀ p b, R p { p with ForcedWastedVoteNext := b }
  exit : ∀ p s, s ≠ playerAlive → R p { p with Status := s }
  ban : ∀ p k, R p { p with BannedAgainst := mapSet p.BannedAgainst k true }

/-- The same players are stored, in the same places, and each record is related to its
earlier one. -/
def PStep (R : gamePlayer → gamePlayer → Prop) (ps ps2 : GoMap gamePlayer) : Prop :=
  List.Forall₂ (fun e e2 => e.1 = e2.1 ∧ R e.2 e2.2) ps ps2

/-- Every player stored in `g` is either no longer stored in `g2` or stored there with a
record related to the earlier one. -/
def KeptOrRemoved (R : gamePlayer → gamePlayer → Prop) (g g2 : gameSession) : Prop :=
  ∀ k p, mapGet? g.Players k = some p →
    mapGet? g2.Players k = none ∨ ∃ p2, mapGet? g2.Players k = some p2 ∧ R p p2

/-- The ban of the voter `voterID` stays: if the earlier record bans the voter, so does the
later one. -/
def BanKept (voterID : String) (p p2 : gamePlayer) : Prop :=
  mapGetB p.BannedAgainst voterID = true → mapGetB p2.BannedAgainst voterID = true

/-- A player who was not alive is not alive afterwards. -/
def StaysOut (p p2 : gamePlayer) : Prop :=
  p.Status ≠ playerAlive → p2.Status ≠ playerAlive

/-- The highest total of a table of totals, and at least zero. -/
def maxTotal (totals : GoMap Int) : Int :=
  (mapEntries totals).foldl (fun m e => max m e.2) 0

/-- The player `c` has the maximum total among the totals that `computeVoteTotals` gives for
the vote source `source`. -/
def hasMaxTotal (g : gameSession) (source : GoMap voteRecord) (c : String) : Prop :=
  mapGet? (computeVoteTotals g source).1 c = some (maxTotal (computeVoteTotals g source).1)

/-- The record that `resetVotesForRevote` writes for a voter of `AutoWastedVoters`. -/
def wastedRecord (now : Int) : voteRecord :=
  { TargetID := "", Submitted := now, IsValid := false, ReasonText := "Голос потрачен." }

/-- The votes left by `resetVotesForRevote`: the wasted record for the voters of
`AutoWastedVoters`, nothing for everybody else. -/
def onlyWastedVotes (g : gameSession) (votes : GoMap voteRecord) (now : Int) : Prop :=
  ∀ voter, mapGet? votes voter =
    if mapHas g.AutoWastedVoters voter then some (wastedRecord now) else none

/-- Every deck that `categoryKeyToDeck` names has an entry in `DeckPools`. -/
def coversCategoryDecks (g : gameSession) : Bool :=
  categoryKeyToDeck.all (fun e => mapHas g.DeckPools e.2)

/-- The target of an activation lacks a revealed health card: the player named by
`targetPlayerId` in the effective payload is not stored or holds no revealed card of the
health deck. -/
def targetLacksRevealedHealth (g : gameSession) (payload : GoMap AnyLeaf) : Bool :=
  match targetCardCount g (trimSpace (asString (mapGet? payload "targetPlayerId"))) "health"
      true with
  | none => true
  | some n => n = 0

/-! ## Example sessions -/

/-- A player without cards or abilities. -/
def examplePlayer (id status : String) : gamePlayer :=
  { PlayerID := id, Name := id, Status := status, Hand := [], Specials := [], IsBot := false,
    BannedAgainst := [], ForcedWastedVoteNext := false }

/-- Settings of the example sessions. -/
def exampleSettings : gameSettings :=
  { EnableRevealDiscussionTimer := false, RevealDiscussionSeconds := 60,
    EnablePreVoteDiscussionTime := false, PreVoteDiscussionSeconds := 60,
    EnablePostVoteDiscussion := false, PostVoteDiscussionSeconds := 45,
    EnablePresenterMode := false, ContinuePermission := "anyone",
    RevealTimeoutAction := "random_card", RevealsBeforeVoting := 2, SpecialUsage := "anytime",
    MaxPlayers := 12, FinalThreatReveal := "host" }

/-- A session of four alive players `p1` .. `p4` (host `p1`) in the reveal phase of round 1,
with vote quota 1 in both rounds, two seats and an exile budget of two. -/
def exampleSession : gameSession :=
  { RoomCode := "ROOM", HostID := "p1", Scenario := "classic", IsDev := false,
    Settings := exampleSettings,
    Ruleset := { PlayerCount := 4, VotesPerRnd := [1, 1], TotalExiles := 2, BunkerSeats := 2,
                 RulesetMode := "manual" },
    Players := [("p1", examplePlayer "p1" "alive"), ("p2", examplePlayer "p2" "alive"),
                ("p3", examplePlayer "p3" "alive"), ("p4", examplePlayer "p4" "alive")],
    Order := ["p1", "p2", "p3", "p4"], Phase := "reveal", Round := 1, CurrentTurnID := "p1",
    RevealedThisRnd := [], LastRevealerID := "", VotePhase := "", Votes := [], BaseVotes := [],
    VoteResults := [], VoteCandidates := [], VoteDisabled := [], VoteWeights := [],
    AutoWastedVoters := [], RevoteDisallow := [], DoubleAgainst := "", TieBreakUsed := false,
    VotesRemaining := 1, LastEliminatedID := "", ResolutionNote := "", Winners := [],
    LastStageText := "", TotalExiles := 0, EventCounter := 0,
    World := { Disaster := { Kind := "disaster", ID := "d", Title := "", Description := "",
                             Text := "", ImageID := "" },
               Bunker := [], Threats := [], CountsBunker := 0, CountsThreats := 0 },
    WorldEvent := none, PostGame := none, FinalThreats := [], FirstHealthRevealerID := "",
    RoundRules := { NoTalkUntilVoting := false, ForcedCategory := "" }, ActiveTimer := none,
    DeckPools := [], CardCounter := 0, DevBotCounter := 0, rng := [], specialPool := [],
    specialCounter := 0 }

/-- The example session while votes are collected: everybody is a candidate, `p1` has voted
for `p2`. -/
def exampleVoting : gameSession :=
  { exampleSession with
    Phase := "voting", VotePhase := "voting",
    VoteCandidates := [("p1", true), ("p2", true), ("p3", true), ("p4", true)],
    Votes := [("p1", { TargetID := "p2", Submitted := 5, IsValid := true, ReasonText := "" })] }

/-- A hidden health card and a hidden profession card. -/
def exampleHand (owner : String) : List handCard :=
  [{ InstanceID := owner ++ "-1", CardID := "health/asthma.jpg", Deck := "Здоровье",
     SlotKey := "", Label := "Астма", Revealed := false, Missing := false },
   { InstanceID := owner ++ "-2", CardID := "profession/cook.jpg", Deck := "Профессия",
     SlotKey := "", Label := "Повар", Revealed := false, Missing := false }]

/-- The example session after the deal: every player holds the two cards of `exampleHand`. -/
def exampleDealt : gameSession :=
  { exampleSession with
    Players := exampleSession.Players.map
      (fun e => (e.1, { e.2 with Hand := exampleHand e.1 })) }

/-- The dealt example session in a round whose rule forces the health category. -/
def exampleForced : gameSession :=
  { exampleDealt with RoundRules := { NoTalkUntilVoting := false, ForcedCategory := "Здоровье" } }

/-- The payload `{"cardId": id}`. -/
def cardPayload (id : String) : GoMap AnyVal := [("cardId", AnyVal.leaf (AnyLeaf.str id))]

/-- The payload `{"targetPlayerId": id}`. -/
def targetPayload (id : String) : GoMap AnyVal :=
  [("targetPlayerId", AnyVal.leaf (AnyLeaf.str id))]

/-- The session reached from the dealt example session when `p1`, `p2` and `p3` have each
revealed their health card and passed the turn on: the turn is with `p4`, the last player
who has not revealed in round 1. -/
def exampleLastTurn : gameSession :=
  let s1 := (handleAction exampleDealt "p1" "revealCard" (cardPayload "p1-1") 1).1
  let s2 := (handleAction s1 "p1" "continueRound" [] 2).1
  let s3 := (handleAction s2 "p2" "revealCard" (cardPayload "p2-1") 3).1
  let s4 := (handleAction s3 "p2" "continueRound" [] 4).1
  let s5 := (handleAction s4 "p3" "revealCard" (cardPayload "p3-1") 5).1
  (handleAction s5 "p3" "continueRound" [] 6).1

/-- The session reached from `exampleLastTurn` when `p4` is marked as having left the
bunker. -/
def exampleAfterLeave : gameSession :=
  (handleAction exampleLastTurn "p1" "markLeftBunker" (targetPayload "p4") 7).1

/-- An ability of the effect `stealBaggage_and_giveSpecial` as the loader builds it for the
target scope `any_including_self`, which sets `AllowSelf`. -/
def exampleStealDefinition : specialDefinition :=
  { ID := "need_more_self", Title := "Мне Нужнее", Text := "", Trigger := "active",
    Effect := { EffectType := "stealBaggage_and_giveSpecial",
                Params := [("giveSpecialCount", .num 1)] },
    Implemented := true, Requires := ["targetHasBaggage"], ChoiceKind := "player",
    TargetScope := "any_including_self", AllowSelf := true, AssetID := "" }

/-- The example session in which `p1` holds a baggage card and, as the only ability, the
unused and unrevealed `exampleStealDefinition`; the pool of abilities holds one more
definition. -/
def exampleSteal : gameSession :=
  { exampleSession with
    Players :=
      [("p1", { examplePlayer "p1" "alive" with
          Hand := [{ InstanceID := "p1-1", CardID := "baggage/rope.jpg", Deck := "Багаж",
                     SlotKey := "", Label := "Верёвка", Revealed := false, Missing := false }],
          Specials := [{ InstanceID := "special-p1-1", Definition := exampleStealDefinition,
                         RevealedPublic := false, Used := false }] }),
       ("p2", examplePlayer "p2" "alive"), ("p3", examplePlayer "p3" "alive"),
       ("p4", examplePlayer "p4" "alive")],
    CardCounter := 1, specialCounter := 1,
    specialPool := [{ exampleStealDefinition with ID := "spare", TargetScope := "any_alive",
                                                  AllowSelf := false }] }

/-- The payload of the `applySpecial` action by which the holder of `special-p1-1` targets
the player `id`. -/
def stealPayload (id : String) : GoMap AnyVal :=
  [("specialInstanceId", AnyVal.leaf (AnyLeaf.str "special-p1-1")),
   ("payload", AnyVal.obj [("targetPlayerId", AnyLeaf.str id)])]

/-- An ability of the effect `replaceRevealedCard` on the health category. -/
def exampleReplaceDefinition : specialDefinition :=
  { ID := "replace_health", Title := "Замена здоровья", Text := "", Trigger := "active",
    Effect := { EffectType := "replaceRevealedCard", Params := [("category", .str "health")] },
    Implemented := true, Requires := ["targetHasRevealedHealth"], ChoiceKind := "player",
    TargetScope := "any_alive", AllowSelf := false, AssetID := "" }

/-- The payload of the `applySpecial` action by which `p1` aims `special-p1-1` at the player
`id`, as `applySpecial` receives it. -/
def aimAt (id : String) : GoMap AnyLeaf := [("targetPlayerId", AnyLeaf.str id)]

/-- The dealt example session as a core session of the scenario `dev_test`. -/
def exampleDevDealt : gameSession :=
  { exampleDealt with Scenario := scenarioDevTest, IsDev := true }

/-- An ability of the effect `forceRevote` that forbids the previous top candidates. -/
def exampleRevoteDefinition : specialDefinition :=
  { ID := "revote", Title := "Переголосование", Text := "", Trigger := "active",
    Effect := { EffectType := "forceRevote",
                Params := [("disallowPreviousCandidate", .bool true)] },
    Implemented := true, Requires := ["phase=voting"], ChoiceKind := "none",
    TargetScope := "", AllowSelf := false, AssetID := "" }

/-- An ability of the effect `banVoteAgainst`. -/
def exampleBanDefinition : specialDefinition :=
  { ID := "ban", Title := "Запрет", Text := "", Trigger := "active",
    Effect := { EffectType := "banVoteAgainst", Params := [] },
    Implemented := true, Requires := ["phase=voting"], ChoiceKind := "player",
    TargetScope := "any_alive", AllowSelf := false, AssetID := "" }

/-- The votes `p1 -> p2`, `p2 -> p3`, `p3 -> p2`, `p4 -> p3`. -/
def exampleBallots : GoMap voteRecord :=
  [("p1", { TargetID := "p2", Submitted := 5, IsValid := true, ReasonText := "" }),
   ("p2", { TargetID := "p3", Submitted := 6, IsValid := true, ReasonText := "" }),
   ("p3", { TargetID := "p2", Submitted := 7, IsValid := true, ReasonText := "" }),
   ("p4", { TargetID := "p3", Submitted := 8, IsValid := true, ReasonText := "" })]

/-- The example session in the special window of a voting in which everybody has voted
(`exampleBallots`: two votes each for `p2` and `p3`); the host `p1` holds the unused
abilities `special-p1-1` (`forceRevote`) and `special-p1-2` (`banVoteAgainst`). -/
def exampleWindow : gameSession :=
  { exampleSession with
    Phase := scenarioPhaseVoting, VotePhase := votePhaseSpecialWindow,
    VoteCandidates := [("p1", true), ("p2", true), ("p3", true), ("p4", true)],
    Votes := exampleBallots, BaseVotes := exampleBallots,
    Players :=
      [("p1", { examplePlayer "p1" "alive" with
          Specials := [{ InstanceID := "special-p1-1", Definition := exampleRevoteDefinition,
                         RevealedPublic := false, Used := false },
                       { InstanceID := "special-p1-2", Definition := exampleBanDefinition,
                         RevealedPublic := false, Used := false }] }),
       ("p2", examplePlayer "p2" "alive"), ("p3", examplePlayer "p3" "alive"),
       ("p4", examplePlayer "p4" "alive")] }



/-! ## Observations for the end condition -/

/-- Every bunker card of the world is revealed. -/
def allBunkerRevealed (g : gameSession) : Bool := g.World.Bunker.all (fun c => c.IsRevealed)

/-- The session is over and shows its whole bunker. -/
def EndedRevealed (g : gameSession) : Prop :=
  g.Phase = scenarioPhaseEnded ∧ allBunkerRevealed g = true

/-- The ruleset that `buildManualRuleset` returns for four players and a manual configuration
of four bunker slots with the vote list `[1, 1]`: `requiredVotes 4 4 = 0` exiles. -/
def exampleFullBunkerRuleset : gameRuleset :=
  { PlayerCount := 4, VotesPerRnd := [1, 1], TotalExiles := 0, BunkerSeats := 4,
    RulesetMode := "manual" }

/-- The session that `newGameSession` creates for four players under
`exampleFullBunkerRuleset`, with empty asset decks: every player fits into the bunker from
the first moment on. -/
def exampleFullBunker : gameSession :=
  newGameSession "ROOM" "p1" "classic" exampleSettings exampleFullBunkerRuleset
    [{ ID := "p1", Name := "A" }, { ID := "p2", Name := "B" }, { ID := "p3", Name := "C" },
     { ID := "p4", Name := "D" }] [] [] [] 0

/-! ## Observations for the vote totals -/

/-- The test of the loop of `computeVoteTotals` that lets the effective vote `e` of the voter
`e.1` add its weight to the total of `c`: status voted, a target, an alive voter, and the
target is `c`. -/
def countsFor (g : gameSession) (c : String) (e : String × effectiveVoteRecord) : Bool :=
  decide (e.2.Status = "voted") && decide (e.2.TargetID ≠ "") && playerIsAlive g e.1 &&
    decide (e.2.TargetID = c)

/-- The effective votes of the source that count for `c`. -/
def countedVotes (g : gameSession) (source : GoMap voteRecord) (c : String) :
    List (String × effectiveVoteRecord) :=
  (mapEntries (buildEffectiveVotes g source)).filter (countsFor g c)

/-- The sum of the weights of the effective votes that count for `c`. -/
def voteTotal (g : gameSession) (source : GoMap voteRecord) (c : String) : Int :=
  ((countedVotes g source c).map (fun e => e.2.Weight)).sum

/-! ## Observations for the roster and the candidates -/

/-- The part of a session that the vote quota and the choice of the eliminated player depend
on: the order, the status of every stored player, the round, the quota that is left, the
number of exiles and the candidates. -/
structure pollView where
  Order : List String
  statuses : GoMap String
  Round : Int
  VotesRemaining : Int
  TotalExiles : Int
  VoteCandidates : GoMap Bool

/-- The view `pollView` of a session. -/
def poll (g : gameSession) : pollView :=
  { Order := g.Order, statuses := playerStatuses g.Players, Round := g.Round,
    VotesRemaining := g.VotesRemaining, TotalExiles := g.TotalExiles,
    VoteCandidates := g.VoteCandidates }

/-- What one call of the core session does to the view `pollView`. -/
inductive PollStep (r r2 : pollView) : Prop
  /-- Roster, round and quota stay; a new candidate is alive. -/
  | still (ho : r2.Order = r.Order) (hs : r2.statuses = r.statuses) (hr : r2.Round = r.Round)
      (hv : r2.VotesRemaining = r.VotesRemaining) (he : r2.TotalExiles = r.TotalExiles)
      (hc : ∀ x, mapHas r2.VoteCandidates x = true →
        mapHas r.VoteCandidates x = true ∨ mapGet? r.statuses x = some playerAlive)
  /-- The next round starts with a quota that is not negative and without candidates. -/
  | advance (ho : r2.Order = r.Order) (hs : r2.statuses = r.statuses)
      (hr : r2.Round = r.Round + 1) (hv : 0 ≤ r2.VotesRemaining)
      (he : r2.TotalExiles = r.TotalExiles) (hc : r2.VoteCandidates = [])
  /-- An alive player `t` is eliminated or leaves the bunker: one more exile, one vote less,
  and `t` is no candidate. -/
  | exit (t s : String) (halive : mapGet? r.statuses t = some playerAlive)
      (hs : s = playerEliminated ∨ s = playerLeftBunker)
      (ho : r2.Order = r.Order) (hst : r2.statuses = mapModify r.statuses t (fun _ => s))
      (hr : r2.Round = r.Round) (hv : r2.VotesRemaining = quotaAfterExit r.VotesRemaining)
      (he : r2.TotalExiles = r.TotalExiles + 1)
      (hc : ∀ x, mapHas r2.VoteCandidates x = true →
        mapHas r.VoteCandidates x = true ∧ x ≠ t)
  /-- A player `t` who is not alive is marked as having left the bunker. -/
  | relabel (t : String) (hdead : mapGet? r.statuses t ≠ some playerAlive)
      (ho : r2.Order = r.Order)
      (hst : r2.statuses = mapModify r.statuses t (fun _ => playerLeftBunker))
      (hr : r2.Round = r.Round) (hv : r2.VotesRemaining = r.VotesRemaining)
      (he : r2.TotalExiles = r.TotalExiles)
      (hc : ∀ x, mapHas r2.VoteCandidates x = true →
        mapHas r.VoteCandidates x = true ∧ x ≠ t)
  /-- A new alive player is stored under an id that was free. -/
  | added (id : String) (hfree : mapGet? r.statuses id = none) (hid : id ≠ "")
      (ho : r2.Order = r.Order ++ [id]) (hst : r2.statuses = r.statuses ++ [(id, playerAlive)])
      (hr : r2.Round = r.Round) (hv : r2.VotesRemaining = r.VotesRemaining)
      (he : r2.TotalExiles = r.TotalExiles)
      (hc : ∀ x, mapHas r2.VoteCandidates x = true →
        mapHas r.VoteCandidates x = true ∨ x = id)
  /-- The player stored under `id` is deleted. -/
  | removed (id : String)
      (ho : r2.Order = r.Order.filter (fun x => x ≠ id))
      (hst : r2.statuses = mapDel r.statuses id)
      (hr : r2.Round = r.Round) (hv : r2.VotesRemaining = r.VotesRemaining)
      (he : r2.TotalExiles = r.TotalExiles)
      (hc : ∀ x, mapHas r2.VoteCandidates x = true →
        mapHas r.VoteCandidates x = true ∧ x ≠ id)

/-- Every candidate is a stored alive player, and no player is stored under the empty id. -/
def CandidatesAlive (r : pollView) : Prop :=
  mapGet? r.statuses "" = none ∧
    ∀ c, mapHas r.VoteCandidates c = true → mapGet? r.statuses c = some playerAlive

/-- The states that the core session reaches from the state `g0` by actions and timer
expiries. -/
inductive ReachableFrom (g0 : gameSession) : gameSession → Prop
  | start : ReachableFrom g0 g0
  | action (g : gameSession) (actorID actionType : String) (payload : GoMap AnyVal)
      (now : Int) (h : ReachableFrom g0 g) :
      ReachableFrom g0 (handleAction g actorID actionType payload now).1
  | timer (g : gameSession) (now : Int) (h : ReachableFrom g0 g) :
      ReachableFrom g0 (handleTimerExpired g now).1



/-! ## Example sessions of the post-game -/

/-- The dealt example session put into the post-game as the tests of the repository do it:
the phase is `ended` and the post-game is active, without an outcome. -/
def examplePostGame : gameSession :=
  { exampleDealt with
    Phase := scenarioPhaseEnded
    PostGame := some
      { IsActive := true, EnteredAt := 0, Outcome := "", DecidedBy := "", DecidedAt := 0 } }

/-- The payload `{"outcome": o}`. -/
def outcomePayload (o : String) : GoMap AnyVal := [("outcome", AnyVal.leaf (AnyLeaf.str o))]

/-- The part of a session that tells whether the game is over and how it was judged: the
phase and the post-game record. -/
def finale (g : gameSession) : String × Option postGameStateView := (g.Phase, g.PostGame)

/-- The outcome recorded in the post-game record (`""`: none). -/
def recordedOutcome (g : gameSession) : String :=
  match g.PostGame with
  | some pg => pg.Outcome
  | none => ""

/-- The payload `{"index": i}`. -/
def indexPayload (i : Int) : GoMap AnyVal := [("index", AnyVal.leaf (AnyLeaf.num i))]

/-- The session reached from `exampleFullBunker`, where the end condition holds from the
start, by `devSkipRound`: the game has ended, with four hidden threat cards of which three
are eligible. -/
def exampleFinished : gameSession :=
  (handleAction exampleFullBunker "p1" "devSkipRound" [] 5).1



/-- The dealt example session with a reveal timer that ran out at time 1, as set up by
`TestGameSession_Timer_RevealTimeoutRandomCard`. -/
def exampleTimedOut : gameSession :=
  { exampleDealt with
    ActiveTimer := some { Kind := scenarioPhaseRevealDiscussion, EndsAt := 1 } }

/-- What the automatic play of the bots leaves alone between the session `g` and the later
session `g2`: roster, statuses and quota (the view `poll`), the last eliminated player, and
a phase other than `ended`. -/
def BotFrame (g g2 : gameSession) : Prop :=
  poll g2 = poll g ∧ g2.LastEliminatedID = g.LastEliminatedID ∧
    (g2.Phase = scenarioPhaseEnded → g.Phase = scenarioPhaseEnded)

/-- The state in which `postProcess` enters its loop. -/
def postStart (g : gameSession) (result : gameActionResult) : postState :=
  { session := g, combined := result, changed := result.StateChanged, returned := false }

/-- The dev session of `TestDevSession_EndConditionUsesDevCapacityAndElimination`, on the
example roster: `p4` has been eliminated and recorded as the last eliminated player. -/
def exampleDevCapacity : gameSession :=
  { exampleDevDealt with
    LastEliminatedID := "p4"
    Players := mapModify exampleDevDealt.Players "p4"
      (fun p => { p with Status := playerEliminated }) }

/-- The ability `protect_youngest` of `specials_data.go`. -/
def exampleYoungestDefinition : specialDefinition :=
  { ID := "protect_youngest", Title := "Защити Младшего", Text := "",
    Trigger := "secret_onEliminate",
    Effect := { EffectType := "forcedWastedVoteOnNextVoting",
                Params := [("condition", .str "youngestByRevealedAgeEliminated")] },
    Implemented := true, Requires := ["ageFieldAvailable", "someRevealedAges"],
    ChoiceKind := "none", TargetScope := "", AllowSelf := false, AssetID := "" }

/-- The unused, unrevealed instance of `protect_youngest` that `p1` holds. -/
def exampleYoungestSpecial : specialConditionState :=
  { InstanceID := "special-p1-1", Definition := exampleYoungestDefinition,
    RevealedPublic := false, Used := false }

/-- A revealed biology card with the given label. -/
def exampleAgeCard (owner label : String) : handCard :=
  { InstanceID := owner ++ "-1", CardID := "biology/card.jpg", Deck := "Биология",
    SlotKey := "", Label := label, Revealed := true, Missing := false }

/-- The example session with revealed ages 40, 35, 60 and 20 for `p1` .. `p4`; `p1` holds
the unused ability `protect_youngest`. -/
def exampleAges : gameSession :=
  { exampleSession with
    Players :=
      [("p1", { examplePlayer "p1" "alive" with
          Hand := [exampleAgeCard "p1" "Мужчина 40 лет"],
          Specials := [exampleYoungestSpecial] }),
       ("p2", { examplePlayer "p2" "alive" with Hand := [exampleAgeCard "p2" "Женщина 35 лет"] }),
       ("p3", { examplePlayer "p3" "alive" with Hand := [exampleAgeCard "p3" "Мужчина 60 лет"] }),
       ("p4", { examplePlayer "p4" "alive" with
          Hand := [exampleAgeCard "p4" "Женщина 20 лет"] })] }

/-- The ability `redeal_baggage` of `specials_data.go`. -/
def exampleRedealDefinition : specialDefinition :=
  { ID := "redeal_baggage", Title := "Давайте На Чистоту Багажа",
    Text := "Перераздать все раскрытые карты багажа между живыми игроками.",
    Trigger := "active",
    Effect := { EffectType := "redealAllRevealed",
                Params := [("category", .str "baggage"), ("scope", .str "aliveOnly")] },
    Implemented := true, Requires := ["phase=any"], ChoiceKind := "none", TargetScope := "",
    AllowSelf := false, AssetID := "" }

/-- A revealed baggage card. -/
def exampleBaggage (owner cardID label : String) : handCard :=
  { InstanceID := owner ++ "-1", CardID := cardID, Deck := "Багаж", SlotKey := "",
    Label := label, Revealed := true, Missing := false }

/-- The example session in which `p1` and `p2` each hold one revealed baggage card and `p1`
holds the unused ability `redeal_baggage`; the next value of the random source is 0. -/
def exampleRedeal : gameSession :=
  { exampleSession with
    Players :=
      [("p1", { examplePlayer "p1" "alive" with
          Hand := [exampleBaggage "p1" "baggage/rope.jpg" "Верёвка"],
          Specials := [{ InstanceID := "special-p1-1", Definition := exampleRedealDefinition,
                         RevealedPublic := false, Used := false }] }),
       ("p2", { examplePlayer "p2" "alive" with
          Hand := [exampleBaggage "p2" "baggage/medkit.jpg" "Аптечка"] }),
       ("p3", examplePlayer "p3" "alive"), ("p4", examplePlayer "p4" "alive")],
    rng := [0] }

/-- The payload of the `applySpecial` action for the ability `special-p1-1` without a
choice. -/
def redealPayload : GoMap AnyVal :=
  [("specialInstanceId", AnyVal.leaf (AnyLeaf.str "special-p1-1"))]

/-- The cards of the hand of the player `id` as (`CardID`, `Label`, `Missing`). -/
def handContents (g : gameSession) (id : String) : List (String × String × Bool) :=
  match mapGet? g.Players id with
  | none => []
  | some p => p.Hand.map (fun c => (c.CardID, c.Label, c.Missing))

/-- The ability `need_more` of `specials_data.go`. -/
def exampleNeedMoreDefinition : specialDefinition :=
  { ID := "need_more", Title := "Мне Нужнее",
    Text := "Забери багаж у выбранного игрока и выдай ему новое спецусловие.",
    Trigger := "active",
    Effect := { EffectType := "stealBaggage_and_giveSpecial",
                Params := [("giveSpecialCount", .num 1)] },
    Implemented := true, Requires := ["targetHasBaggage"], ChoiceKind := "player",
    TargetScope := "any_alive", AllowSelf := false, AssetID := "" }

/-- The example session in which `p1` holds the unused ability `need_more` and a health
card, and `p2` holds a hidden baggage card followed by a hidden profession card; the pool of
abilities holds one definition. -/
def exampleTheft : gameSession :=
  { exampleSession with
    Players :=
      [("p1", { examplePlayer "p1" "alive" with
          Hand := [{ InstanceID := "p1-1", CardID := "health/asthma.jpg", Deck := "Здоровье",
                     SlotKey := "", Label := "Астма", Revealed := false, Missing := false }],
          Specials := [{ InstanceID := "special-p1-1", Definition := exampleNeedMoreDefinition,
                         RevealedPublic := false, Used := false }] }),
       ("p2", { examplePlayer "p2" "alive" with
          Hand := [{ InstanceID := "p2-1", CardID := "baggage/rope.jpg", Deck := "Багаж",
                     SlotKey := "", Label := "Верёвка", Revealed := false, Missing := false },
                   { InstanceID := "p2-2", CardID := "profession/cook.jpg",
                     Deck := "Профессия", SlotKey := "", Label := "Повар", Revealed := false,
                     Missing := false }] }),
       ("p3", examplePlayer "p3" "alive"), ("p4", examplePlayer "p4" "alive")],
    CardCounter := 3, specialCounter := 1,
    specialPool := [exampleRedealDefinition] }

/-- The hand of the player `id`. -/
def handOf (g : gameSession) (id : String) : List handCard :=
  match mapGet? g.Players id with
  | none => []
  | some p => p.Hand



/-! ## Client views (`types.go`, `game.go`, `world_logic.go`, `util.go`) -/

structure cardRef where
  ID : String
  Deck : String
  Instance : String
  Label : String
  Secret : Bool
  Missing : Bool
  Revealed : Bool
  SlotKey : String
  AssetPath : String
  deriving DecidableEq, Repr

structure publicCategoryCard where
  Label : String
  ImgURL : String
  Revealed : Bool
  deriving DecidableEq, Repr

/-- The struct `publicCategorySlot`; a nil slice `Cards` is the empty list. -/
structure publicCategorySlot where
  Category : String
  Status : String
  Cards : List publicCategoryCard
  deriving DecidableEq, Repr

structure publicPlayerView where
  PlayerID : String
  Name : String
  Status : String
  Connected : Bool
  DisconnectedAt : Option Int
  TotalAbsentMS : Option Int
  CurrentOffMS : Option Int
  KickRemainMS : Option Int
  LeftBunker : Bool
  RevealedCards : List cardRef
  RevealedCount : Int
  TotalCards : Int
  SpecialRevealed : Bool
  Categories : List publicCategorySlot
  deriving DecidableEq, Repr

structure votingView where
  HasVoted : Bool
  deriving DecidableEq, Repr

structure votingProgress where
  Voted : Int
  Total : Int
  deriving DecidableEq, Repr

structure votePublic where
  VoterID : String
  VoterName : String
  TargetID : String
  TargetName : String
  Status : String
  Reason : String
  Submitted : Int
  deriving DecidableEq, Repr

/-- The room's `player`, as far as `buildPublicPlayers` reads it (the local variable
`roomPlayer`). -/
structure roomPlayer where
  Connected : Bool
  DisconnectedAtMS : Option Int
  TotalAbsentMS : Int
  deriving DecidableEq, Repr

/-- The struct `room`, as far as `buildPublicPlayers` reads it; a nil map `Players` is the
empty map. -/
structure room where
  Players : GoMap roomPlayer
  deriving DecidableEq, Repr

/-- The section `Public` of the struct `gameView`; nil slices are empty lists. -/
structure publicView where
  Players : List publicPlayerView
  RevealedThisRound : List String
  RoundRevealedCount : Int
  RoundTotalAlive : Int
  CurrentTurnPlayerID : Option String
  VotesRemaining : Int
  VotesTotal : Int
  RevealLimit : Int
  Voting : Option votingView
  VotePhase : Option String
  VotesPublic : List votePublic
  VotingProgress : Option votingProgress
  ThreatModifier : Option threatModifierView
  CanOpenVotingModal : Bool
  CanContinue : Bool
  VoteModalOpen : Bool
  ActiveTimer : Option gameTimerState
  LastEliminated : String
  Winners : List String
  ResolutionNote : String
  RoundRules : Option roundRulesPublic
  deriving DecidableEq, Repr

/-- The struct `gameView` without its section `You` (the viewer's own hand and abilities),
which is not part of this development. -/
structure gameView where
  Phase : String
  Round : Int
  Categories : List String
  LastStage : String
  Ruleset : gameRuleset
  World : Option worldStateView
  WorldEvent : Option worldEventView
  PostGame : Option postGameStateView
  Public : publicView
  deriving DecidableEq, Repr

def disconnectGraceMS : Int := 300000

/-- The function `maxInt64`. -/
def maxInt64 (a b : Int) : Int := if a > b then a else b

/-- The call `strings.Count(s, pat)` for a non-empty `pat`: the matches are counted from the
left and do not overlap; `skip` characters of the last match are still to be passed. -/
def countSub (pat : List Char) : Nat → List Char → Nat
  | _, [] => 0
  | skip + 1, _ :: cs => countSub pat skip cs
  | 0, c :: cs =>
    if pat.isPrefixOf (c :: cs) then 1 + countSub pat (pat.length - 1) cs
    else countSub pat 0 cs

/-- The markers of `mojibakeScore`. -/
def mojibakeMarkers : List String :=
  ["\u0420\u00A0", "\u0420\u040E", "\u0420\u040B", "\u0420\u0406\u0420\u201A",
   "\u0432\u20AC", "\u00D0", "\u00D1"]

/-- The function `mojibakeScore`; the test `rsRatio >= 0.18` on the quotient of two counts
is stated on the counts. -/
def mojibakeScore (value : String) : Nat :=
  let trimmed := trimSpace value
  if trimmed = "" then 0
  else
    let hits := (mojibakeMarkers.map (fun marker => countSub marker.data 0 trimmed.data)).sum
    let hits := hits + countSub "\uFFFD".data 0 trimmed.data * 3
    let rCount := countSub "\u0420".data 0 trimmed.data
    let sCount := countSub "\u0421".data 0 trimmed.data
    let runeCount := trimmed.data.length
    if runeCount > 0 ∧ rCount + sCount ≥ 4 ∧ 50 * (rCount + sCount) ≥ 9 * runeCount then
      hits + 2
    else hits

/-- The function `looksLikeMojibake`. -/
def looksLikeMojibake (text : String) : Bool :=
  let value := trimSpace text
  if value = "" then false else decide (mojibakeScore value ≥ 3)

/-- The function `defaultStageMessage`. -/
def defaultStageMessage (round : Int) : String :=
  let roundSafe := if round < 1 then 1 else round
  "Round " ++ fmtInt roundSafe ++ ": state updated."

/-- The function `specialImageURL`. -/
def specialImageURL (definition : specialDefinition) : String :=
  if definition.AssetID = "" then "" else "/assets/" ++ definition.AssetID

/-- The function `playerHasRevealedSpecial`. -/
def playerHasRevealedSpecial (p : gamePlayer) : Bool :=
  p.Specials.any (fun special => special.RevealedPublic)

/-- The function `maskWorldCard`. -/
def maskWorldCard (card : worldFacedCardView) : worldFacedCardView :=
  if card.IsRevealed then card
  else
    { card with Title := "", Description := "", Text := "", ImageID := "", IsRevealed := false,
                RevealedAtRound := none, RevealedBy := "" }

/-- The function `buildWorldView`. -/
def buildWorldView (g : gameSession) : worldStateView :=
  { Disaster := g.World.Disaster
    Bunker := g.World.Bunker.map maskWorldCard
    Threats := g.World.Threats.map maskWorldCard
    CountsBunker := g.World.CountsBunker
    CountsThreats := g.World.CountsThreats }

/-- The function `playerHasVoted`. -/
def playerHasVoted (g : gameSession) (playerID : String) : Bool :=
  mapHas (currentVoteSource g) playerID

/-- The function `revealedThisRoundIDs`. -/
def revealedThisRoundIDs (g : gameSession) : List String :=
  g.Order.filter (fun id => mapGetB g.RevealedThisRnd id)

/-- The name `sanitizeHumanText(target.Name, ..)` of the target of a vote in
`buildVotesPublic`. -/
def voteTargetName (g : gameSession) (targetID : String) : String :=
  match mapGet? g.Players targetID with
  | some target => sanitizeHumanText target.Name "Unknown player"
  | none => "Unknown player"

/-- The body of the loop of `buildVotesPublic` for the stored player `p`. -/
def votePublicOf (g : gameSession) (effective : GoMap effectiveVoteRecord)
    (playerID : String) (p : gamePlayer) : votePublic :=
  let notVoted : votePublic :=
    { VoterID := playerID, VoterName := sanitizeHumanText p.Name "Player", TargetID := "",
      TargetName := "", Status := "not_voted", Reason := "", Submitted := 0 }
  match mapGet? effective playerID with
  | none => notVoted
  | some info =>
    if info.Status = "not_voted" then notVoted
    else if info.Status = "voted" ∧ info.TargetID ≠ "" then
      { VoterID := playerID, VoterName := sanitizeHumanText p.Name "Player",
        TargetID := info.TargetID,
        TargetName := sanitizeHumanText (voteTargetName g info.TargetID) "Unknown player",
        Status := "voted", Reason := "", Submitted := info.Submitted }
    else
      { VoterID := playerID, VoterName := sanitizeHumanText p.Name "Player", TargetID := "",
        TargetName := "", Status := "invalid",
        Reason := sanitizeHumanText info.ReasonText "Vote rejected.",
        Submitted := info.Submitted }

/-- The function `buildVotesPublic`. -/
def buildVotesPublic (g : gameSession) : List votePublic :=
  let effective := buildEffectiveVotes g (currentVoteSource g)
  g.Order.filterMap (fun playerID =>
    (mapGet? g.Players playerID).map (votePublicOf g effective playerID))

/-- The function `buildPublicCategories`. -/
def buildPublicCategories (g : gameSession) (p : gamePlayer) : List publicCategorySlot :=
  categoryOrder.map (fun category =>
    if categoryOrder.length > 0 ∧ some category = categoryOrder.getLast? then
      let cards : List publicCategoryCard :=
        (p.Specials.filter (fun special => !(!g.IsDev && !special.RevealedPublic))).map
          (fun special =>
            { Label := special.Definition.Title, ImgURL := specialImageURL special.Definition,
              Revealed := special.RevealedPublic })
      { Category := category, Status := if cards.length > 0 then "revealed" else "hidden",
        Cards := cards }
    else
      match resolveCategoryDeckSlot category with
      | none => { Category := category, Status := "hidden", Cards := [] }
      | some cfg =>
        let cards : List publicCategoryCard :=
          (p.Hand.filter (fun card =>
            cardInSlot cfg card && !(!g.IsDev && !card.Revealed))).map
            (fun card =>
              { Label := card.Label,
                ImgURL := if card.CardID ≠ "" then "/assets/" ++ card.CardID else "",
                Revealed := card.Revealed })
        { Category := category, Status := if cards.length > 0 then "revealed" else "hidden",
          Cards := cards })

/-- The body of the loop of `buildPublicPlayers` for the stored player `p`; `now` is the
reading of the clock. -/
def publicPlayerOf (g : gameSession) (rm : Option room) (now : Int) (playerID : String)
    (p : gamePlayer) : publicPlayerView :=
  let rp : Option roomPlayer :=
    match rm with
    | some r => mapGet? r.Players playerID
    | none => none
  let currentOffline : roomPlayer → Int := fun x =>
    match x.DisconnectedAtMS with
    | some at_ => if !x.Connected then maxInt64 0 (now - at_) else 0
    | none => 0
  let revealed := p.Hand.filter (fun card => card.Revealed)
  { PlayerID := p.PlayerID
    Name := p.Name
    Status := p.Status
    Connected := (rp.map (fun x => x.Connected)).getD false
    DisconnectedAt := rp.bind (fun x => x.DisconnectedAtMS)
    TotalAbsentMS := rp.map (fun x => x.TotalAbsentMS)
    CurrentOffMS := rp.map currentOffline
    KickRemainMS := rp.map (fun x =>
      maxInt64 0 (disconnectGraceMS - (x.TotalAbsentMS + currentOffline x)))
    LeftBunker := p.Status = playerLeftBunker
    RevealedCards := revealed.map (fun card =>
      { ID := card.CardID, Deck := card.Deck, Instance := card.InstanceID, Label := card.Label,
        Secret := false, Missing := card.Missing, Revealed := false, SlotKey := "",
        AssetPath := "" })
    RevealedCount := revealed.length
    TotalCards := p.Hand.length
    SpecialRevealed := (g.IsDev && decide (p.Specials.length > 0)) || playerHasRevealedSpecial p
    Categories := buildPublicCategories g p }

/-- The function `buildPublicPlayers`; `now` is the reading of the clock. -/
def buildPublicPlayers (g : gameSession) (rm : Option room) (now : Int) :
    List publicPlayerView :=
  g.Order.filterMap (fun playerID =>
    (mapGet? g.Players playerID).map (publicPlayerOf g rm now playerID))

/-- The round rules shown by `buildGameView`. -/
def publicRoundRules (g : gameSession) : Option roundRulesPublic :=
  if g.RoundRules.NoTalkUntilVoting ∨ g.RoundRules.ForcedCategory ≠ "" then
    if g.RoundRules.ForcedCategory ≠ "" then
      let key := resolveCategoryKey g.RoundRules.ForcedCategory
      if key ≠ "" then
        some { g.RoundRules with ForcedCategory := mapGetS categoryKeyToLabel key }
      else if looksLikeMojibake g.RoundRules.ForcedCategory then
        some { g.RoundRules with ForcedCategory := "" }
      else some g.RoundRules
    else some g.RoundRules
  else none

/-- The function `buildGameView` without the section `You`; `now` is the reading of the
clock in `buildPublicPlayers`. -/
def buildGameView (g : gameSession) (rm : Option room) (now : Int) (playerID : String) :
    gameView :=
  let revealedThisRound := revealedThisRoundIDs g
  let voting : Bool := g.VotePhase ≠ ""
  { Phase := g.Phase
    Round := g.Round
    Categories := categoryOrder
    LastStage := sanitizeHumanText g.LastStageText (defaultStageMessage g.Round)
    Ruleset := g.Ruleset
    World := some (buildWorldView g)
    WorldEvent := g.WorldEvent
    PostGame := g.PostGame
    Public :=
      { Players := buildPublicPlayers g rm now
        RevealedThisRound := revealedThisRound
        RoundRevealedCount := revealedThisRound.length
        RoundTotalAlive := (aliveIDs g).length
        CurrentTurnPlayerID := if g.CurrentTurnID ≠ "" then some g.CurrentTurnID else none
        VotesRemaining := g.VotesRemaining
        VotesTotal := votesForRound g g.Round
        RevealLimit := (aliveIDs g).length
        Voting := if voting then some { HasVoted := playerHasVoted g playerID } else none
        VotePhase := if voting then some g.VotePhase else none
        VotesPublic := if voting then buildVotesPublic g else []
        VotingProgress :=
          if voting then
            some { Voted := mapLen (currentVoteSource g), Total := (aliveIDs g).length }
          else none
        ThreatModifier := some (currentThreatModifier g)
        CanOpenVotingModal := g.VotePhase ≠ ""
        CanContinue := canContinue g playerID
        VoteModalOpen := g.VotePhase = votePhaseVoting
        ActiveTimer := g.ActiveTimer
        LastEliminated := g.LastEliminatedID
        Winners := g.Winners
        ResolutionNote := sanitizeHumanText g.ResolutionNote "Voting results updated."
        RoundRules := publicRoundRules g } }

/-! ## Hidden information -/

/-- A hand card without what is hidden of it: an unrevealed card loses `CardID` and
`Label`. -/
def hideCard (card : handCard) : handCard :=
  if card.Revealed then card else { card with CardID := "", Label := "" }

/-- A player without the hidden information: the unrevealed hand cards lose card id and
label, and the abilities that are not publicly revealed are left out. -/
def hidePlayer (p : gamePlayer) : gamePlayer :=
  { p with Hand := p.Hand.map hideCard
           Specials := p.Specials.filter (fun special => special.RevealedPublic) }

/-- A bunker or threat card without what is hidden of it: an unrevealed card loses title,
description, text and image id. -/
def hideWorldCard (card : worldFacedCardView) : worldFacedCardView :=
  if card.IsRevealed then card
  else { card with Title := "", Description := "", Text := "", ImageID := "" }

/-- The session without the hidden information of its players and of its world. -/
def hideSecrets (g : gameSession) : gameSession :=
  { g with
    Players := g.Players.map (fun e => (e.1, hidePlayer e.2))
    World := { g.World with Bunker := g.World.Bunker.map hideWorldCard
                            Threats := g.World.Threats.map hideWorldCard } }

/-- Two sessions that differ only in hidden information: in card id and label of unrevealed
hand cards, in abilities that are not publicly revealed, and in title, description, text and
image id of unrevealed bunker and threat cards. -/
def SameButHidden (g g2 : gameSession) : Prop := hideSecrets g = hideSecrets g2

/-- The hand of `exampleHand` with other cards behind the same two slots. -/
def exampleOtherHand (owner : String) : List handCard :=
  [{ InstanceID := owner ++ "-1", CardID := "health/flu.jpg", Deck := "Здоровье",
     SlotKey := "", Label := "Грипп", Revealed := false, Missing := false },
   { InstanceID := owner ++ "-2", CardID := "profession/pilot.jpg", Deck := "Профессия",
     SlotKey := "", Label := "Пилот", Revealed := false, Missing := false }]

/-- The dealt example session after `p1` has revealed its first card, with a hidden bunker
card and a hidden ability of `p2`. -/
def exampleSeen : gameSession :=
  let s := (handleAction exampleDealt "p1" "revealCard" (cardPayload "p1-1") 5).1
  { s with
    Players := mapModify s.Players "p2" (fun p =>
      { p with Specials := [exampleYoungestSpecial] })
    World := { s.World with
      Bunker := [{ Kind := "bunker", ID := "bunker/1.jpg", Title := "Склад",
                   Description := "Склад", Text := "", ImageID := "bunker/1.jpg",
                   IsRevealed := false, RevealedAtRound := none, RevealedBy := "" }] } }

/-- The session `exampleSeen` with other hidden cards for `p2`, `p3` and `p4`, another
hidden ability of `p2` and another hidden bunker card. -/
def exampleSeenOther : gameSession :=
  { exampleSeen with
    Players := exampleSeen.Players.map (fun e =>
      if e.1 = "p1" then e
      else (e.1, { e.2 with
        Hand := exampleOtherHand e.1
        Specials := e.2.Specials.map (fun s =>
          { s with Definition := exampleRedealDefinition }) }))
    World := { exampleSeen.World with
      Bunker := [{ Kind := "bunker", ID := "bunker/1.jpg", Title := "Оранжерея",
                   Description := "Оранжерея", Text := "", ImageID := "bunker/2.jpg",
                   IsRevealed := false, RevealedAtRound := none, RevealedBy := "" }] } }

/-! ## Doubled votes -/

/-- The weight of a vote of `voterID` before any doubling: the voter's `VoteWeights`
override if positive, else 1. -/
def baseWeight (g : gameSession) (voterID : String) : Int :=
  match mapGet? g.VoteWeights voterID with
  | some w => if w > 0 then w else 1
  | none => 1

/-- The ability `compromat` of `specials_data.go`. -/
def exampleCompromatDefinition : specialDefinition :=
  { ID := "compromat", Title := "Компромат",
    Text := "Голоса против выбранного игрока считаются двойными, твой голос тратится.",
    Trigger := "active",
    Effect := { EffectType := "doubleVotesAgainst_and_disableSelfVote",
                Params := [("scope", .str "thisVoting")] },
    Implemented := true, Requires := ["phase=voting"], ChoiceKind := "player",
    TargetScope := "any_alive", AllowSelf := false, AssetID := "" }

/-- Five alive players while votes are collected: everybody is a candidate, nobody has voted,
and `p1` holds the unused ability `compromat`. -/
def exampleFiveVoting : gameSession :=
  { exampleSession with
    Ruleset := { PlayerCount := 5, VotesPerRnd := [1, 1], TotalExiles := 2, BunkerSeats := 3,
                 RulesetMode := "manual" },
    Players :=
      [("p1", { examplePlayer "p1" "alive" with
          Specials := [{ InstanceID := "special-p1-1",
                         Definition := exampleCompromatDefinition,
                         RevealedPublic := false, Used := false }] }),
       ("p2", examplePlayer "p2" "alive"), ("p3", examplePlayer "p3" "alive"),
       ("p4", examplePlayer "p4" "alive"), ("p5", examplePlayer "p5" "alive")],
    Order := ["p1", "p2", "p3", "p4", "p5"],
    Phase := scenarioPhaseVoting, VotePhase := votePhaseVoting,
    VoteCandidates := [("p1", true), ("p2", true), ("p3", true), ("p4", true), ("p5", true)] }

/-- The session `exampleFiveVoting` after the votes `p1 -> p2`, `p2 -> p3`, `p3 -> p2`,
`p4 -> p2` and `p5 -> p2`: the last vote has opened the special window. -/
def exampleFiveWindow : gameSession :=
  let s1 := (handleAction exampleFiveVoting "p1" "vote" (targetPayload "p2") 1).1
  let s2 := (handleAction s1 "p2" "vote" (targetPayload "p3") 2).1
  let s3 := (handleAction s2 "p3" "vote" (targetPayload "p2") 3).1
  let s4 := (handleAction s3 "p4" "vote" (targetPayload "p2") 4).1
  (handleAction s4 "p5" "vote" (targetPayload "p2") 5).1

/-- The session after `p1` has applied `compromat` to `p2` in `exampleFiveWindow`. -/
def exampleFiveDoubled : gameSession :=
  (applySpecial exampleFiveWindow "p1" "special-p1-1" [("targetPlayerId", .str "p2")] 6).1

/-! ## Removals and the vote quota -/

/-- The number of players who are alive in the status table `r` and eliminated or gone from
the bunker in the status table `r2`. -/
def removals (r r2 : GoMap String) : Nat :=
  ((mapKeys r).filter (fun id =>
    decide (mapGet? r id = some playerAlive) &&
      (decide (mapGet? r2 id = some playerEliminated) ||
        decide (mapGet? r2 id = some playerLeftBunker)))).length

/-- The number of removals between the sessions `g` and `g2`: the players alive in `g` who
are eliminated or have left the bunker in `g2`. -/
def removalsIn (g g2 : gameSession) : Nat :=
  removals (playerStatuses g.Players) (playerStatuses g2.Players)

/-- The states that the core session reaches from `g0` by actions and timer expiries,
together with the number of removals on the way. -/
inductive RunFrom (g0 : gameSession) : gameSession → Nat → Prop
  | start : RunFrom g0 g0 0
  | action (g : gameSession) (n : Nat) (actorID actionType : String) (payload : GoMap AnyVal)
      (now : Int) (h : RunFrom g0 g n) :
      RunFrom g0 (handleAction g actorID actionType payload now).1
        (n + removalsIn g (handleAction g actorID actionType payload now).1)
  | timer (g : gameSession) (n : Nat) (now : Int) (h : RunFrom g0 g n) :
      RunFrom g0 (handleTimerExpired g now).1 (n + removalsIn g (handleTimerExpired g now).1)

/-- The three ways in which one step of the core session treats the quota: nothing happens
to it, one removal takes one vote off it as `applyElimination` and `markLeftBunker` do
(`quotaAfterExit`), or the next round starts with a new quota. -/
def QuotaStep (g g2 : gameSession) : Prop :=
  (removalsIn g g2 = 0 ∧ g2.Round = g.Round ∧ g2.VotesRemaining = g.VotesRemaining) ∨
  (removalsIn g g2 = 1 ∧ g2.Round = g.Round ∧
    g2.VotesRemaining = quotaAfterExit g.VotesRemaining) ∨
  (removalsIn g g2 = 0 ∧ g2.Round = g.Round + 1 ∧ 0 ≤ g2.VotesRemaining)

/-- The ruleset that `buildManualRuleset` returns for four players and a manual configuration
of two bunker slots with the vote list `[1, 1]`. -/
def exampleQuotaRuleset : gameRuleset :=
  { PlayerCount := 4, VotesPerRnd := [1, 1], TotalExiles := 2, BunkerSeats := 2,
    RulesetMode := "manual" }

/-- The session that `newGameSession` creates for four players under `exampleQuotaRuleset`,
with empty asset decks. -/
def exampleQuotaStart : gameSession :=
  newGameSession "ROOM" "p1" "classic" exampleSettings exampleQuotaRuleset
    [{ ID := "p1", Name := "A" }, { ID := "p2", Name := "B" }, { ID := "p3", Name := "C" },
     { ID := "p4", Name := "D" }] [] [] [] 0

/-- The session `exampleQuotaStart` after `p4` has left the bunker. -/
def exampleQuotaOne : gameSession :=
  (handleAction exampleQuotaStart "p1" "markLeftBunker" (targetPayload "p4") 1).1

/-- The session `exampleQuotaOne` after `p3` has left the bunker as well. -/
def exampleQuotaTwo : gameSession :=
  (handleAction exampleQuotaOne "p1" "markLeftBunker" (targetPayload "p3") 2).1

/-! ## A run into the tie-break -/

/-- One turn of the reveal phase: the player reveals the card and the host continues. -/
def exampleTurn (g : gameSession) (playerID cardID : String) (now : Int) : gameSession :=
  (handleAction (handleAction g playerID "revealCard" (cardPayload cardID) now).1
    "p1" "continueRound" [] (now + 1)).1

/-- The session `exampleQuotaStart` after every player has revealed the first card: votes
are collected and everybody is a candidate. -/
def exampleAllRevealed : gameSession :=
  exampleTurn (exampleTurn (exampleTurn (exampleTurn exampleQuotaStart "p1" "p1-1" 1)
    "p2" "p2-8" 3) "p3" "p3-15" 5) "p4" "p4-22" 7

/-- The session `exampleAllRevealed` after the host has finalized the vote without any
vote: all four candidates tie and the one tie-break revote is running. -/
def exampleTieBreak : gameSession :=
  (handleAction exampleAllRevealed "p1" "finalizeVoting" [] 9).1



/-! ## Instance ids -/

/-- The instance ids of the cards in the hand of a player. -/
def handIDs (p : gamePlayer) : List String := p.Hand.map (fun c => c.InstanceID)

/-- The instance ids of the abilities of a player. -/
def abilityIDs (p : gamePlayer) : List String := p.Specials.map (fun s => s.InstanceID)

/-- The part of a session that the instance ids depend on: the ids in the hand and among the
abilities of every stored player, and the two counters. -/
structure idView where
  hands : List (List String)
  abilities : List (List String)
  CardCounter : Int
  specialCounter : Int

/-- The view `idView` of a session. -/
def ids (g : gameSession) : idView :=
  { hands := g.Players.map (fun e => handIDs e.2),
    abilities := g.Players.map (fun e => abilityIDs e.2),
    CardCounter := g.CardCounter, specialCounter := g.specialCounter }

/-- The instance ids of all hand cards of all stored players. -/
def allCardIDs (g : gameSession) : List String := (ids g).hands.flatten

/-- The instance ids of all abilities of all stored players. -/
def allSpecialIDs (g : gameSession) : List String := (ids g).abilities.flatten

/-- The instance ids of the hand cards of the players that the map `Players` holds, one
binding per key. -/
def heldCardIDs (g : gameSession) : List String :=
  ((mapEntries g.Players).map (fun e => handIDs e.2)).flatten

/-- The instance ids of the abilities of the players that the map `Players` holds. -/
def heldSpecialIDs (g : gameSession) : List String :=
  ((mapEntries g.Players).map (fun e => abilityIDs e.2)).flatten

/-- The ids that successive calls of `nextCardInstanceID` return for the players `owners`
when the counter stands at `n` before the first call. -/
def mintedCards : Int → List String → List String
  | _, [] => []
  | n, o :: os => (o ++ "-" ++ fmtInt (n + 1)) :: mintedCards (n + 1) os

/-- The ids that successive calls of `nextSpecialInstanceID` return for the players `owners`
when the counter stands at `n` before the first call. -/
def mintedSpecials : Int → List String → List String
  | _, [] => []
  | n, o :: os => ("special-" ++ o ++ "-" ++ fmtInt (n + 1)) :: mintedSpecials (n + 1) os

/-- The string `id` is an id that `nextCardInstanceID` returns at a counter value from 1 to
`n`, for some player. -/
def IssuedCard (n : Int) (id : String) : Prop :=
  ∃ (owner : String) (c : Int), 0 < c ∧ c ≤ n ∧ id = owner ++ "-" ++ fmtInt c

/-- The string `id` is an id that `nextSpecialInstanceID` returns at a counter value from 1
to `n`, for some player. -/
def IssuedSpecial (n : Int) (id : String) : Prop :=
  ∃ (owner : String) (c : Int), 0 < c ∧ c ≤ n ∧ id = "special-" ++ owner ++ "-" ++ fmtInt c

/-- What a call does to the instance ids: each counter advances by the number of ids issued,
and every id of the later session is an id of the earlier one or one of the ids issued, each
as often at most as there. -/
def IdStep (g g2 : gameSession) : Prop :=
  (∃ owners : List String, g2.CardCounter = g.CardCounter + owners.length ∧
    ∀ x, (allCardIDs g2).count x ≤
      (allCardIDs g).count x + (mintedCards g.CardCounter owners).count x) ∧
  (∃ owners : List String, g2.specialCounter = g.specialCounter + owners.length ∧
    ∀ x, (allSpecialIDs g2).count x ≤
      (allSpecialIDs g).count x + (mintedSpecials g.specialCounter owners).count x)

/-- No instance id occurs twice, among the hand cards and among the abilities, and every id
that occurs is one that the counters have issued. -/
def UniqueIDs (g : gameSession) : Prop :=
  (allCardIDs g).Nodup ∧ (allSpecialIDs g).Nodup ∧
    0 ≤ g.CardCounter ∧ 0 ≤ g.specialCounter ∧
    (∀ id ∈ allCardIDs g, IssuedCard g.CardCounter id) ∧
    (∀ id ∈ allSpecialIDs g, IssuedSpecial g.specialCounter id)



/-! ## Observations for the later claims -/

/-- The example session while votes are collected and three of the four alive players have
voted. -/
def exampleThreeVotes : gameSession :=
  { exampleVoting with
    Votes := [("p1", { TargetID := "p2", Submitted := 5, IsValid := true, ReasonText := "" }),
              ("p2", { TargetID := "p3", Submitted := 6, IsValid := true, ReasonText := "" }),
              ("p3", { TargetID := "p2", Submitted := 7, IsValid := true, ReasonText := "" })] }

/-- The session `exampleQuotaStart` after `p1` has revealed a card: the discussion of the
reveal runs. -/
def exampleDiscussion : gameSession :=
  (handleAction exampleQuotaStart "p1" "revealCard" (cardPayload "p1-1") 1).1

/-- Spec-level: the nearest alive player to the left of `playerID` in the circular `Order`:
the first alive player met when the positions before `playerID` are scanned leftwards,
wrapping round to the end of `Order` (`none` when nobody in `Order` is alive). -/
def nearestAliveLeft (g : gameSession) (playerID : String) : Option String :=
  ((g.Order.take (g.Order.indexOf playerID)).reverse ++
    (g.Order.drop (g.Order.indexOf playerID)).reverse).find? (playerIsAlive g)

/-- Spec-level: the nearest alive player to the right of `playerID` in the circular
`Order`. -/
def nearestAliveRight (g : gameSession) (playerID : String) : Option String :=
  (g.Order.drop (g.Order.indexOf playerID + 1) ++
    g.Order.take (g.Order.indexOf playerID + 1)).find? (playerIsAlive g)

/-- The ability `protect_left` of `specials_data.go`. -/
def exampleLeftDefinition : specialDefinition :=
  { ID := "protect_left", Title := "Защити Игрока Слева",
    Text := "Если левый сосед исключён, твой следующий голос тратится.",
    Trigger := "secret_onEliminate",
    Effect := { EffectType := "forcedWastedVoteOnNextVoting",
                Params := [("condition", .str "leftNeighborEliminated")] },
    Implemented := true, Requires := ["needsNeighborIndexing"],
    ChoiceKind := "none", TargetScope := "", AllowSelf := false, AssetID := "" }

/-- The unused, unrevealed instance of `protect_left` that `p1` holds. -/
def exampleLeftSpecial : specialConditionState :=
  { InstanceID := "special-p1-1", Definition := exampleLeftDefinition,
    RevealedPublic := false, Used := false }

/-- The example session in which `p1` holds the unused ability `protect_left`; the alive
player to the left of `p1` is `p4`, the one to the right is `p2`. -/
def exampleNeighbours : gameSession :=
  { exampleSession with
    Players :=
      [("p1", { examplePlayer "p1" "alive" with Specials := [exampleLeftSpecial] }),
       ("p2", examplePlayer "p2" "alive"),
       ("p3", examplePlayer "p3" "alive"),
       ("p4", examplePlayer "p4" "alive")] }

/-- The session `exampleNeighbours` after the elimination of `p4`: the ability of `p1` has
fired, so the next vote of `p1` is to be wasted. -/
def exampleFlagged : gameSession := applyElimination exampleNeighbours "p4"

/-- Spec-level: the number of stored players whose status is not `alive`. -/
def notAliveCount (g : gameSession) : Nat :=
  ((mapKeys g.Players).filter (fun id => !playerIsAlive g id)).length

/-- The number of keys of the status table `st` whose status is not `alive`. -/
def notAliveIn (st : GoMap String) : Nat :=
  ((mapKeys st).filter (fun id => decide (mapGet? st id ≠ some playerAlive))).length

/-- Spec-level: the key `key` of `categoryKeyToLabel` is one that `resolveCategoryKey` can
match for `input`: it is the trimmed input itself, or the normalised input is not empty and
is the normalised key, the normalised label of the key or the normalised deck name of the
key. -/
def categoryKeyMatches (input key : String) : Bool :=
  mapHas categoryKeyToLabel key &&
    (decide (trimSpace input = key) ||
      (decide (normalizeSpecialKey (trimSpace input) ≠ "") &&
        (decide (normalizeSpecialKey key = normalizeSpecialKey (trimSpace input)) ||
          decide (normalizeSpecialKey (mapGetS categoryKeyToLabel key) =
            normalizeSpecialKey (trimSpace input)) ||
          (decide (mapGetS categoryKeyToDeck key ≠ "") &&
            decide (normalizeSpecialKey (mapGetS categoryKeyToDeck key) =
              normalizeSpecialKey (trimSpace input))))))

/-! ## Preset rulesets (`rules.go`) -/

/-- The constant `minClassicPlayers`. -/
def minClassicPlayers : Int := 4

/-- The constant `maxClassicPlayers`. -/
def maxClassicPlayers : Int := 16

/-- The entries of `rulesetTable`. -/
structure rulesetEntry where
  VotesPerRound : List Int
  TotalExiles : Int
  BunkerSeats : Int
  deriving DecidableEq, Repr

/-- The table `rulesetTable`. -/
def rulesetTable : List (Int × rulesetEntry) :=
  [(4, { VotesPerRound := [0, 0, 0, 1, 1], TotalExiles := 2, BunkerSeats := 2 }),
   (5, { VotesPerRound := [0, 0, 1, 1, 1], TotalExiles := 3, BunkerSeats := 2 }),
   (6, { VotesPerRound := [0, 0, 1, 1, 1], TotalExiles := 3, BunkerSeats := 3 }),
   (7, { VotesPerRound := [0, 1, 1, 1, 1], TotalExiles := 4, BunkerSeats := 3 }),
   (8, { VotesPerRound := [0, 1, 1, 1, 1], TotalExiles := 4, BunkerSeats := 4 }),
   (9, { VotesPerRound := [0, 1, 1, 1, 2], TotalExiles := 5, BunkerSeats := 4 }),
   (10, { VotesPerRound := [0, 1, 1, 1, 2], TotalExiles := 5, BunkerSeats := 5 }),
   (11, { VotesPerRound := [0, 1, 1, 2, 2], TotalExiles := 6, BunkerSeats := 5 }),
   (12, { VotesPerRound := [0, 1, 1, 2, 2], TotalExiles := 6, BunkerSeats := 6 }),
   (13, { VotesPerRound := [0, 1, 2, 2, 2], TotalExiles := 7, BunkerSeats := 6 }),
   (14, { VotesPerRound := [0, 1, 2, 2, 2], TotalExiles := 7, BunkerSeats := 7 }),
   (15, { VotesPerRound := [0, 2, 2, 2, 2], TotalExiles := 8, BunkerSeats := 7 }),
   (16, { VotesPerRound := [0, 2, 2, 2, 2], TotalExiles := 8, BunkerSeats := 8 })]

/-- The lookup `entry, ok := rulesetTable[n]`. -/
def rulesetLookup (n : Int) : Option rulesetEntry :=
  (rulesetTable.find? (fun e => e.1 = n)).map Prod.snd

/-- The function `clampInt`. -/
def clampInt (value minVal maxVal : Int) : Int :=
  if value < minVal then minVal
  else if value > maxVal then maxVal
  else value

/-- The function `getRulesetForPlayerCount`; a missing entry is the zero value of the entry
type. -/
def getRulesetForPlayerCount (count : Int) : gameRuleset :=
  let clamped := clampInt count minClassicPlayers maxClassicPlayers
  match rulesetLookup clamped with
  | some entry =>
    { PlayerCount := clamped, VotesPerRnd := entry.VotesPerRound,
      TotalExiles := entry.TotalExiles, BunkerSeats := entry.BunkerSeats,
      RulesetMode := "preset" }
  | none =>
    let entry := (rulesetLookup minClassicPlayers).getD
      { VotesPerRound := [], TotalExiles := 0, BunkerSeats := 0 }
    { PlayerCount := minClassicPlayers, VotesPerRnd := entry.VotesPerRound,
      TotalExiles := entry.TotalExiles, BunkerSeats := entry.BunkerSeats,
      RulesetMode := "preset" }



/-- The instance ids that the stored players hold, binding by binding: the ids of the hand
cards and the ids of the abilities. -/
def playerIds (ps : GoMap gamePlayer) : List (List String × List String) :=
  ps.map (fun e => (handIDs e.2, abilityIDs e.2))

/-- The session that `newGameSession` creates in the scenario `dev_test` for the players `p1`
and `p2`, with empty asset decks and five definitions of abilities. -/
def exampleIdsStart : gameSession :=
  newGameSession "ROOM" "p1" scenarioDevTest exampleSettings exampleQuotaRuleset
    [{ ID := "p1", Name := "A" }, { ID := "p2", Name := "B" }] []
    [exampleStealDefinition, exampleBanDefinition, exampleRevoteDefinition,
     exampleReplaceDefinition, exampleRedealDefinition] [] 0

/-- The session `exampleIdsStart` after the host has added a dev player. -/
def exampleIdsGrown : gameSession :=
  (handleAction exampleIdsStart "p1" "devAddPlayer" [] 1).1

/-- The session `exampleIdsGrown` after `p1` has taken the baggage of `p2` with the ability
`special-p1-1`. -/
def exampleIdsStolen : gameSession :=
  (handleAction exampleIdsGrown "p1" "applySpecial" (stealPayload "p2") 2).1



/-! ## The sessions a room holds -/

/-- The states of the session that a room of the server holds once `startGame` has stored
the session `g0` in it.  The room calls `handleAction` and `handleTimerExpired` of its
`roomGame`, which is the wrapper `devTestSession` in the scenario `dev_test` (the sessions
with `IsDev`) and the core session in every other scenario, and it calls `setHostID` when
the host changes. -/
inductive ServerRun (g0 : gameSession) : gameSession → Prop
  | start : ServerRun g0 g0
  | action (g : gameSession) (actorID actionType : String) (payload : GoMap AnyVal)
      (now : Int) (h : ServerRun g0 g) (hdev : g.IsDev = false) :
      ServerRun g0 (handleAction g actorID actionType payload now).1
  | timer (g : gameSession) (now : Int) (h : ServerRun g0 g) (hdev : g.IsDev = false) :
      ServerRun g0 (handleTimerExpired g now).1
  | devAction (g : gameSession) (actorID actionType : String) (payload : GoMap AnyVal)
      (now : Int) (h : ServerRun g0 g) (hdev : g.IsDev = true) :
      ServerRun g0 (devHandleAction g actorID actionType payload now).1
  | devTimer (g : gameSession) (now : Int) (h : ServerRun g0 g) (hdev : g.IsDev = true) :
      ServerRun g0 (devHandleTimerExpired g now).1
  | host (g : gameSession) (hostID : String) (h : ServerRun g0 g) :
      ServerRun g0 (setHostID g hostID)

/-- Every deck that has an entry in `DeckPools` of `g` has one in `DeckPools` of `g2`. -/
def KeepsDecks (g g2 : gameSession) : Prop :=
  ∀ k, mapHas g.DeckPools k = true → mapHas g2.DeckPools k = true

/-- The test of `startNextRoundOrEnd` for ending the game: the end condition holds or the
rounds of the ruleset are used up. -/
def endReached (g : gameSession) : Prop :=
  shouldEnd g = true ∨ g.Round + 1 > (g.Ruleset.VotesPerRnd.length : Int)

/-- No record of the map is flagged `IsValid = false` and names a target: every record has
the shape of those that `vote` and `autoVoteBots` write (not flagged) or of those that
`markVoteWasted` writes (flagged, with the empty target). -/
def flaggedWithoutTarget (votes : GoMap voteRecord) : Prop :=
  ∀ e ∈ votes, e.2.IsValid = false → e.2.TargetID = ""

/-- The three maps of vote records that `currentVoteSource` chooses from hold no flagged
record that names a target. -/
structure VotesWellFormed (g : gameSession) : Prop where
  votes : flaggedWithoutTarget g.Votes
  base : flaggedWithoutTarget g.BaseVotes
  results : flaggedWithoutTarget g.VoteResults

/-- The session that `newGameSession` creates in the scenario `classic` for four players,
with empty asset decks; `p1` is dealt the ability `exampleReplaceDefinition`. -/
def exampleReplaceStart : gameSession :=
  newGameSession "ROOM" "p1" "classic" exampleSettings exampleQuotaRuleset
    [{ ID := "p1", Name := "A" }, { ID := "p2", Name := "B" }, { ID := "p3", Name := "C" },
     { ID := "p4", Name := "D" }] []
    [exampleReplaceDefinition, exampleBanDefinition] [] 0

/-- The session `exampleReplaceStart` after `p1` has revealed the health card `p1-2` and
closed the discussion. -/
def exampleReplaceTurn : gameSession :=
  (handleAction (handleAction exampleReplaceStart "p1" "revealCard" (cardPayload "p1-2") 1).1
    "p1" "continueRound" [] 2).1

/-- The session `exampleReplaceTurn` after `p2` has revealed the health card `p2-9`: the
health deck holds no card. -/
def exampleReplaceRun : gameSession :=
  (handleAction exampleReplaceTurn "p2" "revealCard" (cardPayload "p2-9") 3).1

/-- The session `exampleAllRevealed`, in which votes are collected, after `p1` has voted for
`p2`. -/
def exampleBallot : gameSession :=
  (handleAction exampleAllRevealed "p1" "vote" (targetPayload "p2") 9).1



/-! ## The finished game -/

/-- The state in which `finishGame` leaves a session: the post-game is active and no timer
runs. -/
def endSettled (g : gameSession) : Prop := postGameActive g = true ∧ g.ActiveTimer = none

/-- The part of a session that `finishGame` and the timer look at: the phase, the post-game
record and the running timer. -/
def closing (g : gameSession) : String × Option postGameStateView × Option gameTimerState :=
  (g.Phase, g.PostGame, g.ActiveTimer)

theorem ite_of {α : Type} (P : α → Prop) (c : Prop) [Decidable c] (a b : α)
    (ha : c → P a) (hb : ¬ c → P b) : P (if c then a else b) := by
  split
  · exact ha ‹_›
  · exact hb ‹_›

/-! ## Lemmas on Go maps -/

theorem mapGet?_mapModify {V : Type} (m : GoMap V) (k k' : String) (f : V → V) :
    mapGet? (mapModify m k f) k' = if k = k' then (mapGet? m k').map f else mapGet? m k' := by
  induction m with
  | nil => simp [mapModify, mapGet?]
  | cons e t ih =>
    obtain ⟨a, v⟩ := e
    by_cases h1 : a = k
    · subst h1
      by_cases h2 : a = k'
      · simp [mapModify, mapGet?, h2]
      · simp [mapModify, mapGet?, h2]
    · by_cases h2 : a = k'
      · subst h2
        simp [mapModify, mapGet?, h1, Ne.symm h1]
      · simp [mapModify, mapGet?, h1, h2, ih]

theorem mapGet?_append_single {V : Type} (m : GoMap V) (k k' : String) (v : V) :
    mapGet? (m ++ [(k, v)]) k' =
      match mapGet? m k' with
      | some x => some x
      | none => if k = k' then some v else none := by
  induction m with
  | nil => simp [mapGet?]
  | cons e t ih =>
    obtain ⟨a, w⟩ := e
    by_cases h : a = k'
    · simp [mapGet?, h]
    · simp [mapGet?, h, ih]

theorem mapGet?_mapSet {V : Type} (m : GoMap V) (k k' : String) (v : V) :
    mapGet? (mapSet m k v) k' = if k = k' then some v else mapGet? m k' := by
  unfold mapSet
  by_cases hh : mapHas m k = true
  · rw [if_pos hh, mapGet?_mapModify]
    by_cases h : k = k'
    · subst h
      simp only [mapHas, Option.isSome_iff_exists] at hh
      obtain ⟨x, hx⟩ := hh
      simp [hx]
    · simp [h]
  · rw [if_neg hh, mapGet?_append_single]
    by_cases h : k = k'
    · subst h
      simp only [mapHas, Bool.not_eq_true, Option.not_isSome, Option.isNone_iff_eq_none] at hh
      simp [hh]
    · simp only [h, if_false]
      cases mapGet? m k' <;> rfl

theorem mapGet?_mapDel {V : Type} (m : GoMap V) (k k' : String) :
    mapGet? (mapDel m k) k' = if k = k' then none else mapGet? m k' := by
  induction m with
  | nil => simp [mapDel, mapGet?]
  | cons e t ih =>
    obtain ⟨a, w⟩ := e
    unfold mapDel at ih ⊢
    by_cases h1 : a = k
    · subst h1
      simp only [List.filter, ne_eq, not_true_eq_false, decide_False, mapGet?]
      rw [ih]
      by_cases h2 : a = k' <;> simp [h2]
    · have : decide ((a, w).1 ≠ k) = true := by simp [h1]
      simp only [List.filter, this, mapGet?]
      rw [ih]
      by_cases h2 : a = k'
      · subst h2
        simp [Ne.symm h1]
      · simp [h2]

/-! ## The vote action -/

theorem enterVoteSpecialWindow_Error (g : gameSession) (now : Int) :
    (enterVoteSpecialWindow g now).2.Error = "" := rfl

theorem enterVoteSpecialWindow_Votes (g : gameSession) (now : Int) :
    (enterVoteSpecialWindow g now).1.Votes = g.Votes := by
  unfold enterVoteSpecialWindow
  simp only [clearActiveTimer, makeEvent, schedulePhaseTimer]
  repeat' split
  all_goals rfl

theorem vote_rejects_voter_with_record (g : gameSession) (actorID targetID : String) (now : Int)
    (h : mapHas g.Votes actorID = true) :
    (vote g actorID targetID now).2.Error ≠ "" ∧ (vote g actorID targetID now).1 = g := by
  generalize hv : vote g actorID targetID now = r
  unfold vote at hv
  repeat' split at hv
  all_goals subst hv
  all_goals simp_all [errorResult]

theorem postProcess_of_error (g : gameSession) (result : gameActionResult) (now : Int)
    (h : result.Error ≠ "") : postProcess g result now = (g, result) := by
  unfold postProcess
  rw [if_pos h]

theorem handleAction_vote (g : gameSession) (actorID : String) (payload : GoMap AnyVal)
    (now : Int) :
    handleAction g actorID "vote" payload now =
      match mapGet? g.Players actorID with
      | none => (g, errorResult "Игрок не найден.")
      | some _ => vote g actorID (payloadString payload "targetPlayerId") now := by
  unfold handleAction
  cases mapGet? g.Players actorID <;> rfl

theorem devHandleAction_vote (g : gameSession) (actorID : String) (payload : GoMap AnyVal)
    (now : Int) :
    devHandleAction g actorID "vote" payload now =
      match mapGet? g.Players actorID with
      | none => (g, errorResult "Игрок не найден.")
      | some p =>
        if p.Status ≠ playerAlive then (g, errorResult "Вы исключены из игры.")
        else if g.Phase = scenarioPhaseEnded then (g, errorResult "Игра уже завершена.")
        else postProcess (handleAction g actorID "vote" payload now).1
          (handleAction g actorID "vote" payload now).2 now := by
  unfold devHandleAction
  cases mapGet? g.Players actorID <;> simp

/-- C5. A voter who already has a record in `Votes` (a cast or a wasted vote) cannot vote
again: the function `vote`, the `vote` action of the core session and the `vote` action of
the dev wrapper all return an error and leave the whole session, `Votes` included, as it
was. -/
theorem second_vote_is_rejected (g : gameSession) (actorID : String) (payload : GoMap AnyVal)
    (now : Int) (h : mapHas g.Votes actorID = true) :
    ((vote g actorID (payloadString payload "targetPlayerId") now).2.Error ≠ "" ∧
      (vote g actorID (payloadString payload "targetPlayerId") now).1 = g) ∧
    ((handleAction g actorID "vote" payload now).2.Error ≠ "" ∧
      (handleAction g actorID "vote" payload now).1 = g) ∧
    ((devHandleAction g actorID "vote" payload now).2.Error ≠ "" ∧
      (devHandleAction g actorID "vote" payload now).1 = g) := by
  have hv := vote_rejects_voter_with_record g actorID (payloadString payload "targetPlayerId")
    now h
  have hcore : (handleAction g actorID "vote" payload now).2.Error ≠ "" ∧
      (handleAction g actorID "vote" payload now).1 = g := by
    rw [handleAction_vote]
    cases mapGet? g.Players actorID with
    | none => exact ⟨by simp [errorResult], rfl⟩
    | some p => exact hv
  refine ⟨hv, hcore, ?_⟩
  rw [devHandleAction_vote]
  cases mapGet? g.Players actorID with
  | none => exact ⟨by simp [errorResult], rfl⟩
  | some p =>
    dsimp only
    split
    · exact ⟨by simp [errorResult], rfl⟩
    · split
      · exact ⟨by simp [errorResult], rfl⟩
      · rw [postProcess_of_error _ _ _ hcore.1]
        exact hcore

theorem vote_spec (g : gameSession) (actorID targetID : String) (now : Int) :
    ((vote g actorID targetID now).2.Error = "" ↔ voteAcceptable g actorID targetID) ∧
    ((vote g actorID targetID now).2.Error = "" →
      mapGet? (vote g actorID targetID now).1.Votes actorID =
        some { TargetID := targetID, Submitted := now, IsValid := true, ReasonText := "" }) ∧
    ((vote g actorID targetID now).2.Error ≠ "" → (vote g actorID targetID now).1 = g) := by
  generalize hv : vote g actorID targetID now = r
  unfold vote at hv
  unfold voteAcceptable
  repeat' split at hv
  all_goals try dsimp only at hv
  all_goals repeat' split at hv
  all_goals subst hv
  all_goals simp only [enterVoteSpecialWindow_Error, enterVoteSpecialWindow_Votes, mapGet?_mapSet]
  all_goals simp_all [errorResult, mapHas, playerIsAlive, targetBans, changedResult]
  all_goals first
    | (intro hh; exact absurd hh.symm (by assumption))
    | (intro h1 h2; rcases ‹¬g.Phase = scenarioPhaseVoting ∨ ¬g.VotePhase = votePhaseVoting› with
        h | h <;> contradiction)
    | (intro _ ha ht
       cases hA : mapGet? g.Players actorID <;> cases hT : mapGet? g.Players targetID <;>
         simp_all)

/-- C6. The `vote` action of an existing actor is accepted exactly when the phase and vote
phase are `voting`, the target is another player, a candidate that is not excluded from the
revote, the actor's vote is not disabled, actor and target are alive, the target has not
banned the actor and the actor has no record yet (`voteAcceptable`); an accepted vote stores
a valid record for the target under the actor, a rejected one returns an error and leaves
the session unchanged. -/
theorem vote_accepted_iff (g : gameSession) (actorID : String) (payload : GoMap AnyVal)
    (now : Int) (hactor : mapHas g.Players actorID = true) :
    ((handleAction g actorID "vote" payload now).2.Error = "" ↔
      voteAcceptable g actorID (payloadString payload "targetPlayerId")) ∧
    ((handleAction g actorID "vote" payload now).2.Error = "" →
      mapGet? (handleAction g actorID "vote" payload now).1.Votes actorID =
        some { TargetID := payloadString payload "targetPlayerId", Submitted := now,
               IsValid := true, ReasonText := "" }) ∧
    ((handleAction g actorID "vote" payload now).2.Error ≠ "" →
      (handleAction g actorID "vote" payload now).1 = g) := by
  rw [handleAction_vote]
  simp only [mapHas, Option.isSome_iff_exists] at hactor
  obtain ⟨p, hp⟩ := hactor
  rw [hp]
  exact vote_spec g actorID (payloadString payload "targetPlayerId") now



/-! ## Effective votes -/

/-- What the loop of `buildEffectiveVotes` writes for a player id. -/
theorem buildEffectiveVotesStep_get (g : gameSession) (source : GoMap voteRecord)
    (out : GoMap effectiveVoteRecord) (playerID id : String) :
    mapGet? (buildEffectiveVotesStep g source out playerID) id =
      if playerID = id ∧ mapHas g.Players playerID = true then
        (match mapGet? source playerID with
         | none => some { TargetID := "", Status := "not_voted", ReasonText := "", Weight := 0,
                          Submitted := 0 }
         | some record => some (effectiveVoteOf g playerID record))
      else mapGet? out id := by
  unfold buildEffectiveVotesStep
  cases hp : mapGet? g.Players playerID with
  | none => simp [mapHas, hp]
  | some p =>
    cases hs : mapGet? source playerID with
    | none =>
      simp only [mapGet?_mapSet, mapHas, hp, Option.isSome_some, and_true]
    | some record =>
      simp only [mapGet?_mapSet, mapHas, hp, Option.isSome_some, and_true]

theorem buildEffectiveVotes_foldl_get (g : gameSession) (source : GoMap voteRecord)
    (order : List String) (out : GoMap effectiveVoteRecord) (id : String) :
    mapGet? (order.foldl (buildEffectiveVotesStep g source) out) id =
      if id ∈ order ∧ mapHas g.Players id = true then
        (match mapGet? source id with
         | none => some { TargetID := "", Status := "not_voted", ReasonText := "", Weight := 0,
                          Submitted := 0 }
         | some record => some (effectiveVoteOf g id record))
      else mapGet? out id := by
  induction order generalizing out with
  | nil => simp
  | cons a t ih =>
    rw [List.foldl_cons, ih, buildEffectiveVotesStep_get]
    by_cases hp : mapHas g.Players id = true
    · by_cases h2 : a = id
      · subst h2
        simp [hp]
      · have h3 : ¬ id = a := fun h => h2 h.symm
        simp [hp, h2, h3]
    · by_cases h2 : a = id
      · subst h2
        simp [hp]
      · have h3 : ¬ id = a := fun h => h2 h.symm
        simp [hp, h2, h3]

theorem buildEffectiveVotes_get (g : gameSession) (source : GoMap voteRecord) (id : String) :
    mapGet? (buildEffectiveVotes g source) id =
      if id ∈ g.Order ∧ mapHas g.Players id = true then
        (match mapGet? source id with
         | none => some { TargetID := "", Status := "not_voted", ReasonText := "", Weight := 0,
                          Submitted := 0 }
         | some record => some (effectiveVoteOf g id record))
      else none := by
  unfold buildEffectiveVotes
  rw [buildEffectiveVotes_foldl_get]
  rfl

/-- Closed form of `effectiveVoteOf`: status and weight, reason, submission time and target of
the effective vote computed from a submitted record. -/
theorem effectiveVoteOf_spec (g : gameSession) (id : String) (record : voteRecord) :
    ((effectiveVoteOf g id record).Status, (effectiveVoteOf g id record).Weight) =
      (if claimedInvalid g id record || (record.TargetID ≠ "" && !record.IsValid) then
        ("invalid", 0)
      else if record.TargetID = "" then ("not_voted", 0)
      else ("voted", claimedWeight g id record.TargetID)) ∧
    (effectiveVoteOf g id record).ReasonText = invalidReason g id record ∧
    (effectiveVoteOf g id record).Submitted = record.Submitted ∧
    (effectiveVoteOf g id record).TargetID =
      (if (effectiveVoteOf g id record).Status = "voted" then record.TargetID else "") := by
  unfold effectiveVoteOf claimedInvalid claimedWeight invalidReason mapGetS mapHas
  generalize mapGet? g.VoteDisabled id = od
  generalize mapGet? g.VoteWeights id = ow
  generalize g.DoubleAgainst = d
  generalize record.IsValid = v
  generalize record.ReasonText = r
  generalize record.TargetID = t
  have hod : od = none ∨ od = some "" ∨ ∃ x, x ≠ "" ∧ od = some x := by
    rcases od with _ | x
    · exact Or.inl rfl
    · rcases eq_or_ne x "" with rfl | hx
      · exact Or.inr (Or.inl rfl)
      · exact Or.inr (Or.inr ⟨x, hx, rfl⟩)
  have how : ow = none ∨ (∃ w, 0 < w ∧ ow = some w) ∨ ∃ w, ¬ 0 < w ∧ ow = some w := by
    rcases ow with _ | w
    · exact Or.inl rfl
    · by_cases hw : 0 < w
      · exact Or.inr (Or.inl ⟨w, hw, rfl⟩)
      · exact Or.inr (Or.inr ⟨w, hw, rfl⟩)
  rcases eq_or_ne t "" with rfl | ht
  · rcases eq_or_ne r "" with rfl | hr <;>
    rcases hod with rfl | rfl | ⟨x, hx, rfl⟩ <;>
    cases v <;> simp [*]
  · have hdt : d = t ∨ (d ≠ t ∧ t ≠ d) := by
      rcases eq_or_ne d t with h | h
      · exact Or.inl h
      · exact Or.inr ⟨h, h.symm⟩
    rcases eq_or_ne r "" with rfl | hr <;>
    rcases hod with rfl | rfl | ⟨x, hx, rfl⟩ <;>
    cases v <;>
    cases hbr : mapGetB g.RevoteDisallow t <;>
    cases hbc : mapGetB g.VoteCandidates t <;>
    cases hbb : targetBans g t id <;>
    first
      | (clear how hdt
         simp [*]
         done)
      | (rcases how with rfl | ⟨w, hw, rfl⟩ | ⟨w, hw, rfl⟩ <;>
         rcases hdt with hdt0 | ⟨hdt1, hdt2⟩ <;>
         simp [*])

/-- For every player of `Order` and every source map, `buildEffectiveVotes` yields an
effective vote whose status and weight follow `guardedEffectiveVote`: the rule of the
specification with the guard on the flag `IsValid`, by which a submitted record with a
non-empty target whose flag is false is invalid with weight 0 too. The reason is the record's
own reason, else the disable or rejection reason; a counted vote keeps the record's target
and every other vote has the empty target. -/
theorem effective_votes_follow_guarded_rule (g : gameSession) (source : GoMap voteRecord)
    (id : String) (hOrder : id ∈ g.Order) (hPlayer : mapHas g.Players id = true) :
    ∃ e, mapGet? (buildEffectiveVotes g source) id = some e ∧
      (e.Status, e.Weight) = guardedEffectiveVote g source id ∧
      e.ReasonText = (match mapGet? source id with
                      | none => ""
                      | some record => invalidReason g id record) ∧
      e.TargetID = (match mapGet? source id with
                    | none => ""
                    | some record => if e.Status = "voted" then record.TargetID else "") := by
  rw [buildEffectiveVotes_get, if_pos ⟨hOrder, hPlayer⟩]
  unfold guardedEffectiveVote
  cases hs : mapGet? source id with
  | none => exact ⟨_, rfl, rfl, rfl, rfl⟩
  | some record =>
    have h := effectiveVoteOf_spec g id record
    exact ⟨_, rfl, h.1, h.2.1, h.2.2.2⟩



/-- Witness of C5: in the example voting session `p1` has voted for `p2`; a second vote of
`p1`, now for `p3`, is rejected everywhere. -/
theorem second_vote_is_rejected_witness :
    mapHas exampleVoting.Votes "p1" = true ∧
    (((vote exampleVoting "p1"
        (payloadString [("targetPlayerId", AnyVal.leaf (AnyLeaf.str "p3"))] "targetPlayerId")
        7).2.Error ≠ "" ∧
      (vote exampleVoting "p1"
        (payloadString [("targetPlayerId", AnyVal.leaf (AnyLeaf.str "p3"))] "targetPlayerId")
        7).1 = exampleVoting) ∧
    ((handleAction exampleVoting "p1" "vote"
        [("targetPlayerId", AnyVal.leaf (AnyLeaf.str "p3"))] 7).2.Error ≠ "" ∧
      (handleAction exampleVoting "p1" "vote"
        [("targetPlayerId", AnyVal.leaf (AnyLeaf.str "p3"))] 7).1 = exampleVoting) ∧
    ((devHandleAction exampleVoting "p1" "vote"
        [("targetPlayerId", AnyVal.leaf (AnyLeaf.str "p3"))] 7).2.Error ≠ "" ∧
      (devHandleAction exampleVoting "p1" "vote"
        [("targetPlayerId", AnyVal.leaf (AnyLeaf.str "p3"))] 7).1 = exampleVoting)) :=
  ⟨by decide,
   second_vote_is_rejected exampleVoting "p1"
     [("targetPlayerId", AnyVal.leaf (AnyLeaf.str "p3"))] 7 (by decide)⟩

/-- Witness of C6: in the example voting session the vote of the existing player `p2` for
`p3` meets the acceptance condition and is stored. -/
theorem vote_accepted_iff_witness :
    mapHas exampleVoting.Players "p2" = true ∧
    (((handleAction exampleVoting "p2" "vote"
        [("targetPlayerId", AnyVal.leaf (AnyLeaf.str "p3"))] 7).2.Error = "" ↔
      voteAcceptable exampleVoting "p2"
        (payloadString [("targetPlayerId", AnyVal.leaf (AnyLeaf.str "p3"))] "targetPlayerId")) ∧
    ((handleAction exampleVoting "p2" "vote"
        [("targetPlayerId", AnyVal.leaf (AnyLeaf.str "p3"))] 7).2.Error = "" →
      mapGet? (handleAction exampleVoting "p2" "vote"
        [("targetPlayerId", AnyVal.leaf (AnyLeaf.str "p3"))] 7).1.Votes "p2" =
        some { TargetID := payloadString [("targetPlayerId", AnyVal.leaf (AnyLeaf.str "p3"))]
                 "targetPlayerId",
               Submitted := 7, IsValid := true, ReasonText := "" }) ∧
    ((handleAction exampleVoting "p2" "vote"
        [("targetPlayerId", AnyVal.leaf (AnyLeaf.str "p3"))] 7).2.Error ≠ "" →
      (handleAction exampleVoting "p2" "vote"
        [("targetPlayerId", AnyVal.leaf (AnyLeaf.str "p3"))] 7).1 = exampleVoting)) :=
  ⟨by decide,
   vote_accepted_iff exampleVoting "p2" [("targetPlayerId", AnyVal.leaf (AnyLeaf.str "p3"))] 7
     (by decide)⟩

/-! ## Finalizing outside the special window -/

/-- C7 (counterexample). In the example voting session votes are still collected
(`VotePhase` is `voting`, only `p1` has voted); the `finalizeVoting` action of the host `p1`
on the core session returns no error and changes the session: the phase becomes
`resolution` and the alive player `p2` is eliminated. -/
theorem core_finalize_accepted_while_collecting :
    exampleVoting.Phase = scenarioPhaseVoting ∧ exampleVoting.VotePhase = votePhaseVoting ∧
    (handleAction exampleVoting "p1" "finalizeVoting" [] 7).2.Error = "" ∧
    (handleAction exampleVoting "p1" "finalizeVoting" [] 7).1.Phase = scenarioPhaseResolution ∧
    (handleAction exampleVoting "p1" "finalizeVoting" [] 7).1.LastEliminatedID = "p2" ∧
    (mapGet? exampleVoting.Players "p2").map (fun p => p.Status) = some playerAlive ∧
    (mapGet? (handleAction exampleVoting "p1" "finalizeVoting" [] 7).1.Players "p2").map
      (fun p => p.Status) = some playerEliminated := by
  decide

theorem handleAction_finalizeVoting (g : gameSession) (actorID : String)
    (payload : GoMap AnyVal) (now : Int) :
    handleAction g actorID "finalizeVoting" payload now =
      match mapGet? g.Players actorID with
      | none => (g, errorResult "Игрок не найден.")
      | some _ => finalizeVoting g actorID now := by
  unfold handleAction
  cases mapGet? g.Players actorID <;> rfl

theorem finalizeVoting_rejects (g : gameSession) (actorID : String) (now : Int)
    (h : g.Phase ≠ scenarioPhaseVoting ∨
      (g.VotePhase ≠ votePhaseSpecialWindow ∧ g.VotePhase ≠ votePhaseVoting) ∨
      actorID ≠ g.HostID) :
    (finalizeVoting g actorID now).2.Error ≠ "" ∧ (finalizeVoting g actorID now).1 = g := by
  unfold finalizeVoting
  by_cases h1 : g.Phase ≠ scenarioPhaseVoting
  · rw [if_pos h1]
    exact ⟨by simp [errorResult], rfl⟩
  · rw [if_neg h1]
    by_cases h2 : g.VotePhase ≠ votePhaseSpecialWindow ∧ g.VotePhase ≠ votePhaseVoting
    · rw [if_pos h2]
      exact ⟨by simp [errorResult], rfl⟩
    · rw [if_neg h2]
      have h3 : actorID ≠ g.HostID := by
        rcases h with h | h | h
        · exact absurd h h1
        · exact absurd h h2
        · exact h
      rw [if_pos h3]
      exact ⟨by simp [errorResult], rfl⟩

theorem finalizeVoting_accepts (g : gameSession) (actorID : String) (now : Int)
    (h1 : g.Phase = scenarioPhaseVoting)
    (h2 : g.VotePhase = votePhaseSpecialWindow ∨ g.VotePhase = votePhaseVoting)
    (h3 : actorID = g.HostID) :
    (finalizeVoting g actorID now).2.Error = "" ∧
      (finalizeVoting g actorID now).2.StateChanged = true := by
  have h2' : ¬ (g.VotePhase ≠ votePhaseSpecialWindow ∧ g.VotePhase ≠ votePhaseVoting) := by
    rcases h2 with h | h <;> simp [h]
  generalize hv : finalizeVoting g actorID now = r
  unfold finalizeVoting at hv
  rw [if_neg (not_not.mpr h1), if_neg h2', if_neg (not_not.mpr h3)] at hv
  dsimp only at hv
  repeat' split at hv
  all_goals subst hv
  all_goals simp [changedResult]

theorem devHandleAction_finalizeVoting (g : gameSession) (actorID : String)
    (payload : GoMap AnyVal) (now : Int) :
    devHandleAction g actorID "finalizeVoting" payload now =
      match mapGet? g.Players actorID with
      | none => (g, errorResult "Игрок не найден.")
      | some p =>
        if p.Status ≠ playerAlive then (g, errorResult "Вы исключены из игры.")
        else if g.Phase = scenarioPhaseEnded then (g, errorResult "Игра уже завершена.")
        else if g.VotePhase ≠ votePhaseSpecialWindow then
          (g, errorResult "Окно спецусловий ещё не открыто.")
        else postProcess (handleAction g actorID "finalizeVoting" payload now).1
          (handleAction g actorID "finalizeVoting" payload now).2 now := by
  unfold devHandleAction
  cases mapGet? g.Players actorID <;> simp

/-- C7 (amended). Outside Phase `voting` with VotePhase `voteSpecialWindow` the
`finalizeVoting` action of the dev wrapper returns an error and changes nothing, in
particular while votes are still collected. The function `finalizeVoting` and the
`finalizeVoting` action of the core session do so when, in addition, the session is not in
Phase `voting` with VotePhase `voting`; while votes are still collected the core session
accepts the `finalizeVoting` action of the host and reports a changed state. -/
theorem finalize_rejected_outside_window (g : gameSession) (actorID : String)
    (payload : GoMap AnyVal) (now : Int)
    (h : ¬ (g.Phase = scenarioPhaseVoting ∧ g.VotePhase = votePhaseSpecialWindow)) :
    ((devHandleAction g actorID "finalizeVoting" payload now).2.Error ≠ "" ∧
      (devHandleAction g actorID "finalizeVoting" payload now).1 = g) ∧
    (¬ (g.Phase = scenarioPhaseVoting ∧ g.VotePhase = votePhaseVoting) →
      ((finalizeVoting g actorID now).2.Error ≠ "" ∧ (finalizeVoting g actorID now).1 = g) ∧
      ((handleAction g actorID "finalizeVoting" payload now).2.Error ≠ "" ∧
        (handleAction g actorID "finalizeVoting" payload now).1 = g)) ∧
    (g.Phase = scenarioPhaseVoting ∧ g.VotePhase = votePhaseVoting →
      actorID = g.HostID → mapHas g.Players actorID = true →
      (handleAction g actorID "finalizeVoting" payload now).2.Error = "" ∧
        (handleAction g actorID "finalizeVoting" payload now).2.StateChanged = true) := by
  have hcore : ¬ (g.Phase = scenarioPhaseVoting ∧ g.VotePhase = votePhaseVoting) →
      ((finalizeVoting g actorID now).2.Error ≠ "" ∧ (finalizeVoting g actorID now).1 = g) ∧
      ((handleAction g actorID "finalizeVoting" payload now).2.Error ≠ "" ∧
        (handleAction g actorID "finalizeVoting" payload now).1 = g) := by
    intro h'
    have hf : (finalizeVoting g actorID now).2.Error ≠ "" ∧
        (finalizeVoting g actorID now).1 = g := by
      apply finalizeVoting_rejects
      by_cases hp : g.Phase = scenarioPhaseVoting
      · right
        left
        exact ⟨fun hw => h ⟨hp, hw⟩, fun hw => h' ⟨hp, hw⟩⟩
      · exact Or.inl hp
    refine ⟨hf, ?_⟩
    rw [handleAction_finalizeVoting]
    cases mapGet? g.Players actorID with
    | none => exact ⟨by simp [errorResult], rfl⟩
    | some p => exact hf
  refine ⟨?_, hcore, ?_⟩
  · rw [devHandleAction_finalizeVoting]
    cases hp : mapGet? g.Players actorID with
    | none => exact ⟨by simp [errorResult], rfl⟩
    | some p =>
      dsimp only
      split
      · exact ⟨by simp [errorResult], rfl⟩
      · split
        · exact ⟨by simp [errorResult], rfl⟩
        · split
          · exact ⟨by simp [errorResult], rfl⟩
          · rename_i hw
            have hw' : g.VotePhase = votePhaseSpecialWindow := not_not.mp hw
            have hnv : ¬ (g.Phase = scenarioPhaseVoting ∧ g.VotePhase = votePhaseVoting) := by
              rintro ⟨hp1, _⟩
              exact h ⟨hp1, hw'⟩
            have hc := (hcore hnv).2
            rw [postProcess_of_error _ _ _ hc.1]
            exact hc
  · rintro ⟨hp1, hp2⟩ hhost hactor
    rw [handleAction_finalizeVoting]
    simp only [mapHas, Option.isSome_iff_exists] at hactor
    obtain ⟨p, hp⟩ := hactor
    rw [hp]
    exact finalizeVoting_accepts g actorID now hp1 (Or.inr hp2) hhost

/-- Witness of C7 (amended): the example session is in the reveal phase, where the
`finalizeVoting` action of `p1` is rejected by the dev wrapper and by the core session. -/
theorem finalize_rejected_outside_window_witness :
    ¬ (exampleSession.Phase = scenarioPhaseVoting ∧
        exampleSession.VotePhase = votePhaseSpecialWindow) ∧
    ((devHandleAction exampleSession "p1" "finalizeVoting" [] 7).2.Error ≠ "" ∧
      (devHandleAction exampleSession "p1" "finalizeVoting" [] 7).1 = exampleSession) ∧
    ((finalizeVoting exampleSession "p1" 7).2.Error ≠ "" ∧
      (finalizeVoting exampleSession "p1" 7).1 = exampleSession) ∧
    ((handleAction exampleSession "p1" "finalizeVoting" [] 7).2.Error ≠ "" ∧
      (handleAction exampleSession "p1" "finalizeVoting" [] 7).1 = exampleSession) :=
  ⟨by decide,
   (finalize_rejected_outside_window exampleSession "p1" [] 7 (by decide)).1,
   ((finalize_rejected_outside_window exampleSession "p1" [] 7 (by decide)).2.1
     (by decide)).1,
   ((finalize_rejected_outside_window exampleSession "p1" [] 7 (by decide)).2.1
     (by decide)).2⟩



/-! ## The view of the rules is kept by the helpers -/

/-- A fold whose steps keep a function of the state keeps it. -/
theorem foldl_keeps {σ α β : Type} (f : σ → α → σ) (v : σ → β)
    (h : ∀ s a, v (f s a) = v s) (l : List α) (s : σ) : v (l.foldl f s) = v s := by
  induction l generalizing s with
  | nil => rfl
  | cons a t ih => rw [List.foldl_cons, ih, h]

theorem playerStatuses_mapModify (ps : GoMap gamePlayer) (k : String)
    (f : gamePlayer → gamePlayer) (hf : ∀ p, (f p).Status = p.Status) :
    playerStatuses (mapModify ps k f) = playerStatuses ps := by
  induction ps with
  | nil => rfl
  | cons e t ih =>
    unfold playerStatuses at ih ⊢
    unfold mapModify
    split
    · simp [hf]
    · simp only [List.map_cons, List.cons.injEq, true_and]
      exact ih

theorem playerIDsOf_mapModify (ps : GoMap gamePlayer) (k : String)
    (f : gamePlayer → gamePlayer) (hf : ∀ p, (f p).PlayerID = p.PlayerID) :
    playerIDsOf (mapModify ps k f) = playerIDsOf ps := by
  induction ps with
  | nil => rfl
  | cons e t ih =>
    unfold playerIDsOf at ih ⊢
    unfold mapModify
    split
    · simp [hf]
    · simp only [List.map_cons, List.cons.injEq, true_and]
      exact ih

/-- A write to a stored player that keeps status and id keeps the view. -/
theorem hard_modify (g : gameSession) (k : String) (f : gamePlayer → gamePlayer)
    (hs : ∀ p, (f p).Status = p.Status) (hi : ∀ p, (f p).PlayerID = p.PlayerID) :
    hard { g with Players := mapModify g.Players k f } = hard g := by
  unfold hard
  simp only [playerStatuses_mapModify _ _ _ hs, playerIDsOf_mapModify _ _ _ hi]

theorem makeEvent_hard (g : gameSession) (k m : String) (now : Int) :
    hard (makeEvent g k m now).1 = hard g := rfl

theorem clearActiveTimer_hard (g : gameSession) : hard (clearActiveTimer g) = hard g := rfl

theorem schedulePhaseTimer_hard (g : gameSession) (k : String) (s now : Int) :
    hard (schedulePhaseTimer g k s now) = hard g := by
  unfold schedulePhaseTimer
  split <;> rfl

theorem scheduleRevealTimeoutIfNeeded_hard (g : gameSession) (now : Int) :
    hard (scheduleRevealTimeoutIfNeeded g now) = hard g := by
  unfold scheduleRevealTimeoutIfNeeded
  repeat' split
  all_goals first | rfl | exact schedulePhaseTimer_hard _ _ _ _

theorem markSpecialUsed_hard (g : gameSession) (a : String) (i : Nat) :
    hard (markSpecialUsed g a i) = hard g := by
  refine hard_modify g a _ ?_ ?_ <;> intro _ <;> rfl

theorem modifyCard_hard (g : gameSession) (a : String) (i : Nat) (f : handCard → handCard) :
    hard (modifyCard g a i f) = hard g := by
  refine hard_modify g a _ ?_ ?_ <;> intro _ <;> rfl

theorem handleOnOwnerEliminated_hard (g : gameSession) (id : String) :
    hard (handleOnOwnerEliminated g id) = hard g := by
  unfold handleOnOwnerEliminated
  split
  · rfl
  · refine (hard_modify _ _ _ ?_ ?_).trans ?_
    · intro _; rfl
    · intro _; rfl
    · rfl

theorem handleSecretEliminationTriggers_hard (g : gameSession) (id : String) :
    hard (handleSecretEliminationTriggers g id) = hard g := by
  unfold handleSecretEliminationTriggers
  refine foldl_keeps _ hard ?_ _ _
  intro s a
  refine hard_modify s a _ ?_ ?_ <;> intro _ <;> rfl

theorem drawCardFromDeck_hard (g : gameSession) (d : String) :
    hard (drawCardFromDeck g d).1 = hard g := rfl

theorem nextCardInstanceID_hard (g : gameSession) (p : String) :
    hard (nextCardInstanceID g p).1 = hard g := rfl

theorem nextSpecialInstanceID_hard (g : gameSession) (p : String) :
    hard (nextSpecialInstanceID g p).1 = hard g := rfl

theorem drawSpecialFromPool_hard (g : gameSession) : hard (drawSpecialFromPool g).1 = hard g := by
  unfold drawSpecialFromPool
  split <;> rfl

theorem drawFor_hard (g : gameSession) (p d s : String) : hard (drawFor g p d s).1 = hard g := by
  unfold drawFor
  simp only [nextCardInstanceID]
  split <;> rfl

theorem drawInitialHandForPlayer_hard (g : gameSession) (p : String) :
    hard (drawInitialHandForPlayer g p).1 = hard g := by
  unfold drawInitialHandForPlayer
  simp only [drawFor_hard]
  refine foldl_keeps _ (fun (acc : gameSession × List handCard) => hard acc.1) ?_ _ _
  intro s a
  exact drawFor_hard _ _ _ _

theorem assignInitialSpecialsForPlayer_hard (g : gameSession) (p : String) (l : GoMap String) :
    hard (assignInitialSpecialsForPlayer g p l).1 = hard g := by
  unfold assignInitialSpecialsForPlayer
  simp only [nextSpecialInstanceID]
  repeat' split
  all_goals exact drawSpecialFromPool_hard g

theorem giveSpecials_hard (t : String) (n : Nat) (g : gameSession) (m : Bool) :
    hard (giveSpecials t n g m).1 = hard g := by
  induction n generalizing g m with
  | zero => rfl
  | succ n ih =>
    unfold giveSpecials
    split
    · rfl
    · split
      rename_i g1 d h1
      split
      rename_i g2 iid h2
      rw [ih]
      refine (hard_modify _ _ _ ?_ ?_).trans ?_
      · intro _; rfl
      · intro _; rfl
      have e2 := nextSpecialInstanceID_hard g1 ‹gamePlayer›.PlayerID
      rw [h2] at e2
      have e1 := drawSpecialFromPool_hard g
      rw [h1] at e1
      exact e2.trans e1

theorem redealCopy_hard (g : gameSession) (pair : (String × Nat) × (String × Nat)) :
    hard (redealCopy g pair) = hard g := by
  unfold redealCopy
  split
  · rfl
  · exact modifyCard_hard _ _ _ _

theorem passTurnFrom_hard (g : gameSession) (id : String) : hard (passTurnFrom g id) = hard g := by
  unfold passTurnFrom
  split <;> rfl

theorem replaceCardEffect_hard (g : gameSession) (a : String) (p : gamePlayer) (i : Nat)
    (d : specialDefinition) (payload : GoMap AnyLeaf) (hide : Bool) (now : Int) :
    hard (replaceCardEffect g a p i d payload hide now).1 = hard g := by
  unfold replaceCardEffect
  dsimp only
  split
  · rfl
  · split
    · rfl
    · split
      · rfl
      · split
        · rename_i h
          rw [← drawCardFromDeck_hard g _, h]
        · rename_i h
          rw [makeEvent_hard, markSpecialUsed_hard, modifyCard_hard,
            ← drawCardFromDeck_hard g _, h]

theorem redealEffect_hard (g : gameSession) (a : String) (p : gamePlayer) (i : Nat)
    (d : specialDefinition) (now : Int) :
    hard (redealEffect g a p i d now).1 = hard g := by
  generalize hv : redealEffect g a p i d now = r
  unfold redealEffect at hv
  dsimp only at hv
  split at hv
  · subst hv
    rfl
  · split at hv
    · subst hv
      rfl
    · subst hv
      rw [makeEvent_hard, markSpecialUsed_hard]
      exact foldl_keeps _ hard redealCopy_hard _ _

theorem stealBaggageEffect_hard (g : gameSession) (a : String) (p : gamePlayer) (i : Nat)
    (d : specialDefinition) (payload : GoMap AnyLeaf) (now : Int) :
    hard (stealBaggageEffect g a p i d payload now).1 = hard g := by
  generalize hv : stealBaggageEffect g a p i d payload now = r
  unfold stealBaggageEffect at hv
  dsimp only at hv
  repeat' split at hv
  all_goals subst hv
  all_goals try rfl
  all_goals try rw [makeEvent_hard]
  all_goals try rw [markSpecialUsed_hard]
  all_goals rw [giveSpecials_hard]
  all_goals refine (hard_modify _ _ _ (fun _ => ?_) (fun _ => ?_)).trans ?_
  all_goals try rfl
  all_goals rw [nextCardInstanceID_hard]
  all_goals refine (hard_modify _ _ _ (fun _ => ?_) (fun _ => ?_)).trans ?_
  all_goals rfl

theorem revealWorldThreat_hard (g : gameSession) (a : String) (i : Int) :
    hard (revealWorldThreat g a i).1 = hard g := by
  unfold revealWorldThreat
  repeat' split
  all_goals rfl

theorem setBunkerOutcome_hard (g : gameSession) (a o : String) (now : Int) :
    hard (setBunkerOutcome g a o now).1 = hard g := by
  unfold setBunkerOutcome
  repeat' split
  all_goals rfl

theorem setHostID_hard (g : gameSession) (h : String) : hard (setHostID g h) = hard g := rfl



/-! ## Activation of abilities -/

theorem append_ne_empty_right (a b : String) (h : b ≠ "") : a ++ b ≠ "" := by
  intro e
  apply h
  have h1 := congrArg String.length e
  rw [String.length_append] at h1
  have h2 : b.length = 0 := by
    simp only [String.length] at h1 ⊢
    simp at h1
    simp [h1.2]
  exact String.ext (List.length_eq_zero.mp h2)

theorem get?_findIdx {α : Type} (p : α → Bool) (l : List α) :
    l.get? (l.findIdx p) = l.find? p := by
  induction l with
  | nil => rfl
  | cons a t ih =>
    rw [List.findIdx_cons, List.find?_cons]
    cases h : p a
    · simpa using ih
    · simp

theorem handleAction_applySpecial (g : gameSession) (actorID : String)
    (payload : GoMap AnyVal) (now : Int) :
    handleAction g actorID "applySpecial" payload now =
      match mapGet? g.Players actorID with
      | none => (g, errorResult "Игрок не найден.")
      | some _ =>
        applySpecial g actorID (payloadString payload "specialInstanceId")
          (payloadObject payload "payload") now := by
  unfold handleAction
  cases mapGet? g.Players actorID <;> rfl

theorem applySpecial_rejects (g : gameSession) (actorID sid : String)
    (payload : GoMap AnyLeaf) (now : Int)
    (h : playerIsAlive g actorID = false ∨ g.Phase = scenarioPhaseEnded ∨
      namedSpecial g actorID sid = none ∨
      (∃ sp, namedSpecial g actorID sid = some sp ∧
        (sp.Definition.Implemented = false ∨ sp.Used = true ∨
          sp.Definition.Trigger = "onOwnerEliminated" ∨
          sp.Definition.Trigger = "secret_onEliminate")) ∨
      (g.IsDev = false ∧ g.Settings.SpecialUsage = "only_during_voting" ∧
        g.Phase ≠ scenarioPhaseVoting)) :
    (applySpecial g actorID sid payload now).2.Error ≠ "" ∧
      (applySpecial g actorID sid payload now).1 = g := by
  unfold applySpecial
  unfold playerIsAlive namedSpecial at h
  cases hp : mapGet? g.Players actorID with
  | none => exact ⟨by simp [errorResult], rfl⟩
  | some player =>
    rw [hp] at h
    dsimp only at h ⊢
    by_cases h1 : player.Status ≠ playerAlive
    · rw [if_pos h1]
      exact ⟨by simp [errorResult], rfl⟩
    rw [if_neg h1]
    by_cases h2 : g.Phase = scenarioPhaseEnded
    · rw [if_pos h2]
      exact ⟨by simp [errorResult], rfl⟩
    rw [if_neg h2]
    by_cases h3 : sid = ""
    · rw [if_pos h3]
      exact ⟨by simp [errorResult], rfl⟩
    rw [if_neg h3, get?_findIdx]
    cases hs : player.Specials.find? (fun sp => sp.InstanceID = sid) with
    | none => exact ⟨by simp [errorResult], rfl⟩
    | some special =>
      rw [hs] at h
      dsimp only
      by_cases h4 : (!special.Definition.Implemented) = true
      · rw [if_pos h4]
        exact ⟨by simp [errorResult], rfl⟩
      rw [if_neg h4]
      by_cases h5 : special.Used = true
      · rw [if_pos h5]
        exact ⟨by simp [errorResult], rfl⟩
      rw [if_neg h5]
      by_cases h6 : (!g.IsDev) = true ∧ g.Settings.SpecialUsage = "only_during_voting" ∧
          g.Phase ≠ scenarioPhaseVoting
      · rw [if_pos h6]
        exact ⟨by simp [errorResult], rfl⟩
      rw [if_neg h6]
      by_cases h7 : special.Definition.Trigger = "onOwnerEliminated" ∨
          special.Definition.Trigger = "secret_onEliminate"
      · rw [if_pos h7]
        exact ⟨by simp [errorResult], rfl⟩
      exfalso
      rcases h with h | h | h | ⟨sp, hsp, h⟩ | h
      · simp at h
        exact h1 h
      · exact h2 h
      · simp at h
      · simp only [Option.some.injEq] at hsp
        subst hsp
        rcases h with h | h | h | h
        · simp [h] at h4
        · exact h5 h
        · exact h7 (Or.inl h)
        · exact h7 (Or.inr h)
      · apply h6
        simp [h.1, h.2.1, h.2.2]

/-- C17. The function `applySpecial`, also when reached through `handleAction`, returns an
error and leaves the session as it was whenever the actor is not an alive player, the phase is
`ended`, the named instance is not in the actor's own list, is not implemented, is already
used or has the trigger `onOwnerEliminated` or `secret_onEliminate`, or the session is not a dev
session, `SpecialUsage` is `only_during_voting` and the phase is not `voting`. -/
theorem applySpecial_activation_contract (g : gameSession) (actorID : String)
    (payload : GoMap AnyVal) (now : Int)
    (h : playerIsAlive g actorID = false ∨ g.Phase = scenarioPhaseEnded ∨
      namedSpecial g actorID (payloadString payload "specialInstanceId") = none ∨
      (∃ sp, namedSpecial g actorID (payloadString payload "specialInstanceId") = some sp ∧
        (sp.Definition.Implemented = false ∨ sp.Used = true ∨
          sp.Definition.Trigger = "onOwnerEliminated" ∨
          sp.Definition.Trigger = "secret_onEliminate")) ∨
      (g.IsDev = false ∧ g.Settings.SpecialUsage = "only_during_voting" ∧
        g.Phase ≠ scenarioPhaseVoting)) :
    ((applySpecial g actorID (payloadString payload "specialInstanceId")
        (payloadObject payload "payload") now).2.Error ≠ "" ∧
      (applySpecial g actorID (payloadString payload "specialInstanceId")
        (payloadObject payload "payload") now).1 = g) ∧
    ((handleAction g actorID "applySpecial" payload now).2.Error ≠ "" ∧
      (handleAction g actorID "applySpecial" payload now).1 = g) := by
  have ha := applySpecial_rejects g actorID (payloadString payload "specialInstanceId")
    (payloadObject payload "payload") now h
  refine ⟨ha, ?_⟩
  rw [handleAction_applySpecial]
  cases mapGet? g.Players actorID with
  | none => exact ⟨by simp [errorResult], rfl⟩
  | some p => exact ha

/-- Witness of C17: the players of the example session hold no abilities, so that no
instance id names one. -/
theorem applySpecial_activation_contract_witness :
    ((applySpecial exampleSession "p1"
        (payloadString [("specialInstanceId", AnyVal.leaf (AnyLeaf.str "special-p1-1"))]
          "specialInstanceId")
        (payloadObject [("specialInstanceId", AnyVal.leaf (AnyLeaf.str "special-p1-1"))]
          "payload") 7).2.Error ≠ "" ∧
      (applySpecial exampleSession "p1"
        (payloadString [("specialInstanceId", AnyVal.leaf (AnyLeaf.str "special-p1-1"))]
          "specialInstanceId")
        (payloadObject [("specialInstanceId", AnyVal.leaf (AnyLeaf.str "special-p1-1"))]
          "payload") 7).1 = exampleSession) ∧
    ((handleAction exampleSession "p1" "applySpecial"
        [("specialInstanceId", AnyVal.leaf (AnyLeaf.str "special-p1-1"))] 7).2.Error ≠ "" ∧
      (handleAction exampleSession "p1" "applySpecial"
        [("specialInstanceId", AnyVal.leaf (AnyLeaf.str "special-p1-1"))] 7).1 = exampleSession) :=
  applySpecial_activation_contract exampleSession "p1"
    [("specialInstanceId", AnyVal.leaf (AnyLeaf.str "special-p1-1"))] 7
    (Or.inr (Or.inr (Or.inl (by decide))))



/-! ## The reveal action -/

theorem revealFirstMatching_eq_set (cardID : String) (l : List handCard) (c : handCard)
    (h : l.find? (fun x => x.InstanceID = cardID) = some c) :
    ∃ i, l.get? i = some c ∧ c.InstanceID = cardID ∧
      (∀ j x, j < i → l.get? j = some x → x.InstanceID ≠ cardID) ∧
      revealFirstMatching cardID l = l.set i { c with Revealed := true } := by
  induction l with
  | nil => simp at h
  | cons a t ih =>
    rw [List.find?_cons] at h
    by_cases ha : a.InstanceID = cardID
    · simp only [ha, decide_True, Option.some.injEq] at h
      subst h
      refine ⟨0, rfl, ha, ?_, ?_⟩
      · intro j x hj
        omega
      · simp [revealFirstMatching, ha]
    · simp only [ha, decide_False] at h
      obtain ⟨i, h1, h2, h3, h4⟩ := ih h
      refine ⟨i + 1, by simpa using h1, h2, ?_, ?_⟩
      · intro j x hj hx
        cases j with
        | zero =>
          simp only [List.get?_cons_zero, Option.some.injEq] at hx
          subst hx
          exact ha
        | succ j =>
          simp only [List.get?_cons_succ] at hx
          exact h3 j x (by omega) hx
      · simp [revealFirstMatching, ha, h4]

theorem resolveCategoryDeckSlot_empty : resolveCategoryDeckSlot "" = none := by decide

theorem handleAction_revealCard (g : gameSession) (actorID : String)
    (payload : GoMap AnyVal) (now : Int) :
    handleAction g actorID "revealCard" payload now =
      match mapGet? g.Players actorID with
      | none => (g, errorResult "Игрок не найден.")
      | some _ => revealCard g actorID (payloadString payload "cardId") now := by
  unfold handleAction
  cases mapGet? g.Players actorID <;> rfl

/-- The function `revealCard` in the phase `reveal`, case by case. -/
theorem revealCard_reveal_cases (g : gameSession) (actorID cardID : String) (now : Int)
    (hphase : g.Phase = scenarioPhaseReveal) :
    (∀ p c, mapGet? g.Players actorID = some p → actorID = g.CurrentTurnID →
      p.Status = playerAlive → p.Hand.find? (fun x => x.InstanceID = cardID) = some c →
      c.Revealed = false →
      ¬ (g.RoundRules.ForcedCategory ≠ "" ∧
          (match resolveCategoryDeckSlot g.RoundRules.ForcedCategory with
           | some cfg => p.Hand.any (fun card => cardInSlot cfg card && !card.Revealed)
           | none => false) = true ∧
          (!(match resolveCategoryDeckSlot g.RoundRules.ForcedCategory with
             | some cfg => cardInSlot cfg c
             | none => true)) = true) →
      (revealCard g actorID cardID now).2.Error = "" ∧
      (revealCard g actorID cardID now).1.Phase = scenarioPhaseRevealDiscussion ∧
      (revealCard g actorID cardID now).1.Players =
        mapModify g.Players actorID
          (fun q => { q with Hand := revealFirstMatching cardID q.Hand }) ∧
      (revealCard g actorID cardID now).1.RevealedThisRnd =
        mapSet g.RevealedThisRnd actorID true ∧
      (revealCard g actorID cardID now).1.FirstHealthRevealerID =
        (if c.Deck = healthDeckName ∧ g.FirstHealthRevealerID = "" then actorID
         else g.FirstHealthRevealerID)) ∧
    ((mapGet? g.Players actorID = none ∨ actorID ≠ g.CurrentTurnID ∨
        playerIsAlive g actorID = false ∨ ownCard g actorID cardID = none ∨
        (∃ c, ownCard g actorID cardID = some c ∧ c.Revealed = true) ∨
        (∃ p c, mapGet? g.Players actorID = some p ∧ ownCard g actorID cardID = some c ∧
          g.RoundRules.ForcedCategory ≠ "" ∧
          (match resolveCategoryDeckSlot g.RoundRules.ForcedCategory with
           | some cfg => p.Hand.any (fun card => cardInSlot cfg card && !card.Revealed)
           | none => false) = true ∧
          (!(match resolveCategoryDeckSlot g.RoundRules.ForcedCategory with
             | some cfg => cardInSlot cfg c
             | none => true)) = true)) →
      (revealCard g actorID cardID now).2.Error ≠ "" ∧
      (revealCard g actorID cardID now).1 = g) := by
  have hne : g.Phase ≠ scenarioPhaseEnded := by
    rw [hphase]
    decide
  constructor
  · intro p c hp hturn halive hcard hhidden hforced
    unfold revealCard
    rw [hp]
    dsimp only
    rw [if_neg hne, if_neg (not_not.mpr hphase), if_neg (not_not.mpr hturn),
      if_neg (not_not.mpr halive), hcard]
    dsimp only
    rw [if_neg (by simp [hhidden])]
    split
    · rename_i hf
      exact absurd hf hforced
    refine ⟨rfl, ?_, ?_, ?_, ?_⟩
    · simp only [makeEvent, enterRevealDiscussion, clearActiveTimer]
      repeat' split
      all_goals first | rfl | (unfold schedulePhaseTimer; split <;> rfl)
    · simp only [makeEvent, enterRevealDiscussion, clearActiveTimer]
      repeat' split
      all_goals first | rfl | (unfold schedulePhaseTimer; split <;> rfl)
    · simp only [makeEvent, enterRevealDiscussion, clearActiveTimer]
      repeat' split
      all_goals first | rfl | (unfold schedulePhaseTimer; split <;> rfl)
    · simp only [makeEvent, enterRevealDiscussion, clearActiveTimer]
      repeat' split
      all_goals first | rfl | (unfold schedulePhaseTimer; split <;> rfl)
  · intro h
    unfold revealCard
    unfold playerIsAlive ownCard at h
    cases hp : mapGet? g.Players actorID with
    | none => exact ⟨by simp [errorResult], rfl⟩
    | some p =>
      rw [hp] at h
      dsimp only at h ⊢
      rw [if_neg hne, if_neg (not_not.mpr hphase)]
      by_cases h1 : actorID ≠ g.CurrentTurnID
      · rw [if_pos h1]
        exact ⟨by simp [errorResult], rfl⟩
      rw [if_neg h1]
      by_cases h2 : p.Status ≠ playerAlive
      · rw [if_pos h2]
        exact ⟨by simp [errorResult], rfl⟩
      rw [if_neg h2]
      cases hc : p.Hand.find? (fun x => x.InstanceID = cardID) with
      | none => exact ⟨by simp [errorResult], rfl⟩
      | some c =>
        rw [hc] at h
        dsimp only
        by_cases h3 : c.Revealed = true
        · rw [if_pos h3]
          exact ⟨by simp [errorResult], rfl⟩
        rw [if_neg h3]
        have hf : g.RoundRules.ForcedCategory ≠ "" ∧
            (match resolveCategoryDeckSlot g.RoundRules.ForcedCategory with
             | some cfg => p.Hand.any (fun card => cardInSlot cfg card && !card.Revealed)
             | none => false) = true ∧
            (!(match resolveCategoryDeckSlot g.RoundRules.ForcedCategory with
               | some cfg => cardInSlot cfg c
               | none => true)) = true := by
          rcases h with h | h | h | h | ⟨c', hc', hr⟩ | ⟨p', c', hp', hc', hf⟩
          · simp at h
          · exact absurd h h1
          · simp at h
            exact absurd h h2
          · simp at h
          · simp only [Option.some.injEq] at hc'
            subst hc'
            exact absurd hr h3
          · simp only [Option.some.injEq] at hp' hc'
            subst hp' hc'
            exact hf
        split
        · exact ⟨append_ne_empty_right _ _ (by decide), rfl⟩
        · rename_i hn
          exact absurd hf hn

theorem forcedCategoryBars_iff (g : gameSession) (actorID : String) (p : gamePlayer)
    (c : handCard) (hp : mapGet? g.Players actorID = some p) :
    (g.RoundRules.ForcedCategory ≠ "" ∧
      (match resolveCategoryDeckSlot g.RoundRules.ForcedCategory with
       | some cfg => p.Hand.any (fun card => cardInSlot cfg card && !card.Revealed)
       | none => false) = true ∧
      (!(match resolveCategoryDeckSlot g.RoundRules.ForcedCategory with
         | some cfg => cardInSlot cfg c
         | none => true)) = true) ↔ forcedCategoryBars g actorID c := by
  unfold forcedCategoryBars
  cases hr : resolveCategoryDeckSlot g.RoundRules.ForcedCategory with
  | none => simp
  | some cfg =>
    have hne : g.RoundRules.ForcedCategory ≠ "" := by
      intro e
      rw [e, resolveCategoryDeckSlot_empty] at hr
      exact Option.noConfusion hr
    constructor
    · rintro ⟨_, h1, h2⟩
      simp only [List.any_eq_true, Bool.and_eq_true, Bool.not_eq_true'] at h1
      obtain ⟨held, hmem, hin, hrev⟩ := h1
      refine ⟨cfg, p, rfl, hp, ?_, held, hmem, hin, hrev⟩
      simpa using h2
    · rintro ⟨cfg', p', hcfg, hp', hout, held, hmem, hin, hrev⟩
      simp only [Option.some.injEq] at hcfg
      subst hcfg
      rw [hp] at hp'
      simp only [Option.some.injEq] at hp'
      subst hp'
      refine ⟨hne, ?_, ?_⟩
      · simp only [List.any_eq_true, Bool.and_eq_true, Bool.not_eq_true']
        exact ⟨held, hmem, hin, hrev⟩
      · simp [hout]

/-- C13. In the phase `reveal` the function `revealCard` succeeds only for the alive player
at `CurrentTurnID` who names an unrevealed card of the own hand. On success that card, at
some position `i` of the hand, becomes revealed and nothing else changes in any stored
player, the actor is entered in `RevealedThisRnd` and nobody else is, `FirstHealthRevealerID`
becomes the actor if it was empty and the card is of the health deck and is kept otherwise,
and the phase becomes `reveal_discussion`. For another actor, an unknown card id or a card
that is revealed already it returns an error and leaves the session as it was. -/
theorem revealCard_contract (g : gameSession) (actorID cardID : String) (now : Int)
    (hphase : g.Phase = scenarioPhaseReveal) :
    ((revealCard g actorID cardID now).2.Error = "" →
      actorID = g.CurrentTurnID ∧ playerIsAlive g actorID = true ∧
      ∃ p c i, mapGet? g.Players actorID = some p ∧ ownCard g actorID cardID = some c ∧
        p.Hand.get? i = some c ∧ c.InstanceID = cardID ∧ c.Revealed = false ∧
        (∀ id, mapGet? (revealCard g actorID cardID now).1.Players id =
          if id = actorID then
            some { p with Hand := p.Hand.set i { c with Revealed := true } }
          else mapGet? g.Players id) ∧
        (∀ id, mapGet? (revealCard g actorID cardID now).1.RevealedThisRnd id =
          if id = actorID then some true else mapGet? g.RevealedThisRnd id) ∧
        (revealCard g actorID cardID now).1.FirstHealthRevealerID =
          (if c.Deck = healthDeckName ∧ g.FirstHealthRevealerID = "" then actorID
           else g.FirstHealthRevealerID) ∧
        (revealCard g actorID cardID now).1.Phase = scenarioPhaseRevealDiscussion) ∧
    ((actorID ≠ g.CurrentTurnID ∨ playerIsAlive g actorID = false ∨
        ownCard g actorID cardID = none ∨
        (∃ c, ownCard g actorID cardID = some c ∧ c.Revealed = true)) →
      (revealCard g actorID cardID now).2.Error ≠ "" ∧
      (revealCard g actorID cardID now).1 = g) := by
  obtain ⟨hok, hbad⟩ := revealCard_reveal_cases g actorID cardID now hphase
  constructor
  · intro hsucc
    cases hp : mapGet? g.Players actorID with
    | none => exact absurd hsucc (hbad (Or.inl hp)).1
    | some p =>
      have hturn : actorID = g.CurrentTurnID := by
        by_contra hx
        exact (hbad (Or.inr (Or.inl hx))).1 hsucc
      have halive : playerIsAlive g actorID = true := by
        cases ha : playerIsAlive g actorID
        · exact absurd hsucc (hbad (Or.inr (Or.inr (Or.inl ha)))).1
        · rfl
      cases hc : ownCard g actorID cardID with
      | none => exact absurd hsucc (hbad (Or.inr (Or.inr (Or.inr (Or.inl hc))))).1
      | some c =>
        have hhidden : c.Revealed = false := by
          cases hr : c.Revealed
          · rfl
          · exact absurd hsucc
              (hbad (Or.inr (Or.inr (Or.inr (Or.inr (Or.inl ⟨c, hc, hr⟩)))))).1
        have hc2 : p.Hand.find? (fun x => x.InstanceID = cardID) = some c := by
          unfold ownCard at hc
          rw [hp] at hc
          exact hc
        have hst : p.Status = playerAlive := by
          unfold playerIsAlive at halive
          rw [hp] at halive
          simpa using halive
        have hnf : ¬ (g.RoundRules.ForcedCategory ≠ "" ∧
            (match resolveCategoryDeckSlot g.RoundRules.ForcedCategory with
             | some cfg => p.Hand.any (fun card => cardInSlot cfg card && !card.Revealed)
             | none => false) = true ∧
            (!(match resolveCategoryDeckSlot g.RoundRules.ForcedCategory with
               | some cfg => cardInSlot cfg c
               | none => true)) = true) := by
          intro hf
          exact (hbad (Or.inr (Or.inr (Or.inr (Or.inr (Or.inr
            ⟨p, c, hp, hc, hf⟩)))))).1 hsucc
        obtain ⟨_, h2, h3, h4, h5⟩ := hok p c hp hturn hst hc2 hhidden hnf
        obtain ⟨i, hi1, hi2, _, hi4⟩ := revealFirstMatching_eq_set cardID p.Hand c hc2
        refine ⟨hturn, halive, p, c, i, rfl, rfl, hi1, hi2, hhidden, ?_, ?_, h5, h2⟩
        · intro id
          rw [h3, mapGet?_mapModify]
          by_cases hid : id = actorID
          · subst hid
            simp [hp, hi4]
          · have hid2 : ¬ actorID = id := fun e => hid e.symm
            simp [hid, hid2]
        · intro id
          rw [h4, mapGet?_mapSet]
          by_cases hid : id = actorID
          · subst hid
            simp
          · have hid2 : ¬ actorID = id := fun e => hid e.symm
            simp [hid, hid2]
  · intro h
    apply hbad
    rcases h with h | h | h | h
    · exact Or.inr (Or.inl h)
    · exact Or.inr (Or.inr (Or.inl h))
    · exact Or.inr (Or.inr (Or.inr (Or.inl h)))
    · exact Or.inr (Or.inr (Or.inr (Or.inr (Or.inl h))))

/-- C14. For the alive player at `CurrentTurnID` in the phase `reveal` who names an unrevealed
card of the own hand, `revealCard` returns an error, leaving the session as it was, exactly
when the forced category resolves to a deck (and slot), the card lies outside it and the
actor still holds an unrevealed card in it; so a card inside the category is accepted, and
any unrevealed own card is when the category does not resolve or the actor holds no unrevealed
card in it. -/
theorem revealCard_forced_category (g : gameSession) (actorID cardID : String) (now : Int)
    (c : handCard) (hphase : g.Phase = scenarioPhaseReveal) (hturn : actorID = g.CurrentTurnID)
    (halive : playerIsAlive g actorID = true) (hcard : ownCard g actorID cardID = some c)
    (hhidden : c.Revealed = false) :
    ((revealCard g actorID cardID now).2.Error ≠ "" ↔ forcedCategoryBars g actorID c) ∧
    ((revealCard g actorID cardID now).2.Error ≠ "" →
      (revealCard g actorID cardID now).1 = g) := by
  obtain ⟨hok, hbad⟩ := revealCard_reveal_cases g actorID cardID now hphase
  cases hp : mapGet? g.Players actorID with
  | none =>
    unfold playerIsAlive at halive
    rw [hp] at halive
    simp at halive
  | some p =>
    have hc2 : p.Hand.find? (fun x => x.InstanceID = cardID) = some c := by
      unfold ownCard at hcard
      rw [hp] at hcard
      exact hcard
    have hst : p.Status = playerAlive := by
      unfold playerIsAlive at halive
      rw [hp] at halive
      simpa using halive
    have hiff := forcedCategoryBars_iff g actorID p c hp
    constructor
    · constructor
      · intro herr
        by_contra hnb
        exact herr (hok p c hp hturn hst hc2 hhidden (fun hf => hnb (hiff.mp hf))).1
      · intro hb
        exact (hbad (Or.inr (Or.inr (Or.inr (Or.inr (Or.inr
          ⟨p, c, hp, hcard, hiff.mpr hb⟩)))))).1
    · intro herr
      by_cases hb : forcedCategoryBars g actorID c
      · exact (hbad (Or.inr (Or.inr (Or.inr (Or.inr (Or.inr
          ⟨p, c, hp, hcard, hiff.mpr hb⟩)))))).2
      · exact absurd (hok p c hp hturn hst hc2 hhidden (fun hf => hb (hiff.mp hf))).1 herr

/-- Witness of C13: in the reveal phase of the dealt example session. -/
theorem revealCard_contract_witness :
    ((revealCard exampleDealt "p1" "p1-1" 7).2.Error = "" →
      "p1" = exampleDealt.CurrentTurnID ∧ playerIsAlive exampleDealt "p1" = true ∧
      ∃ p c i, mapGet? exampleDealt.Players "p1" = some p ∧
        ownCard exampleDealt "p1" "p1-1" = some c ∧
        p.Hand.get? i = some c ∧ c.InstanceID = "p1-1" ∧ c.Revealed = false ∧
        (∀ id, mapGet? (revealCard exampleDealt "p1" "p1-1" 7).1.Players id =
          if id = "p1" then
            some { p with Hand := p.Hand.set i { c with Revealed := true } }
          else mapGet? exampleDealt.Players id) ∧
        (∀ id, mapGet? (revealCard exampleDealt "p1" "p1-1" 7).1.RevealedThisRnd id =
          if id = "p1" then some true else mapGet? exampleDealt.RevealedThisRnd id) ∧
        (revealCard exampleDealt "p1" "p1-1" 7).1.FirstHealthRevealerID =
          (if c.Deck = healthDeckName ∧ exampleDealt.FirstHealthRevealerID = "" then "p1"
           else exampleDealt.FirstHealthRevealerID) ∧
        (revealCard exampleDealt "p1" "p1-1" 7).1.Phase = scenarioPhaseRevealDiscussion) ∧
    (("p1" ≠ exampleDealt.CurrentTurnID ∨ playerIsAlive exampleDealt "p1" = false ∨
        ownCard exampleDealt "p1" "p1-1" = none ∨
        (∃ c, ownCard exampleDealt "p1" "p1-1" = some c ∧ c.Revealed = true)) →
      (revealCard exampleDealt "p1" "p1-1" 7).2.Error ≠ "" ∧
      (revealCard exampleDealt "p1" "p1-1" 7).1 = exampleDealt) :=
  revealCard_contract exampleDealt "p1" "p1-1" 7 (by decide)

/-- Witness of C14: the health category is forced and `p1`, who holds a hidden health card,
names the profession card. -/
theorem revealCard_forced_category_witness :
    ((revealCard exampleForced "p1" "p1-2" 7).2.Error ≠ "" ↔
      forcedCategoryBars exampleForced "p1"
        { InstanceID := "p1-2", CardID := "profession/cook.jpg", Deck := "Профессия",
          SlotKey := "", Label := "Повар", Revealed := false, Missing := false }) ∧
    ((revealCard exampleForced "p1" "p1-2" 7).2.Error ≠ "" →
      (revealCard exampleForced "p1" "p1-2" 7).1 = exampleForced) :=
  revealCard_forced_category exampleForced "p1" "p1-2" 7
    { InstanceID := "p1-2", CardID := "profession/cook.jpg", Deck := "Профессия",
      SlotKey := "", Label := "Повар", Revealed := false, Missing := false }
    (by decide) (by decide) (by decide) (by decide) (by decide)



/-! ## A second reveal in one round -/

/-- C15 (failing run). In the non-dev example session `p1`, `p2` and `p3` have revealed
one card each in round 1 and the turn is with `p4`. When `p4` is marked as having left the
bunker, the turn goes to `p1`, who is marked in `RevealedThisRnd`, and the phase stays
`reveal`; the `revealCard` action of `p1` for the second card then succeeds in the same
round, so that `p1` has two cards revealed in round 1. -/
theorem second_reveal_after_departure :
    exampleLastTurn.IsDev = false ∧ exampleLastTurn.Phase = scenarioPhaseReveal ∧
    exampleLastTurn.Round = 1 ∧ exampleLastTurn.CurrentTurnID = "p4" ∧
    mapGetB exampleLastTurn.RevealedThisRnd "p1" = true ∧
    (mapGet? exampleLastTurn.Players "p1").map (fun p => p.Hand.map (fun c => c.Revealed)) =
      some [true, false] ∧
    exampleAfterLeave.Phase = scenarioPhaseReveal ∧ exampleAfterLeave.Round = 1 ∧
    exampleAfterLeave.CurrentTurnID = "p1" ∧
    mapGetB exampleAfterLeave.RevealedThisRnd "p1" = true ∧
    (handleAction exampleAfterLeave "p1" "revealCard" (cardPayload "p1-2") 8).2.Error = "" ∧
    (handleAction exampleAfterLeave "p1" "revealCard" (cardPayload "p1-2") 8).1.Round = 1 ∧
    (mapGet? (handleAction exampleAfterLeave "p1" "revealCard" (cardPayload "p1-2") 8).1.Players
      "p1").map (fun p => p.Hand.map (fun c => c.Revealed)) = some [true, true] := by
  decide



/-! ## Failed activations -/

theorem changedResult_Error (events : List gameEvent) : (changedResult events).Error = "" := rfl

theorem replaceCardEffect_error (g : gameSession) (a : String) (p : gamePlayer) (i : Nat)
    (d : specialDefinition) (payload : GoMap AnyLeaf) (hide : Bool) (now : Int)
    (h : (replaceCardEffect g a p i d payload hide now).2.Error ≠ "") :
    (replaceCardEffect g a p i d payload hide now).1 = g ∨
      ∃ key, mapGetS categoryKeyToDeck key ≠ "" ∧
        (replaceCardEffect g a p i d payload hide now).1 =
          (drawCardFromDeck g (mapGetS categoryKeyToDeck key)).1 ∧
        (drawCardFromDeck g (mapGetS categoryKeyToDeck key)).2 = none := by
  generalize hv : replaceCardEffect g a p i d payload hide now = r at h ⊢
  unfold replaceCardEffect at hv
  dsimp only at hv
  split at hv
  · subst hv
    exact Or.inl rfl
  · split at hv
    · subst hv
      exact Or.inl rfl
    · rename_i hdeck
      split at hv
      · subst hv
        exact Or.inl rfl
      · split at hv
        · rename_i g1 hd
          subst hv
          exact Or.inr ⟨_, hdeck, (congrArg Prod.fst hd).symm, congrArg Prod.snd hd⟩
        · subst hv
          exact absurd rfl h

theorem redealEffect_error (g : gameSession) (a : String) (p : gamePlayer) (i : Nat)
    (d : specialDefinition) (now : Int)
    (h : (redealEffect g a p i d now).2.Error ≠ "") : (redealEffect g a p i d now).1 = g := by
  generalize hv : redealEffect g a p i d now = r at h ⊢
  unfold redealEffect at hv
  dsimp only at hv
  split at hv
  · subst hv
    rfl
  · split at hv
    · subst hv
      rfl
    · subst hv
      exact absurd rfl h

theorem stealBaggageEffect_error (g : gameSession) (a : String) (p : gamePlayer) (i : Nat)
    (d : specialDefinition) (payload : GoMap AnyLeaf) (now : Int)
    (h : (stealBaggageEffect g a p i d payload now).2.1.Error ≠ "") :
    (stealBaggageEffect g a p i d payload now).1 = g := by
  generalize hv : stealBaggageEffect g a p i d payload now = r at h ⊢
  unfold stealBaggageEffect at hv
  dsimp only at hv
  repeat' split at hv
  all_goals subst hv
  all_goals first | rfl | exact absurd rfl h

theorem applySpecialEffect_error (g : gameSession) (a : String) (p : gamePlayer) (i : Nat)
    (sp : specialConditionState) (payload : GoMap AnyLeaf) (now : Int)
    (h : (applySpecialEffect g a p i sp payload now).2.1.Error ≠ "") :
    (applySpecialEffect g a p i sp payload now).1 = g ∨
      ∃ key, mapGetS categoryKeyToDeck key ≠ "" ∧
        (applySpecialEffect g a p i sp payload now).1 =
          (drawCardFromDeck g (mapGetS categoryKeyToDeck key)).1 ∧
        (drawCardFromDeck g (mapGetS categoryKeyToDeck key)).2 = none := by
  generalize hv : applySpecialEffect g a p i sp payload now = r at h ⊢
  unfold applySpecialEffect at hv
  dsimp only at hv
  split at hv
  · subst hv
    exact Or.inl rfl
  · split at hv
    all_goals try (repeat' split at hv)
    all_goals subst hv
    all_goals first
      | exact Or.inl rfl
      | exact absurd rfl h
      | exact replaceCardEffect_error _ _ _ _ _ _ _ _ h
      | exact Or.inl (redealEffect_error _ _ _ _ _ _ h)
      | exact Or.inl (stealBaggageEffect_error _ _ _ _ _ _ _ h)

theorem drawCardFromDeck_none (g : gameSession) (deck : String)
    (h : (drawCardFromDeck g deck).2 = none) : SameButEmptyPools g (drawCardFromDeck g deck).1 := by
  unfold drawCardFromDeck drawRandomCard at h ⊢
  dsimp only at h ⊢
  split at h
  · rename_i hlen
    rw [if_pos hlen]
    refine ⟨rfl, ?_⟩
    intro d
    dsimp only
    rw [mapGet?_mapSet]
    split
    · rename_i hd
      subst hd
      rfl
    · rfl
  · exact Option.noConfusion h

theorem SameButEmptyPools_refl (g : gameSession) : SameButEmptyPools g g := ⟨rfl, fun _ => rfl⟩

theorem mapModify_same {V : Type} (m : GoMap V) (k : String) (v : V)
    (h : mapGet? m k = some v) : mapModify m k (fun _ => v) = m := by
  induction m with
  | nil => rfl
  | cons e t ih =>
    obtain ⟨a, w⟩ := e
    unfold mapGet? at h
    unfold mapModify
    by_cases h1 : a = k
    · rw [if_pos h1] at h
      rw [if_pos h1]
      simp only [Option.some.injEq] at h
      rw [h]
    · rw [if_neg h1] at h
      rw [if_neg h1, ih h]

theorem mapGet?_mem {V : Type} (m : GoMap V) (k : String) (v : V)
    (h : mapGet? m k = some v) : (k, v) ∈ m := by
  induction m with
  | nil => exact Option.noConfusion h
  | cons e t ih =>
    obtain ⟨a, w⟩ := e
    unfold mapGet? at h
    by_cases h1 : a = k
    · rw [if_pos h1] at h
      simp only [Option.some.injEq] at h
      rw [h1, h]
      exact List.mem_cons_self _ _
    · rw [if_neg h1] at h
      exact List.mem_cons_of_mem _ (ih h)

theorem drawCardFromDeck_none_eq (g : gameSession) (deck : String)
    (h : (drawCardFromDeck g deck).2 = none) (hk : mapHas g.DeckPools deck = true) :
    (drawCardFromDeck g deck).1 = g := by
  unfold drawCardFromDeck drawRandomCard at h ⊢
  dsimp only at h ⊢
  split at h
  · rename_i hlen
    rw [if_pos hlen]
    dsimp only
    unfold mapSet
    rw [if_pos hk]
    unfold mapHas at hk
    cases hg : mapGet? g.DeckPools deck with
    | none =>
      rw [hg] at hk
      exact absurd hk (by simp)
    | some pool =>
      rw [Option.getD_some, mapModify_same _ _ _ hg]
  · exact Option.noConfusion h
  
theorem covers_mapHas (g : gameSession) (key : String) (h : coversCategoryDecks g = true)
    (hk : mapGetS categoryKeyToDeck key ≠ "") :
    mapHas g.DeckPools (mapGetS categoryKeyToDeck key) = true := by
  unfold mapGetS at hk ⊢
  cases hg : mapGet? categoryKeyToDeck key with
  | none =>
    rw [hg] at hk
    exact absurd rfl hk
  | some deck =>
    rw [Option.getD_some]
    unfold coversCategoryDecks at h
    rw [List.all_eq_true] at h
    exact h _ (mapGet?_mem _ _ _ hg)

theorem kept_refl (g : gameSession) :
    SameButEmptyPools g g ∧ (coversCategoryDecks g = true → g = g) :=
  ⟨SameButEmptyPools_refl g, fun _ => rfl⟩

theorem applySpecial_ok_or_frame (g : gameSession) (actorID sid : String)
    (payload : GoMap AnyLeaf) (now : Int) :
    (applySpecial g actorID sid payload now).2.Error = "" ∨
      (SameButEmptyPools g (applySpecial g actorID sid payload now).1 ∧
        (coversCategoryDecks g = true → (applySpecial g actorID sid payload now).1 = g)) := by
  generalize hr : applySpecial g actorID sid payload now = res
  unfold applySpecial at hr
  cases hp : mapGet? g.Players actorID with
  | none =>
    rw [hp] at hr
    subst hr
    exact Or.inr (kept_refl g)
  | some player =>
    rw [hp] at hr
    dsimp only at hr
    by_cases h1 : player.Status ≠ playerAlive
    · rw [if_pos h1] at hr
      subst hr
      exact Or.inr (kept_refl g)
    rw [if_neg h1] at hr
    by_cases h2 : g.Phase = scenarioPhaseEnded
    · rw [if_pos h2] at hr
      subst hr
      exact Or.inr (kept_refl g)
    rw [if_neg h2] at hr
    by_cases h3 : sid = ""
    · rw [if_pos h3] at hr
      subst hr
      exact Or.inr (kept_refl g)
    rw [if_neg h3] at hr
    cases hs : player.Specials.get? (player.Specials.findIdx (fun sp => sp.InstanceID = sid)) with
    | none =>
      rw [hs] at hr
      subst hr
      exact Or.inr (kept_refl g)
    | some special =>
      rw [hs] at hr
      dsimp only at hr
      by_cases h4 : (!special.Definition.Implemented) = true
      · rw [if_pos h4] at hr
        subst hr
        exact Or.inr (kept_refl g)
      rw [if_neg h4] at hr
      by_cases h5 : special.Used = true
      · rw [if_pos h5] at hr
        subst hr
        exact Or.inr (kept_refl g)
      rw [if_neg h5] at hr
      by_cases h6 : (!g.IsDev) = true ∧ g.Settings.SpecialUsage = "only_during_voting" ∧
          g.Phase ≠ scenarioPhaseVoting
      · rw [if_pos h6] at hr
        subst hr
        exact Or.inr (kept_refl g)
      rw [if_neg h6] at hr
      by_cases h7 : special.Definition.Trigger = "onOwnerEliminated" ∨
          special.Definition.Trigger = "secret_onEliminate"
      · rw [if_pos h7] at hr
        subst hr
        exact Or.inr (kept_refl g)
      rw [if_neg h7] at hr
      by_cases h8 : special.Definition.ChoiceKind ≠ "" ∧ special.Definition.ChoiceKind ≠ "none" ∧
          mapLen payload = 0 ∧
          (!decide (special.Definition.ChoiceKind = "category" ∧
            asString (mapGet? special.Definition.Effect.Params "category") ≠ "")) = true
      · rw [if_pos h8] at hr
        subst hr
        exact Or.inr (kept_refl g)
      rw [if_neg h8] at hr
      cases ht : resolveSpecialTarget g actorID special.Definition.TargetScope
          (mapEntries payload) with
      | error e =>
        rw [ht] at hr
        subst hr
        exact Or.inr (kept_refl g)
      | ok ep =>
        rw [ht] at hr
        dsimp only at hr
        by_cases h9 : special.Definition.ChoiceKind = "player" ∧
            (!special.Definition.AllowSelf) = true ∧
            trimSpace (asString (mapGet? ep "targetPlayerId")) ≠ "" ∧
            trimSpace (asString (mapGet? ep "targetPlayerId")) = actorID
        · rw [if_pos h9] at hr
          subst hr
          exact Or.inr (kept_refl g)
        rw [if_neg h9] at hr
        by_cases h10 : validateSpecialRequires g special ep ≠ ""
        · rw [if_pos h10] at hr
          subst hr
          exact Or.inr (kept_refl g)
        rw [if_neg h10] at hr
        by_cases herr : (applySpecialEffect g actorID player
            (player.Specials.findIdx (fun sp => sp.InstanceID = sid)) special ep now).2.1.Error ≠ ""
        · rw [if_pos herr] at hr
          subst hr
          right
          rcases applySpecialEffect_error _ _ _ _ _ _ _ herr with e | ⟨key, hk, e1, e2⟩
          · rw [e]
            exact kept_refl g
          · rw [e1]
            exact ⟨drawCardFromDeck_none g _ e2,
              fun hc => drawCardFromDeck_none_eq g _ e2 (covers_mapHas g key hc hk)⟩
        · rw [if_neg herr] at hr
          left
          simp only [ne_eq, not_not] at herr
          by_cases h11 : (!(applySpecialEffect g actorID player
              (player.Specials.findIdx (fun sp => sp.InstanceID = sid)) special ep now).2.1.StateChanged) = true
          · rw [if_pos h11] at hr
            subst hr
            exact herr
          rw [if_neg h11] at hr
          by_cases h12 : (!special.RevealedPublic) = true
          · rw [if_pos h12] at hr
            subst hr
            exact herr
          · rw [if_neg h12] at hr
            subst hr
            exact herr

theorem resolveSpecialTarget_error (g : gameSession) (actorID scope : String)
    (payload : GoMap AnyLeaf) (e : String)
    (h : resolveSpecialTarget g actorID scope payload = .error e) : e ≠ "" := by
  unfold resolveSpecialTarget at h
  dsimp only at h
  repeat' split at h
  all_goals first
    | exact Except.noConfusion h
    | (injection h with h
       subst h
       first | decide | assumption)

theorem errorResult_Error (e : String) : (errorResult e).Error = e := rfl

theorem err_pair (g : gameSession) (e : String) (h : e ≠ "") :
    ((g, errorResult e) : gameSession × gameActionResult).2.Error ≠ "" ∧
      ((g, errorResult e) : gameSession × gameActionResult).1 = g := ⟨h, rfl⟩

theorem applySpecial_pre_cases (g : gameSession) (actorID sid : String)
    (payload : GoMap AnyLeaf) (now : Int) :
    ((applySpecial g actorID sid payload now).2.Error ≠ "" ∧
        (applySpecial g actorID sid payload now).1 = g) ∨
      ∃ sp ep, namedSpecial g actorID sid = some sp ∧
        resolveSpecialTarget g actorID sp.Definition.TargetScope (mapEntries payload) = .ok ep ∧
        validateSpecialRequires g sp ep = "" := by
  generalize hr : applySpecial g actorID sid payload now = res
  unfold applySpecial at hr
  unfold namedSpecial
  cases hp : mapGet? g.Players actorID with
  | none =>
    rw [hp] at hr
    subst hr
    exact Or.inl (err_pair g _ (by decide))
  | some player =>
    rw [hp] at hr
    dsimp only at hr ⊢
    by_cases h1 : player.Status ≠ playerAlive
    · rw [if_pos h1] at hr
      subst hr
      exact Or.inl (err_pair g _ (by decide))
    rw [if_neg h1] at hr
    by_cases h2 : g.Phase = scenarioPhaseEnded
    · rw [if_pos h2] at hr
      subst hr
      exact Or.inl (err_pair g _ (by decide))
    rw [if_neg h2] at hr
    by_cases h3 : sid = ""
    · rw [if_pos h3] at hr
      subst hr
      exact Or.inl (err_pair g _ (by decide))
    rw [if_neg h3, get?_findIdx] at hr
    cases hs : player.Specials.find? (fun sp => sp.InstanceID = sid) with
    | none =>
      rw [hs] at hr
      subst hr
      exact Or.inl (err_pair g _ (by decide))
    | some special =>
      rw [hs] at hr
      dsimp only at hr
      by_cases h4 : (!special.Definition.Implemented) = true
      · rw [if_pos h4] at hr
        subst hr
        exact Or.inl (err_pair g _ (by decide))
      rw [if_neg h4] at hr
      by_cases h5 : special.Used = true
      · rw [if_pos h5] at hr
        subst hr
        exact Or.inl (err_pair g _ (by decide))
      rw [if_neg h5] at hr
      by_cases h6 : (!g.IsDev) = true ∧ g.Settings.SpecialUsage = "only_during_voting" ∧
          g.Phase ≠ scenarioPhaseVoting
      · rw [if_pos h6] at hr
        subst hr
        exact Or.inl (err_pair g _ (by decide))
      rw [if_neg h6] at hr
      by_cases h7 : special.Definition.Trigger = "onOwnerEliminated" ∨
          special.Definition.Trigger = "secret_onEliminate"
      · rw [if_pos h7] at hr
        subst hr
        exact Or.inl (err_pair g _ (by decide))
      rw [if_neg h7] at hr
      by_cases h8 : special.Definition.ChoiceKind ≠ "" ∧ special.Definition.ChoiceKind ≠ "none" ∧
          mapLen payload = 0 ∧
          (!decide (special.Definition.ChoiceKind = "category" ∧
            asString (mapGet? special.Definition.Effect.Params "category") ≠ "")) = true
      · rw [if_pos h8] at hr
        subst hr
        exact Or.inl (err_pair g _ (by decide))
      rw [if_neg h8] at hr
      cases ht : resolveSpecialTarget g actorID special.Definition.TargetScope
          (mapEntries payload) with
      | error e =>
        rw [ht] at hr
        subst hr
        exact Or.inl (err_pair g _ (resolveSpecialTarget_error _ _ _ _ _ ht))
      | ok ep =>
        rw [ht] at hr
        dsimp only at hr
        by_cases h9 : special.Definition.ChoiceKind = "player" ∧
            (!special.Definition.AllowSelf) = true ∧
            trimSpace (asString (mapGet? ep "targetPlayerId")) ≠ "" ∧
            trimSpace (asString (mapGet? ep "targetPlayerId")) = actorID
        · rw [if_pos h9] at hr
          subst hr
          exact Or.inl (err_pair g _ (by decide))
        rw [if_neg h9] at hr
        by_cases h10 : validateSpecialRequires g special ep ≠ ""
        · rw [if_pos h10] at hr
          subst hr
          exact Or.inl (err_pair g _ h10)
        · exact Or.inr ⟨special, ep, rfl, ht, not_not.mp h10⟩

theorem requirement_unmet (g : gameSession) (sp : specialConditionState)
    (ep : GoMap AnyLeaf) (req : String) (hreq : req ∈ sp.Definition.Requires)
    (h : requirementError g sp ep req ≠ "") : validateSpecialRequires g sp ep ≠ "" := by
  unfold validateSpecialRequires
  cases hf : (sp.Definition.Requires.map (requirementError g sp ep)).find? (fun e => e ≠ "") with
  | none =>
    rw [List.find?_eq_none] at hf
    have := hf _ (List.mem_map_of_mem _ hreq)
    simp only [decide_not, Bool.not_eq_true', decide_eq_false_iff_not, not_not] at this
    exact absurd this h
  | some e =>
    have := List.find?_some hf
    simpa using this

theorem health_requirement_error (g : gameSession) (sp : specialConditionState)
    (ep : GoMap AnyLeaf) (hdev : g.IsDev = false) (h : targetLacksRevealedHealth g ep = true) :
    requirementError g sp ep "targetHasRevealedHealth" ≠ "" := by
  unfold targetLacksRevealedHealth at h
  unfold requirementError
  simp only [hdev, Bool.not_false]
  rw [if_pos h]
  decide



/-! ## Activation of an ability on its own holder -/

/-- C18. The failing run: in the example session `exampleSteal` the player `p1` applies the
ability `special-p1-1` of the effect `stealBaggage_and_giveSpecial`, which allows the holder
as target, to `p1`. The call succeeds and reports a state change with two events, and
afterwards `p1` holds two abilities, the activated one first, whose flags `Used` and
`RevealedPublic` are both still false. -/
theorem self_steal_leaves_ability_unused :
    (handleAction exampleSteal "p1" "applySpecial" (stealPayload "p1") 5).2.Error = "" ∧
      (handleAction exampleSteal "p1" "applySpecial" (stealPayload "p1") 5).2.StateChanged
        = true ∧
      (handleAction exampleSteal "p1" "applySpecial" (stealPayload "p1") 5).2.Events.length
        = 2 ∧
      ((mapGet? (handleAction exampleSteal "p1" "applySpecial" (stealPayload "p1") 5).1.Players
          "p1").map (fun p => p.Specials.map (fun sp => (sp.InstanceID, sp.Used,
            sp.RevealedPublic)))) =
        some [("special-p1-1", false, false), ("special-p1-2", false, false)] := by
  decide



/-! ## The phase `ended` under the entry points -/

theorem hard_Phase {g g2 : gameSession} (h : hard g2 = hard g) : g2.Phase = g.Phase :=
  congrArg hardView.Phase h

theorem finishGame_Phase (g : gameSession) (reason : String) (now : Int) :
    (finishGame g reason now).1.Phase = scenarioPhaseEnded := by
  unfold finishGame
  split
  · rename_i h
    exact h.1
  · rfl

theorem applyElimination_Phase (g : gameSession) (id : String) :
    (applyElimination g id).Phase = g.Phase := by
  unfold applyElimination
  split
  · rfl
  · split
    · rfl
    · refine (hard_Phase (handleSecretEliminationTriggers_hard _ _)).trans ?_
      refine (hard_Phase (handleOnOwnerEliminated_hard _ _)).trans ?_
      rfl

theorem passTurnFrom_Phase (g : gameSession) (id : String) :
    (passTurnFrom g id).Phase = g.Phase := hard_Phase (passTurnFrom_hard g id)

theorem revealCard_ended (g : gameSession) (actorID cardID : String) (now : Int)
    (h : g.Phase = scenarioPhaseEnded) :
    (revealCard g actorID cardID now).1.Phase = scenarioPhaseEnded := by
  generalize hr : revealCard g actorID cardID now = res
  unfold revealCard at hr
  cases hp : mapGet? g.Players actorID with
  | none =>
    rw [hp] at hr
    subst hr
    exact h
  | some player =>
    rw [hp] at hr
    dsimp only at hr
    rw [if_pos h] at hr
    repeat' split at hr
    all_goals subst hr
    all_goals exact h

theorem kickPlayer_ended (g : gameSession) (targetID : String) (now : Int)
    (h : g.Phase = scenarioPhaseEnded) :
    (kickPlayer g targetID now).1.Phase = scenarioPhaseEnded := by
  unfold kickPlayer
  split
  · exact h
  · dsimp only [makeEvent, removeFromVoting]
    repeat' (first
      | with_reducible exact h
      | with_reducible exact finishGame_Phase _ _ _
      | with_reducible exact (applyElimination_Phase _ _).trans h
      | with_reducible refine ite_of (fun s : gameSession => s.Phase = scenarioPhaseEnded) _ _ _ (fun _ => ?_) (fun _ => ?_)
      | with_reducible refine ite_of (fun r : gameSession × gameActionResult => r.1.Phase = scenarioPhaseEnded) _ _ _ (fun _ => ?_) (fun _ => ?_))

theorem devAddPlayer_Phase (g : gameSession) (name : String) (now : Int) :
    (devAddPlayer g name now).1.Phase = g.Phase := by
  generalize hr : devAddPlayer g name now = res
  unfold devAddPlayer at hr
  split at hr
  · subst hr
    rfl
  · dsimp only at hr
    repeat' split at hr
    all_goals subst hr
    all_goals dsimp only [makeEvent]
    all_goals
      refine (hard_Phase (assignInitialSpecialsForPlayer_hard _ _ _)).trans ?_
      refine (hard_Phase (drawInitialHandForPlayer_hard _ _)).trans ?_
      rfl

theorem devRemovePlayer_ended (g : gameSession) (targetID : String) (now : Int)
    (h : g.Phase = scenarioPhaseEnded) :
    (devRemovePlayer g targetID now).1.Phase = scenarioPhaseEnded := by
  generalize hr : devRemovePlayer g targetID now = res
  unfold devRemovePlayer at hr
  dsimp only at hr
  repeat' split at hr
  all_goals subst hr
  all_goals dsimp only [makeEvent]
  all_goals first
    | exact h
    | exact finishGame_Phase _ _ _
    | exact (passTurnFrom_Phase _ _).trans h

theorem markLeftBunker_ended (g : gameSession) (targetID : String) (now : Int)
    (h : g.Phase = scenarioPhaseEnded) :
    (markLeftBunker g targetID now).1.Phase = scenarioPhaseEnded := by
  unfold markLeftBunker
  dsimp only [makeEvent, clearActiveTimer, removeFromVoting]
  repeat' (first
    | with_reducible exact h
    | with_reducible exact finishGame_Phase _ _ _
    | with_reducible exact (passTurnFrom_Phase _ _).trans h
    | (exfalso
       have hv := (‹_ ∧ _› : _ ∧ _).1
       revert hv
       refine ite_of (fun s : gameSession => s.Phase = scenarioPhaseVoting → False) _ _ _ ?_ ?_
       all_goals (intro _ hv; exact absurd (hv.symm.trans ((passTurnFrom_Phase _ _).trans h)) (by decide)))
    | with_reducible refine ite_of (fun s : gameSession => s.Phase = scenarioPhaseEnded) _ _ _ (fun _ => ?_) (fun _ => ?_)
    | with_reducible refine ite_of (fun r : gameSession × gameActionResult => r.1.Phase = scenarioPhaseEnded) _ _ _ (fun _ => ?_) (fun _ => ?_)
    | split)

theorem continueRound_ended (g : gameSession) (actorID : String) (now : Int)
    (h : g.Phase = scenarioPhaseEnded) : (continueRound g actorID now).1 = g := by
  unfold continueRound
  rw [if_pos h]

theorem vote_ended (g : gameSession) (actorID targetID : String) (now : Int)
    (h : g.Phase = scenarioPhaseEnded) : (vote g actorID targetID now).1 = g := by
  unfold vote
  rw [if_pos (Or.inl (by rw [h]; decide))]

theorem finalizeVoting_ended (g : gameSession) (actorID : String) (now : Int)
    (h : g.Phase = scenarioPhaseEnded) : (finalizeVoting g actorID now).1 = g := by
  unfold finalizeVoting
  rw [if_pos (by rw [h]; decide)]

theorem handleTimerExpired_ended (g : gameSession) (now : Int)
    (h : g.Phase = scenarioPhaseEnded) :
    (handleTimerExpired g now).1.Phase = scenarioPhaseEnded := by
  have h1 : (clearActiveTimer g).Phase = scenarioPhaseEnded := h
  have hr : (clearActiveTimer g).Phase = scenarioPhaseReveal → False :=
    fun hc => absurd (h1.symm.trans hc) (by decide)
  have hd : (clearActiveTimer g).Phase = scenarioPhaseRevealDiscussion → False :=
    fun hc => absurd (h1.symm.trans hc) (by decide)
  have hv : (clearActiveTimer g).Phase = scenarioPhaseVoting ∧
      (clearActiveTimer g).VotePhase = votePhaseSpecialWindow → False :=
    fun hc => absurd (h1.symm.trans hc.1) (by decide)
  have hs : (clearActiveTimer g).Phase = scenarioPhaseResolution → False :=
    fun hc => absurd (h1.symm.trans hc) (by decide)
  unfold handleTimerExpired
  split
  · exact h
  · dsimp only
    repeat' (first
      | with_reducible exact h
      | with_reducible exact h1
      | with_reducible refine ite_of (fun r : gameSession × gameActionResult => r.1.Phase = scenarioPhaseEnded) _ _ _ (fun hc => (hr hc).elim) (fun _ => ?_)
      | with_reducible refine ite_of (fun r : gameSession × gameActionResult => r.1.Phase = scenarioPhaseEnded) _ _ _ (fun hc => (hd hc).elim) (fun _ => ?_)
      | with_reducible refine ite_of (fun r : gameSession × gameActionResult => r.1.Phase = scenarioPhaseEnded) _ _ _ (fun hc => (hv hc).elim) (fun _ => ?_)
      | with_reducible refine ite_of (fun r : gameSession × gameActionResult => r.1.Phase = scenarioPhaseEnded) _ _ _ (fun hc => (hs hc).elim) (fun _ => ?_)
      | with_reducible refine ite_of (fun r : gameSession × gameActionResult => r.1.Phase = scenarioPhaseEnded) _ _ _ (fun _ => ?_) (fun _ => ?_))

theorem startNextRoundOrEnd_ended (g : gameSession) (now : Int)
    (h : shouldEnd g = true ∨ g.Round + 1 > (g.Ruleset.VotesPerRnd.length : Int)) :
    (startNextRoundOrEnd g now).1.Phase = scenarioPhaseEnded := by
  unfold startNextRoundOrEnd
  split
  · exact finishGame_Phase _ _ _
  · rename_i hse
    rcases h with h | h
    · exact absurd h hse
    · dsimp only
      rw [if_pos h]
      exact finishGame_Phase _ _ _



theorem postProcessLoop_ended (now : Int) (n : Nat) (st : postState)
    (h : st.session.Phase = scenarioPhaseEnded) (hr : st.returned = false) :
    postProcessLoop now n st = st := by
  cases n with
  | zero => rfl
  | succ k =>
    have h1 : ¬ st.session.Phase = scenarioPhaseReveal := by rw [h]; decide
    have h2 : ¬ (st.session.Phase = scenarioPhaseVoting ∧
        st.session.VotePhase = votePhaseVoting) := by
      rw [h]
      exact fun hc => absurd hc.1 (by decide)
    unfold postProcessLoop
    dsimp only
    rw [if_neg h1]
    dsimp only
    rw [hr]
    rw [if_neg (by decide)]
    rw [if_neg h2]
    dsimp only
    rw [hr]
    rw [if_neg (by decide)]
    rfl

theorem devShouldEnd_ended (g : gameSession) (h : g.Phase = scenarioPhaseEnded) :
    devShouldEnd g = false := by
  unfold devShouldEnd
  rw [if_pos h]

theorem postProcess_ended (g : gameSession) (result : gameActionResult) (now : Int)
    (h : g.Phase = scenarioPhaseEnded) : (postProcess g result now).1 = g := by
  unfold postProcess
  split
  · rfl
  · dsimp only
    rw [postProcessLoop_ended now 3 _ h rfl]
    dsimp only
    rw [if_neg (by decide), devShouldEnd_ended g h]
    rfl

theorem removeFromVotingDev_ended (g : gameSession) (targetID : String) (now : Int)
    (h : g.Phase = scenarioPhaseEnded) :
    (removeFromVotingDev g targetID now).Phase = scenarioPhaseEnded := by
  unfold removeFromVotingDev
  dsimp only
  rw [if_neg]
  · exact h
  · intro hc
    exact absurd (hc.1.symm.trans h) (by decide)

theorem devMarkLeftBunker_ended (g : gameSession) (targetID : String) (now : Int)
    (h : g.Phase = scenarioPhaseEnded) :
    (devMarkLeftBunker g targetID now).1.Phase = scenarioPhaseEnded := by
  unfold devMarkLeftBunker
  dsimp only
  split
  · exact h
  · split
    · exact h
    · split
      · exact h
      · exact (passTurnFrom_Phase _ _).trans (removeFromVotingDev_ended _ _ _ h)

theorem devSkipRound_ended (g : gameSession) (actorID : String) (now : Int)
    (h : g.Phase = scenarioPhaseEnded) : (devSkipRound g actorID now).1 = g := by
  unfold devSkipRound
  split
  · rfl
  · split
    · rfl
    · rfl

theorem postProcess_Phase_ended (g : gameSession) (result : gameActionResult) (now : Int)
    (h : g.Phase = scenarioPhaseEnded) :
    (postProcess g result now).1.Phase = scenarioPhaseEnded := by
  rw [postProcess_ended g result now h]
  exact h

theorem handleAction_ended (g : gameSession) (actorID actionType : String)
    (payload : GoMap AnyVal) (now : Int) (h : g.Phase = scenarioPhaseEnded)
    (hskip : actionType ≠ "devSkipRound") :
    (handleAction g actorID actionType payload now).1.Phase = scenarioPhaseEnded := by
  unfold handleAction
  split
  · exact h
  · split
    · exact revealCard_ended _ _ _ _ h
    · exact (congrArg gameSession.Phase (continueRound_ended g _ _ h)).trans h
    · exact (congrArg gameSession.Phase (vote_ended g _ _ _ h)).trans h
    · exact (congrArg gameSession.Phase (finalizeVoting_ended g _ _ h)).trans h
    · exact (congrArg gameSession.Phase
        (applySpecial_rejects g _ _ _ _ (Or.inr (Or.inl h))).2).trans h
    · exact (hard_Phase (revealWorldThreat_hard _ _ _)).trans h
    · exact (hard_Phase (setBunkerOutcome_hard _ _ _ _)).trans h
    · exact absurd rfl hskip
    · exact kickPlayer_ended _ _ _ h
    · exact (devAddPlayer_Phase _ _ _).trans h
    · exact devRemovePlayer_ended _ _ _ h
    · exact markLeftBunker_ended _ _ _ h
    · exact h

theorem handleAction_rejects_ended (g : gameSession) (actorID actionType : String)
    (payload : GoMap AnyVal) (now : Int) (h : g.Phase = scenarioPhaseEnded)
    (ha : actionType = "continueRound" ∨ actionType = "vote" ∨ actionType = "finalizeVoting" ∨
      actionType = "applySpecial") :
    (handleAction g actorID actionType payload now).1 = g := by
  unfold handleAction
  split
  · rfl
  · rcases ha with ha | ha | ha | ha <;> subst ha
    · exact continueRound_ended g _ _ h
    · exact vote_ended g _ _ _ h
    · exact finalizeVoting_ended g _ _ h
    · exact (applySpecial_rejects g _ _ _ _ (Or.inr (Or.inl h))).2

theorem devHandleAction_ended (g : gameSession) (actorID actionType : String)
    (payload : GoMap AnyVal) (now : Int) (h : g.Phase = scenarioPhaseEnded) :
    (devHandleAction g actorID actionType payload now).1.Phase = scenarioPhaseEnded := by
  unfold devHandleAction
  dsimp only
  split
  · exact postProcess_Phase_ended _ _ _ (handleAction_ended _ _ _ _ _ h (by decide))
  · exact h
  · exact postProcess_Phase_ended _ _ _
      ((congrArg gameSession.Phase (devSkipRound_ended g _ _ h)).trans h)
  · exact postProcess_Phase_ended _ _ _ (devMarkLeftBunker_ended _ _ _ h)
  · exact postProcess_Phase_ended _ _ _ (handleAction_ended _ _ _ _ _ h (by decide))
  · exact postProcess_Phase_ended _ _ _ (handleAction_ended _ _ _ _ _ h (by decide))
  · exact postProcess_Phase_ended _ _ _ (handleAction_ended _ _ _ _ _ h (by decide))
  · split
    · exact h
    · split
      · exact h
      · exact h

theorem devHandleTimerExpired_ended (g : gameSession) (now : Int)
    (h : g.Phase = scenarioPhaseEnded) :
    (devHandleTimerExpired g now).1.Phase = scenarioPhaseEnded :=
  postProcess_Phase_ended _ _ _ (handleTimerExpired_ended g now h)



/-! ## The candidates with the highest total -/

theorem mem_insertSorted (a b : String) (l : List String) :
    b ∈ insertSorted a l ↔ b = a ∨ b ∈ l := by
  induction l with
  | nil => simp [insertSorted]
  | cons c t ih =>
    unfold insertSorted
    split
    · simp
    · simp only [List.mem_cons, ih]
      tauto

theorem mem_sortStrings (b : String) (l : List String) : b ∈ sortStrings l ↔ b ∈ l := by
  induction l with
  | nil => simp [sortStrings]
  | cons c t ih =>
    unfold sortStrings
    rw [mem_insertSorted, ih]
    simp

theorem mem_mapEntries {V : Type} (m : GoMap V) (k : String) (v : V) :
    (k, v) ∈ mapEntries m ↔ mapGet? m k = some v := by
  induction m with
  | nil => simp [mapEntries, mapGet?]
  | cons e t ih =>
    obtain ⟨a, w⟩ := e
    unfold mapEntries mapGet?
    by_cases h : a = k
    · subst h
      simp
      exact eq_comm
    · rw [if_neg h]
      simp only [List.mem_cons, Prod.mk.injEq, List.mem_filter, ih, ne_eq, decide_not,
        Bool.not_eq_true', decide_eq_false_iff_not]
      constructor
      · rintro (⟨h1, _⟩ | ⟨h1, _⟩)
        · exact absurd h1.symm h
        · exact h1
      · intro h1
        exact Or.inr ⟨h1, fun hc => h hc.symm⟩

/-- The loop that tracks the maximum: the value reached is an upper bound of the start value
and of every entry, it is the start value or the value of an entry, and the list holds the
keys kept from the start (when the maximum did not rise) and the keys of the entries that
carry the value reached. -/
theorem topStep_foldl (l : List (String × Int)) (acc : Int × List String) :
    acc.1 ≤ (l.foldl topStep acc).1 ∧
      (∀ e ∈ l, e.2 ≤ (l.foldl topStep acc).1) ∧
      ((l.foldl topStep acc).1 = acc.1 ∨ ∃ e ∈ l, e.2 = (l.foldl topStep acc).1) ∧
      (∀ k, k ∈ (l.foldl topStep acc).2 ↔
        ((l.foldl topStep acc).1 = acc.1 ∧ k ∈ acc.2) ∨
          ∃ e ∈ l, e.1 = k ∧ e.2 = (l.foldl topStep acc).1) := by
  induction l generalizing acc with
  | nil => simp
  | cons e t ih =>
    rw [List.foldl_cons]
    obtain ⟨h1, h2, h3, h4⟩ := ih (topStep acc e)
    have hstep : (topStep acc e = (e.2, [e.1]) ∧ e.2 > acc.1) ∨
        (topStep acc e = (acc.1, acc.2 ++ [e.1]) ∧ e.2 = acc.1) ∨
        (topStep acc e = acc ∧ e.2 < acc.1) := by
      unfold topStep
      by_cases c1 : e.2 > acc.1
      · rw [if_pos c1]
        exact Or.inl ⟨rfl, c1⟩
      · rw [if_neg c1]
        by_cases c2 : e.2 = acc.1
        · rw [if_pos c2]
          exact Or.inr (Or.inl ⟨rfl, c2⟩)
        · rw [if_neg c2]
          exact Or.inr (Or.inr ⟨rfl, by omega⟩)
    generalize hm : (List.foldl topStep (topStep acc e) t) = r at h1 h2 h3 h4 ⊢
    rcases hstep with ⟨hs, hc⟩ | ⟨hs, hc⟩ | ⟨hs, hc⟩
    · rw [hs] at h1 h3 h4
      simp only at h1 h3 h4
      refine ⟨by omega, ?_, ?_, ?_⟩
      · intro x hx
        rcases List.mem_cons.mp hx with hx | hx
        · subst hx
          exact h1
        · exact h2 x hx
      · rcases h3 with h3 | ⟨x, hx, h3⟩
        · exact Or.inr ⟨e, List.mem_cons_self _ _, h3.symm⟩
        · exact Or.inr ⟨x, List.mem_cons_of_mem _ hx, h3⟩
      · intro k
        rw [h4 k]
        constructor
        · rintro (⟨ha, hb⟩ | ⟨x, hx, hb⟩)
          · simp only [List.mem_singleton] at hb
            exact Or.inr ⟨e, List.mem_cons_self _ _, hb.symm, ha.symm⟩
          · exact Or.inr ⟨x, List.mem_cons_of_mem _ hx, hb⟩
        · rintro (⟨ha, _⟩ | ⟨x, hx, hb⟩)
          · omega
          · rcases List.mem_cons.mp hx with hx | hx
            · subst hx
              exact Or.inl ⟨hb.2.symm, by simp [hb.1]⟩
            · exact Or.inr ⟨x, hx, hb⟩
    · rw [hs] at h1 h3 h4
      simp only at h1 h3 h4
      refine ⟨h1, ?_, ?_, ?_⟩
      · intro x hx
        rcases List.mem_cons.mp hx with hx | hx
        · subst hx
          omega
        · exact h2 x hx
      · rcases h3 with h3 | ⟨x, hx, h3⟩
        · exact Or.inl h3
        · exact Or.inr ⟨x, List.mem_cons_of_mem _ hx, h3⟩
      · intro k
        rw [h4 k]
        constructor
        · rintro (⟨ha, hb⟩ | ⟨x, hx, hb⟩)
          · rcases List.mem_append.mp hb with hb | hb
            · exact Or.inl ⟨ha, hb⟩
            · simp only [List.mem_singleton] at hb
              exact Or.inr ⟨e, List.mem_cons_self _ _, hb.symm, by omega⟩
          · exact Or.inr ⟨x, List.mem_cons_of_mem _ hx, hb⟩
        · rintro (⟨ha, hb⟩ | ⟨x, hx, hb⟩)
          · exact Or.inl ⟨ha, List.mem_append_left _ hb⟩
          · rcases List.mem_cons.mp hx with hx | hx
            · subst hx
              exact Or.inl ⟨by omega, List.mem_append_right _ (by simp [hb.1])⟩
            · exact Or.inr ⟨x, hx, hb⟩
    · rw [hs] at h1 h3 h4
      refine ⟨h1, ?_, ?_, ?_⟩
      · intro x hx
        rcases List.mem_cons.mp hx with hx | hx
        · subst hx
          omega
        · exact h2 x hx
      · rcases h3 with h3 | ⟨x, hx, h3⟩
        · exact Or.inl h3
        · exact Or.inr ⟨x, List.mem_cons_of_mem _ hx, h3⟩
      · intro k
        rw [h4 k]
        constructor
        · rintro (⟨ha, hb⟩ | ⟨x, hx, hb⟩)
          · exact Or.inl ⟨ha, hb⟩
          · exact Or.inr ⟨x, List.mem_cons_of_mem _ hx, hb⟩
        · rintro (⟨ha, hb⟩ | ⟨x, hx, hb⟩)
          · exact Or.inl ⟨ha, hb⟩
          · rcases List.mem_cons.mp hx with hx | hx
            · subst hx
              omega
            · exact Or.inr ⟨x, hx, hb⟩



theorem topStep_foldl_fst (l : List (String × Int)) (acc : Int × List String) :
    (l.foldl topStep acc).1 = l.foldl (fun m e => max m e.2) acc.1 := by
  induction l generalizing acc with
  | nil => rfl
  | cons e t ih =>
    rw [List.foldl_cons, List.foldl_cons, ih]
    congr 1
    unfold topStep
    by_cases c1 : e.2 > acc.1
    · rw [if_pos c1]
      exact (max_eq_right (le_of_lt c1)).symm
    · rw [if_neg c1]
      by_cases c2 : e.2 = acc.1
      · rw [if_pos c2]
        exact (max_eq_left (le_of_eq c2)).symm
      · rw [if_neg c2]
        exact (max_eq_left (by omega)).symm

theorem mem_mapKeys {V : Type} (m : GoMap V) (k : String) :
    k ∈ mapKeys m ↔ mapHas m k = true := by
  unfold mapKeys mapHas
  rw [List.mem_map]
  constructor
  · rintro ⟨⟨a, v⟩, he, rfl⟩
    rw [(mem_mapEntries m a v).mp he]
    rfl
  · intro h
    cases hg : mapGet? m k with
    | none =>
      rw [hg] at h
      simp at h
    | some v => exact ⟨(k, v), (mem_mapEntries m k v).mpr hg, rfl⟩

theorem top_of_totals (T : GoMap Int) (keys : List String) (c : String) :
    ((∃ d, mapGet? T d = some (maxTotal T)) →
        (c ∈ sortStrings
            (if (((mapEntries T).foldl topStep (0, [])).2).length = 0 then
              ((mapEntries T).foldl topStep (0, [])).2 ++ keys
            else ((mapEntries T).foldl topStep (0, [])).2) ↔
          mapGet? T c = some (maxTotal T))) ∧
      ((¬ ∃ d, mapGet? T d = some (maxTotal T)) →
        (c ∈ sortStrings
            (if (((mapEntries T).foldl topStep (0, [])).2).length = 0 then
              ((mapEntries T).foldl topStep (0, [])).2 ++ keys
            else ((mapEntries T).foldl topStep (0, [])).2) ↔
          c ∈ keys)) := by
  obtain ⟨_, _, _, h4⟩ := topStep_foldl (mapEntries T) (0, [])
  have hM : ((mapEntries T).foldl topStep (0, [])).1 = maxTotal T :=
    topStep_foldl_fst _ _
  rw [hM] at h4
  have hmem : ∀ k, k ∈ ((mapEntries T).foldl topStep (0, [])).2 ↔
      mapGet? T k = some (maxTotal T) := by
    intro k
    rw [h4 k]
    constructor
    · rintro (⟨_, hb⟩ | ⟨e, he, h1, h2⟩)
      · exact absurd hb (List.not_mem_nil _)
      · obtain ⟨a, v⟩ := e
        simp only at h1 h2
        rw [← h1, ← h2]
        exact (mem_mapEntries T a v).mp he
    · intro hk
      exact Or.inr ⟨(k, maxTotal T), (mem_mapEntries T k _).mpr hk, rfl, rfl⟩
  generalize ((mapEntries T).foldl topStep (0, [])).2 = top at hmem ⊢
  constructor
  · rintro ⟨d, hd⟩
    have hne : ¬ top.length = 0 := by
      intro h0
      have := (hmem d).mpr hd
      rw [List.length_eq_zero.mp h0] at this
      exact absurd this (List.not_mem_nil _)
    rw [if_neg hne, mem_sortStrings, hmem c]
  · intro hno
    have h0 : top = [] := by
      cases top with
      | nil => rfl
      | cons a t => exact absurd ⟨a, (hmem a).mp (List.mem_cons_self _ _)⟩ hno
    subst h0
    rw [if_pos (List.length_nil), mem_sortStrings, List.nil_append]

/-- The candidates that `computeVoteTotals` returns are the players with the maximum total;
when no total reaches the maximum (no total at all, or only negative ones) they are all the
candidates. -/
theorem computeVoteTotals_top (g : gameSession) (source : GoMap voteRecord) (c : String) :
    ((∃ d, hasMaxTotal g source d) →
        (c ∈ (computeVoteTotals g source).2 ↔ hasMaxTotal g source c)) ∧
      ((¬ ∃ d, hasMaxTotal g source d) →
        (c ∈ (computeVoteTotals g source).2 ↔ mapHas g.VoteCandidates c = true)) := by
  have h := top_of_totals (computeVoteTotals g source).1 (mapKeys g.VoteCandidates) c
  rw [mem_mapKeys] at h
  exact h

theorem markVoteWasted_fold_Votes (keys : List String) (reason : String) (now : Int)
    (g : gameSession) (hr : reason ≠ "") :
    (keys.foldl (fun acc k => markVoteWasted acc k reason now) g).Votes =
      keys.foldl (fun m k => mapSet m k
        { TargetID := "", Submitted := now, IsValid := false, ReasonText := reason }) g.Votes := by
  induction keys generalizing g with
  | nil => rfl
  | cons k t ih =>
    rw [List.foldl_cons, List.foldl_cons, ih]
    congr 1
    unfold markVoteWasted
    dsimp only
    rw [if_neg hr]

theorem markVoteWasted_fold_frame (keys : List String) (reason : String) (now : Int)
    (g : gameSession) :
    (keys.foldl (fun acc k => markVoteWasted acc k reason now) g).BaseVotes = g.BaseVotes ∧
      (keys.foldl (fun acc k => markVoteWasted acc k reason now) g).RevoteDisallow =
        g.RevoteDisallow ∧
      (keys.foldl (fun acc k => markVoteWasted acc k reason now) g).VotePhase = g.VotePhase := by
  induction keys generalizing g with
  | nil => exact ⟨rfl, rfl, rfl⟩
  | cons k t ih =>
    rw [List.foldl_cons]
    exact ih _

theorem mapSet_fold_get {V : Type} (keys : List String) (v : V) (m : GoMap V) (k : String) :
    mapGet? (keys.foldl (fun acc a => mapSet acc a v) m) k =
      if k ∈ keys then some v else mapGet? m k := by
  induction keys generalizing m with
  | nil => simp
  | cons a t ih =>
    rw [List.foldl_cons, ih, mapGet?_mapSet]
    by_cases h1 : k ∈ t
    · simp [h1]
    · by_cases h2 : a = k
      · subst h2
        simp [h1]
      · have h3 : ¬ k = a := fun hc => h2 hc.symm
        simp [h1, h2, h3]

theorem resetVotesForRevote_spec (g : gameSession) (now : Int) :
    onlyWastedVotes g (resetVotesForRevote g now).Votes now ∧
      (resetVotesForRevote g now).BaseVotes = [] ∧
      (resetVotesForRevote g now).RevoteDisallow = g.RevoteDisallow := by
  unfold resetVotesForRevote
  dsimp only
  obtain ⟨h1, h2, _⟩ := markVoteWasted_fold_frame (mapKeys g.AutoWastedVoters)
    "Голос потрачен." now { g with Votes := [], BaseVotes := [] }
  refine ⟨?_, h1, h2⟩
  intro voter
  have hv := markVoteWasted_fold_Votes (mapKeys g.AutoWastedVoters) "Голос потрачен." now
    { g with Votes := [], BaseVotes := [] } (by decide)
  refine (congrArg (fun m => mapGet? m voter) hv).trans ?_
  refine (mapSet_fold_get _ _ _ _).trans ?_
  by_cases hk : mapHas g.AutoWastedVoters voter = true
  · rw [if_pos ((mem_mapKeys _ _).mpr hk), if_pos hk]
    rfl
  · rw [if_neg (fun hc => hk ((mem_mapKeys _ _).mp hc)), if_neg hk]
    rfl



/-! ## The effect `forceRevote` -/

theorem applySpecialEffect_forceRevote (g : gameSession) (a : String) (p : gamePlayer)
    (i : Nat) (sp : specialConditionState) (payload : GoMap AnyLeaf) (now : Int)
    (ht : sp.Definition.Effect.EffectType = "forceRevote")
    (hok : (applySpecialEffect g a p i sp payload now).2.1.Error = "") :
    g.Phase = scenarioPhaseVoting ∧
      (applySpecialEffect g a p i sp payload now).1 =
        (makeEvent (markSpecialUsed (clearActiveTimer
          { (resetVotesForRevote
              (if asBool (mapGet? sp.Definition.Effect.Params "disallowPreviousCandidate") then
                { g with RevoteDisallow := (computeVoteTotals g (currentVoteSource g)).2.foldl (fun m c => mapSet m c true) [] }
              else g) now) with VotePhase := votePhaseVoting }) a i)
          "info" (p.Name ++ " запускает переголосование.") now).1 := by
  generalize hr : applySpecialEffect g a p i sp payload now = r at hok ⊢
  unfold applySpecialEffect at hr
  dsimp only at hr
  rw [ht] at hr
  split at hr
  · subst hr
    simp [errorResult] at hok
  · simp only [] at hr
    split at hr
    · subst hr
      simp [errorResult] at hok
    · rename_i hph
      split at hr
      · subst hr
        simp [errorResult] at hok
      · subst hr
        exact ⟨not_not.mp hph, rfl⟩

theorem applySpecial_success_shape (g : gameSession) (actorID sid : String)
    (payload : GoMap AnyLeaf) (now : Int) :
    (applySpecial g actorID sid payload now).2.Error ≠ "" ∨
      ∃ player sp ep, mapGet? g.Players actorID = some player ∧
        player.Specials.find? (fun s => s.InstanceID = sid) = some sp ∧
        (applySpecialEffect g actorID player
          (player.Specials.findIdx (fun s => s.InstanceID = sid)) sp ep now).2.1.Error = "" ∧
        ∃ players counter, (applySpecial g actorID sid payload now).1 =
          { (applySpecialEffect g actorID player
              (player.Specials.findIdx (fun s => s.InstanceID = sid)) sp ep now).1 with
            Players := players, EventCounter := counter } := by
  generalize hr : applySpecial g actorID sid payload now = res
  unfold applySpecial at hr
  cases hp : mapGet? g.Players actorID with
  | none =>
    rw [hp] at hr
    subst hr
    exact Or.inl (err_pair g _ (by decide)).1
  | some player =>
    rw [hp] at hr
    dsimp only at hr ⊢
    by_cases h1 : player.Status ≠ playerAlive
    · rw [if_pos h1] at hr
      subst hr
      exact Or.inl (err_pair g _ (by decide)).1
    rw [if_neg h1] at hr
    by_cases h2 : g.Phase = scenarioPhaseEnded
    · rw [if_pos h2] at hr
      subst hr
      exact Or.inl (err_pair g _ (by decide)).1
    rw [if_neg h2] at hr
    by_cases h3 : sid = ""
    · rw [if_pos h3] at hr
      subst hr
      exact Or.inl (err_pair g _ (by decide)).1
    rw [if_neg h3, get?_findIdx] at hr
    cases hs : player.Specials.find? (fun sp => sp.InstanceID = sid) with
    | none =>
      rw [hs] at hr
      subst hr
      exact Or.inl (err_pair g _ (by decide)).1
    | some special =>
      rw [hs] at hr
      dsimp only at hr
      by_cases h4 : (!special.Definition.Implemented) = true
      · rw [if_pos h4] at hr
        subst hr
        exact Or.inl (err_pair g _ (by decide)).1
      rw [if_neg h4] at hr
      by_cases h5 : special.Used = true
      · rw [if_pos h5] at hr
        subst hr
        exact Or.inl (err_pair g _ (by decide)).1
      rw [if_neg h5] at hr
      by_cases h6 : (!g.IsDev) = true ∧ g.Settings.SpecialUsage = "only_during_voting" ∧
          g.Phase ≠ scenarioPhaseVoting
      · rw [if_pos h6] at hr
        subst hr
        exact Or.inl (err_pair g _ (by decide)).1
      rw [if_neg h6] at hr
      by_cases h7 : special.Definition.Trigger = "onOwnerEliminated" ∨
          special.Definition.Trigger = "secret_onEliminate"
      · rw [if_pos h7] at hr
        subst hr
        exact Or.inl (err_pair g _ (by decide)).1
      rw [if_neg h7] at hr
      by_cases h8 : special.Definition.ChoiceKind ≠ "" ∧ special.Definition.ChoiceKind ≠ "none" ∧
          mapLen payload = 0 ∧
          (!decide (special.Definition.ChoiceKind = "category" ∧
            asString (mapGet? special.Definition.Effect.Params "category") ≠ "")) = true
      · rw [if_pos h8] at hr
        subst hr
        exact Or.inl (err_pair g _ (by decide)).1
      rw [if_neg h8] at hr
      cases ht : resolveSpecialTarget g actorID special.Definition.TargetScope
          (mapEntries payload) with
      | error e =>
        rw [ht] at hr
        subst hr
        exact Or.inl (err_pair g _ (resolveSpecialTarget_error _ _ _ _ _ ht)).1
      | ok ep =>
        rw [ht] at hr
        dsimp only at hr
        by_cases h9 : special.Definition.ChoiceKind = "player" ∧
            (!special.Definition.AllowSelf) = true ∧
            trimSpace (asString (mapGet? ep "targetPlayerId")) ≠ "" ∧
            trimSpace (asString (mapGet? ep "targetPlayerId")) = actorID
        · rw [if_pos h9] at hr
          subst hr
          exact Or.inl (err_pair g _ (by decide)).1
        rw [if_neg h9] at hr
        by_cases h10 : validateSpecialRequires g special ep ≠ ""
        · rw [if_pos h10] at hr
          subst hr
          exact Or.inl (err_pair g _ h10).1
        rw [if_neg h10] at hr
        rw [← get?_findIdx] at hs
        by_cases herr : (applySpecialEffect g actorID player
            (player.Specials.findIdx (fun sp => sp.InstanceID = sid)) special ep now).2.1.Error ≠ ""
        · rw [if_pos herr] at hr
          subst hr
          exact Or.inl herr
        rw [if_neg herr] at hr
        right
        refine ⟨player, special, ep, rfl, ?_, not_not.mp herr, ?_⟩
        · rw [get?_findIdx] at hs
          exact hs
        by_cases h11 : (!(applySpecialEffect g actorID player
            (player.Specials.findIdx (fun sp => sp.InstanceID = sid)) special ep now).2.1.StateChanged) = true
        · rw [if_pos h11] at hr
          subst hr
          exact ⟨_, _, rfl⟩
        rw [if_neg h11] at hr
        by_cases h12 : (!special.RevealedPublic) = true
        · rw [if_pos h12] at hr
          by_cases hb : (applySpecialEffect g actorID player
              (player.Specials.findIdx (fun sp => sp.InstanceID = sid)) special ep now).2.2 = true
          · rw [if_pos hb] at hr
            subst hr
            exact ⟨_, _, rfl⟩
          · rw [if_neg hb] at hr
            subst hr
            exact ⟨_, _, rfl⟩
        · rw [if_neg h12] at hr
          subst hr
          exact ⟨_, _, rfl⟩

theorem mapGetB_fold_true (keys : List String) (c : String) :
    mapGetB (keys.foldl (fun m k => mapSet m k true) []) c = true ↔ c ∈ keys := by
  unfold mapGetB
  rw [mapSet_fold_get]
  by_cases h : c ∈ keys
  · simp [h]
  · simp [h, mapGet?]

theorem vote_rejects_disallowed (g : gameSession) (voter c : String) (t : Int)
    (h : mapGetB g.RevoteDisallow c = true) :
    (vote g voter c t).2.Error ≠ "" ∧ (vote g voter c t).1 = g := by
  obtain ⟨h1, _, h3⟩ := vote_spec g voter c t
  have hne : (vote g voter c t).2.Error ≠ "" := by
    intro hc
    have := (h1.mp hc).2.2.2.2.1
    rw [h] at this
    exact absurd this (by decide)
  exact ⟨hne, h3 hne⟩

/-- C20. A successful `applySpecial` of an ability with the effect `forceRevote` reopens the
collection of votes (`VotePhase` is `voting`), empties `BaseVotes` and leaves in `Votes`
only the wasted record of every voter of `AutoWastedVoters`. With the parameter
`disallowPreviousCandidate` the keys of `RevoteDisallow` become the candidates that
`computeVoteTotals` returns for the current vote source, which are the players with the
maximum total whenever a total reaches the maximum; without it `RevoteDisallow` stays as it
was. In the session that results every vote for a player of `RevoteDisallow` is rejected and
changes nothing. -/
theorem forceRevote_contract (g : gameSession) (actorID sid : String)
    (payload : GoMap AnyLeaf) (now : Int) (sp : specialConditionState)
    (hsp : namedSpecial g actorID sid = some sp)
    (ht : sp.Definition.Effect.EffectType = "forceRevote")
    (hok : (applySpecial g actorID sid payload now).2.Error = "") :
    (applySpecial g actorID sid payload now).1.VotePhase = votePhaseVoting ∧
      (applySpecial g actorID sid payload now).1.BaseVotes = [] ∧
      onlyWastedVotes g (applySpecial g actorID sid payload now).1.Votes now ∧
      (asBool (mapGet? sp.Definition.Effect.Params "disallowPreviousCandidate") = true →
        (∀ c, mapGetB (applySpecial g actorID sid payload now).1.RevoteDisallow c = true ↔
          c ∈ (computeVoteTotals g (currentVoteSource g)).2) ∧
        ((∃ d, hasMaxTotal g (currentVoteSource g) d) →
          ∀ c, mapGetB (applySpecial g actorID sid payload now).1.RevoteDisallow c = true ↔
            hasMaxTotal g (currentVoteSource g) c)) ∧
      (asBool (mapGet? sp.Definition.Effect.Params "disallowPreviousCandidate") = false →
        (applySpecial g actorID sid payload now).1.RevoteDisallow = g.RevoteDisallow) ∧
      (∀ voter c t,
        mapGetB (applySpecial g actorID sid payload now).1.RevoteDisallow c = true →
        (vote (applySpecial g actorID sid payload now).1 voter c t).2.Error ≠ "" ∧
          (vote (applySpecial g actorID sid payload now).1 voter c t).1 =
            (applySpecial g actorID sid payload now).1) := by
  rcases applySpecial_success_shape g actorID sid payload now with herr |
    ⟨player, sp2, ep, hp, hfind, heff, players, counter, hres⟩
  · exact absurd hok herr
  have hsame : sp2 = sp := by
    unfold namedSpecial at hsp
    rw [hp] at hsp
    dsimp only at hsp
    rw [hfind] at hsp
    exact Option.some.inj hsp
  subst hsame
  obtain ⟨_, hshape⟩ := applySpecialEffect_forceRevote g actorID player _ sp2 ep now ht heff
  rw [hshape] at hres
  generalize applySpecial g actorID sid payload now = res at hres ⊢
  obtain ⟨g2, out⟩ := res
  dsimp only at hres ⊢
  subst hres
  dsimp only [makeEvent, markSpecialUsed, clearActiveTimer]
  by_cases hflag : asBool (mapGet? sp2.Definition.Effect.Params "disallowPreviousCandidate") = true
  · rw [if_pos hflag]
    obtain ⟨h1, h2, h3⟩ := resetVotesForRevote_spec
      { g with RevoteDisallow := (computeVoteTotals g (currentVoteSource g)).2.foldl (fun m c => mapSet m c true) [] } now
    rw [h3]
    refine ⟨rfl, h2, h1, ?_, ?_, ?_⟩
    · intro _
      refine ⟨fun c => mapGetB_fold_true _ c, fun hex c => ?_⟩
      rw [mapGetB_fold_true]
      exact (computeVoteTotals_top g (currentVoteSource g) c).1 hex
    · intro hc
      rw [hflag] at hc
      exact absurd hc (by decide)
    · intro voter c t hc
      exact vote_rejects_disallowed _ voter c t hc
  · rw [if_neg hflag]
    obtain ⟨h1, h2, h3⟩ := resetVotesForRevote_spec g now
    refine ⟨rfl, h2, h1, ?_, ?_, ?_⟩
    · intro hc
      exact absurd hc hflag
    · intro _
      exact h3
    · intro voter c t hc
      exact vote_rejects_disallowed _ voter c t hc

/-- The instance of C20 at the example session `exampleWindow`: the host applies
`special-p1-1`; the collection of votes is open again, no vote is left, and the tied
candidates `p2` and `p3` can no longer be voted for. -/
theorem forceRevote_contract_witness :
    (applySpecial exampleWindow "p1" "special-p1-1" [] 9).1.VotePhase = votePhaseVoting ∧
      (applySpecial exampleWindow "p1" "special-p1-1" [] 9).1.BaseVotes = [] ∧
      (mapGetB (applySpecial exampleWindow "p1" "special-p1-1" [] 9).1.RevoteDisallow "p2"
          = true ↔
        "p2" ∈ (computeVoteTotals exampleWindow (currentVoteSource exampleWindow)).2) :=
  ⟨(forceRevote_contract exampleWindow "p1" "special-p1-1" [] 9 _ rfl rfl (by decide)).1,
    (forceRevote_contract exampleWindow "p1" "special-p1-1" [] 9 _ rfl rfl (by decide)).2.1,
    ((forceRevote_contract exampleWindow "p1" "special-p1-1" [] 9 _ rfl rfl
      (by decide)).2.2.2.1 (by decide)).1 "p2"⟩



/-! ## The tie-break revote -/

theorem markVoteWasted_fold_frame2 (keys : List String) (reason : String) (now : Int)
    (g : gameSession) :
    (keys.foldl (fun acc k => markVoteWasted acc k reason now) g).Players = g.Players ∧
      (keys.foldl (fun acc k => markVoteWasted acc k reason now) g).TieBreakUsed =
        g.TieBreakUsed ∧
      (keys.foldl (fun acc k => markVoteWasted acc k reason now) g).VoteCandidates =
        g.VoteCandidates ∧
      (keys.foldl (fun acc k => markVoteWasted acc k reason now) g).Phase = g.Phase := by
  induction keys generalizing g with
  | nil => exact ⟨rfl, rfl, rfl, rfl⟩
  | cons k t ih =>
    rw [List.foldl_cons]
    exact ih _

theorem resetVotesForRevote_frame (g : gameSession) (now : Int) :
    (resetVotesForRevote g now).Players = g.Players ∧
      (resetVotesForRevote g now).TieBreakUsed = g.TieBreakUsed ∧
      (resetVotesForRevote g now).VoteCandidates = g.VoteCandidates ∧
      (resetVotesForRevote g now).Phase = g.Phase := by
  unfold resetVotesForRevote
  exact markVoteWasted_fold_frame2 _ _ _ _

theorem computeVoteTotals_finalize (g : gameSession) (source x : GoMap voteRecord) :
    computeVoteTotals { clearActiveTimer g with VoteResults := x } source =
      computeVoteTotals g source := rfl

theorem two_members_length {α : Type} (l : List α) (a b : α) (ha : a ∈ l) (hb : b ∈ l)
    (hne : a ≠ b) : l.length > 1 := by
  match l, ha, hb with
  | [], ha, _ => exact absurd ha (List.not_mem_nil _)
  | [x], ha, hb =>
    rw [List.mem_singleton] at ha hb
    exact absurd (ha.trans hb.symm) hne
  | _ :: _ :: _, _, _ => simp

theorem finalizeVoting_tie_shape (g : gameSession) (actorID : String) (now : Int)
    (h1 : g.Phase = scenarioPhaseVoting)
    (h2 : g.VotePhase = votePhaseSpecialWindow ∨ g.VotePhase = votePhaseVoting)
    (h3 : actorID = g.HostID) (h4 : g.TieBreakUsed = false)
    (h5 : (computeVoteTotals g (finalizeSource g)).2.length > 1) :
    (finalizeVoting g actorID now).2.Error = "" ∧
      ∃ counter text, (finalizeVoting g actorID now).1 =
        { startTieBreakRevote { clearActiveTimer g with VoteResults := finalizeSource g }
            (computeVoteTotals g (finalizeSource g)).2 now with
          EventCounter := counter, LastStageText := text } := by
  have h2' : ¬ (g.VotePhase ≠ votePhaseSpecialWindow ∧ g.VotePhase ≠ votePhaseVoting) := by
    rcases h2 with h | h <;> simp [h]
  generalize hv : finalizeVoting g actorID now = r
  unfold finalizeVoting at hv
  rw [if_neg (not_not.mpr h1), if_neg h2', if_neg (not_not.mpr h3)] at hv
  dsimp only at hv
  split at hv
  · subst hv
    exact ⟨rfl, _, _, rfl⟩
  · rename_i hc
    exact absurd ⟨h5, by rw [show (clearActiveTimer g).TieBreakUsed = g.TieBreakUsed from rfl, h4]; rfl⟩ hc

/-- C1. In the voting phase, when the host calls `finalizeVoting` while `TieBreakUsed` is
false and two different players have the maximum total of `computeVoteTotals` over the vote
source that `finalizeVoting` reads, the call succeeds, nobody is eliminated (the stored
players stay as they were) and a tie-break revote starts: `TieBreakUsed` is true, `Phase`
and `VotePhase` are `voting`, the candidates are exactly the players with that maximum
total, `BaseVotes` is empty and `Votes` holds only the wasted record of every voter of
`AutoWastedVoters`. The source read is the current vote source unless that one is empty
while `BaseVotes` is not. -/
theorem finalize_tie_starts_revote (g : gameSession) (actorID : String)
    (payload : GoMap AnyVal) (now : Int) (c d : String)
    (hactor : mapHas g.Players actorID = true)
    (h1 : g.Phase = scenarioPhaseVoting)
    (h2 : g.VotePhase = votePhaseSpecialWindow ∨ g.VotePhase = votePhaseVoting)
    (h3 : actorID = g.HostID) (h4 : g.TieBreakUsed = false)
    (hc : hasMaxTotal g (finalizeSource g) c) (hd : hasMaxTotal g (finalizeSource g) d)
    (hne : c ≠ d) :
    (handleAction g actorID "finalizeVoting" payload now).2.Error = "" ∧
      (handleAction g actorID "finalizeVoting" payload now).1.Players = g.Players ∧
      (handleAction g actorID "finalizeVoting" payload now).1.TieBreakUsed = true ∧
      (handleAction g actorID "finalizeVoting" payload now).1.Phase = scenarioPhaseVoting ∧
      (handleAction g actorID "finalizeVoting" payload now).1.VotePhase = votePhaseVoting ∧
      (∀ x, mapGetB (handleAction g actorID "finalizeVoting" payload now).1.VoteCandidates x
          = true ↔ hasMaxTotal g (finalizeSource g) x) ∧
      (handleAction g actorID "finalizeVoting" payload now).1.BaseVotes = [] ∧
      onlyWastedVotes g (handleAction g actorID "finalizeVoting" payload now).1.Votes now ∧
      ((mapLen (currentVoteSource g) ≠ 0 ∨ mapLen g.BaseVotes = 0) →
        finalizeSource g = currentVoteSource g) := by
  have htop : ∀ x, x ∈ (computeVoteTotals g (finalizeSource g)).2 ↔
      hasMaxTotal g (finalizeSource g) x :=
    fun x => (computeVoteTotals_top g (finalizeSource g) x).1 ⟨c, hc⟩
  have h5 : (computeVoteTotals g (finalizeSource g)).2.length > 1 :=
    two_members_length _ c d ((htop c).mpr hc) ((htop d).mpr hd) hne
  have hcall : handleAction g actorID "finalizeVoting" payload now =
      finalizeVoting g actorID now := by
    rw [handleAction_finalizeVoting]
    unfold mapHas at hactor
    cases hp : mapGet? g.Players actorID with
    | none =>
      rw [hp] at hactor
      simp at hactor
    | some p => rfl
  rw [hcall]
  obtain ⟨hok, counter, text, hshape⟩ := finalizeVoting_tie_shape g actorID now h1 h2 h3 h4 h5
  rw [hshape]
  unfold startTieBreakRevote
  dsimp only [clearActiveTimer]
  obtain ⟨f1, f2, f3, f4⟩ := resetVotesForRevote_frame
    { g with ActiveTimer := none, VoteResults := finalizeSource g, TieBreakUsed := true,
             VoteCandidates := (computeVoteTotals g (finalizeSource g)).2.foldl
               (fun m c => mapSet m c true) [],
             RevoteDisallow := [] } now
  obtain ⟨r1, r2, _⟩ := resetVotesForRevote_spec
    { g with ActiveTimer := none, VoteResults := finalizeSource g, TieBreakUsed := true,
             VoteCandidates := (computeVoteTotals g (finalizeSource g)).2.foldl
               (fun m c => mapSet m c true) [],
             RevoteDisallow := [] } now
  refine ⟨hok, f1, f2, f4.trans h1, rfl, ?_, r2, r1, ?_⟩
  · intro x
    rw [f3]
    exact (mapGetB_fold_true _ x).trans (htop x)
  · intro hsrc
    unfold finalizeSource
    rw [if_neg]
    rintro ⟨ha, hb⟩
    rcases hsrc with hs | hs
    · exact hs ha
    · omega

/-- The instance of C1 at the example session `exampleWindow`, where `p2` and `p3` have two
votes each: the host finalizes, the tie-break is marked as used and votes are collected
again between `p2` and `p3`. -/
theorem finalize_tie_starts_revote_witness :
    (handleAction exampleWindow "p1" "finalizeVoting" [] 9).2.Error = "" ∧
      (handleAction exampleWindow "p1" "finalizeVoting" [] 9).1.TieBreakUsed = true ∧
      (handleAction exampleWindow "p1" "finalizeVoting" [] 9).1.VotePhase = votePhaseVoting ∧
      (mapGetB (handleAction exampleWindow "p1" "finalizeVoting" [] 9).1.VoteCandidates "p2"
          = true ↔ hasMaxTotal exampleWindow (finalizeSource exampleWindow) "p2") :=
  have h := finalize_tie_starts_revote exampleWindow "p1" [] 9 "p2" "p3" (by decide)
    (by decide) (Or.inl (by decide)) (by decide) (by decide)
    (by unfold hasMaxTotal; decide) (by unfold hasMaxTotal; decide) (by decide)
  ⟨h.1, h.2.2.1, h.2.2.2.2.1, h.2.2.2.2.2.1 "p2"⟩



/-! ## What the calls do to the stored players -/

theorem PStep_refl {R : gamePlayer → gamePlayer → Prop} (hR : PlayerFrame R)
    (ps : GoMap gamePlayer) : PStep R ps ps := by
  unfold PStep
  induction ps with
  | nil => exact List.Forall₂.nil
  | cons e t ih => exact List.Forall₂.cons ⟨rfl, hR.refl _⟩ ih

theorem PStep_of_eq {R : gamePlayer → gamePlayer → Prop} (hR : PlayerFrame R)
    {ps ps2 : GoMap gamePlayer} (h : ps2 = ps) : PStep R ps ps2 := by
  rw [h]
  exact PStep_refl hR ps

theorem PStep_trans {R : gamePlayer → gamePlayer → Prop} (hR : PlayerFrame R)
    {a b c : GoMap gamePlayer} (h1 : PStep R a b) (h2 : PStep R b c) : PStep R a c := by
  unfold PStep at h1 h2 ⊢
  induction h1 generalizing c with
  | nil =>
    cases h2
    exact List.Forall₂.nil
  | cons hab _ ih =>
    cases h2 with
    | cons hbc h2t =>
      exact List.Forall₂.cons ⟨hab.1.trans hbc.1, hR.trans _ _ _ hab.2 hbc.2⟩ (ih h2t)

theorem PStep_modify {R : gamePlayer → gamePlayer → Prop} (hR : PlayerFrame R)
    (ps : GoMap gamePlayer) (k : String) (f : gamePlayer → gamePlayer)
    (hf : ∀ p, R p (f p)) : PStep R ps (mapModify ps k f) := by
  unfold PStep
  induction ps with
  | nil => exact List.Forall₂.nil
  | cons e t ih =>
    obtain ⟨a, v⟩ := e
    unfold mapModify
    by_cases h : a = k
    · rw [if_pos h]
      exact List.Forall₂.cons ⟨rfl, hf v⟩ (PStep_refl hR t)
    · rw [if_neg h]
      exact List.Forall₂.cons ⟨rfl, hR.refl _⟩ ih

theorem PStep_get {R : gamePlayer → gamePlayer → Prop} {ps ps2 : GoMap gamePlayer}
    (h : PStep R ps ps2) (k : String) :
    (mapGet? ps k = none ∧ mapGet? ps2 k = none) ∨
      ∃ p p2, mapGet? ps k = some p ∧ mapGet? ps2 k = some p2 ∧ R p p2 := by
  unfold PStep at h
  induction h with
  | nil => exact Or.inl ⟨rfl, rfl⟩
  | @cons e e2 t t2 hab _ ih =>
    obtain ⟨a, v⟩ := e
    obtain ⟨a2, v2⟩ := e2
    have ha : a = a2 := hab.1
    subst ha
    unfold mapGet?
    by_cases hk : a = k
    · rw [if_pos hk, if_pos hk]
      exact Or.inr ⟨v, v2, rfl, rfl, hab.2⟩
    · rw [if_neg hk, if_neg hk]
      exact ih

theorem PStep_kept {R : gamePlayer → gamePlayer → Prop} {g g2 : gameSession}
    (h : PStep R g.Players g2.Players) : KeptOrRemoved R g g2 := by
  intro k p hp
  rcases PStep_get h k with ⟨h1, _⟩ | ⟨q, q2, h1, h2, h3⟩
  · rw [hp] at h1
    exact Option.noConfusion h1
  · rw [hp] at h1
    exact Or.inr ⟨q2, h2, (Option.some.inj h1) ▸ h3⟩

theorem PStep_foldl {R : gamePlayer → gamePlayer → Prop} (hR : PlayerFrame R) {α : Type}
    (f : gameSession → α → gameSession)
    (hf : ∀ s a, PStep R s.Players (f s a).Players) (l : List α) (g : gameSession) :
    PStep R g.Players (l.foldl f g).Players := by
  induction l generalizing g with
  | nil => exact PStep_refl hR _
  | cons a t ih =>
    rw [List.foldl_cons]
    exact PStep_trans hR (hf g a) (ih _)

theorem PStep_foldl_from {R : gamePlayer → gamePlayer → Prop} (hR : PlayerFrame R) {α : Type}
    (f : gameSession → α → gameSession)
    (hf : ∀ s a, PStep R s.Players (f s a).Players) (l : List α) (g : gameSession)
    (ps : GoMap gamePlayer) (h : PStep R ps g.Players) :
    PStep R ps (l.foldl f g).Players :=
  PStep_trans hR h (PStep_foldl hR f hf l g)

theorem PlayerFrame_specials_flag {R : gamePlayer → gamePlayer → Prop} (hR : PlayerFrame R)
    (p : gamePlayer) (s : List specialConditionState) (b : Bool) :
    R p { p with Specials := s, ForcedWastedVoteNext := b } :=
  hR.trans _ _ _ (hR.specials p s) (hR.flag _ b)

theorem PStep_modify_from {R : gamePlayer → gamePlayer → Prop} (hR : PlayerFrame R)
    (ps0 ps : GoMap gamePlayer) (k : String) (f : gamePlayer → gamePlayer)
    (hf : ∀ p, R p (f p)) (h : PStep R ps0 ps) : PStep R ps0 (mapModify ps k f) :=
  PStep_trans hR h (PStep_modify hR ps k f hf)

/-! ### Calls that leave the stored players alone -/

theorem makeEvent_Players (g : gameSession) (k m : String) (now : Int) :
    (makeEvent g k m now).1.Players = g.Players := rfl

theorem schedulePhaseTimer_Players (g : gameSession) (k : String) (s now : Int) :
    (schedulePhaseTimer g k s now).Players = g.Players := by
  unfold schedulePhaseTimer
  split <;> rfl

theorem scheduleRevealTimeoutIfNeeded_Players (g : gameSession) (now : Int) :
    (scheduleRevealTimeoutIfNeeded g now).Players = g.Players := by
  unfold scheduleRevealTimeoutIfNeeded
  repeat' split
  all_goals first | rfl | exact schedulePhaseTimer_Players _ _ _ _

theorem revealNextBunkerCard_Players (g : gameSession) (r : Int) :
    (revealNextBunkerCard g r).Players = g.Players := by
  unfold revealNextBunkerCard
  split <;> rfl

theorem finishGame_Players (g : gameSession) (reason : String) (now : Int) :
    (finishGame g reason now).1.Players = g.Players := by
  unfold finishGame
  split <;> rfl

theorem startNextRoundOrEnd_Players (g : gameSession) (now : Int) :
    (startNextRoundOrEnd g now).1.Players = g.Players := by
  generalize hr : startNextRoundOrEnd g now = res
  unfold startNextRoundOrEnd at hr
  dsimp only at hr
  repeat' split at hr
  all_goals subst hr
  all_goals try dsimp only [makeEvent, clearActiveTimer]
  all_goals first
    | exact finishGame_Players _ _ _
    | (rw [scheduleRevealTimeoutIfNeeded_Players]
       exact revealNextBunkerCard_Players _ _)

theorem enterRevealDiscussion_Players (g : gameSession) (now : Int) :
    (enterRevealDiscussion g now).Players = g.Players := by
  unfold enterRevealDiscussion
  dsimp only
  repeat' split
  all_goals first | rfl | exact schedulePhaseTimer_Players _ _ _ _

theorem enterVoteSpecialWindow_Players (g : gameSession) (now : Int) :
    (enterVoteSpecialWindow g now).1.Players = g.Players := by
  unfold enterVoteSpecialWindow
  dsimp only [makeEvent, clearActiveTimer]
  split
  · exact schedulePhaseTimer_Players _ _ _ _
  · rfl

theorem passTurnFrom_Players (g : gameSession) (id : String) :
    (passTurnFrom g id).Players = g.Players := by
  unfold passTurnFrom
  split <;> rfl

theorem revealWorldThreat_Players (g : gameSession) (a : String) (i : Int) :
    (revealWorldThreat g a i).1.Players = g.Players := by
  unfold revealWorldThreat
  repeat' split
  all_goals rfl

theorem setBunkerOutcome_Players (g : gameSession) (a o : String) (now : Int) :
    (setBunkerOutcome g a o now).1.Players = g.Players := by
  unfold setBunkerOutcome
  repeat' split
  all_goals rfl

theorem ite_fst_eq {β γ : Type} (f : gameSession → γ) (c : Prop) [Decidable c]
    (a b : gameSession × β) (v : γ) (ha : f a.1 = v) (hb : f b.1 = v) :
    f (if c then a else b).1 = v := by
  split
  · exact ha
  · exact hb

theorem vote_Players (g : gameSession) (a t : String) (now : Int) :
    (vote g a t now).1.Players = g.Players := by
  unfold vote
  dsimp only
  repeat' (first
    | with_reducible rfl
    | with_reducible exact enterVoteSpecialWindow_Players _ _
    | with_reducible refine ite_fst_eq (fun s => s.Players) _ _ _ _ ?_ ?_
    | split)

theorem drawSpecialFromPool_Players (g : gameSession) :
    (drawSpecialFromPool g).1.Players = g.Players := by
  unfold drawSpecialFromPool
  split <;> rfl

theorem drawFor_Players (g : gameSession) (p d s : String) :
    (drawFor g p d s).1.Players = g.Players := by
  unfold drawFor
  simp only [nextCardInstanceID]
  split <;> rfl

theorem drawInitialHandForPlayer_Players (g : gameSession) (p : String) :
    (drawInitialHandForPlayer g p).1.Players = g.Players := by
  unfold drawInitialHandForPlayer
  simp only [drawFor_Players]
  refine foldl_keeps _ (fun (acc : gameSession × List handCard) => acc.1.Players) ?_ _ _
  intro s a
  exact drawFor_Players _ _ _ _

theorem assignInitialSpecialsForPlayer_Players (g : gameSession) (p : String)
    (l : GoMap String) : (assignInitialSpecialsForPlayer g p l).1.Players = g.Players := by
  unfold assignInitialSpecialsForPlayer
  simp only [nextSpecialInstanceID]
  repeat' split
  all_goals exact drawSpecialFromPool_Players g



/-! ### Calls that write to stored players -/

theorem resetVotesForRevote_Players (g : gameSession) (now : Int) :
    (resetVotesForRevote g now).Players = g.Players := (resetVotesForRevote_frame g now).1

theorem startTieBreakRevote_Players (g : gameSession) (c : List String) (now : Int) :
    (startTieBreakRevote g c now).Players = g.Players := by
  unfold startTieBreakRevote
  dsimp only [clearActiveTimer]
  exact resetVotesForRevote_Players _ _

theorem startVotingStep_players {R : gamePlayer → gamePlayer → Prop} (hR : PlayerFrame R)
    (now : Int) (g : gameSession) (e : String × gamePlayer) :
    PStep R g.Players (startVotingStep now g e).Players := by
  unfold startVotingStep
  split
  · exact PStep_refl hR _
  · split
    · exact PStep_modify hR _ _ _ (fun p => hR.flag p false)
    · exact PStep_refl hR _

theorem startVoting_players {R : gamePlayer → gamePlayer → Prop} (hR : PlayerFrame R)
    (g : gameSession) (now : Int) {ps : GoMap gamePlayer} (h : PStep R ps g.Players) :
    PStep R ps (startVoting g now).Players := by
  unfold startVoting
  dsimp only
  exact PStep_foldl_from hR _ (startVotingStep_players hR now) _ _ _ h

theorem handleOnOwnerEliminated_players {R : gamePlayer → gamePlayer → Prop}
    (hR : PlayerFrame R) (g : gameSession) (id : String) {ps : GoMap gamePlayer}
    (h : PStep R ps g.Players) : PStep R ps (handleOnOwnerEliminated g id).Players := by
  unfold handleOnOwnerEliminated
  split
  · exact h
  · exact PStep_modify_from hR _ _ _ _ (fun p => hR.specials p _) h

theorem handleSecretEliminationTriggers_players {R : gamePlayer → gamePlayer → Prop}
    (hR : PlayerFrame R) (g : gameSession) (id : String) {ps : GoMap gamePlayer}
    (h : PStep R ps g.Players) :
    PStep R ps (handleSecretEliminationTriggers g id).Players := by
  unfold handleSecretEliminationTriggers
  refine PStep_foldl_from hR _ ?_ _ _ _ h
  intro s a
  refine PStep_modify hR _ _ _ (fun p => ?_)
  unfold applySecretTriggers
  exact PlayerFrame_specials_flag hR p _ _

theorem applyElimination_players {R : gamePlayer → gamePlayer → Prop} (hR : PlayerFrame R)
    (g : gameSession) (id : String) {ps : GoMap gamePlayer} (h : PStep R ps g.Players) :
    PStep R ps (applyElimination g id).Players := by
  unfold applyElimination
  split
  · exact h
  · split
    · exact h
    · dsimp only [removeFromVoting]
      refine handleSecretEliminationTriggers_players hR _ _ ?_
      refine handleOnOwnerEliminated_players hR _ _ ?_
      exact PStep_modify_from hR _ _ _ _ (fun p => hR.exit p _ (by decide)) h

theorem PStep_players_eq {R : gamePlayer → gamePlayer → Prop} {ps a b : GoMap gamePlayer}
    (e : a = b) (h : PStep R ps b) : PStep R ps a := e ▸ h

theorem finalizeVoting_players {R : gamePlayer → gamePlayer → Prop} (hR : PlayerFrame R)
    (g : gameSession) (a : String) (now : Int) {ps : GoMap gamePlayer}
    (h : PStep R ps g.Players) : PStep R ps (finalizeVoting g a now).1.Players := by
  unfold finalizeVoting
  dsimp only [makeEvent, clearActiveTimer]
  repeat' (first
    | with_reducible exact h
    | with_reducible refine PStep_players_eq (finishGame_Players _ _ _) ?_
    | with_reducible refine PStep_players_eq (schedulePhaseTimer_Players _ _ _ _) ?_
    | with_reducible refine PStep_players_eq (startTieBreakRevote_Players _ _ _) ?_
    | with_reducible refine applyElimination_players hR _ _ ?_
    | with_reducible refine ite_of (fun r => PStep R ps (Prod.fst r : gameSession).Players) _ _ _ (fun _ => ?_) (fun _ => ?_)
    | with_reducible refine ite_of (fun s : gameSession => PStep R ps s.Players) _ _ _ (fun _ => ?_) (fun _ => ?_)
    | split)



theorem advanceAfterDiscussion_players {R : gamePlayer → gamePlayer → Prop}
    (hR : PlayerFrame R) (g : gameSession) (now : Int) {ps : GoMap gamePlayer}
    (h : PStep R ps g.Players) : PStep R ps (advanceAfterDiscussion g now).1.Players := by
  generalize hr : advanceAfterDiscussion g now = res
  unfold advanceAfterDiscussion at hr
  dsimp only at hr
  repeat' split at hr
  all_goals subst hr
  all_goals try simp only [makeEvent_Players, scheduleRevealTimeoutIfNeeded_Players,
    startNextRoundOrEnd_Players]
  all_goals first
    | exact h
    | exact startVoting_players hR _ _ (by exact h)

theorem continueRound_players {R : gamePlayer → gamePlayer → Prop} (hR : PlayerFrame R)
    (g : gameSession) (a : String) (now : Int) {ps : GoMap gamePlayer}
    (h : PStep R ps g.Players) : PStep R ps (continueRound g a now).1.Players := by
  unfold continueRound
  dsimp only [makeEvent]
  repeat' (first
    | with_reducible exact h
    | with_reducible refine PStep_players_eq (finishGame_Players _ _ _) ?_
    | with_reducible refine PStep_players_eq (startNextRoundOrEnd_Players _ _) ?_
    | with_reducible refine startVoting_players hR _ _ ?_
    | with_reducible refine advanceAfterDiscussion_players hR _ _ ?_
    | with_reducible refine finalizeVoting_players hR _ _ _ ?_
    | with_reducible refine ite_of (fun r : gameSession × gameActionResult => PStep R ps r.1.Players) _ _ _ (fun _ => ?_) (fun _ => ?_)
    | with_reducible refine ite_of (fun s : gameSession => PStep R ps s.Players) _ _ _ (fun _ => ?_) (fun _ => ?_)
    | split)

theorem kickPlayer_players {R : gamePlayer → gamePlayer → Prop} (hR : PlayerFrame R)
    (g : gameSession) (t : String) (now : Int) {ps : GoMap gamePlayer}
    (h : PStep R ps g.Players) : PStep R ps (kickPlayer g t now).1.Players := by
  generalize hr : kickPlayer g t now = res
  unfold kickPlayer at hr
  cases hp : mapGet? g.Players t with
  | none =>
    rw [hp] at hr
    subst hr
    exact h
  | some player =>
    rw [hp] at hr
    dsimp only at hr
    repeat' split at hr
    all_goals subst hr
    all_goals try simp only [makeEvent_Players, finishGame_Players]
    all_goals first
      | exact h
      | exact applyElimination_players hR _ _ (by exact h)

theorem markLeftBunker_players {R : gamePlayer → gamePlayer → Prop} (hR : PlayerFrame R)
    (g : gameSession) (t : String) (now : Int) {ps : GoMap gamePlayer}
    (h : PStep R ps g.Players) : PStep R ps (markLeftBunker g t now).1.Players := by
  unfold markLeftBunker
  dsimp only [makeEvent, clearActiveTimer, removeFromVoting]
  repeat' (first
    | with_reducible exact h
    | with_reducible refine PStep_players_eq (finishGame_Players _ _ _) ?_
    | with_reducible refine PStep_players_eq (schedulePhaseTimer_Players _ _ _ _) ?_
    | with_reducible refine PStep_players_eq (passTurnFrom_Players _ _) ?_
    | with_reducible refine ite_of (fun r : gameSession × gameActionResult => PStep R ps r.1.Players) _ _ _ (fun _ => ?_) (fun _ => ?_)
    | with_reducible refine ite_of (fun s : gameSession => PStep R ps s.Players) _ _ _ (fun _ => ?_) (fun _ => ?_)
    | with_reducible exact PStep_modify_from hR _ _ _ _ (fun p => hR.exit p _ (by decide)) h
    | split)

theorem revealCard_players {R : gamePlayer → gamePlayer → Prop} (hR : PlayerFrame R)
    (g : gameSession) (a c : String) (now : Int) {ps : GoMap gamePlayer}
    (h : PStep R ps g.Players) : PStep R ps (revealCard g a c now).1.Players := by
  unfold revealCard
  dsimp only [makeEvent]
  repeat' (first
    | with_reducible exact h
    | with_reducible refine PStep_players_eq (enterRevealDiscussion_Players _ _) ?_
    | with_reducible exact PStep_modify_from hR _ _ _ _ (fun p => hR.hand p _) h
    | with_reducible refine ite_of (fun r : gameSession × gameActionResult => PStep R ps r.1.Players) _ _ _ (fun _ => ?_) (fun _ => ?_)
    | with_reducible refine ite_of (fun s : gameSession => PStep R ps s.Players) _ _ _ (fun _ => ?_) (fun _ => ?_)
    | split)

theorem markSpecialUsed_players {R : gamePlayer → gamePlayer → Prop} (hR : PlayerFrame R)
    (g : gameSession) (a : String) (i : Nat) {ps : GoMap gamePlayer}
    (h : PStep R ps g.Players) : PStep R ps (markSpecialUsed g a i).Players :=
  PStep_modify_from hR _ _ _ _ (fun p => hR.specials p _) h

theorem modifyCard_players {R : gamePlayer → gamePlayer → Prop} (hR : PlayerFrame R)
    (g : gameSession) (a : String) (i : Nat) (f : handCard → handCard)
    {ps : GoMap gamePlayer} (h : PStep R ps g.Players) :
    PStep R ps (modifyCard g a i f).Players :=
  PStep_modify_from hR _ _ _ _ (fun p => hR.hand p _) h

theorem redealCopy_players {R : gamePlayer → gamePlayer → Prop} (hR : PlayerFrame R)
    (g : gameSession) (pair : (String × Nat) × (String × Nat)) :
    PStep R g.Players (redealCopy g pair).Players := by
  unfold redealCopy
  split
  · exact PStep_refl hR _
  · exact modifyCard_players hR _ _ _ _ (PStep_refl hR _)



theorem giveSpecials_players {R : gamePlayer → gamePlayer → Prop} (hR : PlayerFrame R)
    (t : String) (n : Nat) (g : gameSession) (m : Bool) {ps : GoMap gamePlayer}
    (h : PStep R ps g.Players) : PStep R ps (giveSpecials t n g m).1.Players := by
  induction n generalizing g m with
  | zero => exact h
  | succ n ih =>
    unfold giveSpecials
    split
    · exact h
    · dsimp only
      refine ih _ _ ?_
      dsimp only [nextSpecialInstanceID]
      refine PStep_modify_from hR _ _ _ _ (fun p => hR.specials p _) ?_
      rw [drawSpecialFromPool_Players]
      exact h

theorem replaceCardEffect_players {R : gamePlayer → gamePlayer → Prop} (hR : PlayerFrame R)
    (g : gameSession) (a : String) (p : gamePlayer) (i : Nat) (d : specialDefinition)
    (payload : GoMap AnyLeaf) (hide : Bool) (now : Int) {ps : GoMap gamePlayer}
    (h : PStep R ps g.Players) :
    PStep R ps (replaceCardEffect g a p i d payload hide now).1.Players := by
  generalize hr : replaceCardEffect g a p i d payload hide now = res
  unfold replaceCardEffect at hr
  dsimp only at hr
  repeat' split at hr
  all_goals subst hr
  all_goals try simp only [makeEvent_Players]
  all_goals first
    | exact h
    | (have e := congrArg (fun r => r.1.Players) ‹drawCardFromDeck _ _ = _›
       dsimp only [drawCardFromDeck] at e
       rw [← e]
       exact h)
    | (have e := congrArg (fun r => r.1.Players) ‹drawCardFromDeck _ _ = _›
       dsimp only [drawCardFromDeck] at e
       refine markSpecialUsed_players hR _ _ _ ?_
       refine modifyCard_players hR _ _ _ _ ?_
       rw [← e]
       exact h)

theorem redealEffect_players {R : gamePlayer → gamePlayer → Prop} (hR : PlayerFrame R)
    (g : gameSession) (a : String) (p : gamePlayer) (i : Nat) (d : specialDefinition)
    (now : Int) {ps : GoMap gamePlayer} (h : PStep R ps g.Players) :
    PStep R ps (redealEffect g a p i d now).1.Players := by
  generalize hr : redealEffect g a p i d now = res
  unfold redealEffect at hr
  dsimp only at hr
  repeat' split at hr
  all_goals subst hr
  all_goals try simp only [makeEvent_Players]
  all_goals first
    | exact h
    | (refine markSpecialUsed_players hR _ _ _ ?_
       exact PStep_foldl_from hR _ (redealCopy_players hR) _ _ _ (by exact h))

theorem stealBaggageEffect_players {R : gamePlayer → gamePlayer → Prop} (hR : PlayerFrame R)
    (g : gameSession) (a : String) (p : gamePlayer) (i : Nat) (d : specialDefinition)
    (payload : GoMap AnyLeaf) (now : Int) {ps : GoMap gamePlayer}
    (h : PStep R ps g.Players) :
    PStep R ps (stealBaggageEffect g a p i d payload now).1.Players := by
  generalize hr : stealBaggageEffect g a p i d payload now = res
  unfold stealBaggageEffect at hr
  dsimp only at hr
  repeat' split at hr
  all_goals subst hr
  all_goals try simp only [makeEvent_Players]
  all_goals first
    | exact h
    | (refine markSpecialUsed_players hR _ _ _ ?_
       refine giveSpecials_players hR _ _ _ _ ?_
       dsimp only [nextCardInstanceID]
       refine PStep_modify_from hR _ _ _ _ (fun p => hR.hand p _) ?_
       exact PStep_modify_from hR _ _ _ _ (fun p => hR.hand p _) (by exact h))
    | (refine giveSpecials_players hR _ _ _ _ ?_
       dsimp only [nextCardInstanceID]
       refine PStep_modify_from hR _ _ _ _ (fun p => hR.hand p _) ?_
       exact PStep_modify_from hR _ _ _ _ (fun p => hR.hand p _) (by exact h))



theorem markVoteWasted_Players (g : gameSession) (v r : String) (now : Int) :
    (markVoteWasted g v r now).Players = g.Players := rfl

theorem applySpecialEffect_players {R : gamePlayer → gamePlayer → Prop} (hR : PlayerFrame R)
    (g : gameSession) (a : String) (p : gamePlayer) (i : Nat) (sp : specialConditionState)
    (payload : GoMap AnyLeaf) (now : Int) {ps : GoMap gamePlayer}
    (h : PStep R ps g.Players) :
    PStep R ps (applySpecialEffect g a p i sp payload now).1.Players := by
  generalize hr : applySpecialEffect g a p i sp payload now = res
  unfold applySpecialEffect at hr
  dsimp only at hr
  split at hr
  · subst hr
    exact h
  · split at hr
    all_goals try (repeat' split at hr)
    all_goals subst hr
    all_goals try simp only [makeEvent_Players, clearActiveTimer, markVoteWasted_Players,
      resetVotesForRevote_Players]
    all_goals first
      | with_reducible exact h
      | with_reducible exact replaceCardEffect_players hR _ _ _ _ _ _ _ _ h
      | with_reducible exact redealEffect_players hR _ _ _ _ _ _ h
      | with_reducible exact stealBaggageEffect_players hR _ _ _ _ _ _ _ h
      | (with_reducible refine markSpecialUsed_players hR _ _ _ ?_
         first
           | with_reducible exact h
           | (with_reducible refine modifyCard_players hR _ _ _ _ ?_
              with_reducible refine modifyCard_players hR _ _ _ _ ?_
              with_reducible exact h)
           | (with_reducible refine PStep_modify_from hR _ _ _ _ (fun p => hR.ban p _) ?_
              with_reducible exact h)
           | (split <;> (try simp only [resetVotesForRevote_Players]) <;> exact h)
           | (simp only [markVoteWasted_Players]
              exact h))

theorem applySpecial_players {R : gamePlayer → gamePlayer → Prop} (hR : PlayerFrame R)
    (g : gameSession) (actorID sid : String) (payload : GoMap AnyLeaf) (now : Int)
    {ps : GoMap gamePlayer} (h : PStep R ps g.Players) :
    PStep R ps (applySpecial g actorID sid payload now).1.Players := by
  generalize hr : applySpecial g actorID sid payload now = res
  unfold applySpecial at hr
  cases hp : mapGet? g.Players actorID with
  | none =>
    rw [hp] at hr
    subst hr
    exact h
  | some player =>
    rw [hp] at hr
    dsimp only at hr
    by_cases h1 : player.Status ≠ playerAlive
    · rw [if_pos h1] at hr
      subst hr
      exact h
    rw [if_neg h1] at hr
    by_cases h2 : g.Phase = scenarioPhaseEnded
    · rw [if_pos h2] at hr
      subst hr
      exact h
    rw [if_neg h2] at hr
    by_cases h3 : sid = ""
    · rw [if_pos h3] at hr
      subst hr
      exact h
    rw [if_neg h3, get?_findIdx] at hr
    cases hs : player.Specials.find? (fun sp => sp.InstanceID = sid) with
    | none =>
      rw [hs] at hr
      subst hr
      exact h
    | some special =>
      rw [hs] at hr
      dsimp only at hr
      by_cases h4 : (!special.Definition.Implemented) = true
      · rw [if_pos h4] at hr
        subst hr
        exact h
      rw [if_neg h4] at hr
      by_cases h5 : special.Used = true
      · rw [if_pos h5] at hr
        subst hr
        exact h
      rw [if_neg h5] at hr
      by_cases h6 : (!g.IsDev) = true ∧ g.Settings.SpecialUsage = "only_during_voting" ∧
          g.Phase ≠ scenarioPhaseVoting
      · rw [if_pos h6] at hr
        subst hr
        exact h
      rw [if_neg h6] at hr
      by_cases h7 : special.Definition.Trigger = "onOwnerEliminated" ∨
          special.Definition.Trigger = "secret_onEliminate"
      · rw [if_pos h7] at hr
        subst hr
        exact h
      rw [if_neg h7] at hr
      by_cases h8 : special.Definition.ChoiceKind ≠ "" ∧ special.Definition.ChoiceKind ≠ "none" ∧
          mapLen payload = 0 ∧
          (!decide (special.Definition.ChoiceKind = "category" ∧
            asString (mapGet? special.Definition.Effect.Params "category") ≠ "")) = true
      · rw [if_pos h8] at hr
        subst hr
        exact h
      rw [if_neg h8] at hr
      cases ht : resolveSpecialTarget g actorID special.Definition.TargetScope
          (mapEntries payload) with
      | error e =>
        rw [ht] at hr
        subst hr
        exact h
      | ok ep =>
        rw [ht] at hr
        dsimp only at hr
        by_cases h9 : special.Definition.ChoiceKind = "player" ∧
            (!special.Definition.AllowSelf) = true ∧
            trimSpace (asString (mapGet? ep "targetPlayerId")) ≠ "" ∧
            trimSpace (asString (mapGet? ep "targetPlayerId")) = actorID
        · rw [if_pos h9] at hr
          subst hr
          exact h
        rw [if_neg h9] at hr
        by_cases h10 : validateSpecialRequires g special ep ≠ ""
        · rw [if_pos h10] at hr
          subst hr
          exact h
        rw [if_neg h10] at hr
        repeat' split at hr
        all_goals subst hr
        all_goals try simp only [makeEvent_Players]
        all_goals first
          | exact applySpecialEffect_players hR _ _ _ _ _ _ _ (by exact h)
          | exact PStep_modify_from hR _ _ _ _ (fun p => hR.specials p _)
              (applySpecialEffect_players hR _ _ _ _ _ _ _ (by exact h))



/-! ## Fresh ids -/

theorem digitChar_value (d : Nat) (h : d < 10) : (Nat.digitChar d).toNat - 48 = d := by
  interval_cases d <;> rfl

theorem digits_foldl (l : List Char) (a : Nat) :
    l.foldl (fun x c => 10 * x + (c.toNat - 48)) a =
      a * 10 ^ l.length + l.foldl (fun x c => 10 * x + (c.toNat - 48)) 0 := by
  induction l generalizing a with
  | nil => simp
  | cons c t ih =>
    rw [List.foldl_cons, List.foldl_cons, ih, ih (10 * 0 + (c.toNat - 48))]
    simp only [List.length_cons, pow_succ]
    ring

theorem toDigitsCore_value (fuel n : Nat) (ds : List Char) (h : n < fuel) :
    (Nat.toDigitsCore 10 fuel n ds).foldl (fun x c => 10 * x + (c.toNat - 48)) 0 =
      n * 10 ^ ds.length + ds.foldl (fun x c => 10 * x + (c.toNat - 48)) 0 := by
  induction fuel generalizing n ds with
  | zero => omega
  | succ f ih =>
    unfold Nat.toDigitsCore
    dsimp only
    split
    · rename_i h0
      rw [List.foldl_cons, digits_foldl, digitChar_value _ (Nat.mod_lt _ (by decide))]
      have : n % 10 = n := by omega
      rw [this]
      ring
    · rename_i h0
      rw [ih (n / 10) _ (by omega), List.foldl_cons, digits_foldl _ (10 * 0 + _),
        digitChar_value _ (Nat.mod_lt _ (by decide))]
      simp only [List.length_cons, pow_succ]
      have hq := Nat.div_add_mod n 10
      generalize n / 10 = q at hq ⊢
      generalize n % 10 = r at hq ⊢
      rw [← hq]
      ring

theorem natRepr_injective (m n : Nat) (h : Nat.repr m = Nat.repr n) : m = n := by
  unfold Nat.repr at h
  have hd : Nat.toDigits 10 m = Nat.toDigits 10 n := by
    have := congrArg String.data h
    simpa using this
  have hm := toDigitsCore_value (m + 1) m [] (by omega)
  have hn := toDigitsCore_value (n + 1) n [] (by omega)
  unfold Nat.toDigits at hd
  rw [hd] at hm
  simp at hm hn
  omega

theorem toDigitsCore_chars (fuel n : Nat) (ds : List Char) (c : Char)
    (h : c ∈ Nat.toDigitsCore 10 fuel n ds) : c ∈ ds ∨ ∃ d, d < 10 ∧ c = Nat.digitChar d := by
  induction fuel generalizing n ds with
  | zero =>
    unfold Nat.toDigitsCore at h
    exact Or.inl h
  | succ f ih =>
    unfold Nat.toDigitsCore at h
    dsimp only at h
    split at h
    · rcases List.mem_cons.mp h with h | h
      · exact Or.inr ⟨n % 10, Nat.mod_lt _ (by decide), h⟩
      · exact Or.inl h
    · rcases ih _ _ h with h | h
      · rcases List.mem_cons.mp h with h | h
        · exact Or.inr ⟨n % 10, Nat.mod_lt _ (by decide), h⟩
        · exact Or.inl h
      · exact Or.inr h

theorem natRepr_no_minus (m : Nat) (s : String) : Nat.repr m ≠ "-" ++ s := by
  intro h
  have hd := congrArg String.data h
  unfold Nat.repr at hd
  simp only [String.data_append] at hd
  have hmem : '-' ∈ Nat.toDigits 10 m := by
    have : (Nat.toDigits 10 m).asString.data = Nat.toDigits 10 m := rfl
    rw [← this, hd]
    exact List.mem_cons_self _ _
  unfold Nat.toDigits at hmem
  rcases toDigitsCore_chars _ _ _ _ hmem with h0 | ⟨d, hd, hc⟩
  · exact absurd h0 (List.not_mem_nil _)
  · interval_cases d <;> exact absurd hc (by decide)

theorem append_left_cancel_string (a b c : String) (h : a ++ b = a ++ c) : b = c := by
  have hd := congrArg String.data h
  simp only [String.data_append] at hd
  exact String.ext (List.append_cancel_left hd)

theorem fmtInt_injective (a b : Int) (h : fmtInt a = fmtInt b) : a = b := by
  have e1 : ∀ m : Nat, fmtInt (Int.ofNat m) = Nat.repr m := fun _ => rfl
  have e2 : ∀ m : Nat, fmtInt (Int.negSucc m) = "-" ++ Nat.repr (m + 1) := fun _ => rfl
  cases a with
  | ofNat m =>
    cases b with
    | ofNat n =>
      rw [e1, e1] at h
      rw [natRepr_injective m n h]
    | negSucc n =>
      rw [e1, e2] at h
      exact absurd h (natRepr_no_minus _ _)
  | negSucc m =>
    cases b with
    | ofNat n =>
      rw [e1, e2] at h
      exact absurd h.symm (natRepr_no_minus _ _)
    | negSucc n =>
      rw [e2, e2] at h
      have := natRepr_injective _ _ (append_left_cancel_string _ _ _ h)
      have hmn : m = n := by omega
      rw [hmn]

theorem devPlayerID_injective (g : gameSession) (a b : Int)
    (h : devPlayerID g a = devPlayerID g b) : a = b := by
  unfold devPlayerID at h
  exact fmtInt_injective a b (append_left_cancel_string _ _ _ h)

theorem mapHas_mem_keys {V : Type} (m : GoMap V) (k : String) (h : mapHas m k = true) :
    k ∈ m.map Prod.fst := by
  unfold mapHas at h
  cases hg : mapGet? m k with
  | none =>
    rw [hg] at h
    simp at h
  | some v => exact List.mem_map_of_mem Prod.fst (mapGet?_mem m k v hg)

theorem devFreshCounter_cases (g : gameSession) (fuel : Nat) (c : Int) :
    mapHas g.Players (devPlayerID g (devFreshCounter g fuel c)) = false ∨
      ∀ j : Nat, j < fuel → mapHas g.Players (devPlayerID g (c + j)) = true := by
  induction fuel generalizing c with
  | zero => exact Or.inr (fun j hj => absurd hj (Nat.not_lt_zero _))
  | succ f ih =>
    unfold devFreshCounter
    split
    · rename_i hhas
      rcases ih (c + 1) with h | h
      · exact Or.inl h
      · refine Or.inr (fun j hj => ?_)
        cases j with
        | zero => simpa using hhas
        | succ i =>
          have := h i (by omega)
          rw [show c + ((i + 1 : Nat) : Int) = c + 1 + (i : Int) by push_cast; ring]
          exact this
    · rename_i hhas
      exact Or.inl (by simpa using hhas)

theorem devFreshCounter_free (g : gameSession) (c : Int) :
    mapHas g.Players (devPlayerID g (devFreshCounter g (g.Players.length + 1) c)) = false := by
  rcases devFreshCounter_cases g (g.Players.length + 1) c with h | h
  · exact h
  · exfalso
    have hnodup : ((List.range (g.Players.length + 1)).map
        (fun j : Nat => devPlayerID g (c + j))).Nodup := by
      refine List.Nodup.map ?_ (List.nodup_range _)
      intro i j hij
      have := devPlayerID_injective g _ _ hij
      omega
    have hsub : (List.range (g.Players.length + 1)).map
        (fun j : Nat => devPlayerID g (c + j)) ⊆ g.Players.map Prod.fst := by
      intro x hx
      rcases List.mem_map.mp hx with ⟨j, hj, rfl⟩
      exact mapHas_mem_keys _ _ (h j (List.mem_range.mp hj))
    have hlen := (List.subperm_of_subset hnodup hsub).length_le
    simp at hlen



theorem handleRevealPhaseTimeout_players {R : gamePlayer → gamePlayer → Prop}
    (hR : PlayerFrame R) (g : gameSession) (now : Int) {ps : GoMap gamePlayer}
    (h : PStep R ps g.Players) : PStep R ps (handleRevealPhaseTimeout g now).1.Players := by
  unfold handleRevealPhaseTimeout
  dsimp only [makeEvent]
  repeat' (first
    | with_reducible exact h
    | with_reducible refine PStep_players_eq (scheduleRevealTimeoutIfNeeded_Players _ _) ?_
    | with_reducible refine PStep_players_eq (startNextRoundOrEnd_Players _ _) ?_
    | with_reducible refine PStep_players_eq (enterRevealDiscussion_Players _ _) ?_
    | with_reducible refine startVoting_players hR _ _ ?_
    | with_reducible refine modifyCard_players hR _ _ _ _ ?_
    | with_reducible refine ite_of (fun r => PStep R ps (Prod.fst r : gameSession).Players) _ _ _ (fun _ => ?_) (fun _ => ?_)
    | with_reducible refine ite_of (fun s : gameSession => PStep R ps s.Players) _ _ _ (fun _ => ?_) (fun _ => ?_)
    | split)

theorem handleTimerExpired_players {R : gamePlayer → gamePlayer → Prop}
    (hR : PlayerFrame R) (g : gameSession) (now : Int) {ps : GoMap gamePlayer}
    (h : PStep R ps g.Players) : PStep R ps (handleTimerExpired g now).1.Players := by
  unfold handleTimerExpired
  dsimp only [makeEvent, clearActiveTimer]
  repeat' (first
    | with_reducible exact h
    | with_reducible refine PStep_players_eq (finishGame_Players _ _ _) ?_
    | with_reducible refine PStep_players_eq (startNextRoundOrEnd_Players _ _) ?_
    | with_reducible refine handleRevealPhaseTimeout_players hR _ _ ?_
    | with_reducible refine advanceAfterDiscussion_players hR _ _ ?_
    | with_reducible refine finalizeVoting_players hR _ _ _ ?_
    | with_reducible refine startVoting_players hR _ _ ?_
    | with_reducible refine ite_of (fun r => PStep R ps (Prod.fst r : gameSession).Players) _ _ _ (fun _ => ?_) (fun _ => ?_)
    | with_reducible refine ite_of (fun s : gameSession => PStep R ps s.Players) _ _ _ (fun _ => ?_) (fun _ => ?_)
    | split)

theorem KeptOrRemoved_trans_step {R : gamePlayer → gamePlayer → Prop} (hR : PlayerFrame R)
    {g g2 g3 : gameSession} (h1 : KeptOrRemoved R g g2) (h2 : PStep R g2.Players g3.Players) :
    KeptOrRemoved R g g3 := by
  intro k p hp
  rcases h1 k p hp with h | ⟨p2, hp2, hr⟩
  · rcases PStep_get h2 k with ⟨_, hb⟩ | ⟨q, q2, ha, _, _⟩
    · exact Or.inl hb
    · rw [h] at ha
      exact Option.noConfusion ha
  · rcases PStep_get h2 k with ⟨ha, _⟩ | ⟨q, q2, ha, hb, hq⟩
    · rw [hp2] at ha
      exact Option.noConfusion ha
    · rw [hp2] at ha
      have := Option.some.inj ha
      subst this
      exact Or.inr ⟨q2, hb, hR.trans _ _ _ hr hq⟩

theorem KeptOrRemoved_of_mapSet {R : gamePlayer → gamePlayer → Prop} (hR : PlayerFrame R)
    {g g2 : gameSession} (id : String) (p : gamePlayer)
    (h : g2.Players = mapSet g.Players id p) (hfree : mapHas g.Players id = false) :
    KeptOrRemoved R g g2 := by
  intro k q hq
  rw [h, mapGet?_mapSet]
  by_cases hk : id = k
  · subst hk
    unfold mapHas at hfree
    rw [hq] at hfree
    simp at hfree
  · rw [if_neg hk]
    exact Or.inr ⟨q, hq, hR.refl q⟩

theorem KeptOrRemoved_of_mapDel {R : gamePlayer → gamePlayer → Prop} (hR : PlayerFrame R)
    {g g2 : gameSession} (id : String) (h : g2.Players = mapDel g.Players id) :
    KeptOrRemoved R g g2 := by
  intro k q hq
  rw [h, mapGet?_mapDel]
  by_cases hk : id = k
  · rw [if_pos hk]
    exact Or.inl rfl
  · rw [if_neg hk]
    exact Or.inr ⟨q, hq, hR.refl q⟩

theorem devAddPlayer_Players (g : gameSession) (name : String) (now : Int)
    (hdev : g.IsDev = true) :
    ∃ p, (devAddPlayer g name now).1.Players =
      mapSet g.Players
        (devPlayerID g (devFreshCounter g (g.Players.length + 1) (g.DevBotCounter + 1))) p := by
  generalize hr : devAddPlayer g name now = res
  unfold devAddPlayer at hr
  rw [if_neg (by rw [hdev]; decide)] at hr
  dsimp only at hr
  repeat' split at hr
  all_goals subst hr
  all_goals simp only [makeEvent_Players, assignInitialSpecialsForPlayer_Players,
    drawInitialHandForPlayer_Players]
  all_goals exact ⟨_, rfl⟩

theorem devAddPlayer_kept {R : gamePlayer → gamePlayer → Prop} (hR : PlayerFrame R)
    (g : gameSession) (name : String) (now : Int) :
    KeptOrRemoved R g (devAddPlayer g name now).1 := by
  by_cases hdev : g.IsDev = true
  · obtain ⟨p, hp⟩ := devAddPlayer_Players g name now hdev
    exact KeptOrRemoved_of_mapSet hR _ p hp (devFreshCounter_free g _)
  · have : (devAddPlayer g name now).1 = g := by
      unfold devAddPlayer
      rw [if_pos (by simpa using hdev)]
    rw [this]
    exact PStep_kept (PStep_refl hR _)

theorem devRemovePlayer_kept {R : gamePlayer → gamePlayer → Prop} (hR : PlayerFrame R)
    (g : gameSession) (t : String) (now : Int) :
    KeptOrRemoved R g (devRemovePlayer g t now).1 := by
  generalize hr : devRemovePlayer g t now = res
  unfold devRemovePlayer at hr
  dsimp only at hr
  repeat' split at hr
  all_goals subst hr
  all_goals first
    | exact PStep_kept (PStep_refl hR _)
    | (refine KeptOrRemoved_of_mapDel hR ?_ ?_
       rotate_left
       · simp only [makeEvent_Players, finishGame_Players, passTurnFrom_Players,
           removeFromVoting]
         exact rfl)



theorem handleAction_kept {R : gamePlayer → gamePlayer → Prop} (hR : PlayerFrame R)
    (g : gameSession) (actorID actionType : String) (payload : GoMap AnyVal) (now : Int) :
    KeptOrRemoved R g (handleAction g actorID actionType payload now).1 := by
  unfold handleAction
  split
  · exact PStep_kept (PStep_refl hR _)
  · split
    · exact PStep_kept (revealCard_players hR _ _ _ _ (PStep_refl hR _))
    · exact PStep_kept (continueRound_players hR _ _ _ (PStep_refl hR _))
    · exact PStep_kept (PStep_of_eq hR (vote_Players _ _ _ _))
    · exact PStep_kept (finalizeVoting_players hR _ _ _ (PStep_refl hR _))
    · exact PStep_kept (applySpecial_players hR _ _ _ _ _ (PStep_refl hR _))
    · exact PStep_kept (PStep_of_eq hR (revealWorldThreat_Players _ _ _))
    · exact PStep_kept (PStep_of_eq hR (setBunkerOutcome_Players _ _ _ _))
    · exact PStep_kept (PStep_of_eq hR (startNextRoundOrEnd_Players _ _))
    · exact PStep_kept (kickPlayer_players hR _ _ _ (PStep_refl hR _))
    · exact devAddPlayer_kept hR _ _ _
    · exact devRemovePlayer_kept hR _ _ _
    · exact PStep_kept (markLeftBunker_players hR _ _ _ (PStep_refl hR _))
    · exact PStep_kept (PStep_refl hR _)

theorem autoRevealBots_players {R : gamePlayer → gamePlayer → Prop} (hR : PlayerFrame R)
    (g : gameSession) (now : Int) {ps : GoMap gamePlayer} (h : PStep R ps g.Players) :
    PStep R ps (autoRevealBots g now).1.Players := by
  generalize hr : autoRevealBots g now = res
  unfold autoRevealBots at hr
  dsimp only at hr
  repeat' split at hr
  all_goals subst hr
  all_goals first
    | with_reducible exact h
    | exact revealCard_players hR _ _ _ _ h

theorem autoVoteStep_players {R : gamePlayer → gamePlayer → Prop} (hR : PlayerFrame R)
    (now : Int) (acc : gameSession × Bool) (v : String) :
    PStep R acc.1.Players (autoVoteStep now acc v).1.Players := by
  generalize hr : autoVoteStep now acc v = res
  unfold autoVoteStep at hr
  dsimp only at hr
  repeat' split at hr
  all_goals subst hr
  all_goals exact PStep_refl hR _

theorem autoVoteBots_players {R : gamePlayer → gamePlayer → Prop} (hR : PlayerFrame R)
    (g : gameSession) (now : Int) {ps : GoMap gamePlayer} (h : PStep R ps g.Players) :
    PStep R ps (autoVoteBots g now).1.Players := by
  have hfold : ∀ (l : List String) (acc : gameSession × Bool),
      PStep R ps acc.1.Players → PStep R ps (l.foldl (autoVoteStep now) acc).1.Players := by
    intro l
    induction l with
    | nil => exact fun acc hacc => hacc
    | cons a t ih =>
      intro acc hacc
      rw [List.foldl_cons]
      exact ih _ (PStep_trans hR hacc (autoVoteStep_players hR now acc a))
  generalize hr : autoVoteBots g now = res
  unfold autoVoteBots at hr
  dsimp only at hr
  repeat' split at hr
  all_goals subst hr
  all_goals try simp only [enterVoteSpecialWindow_Players]
  all_goals first
    | with_reducible exact h
    | (with_reducible refine hfold _ _ ?_
       exact h)

theorem postProcessLoop_players {R : gamePlayer → gamePlayer → Prop} (hR : PlayerFrame R)
    (now : Int) (n : Nat) (st : postState) {ps : GoMap gamePlayer}
    (h : PStep R ps st.session.Players) :
    PStep R ps (postProcessLoop now n st).session.Players := by
  induction n generalizing st with
  | zero => exact h
  | succ k ih =>
    unfold postProcessLoop
    dsimp only
    repeat' (first
      | with_reducible exact h
      | with_reducible refine ih _ ?_
      | with_reducible refine autoRevealBots_players hR _ _ ?_
      | with_reducible refine autoVoteBots_players hR _ _ ?_
      | with_reducible refine ite_of (fun s : postState => PStep R ps s.session.Players) _ _ _ (fun _ => ?_) (fun _ => ?_)
      | with_reducible refine ite_of (fun r => PStep R ps (Prod.fst r : postState).session.Players) _ _ _ (fun _ => ?_) (fun _ => ?_)
      | split)

theorem postProcess_players {R : gamePlayer → gamePlayer → Prop} (hR : PlayerFrame R)
    (g : gameSession) (result : gameActionResult) (now : Int) {ps : GoMap gamePlayer}
    (h : PStep R ps g.Players) : PStep R ps (postProcess g result now).1.Players := by
  generalize hr : postProcess g result now = res
  unfold postProcess at hr
  dsimp only at hr
  repeat' split at hr
  all_goals subst hr
  all_goals try simp only [finishGame_Players]
  all_goals first
    | with_reducible exact h
    | exact postProcessLoop_players hR _ _ _ h

theorem removeFromVotingDev_Players (g : gameSession) (t : String) (now : Int) :
    (removeFromVotingDev g t now).Players = g.Players := by
  unfold removeFromVotingDev
  dsimp only
  split
  · exact enterVoteSpecialWindow_Players _ _
  · rfl

theorem devMarkLeftBunker_players {R : gamePlayer → gamePlayer → Prop} (hR : PlayerFrame R)
    (g : gameSession) (t : String) (now : Int) {ps : GoMap gamePlayer}
    (h : PStep R ps g.Players) : PStep R ps (devMarkLeftBunker g t now).1.Players := by
  generalize hr : devMarkLeftBunker g t now = res
  unfold devMarkLeftBunker at hr
  dsimp only at hr
  repeat' split at hr
  all_goals subst hr
  all_goals try simp only [passTurnFrom_Players, removeFromVotingDev_Players]
  all_goals first
    | with_reducible exact h
    | exact PStep_modify_from hR _ _ _ _ (fun p => hR.exit p _ (by decide)) h

theorem devSkipRound_players {R : gamePlayer → gamePlayer → Prop} (hR : PlayerFrame R)
    (g : gameSession) (a : String) (now : Int) {ps : GoMap gamePlayer}
    (h : PStep R ps g.Players) : PStep R ps (devSkipRound g a now).1.Players := by
  generalize hr : devSkipRound g a now = res
  unfold devSkipRound at hr
  dsimp only at hr
  repeat' split at hr
  all_goals subst hr
  all_goals first
    | with_reducible exact h
    | (with_reducible refine advanceAfterDiscussion_players hR _ _ ?_
       exact h)

theorem devHandleAction_kept {R : gamePlayer → gamePlayer → Prop} (hR : PlayerFrame R)
    (g : gameSession) (actorID actionType : String) (payload : GoMap AnyVal) (now : Int) :
    KeptOrRemoved R g (devHandleAction g actorID actionType payload now).1 := by
  have hcore : KeptOrRemoved R g
      (postProcess (handleAction g actorID actionType payload now).1
        (handleAction g actorID actionType payload now).2 now).1 :=
    KeptOrRemoved_trans_step hR (handleAction_kept hR g actorID actionType payload now)
      (postProcess_players hR _ _ _ (PStep_refl hR _))
  unfold devHandleAction
  dsimp only
  repeat' (first
    | with_reducible exact hcore
    | with_reducible exact PStep_kept (PStep_refl hR _)
    | with_reducible exact PStep_kept (postProcess_players hR _ _ _ (devSkipRound_players hR _ _ _ (PStep_refl hR _)))
    | with_reducible exact PStep_kept (postProcess_players hR _ _ _ (devMarkLeftBunker_players hR _ _ _ (PStep_refl hR _)))
    | with_reducible refine ite_of (fun r => KeptOrRemoved R g (Prod.fst r : gameSession)) _ _ _ (fun _ => ?_) (fun _ => ?_)
    | split)

theorem devHandleTimerExpired_kept {R : gamePlayer → gamePlayer → Prop} (hR : PlayerFrame R)
    (g : gameSession) (now : Int) :
    KeptOrRemoved R g (devHandleTimerExpired g now).1 :=
  PStep_kept (postProcess_players hR _ _ _ (handleTimerExpired_players hR _ _ (PStep_refl hR _)))



/-! ## Bans and statuses over time -/

theorem banKept_frame (voterID : String) : PlayerFrame (BanKept voterID) where
  refl := fun _ h => h
  trans := fun _ _ _ h1 h2 h => h2 (h1 h)
  hand := fun _ _ h => h
  specials := fun _ _ h => h
  flag := fun _ _ h => h
  exit := fun _ _ _ h => h
  ban := by
    intro p k h
    unfold mapGetB at h ⊢
    dsimp only
    rw [mapGet?_mapSet]
    split
    · rfl
    · exact h

theorem staysOut_frame : PlayerFrame StaysOut where
  refl := fun _ h => h
  trans := fun _ _ _ h1 h2 h => h2 (h1 h)
  hand := fun _ _ h => h
  specials := fun _ _ h => h
  flag := fun _ _ h => h
  exit := fun _ _ hs _ => hs
  ban := fun _ _ h => h

theorem applySpecial_success_players {R : gamePlayer → gamePlayer → Prop}
    (hR : PlayerFrame R) (g : gameSession) (actorID sid : String)
    (payload : GoMap AnyLeaf) (now : Int) :
    (applySpecial g actorID sid payload now).2.Error ≠ "" ∨
      ∃ player sp ep, mapGet? g.Players actorID = some player ∧
        player.Specials.find? (fun s => s.InstanceID = sid) = some sp ∧
        resolveSpecialTarget g actorID sp.Definition.TargetScope (mapEntries payload) = .ok ep ∧
        (applySpecialEffect g actorID player
          (player.Specials.findIdx (fun s => s.InstanceID = sid)) sp ep now).2.1.Error = "" ∧
        PStep R (applySpecialEffect g actorID player
            (player.Specials.findIdx (fun s => s.InstanceID = sid)) sp ep now).1.Players
          (applySpecial g actorID sid payload now).1.Players := by
  generalize hr : applySpecial g actorID sid payload now = res
  unfold applySpecial at hr
  cases hp : mapGet? g.Players actorID with
  | none =>
    rw [hp] at hr
    subst hr
    exact Or.inl (err_pair g _ (by decide)).1
  | some player =>
    rw [hp] at hr
    dsimp only at hr
    by_cases h1 : player.Status ≠ playerAlive
    · rw [if_pos h1] at hr
      subst hr
      exact Or.inl (err_pair g _ (by decide)).1
    rw [if_neg h1] at hr
    by_cases h2 : g.Phase = scenarioPhaseEnded
    · rw [if_pos h2] at hr
      subst hr
      exact Or.inl (err_pair g _ (by decide)).1
    rw [if_neg h2] at hr
    by_cases h3 : sid = ""
    · rw [if_pos h3] at hr
      subst hr
      exact Or.inl (err_pair g _ (by decide)).1
    rw [if_neg h3, get?_findIdx] at hr
    cases hs : player.Specials.find? (fun sp => sp.InstanceID = sid) with
    | none =>
      rw [hs] at hr
      subst hr
      exact Or.inl (err_pair g _ (by decide)).1
    | some special =>
      rw [hs] at hr
      dsimp only at hr
      by_cases h4 : (!special.Definition.Implemented) = true
      · rw [if_pos h4] at hr
        subst hr
        exact Or.inl (err_pair g _ (by decide)).1
      rw [if_neg h4] at hr
      by_cases h5 : special.Used = true
      · rw [if_pos h5] at hr
        subst hr
        exact Or.inl (err_pair g _ (by decide)).1
      rw [if_neg h5] at hr
      by_cases h6 : (!g.IsDev) = true ∧ g.Settings.SpecialUsage = "only_during_voting" ∧
          g.Phase ≠ scenarioPhaseVoting
      · rw [if_pos h6] at hr
        subst hr
        exact Or.inl (err_pair g _ (by decide)).1
      rw [if_neg h6] at hr
      by_cases h7 : special.Definition.Trigger = "onOwnerEliminated" ∨
          special.Definition.Trigger = "secret_onEliminate"
      · rw [if_pos h7] at hr
        subst hr
        exact Or.inl (err_pair g _ (by decide)).1
      rw [if_neg h7] at hr
      by_cases h8 : special.Definition.ChoiceKind ≠ "" ∧ special.Definition.ChoiceKind ≠ "none" ∧
          mapLen payload = 0 ∧
          (!decide (special.Definition.ChoiceKind = "category" ∧
            asString (mapGet? special.Definition.Effect.Params "category") ≠ "")) = true
      · rw [if_pos h8] at hr
        subst hr
        exact Or.inl (err_pair g _ (by decide)).1
      rw [if_neg h8] at hr
      cases ht : resolveSpecialTarget g actorID special.Definition.TargetScope
          (mapEntries payload) with
      | error e =>
        rw [ht] at hr
        subst hr
        exact Or.inl (err_pair g _ (resolveSpecialTarget_error _ _ _ _ _ ht)).1
      | ok ep =>
        rw [ht] at hr
        dsimp only at hr
        by_cases h9 : special.Definition.ChoiceKind = "player" ∧
            (!special.Definition.AllowSelf) = true ∧
            trimSpace (asString (mapGet? ep "targetPlayerId")) ≠ "" ∧
            trimSpace (asString (mapGet? ep "targetPlayerId")) = actorID
        · rw [if_pos h9] at hr
          subst hr
          exact Or.inl (err_pair g _ (by decide)).1
        rw [if_neg h9] at hr
        by_cases h10 : validateSpecialRequires g special ep ≠ ""
        · rw [if_pos h10] at hr
          subst hr
          exact Or.inl (err_pair g _ h10).1
        rw [if_neg h10] at hr
        by_cases herr : (applySpecialEffect g actorID player
            (player.Specials.findIdx (fun sp => sp.InstanceID = sid)) special ep now).2.1.Error ≠ ""
        · rw [if_pos herr] at hr
          subst hr
          exact Or.inl herr
        rw [if_neg herr] at hr
        right
        refine ⟨player, special, ep, rfl, hs, ht, not_not.mp herr, ?_⟩
        by_cases h11 : (!(applySpecialEffect g actorID player
            (player.Specials.findIdx (fun sp => sp.InstanceID = sid)) special ep now).2.1.StateChanged) = true
        · rw [if_pos h11] at hr
          subst hr
          exact PStep_refl hR _
        rw [if_neg h11] at hr
        by_cases h12 : (!special.RevealedPublic) = true
        · rw [if_pos h12] at hr
          by_cases hb : (applySpecialEffect g actorID player
              (player.Specials.findIdx (fun sp => sp.InstanceID = sid)) special ep now).2.2 = true
          · rw [if_pos hb] at hr
            subst hr
            exact PStep_modify hR _ _ _ (fun p => hR.specials p _)
          · rw [if_neg hb] at hr
            subst hr
            exact PStep_refl hR _
        · rw [if_neg h12] at hr
          subst hr
          exact PStep_refl hR _

theorem applySpecialEffect_ban (g : gameSession) (a : String) (p : gamePlayer)
    (i : Nat) (sp : specialConditionState) (payload : GoMap AnyLeaf) (now : Int)
    (hp : mapGet? g.Players a = some p)
    (ht : sp.Definition.Effect.EffectType = "banVoteAgainst")
    (hok : (applySpecialEffect g a p i sp payload now).2.1.Error = "") :
    targetBans (applySpecialEffect g a p i sp payload now).1 a
      (trimSpace (asString (mapGet? payload "targetPlayerId"))) = true := by
  generalize hr : applySpecialEffect g a p i sp payload now = r at hok ⊢
  unfold applySpecialEffect at hr
  dsimp only at hr
  rw [ht] at hr
  split at hr
  · subst hr
    simp [errorResult] at hok
  · simp only [] at hr
    split at hr
    · subst hr
      simp [errorResult] at hok
    · split at hr
      · subst hr
        simp [errorResult] at hok
      · split at hr
        · subst hr
          simp [errorResult] at hok
        · subst hr
          unfold targetBans
          dsimp only [makeEvent, markSpecialUsed]
          rw [mapGet?_mapModify, if_pos rfl, mapGet?_mapModify, if_pos rfl, hp]
          dsimp only [Option.map]
          unfold mapGetB
          rw [mapGet?_mapSet, if_pos rfl]
          rfl

theorem targetBans_kept (g g2 : gameSession) (a t : String)
    (h : KeptOrRemoved (BanKept t) g g2) (hb : targetBans g a t = true)
    (hstored : mapHas g2.Players a = true) : targetBans g2 a t = true := by
  unfold targetBans at hb ⊢
  cases hp : mapGet? g.Players a with
  | none =>
    rw [hp] at hb
    simp at hb
  | some p =>
    rw [hp] at hb
    rcases h a p hp with h0 | ⟨p2, hp2, hk⟩
    · unfold mapHas at hstored
      rw [h0] at hstored
      simp at hstored
    · rw [hp2]
      exact hk hb

theorem targetBans_step (g g2 : gameSession) (a t : String)
    (h : PStep (BanKept t) g.Players g2.Players) (hb : targetBans g a t = true) :
    targetBans g2 a t = true := by
  unfold targetBans at hb ⊢
  rcases PStep_get h a with ⟨h1, _⟩ | ⟨q, q2, h1, h2, hk⟩
  · rw [h1] at hb
    simp at hb
  · rw [h1] at hb
    rw [h2]
    exact hk hb

theorem banned_vote_invalid (g : gameSession) (a t : String) (record : voteRecord)
    (hb : targetBans g a t = true) (hrec : record.TargetID = a) (ha : a ≠ "") :
    (effectiveVoteOf g t record).Status = "invalid" ∧
      (effectiveVoteOf g t record).Weight = 0 := by
  have h := (effectiveVoteOf_spec g t record).1
  have hinv : claimedInvalid g t record = true := by
    unfold claimedInvalid
    rw [hrec, hb]
    simp [ha]
  rw [hinv] at h
  simp only [Bool.true_or, if_true] at h
  exact ⟨congrArg Prod.fst h, congrArg Prod.snd h⟩

theorem vote_rejects_banned (g : gameSession) (a t : String) (now : Int)
    (hb : targetBans g a t = true) :
    (vote g t a now).2.Error ≠ "" ∧ (vote g t a now).1 = g := by
  obtain ⟨h1, _, h3⟩ := vote_spec g t a now
  have hne : (vote g t a now).2.Error ≠ "" := by
    intro hc
    have := (h1.mp hc).2.2.2.2.2.2.2.2.1
    rw [hb] at this
    exact absurd this (by decide)
  exact ⟨hne, h3 hne⟩

/-- C19. When the actor `a` successfully applies an ability of the effect `banVoteAgainst`,
the effective target `t` is banned by `a` afterwards. A ban that holds stays under every
`handleAction` and `handleTimerExpired` call of the core session and of the dev wrapper for
as long as `a` is a stored player (only `devRemovePlayer` deletes a player). While it
holds, every vote of `t` for `a` is rejected and changes nothing, a submitted record of `t`
for `a` gives an effective vote of status `invalid` and weight 0, and that vote adds
nothing to the totals. -/
theorem ban_persists (g : gameSession) (a t : String) :
    (∀ sid payload now sp ep, namedSpecial g a sid = some sp →
        sp.Definition.Effect.EffectType = "banVoteAgainst" →
        resolveSpecialTarget g a sp.Definition.TargetScope (mapEntries payload) = .ok ep →
        (applySpecial g a sid payload now).2.Error = "" →
        targetBans (applySpecial g a sid payload now).1 a
          (trimSpace (asString (mapGet? ep "targetPlayerId"))) = true) ∧
      (targetBans g a t = true →
        (∀ actorID actionType payload now,
          (mapHas (handleAction g actorID actionType payload now).1.Players a = true →
            targetBans (handleAction g actorID actionType payload now).1 a t = true) ∧
          (mapHas (devHandleAction g actorID actionType payload now).1.Players a = true →
            targetBans (devHandleAction g actorID actionType payload now).1 a t = true)) ∧
        (∀ now, targetBans (handleTimerExpired g now).1 a t = true ∧
          targetBans (devHandleTimerExpired g now).1 a t = true) ∧
        (∀ now, (vote g t a now).2.Error ≠ "" ∧ (vote g t a now).1 = g) ∧
        (∀ record totals, record.TargetID = a → a ≠ "" →
          (effectiveVoteOf g t record).Status = "invalid" ∧
            (effectiveVoteOf g t record).Weight = 0 ∧
            addVoteStep g totals (t, effectiveVoteOf g t record) = totals)) := by
  constructor
  · intro sid payload now sp ep hsp ht hep hok
    rcases applySpecial_success_players
        (banKept_frame (trimSpace (asString (mapGet? ep "targetPlayerId"))))
        g a sid payload now with herr | ⟨player, sp2, ep2, hp, hfind, hres, heff, hstep⟩
    · exact absurd hok herr
    have hsame : sp2 = sp := by
      unfold namedSpecial at hsp
      rw [hp] at hsp
      dsimp only at hsp
      rw [hfind] at hsp
      exact Option.some.inj hsp
    subst hsame
    rw [hep] at hres
    have hepe : ep = ep2 := Except.ok.inj hres
    subst hepe
    exact targetBans_step _ _ a _ hstep (applySpecialEffect_ban g a player _ sp2 ep now hp ht heff)
  · intro hb
    refine ⟨fun actorID actionType payload now => ⟨?_, ?_⟩, fun now => ⟨?_, ?_⟩, ?_, ?_⟩
    · exact targetBans_kept _ _ a t (handleAction_kept (banKept_frame t) g _ _ _ _) hb
    · exact targetBans_kept _ _ a t (devHandleAction_kept (banKept_frame t) g _ _ _ _) hb
    · exact targetBans_step _ _ a t
        (handleTimerExpired_players (banKept_frame t) g now (PStep_refl (banKept_frame t) _)) hb
    · exact targetBans_step _ _ a t
        (postProcess_players (banKept_frame t) _ _ _
          (handleTimerExpired_players (banKept_frame t) g now
            (PStep_refl (banKept_frame t) _))) hb
    · exact fun now => vote_rejects_banned g a t now hb
    · intro record totals hrec ha
      obtain ⟨h1, h2⟩ := banned_vote_invalid g a t record hb hrec ha
      refine ⟨h1, h2, ?_⟩
      unfold addVoteStep
      rw [if_pos (Or.inl (by rw [h1]; decide))]

/-- The instance of C19 at the example session `exampleWindow`: `p1` applies the ban
`special-p1-2` to `p2`; afterwards `p1` bans `p2`, and a vote of `p2` for `p1` in the
session that results is rejected. -/
theorem ban_persists_witness :
    targetBans (applySpecial exampleWindow "p1" "special-p1-2" (aimAt "p2") 9).1 "p1" "p2"
        = true ∧
      (vote (applySpecial exampleWindow "p1" "special-p1-2" (aimAt "p2") 9).1
        "p2" "p1" 10).2.Error ≠ "" :=
  have h1 : targetBans (applySpecial exampleWindow "p1" "special-p1-2" (aimAt "p2") 9).1
      "p1" "p2" = true :=
    (ban_persists exampleWindow "p1" "p2").1 "special-p1-2" (aimAt "p2") 9 _ (aimAt "p2")
      rfl rfl rfl (by decide)
  ⟨h1, (((ban_persists (applySpecial exampleWindow "p1" "special-p1-2" (aimAt "p2") 9).1
    "p1" "p2").2 h1).2.2.1 10).1⟩

/-- C9. Under every `handleAction` and `handleTimerExpired` call of the core session and of
the dev wrapper, a player who is eliminated or has left the bunker before the call is not
alive after it; a player that `devAddPlayer` adds is stored under an id that was free. -/
theorem status_never_revives (g : gameSession) (actorID actionType : String)
    (payload : GoMap AnyVal) (now : Int) :
    NoRevive g (handleAction g actorID actionType payload now).1 ∧
      NoRevive g (handleTimerExpired g now).1 ∧
      NoRevive g (devHandleAction g actorID actionType payload now).1 ∧
      NoRevive g (devHandleTimerExpired g now).1 ∧
      mapHas g.Players
        (devPlayerID g (devFreshCounter g (g.Players.length + 1) (g.DevBotCounter + 1)))
          = false := by
  have key : ∀ g2, KeptOrRemoved StaysOut g g2 → NoRevive g g2 := by
    intro g2 hk id hid
    unfold statusOf at hid ⊢
    cases hp : mapGet? g.Players id with
    | none =>
      rw [hp] at hid
      rcases hid with h | h <;> exact Option.noConfusion h
    | some p =>
      rw [hp] at hid
      have hdead : p.Status ≠ playerAlive := by
        rcases hid with h | h
        · have := Option.some.inj h
          dsimp only at this
          rw [this]
          decide
        · have := Option.some.inj h
          dsimp only at this
          rw [this]
          decide
      rcases hk id p hp with h0 | ⟨p2, hp2, hs⟩
      · rw [h0]
        exact fun hc => Option.noConfusion hc
      · rw [hp2]
        intro hc
        exact hs hdead (Option.some.inj hc)
  exact ⟨key _ (handleAction_kept staysOut_frame g _ _ _ _),
    key _ (PStep_kept (handleTimerExpired_players staysOut_frame g now
      (PStep_refl staysOut_frame _))),
    key _ (devHandleAction_kept staysOut_frame g _ _ _ _),
    key _ (devHandleTimerExpired_kept staysOut_frame g now),
    devFreshCounter_free g _⟩



/-! ## The end condition -/

set_option maxRecDepth 100000 in
/-- Claim C10, counterexample: in the session that `newGameSession` creates for four players
and four bunker seats the end condition holds and the phase is `reveal`; the reveal of `p1`
succeeds and changes the state, and the session goes on in `reveal_discussion` with unrevealed
bunker cards. -/
theorem reveal_ignores_end_condition :
    exampleFullBunker.Phase = scenarioPhaseReveal ∧
    shouldEnd exampleFullBunker = true ∧
    ((aliveIDs exampleFullBunker).length : Int) ≤ exampleFullBunker.Ruleset.BunkerSeats ∧
    exampleFullBunker.TotalExiles ≥ exampleFullBunker.Ruleset.TotalExiles ∧
    (handleAction exampleFullBunker "p1" "revealCard" (cardPayload "p1-1") 1).2.Error = "" ∧
    (handleAction exampleFullBunker "p1" "revealCard" (cardPayload "p1-1") 1).2.StateChanged
      = true ∧
    (handleAction exampleFullBunker "p1" "revealCard" (cardPayload "p1-1") 1).1.Phase
      = scenarioPhaseRevealDiscussion ∧
    allBunkerRevealed
      (handleAction exampleFullBunker "p1" "revealCard" (cardPayload "p1-1") 1).1 = false ∧
    (handleAction
      (handleAction exampleFullBunker "p1" "revealCard" (cardPayload "p1-1") 1).1
      "p1" "continueRound" [] 2).2.StateChanged = true ∧
    (handleAction
      (handleAction exampleFullBunker "p1" "revealCard" (cardPayload "p1-1") 1).1
      "p1" "continueRound" [] 2).1.Phase = scenarioPhaseReveal := by
  decide

theorem finishGame_endedRevealed (g : gameSession) (reason : String) (now : Int)
    (h : g.Phase ≠ scenarioPhaseEnded) : EndedRevealed (finishGame g reason now).1 := by
  refine ⟨finishGame_Phase g reason now, ?_⟩
  unfold finishGame
  rw [if_neg (fun hh => h hh.1)]
  unfold allBunkerRevealed
  dsimp only [makeEvent, ensureAllBunkerCardsRevealed, clearActiveTimer]
  rw [List.all_eq_true]
  intro c hc
  obtain ⟨c0, _, rfl⟩ := List.mem_map.1 hc
  split
  · assumption
  · rfl

theorem finishGame_all (g : gameSession) (reason : String) (now : Int)
    (h : g.Phase ≠ scenarioPhaseEnded) :
    (finishGame g reason now).1.World.Bunker.all (fun c => c.IsRevealed) = true :=
  (finishGame_endedRevealed g reason now h).2

theorem shouldEnd_false {g : gameSession} (h : ¬ shouldEnd g = true) : shouldEnd g = false := by
  cases hs : shouldEnd g
  · rfl
  · exact absurd hs h

theorem ended_leaf (g : gameSession) (reason : String) (now : Int) (Q : Prop)
    (h : g.Phase ≠ scenarioPhaseEnded) : EndedRevealed (finishGame g reason now).1 ∨ Q :=
  Or.inl ⟨finishGame_Phase _ _ _, finishGame_all g reason now h⟩

theorem ended_leaf_counted (g : gameSession) (reason : String) (now c : Int) (Q : Prop)
    (h : g.Phase ≠ scenarioPhaseEnded) :
    EndedRevealed { (finishGame g reason now).1 with EventCounter := c } ∨ Q :=
  Or.inl ⟨finishGame_Phase _ _ _, finishGame_all g reason now h⟩

theorem shouldEnd_schedulePhaseTimer (g : gameSession) (k : String) (s now : Int) :
    shouldEnd (schedulePhaseTimer g k s now) = shouldEnd g := by
  unfold schedulePhaseTimer
  split <;> rfl

theorem error_leaf (g : gameSession) (m : String) (hm : m ≠ "") (Q : Prop) :
    (g, errorResult m).2.Error = "" → Q := fun he => absurd he hm

theorem kickPlayer_checks_end (g : gameSession) (targetID : String) (now : Int)
    (hp : g.Phase ≠ scenarioPhaseEnded) (he : (kickPlayer g targetID now).2.Error = "") :
    EndedRevealed (kickPlayer g targetID now).1 ∨ shouldEnd (kickPlayer g targetID now).1 = false := by
  revert he
  unfold kickPlayer
  dsimp only [makeEvent, removeFromVoting]
  repeat' (first
    | with_reducible refine error_leaf _ _ (by decide) _
    | with_reducible refine ite_of (fun r : gameSession × gameActionResult => r.2.Error = "" → (EndedRevealed r.1 ∨ shouldEnd r.1 = false)) _ _ _ (fun _ => ?_) (fun _ => ?_)
    | (with_reducible refine fun _ => ended_leaf_counted _ _ _ _ _ ?_
       intro hh
       revert hh
       refine ite_of (fun s : gameSession => s.Phase = scenarioPhaseEnded → False) _ _ _ (fun _ hh => ?_) (fun _ hh => ?_)
       all_goals exact hp ((applyElimination_Phase g targetID).symm.trans hh))
    | with_reducible exact fun _ => Or.inr (shouldEnd_false ‹_›)
    | exact fun _ => Or.inr (shouldEnd_false ‹_›)
    | split)

theorem markLeftBunker_checks_end (g : gameSession) (targetID : String) (now : Int)
    (hp : g.Phase ≠ scenarioPhaseEnded) (he : (markLeftBunker g targetID now).2.Error = "") :
    EndedRevealed (markLeftBunker g targetID now).1 ∨
      shouldEnd (markLeftBunker g targetID now).1 = false := by
  revert he
  unfold markLeftBunker
  dsimp only [makeEvent, clearActiveTimer, removeFromVoting]
  repeat' (first
    | with_reducible refine error_leaf _ _ (by decide) _
    | with_reducible refine ite_of (fun r : gameSession × gameActionResult => r.2.Error = "" → (EndedRevealed r.1 ∨ shouldEnd r.1 = false)) _ _ _ (fun _ => ?_) (fun _ => ?_)
    | (with_reducible refine fun _ => ended_leaf _ _ _ _ ?_
       intro hh
       first
         | exact absurd (show scenarioPhaseResolution = scenarioPhaseEnded from hh) (by decide)
         | (revert hh
            refine ite_of (fun s : gameSession => s.Phase = scenarioPhaseEnded → False) _ _ _ (fun _ hh => ?_) (fun _ hh => ?_)
            all_goals (have h2 := (passTurnFrom_Phase _ _).symm.trans hh; exact hp h2)))
    | with_reducible exact fun _ => Or.inr (shouldEnd_false ‹_›)
    | with_reducible exact fun _ => Or.inr ((shouldEnd_schedulePhaseTimer _ _ _ _).trans (shouldEnd_false ‹_›))
    | split)

theorem startTieBreakRevote_marks (g : gameSession) (c : List String) (now : Int) :
    (startTieBreakRevote g c now).TieBreakUsed = true ∧
      (startTieBreakRevote g c now).VotePhase = votePhaseVoting := by
  unfold startTieBreakRevote
  exact ⟨(resetVotesForRevote_frame _ now).2.1, rfl⟩

theorem finalizeVoting_checks_end (g : gameSession) (a : String) (now : Int)
    (he : (finalizeVoting g a now).2.Error = "") :
    EndedRevealed (finalizeVoting g a now).1 ∨ shouldEnd (finalizeVoting g a now).1 = false ∨
      ((finalizeVoting g a now).1.TieBreakUsed = true ∧
        (finalizeVoting g a now).1.VotePhase = votePhaseVoting) := by
  revert he
  unfold finalizeVoting
  dsimp only [makeEvent, clearActiveTimer]
  repeat' (first
    | with_reducible refine error_leaf _ _ (by decide) _
    | with_reducible refine ite_of (fun r : gameSession × gameActionResult => r.2.Error = "" → (EndedRevealed r.1 ∨ shouldEnd r.1 = false ∨ (r.1.TieBreakUsed = true ∧ r.1.VotePhase = votePhaseVoting))) _ _ _ (fun _ => ?_) (fun _ => ?_)
    | (with_reducible refine fun _ => ended_leaf _ _ _ _ ?_
       intro hh
       exact absurd (show scenarioPhaseResolution = scenarioPhaseEnded from hh) (by decide))
    | with_reducible exact fun _ => Or.inr (Or.inr ⟨(startTieBreakRevote_marks _ _ _).1, (startTieBreakRevote_marks _ _ _).2⟩)
    | with_reducible exact fun _ => Or.inr (Or.inl ((shouldEnd_schedulePhaseTimer _ _ _ _).trans (shouldEnd_false ‹_›))))

theorem handleAction_of_player (g : gameSession) (actorID actionType : String)
    (payload : GoMap AnyVal) (now : Int)
    (he : (handleAction g actorID actionType payload now).2.Error = "") :
    mapHas g.Players actorID = true := by
  unfold handleAction at he
  unfold mapHas
  cases hm : mapGet? g.Players actorID with
  | none =>
    rw [hm] at he
    simp [errorResult] at he
  | some _ => rfl

theorem handleAction_dispatch (g : gameSession) (actorID : String) (payload : GoMap AnyVal)
    (now : Int) (h : mapHas g.Players actorID = true) :
    handleAction g actorID "devSkipRound" payload now = startNextRoundOrEnd g now ∧
    handleAction g actorID "continueRound" payload now = continueRound g actorID now ∧
    handleAction g actorID "devKickPlayer" payload now
      = kickPlayer g (payloadString payload "targetPlayerId") now ∧
    handleAction g actorID "markLeftBunker" payload now
      = markLeftBunker g (payloadString payload "targetPlayerId") now ∧
    handleAction g actorID "finalizeVoting" payload now = finalizeVoting g actorID now := by
  unfold mapHas at h
  cases hm : mapGet? g.Players actorID with
  | none =>
    rw [hm] at h
    exact absurd h (by decide)
  | some _ =>
    unfold handleAction
    rw [hm]
    exact ⟨rfl, rfl, rfl, rfl, rfl⟩

/-- Claim C10, amended: the end condition is evaluated at the round checkpoints and after every
removal of a player, not by every action. In a session that is not ended: (1) when the end
condition holds, the core `devSkipRound`, a permitted `continueRound` in the resolution
phase and the expiry of the `resolution_auto` timer in the resolution phase each end the
session with every bunker card revealed; (2) a successful `devKickPlayer` or `markLeftBunker`
leaves the session either ended with every bunker card revealed or in a state where the end
condition is false; (3) a successful `finalizeVoting` does the same unless it starts the
tie-break revote. -/
theorem end_condition_checkpoints (g : gameSession) (actorID : String)
    (payload : GoMap AnyVal) (now : Int) (hp : g.Phase ≠ scenarioPhaseEnded) :
    (shouldEnd g = true →
      (mapHas g.Players actorID = true →
        EndedRevealed (handleAction g actorID "devSkipRound" payload now).1) ∧
      (mapHas g.Players actorID = true → g.Phase = scenarioPhaseResolution →
        canContinue g actorID = true →
        EndedRevealed (handleAction g actorID "continueRound" payload now).1) ∧
      (∀ timer, g.ActiveTimer = some timer → timer.EndsAt ≤ now →
        timer.Kind = timerKindResolutionAuto → g.Phase = scenarioPhaseResolution →
        EndedRevealed (handleTimerExpired g now).1)) ∧
    (∀ actionType, actionType = "devKickPlayer" ∨ actionType = "markLeftBunker" →
      (handleAction g actorID actionType payload now).2.Error = "" →
      EndedRevealed (handleAction g actorID actionType payload now).1 ∨
        shouldEnd (handleAction g actorID actionType payload now).1 = false) ∧
    ((handleAction g actorID "finalizeVoting" payload now).2.Error = "" →
      EndedRevealed (handleAction g actorID "finalizeVoting" payload now).1 ∨
        shouldEnd (handleAction g actorID "finalizeVoting" payload now).1 = false ∨
        ((handleAction g actorID "finalizeVoting" payload now).1.TieBreakUsed = true ∧
          (handleAction g actorID "finalizeVoting" payload now).1.VotePhase
            = votePhaseVoting)) := by
  refine ⟨fun hs => ⟨?_, ?_, ?_⟩, ?_, ?_⟩
  · intro hm
    rw [(handleAction_dispatch g actorID payload now hm).1]
    unfold startNextRoundOrEnd
    rw [if_pos hs]
    exact finishGame_endedRevealed g _ now hp
  · intro hm hres hc
    rw [(handleAction_dispatch g actorID payload now hm).2.1]
    unfold continueRound
    rw [if_neg hp, hc]
    rw [if_neg (by decide), if_neg (by rw [hres]; decide), if_pos hres, if_pos hs]
    exact finishGame_endedRevealed g _ now hp
  · intro timer ht hd hk hres
    unfold handleTimerExpired
    rw [ht]
    dsimp only
    rw [if_neg (not_lt.mpr hd), hk]
    rw [if_neg (by decide), if_neg (by decide), if_neg (by decide), if_pos rfl]
    rw [if_pos (by exact hres), if_pos (by exact hs)]
    exact finishGame_endedRevealed _ _ now (by exact hp)
  · intro actionType ha he
    have hm := handleAction_of_player g actorID actionType payload now he
    rcases ha with ha | ha <;> subst ha
    · rw [(handleAction_dispatch g actorID payload now hm).2.2.1] at he ⊢
      exact kickPlayer_checks_end g _ now hp he
    · rw [(handleAction_dispatch g actorID payload now hm).2.2.2.1] at he ⊢
      exact markLeftBunker_checks_end g _ now hp he
  · intro he
    have hm := handleAction_of_player g actorID _ payload now he
    rw [(handleAction_dispatch g actorID payload now hm).2.2.2.2] at he ⊢
    exact finalizeVoting_checks_end g _ now he

set_option maxRecDepth 100000 in
/-- Witness of `end_condition_checkpoints`: in the four-seat session of four players, whose
end condition holds from the start, the core `devSkipRound` ends the session with the whole
bunker revealed. -/
theorem end_condition_checkpoints_witness :
    exampleFullBunker.Phase ≠ scenarioPhaseEnded ∧ shouldEnd exampleFullBunker = true ∧
    mapHas exampleFullBunker.Players "p1" = true ∧
    EndedRevealed (handleAction exampleFullBunker "p1" "devSkipRound" [] 5).1 :=
  ⟨by decide, by decide, by decide,
    ((end_condition_checkpoints exampleFullBunker "p1" [] 5 (by decide)).1 (by decide)).1
      (by decide)⟩



/-! ## The totals in closed form -/

theorem addVoteStep_foldl_get (g : gameSession) (c : String)
    (l : List (String × effectiveVoteRecord)) (T : GoMap Int) :
    mapGet? (l.foldl (addVoteStep g) T) c =
      if l.filter (countsFor g c) = [] then mapGet? T c
      else some ((mapGet? T c).getD 0 + ((l.filter (countsFor g c)).map (fun e => e.2.Weight)).sum) := by
  induction l generalizing T with
  | nil => simp
  | cons e t ih =>
    rw [List.foldl_cons, ih]
    by_cases h1 : e.2.Status ≠ "voted" ∨ e.2.TargetID = ""
    · have hc : countsFor g c e = false := by
        unfold countsFor
        rcases h1 with h | h <;> simp [h]
      have hs : addVoteStep g T e = T := by
        unfold addVoteStep
        rw [if_pos h1]
      rw [hs, List.filter_cons, hc]
      simp
    · have h1' : e.2.Status = "voted" ∧ e.2.TargetID ≠ "" := by
        constructor
        · by_contra h; exact h1 (Or.inl h)
        · intro h; exact h1 (Or.inr h)
      by_cases h2 : playerIsAlive g e.1 = true
      · have hs : addVoteStep g T e =
            mapSet T e.2.TargetID ((mapGet? T e.2.TargetID).getD 0 + e.2.Weight) := by
          unfold addVoteStep
          rw [if_neg h1, if_neg (by simp [h2])]
        rw [hs, mapGet?_mapSet]
        by_cases h3 : e.2.TargetID = c
        · have hc : countsFor g c e = true := by
            unfold countsFor
            simp [h1'.1, h2, h3]
            exact h3 ▸ h1'.2
          rw [if_pos h3, List.filter_cons, hc, h3]
          simp only [if_true, List.map_cons, List.sum_cons, Option.getD_some]
          rw [if_neg (List.cons_ne_nil _ _)]
          split
          · rename_i h0
            rw [h0]
            simp
          · congr 1
            ring
        · have hc : countsFor g c e = false := by
            unfold countsFor
            simp [h3]
          rw [if_neg h3, List.filter_cons, hc]
          simp
      · have hc : countsFor g c e = false := by
          unfold countsFor
          simp [h2]
        have hs : addVoteStep g T e = T := by
          unfold addVoteStep
          rw [if_neg h1, if_pos (by simpa using h2)]
        rw [hs, List.filter_cons, hc]
        simp

/-- The totals of `computeVoteTotals` in closed form: a candidate, and every player for whom
a vote counts, has the sum of the weights of the votes that count for it; nobody else has a
total. -/
theorem computeVoteTotals_get (g : gameSession) (source : GoMap voteRecord) (c : String) :
    mapGet? (computeVoteTotals g source).1 c =
      if mapHas g.VoteCandidates c = true ∨ countedVotes g source c ≠ [] then
        some (voteTotal g source c)
      else none := by
  unfold computeVoteTotals
  dsimp only
  rw [addVoteStep_foldl_get, mapSet_fold_get]
  simp only [mem_mapKeys]
  unfold voteTotal countedVotes
  by_cases h1 : (mapEntries (buildEffectiveVotes g source)).filter (countsFor g c) = []
  · rw [if_pos h1]
    by_cases h2 : mapHas g.VoteCandidates c = true
    · rw [if_pos h2, if_pos (Or.inl h2), h1]
      rfl
    · rw [if_neg h2, if_neg (by simp [h2, h1])]
      rfl
  · rw [if_neg h1, if_pos (Or.inr h1)]
    by_cases h2 : mapHas g.VoteCandidates c = true
    · rw [if_pos h2]
      simp
    · rw [if_neg h2]
      simp [mapGet?]

/-- What a vote that counts for `c` looks like: it comes from a record of the source that an
alive player of `Order` submitted for `c`, the record is valid and not ruled out, and the
weight is the weight of the voter, doubled when `c` is the `DoubleAgainst` target. -/
theorem countedVotes_spec (g : gameSession) (source : GoMap voteRecord) (c : String)
    (e : String × effectiveVoteRecord) (he : e ∈ countedVotes g source c) :
    ∃ record, mapGet? source e.1 = some record ∧ record.TargetID = c ∧ c ≠ "" ∧
      claimedInvalid g e.1 record = false ∧ record.IsValid = true ∧
      e.2.Weight = claimedWeight g e.1 c ∧ playerIsAlive g e.1 = true ∧ e.1 ∈ g.Order := by
  unfold countedVotes at he
  rw [List.mem_filter] at he
  obtain ⟨hm, hc⟩ := he
  obtain ⟨v, ev⟩ := e
  rw [mem_mapEntries, buildEffectiveVotes_get] at hm
  unfold countsFor at hc
  simp only [Bool.and_eq_true, decide_eq_true_eq] at hc
  obtain ⟨⟨⟨hs, ht⟩, ha⟩, htc⟩ := hc
  dsimp only at hs ht ha htc ⊢
  by_cases hp : v ∈ g.Order ∧ mapHas g.Players v = true
  · rw [if_pos hp] at hm
    cases hsrc : mapGet? source v with
    | none =>
      rw [hsrc] at hm
      simp only [Option.some.injEq] at hm
      subst hm
      exact absurd hs (by decide)
    | some record =>
      rw [hsrc] at hm
      simp only [Option.some.injEq] at hm
      subst hm
      obtain ⟨h1, _, _, h4⟩ := effectiveVoteOf_spec g v record
      rw [hs, if_pos rfl] at h4
      rw [hs] at h1
      have hrt : record.TargetID = c := h4.symm.trans htc
      have hne : record.TargetID ≠ "" := h4 ▸ ht
      refine ⟨record, rfl, hrt, hrt ▸ hne, ?_⟩
      by_cases hi : (claimedInvalid g v record || (decide (record.TargetID ≠ "") && !record.IsValid)) = true
      · rw [if_pos hi] at h1
        simp at h1
      · rw [if_neg hi, if_neg hne] at h1
        simp only [Prod.mk.injEq, true_and] at h1
        simp only [Bool.or_eq_true, Bool.and_eq_true, decide_eq_true_eq, not_or, not_and,
          Bool.not_eq_true, Bool.not_eq_false'] at hi
        refine ⟨hi.1, ?_, ?_, ha, hp.1⟩
        · have := hi.2 hne
          simpa using this
        · rw [← hrt]
          exact h1
  · rw [if_neg hp] at hm
    exact absurd hm (by simp)

theorem countedVotes_candidate (g : gameSession) (source : GoMap voteRecord) (c : String)
    (h : countedVotes g source c ≠ []) : mapHas g.VoteCandidates c = true := by
  obtain ⟨e, he⟩ := List.exists_mem_of_ne_nil _ h
  obtain ⟨record, _, hrt, hne, hinv, _⟩ := countedVotes_spec g source c e he
  unfold claimedInvalid at hinv
  rw [hrt] at hinv
  simp only [Bool.or_eq_false_iff, Bool.and_eq_false_imp, decide_eq_true_eq] at hinv
  have h2 := hinv.2 hne
  unfold mapHas
  unfold mapGetB at h2
  cases hg : mapGet? g.VoteCandidates c with
  | none =>
    rw [hg] at h2
    simp at h2
  | some b => rfl

theorem claimedWeight_pos (g : gameSession) (v c : String) : 0 < claimedWeight g v c := by
  unfold claimedWeight
  have h1 : (0 : Int) < (match mapGet? g.VoteWeights v with
      | some w => if w > 0 then w else 1
      | none => 1) := by
    split
    · split
      · assumption
      · decide
    · decide
  have h2 : (0 : Int) < (if c = g.DoubleAgainst then 2 else 1) := by
    split <;> decide
  exact Int.mul_pos h1 h2

theorem voteTotal_nonneg (g : gameSession) (source : GoMap voteRecord) (c : String) :
    0 ≤ voteTotal g source c := by
  unfold voteTotal
  apply List.sum_nonneg
  intro x hx
  obtain ⟨e, he, rfl⟩ := List.mem_map.1 hx
  obtain ⟨_, _, _, _, _, _, hw, _⟩ := countedVotes_spec g source c e he
  rw [hw]
  exact le_of_lt (claimedWeight_pos g e.1 c)

/-- The keys of the totals are the candidates, and the totals are not negative. -/
theorem computeVoteTotals_entry (g : gameSession) (source : GoMap voteRecord) (c : String)
    (t : Int) (h : mapGet? (computeVoteTotals g source).1 c = some t) :
    mapHas g.VoteCandidates c = true ∧ t = voteTotal g source c ∧ 0 ≤ t := by
  rw [computeVoteTotals_get] at h
  split at h
  · rename_i hc
    simp only [Option.some.injEq] at h
    subst h
    refine ⟨?_, rfl, voteTotal_nonneg g source c⟩
    rcases hc with hc | hc
    · exact hc
    · exact countedVotes_candidate g source c hc
  · exact absurd h (by simp)

theorem maxTotal_ge (T : GoMap Int) (d : String) (t : Int) (h : mapGet? T d = some t) :
    t ≤ maxTotal T := by
  have h2 := (topStep_foldl (mapEntries T) (0, [])).2.1 (d, t) ((mem_mapEntries T d t).mpr h)
  rw [topStep_foldl_fst] at h2
  exact h2

theorem maxTotal_attained (T : GoMap Int) (d : String) (t : Int) (h : mapGet? T d = some t)
    (ht : 0 ≤ t) : ∃ c, mapGet? T c = some (maxTotal T) := by
  have h3 := (topStep_foldl (mapEntries T) (0, [])).2.2.1
  rw [topStep_foldl_fst] at h3
  rcases h3 with h0 | ⟨e, he, hv⟩
  · have hle := maxTotal_ge T d t h
    have h0' : maxTotal T = 0 := h0
    have : t = maxTotal T := by omega
    exact ⟨d, this ▸ h⟩
  · obtain ⟨a, v⟩ := e
    refine ⟨a, ?_⟩
    have := (mem_mapEntries T a v).mp he
    rw [this]
    exact congrArg some hv

/-- With at least one candidate the list that `computeVoteTotals` returns is not empty, and
its members are exactly the candidates whose total is the highest of all totals. -/
theorem computeVoteTotals_top_candidates (g : gameSession) (source : GoMap voteRecord)
    (d : String) (hd : mapHas g.VoteCandidates d = true) :
    (computeVoteTotals g source).2 ≠ [] ∧
    ∀ c, c ∈ (computeVoteTotals g source).2 ↔
      (mapHas g.VoteCandidates c = true ∧
        ∀ x, mapHas g.VoteCandidates x = true → voteTotal g source x ≤ voteTotal g source c) := by
  have hdt : mapGet? (computeVoteTotals g source).1 d = some (voteTotal g source d) := by
    rw [computeVoteTotals_get, if_pos (Or.inl hd)]
  obtain ⟨m, hm⟩ := maxTotal_attained _ d _ hdt (voteTotal_nonneg g source d)
  have hex : ∃ x, hasMaxTotal g source x := ⟨m, hm⟩
  have htop := fun c => (computeVoteTotals_top g source c).1 hex
  have hchar : ∀ c, hasMaxTotal g source c ↔
      (mapHas g.VoteCandidates c = true ∧
        ∀ x, mapHas g.VoteCandidates x = true →
          voteTotal g source x ≤ voteTotal g source c) := by
    intro c
    unfold hasMaxTotal
    constructor
    · intro hc
      obtain ⟨h1, h2, _⟩ := computeVoteTotals_entry g source c _ hc
      refine ⟨h1, fun x hx => ?_⟩
      rw [← h2]
      exact maxTotal_ge _ x _ (by rw [computeVoteTotals_get, if_pos (Or.inl hx)])
    · rintro ⟨h1, h2⟩
      have hmc := (computeVoteTotals_entry g source m _ hm)
      have hle := h2 m hmc.1
      have hge := maxTotal_ge _ c (voteTotal g source c)
        (by rw [computeVoteTotals_get, if_pos (Or.inl h1)])
      rw [computeVoteTotals_get, if_pos (Or.inl h1)]
      congr 1
      have := hmc.2.1
      omega
  refine ⟨?_, fun c => (htop c).trans (hchar c)⟩
  intro hnil
  have := (htop m).mpr hm
  rw [hnil] at this
  exact absurd this (List.not_mem_nil _)



/-! ## What the helpers do to roster and candidates -/

theorem mapGet?_playerStatuses (ps : GoMap gamePlayer) (id : String) :
    mapGet? (playerStatuses ps) id = (mapGet? ps id).map (fun p => p.Status) := by
  induction ps with
  | nil => rfl
  | cons e t ih =>
    unfold playerStatuses at ih ⊢
    simp only [List.map_cons, mapGet?]
    split
    · rfl
    · exact ih

theorem statusOf_poll (g : gameSession) (id : String) :
    mapGet? (poll g).statuses id = statusOf g id := mapGet?_playerStatuses _ _

theorem poll_of_hard {g g2 : gameSession} (h : hard g2 = hard g) : poll g2 = poll g := by
  have h3 := congrArg hardView.Order h
  have h4 := congrArg hardView.statuses h
  have h6 := congrArg hardView.Round h
  have h7 := congrArg hardView.VotesRemaining h
  have h8 := congrArg hardView.TotalExiles h
  have h9 := congrArg hardView.VoteCandidates h
  simp only [hard] at h3 h4 h6 h7 h8 h9
  simp only [poll, h3, h4, h6, h7, h8, h9]

theorem PollStep_post {r r1 r2 : pollView} (h : PollStep r r1) (e : r2 = r1) :
    PollStep r r2 := by
  subst e
  exact h

theorem PollStep_pre {r r1 r2 : pollView} (e : r1 = r) (h : PollStep r1 r2) :
    PollStep r r2 := by
  subst e
  exact h

theorem PollStep_same {r r2 : pollView} (e : r2 = r) : PollStep r r2 := by
  subst e
  exact PollStep.still rfl rfl rfl rfl rfl (fun _ h => Or.inl h)

theorem makeEvent_poll (g : gameSession) (k m : String) (now : Int) :
    poll (makeEvent g k m now).1 = poll g := rfl

theorem schedulePhaseTimer_poll (g : gameSession) (k : String) (s now : Int) :
    poll (schedulePhaseTimer g k s now) = poll g :=
  poll_of_hard (schedulePhaseTimer_hard g k s now)

theorem scheduleRevealTimeoutIfNeeded_poll (g : gameSession) (now : Int) :
    poll (scheduleRevealTimeoutIfNeeded g now) = poll g :=
  poll_of_hard (scheduleRevealTimeoutIfNeeded_hard g now)

theorem enterRevealDiscussion_poll (g : gameSession) (now : Int) :
    poll (enterRevealDiscussion g now) = poll g := by
  unfold enterRevealDiscussion
  dsimp only
  repeat' split
  all_goals first | rfl | exact schedulePhaseTimer_poll _ _ _ _

theorem enterVoteSpecialWindow_poll (g : gameSession) (now : Int) :
    poll (enterVoteSpecialWindow g now).1 = poll g := by
  unfold enterVoteSpecialWindow
  dsimp only
  repeat' split
  all_goals first | rfl | exact schedulePhaseTimer_poll _ _ _ _

theorem markVoteWasted_poll (g : gameSession) (id reason : String) (now : Int) :
    poll (markVoteWasted g id reason now) = poll g := by
  unfold markVoteWasted
  repeat' split
  all_goals rfl

theorem resetVotesForRevote_poll (g : gameSession) (now : Int) :
    poll (resetVotesForRevote g now) = poll g := by
  unfold resetVotesForRevote
  dsimp only
  refine (foldl_keeps _ poll ?_ _ _).trans rfl
  intro s a
  exact markVoteWasted_poll _ _ _ _

theorem finishGame_poll (g : gameSession) (reason : String) (now : Int) :
    poll (finishGame g reason now).1 = poll g := by
  unfold finishGame
  split <;> rfl

theorem revealNextBunkerCard_poll (g : gameSession) (r : Int) :
    poll (revealNextBunkerCard g r) = poll g := by
  unfold revealNextBunkerCard
  repeat' split
  all_goals rfl

theorem maxInt_nonneg (b : Int) : 0 ≤ maxInt 0 b := by
  unfold maxInt
  split <;> omega

theorem votesForRound_nonneg (g : gameSession) (r : Int) : 0 ≤ votesForRound g r := by
  unfold votesForRound
  dsimp only
  split
  · exact le_refl 0
  · exact maxInt_nonneg _

theorem startNextRoundOrEnd_step (g : gameSession) (now : Int) :
    PollStep (poll g) (poll (startNextRoundOrEnd g now).1) := by
  unfold startNextRoundOrEnd
  dsimp only
  split
  · exact PollStep_same (finishGame_poll _ _ _)
  · split
    · exact PollStep_same (finishGame_poll _ _ _)
    · refine PollStep_post ?_ (show _ = poll (scheduleRevealTimeoutIfNeeded _ now) from rfl)
      rw [scheduleRevealTimeoutIfNeeded_poll]
      generalize hb : revealNextBunkerCard _ _ = b
      have hr := revealNextBunkerCard_poll
        { clearActiveTimer { g with Round := g.Round + 1 } with WorldEvent := none } (g.Round + 1)
      rw [hb] at hr
      have h3 := congrArg pollView.Order hr
      have h4 := congrArg pollView.statuses hr
      have h5 := congrArg pollView.Round hr
      have h8 := congrArg pollView.TotalExiles hr
      simp only [poll, clearActiveTimer] at h3 h4 h5 h8
      exact PollStep.advance h3 h4 h5 (votesForRound_nonneg _ _) h8 rfl

theorem startVotingStep_poll (now : Int) (g : gameSession) (e : String × gamePlayer) :
    poll (startVotingStep now g e) = poll g := by
  unfold startVotingStep
  repeat' split
  · rfl
  · refine (poll_of_hard (hard_modify _ _ _ (fun _ => ?_) (fun _ => ?_))).trans ?_
    · rfl
    · rfl
    · exact markVoteWasted_poll _ _ _ _
  · rfl

theorem playerIsAlive_status (g : gameSession) (id : String) :
    playerIsAlive g id = true ↔ mapGet? (poll g).statuses id = some playerAlive := by
  rw [statusOf_poll]
  unfold playerIsAlive statusOf
  cases mapGet? g.Players id with
  | none => simp
  | some p => simp

theorem mem_aliveIDs (g : gameSession) (id : String) (h : id ∈ aliveIDs g) :
    mapGet? (poll g).statuses id = some playerAlive := by
  unfold aliveIDs at h
  exact (playerIsAlive_status g id).1 (List.mem_filter.1 h).2

theorem mapHas_fold_true (keys : List String) (x : String)
    (h : mapHas (keys.foldl (fun m c => mapSet m c true) ([] : GoMap Bool)) x = true) :
    x ∈ keys := by
  unfold mapHas at h
  rw [mapSet_fold_get] at h
  by_contra hx
  rw [if_neg hx] at h
  simp [mapGet?] at h

theorem startVoting_step (g : gameSession) (now : Int) :
    PollStep (poll g) (poll (startVoting g now)) := by
  unfold startVoting
  dsimp only
  refine PollStep_post ?_
    (show _ = poll ((mapEntries _).foldl (startVotingStep now) _) from rfl)
  rw [foldl_keeps (startVotingStep now) poll (startVotingStep_poll now)]
  refine PollStep.still rfl rfl rfl rfl rfl ?_
  intro x hx
  exact Or.inr (mem_aliveIDs g x (mapHas_fold_true _ x hx))

theorem computeVoteTotals_subset (g : gameSession) (source : GoMap voteRecord) (c : String)
    (h : c ∈ (computeVoteTotals g source).2) : mapHas g.VoteCandidates c = true := by
  by_cases hex : ∃ d, hasMaxTotal g source d
  · exact (computeVoteTotals_entry g source c _
      (((computeVoteTotals_top g source c).1 hex).1 h)).1
  · exact ((computeVoteTotals_top g source c).2 hex).1 h

theorem startTieBreakRevote_poll (g : gameSession) (c : List String) (now : Int) :
    poll (startTieBreakRevote g c now) =
      { poll g with VoteCandidates := c.foldl (fun m x => mapSet m x true) [] } := by
  unfold startTieBreakRevote
  dsimp only
  exact (resetVotesForRevote_poll _ now).trans rfl

theorem removeFromVoting_poll (g : gameSession) (t : String) :
    poll (removeFromVoting g t) = { poll g with VoteCandidates := mapDel g.VoteCandidates t } :=
  rfl

theorem mapHas_mapDel {V : Type} (m : GoMap V) (t x : String)
    (h : mapHas (mapDel m t) x = true) : mapHas m x = true ∧ x ≠ t := by
  unfold mapHas at h ⊢
  rw [mapGet?_mapDel] at h
  by_cases hx : t = x
  · rw [if_pos hx] at h
    simp at h
  · rw [if_neg hx] at h
    exact ⟨h, fun e => hx e.symm⟩

theorem handleOnOwnerEliminated_poll (g : gameSession) (id : String) :
    poll (handleOnOwnerEliminated g id) = poll g :=
  poll_of_hard (handleOnOwnerEliminated_hard g id)

theorem handleSecretEliminationTriggers_poll (g : gameSession) (id : String) :
    poll (handleSecretEliminationTriggers g id) = poll g :=
  poll_of_hard (handleSecretEliminationTriggers_hard g id)

theorem playerStatuses_set (ps : GoMap gamePlayer) (k s : String) :
    playerStatuses (mapModify ps k (fun p => { p with Status := s })) =
      mapModify (playerStatuses ps) k (fun _ => s) := by
  induction ps with
  | nil => rfl
  | cons e t ih =>
    unfold playerStatuses at ih ⊢
    unfold mapModify
    simp only [List.map_cons]
    split
    · rfl
    · simp only [List.map_cons, List.cons.injEq, true_and]
      exact ih

/-- What `applyElimination` does: nothing for a player who is missing or not alive;
otherwise the player is eliminated, counted as an exile, costs one vote of the quota and
is no candidate any more. -/
theorem applyElimination_poll (g : gameSession) (t : String) :
    (mapGet? (poll g).statuses t ≠ some playerAlive ∧ applyElimination g t = g) ∨
    (mapGet? (poll g).statuses t = some playerAlive ∧
      poll (applyElimination g t) =
        { poll g with
          statuses := mapModify (poll g).statuses t (fun _ => playerEliminated)
          TotalExiles := g.TotalExiles + 1
          VotesRemaining := quotaAfterExit g.VotesRemaining
          VoteCandidates := mapDel g.VoteCandidates t }) := by
  rw [statusOf_poll]
  unfold applyElimination statusOf
  cases hm : mapGet? g.Players t with
  | none => exact Or.inl ⟨by simp, rfl⟩
  | some target =>
    dsimp only
    by_cases hs : target.Status ≠ playerAlive
    · rw [if_pos hs]
      exact Or.inl ⟨by simpa using hs, rfl⟩
    · rw [if_neg hs]
      refine Or.inr ⟨by simpa using hs, ?_⟩
      rw [removeFromVoting_poll, handleSecretEliminationTriggers_poll,
        handleOnOwnerEliminated_poll]
      have hc : (handleSecretEliminationTriggers (handleOnOwnerEliminated
          { g with
            Players := mapModify g.Players t (fun p => { p with Status := playerEliminated })
            TotalExiles := g.TotalExiles + 1
            LastEliminatedID := t
            VotesRemaining :=
              if g.VotesRemaining > 0 then g.VotesRemaining - 1 else g.VotesRemaining } t)
          t).VoteCandidates = g.VoteCandidates := by
        have h1 := congrArg pollView.VoteCandidates (handleSecretEliminationTriggers_poll
          (handleOnOwnerEliminated
          { g with
            Players := mapModify g.Players t (fun p => { p with Status := playerEliminated })
            TotalExiles := g.TotalExiles + 1
            LastEliminatedID := t
            VotesRemaining :=
              if g.VotesRemaining > 0 then g.VotesRemaining - 1 else g.VotesRemaining } t) t)
        have h2 := congrArg pollView.VoteCandidates (handleOnOwnerEliminated_poll
          { g with
            Players := mapModify g.Players t (fun p => { p with Status := playerEliminated })
            TotalExiles := g.TotalExiles + 1
            LastEliminatedID := t
            VotesRemaining :=
              if g.VotesRemaining > 0 then g.VotesRemaining - 1 else g.VotesRemaining } t)
        exact h1.trans h2
      rw [hc]
      simp only [poll, playerStatuses_set, quotaAfterExit]



/-! ## The shape of the result of `applySpecial` -/

/-- The session that `applySpecial` returns is the session it was called with, or the session
that `applySpecialEffect` returns for an ability of the alive actor, possibly with one more
event counted and possibly with the ability shown as public. -/
theorem applySpecial_shape (g : gameSession) (actorID sid : String)
    (payload : GoMap AnyLeaf) (now : Int) :
    (applySpecial g actorID sid payload now).1 = g ∨
      ∃ player sp ep, mapGet? g.Players actorID = some player ∧
        player.Status = playerAlive ∧
        ((applySpecial g actorID sid payload now).1 =
            (applySpecialEffect g actorID player
              (player.Specials.findIdx (fun s => s.InstanceID = sid)) sp ep now).1 ∨
          (∃ counter, (applySpecial g actorID sid payload now).1 =
            { (applySpecialEffect g actorID player
                (player.Specials.findIdx (fun s => s.InstanceID = sid)) sp ep now).1 with
              EventCounter := counter }) ∨
          (∃ counter, (applySpecial g actorID sid payload now).1 =
            { (applySpecialEffect g actorID player
                (player.Specials.findIdx (fun s => s.InstanceID = sid)) sp ep now).1 with
              Players := (mapModify (applySpecialEffect g actorID player
                  (player.Specials.findIdx (fun s => s.InstanceID = sid)) sp ep now).1.Players
                actorID (fun p =>
                  { p with Specials := (listModify p.Specials
                      (player.Specials.findIdx (fun s => s.InstanceID = sid))
                      (fun sp => { sp with RevealedPublic := true })) }))
              EventCounter := counter })) := by
  generalize hr : applySpecial g actorID sid payload now = res
  unfold applySpecial at hr
  cases hp : mapGet? g.Players actorID with
  | none =>
    rw [hp] at hr
    subst hr
    exact Or.inl rfl
  | some player =>
    rw [hp] at hr
    dsimp only at hr
    by_cases h1 : player.Status ≠ playerAlive
    · rw [if_pos h1] at hr
      subst hr
      exact Or.inl rfl
    rw [if_neg h1] at hr
    by_cases h2 : g.Phase = scenarioPhaseEnded
    · rw [if_pos h2] at hr
      subst hr
      exact Or.inl rfl
    rw [if_neg h2] at hr
    by_cases h3 : sid = ""
    · rw [if_pos h3] at hr
      subst hr
      exact Or.inl rfl
    rw [if_neg h3, get?_findIdx] at hr
    cases hs : player.Specials.find? (fun sp => sp.InstanceID = sid) with
    | none =>
      rw [hs] at hr
      subst hr
      exact Or.inl rfl
    | some special =>
      rw [hs] at hr
      dsimp only at hr
      by_cases h4 : (!special.Definition.Implemented) = true
      · rw [if_pos h4] at hr
        subst hr
        exact Or.inl rfl
      rw [if_neg h4] at hr
      by_cases h5 : special.Used = true
      · rw [if_pos h5] at hr
        subst hr
        exact Or.inl rfl
      rw [if_neg h5] at hr
      by_cases h6 : (!g.IsDev) = true ∧ g.Settings.SpecialUsage = "only_during_voting" ∧
          g.Phase ≠ scenarioPhaseVoting
      · rw [if_pos h6] at hr
        subst hr
        exact Or.inl rfl
      rw [if_neg h6] at hr
      by_cases h7 : special.Definition.Trigger = "onOwnerEliminated" ∨
          special.Definition.Trigger = "secret_onEliminate"
      · rw [if_pos h7] at hr
        subst hr
        exact Or.inl rfl
      rw [if_neg h7] at hr
      by_cases h8 : special.Definition.ChoiceKind ≠ "" ∧ special.Definition.ChoiceKind ≠ "none" ∧
          mapLen payload = 0 ∧
          (!decide (special.Definition.ChoiceKind = "category" ∧
            asString (mapGet? special.Definition.Effect.Params "category") ≠ "")) = true
      · rw [if_pos h8] at hr
        subst hr
        exact Or.inl rfl
      rw [if_neg h8] at hr
      cases ht : resolveSpecialTarget g actorID special.Definition.TargetScope
          (mapEntries payload) with
      | error e =>
        rw [ht] at hr
        subst hr
        exact Or.inl rfl
      | ok ep =>
        rw [ht] at hr
        dsimp only at hr
        by_cases h9 : special.Definition.ChoiceKind = "player" ∧
            (!special.Definition.AllowSelf) = true ∧
            trimSpace (asString (mapGet? ep "targetPlayerId")) ≠ "" ∧
            trimSpace (asString (mapGet? ep "targetPlayerId")) = actorID
        · rw [if_pos h9] at hr
          subst hr
          exact Or.inl rfl
        rw [if_neg h9] at hr
        by_cases h10 : validateSpecialRequires g special ep ≠ ""
        · rw [if_pos h10] at hr
          subst hr
          exact Or.inl rfl
        rw [if_neg h10] at hr
        rw [← get?_findIdx] at hs
        by_cases herr : (applySpecialEffect g actorID player
            (player.Specials.findIdx (fun sp => sp.InstanceID = sid)) special ep now).2.1.Error ≠ ""
        · rw [if_pos herr] at hr
          subst hr
          exact Or.inr ⟨player, special, ep, rfl, not_not.mp h1, Or.inl rfl⟩
        rw [if_neg herr] at hr
        right
        refine ⟨player, special, ep, rfl, not_not.mp h1, ?_⟩
        by_cases h11 : (!(applySpecialEffect g actorID player
            (player.Specials.findIdx (fun sp => sp.InstanceID = sid)) special ep now).2.1.StateChanged) = true
        · rw [if_pos h11] at hr
          subst hr
          exact Or.inl rfl
        rw [if_neg h11] at hr
        by_cases h12 : (!special.RevealedPublic) = true
        · rw [if_pos h12] at hr
          by_cases hb : (applySpecialEffect g actorID player
              (player.Specials.findIdx (fun sp => sp.InstanceID = sid)) special ep now).2.2 = true
          · rw [if_pos hb] at hr
            subst hr
            exact Or.inr (Or.inr ⟨_, rfl⟩)
          · rw [if_neg hb] at hr
            subst hr
            exact Or.inr (Or.inl ⟨_, rfl⟩)
        · rw [if_neg h12] at hr
          subst hr
          exact Or.inl rfl

/-! ## Calls that leave roster and candidates alone -/

theorem markSpecialUsed_poll (g : gameSession) (a : String) (i : Nat) :
    poll (markSpecialUsed g a i) = poll g := poll_of_hard (markSpecialUsed_hard g a i)

theorem modifyCard_poll (g : gameSession) (a : String) (i : Nat) (f : handCard → handCard) :
    poll (modifyCard g a i f) = poll g := poll_of_hard (modifyCard_hard g a i f)

theorem poll_modify (g : gameSession) (k : String) (f : gamePlayer → gamePlayer)
    (hs : ∀ p, (f p).Status = p.Status) :
    poll { g with Players := mapModify g.Players k f } = poll g := by
  unfold poll
  simp only [playerStatuses_mapModify _ _ _ hs]

theorem applySpecialEffect_poll (g : gameSession) (a : String) (p : gamePlayer) (i : Nat)
    (sp : specialConditionState) (payload : GoMap AnyLeaf) (now : Int) :
    poll (applySpecialEffect g a p i sp payload now).1 = poll g := by
  generalize hr : applySpecialEffect g a p i sp payload now = res
  unfold applySpecialEffect at hr
  dsimp only at hr
  split at hr
  · subst hr
    rfl
  · split at hr
    all_goals try (repeat' split at hr)
    all_goals subst hr
    all_goals try simp only [makeEvent_poll, markSpecialUsed_poll, modifyCard_poll]
    all_goals first
      | with_reducible exact poll_of_hard (replaceCardEffect_hard _ _ _ _ _ _ _ _)
      | with_reducible exact poll_of_hard (redealEffect_hard _ _ _ _ _ _)
      | with_reducible exact poll_of_hard (stealBaggageEffect_hard _ _ _ _ _ _ _)
      | with_reducible exact poll_modify _ _ _ (fun _ => rfl)
      | with_reducible exact markVoteWasted_poll _ _ _ _
      | with_reducible exact (markVoteWasted_poll _ _ _ _).trans rfl
      | (refine Eq.trans (show _ = poll (resetVotesForRevote _ now) from rfl) ?_
         exact (resetVotesForRevote_poll _ _).trans rfl)
      | rfl

theorem applySpecial_poll (g : gameSession) (actorID sid : String)
    (payload : GoMap AnyLeaf) (now : Int) :
    poll (applySpecial g actorID sid payload now).1 = poll g := by
  rcases applySpecial_shape g actorID sid payload now with h | ⟨player, sp, ep, _, _, h⟩
  · rw [h]
  · have hE := applySpecialEffect_poll g actorID player
      (player.Specials.findIdx (fun s => s.InstanceID = sid)) sp ep now
    generalize applySpecialEffect g actorID player
      (player.Specials.findIdx (fun s => s.InstanceID = sid)) sp ep now = E at h hE
    rcases h with h | ⟨c, h⟩ | ⟨c, h⟩
    · rw [h]
      exact hE
    · rw [h]
      exact hE
    · rw [h]
      refine Eq.trans ?_ hE
      exact Eq.trans rfl (poll_modify E.1 actorID (fun p =>
        { p with Specials := (listModify p.Specials
            (player.Specials.findIdx (fun s => s.InstanceID = sid))
            (fun sp => { sp with RevealedPublic := true })) }) (fun _ => rfl))



/-! ## What the calls of the session do to roster and candidates -/

theorem applyElimination_step (g : gameSession) (t : String) :
    PollStep (poll g) (poll (applyElimination g t)) := by
  rcases applyElimination_poll g t with ⟨_, h⟩ | ⟨ha, h⟩
  · rw [h]
    exact PollStep_same rfl
  · rw [h]
    exact PollStep.exit t playerEliminated ha (Or.inl rfl) rfl rfl rfl rfl rfl
      (fun x hx => mapHas_mapDel _ _ _ hx)

theorem applyElimination_from (r : pollView) (g : gameSession) (t : String)
    (e : poll g = r) : PollStep r (poll (applyElimination g t)) :=
  e ▸ applyElimination_step g t

theorem startVoting_from (r : pollView) (g : gameSession) (now : Int)
    (e : poll g = r) : PollStep r (poll (startVoting g now)) :=
  e ▸ startVoting_step g now

theorem startNextRoundOrEnd_from (r : pollView) (g : gameSession) (now : Int)
    (e : poll g = r) : PollStep r (poll (startNextRoundOrEnd g now).1) :=
  e ▸ startNextRoundOrEnd_step g now

theorem revealCard_poll (g : gameSession) (actorID cardID : String) (now : Int) :
    poll (revealCard g actorID cardID now).1 = poll g := by
  unfold revealCard
  split
  · rfl
  · dsimp only [makeEvent]
    repeat' (first
      | with_reducible rfl
      | with_reducible refine ite_fst_eq poll _ _ _ _ ?_ ?_
      | with_reducible exact poll_modify _ _ _ (fun _ => rfl)
      | split
      | exact Eq.trans (show _ = poll (enterRevealDiscussion _ now) from rfl)
          ((enterRevealDiscussion_poll _ _).trans (Eq.trans rfl (poll_modify g actorID _ (fun _ => rfl)))))

theorem vote_poll (g : gameSession) (actorID targetID : String) (now : Int) :
    poll (vote g actorID targetID now).1 = poll g := by
  unfold vote
  dsimp only
  repeat' (first
    | with_reducible refine ite_fst_eq poll _ _ _ _ ?_ ?_
    | split
    | exact enterVoteSpecialWindow_poll _ _
    | rfl)

theorem advanceAfterDiscussion_step (g : gameSession) (now : Int) :
    PollStep (poll g) (poll (advanceAfterDiscussion g now).1) := by
  generalize hr : advanceAfterDiscussion g now = res
  unfold advanceAfterDiscussion at hr
  dsimp only at hr
  repeat' split at hr
  all_goals subst hr
  all_goals try simp only [makeEvent_poll, scheduleRevealTimeoutIfNeeded_poll]
  all_goals first
    | exact PollStep_same rfl
    | exact startVoting_from _ (clearActiveTimer g) now rfl
    | exact startNextRoundOrEnd_from _ (clearActiveTimer g) now rfl

theorem finalizeVoting_step (g : gameSession) (a : String) (now : Int) :
    PollStep (poll g) (poll (finalizeVoting g a now).1) := by
  unfold finalizeVoting
  refine ite_of (fun r : gameSession × gameActionResult => PollStep (poll g) (poll r.1)) _ _ _ (fun _ => PollStep_same rfl) (fun _ => ?_)
  refine ite_of (fun r : gameSession × gameActionResult => PollStep (poll g) (poll r.1)) _ _ _ (fun _ => PollStep_same rfl) (fun _ => ?_)
  refine ite_of (fun r : gameSession × gameActionResult => PollStep (poll g) (poll r.1)) _ _ _ (fun _ => PollStep_same rfl) (fun _ => ?_)
  dsimp only
  refine ite_of (fun r : gameSession × gameActionResult => PollStep (poll g) (poll r.1)) _ _ _ (fun _ => ?_) (fun _ => ?_)
  · dsimp only
    simp only [makeEvent_poll, startTieBreakRevote_poll]
    refine PollStep.still rfl rfl rfl rfl rfl (fun x hx => ?_)
    have hx2 := mapHas_fold_true _ x hx
    exact Or.inl (computeVoteTotals_subset _ _ x hx2)
  · generalize hG : @ite (gameSession × List gameEvent) ((if List.length _ > 0 then _ else "") ≠ "") _ _ _ = G4
    have hG4 : PollStep (poll g) (poll G4.1) := by
      rw [← hG]
      refine ite_of (fun r : gameSession × List gameEvent => PollStep (poll g) (poll r.1)) _ _ _
        (fun _ => ?_) (fun _ => ?_)
      · dsimp only
        generalize hE : applyElimination _ _ = E
        have hstep : PollStep (poll g) (poll E) := by
          rw [← hE]
          refine applyElimination_from _ _ _ ?_
          split <;> rfl
        clear hE
        refine ite_of (fun r : gameSession × List gameEvent => PollStep (poll g) (poll r.1)) _ _ _
          (fun _ => ?_) (fun _ => ?_)
        · exact PollStep_post hstep rfl
        · exact hstep
      · dsimp only [makeEvent]
        refine PollStep_same ?_
        split <;> rfl
    clear hG
    obtain ⟨G, ev⟩ := G4
    dsimp only at hG4 ⊢
    refine ite_of (fun r : gameSession × gameActionResult => PollStep (poll g) (poll r.1)) _ _ _ (fun _ => ?_) (fun _ => ?_)
    · exact PollStep_post hG4 ((finishGame_poll _ _ _).trans rfl)
    · exact PollStep_post hG4 ((schedulePhaseTimer_poll _ _ _ _).trans rfl)



/-- A step followed by the removal of candidates is a step of the same kind. -/
theorem PollStep_shrink {r r1 r2 : pollView} (h : PollStep r r1)
    (ho : r2.Order = r1.Order) (hs : r2.statuses = r1.statuses) (hr : r2.Round = r1.Round)
    (hv : r2.VotesRemaining = r1.VotesRemaining) (he : r2.TotalExiles = r1.TotalExiles)
    (hc : ∀ x, mapHas r2.VoteCandidates x = true → mapHas r1.VoteCandidates x = true) :
    PollStep r r2 := by
  cases h with
  | still a b c d e f =>
    exact PollStep.still (ho.trans a) (hs.trans b) (hr.trans c) (hv.trans d) (he.trans e)
      (fun x hx => f x (hc x hx))
  | advance a b c d e f =>
    refine PollStep.advance (ho.trans a) (hs.trans b) (hr.trans c) (hv ▸ d) (he.trans e) ?_
    cases hcand : r2.VoteCandidates with
    | nil => rfl
    | cons x t =>
      exfalso
      have h1 := hc x.1 (by rw [hcand]; simp [mapHas, mapGet?])
      rw [f] at h1
      simp [mapHas, mapGet?] at h1
  | exit t s a b c d e f g' k =>
    exact PollStep.exit t s a b (ho.trans c) (hs.trans d) (hr.trans e) (hv.trans f)
      (he.trans g') (fun x hx => k x (hc x hx))
  | relabel t a b c d e f k =>
    exact PollStep.relabel t a (ho.trans b) (hs.trans c) (hr.trans d) (hv.trans e)
      (he.trans f) (fun x hx => k x (hc x hx))
  | added id a b c d e f g' k =>
    exact PollStep.added id a b (ho.trans c) (hs.trans d) (hr.trans e) (hv.trans f)
      (he.trans g') (fun x hx => k x (hc x hx))
  | removed id a b c d e k =>
    exact PollStep.removed id (ho.trans a) (hs.trans b) (hr.trans c) (hv.trans d)
      (he.trans e) (fun x hx => k x (hc x hx))

theorem continueRound_step (g : gameSession) (a : String) (now : Int) :
    PollStep (poll g) (poll (continueRound g a now).1) := by
  generalize hr : continueRound g a now = res
  unfold continueRound at hr
  dsimp only at hr
  repeat' split at hr
  all_goals subst hr
  all_goals try simp only [makeEvent_poll, finishGame_poll]
  all_goals first
    | with_reducible exact PollStep_same rfl
    | with_reducible exact advanceAfterDiscussion_step _ _
    | with_reducible exact finalizeVoting_step _ _ _
    | with_reducible exact startVoting_step _ _
    | with_reducible exact startNextRoundOrEnd_step _ _

theorem kickPlayer_step (g : gameSession) (t : String) (now : Int) :
    PollStep (poll g) (poll (kickPlayer g t now).1) := by
  generalize hr : kickPlayer g t now = res
  unfold kickPlayer at hr
  cases hp : mapGet? g.Players t with
  | none =>
    rw [hp] at hr
    subst hr
    exact PollStep_same rfl
  | some player =>
    rw [hp] at hr
    dsimp only at hr
    generalize hE : applyElimination g t = E at hr
    have hstep : PollStep (poll g) (poll E) := hE ▸ applyElimination_step g t
    clear hE
    repeat' split at hr
    all_goals subst hr
    all_goals try simp only [makeEvent_poll, finishGame_poll]
    all_goals first
      | with_reducible exact PollStep_same rfl
      | exact PollStep_shrink hstep rfl rfl rfl rfl rfl (fun x hx => (mapHas_mapDel _ _ _ hx).1)

theorem passTurnFrom_poll (g : gameSession) (id : String) :
    poll (passTurnFrom g id) = poll g := poll_of_hard (passTurnFrom_hard g id)

theorem status_of_player (g : gameSession) (t : String) (player : gamePlayer)
    (hp : mapGet? g.Players t = some player) :
    mapGet? (playerStatuses g.Players) t = some player.Status := by
  rw [mapGet?_playerStatuses, hp]
  rfl

theorem PollStep_to {r : pollView} {T U : gameSession} (h : PollStep r (poll U))
    (e : poll T = poll U) : PollStep r (poll T) := e ▸ h

theorem markLeftBunker_step (g : gameSession) (targetID : String) (now : Int) :
    PollStep (poll g) (poll (markLeftBunker g targetID now).1) := by
  unfold markLeftBunker
  dsimp only
  generalize trimSpace targetID = t
  refine ite_of (fun r : gameSession × gameActionResult => PollStep (poll g) (poll r.1)) _ _ _ (fun _ => PollStep_same rfl) (fun h0 => ?_)
  split
  · exact PollStep_same rfl
  rename_i player hp
  refine ite_of (fun r : gameSession × gameActionResult => PollStep (poll g) (poll r.1)) _ _ _ (fun _ => PollStep_same rfl) (fun hleft => ?_)
  have hst := status_of_player g t player hp
  generalize hP : passTurnFrom _ _ = P
  have hPoll : poll P = { poll g with
      statuses := mapModify (playerStatuses g.Players) t (fun _ => playerLeftBunker)
      VoteCandidates := mapDel g.VoteCandidates t } := by
    rw [← hP, passTurnFrom_poll, removeFromVoting_poll]
    simp only [poll, playerStatuses_set]
  clear hP
  have h1 := congrArg pollView.Order hPoll
  have h2 := congrArg pollView.statuses hPoll
  have h3 := congrArg pollView.Round hPoll
  have h4 := congrArg pollView.VotesRemaining hPoll
  have h5 := congrArg pollView.TotalExiles hPoll
  have h6 := congrArg pollView.VoteCandidates hPoll
  simp only [poll] at h1 h2 h3 h4 h5 h6
  clear hPoll
  generalize hG : @ite gameSession (decide (player.Status = playerAlive) = true) _ _ _ = G4
  have hG4 : PollStep (poll g) (poll G4) := by
    rw [← hG]
    refine ite_of (fun s : gameSession => PollStep (poll g) (poll s)) _ _ _ (fun hw => ?_) (fun hw => ?_)
    · refine PollStep.exit t playerLeftBunker ?_ (Or.inr rfl) h1 h2 h3 ?_ ?_ (fun x hx => mapHas_mapDel _ _ _ (h6 ▸ hx))
      · show mapGet? (playerStatuses g.Players) t = some playerAlive
        rw [hst, of_decide_eq_true hw]
      · show (if P.VotesRemaining > 0 then P.VotesRemaining - 1 else P.VotesRemaining) = quotaAfterExit g.VotesRemaining
        rw [h4]
        rfl
      · show P.TotalExiles + 1 = g.TotalExiles + 1
        rw [h5]
    · refine PollStep.relabel t ?_ h1 h2 h3 h4 h5 (fun x hx => mapHas_mapDel _ _ _ (h6 ▸ hx))
      show mapGet? (playerStatuses g.Players) t ≠ some playerAlive
      rw [hst]
      intro hc
      exact hw (decide_eq_true (Option.some.inj hc))
  clear hG
  refine ite_of (fun r : gameSession × gameActionResult => PollStep (poll g) (poll r.1)) _ _ _ (fun _ => ?_) (fun _ => ?_)
  all_goals refine ite_of (fun r : gameSession × gameActionResult => PollStep (poll g) (poll r.1)) _ _ _ (fun _ => ?_) (fun _ => ?_)
  all_goals first
    | exact PollStep_to hG4 ((finishGame_poll _ _ _).trans rfl)
    | exact PollStep_to hG4 ((schedulePhaseTimer_poll _ _ _ _).trans rfl)
    | exact PollStep_to hG4 rfl

theorem playerStatuses_mapDel (ps : GoMap gamePlayer) (id : String) :
    playerStatuses (mapDel ps id) = mapDel (playerStatuses ps) id := by
  unfold playerStatuses mapDel
  rw [List.filter_map]
  rfl

theorem mapSet_fresh {V : Type} (m : GoMap V) (k : String) (v : V)
    (h : mapHas m k = false) : mapSet m k v = m ++ [(k, v)] := by
  unfold mapSet
  rw [if_neg (by rw [h]; decide)]

theorem devPlayerID_ne_empty (g : gameSession) (c : Int) : devPlayerID g c ≠ "" := by
  unfold devPlayerID
  intro h
  have h1 := congrArg String.length h
  have h4 : ("dev-" : String).length = 4 := by decide
  have h0 : ("" : String).length = 0 := by decide
  rw [String.length_append, String.length_append, String.length_append, h4, h0] at h1
  omega

theorem mapHas_mapSet {V : Type} (m : GoMap V) (k x : String) (v : V)
    (h : mapHas (mapSet m k v) x = true) : mapHas m x = true ∨ x = k := by
  unfold mapHas at h ⊢
  rw [mapGet?_mapSet] at h
  by_cases hk : k = x
  · exact Or.inr hk.symm
  · rw [if_neg hk] at h
    exact Or.inl h

theorem playerStatuses_append (ps : GoMap gamePlayer) (id : String) (q : gamePlayer) :
    playerStatuses (ps ++ [(id, q)]) = playerStatuses ps ++ [(id, q.Status)] := by
  unfold playerStatuses
  rw [List.map_append]
  rfl

theorem status_free (g : gameSession) (id : String) (h : mapHas g.Players id = false) :
    mapGet? (playerStatuses g.Players) id = none := by
  rw [mapGet?_playerStatuses]
  unfold mapHas at h
  cases hg : mapGet? g.Players id with
  | none => rfl
  | some v =>
    rw [hg] at h
    simp at h

theorem devRemovePlayer_step (g : gameSession) (targetID : String) (now : Int) :
    PollStep (poll g) (poll (devRemovePlayer g targetID now).1) := by
  generalize hr : devRemovePlayer g targetID now = res
  unfold devRemovePlayer at hr
  dsimp only at hr
  generalize (if trimSpace targetID = "" then
    (List.find? (playerIsBot g) g.Order.reverse).getD "" else trimSpace targetID) = t at hr
  by_cases hdev : (!g.IsDev) = true
  · rw [if_pos hdev] at hr
    subst hr
    exact PollStep_same rfl
  rw [if_neg hdev] at hr
  by_cases h0 : t = ""
  · rw [if_pos h0] at hr
    subst hr
    exact PollStep_same rfl
  rw [if_neg h0] at hr
  cases hp : mapGet? g.Players t with
  | none =>
    rw [hp] at hr
    subst hr
    exact PollStep_same rfl
  | some player =>
    rw [hp] at hr
    dsimp only at hr
    generalize hP : passTurnFrom _ _ = P at hr
    have hPoll : poll P = { poll g with
        Order := g.Order.filter (fun x => x ≠ t)
        statuses := mapDel (playerStatuses g.Players) t
        VoteCandidates := mapDel g.VoteCandidates t } := by
      rw [← hP, passTurnFrom_poll, removeFromVoting_poll]
      simp only [poll, playerStatuses_mapDel]
    clear hP
    have h1 := congrArg pollView.Order hPoll
    have h2 := congrArg pollView.statuses hPoll
    have h3 := congrArg pollView.Round hPoll
    have h4 := congrArg pollView.VotesRemaining hPoll
    have h5 := congrArg pollView.TotalExiles hPoll
    have h6 := congrArg pollView.VoteCandidates hPoll
    simp only [poll] at h1 h2 h3 h4 h5 h6
    clear hPoll
    repeat' split at hr
    all_goals subst hr
    all_goals try simp only [makeEvent_poll, finishGame_poll]
    all_goals simp only [poll, makeEvent, h1, h2, h3, h4, h5, h6]
    all_goals exact PollStep.removed t rfl rfl rfl rfl rfl (fun x hx => mapHas_mapDel _ _ _ hx)

theorem devAddPlayer_step (g : gameSession) (name : String) (now : Int) :
    PollStep (poll g) (poll (devAddPlayer g name now).1) := by
  generalize hr : devAddPlayer g name now = res
  unfold devAddPlayer at hr
  by_cases hdev : (!g.IsDev) = true
  · rw [if_pos hdev] at hr
    subst hr
    exact PollStep_same rfl
  rw [if_neg hdev] at hr
  dsimp only at hr
  have hfree := devFreshCounter_free g (g.DevBotCounter + 1)
  have hid := devPlayerID_ne_empty g (devFreshCounter g (g.Players.length + 1) (g.DevBotCounter + 1))
  have hid2 : devPlayerID { g with DevBotCounter :=
      (devFreshCounter g (g.Players.length + 1) (g.DevBotCounter + 1)) }
      (devFreshCounter g (g.Players.length + 1) (g.DevBotCounter + 1)) =
      devPlayerID g (devFreshCounter g (g.Players.length + 1) (g.DevBotCounter + 1)) := rfl
  rw [hid2] at hr
  generalize devPlayerID g (devFreshCounter g (g.Players.length + 1) (g.DevBotCounter + 1)) = id
    at hr hfree hid
  generalize hA : assignInitialSpecialsForPlayer _ _ _ = A at hr
  have hAh : hard A.1 = hard g := by
    rw [← hA]
    exact (assignInitialSpecialsForPlayer_hard _ _ _).trans
      ((drawInitialHandForPlayer_hard _ _).trans rfl)
  have hAP : A.1.Players = g.Players := by
    rw [← hA]
    exact (assignInitialSpecialsForPlayer_Players _ _ _).trans
      ((drawInitialHandForPlayer_Players _ _).trans rfl)
  clear hA
  have h1 := congrArg hardView.Order hAh
  have h3 := congrArg hardView.Round hAh
  have h4 := congrArg hardView.VotesRemaining hAh
  have h5 := congrArg hardView.TotalExiles hAh
  have h6 := congrArg hardView.VoteCandidates hAh
  simp only [hard] at h1 h3 h4 h5 h6
  clear hAh
  repeat' split at hr
  all_goals subst hr
  all_goals simp only [poll, makeEvent, h1, h3, h4, h5, h6, hAP, mapSet_fresh _ _ _ hfree,
    playerStatuses_append]
  all_goals refine PollStep.added id (status_free g id hfree) hid rfl rfl rfl rfl rfl ?_
  all_goals first
    | exact fun x hx => Or.inl hx
    | exact fun x hx => mapHas_mapSet _ _ _ _ hx



/-! ## The reveal of a card in the post-game -/

theorem mapModify_congr {V : Type} (m : GoMap V) (k : String) (f f2 : V → V) (v : V)
    (h : mapGet? m k = some v) (hf : f v = f2 v) : mapModify m k f = mapModify m k f2 := by
  induction m with
  | nil => rfl
  | cons e t ih =>
    obtain ⟨a, w⟩ := e
    unfold mapModify
    unfold mapGet? at h
    by_cases ha : a = k
    · rw [if_pos ha] at h
      simp only [Option.some.injEq] at h
      subst h
      rw [if_pos ha, if_pos ha, hf]
    · rw [if_neg ha] at h
      rw [if_neg ha, if_neg ha, ih h]

theorem find?_set_first (l : List handCard) (i : Nat) (c c2 : handCard) (cardID : String)
    (h1 : l.get? i = some c) (h2 : c2.InstanceID = cardID)
    (h3 : ∀ j x, j < i → l.get? j = some x → x.InstanceID ≠ cardID) :
    (l.set i c2).find? (fun x => x.InstanceID = cardID) = some c2 := by
  induction l generalizing i with
  | nil => simp at h1
  | cons a t ih =>
    cases i with
    | zero =>
      simp [List.set, List.find?_cons, h2]
    | succ i =>
      have ha : a.InstanceID ≠ cardID := h3 0 a (by omega) rfl
      simp only [List.set, List.find?_cons, ha, decide_False]
      exact ih i (by simpa using h1) (fun j x hj hx => h3 (j + 1) x (by omega) (by simpa using hx))

/-- Claim C27. In the phase `ended`, for a stored actor: when the post-game is active without
an outcome, the actor has not left the bunker and names an unrevealed card of the own hand,
`revealCard` (and the action `revealCard` of `handleAction`) succeeds with `StateChanged`,
that card, at some position `i` of the hand, becomes revealed and the session is otherwise
the same; when there is no post-game, or it is not active, or an outcome is recorded, the call
returns an error and leaves the session, hence the card, as it was. -/
theorem revealCard_post_game (g : gameSession) (actorID cardID : String) (now : Int)
    (p : gamePlayer) (hphase : g.Phase = scenarioPhaseEnded)
    (hp : mapGet? g.Players actorID = some p) :
    (∀ pg c, g.PostGame = some pg → pg.IsActive = true → pg.Outcome = "" →
      p.Status ≠ playerLeftBunker → ownCard g actorID cardID = some c → c.Revealed = false →
      (revealCard g actorID cardID now).2.Error = "" ∧
      (revealCard g actorID cardID now).2.StateChanged = true ∧
      (revealCard g actorID cardID now).2.Events = [] ∧
      ∃ i, p.Hand.get? i = some c ∧ c.InstanceID = cardID ∧
        (revealCard g actorID cardID now).1 =
          { g with Players := mapModify g.Players actorID (fun q =>
              { q with Hand := p.Hand.set i { c with Revealed := true } }) } ∧
        ownCard (revealCard g actorID cardID now).1 actorID cardID
          = some { c with Revealed := true }) ∧
    ((g.PostGame = none ∨ (∃ pg, g.PostGame = some pg ∧
        (pg.IsActive = false ∨ pg.Outcome ≠ ""))) →
      (revealCard g actorID cardID now).2.Error ≠ "" ∧
      (revealCard g actorID cardID now).1 = g) ∧
    (∀ payload, handleAction g actorID "revealCard" payload now =
      revealCard g actorID (payloadString payload "cardId") now) := by
  refine ⟨?_, ?_, ?_⟩
  · intro pg c hpg hact hout hleft hc hhid
    have hc2 : p.Hand.find? (fun x => x.InstanceID = cardID) = some c := by
      unfold ownCard at hc
      rw [hp] at hc
      exact hc
    obtain ⟨i, hi1, hi2, hi3, hi4⟩ := revealFirstMatching_eq_set cardID p.Hand c hc2
    have hres : revealCard g actorID cardID now =
        ({ g with Players := mapModify g.Players actorID (fun q =>
            { q with Hand := revealFirstMatching cardID q.Hand }) }, changedResult []) := by
      unfold revealCard
      rw [hp]
      dsimp only
      rw [if_pos hphase, hpg]
      dsimp only
      rw [if_neg (by simp [hact, hout]), if_neg hleft, hc2]
      dsimp only
      rw [if_neg (by simp [hhid])]
    have hmod : mapModify g.Players actorID (fun q =>
          { q with Hand := revealFirstMatching cardID q.Hand }) =
        mapModify g.Players actorID (fun q =>
          { q with Hand := p.Hand.set i { c with Revealed := true } }) := by
      rw [← hi4]
      exact mapModify_congr g.Players actorID _ _ p hp rfl
    rw [hres]
    refine ⟨rfl, rfl, rfl, i, hi1, hi2, ?_, ?_⟩
    · dsimp only
      rw [hmod]
    · unfold ownCard
      dsimp only
      rw [mapGet?_mapModify, if_pos rfl, hp]
      dsimp only [Option.map]
      rw [hi4]
      exact find?_set_first p.Hand i c { c with Revealed := true } cardID hi1 hi2 hi3
  · intro h
    unfold revealCard
    rw [hp]
    dsimp only
    rw [if_pos hphase]
    rcases h with h | ⟨pg, h, hx⟩
    · rw [h]
      exact ⟨by simp [errorResult], rfl⟩
    · rw [h]
      dsimp only
      rw [if_pos (by rcases hx with hx | hx <;> simp [hx])]
      exact ⟨by simp [errorResult], rfl⟩
  · intro payload
    rw [handleAction_revealCard, hp]

/-- Witness of `revealCard_post_game`: `p1` reveals the first card of the own hand in the
post-game of the example session. -/
theorem revealCard_post_game_witness :
    examplePostGame.Phase = scenarioPhaseEnded ∧
    (revealCard examplePostGame "p1" "p1-1" 5).2.Error = "" ∧
    (revealCard examplePostGame "p1" "p1-1" 5).2.StateChanged = true ∧
    (revealCard examplePostGame "p1" "p1-1" 5).2.Events = [] :=
  ⟨by decide,
    ((revealCard_post_game examplePostGame "p1" "p1-1" 5 _ (by decide) rfl).1 _ _ rfl rfl rfl
      (by decide) rfl rfl).1,
    ((revealCard_post_game examplePostGame "p1" "p1-1" 5 _ (by decide) rfl).1 _ _ rfl rfl rfl
      (by decide) rfl rfl).2.1,
    ((revealCard_post_game examplePostGame "p1" "p1-1" 5 _ (by decide) rfl).1 _ _ rfl rfl rfl
      (by decide) rfl rfl).2.2.1⟩



/-! ## The reveal of a threat card -/

theorem listModify_eq_set {α : Type} (l : List α) (i : Nat) (f : α → α) (a : α)
    (h : l.get? i = some a) : listModify l i f = l.set i (f a) := by
  induction l generalizing i with
  | nil => simp at h
  | cons b t ih =>
    cases i with
    | zero =>
      simp only [List.get?_cons_zero, Option.some.injEq] at h
      subst h
      rfl
    | succ i =>
      simp only [List.get?_cons_succ] at h
      simp only [listModify, List.set, ih i h]

theorem finalCount_le (g : gameSession) :
    (currentThreatModifier g).FinalCount ≤ (g.World.Threats.length : Int) := by
  unfold currentThreatModifier
  dsimp only
  split_ifs <;> omega

theorem finalCount_reveal (g : gameSession) (threats : List worldFacedCardView)
    (h : threats.length = g.World.Threats.length) :
    currentThreatModifier { g with World := { g.World with Threats := threats } } =
      currentThreatModifier g := by
  unfold currentThreatModifier
  dsimp only
  rw [h]

/-- Claim C24. The function `revealWorldThreat` returns an error and leaves the session as it
was when the phase is not `ended`, when the index is outside `[0, FinalCount)` of the
current threat modifier, or when `Settings.FinalThreatReveal` is `"host"` and the actor is not
the host. Otherwise the index is a position of `World.Threats`; on a card that is revealed
already the call is a no-op with an empty error and `StateChanged` false; on a hidden card
it succeeds with `StateChanged`, and the session is the same except that this one card is
revealed with `RevealedBy` set to the actor. -/
theorem revealWorldThreat_contract (g : gameSession) (actorID : String) (index : Int) :
    ((g.Phase ≠ scenarioPhaseEnded ∨ index < 0 ∨
        index ≥ (currentThreatModifier g).FinalCount ∨
        (g.Settings.FinalThreatReveal = "host" ∧ actorID ≠ g.HostID)) →
      (revealWorldThreat g actorID index).2.Error ≠ "" ∧
      (revealWorldThreat g actorID index).1 = g) ∧
    (g.Phase = scenarioPhaseEnded → 0 ≤ index →
      index < (currentThreatModifier g).FinalCount →
      ¬ (g.Settings.FinalThreatReveal = "host" ∧ actorID ≠ g.HostID) →
      index.toNat < g.World.Threats.length ∧
      ∃ target, g.World.Threats.get? index.toNat = some target ∧
        (target.IsRevealed = true →
          (revealWorldThreat g actorID index).2.Error = "" ∧
          (revealWorldThreat g actorID index).2.StateChanged = false ∧
          (revealWorldThreat g actorID index).1 = g) ∧
        (target.IsRevealed = false →
          (revealWorldThreat g actorID index).2.Error = "" ∧
          (revealWorldThreat g actorID index).2.StateChanged = true ∧
          (revealWorldThreat g actorID index).1 =
            { g with World := { g.World with Threats :=
                (g.World.Threats.set index.toNat
                  { target with IsRevealed := true, RevealedBy := actorID }) } })) := by
  constructor
  · intro h
    unfold revealWorldThreat
    by_cases h1 : g.Phase ≠ scenarioPhaseEnded
    · rw [if_pos h1]
      exact ⟨by simp [errorResult], rfl⟩
    rw [if_neg h1]
    by_cases h2 : index < 0 ∨ index ≥ (currentThreatModifier g).FinalCount
    · rw [if_pos h2]
      exact ⟨by simp [errorResult], rfl⟩
    rw [if_neg h2]
    by_cases h3 : g.Settings.FinalThreatReveal = "host" ∧ actorID ≠ g.HostID
    · rw [if_pos h3]
      exact ⟨by simp [errorResult], rfl⟩
    · exfalso
      rcases h with h | h | h | h
      · exact h1 h
      · exact h2 (Or.inl h)
      · exact h2 (Or.inr h)
      · exact h3 h
  · intro h1 h2 h3 h4
    have hlt : index.toNat < g.World.Threats.length := by
      have := finalCount_le g
      omega
    refine ⟨hlt, g.World.Threats.get ⟨index.toNat, hlt⟩, List.get?_eq_get hlt, ?_, ?_⟩
    · intro hrev
      unfold revealWorldThreat
      rw [if_neg (not_not.mpr h1), if_neg (by omega), if_neg h4, List.get?_eq_get hlt]
      dsimp only
      rw [if_pos hrev]
      exact ⟨rfl, rfl, rfl⟩
    · intro hrev
      unfold revealWorldThreat
      rw [if_neg (not_not.mpr h1), if_neg (by omega), if_neg h4, List.get?_eq_get hlt]
      dsimp only
      rw [if_neg (by rw [hrev]; decide), listModify_eq_set _ _ _ _ (List.get?_eq_get hlt)]
      exact ⟨rfl, rfl, rfl⟩

set_option maxRecDepth 100000 in
/-- Claim C25, counterexample: in the finished example session all four threat cards are
hidden and three are eligible; the host reveals the card at index 1, through `handleAction`,
while the card at index 0 stays hidden. -/
theorem threat_revealed_out_of_order :
    exampleFinished.Phase = scenarioPhaseEnded ∧
    exampleFinished.World.Threats.map (fun c => c.IsRevealed) = [false, false, false, false] ∧
    (handleAction exampleFinished "p1" "revealWorldThreat" (indexPayload 1) 6).2.Error = "" ∧
    (handleAction exampleFinished "p1" "revealWorldThreat" (indexPayload 1) 6).2.StateChanged
      = true ∧
    (handleAction exampleFinished "p1" "revealWorldThreat" (indexPayload 1) 6).1.World.Threats.map
      (fun c => c.IsRevealed) = [false, true, false, false] := by
  decide

/-- Claim C25, amended: threat cards can be revealed in any order. The call
`revealWorldThreat` with index `i` changes the state exactly when the phase is `ended`, `i`
lies in `[0, FinalCount)`, the actor is permitted and the card at `i` is hidden, whatever
the cards at other indices show; and a reveal leaves `FinalCount` as it was, so that the
other eligible cards stay eligible. -/
theorem threat_reveal_any_order (g : gameSession) (actorID : String) (index : Int) :
    ((revealWorldThreat g actorID index).2.StateChanged = true ↔
      (g.Phase = scenarioPhaseEnded ∧ 0 ≤ index ∧
        index < (currentThreatModifier g).FinalCount ∧
        ¬ (g.Settings.FinalThreatReveal = "host" ∧ actorID ≠ g.HostID) ∧
        ∃ target, g.World.Threats.get? index.toNat = some target ∧
          target.IsRevealed = false)) ∧
    currentThreatModifier (revealWorldThreat g actorID index).1 = currentThreatModifier g := by
  generalize hr : revealWorldThreat g actorID index = res
  unfold revealWorldThreat at hr
  by_cases h1 : g.Phase ≠ scenarioPhaseEnded
  · rw [if_pos h1] at hr
    subst hr
    exact ⟨⟨fun h => by simp [errorResult] at h, fun h => absurd h.1 h1⟩, rfl⟩
  rw [if_neg h1] at hr
  by_cases h2 : index < 0 ∨ index ≥ (currentThreatModifier g).FinalCount
  · rw [if_pos h2] at hr
    subst hr
    exact ⟨⟨fun h => by simp [errorResult] at h, fun h => by omega⟩, rfl⟩
  rw [if_neg h2] at hr
  by_cases h3 : g.Settings.FinalThreatReveal = "host" ∧ actorID ≠ g.HostID
  · rw [if_pos h3] at hr
    subst hr
    exact ⟨⟨fun h => by simp [errorResult] at h, fun h => absurd h3 h.2.2.2.1⟩, rfl⟩
  rw [if_neg h3] at hr
  cases ht : g.World.Threats.get? index.toNat with
  | none =>
    rw [ht] at hr
    subst hr
    exact ⟨⟨fun h => by simp [emptyResult] at h, fun h => by simp at h⟩, rfl⟩
  | some target =>
    rw [ht] at hr
    dsimp only at hr
    by_cases h4 : target.IsRevealed = true
    · rw [if_pos h4] at hr
      subst hr
      refine ⟨⟨fun h => by simp [emptyResult] at h, fun h => ?_⟩, rfl⟩
      obtain ⟨_, _, _, _, t, h5, h6⟩ := h
      simp only [Option.some.injEq] at h5
      subst h5
      rw [h4] at h6
      exact absurd h6 (by decide)
    · rw [if_neg h4] at hr
      subst hr
      refine ⟨⟨fun _ => ⟨not_not.mp h1, by omega, by omega, h3, target, rfl, by simpa using h4⟩,
        fun _ => rfl⟩, ?_⟩
      refine finalCount_reveal g _ ?_
      rw [listModify_eq_set _ _ _ _ ht, List.length_set]



/-! ## The outcome of the bunker -/

theorem schedulePhaseTimer_finale (g : gameSession) (k : String) (s now : Int) :
    finale (schedulePhaseTimer g k s now) = finale g := by
  unfold schedulePhaseTimer
  split <;> rfl

theorem scheduleRevealTimeoutIfNeeded_finale (g : gameSession) (now : Int) :
    finale (scheduleRevealTimeoutIfNeeded g now) = finale g := by
  unfold scheduleRevealTimeoutIfNeeded
  repeat' split
  all_goals first | rfl | exact schedulePhaseTimer_finale _ _ _ _

theorem passTurnFrom_finale (g : gameSession) (id : String) :
    finale (passTurnFrom g id) = finale g := by
  unfold passTurnFrom
  split <;> rfl

theorem handleOnOwnerEliminated_finale (g : gameSession) (id : String) :
    finale (handleOnOwnerEliminated g id) = finale g := by
  unfold handleOnOwnerEliminated
  split <;> rfl

theorem handleSecretEliminationTriggers_finale (g : gameSession) (id : String) :
    finale (handleSecretEliminationTriggers g id) = finale g := by
  unfold handleSecretEliminationTriggers
  refine foldl_keeps _ finale ?_ _ _
  intro s a
  rfl

theorem applyElimination_finale (g : gameSession) (id : String) :
    finale (applyElimination g id) = finale g := by
  unfold applyElimination
  split
  · rfl
  · split
    · rfl
    · refine Eq.trans (show _ = finale (handleSecretEliminationTriggers _ id) from rfl) ?_
      rw [handleSecretEliminationTriggers_finale, handleOnOwnerEliminated_finale]
      rfl

theorem drawFor_finale (g : gameSession) (p d s : String) :
    finale (drawFor g p d s).1 = finale g := by
  unfold drawFor
  simp only [nextCardInstanceID]
  split <;> rfl

theorem drawInitialHandForPlayer_finale (g : gameSession) (p : String) :
    finale (drawInitialHandForPlayer g p).1 = finale g := by
  unfold drawInitialHandForPlayer
  simp only [drawFor_finale]
  refine foldl_keeps _ (fun (acc : gameSession × List handCard) => finale acc.1) ?_ _ _
  intro s a
  exact drawFor_finale _ _ _ _

theorem drawSpecialFromPool_finale (g : gameSession) :
    finale (drawSpecialFromPool g).1 = finale g := by
  unfold drawSpecialFromPool
  split <;> rfl

theorem assignInitialSpecialsForPlayer_finale (g : gameSession) (p : String)
    (l : GoMap String) : finale (assignInitialSpecialsForPlayer g p l).1 = finale g := by
  unfold assignInitialSpecialsForPlayer
  simp only [nextSpecialInstanceID]
  repeat' split
  all_goals exact drawSpecialFromPool_finale g

theorem revealNextBunkerCard_finale (g : gameSession) (r : Int) :
    finale (revealNextBunkerCard g r) = finale g := by
  unfold revealNextBunkerCard
  repeat' split
  all_goals rfl

/-- In a session that is over with an active post-game `finishGame` does nothing. -/
theorem finishGame_settled (g : gameSession) (reason : String) (now : Int)
    (pg : postGameStateView) (h : finale g = (scenarioPhaseEnded, some pg))
    (ha : pg.IsActive = true) : (finishGame g reason now).1 = g := by
  have h1 : g.Phase = scenarioPhaseEnded := congrArg Prod.fst h
  have h2 : g.PostGame = some pg := congrArg Prod.snd h
  unfold finishGame
  rw [if_pos ⟨h1, by unfold postGameActive; rw [h2]; exact ha⟩]

theorem devAddPlayer_finale (g : gameSession) (name : String) (now : Int) :
    finale (devAddPlayer g name now).1 = finale g := by
  generalize hr : devAddPlayer g name now = res
  unfold devAddPlayer at hr
  split at hr
  · subst hr
    rfl
  · dsimp only at hr
    generalize hA : assignInitialSpecialsForPlayer _ _ _ = A at hr
    have hAf : finale A.1 = finale g := by
      rw [← hA, assignInitialSpecialsForPlayer_finale, drawInitialHandForPlayer_finale]
      rfl
    clear hA
    have h1 := congrArg Prod.fst hAf
    have h2 := congrArg Prod.snd hAf
    simp only [finale] at h1 h2
    repeat' split at hr
    all_goals subst hr
    all_goals simp only [finale, makeEvent, h1, h2]

theorem kickPlayer_finale (g : gameSession) (t : String) (now : Int)
    (pg : postGameStateView) (h : finale g = (scenarioPhaseEnded, some pg))
    (ha : pg.IsActive = true) : finale (kickPlayer g t now).1 = finale g := by
  have h1 : g.Phase = scenarioPhaseEnded := congrArg Prod.fst h
  have h2 : g.PostGame = some pg := congrArg Prod.snd h
  generalize hr : kickPlayer g t now = res
  unfold kickPlayer at hr
  cases hp : mapGet? g.Players t with
  | none =>
    rw [hp] at hr
    subst hr
    rfl
  | some player =>
    rw [hp] at hr
    dsimp only at hr
    generalize hE : applyElimination g t = E at hr
    have hEf : finale E = finale g := hE ▸ applyElimination_finale g t
    clear hE
    have hE1 : E.Phase = g.Phase := congrArg Prod.fst hEf
    have hE2 : E.PostGame = g.PostGame := congrArg Prod.snd hEf
    repeat' split at hr
    all_goals subst hr
    all_goals first
      | rfl
      | (simp only [finale, makeEvent, removeFromVoting, hE1, hE2]
         done)
      | (dsimp only [makeEvent]
         rw [finishGame_settled _ _ _ pg ?_ ha]
         · simp only [finale, removeFromVoting, hE1, hE2]
         · simp only [finale, removeFromVoting, hE1, hE2, h1, h2])

theorem devRemovePlayer_finale (g : gameSession) (t : String) (now : Int)
    (pg : postGameStateView) (h : finale g = (scenarioPhaseEnded, some pg))
    (ha : pg.IsActive = true) : finale (devRemovePlayer g t now).1 = finale g := by
  have h1 : g.Phase = scenarioPhaseEnded := congrArg Prod.fst h
  have h2 : g.PostGame = some pg := congrArg Prod.snd h
  generalize hr : devRemovePlayer g t now = res
  unfold devRemovePlayer at hr
  dsimp only at hr
  generalize hP : passTurnFrom _ _ = P at hr
  have hPf : finale P = finale g := by
    rw [← hP, passTurnFrom_finale]
    rfl
  clear hP
  have hP1 : P.Phase = g.Phase := congrArg Prod.fst hPf
  have hP2 : P.PostGame = g.PostGame := congrArg Prod.snd hPf
  repeat' split at hr
  all_goals subst hr
  all_goals first
    | rfl
    | (simp only [finale, makeEvent, hP1, hP2]
       done)
    | (dsimp only [makeEvent]
       rw [finishGame_settled _ _ _ pg ?_ ha]
       · simp only [finale, hP1, hP2]
       · simp only [finale, hP1, hP2, h1, h2])

theorem passTurnFrom_PostGame (g : gameSession) (id : String) :
    (passTurnFrom g id).PostGame = g.PostGame := by
  unfold passTurnFrom
  split <;> rfl

theorem finishGame_keeps_record (g : gameSession) (reason : String) (now : Int)
    (pg : postGameStateView) (hp : g.Phase = scenarioPhaseEnded) (hpg : g.PostGame = some pg)
    (ha : pg.IsActive = true) : (finishGame g reason now).1.PostGame = some pg := by
  have hf : finale g = (scenarioPhaseEnded, some pg) := by
    unfold finale
    rw [hp, hpg]
  rw [finishGame_settled g reason now pg hf ha]
  exact hpg

theorem markLeftBunker_PostGame (g : gameSession) (t : String) (now : Int)
    (pg : postGameStateView) (h1 : g.Phase = scenarioPhaseEnded) (h2 : g.PostGame = some pg)
    (ha : pg.IsActive = true) : (markLeftBunker g t now).1.PostGame = some pg := by
  unfold markLeftBunker
  dsimp only [makeEvent, clearActiveTimer, removeFromVoting]
  repeat' (first
    | with_reducible exact h2
    | with_reducible exact h1
    | with_reducible exact (passTurnFrom_PostGame _ _).trans h2
    | with_reducible exact (passTurnFrom_Phase _ _).trans h1
    | (exfalso
       have hv := (‹_ ∧ _› : _ ∧ _).1
       revert hv
       refine ite_of (fun s : gameSession => s.Phase = scenarioPhaseVoting → False) _ _ _ ?_ ?_
       all_goals (intro _ hv; exact absurd (hv.symm.trans ((passTurnFrom_Phase _ _).trans h1)) (by decide)))
    | with_reducible refine finishGame_keeps_record _ _ _ pg ?_ ?_ ha
    | with_reducible refine ite_of (fun s : gameSession => s.PostGame = some pg) _ _ _ (fun _ => ?_) (fun _ => ?_)
    | with_reducible refine ite_of (fun s : gameSession => s.Phase = scenarioPhaseEnded) _ _ _ (fun _ => ?_) (fun _ => ?_)
    | with_reducible refine ite_of (fun r : gameSession × gameActionResult => r.1.PostGame = some pg) _ _ _ (fun _ => ?_) (fun _ => ?_)
    | split)

theorem markLeftBunker_finale (g : gameSession) (t : String) (now : Int)
    (pg : postGameStateView) (h : finale g = (scenarioPhaseEnded, some pg))
    (ha : pg.IsActive = true) : finale (markLeftBunker g t now).1 = finale g := by
  have h1 : g.Phase = scenarioPhaseEnded := congrArg Prod.fst h
  have h2 : g.PostGame = some pg := congrArg Prod.snd h
  rw [h]
  unfold finale
  rw [markLeftBunker_ended g t now h1, markLeftBunker_PostGame g t now pg h1 h2 ha]



theorem revealCard_finale (g : gameSession) (actorID cardID : String) (now : Int)
    (h : g.Phase = scenarioPhaseEnded) :
    finale (revealCard g actorID cardID now).1 = finale g := by
  generalize hr : revealCard g actorID cardID now = res
  unfold revealCard at hr
  cases hp : mapGet? g.Players actorID with
  | none =>
    rw [hp] at hr
    subst hr
    rfl
  | some player =>
    rw [hp] at hr
    dsimp only at hr
    rw [if_pos h] at hr
    repeat' split at hr
    all_goals subst hr
    all_goals rfl

theorem revealWorldThreat_finale (g : gameSession) (a : String) (i : Int) :
    finale (revealWorldThreat g a i).1 = finale g := by
  unfold revealWorldThreat
  repeat' split
  all_goals rfl

theorem startNextRoundOrEnd_PostGame (g : gameSession) (now : Int)
    (pg : postGameStateView) (h : finale g = (scenarioPhaseEnded, some pg))
    (ha : pg.IsActive = true) : (startNextRoundOrEnd g now).1.PostGame = g.PostGame := by
  unfold startNextRoundOrEnd
  split
  · rw [finishGame_settled g _ now pg h ha]
  · dsimp only
    split
    · rw [finishGame_settled g _ now pg h ha]
    · dsimp only [makeEvent]
      refine (congrArg Prod.snd (scheduleRevealTimeoutIfNeeded_finale _ now)).trans ?_
      exact congrArg Prod.snd (revealNextBunkerCard_finale _ _)

theorem handleTimerExpired_finale (g : gameSession) (now : Int)
    (h : g.Phase = scenarioPhaseEnded) :
    finale (handleTimerExpired g now).1 = finale g := by
  have h1 : (clearActiveTimer g).Phase = scenarioPhaseEnded := h
  have h0 : finale (clearActiveTimer g) = finale g := rfl
  have hr : (clearActiveTimer g).Phase = scenarioPhaseReveal → False :=
    fun hc => absurd (h1.symm.trans hc) (by decide)
  have hd : (clearActiveTimer g).Phase = scenarioPhaseRevealDiscussion → False :=
    fun hc => absurd (h1.symm.trans hc) (by decide)
  have hv : (clearActiveTimer g).Phase = scenarioPhaseVoting ∧
      (clearActiveTimer g).VotePhase = votePhaseSpecialWindow → False :=
    fun hc => absurd (h1.symm.trans hc.1) (by decide)
  have hs : (clearActiveTimer g).Phase = scenarioPhaseResolution → False :=
    fun hc => absurd (h1.symm.trans hc) (by decide)
  unfold handleTimerExpired
  split
  · rfl
  · dsimp only
    repeat' (first
      | with_reducible rfl
      | with_reducible exact h0
      | with_reducible refine ite_of (fun r : gameSession × gameActionResult => finale r.1 = finale g) _ _ _ (fun hc => (hr hc).elim) (fun _ => ?_)
      | with_reducible refine ite_of (fun r : gameSession × gameActionResult => finale r.1 = finale g) _ _ _ (fun hc => (hd hc).elim) (fun _ => ?_)
      | with_reducible refine ite_of (fun r : gameSession × gameActionResult => finale r.1 = finale g) _ _ _ (fun hc => (hv hc).elim) (fun _ => ?_)
      | with_reducible refine ite_of (fun r : gameSession × gameActionResult => finale r.1 = finale g) _ _ _ (fun hc => (hs hc).elim) (fun _ => ?_)
      | with_reducible refine ite_of (fun r : gameSession × gameActionResult => finale r.1 = finale g) _ _ _ (fun _ => ?_) (fun _ => ?_))

/-- What `setBunkerOutcome` does, case by case. -/
theorem setBunkerOutcome_cases (g : gameSession) (actorID outcome : String) (now : Int) :
    ((∃ pg, g.PostGame = some pg ∧ g.Phase = scenarioPhaseEnded ∧ pg.IsActive = true ∧
        actorID = g.HostID ∧ pg.Outcome = "" ∧ (outcome = "survived" ∨ outcome = "failed") ∧
        (setBunkerOutcome g actorID outcome now).2.Error = "" ∧
        (setBunkerOutcome g actorID outcome now).2.StateChanged = true ∧
        (setBunkerOutcome g actorID outcome now).1 =
          { g with
            PostGame := some { pg with Outcome := outcome, DecidedBy := actorID, DecidedAt := now }
            LastStageText :=
              (if outcome = "survived" then "Финал: бункер выжил."
               else "Финал: бункер не выжил.")
            EventCounter := g.EventCounter + 1 }) ∨
      ((setBunkerOutcome g actorID outcome now).2.Error ≠ "" ∧
        (setBunkerOutcome g actorID outcome now).1 = g ∧
        ¬ ∃ pg, g.PostGame = some pg ∧ g.Phase = scenarioPhaseEnded ∧ pg.IsActive = true ∧
          actorID = g.HostID ∧ pg.Outcome = "" ∧
          (outcome = "survived" ∨ outcome = "failed"))) := by
  unfold setBunkerOutcome
  cases hpg : g.PostGame with
  | none => exact Or.inr ⟨by simp [errorResult], rfl, by simp⟩
  | some pg =>
    dsimp only
    by_cases h1 : g.Phase ≠ scenarioPhaseEnded ∨ (!pg.IsActive) = true
    · rw [if_pos h1]
      refine Or.inr ⟨by simp [errorResult], rfl, ?_⟩
      rintro ⟨q, hq, h2, h3, _⟩
      simp only [Option.some.injEq] at hq
      subst hq
      rcases h1 with h1 | h1
      · exact h1 h2
      · rw [h3] at h1
        exact absurd h1 (by decide)
    rw [if_neg h1]
    by_cases h2 : actorID ≠ g.HostID
    · rw [if_pos h2]
      exact Or.inr ⟨by simp [errorResult], rfl, fun ⟨_, _, _, _, h, _⟩ => h2 h⟩
    rw [if_neg h2]
    by_cases h3 : pg.Outcome ≠ ""
    · rw [if_pos h3]
      refine Or.inr ⟨by simp [errorResult], rfl, ?_⟩
      rintro ⟨q, hq, _, _, _, h, _⟩
      simp only [Option.some.injEq] at hq
      subst hq
      exact h3 h
    rw [if_neg h3]
    by_cases h4 : outcome ≠ "survived" ∧ outcome ≠ "failed"
    · rw [if_pos h4]
      refine Or.inr ⟨by simp [errorResult], rfl, ?_⟩
      rintro ⟨_, _, _, _, _, _, h | h⟩
      · exact h4.1 h
      · exact h4.2 h
    rw [if_neg h4]
    refine Or.inl ⟨pg, rfl, ?_, ?_, not_not.mp h2, not_not.mp h3, ?_, rfl, rfl, ?_⟩
    · by_contra hc
      exact h1 (Or.inl hc)
    · cases hact : pg.IsActive
      · exact absurd (Or.inr (by rw [hact]; rfl)) h1
      · rfl
    · by_cases ho : outcome = "survived"
      · exact Or.inl ho
      · by_cases hf : outcome = "failed"
        · exact Or.inr hf
        · exact absurd ⟨ho, hf⟩ h4
    · simp only [makeEvent, hpg]

theorem setBunkerOutcome_recorded (g : gameSession) (actorID outcome : String) (now : Int)
    (pg : postGameStateView) (h : g.PostGame = some pg) (ho : pg.Outcome ≠ "") :
    (setBunkerOutcome g actorID outcome now).1 = g := by
  rcases setBunkerOutcome_cases g actorID outcome now with
    ⟨q, hq, _, _, _, h5, _⟩ | ⟨_, h2, _⟩
  · rw [h] at hq
    simp only [Option.some.injEq] at hq
    subst hq
    exact absurd h5 ho
  · exact h2

/-- In a session that is over, with an active post-game and a recorded outcome, every action
of the core session leaves the post-game record as it was. -/
theorem handleAction_PostGame (g : gameSession) (actorID actionType : String)
    (payload : GoMap AnyVal) (now : Int) (pg : postGameStateView)
    (h : finale g = (scenarioPhaseEnded, some pg)) (ha : pg.IsActive = true)
    (ho : pg.Outcome ≠ "") :
    (handleAction g actorID actionType payload now).1.PostGame = g.PostGame := by
  have h1 : g.Phase = scenarioPhaseEnded := congrArg Prod.fst h
  have h2 : g.PostGame = some pg := congrArg Prod.snd h
  unfold handleAction
  split
  · rfl
  · split
    · exact congrArg Prod.snd (revealCard_finale _ _ _ _ h1)
    · exact congrArg gameSession.PostGame (continueRound_ended g _ _ h1)
    · exact congrArg gameSession.PostGame (vote_ended g _ _ _ h1)
    · exact congrArg gameSession.PostGame (finalizeVoting_ended g _ _ h1)
    · exact congrArg gameSession.PostGame
        (applySpecial_rejects g _ _ _ _ (Or.inr (Or.inl h1))).2
    · exact congrArg Prod.snd (revealWorldThreat_finale _ _ _)
    · exact congrArg gameSession.PostGame (setBunkerOutcome_recorded g _ _ _ pg h2 ho)
    · exact startNextRoundOrEnd_PostGame g now pg h ha
    · exact congrArg Prod.snd (kickPlayer_finale _ _ _ pg h ha)
    · exact congrArg Prod.snd (devAddPlayer_finale _ _ _)
    · exact congrArg Prod.snd (devRemovePlayer_finale _ _ _ pg h ha)
    · exact congrArg Prod.snd (markLeftBunker_finale _ _ _ pg h ha)
    · rfl

theorem removeFromVotingDev_finale (g : gameSession) (targetID : String) (now : Int)
    (h : g.Phase = scenarioPhaseEnded) :
    finale (removeFromVotingDev g targetID now) = finale g := by
  unfold removeFromVotingDev
  dsimp only
  rw [if_neg]
  · rfl
  · intro hc
    exact absurd (hc.1.symm.trans h) (by decide)

theorem devMarkLeftBunker_finale (g : gameSession) (targetID : String) (now : Int)
    (h : g.Phase = scenarioPhaseEnded) :
    finale (devMarkLeftBunker g targetID now).1 = finale g := by
  unfold devMarkLeftBunker
  dsimp only
  split
  · rfl
  · split
    · rfl
    · split
      · rfl
      · exact (passTurnFrom_finale _ _).trans (removeFromVotingDev_finale _ _ _ h)

theorem devHandleAction_PostGame (g : gameSession) (actorID actionType : String)
    (payload : GoMap AnyVal) (now : Int) (pg : postGameStateView)
    (h : finale g = (scenarioPhaseEnded, some pg)) (ha : pg.IsActive = true)
    (ho : pg.Outcome ≠ "") :
    (devHandleAction g actorID actionType payload now).1.PostGame = g.PostGame := by
  have h1 : g.Phase = scenarioPhaseEnded := congrArg Prod.fst h
  have hcore : ∀ t, t ≠ "devSkipRound" →
      (postProcess (handleAction g actorID t payload now).1
        (handleAction g actorID t payload now).2 now).1.PostGame = g.PostGame := by
    intro t ht
    rw [postProcess_ended _ _ _ (handleAction_ended g actorID t payload now h1 ht)]
    exact handleAction_PostGame g actorID t payload now pg h ha ho
  unfold devHandleAction
  dsimp only
  split
  · exact hcore _ (by decide)
  · rfl
  · rw [devSkipRound_ended g _ _ h1, postProcess_ended _ _ _ h1]
  · rw [postProcess_ended _ _ _ (devMarkLeftBunker_ended _ _ _ h1)]
    exact congrArg Prod.snd (devMarkLeftBunker_finale _ _ _ h1)
  · exact hcore _ (by decide)
  · exact hcore _ (by decide)
  · exact hcore _ (by decide)
  · split
    · rfl
    · split
      · rfl
      · rfl

theorem devHandleTimerExpired_PostGame (g : gameSession) (now : Int)
    (h : g.Phase = scenarioPhaseEnded) :
    (devHandleTimerExpired g now).1.PostGame = g.PostGame := by
  unfold devHandleTimerExpired
  dsimp only
  rw [postProcess_ended _ _ _ (handleTimerExpired_ended g now h)]
  exact congrArg Prod.snd (handleTimerExpired_finale g now h)





/-! ## The reveal timeout -/

theorem hiddenIndex_spec (l : List handCard) (k : Nat)
    (h : k ∈ (l.enum.filter (fun e => !e.2.Revealed)).map Prod.fst) :
    ∃ c, l.get? k = some c ∧ c.Revealed = false := by
  obtain ⟨⟨i, c⟩, he, rfl⟩ := List.mem_map.1 h
  obtain ⟨h1, h2⟩ := List.mem_filter.1 he
  refine ⟨c, ?_, by simpa using h2⟩
  rw [List.get?_eq_getElem?]
  exact List.mk_mem_enum_iff_getElem?.1 h1

theorem hiddenIndex_nonempty (l : List handCard) (c : handCard) (hc : c ∈ l)
    (hh : c.Revealed = false) :
    ((l.enum.filter (fun e => !e.2.Revealed)).map Prod.fst).length > 0 := by
  obtain ⟨i, hi, rfl⟩ := List.getElem_of_mem hc
  have hm : (i, l[i]) ∈ l.enum := List.mk_mem_enum_iff_getElem?.2 (List.getElem?_eq_getElem hi)
  have : i ∈ (l.enum.filter (fun e => !e.2.Revealed)).map Prod.fst :=
    List.mem_map.2 ⟨(i, l[i]), List.mem_filter.2 ⟨hm, by simp [hh]⟩, rfl⟩
  exact List.length_pos_of_mem this

theorem intn_lt (rng : List Nat) (n : Nat) (h : 0 < n) : (intn rng n).1 < n := by
  unfold intn
  cases rng with
  | nil => exact h
  | cons r t => exact Nat.mod_lt _ h

theorem getD_mem_of_lt {α : Type} (l : List α) (i : Nat) (d : α) (h : i < l.length) :
    l.getD i d ∈ l := by
  rw [List.getD_eq_getElem l d h]
  exact List.getElem_mem h

/-- What the expiry of the reveal timer does in the phase `reveal` when the timeout action
is `random_card` and the alive player at the turn holds a hidden card. -/
theorem handleTimerExpired_random_card (g : gameSession) (now : Int) (timer : gameTimerState)
    (p : gamePlayer) (ht : g.ActiveTimer = some timer)
    (hk : timer.Kind = scenarioPhaseRevealDiscussion) (he : timer.EndsAt ≤ now)
    (hphase : g.Phase = scenarioPhaseReveal)
    (hact : g.Settings.RevealTimeoutAction = "random_card")
    (hturn : g.CurrentTurnID ≠ "") (hp : mapGet? g.Players g.CurrentTurnID = some p)
    (halive : p.Status = playerAlive)
    (hhid : ((p.Hand.enum.filter (fun e => !e.2.Revealed)).map Prod.fst).length > 0) :
    ∃ i c, p.Hand.get? i = some c ∧ c.Revealed = false ∧
      (handleTimerExpired g now).2.Error = "" ∧
      (handleTimerExpired g now).2.StateChanged = true ∧
      (handleTimerExpired g now).1 =
        (makeEvent (enterRevealDiscussion
            { g with
              ActiveTimer := none
              rng := (intn g.rng
                ((p.Hand.enum.filter (fun e => !e.2.Revealed)).map Prod.fst).length).2
              Players := (mapModify g.Players g.CurrentTurnID (fun q =>
                { q with Hand := listModify q.Hand i (fun x => { x with Revealed := true }) }))
              FirstHealthRevealerID :=
                (if c.Deck = "Здоровье" ∧ g.FirstHealthRevealerID = "" then g.CurrentTurnID
                 else g.FirstHealthRevealerID)
              RevealedThisRnd := mapSet g.RevealedThisRnd g.CurrentTurnID true
              LastRevealerID := g.CurrentTurnID
              LastStageText := "Таймаут: " ++ p.Name ++ " автоматически раскрыл карту." } now)
          "info" ("Таймаут: " ++ p.Name ++ " автоматически раскрыл карту.") now).1 := by
  have hidx := getD_mem_of_lt _ _ 0 (intn_lt g.rng _ hhid)
  obtain ⟨c, hc1, hc2⟩ := hiddenIndex_spec p.Hand _ hidx
  refine ⟨_, c, hc1, hc2, ?_⟩
  have hres : handleTimerExpired g now = handleRevealPhaseTimeout (clearActiveTimer g) now := by
    unfold handleTimerExpired
    rw [ht]
    dsimp only
    rw [if_neg (not_lt.mpr he), hk, if_pos rfl, if_pos (by exact hphase)]
  rw [hres]
  unfold handleRevealPhaseTimeout
  dsimp only
  rw [if_neg (by exact hturn)]
  rw [show mapGet? (clearActiveTimer g).Players (clearActiveTimer g).CurrentTurnID = some p
    from hp]
  dsimp only
  rw [if_neg (by simp [halive]),
    if_pos ⟨(by exact hact), hhid⟩]
  dsimp only [makeEvent]
  refine ⟨rfl, rfl, ?_⟩
  simp only [clearActiveTimer, modifyCard, hc1, Option.map, Option.getD]
  by_cases hd : c.Deck = "Здоровье" ∧ g.FirstHealthRevealerID = ""
  · simp only [if_pos hd]
  · simp only [if_neg hd]

/-- Claim C29. When the reveal timer has run out (a timer of kind `reveal_discussion` whose
`EndsAt` is not after `now`) in the phase `reveal`, the timeout action is `random_card` and
the player at the turn is alive and holds a hidden card, `handleTimerExpired` succeeds,
turns exactly one card of that player from hidden to revealed and leaves every other card
and every other player as they were, marks the player in `RevealedThisRnd` and moves the
phase to `reveal_discussion`; with no active timer, or with `now` before `EndsAt`, the
session is returned as it was, with the empty result. -/
theorem reveal_timeout_random_card (g : gameSession) (now : Int) :
    (∀ timer p, g.ActiveTimer = some timer → timer.Kind = scenarioPhaseRevealDiscussion →
      timer.EndsAt ≤ now → g.Phase = scenarioPhaseReveal →
      g.Settings.RevealTimeoutAction = "random_card" → g.CurrentTurnID ≠ "" →
      mapGet? g.Players g.CurrentTurnID = some p → p.Status = playerAlive →
      (∃ c ∈ p.Hand, c.Revealed = false) →
      ∃ i c, p.Hand.get? i = some c ∧ c.Revealed = false ∧
        (handleTimerExpired g now).2.Error = "" ∧
        (handleTimerExpired g now).2.StateChanged = true ∧
        (handleTimerExpired g now).1.Players =
          mapModify g.Players g.CurrentTurnID
            (fun q => { q with Hand := p.Hand.set i { c with Revealed := true } }) ∧
        mapGet? (handleTimerExpired g now).1.RevealedThisRnd g.CurrentTurnID = some true ∧
        (handleTimerExpired g now).1.Phase = scenarioPhaseRevealDiscussion) ∧
    (g.ActiveTimer = none → handleTimerExpired g now = (g, emptyResult)) ∧
    (∀ timer, g.ActiveTimer = some timer → now < timer.EndsAt →
      handleTimerExpired g now = (g, emptyResult)) := by
  refine ⟨?_, ?_, ?_⟩
  · intro timer p ht hk he hphase hact hturn hp halive hhid
    have hlen : ((p.Hand.enum.filter (fun e => !e.2.Revealed)).map Prod.fst).length > 0 :=
      hhid.elim (fun c hc => hiddenIndex_nonempty p.Hand c hc.1 hc.2)
    obtain ⟨i, c, hc1, hc2, h1, h2, h3⟩ :=
      handleTimerExpired_random_card g now timer p ht hk he hphase hact hturn hp halive hlen
    refine ⟨i, c, hc1, hc2, h1, h2, ?_, ?_, ?_⟩
    · rw [h3]
      have hP : ∀ s : gameSession, (enterRevealDiscussion s now).Players = s.Players := by
        intro s
        unfold enterRevealDiscussion schedulePhaseTimer clearActiveTimer
        dsimp only
        repeat' split
        all_goals rfl
      simp only [makeEvent, hP]
      refine mapModify_congr _ _ _ _ p hp ?_
      simp only [listModify_eq_set p.Hand i _ c hc1]
    · rw [h3]
      have hP : ∀ s : gameSession,
          (enterRevealDiscussion s now).RevealedThisRnd = s.RevealedThisRnd := by
        intro s
        unfold enterRevealDiscussion schedulePhaseTimer clearActiveTimer
        dsimp only
        repeat' split
        all_goals rfl
      simp only [makeEvent, hP]
      rw [mapGet?_mapSet, if_pos rfl]
    · rw [h3]
      have hP : ∀ s : gameSession,
          (enterRevealDiscussion s now).Phase = scenarioPhaseRevealDiscussion := by
        intro s
        unfold enterRevealDiscussion schedulePhaseTimer clearActiveTimer
        dsimp only
        repeat' split
        all_goals rfl
      simp only [makeEvent, hP]
  · intro h
    unfold handleTimerExpired
    rw [h]
  · intro timer h hlt
    unfold handleTimerExpired
    rw [h]
    dsimp only
    rw [if_pos hlt]

set_option maxRecDepth 100000 in
/-- The timeout of the test session: `p1` is at the turn with two hidden cards. -/
theorem reveal_timeout_random_card_witness :
    ∃ i c, (exampleHand "p1").get? i = some c ∧ c.Revealed = false ∧
      (handleTimerExpired exampleTimedOut 10).2.Error = "" ∧
      (handleTimerExpired exampleTimedOut 10).2.StateChanged = true ∧
      (handleTimerExpired exampleTimedOut 10).1.Players =
        mapModify exampleTimedOut.Players "p1"
          (fun q => { q with Hand := (exampleHand "p1").set i { c with Revealed := true } }) ∧
      mapGet? (handleTimerExpired exampleTimedOut 10).1.RevealedThisRnd "p1" = some true ∧
      (handleTimerExpired exampleTimedOut 10).1.Phase = scenarioPhaseRevealDiscussion := by
  obtain ⟨i, c, h1, h2, h3⟩ :=
    (reveal_timeout_random_card exampleTimedOut 10).1
      { Kind := scenarioPhaseRevealDiscussion, EndsAt := 1 }
      { examplePlayer "p1" "alive" with Hand := exampleHand "p1" }
      (by decide) (by decide) (by decide) (by decide) (by decide) (by decide) (by decide)
      (by decide) (by decide)
  exact ⟨i, c, h1, h2, h3⟩



theorem BotFrame_refl (g : gameSession) : BotFrame g g := ⟨rfl, rfl, id⟩

theorem BotFrame_trans {a b c : gameSession} (h1 : BotFrame a b) (h2 : BotFrame b c) :
    BotFrame a c :=
  ⟨h2.1.trans h1.1, h2.2.1.trans h1.2.1, fun h => h1.2.2 (h2.2.2 h)⟩

theorem aliveIDs_of_poll {g g2 : gameSession} (h : poll g2 = poll g) :
    aliveIDs g2 = aliveIDs g := by
  unfold aliveIDs
  rw [show g2.Order = g.Order from congrArg pollView.Order h]
  refine List.filter_congr ?_
  intro x _
  have h1 := playerIsAlive_status g x
  have h2 := playerIsAlive_status g2 x
  rw [h] at h2
  cases ha : playerIsAlive g x <;> cases hb : playerIsAlive g2 x <;> simp_all

theorem enterRevealDiscussion_settles (g : gameSession) (now : Int) :
    (enterRevealDiscussion g now).Phase = scenarioPhaseRevealDiscussion ∧
      (enterRevealDiscussion g now).LastEliminatedID = g.LastEliminatedID := by
  unfold enterRevealDiscussion schedulePhaseTimer clearActiveTimer
  dsimp only
  repeat' split
  all_goals exact ⟨rfl, rfl⟩

/-- In the phase `reveal` a call of `revealCard` either fails and leaves the session as it
was, or moves it to `reveal_discussion`. -/
theorem revealCard_settles (g : gameSession) (actorID cardID : String) (now : Int)
    (h : g.Phase = scenarioPhaseReveal) :
    ((revealCard g actorID cardID now).1 = g ∧
        (revealCard g actorID cardID now).2.StateChanged = false) ∨
      ((revealCard g actorID cardID now).1.Phase = scenarioPhaseRevealDiscussion ∧
        (revealCard g actorID cardID now).1.LastEliminatedID = g.LastEliminatedID) := by
  have hne : ¬ g.Phase = scenarioPhaseEnded := by rw [h]; decide
  unfold revealCard
  split
  · exact Or.inl ⟨rfl, rfl⟩
  · refine ite_of (fun r : gameSession × gameActionResult => (r.1 = g ∧ r.2.StateChanged = false) ∨ (r.1.Phase = scenarioPhaseRevealDiscussion ∧ r.1.LastEliminatedID = g.LastEliminatedID)) _ _ _ (fun hc => absurd hc hne) (fun _ => ?_)
    dsimp only [makeEvent]
    repeat' (first
      | with_reducible refine ite_of (fun r : gameSession × gameActionResult => (r.1 = g ∧ r.2.StateChanged = false) ∨ (r.1.Phase = scenarioPhaseRevealDiscussion ∧ r.1.LastEliminatedID = g.LastEliminatedID)) _ _ _ (fun _ => ?_) (fun _ => ?_)
      | split
      | (refine Or.inr ?_
         exact enterRevealDiscussion_settles _ now)
      | exact Or.inl ⟨rfl, rfl⟩)

theorem autoRevealBots_settles (g : gameSession) (now : Int)
    (h : g.Phase = scenarioPhaseReveal) :
    ((autoRevealBots g now).1 = g ∧ (autoRevealBots g now).2.StateChanged = false) ∨
      ((autoRevealBots g now).1.Phase = scenarioPhaseRevealDiscussion ∧
        (autoRevealBots g now).1.LastEliminatedID = g.LastEliminatedID) := by
  generalize hr : autoRevealBots g now = res
  unfold autoRevealBots at hr
  dsimp only at hr
  repeat' split at hr
  all_goals subst hr
  all_goals first
    | exact Or.inl ⟨rfl, rfl⟩
    | exact revealCard_settles g _ _ now h

theorem autoRevealBots_poll (g : gameSession) (now : Int) :
    poll (autoRevealBots g now).1 = poll g := by
  generalize hr : autoRevealBots g now = res
  unfold autoRevealBots at hr
  dsimp only at hr
  repeat' split at hr
  all_goals subst hr
  all_goals first
    | rfl
    | exact revealCard_poll g _ _ now

theorem mapHas_mapSet_self {V : Type} (m : GoMap V) (k : String) (v : V) :
    mapHas (mapSet m k v) k = true := by
  unfold mapHas
  rw [mapGet?_mapSet, if_pos rfl]
  rfl

theorem mapHas_mapSet_mono {V : Type} (m : GoMap V) (k x : String) (v : V)
    (h : mapHas m x = true) : mapHas (mapSet m k v) x = true := by
  unfold mapHas at h ⊢
  rw [mapGet?_mapSet]
  split
  · rfl
  · exact h

/-- What one round of the voter loop of `autoVoteBots` keeps, and what it adds. -/
theorem autoVoteStep_frame (now : Int) (acc : gameSession × Bool) (v : String) :
    (autoVoteStep now acc v).1.Players = acc.1.Players ∧
      (autoVoteStep now acc v).1.Order = acc.1.Order ∧
      (autoVoteStep now acc v).1.Phase = acc.1.Phase ∧
      (autoVoteStep now acc v).1.VotePhase = acc.1.VotePhase ∧
      (autoVoteStep now acc v).1.LastEliminatedID = acc.1.LastEliminatedID ∧
      poll (autoVoteStep now acc v).1 = poll acc.1 ∧
      (∀ x, mapHas acc.1.Votes x = true → mapHas (autoVoteStep now acc v).1.Votes x = true) ∧
      (∀ p, mapGet? acc.1.Players v = some p → p.Status = playerAlive → p.IsBot = true →
        mapHas (autoVoteStep now acc v).1.Votes v = true) := by
  generalize hr : autoVoteStep now acc v = res
  unfold autoVoteStep at hr
  dsimp only at hr
  repeat' split at hr
  all_goals subst hr
  all_goals refine ⟨rfl, rfl, rfl, rfl, rfl, rfl, ?_, ?_⟩
  all_goals try simp only [markVoteWasted]
  all_goals first
    | exact fun x hx => hx
    | exact fun x hx => mapHas_mapSet_mono _ _ _ _ hx
    | exact fun _ _ _ _ => mapHas_mapSet_self _ _ _
    | (intro p hp ha hb
       simp_all)

theorem autoVoteStep_idle (now : Int) (acc : gameSession × Bool) (v : String)
    (h : ∀ p, mapGet? acc.1.Players v = some p → p.Status = playerAlive → p.IsBot = true →
      mapHas acc.1.Votes v = true) : autoVoteStep now acc v = acc := by
  unfold autoVoteStep
  dsimp only
  cases hp : mapGet? acc.1.Players v with
  | none => rfl
  | some p =>
    dsimp only
    by_cases h1 : p.Status ≠ playerAlive ∨ (!p.IsBot) = true
    · rw [if_pos h1]
    · rw [if_neg h1, if_pos]
      refine h p hp ?_ ?_
      · exact not_not.1 (fun hc => h1 (Or.inl hc))
      · cases hb : p.IsBot
        · exact absurd (Or.inr (by rw [hb]; rfl)) h1
        · rfl

theorem autoVoteFold_frame (now : Int) (l : List String) (acc : gameSession × Bool) :
    (l.foldl (autoVoteStep now) acc).1.Players = acc.1.Players ∧
      (l.foldl (autoVoteStep now) acc).1.Order = acc.1.Order ∧
      (l.foldl (autoVoteStep now) acc).1.Phase = acc.1.Phase ∧
      (l.foldl (autoVoteStep now) acc).1.VotePhase = acc.1.VotePhase ∧
      (l.foldl (autoVoteStep now) acc).1.LastEliminatedID = acc.1.LastEliminatedID ∧
      poll (l.foldl (autoVoteStep now) acc).1 = poll acc.1 ∧
      (∀ x, mapHas acc.1.Votes x = true →
        mapHas (l.foldl (autoVoteStep now) acc).1.Votes x = true) ∧
      (∀ v ∈ l, ∀ p, mapGet? acc.1.Players v = some p → p.Status = playerAlive →
        p.IsBot = true → mapHas (l.foldl (autoVoteStep now) acc).1.Votes v = true) := by
  induction l generalizing acc with
  | nil =>
    refine ⟨rfl, rfl, rfl, rfl, rfl, rfl, fun x hx => hx, ?_⟩
    intro v hv
    simp at hv
  | cons a t ih =>
    rw [List.foldl_cons]
    obtain ⟨s1, s2, s3, s4, s5, s6, s7, s8⟩ := autoVoteStep_frame now acc a
    obtain ⟨t1, t2, t3, t4, t5, t6, t7, t8⟩ := ih (autoVoteStep now acc a)
    refine ⟨t1.trans s1, t2.trans s2, t3.trans s3, t4.trans s4, t5.trans s5, t6.trans s6,
      fun x hx => t7 x (s7 x hx), ?_⟩
    intro v hv p hp ha hb
    rcases List.mem_cons.1 hv with rfl | hv
    · exact t7 _ (s8 p hp ha hb)
    · exact t8 v hv p (s1 ▸ hp) ha hb

theorem autoVoteFold_idle (now : Int) (l : List String) (acc : gameSession × Bool)
    (h : ∀ v ∈ l, ∀ p, mapGet? acc.1.Players v = some p → p.Status = playerAlive →
      p.IsBot = true → mapHas acc.1.Votes v = true) :
    l.foldl (autoVoteStep now) acc = acc := by
  induction l with
  | nil => rfl
  | cons a t ih =>
    rw [List.foldl_cons, autoVoteStep_idle now acc a (h a (List.mem_cons_self _ _))]
    exact ih (fun v hv => h v (List.mem_cons_of_mem _ hv))

theorem enterVoteSpecialWindow_settles (g : gameSession) (now : Int) :
    (enterVoteSpecialWindow g now).1.VotePhase = votePhaseSpecialWindow ∧
      (enterVoteSpecialWindow g now).1.Phase = g.Phase ∧
      (enterVoteSpecialWindow g now).1.LastEliminatedID = g.LastEliminatedID ∧
      (enterVoteSpecialWindow g now).2.Error = "" := by
  unfold enterVoteSpecialWindow schedulePhaseTimer clearActiveTimer
  dsimp only
  repeat' split
  all_goals exact ⟨rfl, rfl, rfl, rfl⟩

/-- The automatic votes keep roster, statuses, phase and the last eliminated player, and
never fail. -/
theorem autoVoteBots_frame (g : gameSession) (now : Int) :
    BotFrame g (autoVoteBots g now).1 ∧ (autoVoteBots g now).1.Phase = g.Phase ∧
      (autoVoteBots g now).2.Error = "" := by
  generalize hr : autoVoteBots g now = res
  unfold autoVoteBots at hr
  dsimp only at hr
  obtain ⟨t1, t2, t3, t4, t5, t6, t7, t8⟩ := autoVoteFold_frame now g.Order (g, false)
  generalize List.foldl (autoVoteStep now) (g, false) g.Order = r at hr t1 t2 t3 t4 t5 t6 t7 t8
  obtain ⟨w1, w2, w3, w4⟩ := enterVoteSpecialWindow_settles r.1 now
  have w5 := enterVoteSpecialWindow_poll r.1 now
  generalize enterVoteSpecialWindow r.1 now = w at hr w1 w2 w3 w4 w5
  repeat' split at hr
  all_goals subst hr
  all_goals first
    | exact ⟨BotFrame_refl g, rfl, rfl⟩
    | exact ⟨⟨t6, t5, fun h => t3 ▸ h⟩, t3, rfl⟩
    | (refine ⟨⟨w5.trans t6, w3.trans t5, fun h => t3 ▸ w2 ▸ h⟩, w2.trans t3, ?_⟩
       simp only [mergeActionResult, changedResult, w4]
       rfl)

theorem autoVoteBots_of_idle (g : gameSession) (now : Int)
    (h : g.VotePhase ≠ votePhaseVoting ∨ (aliveIDs g).length = 0 ∨
      g.Order.foldl (autoVoteStep now) (g, false) = (g, false)) :
    autoVoteBots g now = (g, emptyResult) := by
  unfold autoVoteBots
  dsimp only
  rcases h with h | h | h
  · rw [if_pos h]
  · rw [if_pos h]
    split <;> rfl
  · rw [h]
    dsimp only
    split
    · rfl
    · split
      · rfl
      · rfl

/-- A second run of `autoVoteBots` finds nothing to do. -/
theorem autoVoteBots_idem (g : gameSession) (now : Int) :
    autoVoteBots (autoVoteBots g now).1 now = ((autoVoteBots g now).1, emptyResult) := by
  have hfold : (g.Order.foldl (autoVoteStep now) (g, false)).1.Order.foldl (autoVoteStep now)
      ((g.Order.foldl (autoVoteStep now) (g, false)).1, false) =
      ((g.Order.foldl (autoVoteStep now) (g, false)).1, false) := by
    obtain ⟨t1, t2, t3, t4, t5, t6, t7, t8⟩ := autoVoteFold_frame now g.Order (g, false)
    refine autoVoteFold_idle now _ _ ?_
    intro v hv p hp ha hb
    rw [t2] at hv
    exact t8 v hv p (t1 ▸ hp) ha hb
  refine autoVoteBots_of_idle _ now ?_
  generalize hr : autoVoteBots g now = res
  unfold autoVoteBots at hr
  dsimp only at hr
  generalize List.foldl (autoVoteStep now) (g, false) g.Order = r at hr hfold
  obtain ⟨w1, w2, w3, w4⟩ := enterVoteSpecialWindow_settles r.1 now
  generalize enterVoteSpecialWindow r.1 now = w at hr w1
  repeat' split at hr
  all_goals subst hr
  all_goals first
    | exact Or.inr (Or.inr hfold)
    | exact Or.inr (Or.inl ‹_›)
    | (refine Or.inl ?_
       first
         | assumption
         | (dsimp only
            rw [w1]
            decide))

theorem mergeActionResult_empty (c : gameActionResult) :
    mergeActionResult c emptyResult = c := by
  cases c
  simp [mergeActionResult, emptyResult]

/-- A round of the loop of `postProcess` in which no bot has anything to do leaves the
state of the loop as it was. -/
theorem postProcessLoop_idle (now : Int) (m : Nat) (st : postState)
    (hr : st.returned = false) (h1 : st.session.Phase ≠ scenarioPhaseReveal)
    (h2 : st.session.Phase = scenarioPhaseVoting ∧ st.session.VotePhase = votePhaseVoting →
      autoVoteBots st.session now = (st.session, emptyResult)) :
    postProcessLoop now m st = st := by
  cases m with
  | zero => rfl
  | succ k =>
    unfold postProcessLoop
    dsimp only
    rw [if_neg h1]
    dsimp only
    rw [hr, if_neg (by decide)]
    by_cases hv : st.session.Phase = scenarioPhaseVoting ∧
        st.session.VotePhase = votePhaseVoting
    · rw [if_pos hv, h2 hv]
      have he : ¬ (emptyResult.Error ≠ "") := by decide
      rw [if_neg he, mergeActionResult_empty]
      dsimp only
      rw [if_neg (by decide), if_pos (by rfl)]
      cases st
      simp only at hr
      simp only [hr]
    · rw [if_neg hv]
      dsimp only
      rw [hr, if_neg (by decide), if_pos (by rfl)]

/-- The loop of `postProcess` stops by itself: one round of fuel already gives the state
that any larger amount of fuel gives. -/
theorem postProcessLoop_round (now : Int) (st : postState) :
    ∃ X, ∀ m, postProcessLoop now (m + 1) st = X := by
  by_cases hrev : st.session.Phase = scenarioPhaseReveal
  · by_cases herr : (autoRevealBots st.session now).2.Error ≠ ""
    · apply Exists.intro
      intro m
      unfold postProcessLoop
      try dsimp only
      rw [if_pos hrev]
      try dsimp only
      rw [if_pos herr]
      try dsimp only
      rw [if_pos rfl]
    · by_cases hret : st.returned = true
      · apply Exists.intro
        intro m
        unfold postProcessLoop
        try dsimp only
        rw [if_pos hrev]
        try dsimp only
        rw [if_neg herr]
        try dsimp only
        rw [if_pos hret]
      · have hnv : ¬ ((autoRevealBots st.session now).1.Phase = scenarioPhaseVoting ∧
            (autoRevealBots st.session now).1.VotePhase = votePhaseVoting) := by
          rcases autoRevealBots_settles st.session now hrev with h | h
          · rw [h.1, hrev]
            exact fun hc => absurd hc.1 (by decide)
          · rw [h.1]
            exact fun hc => absurd hc.1 (by decide)
        by_cases hch : (autoRevealBots st.session now).2.StateChanged = true
        · apply Exists.intro
          intro m
          unfold postProcessLoop
          try dsimp only
          rw [if_pos hrev]
          try dsimp only
          rw [if_neg herr]
          try dsimp only
          rw [if_neg hret, if_neg hnv]
          try dsimp only
          rw [if_neg hret, hch, if_neg (by decide)]
          refine Eq.trans (postProcessLoop_idle now m _ ?_ ?_ ?_) rfl
          · simpa using hret
          · rcases autoRevealBots_settles st.session now hrev with h | h
            · rw [h.2] at hch
              exact absurd hch (by decide)
            · try dsimp only
              rw [h.1]
              decide
          · intro hc
            exact absurd hc hnv
        · apply Exists.intro
          intro m
          unfold postProcessLoop
          try dsimp only
          rw [if_pos hrev]
          try dsimp only
          rw [if_neg herr]
          try dsimp only
          rw [if_neg hret, if_neg hnv]
          try dsimp only
          rw [if_neg hret]
          have hch2 : (autoRevealBots st.session now).2.StateChanged = false := by
            simpa using hch
          rw [hch2, if_pos (by rfl)]
  · by_cases hret : st.returned = true
    · apply Exists.intro
      intro m
      unfold postProcessLoop
      try dsimp only
      rw [if_neg hrev]
      try dsimp only
      rw [if_pos hret]
    · by_cases hv : st.session.Phase = scenarioPhaseVoting ∧
          st.session.VotePhase = votePhaseVoting
      · obtain ⟨f1, f2, f3⟩ := autoVoteBots_frame st.session now
        have herr : ¬ ((autoVoteBots st.session now).2.Error ≠ "") := fun hc => hc f3
        by_cases hch : (autoVoteBots st.session now).2.StateChanged = true
        · apply Exists.intro
          intro m
          unfold postProcessLoop
          try dsimp only
          rw [if_neg hrev]
          try dsimp only
          rw [if_neg hret, if_pos hv]
          try dsimp only
          rw [if_neg herr]
          try dsimp only
          rw [if_neg hret, hch, if_neg (by decide)]
          refine Eq.trans (postProcessLoop_idle now m _ ?_ ?_ ?_) rfl
          · simpa using hret
          · dsimp only
            rw [f2]
            exact hrev
          · intro _
            exact autoVoteBots_idem st.session now
        · apply Exists.intro
          intro m
          unfold postProcessLoop
          try dsimp only
          rw [if_neg hrev]
          try dsimp only
          rw [if_neg hret, if_pos hv]
          try dsimp only
          rw [if_neg herr]
          try dsimp only
          have hch2 : (autoVoteBots st.session now).2.StateChanged = false := by
            simpa using hch
          rw [if_neg hret, hch2, if_pos (by rfl)]
      · apply Exists.intro
        intro m
        unfold postProcessLoop
        try dsimp only
        rw [if_neg hrev]
        try dsimp only
        rw [if_neg hret, if_neg hv]
        try dsimp only
        rw [if_neg hret, if_pos (by rfl)]

/-- Fuel beyond the three rounds that `postProcess` gives its loop changes nothing. -/
theorem postProcessLoop_fuel (now : Int) (n : Nat) (st : postState) :
    postProcessLoop now (n + 3) st = postProcessLoop now 3 st := by
  obtain ⟨X, hX⟩ := postProcessLoop_round now st
  rw [hX (n + 2), hX 2]

theorem revealCard_frame (g : gameSession) (actorID cardID : String) (now : Int) :
    BotFrame g (revealCard g actorID cardID now).1 := by
  refine ⟨revealCard_poll g actorID cardID now, ?_⟩
  unfold revealCard
  split
  · exact ⟨rfl, id⟩
  · dsimp only [makeEvent]
    repeat' (first
      | with_reducible exact ⟨rfl, id⟩
      | with_reducible refine ite_of (fun r : gameSession × gameActionResult => r.1.LastEliminatedID = g.LastEliminatedID ∧ (r.1.Phase = scenarioPhaseEnded → g.Phase = scenarioPhaseEnded)) _ _ _ (fun _ => ?_) (fun _ => ?_)
      | split
      | (refine ⟨(enterRevealDiscussion_settles _ now).2, ?_⟩
         intro hc
         rw [(enterRevealDiscussion_settles _ now).1] at hc
         exact absurd hc (by decide)))

theorem autoRevealBots_frame (g : gameSession) (now : Int) :
    BotFrame g (autoRevealBots g now).1 := by
  generalize hr : autoRevealBots g now = res
  unfold autoRevealBots at hr
  dsimp only at hr
  repeat' split at hr
  all_goals subst hr
  all_goals first
    | exact BotFrame_refl g
    | exact revealCard_frame g _ _ now

theorem postProcessLoop_frame (now : Int) (n : Nat) (st : postState) {g : gameSession}
    (h : BotFrame g st.session) : BotFrame g (postProcessLoop now n st).session := by
  induction n generalizing st with
  | zero => exact h
  | succ k ih =>
    unfold postProcessLoop
    dsimp only
    repeat' (first
      | with_reducible exact h
      | with_reducible refine ih _ ?_
      | with_reducible refine BotFrame_trans ?_ (autoRevealBots_frame _ _)
      | with_reducible refine BotFrame_trans ?_ (autoVoteBots_frame _ _).1
      | with_reducible refine ite_of (fun s : postState => BotFrame g s.session) _ _ _ (fun _ => ?_) (fun _ => ?_)
      | with_reducible refine ite_of (fun r => BotFrame g (Prod.fst r : postState).session) _ _ _ (fun _ => ?_) (fun _ => ?_)
      | split)

theorem devShouldEnd_iff (g : gameSession) :
    devShouldEnd g = true ↔ g.Phase ≠ scenarioPhaseEnded ∧ g.LastEliminatedID ≠ "" ∧
      (aliveIDs g).length ≤ 5 := by
  unfold devShouldEnd devTestBunkerCapacity
  by_cases h1 : g.Phase = scenarioPhaseEnded
  · simp [h1]
  · by_cases h2 : g.LastEliminatedID = ""
    · simp [h1, h2]
    · simp [h1, h2]

theorem passTurnFrom_LastEliminatedID (g : gameSession) (id : String) :
    (passTurnFrom g id).LastEliminatedID = g.LastEliminatedID := by
  unfold passTurnFrom
  split <;> rfl

theorem removeFromVotingDev_quiet (g : gameSession) (t : String) (now : Int) :
    (removeFromVotingDev g t now).LastEliminatedID = g.LastEliminatedID ∧
      (removeFromVotingDev g t now).Phase = g.Phase := by
  unfold removeFromVotingDev
  dsimp only
  split
  · obtain ⟨_, w2, w3, _⟩ := enterVoteSpecialWindow_settles (removeFromVoting g t) now
    exact ⟨w3, w2⟩
  · exact ⟨rfl, rfl⟩

theorem devMarkLeftBunker_quiet (g : gameSession) (targetID : String) (now : Int) :
    (devMarkLeftBunker g targetID now).1.LastEliminatedID = g.LastEliminatedID ∧
      ((devMarkLeftBunker g targetID now).1.Phase = scenarioPhaseEnded →
        g.Phase = scenarioPhaseEnded) := by
  generalize hr : devMarkLeftBunker g targetID now = res
  unfold devMarkLeftBunker at hr
  dsimp only at hr
  repeat' split at hr
  all_goals subst hr
  all_goals first
    | exact ⟨rfl, id⟩
    | (dsimp only
       rw [passTurnFrom_Phase, passTurnFrom_LastEliminatedID]
       refine ⟨(removeFromVotingDev_quiet _ _ _).1, fun hc => ?_⟩
       rw [(removeFromVotingDev_quiet _ _ _).2] at hc
       exact hc)

/-- Claim C30. After a successful action on a session that has not ended, `postProcess`
leaves the session in the phase `ended` exactly when the automatic play of the bots went
through without a failure, an elimination has been recorded (`LastEliminatedID` is not
empty) and at most five players are alive; the automatic play changes neither the last
eliminated player nor the alive players, and its loop has settled within the fuel that
`postProcess` gives it.  In particular `markLeftBunker` through the dev wrapper on a
session without a recorded elimination does not end the session. -/
theorem postProcess_end_rule (g : gameSession) (result : gameActionResult) (now : Int) :
    (result.Error = "" → g.Phase ≠ scenarioPhaseEnded →
      ((postProcess g result now).1.Phase = scenarioPhaseEnded ↔
        (postProcessLoop now 3 (postStart g result)).returned = false ∧
          g.LastEliminatedID ≠ "" ∧ (aliveIDs g).length ≤ 5)) ∧
    (∀ n, postProcessLoop now (n + 3) (postStart g result) =
      postProcessLoop now 3 (postStart g result)) ∧
    (postProcessLoop now 3 (postStart g result)).session.LastEliminatedID =
      g.LastEliminatedID ∧
    aliveIDs (postProcessLoop now 3 (postStart g result)).session = aliveIDs g ∧
    (∀ actorID payload, g.LastEliminatedID = "" → g.Phase ≠ scenarioPhaseEnded →
      (devHandleAction g actorID "markLeftBunker" payload now).1.Phase ≠
        scenarioPhaseEnded) := by
  have hframe : ∀ (s : gameSession) (r : gameActionResult),
      BotFrame s (postProcessLoop now 3 (postStart s r)).session :=
    fun s r => postProcessLoop_frame now 3 (postStart s r) (BotFrame_refl s)
  have hmain : ∀ (s : gameSession) (r : gameActionResult), r.Error = "" →
      s.Phase ≠ scenarioPhaseEnded →
      ((postProcess s r now).1.Phase = scenarioPhaseEnded ↔
        (postProcessLoop now 3 (postStart s r)).returned = false ∧
          s.LastEliminatedID ≠ "" ∧ (aliveIDs s).length ≤ 5) := by
    intro s r hok hph
    obtain ⟨f1, f2, f3⟩ := hframe s r
    unfold postProcess
    rw [if_neg (fun hc => hc hok)]
    unfold postStart at f1 f2 f3 ⊢
    generalize postProcessLoop now 3 _ = L at f1 f2 f3 ⊢
    dsimp only
    have hA := aliveIDs_of_poll f1
    have hne : L.session.Phase ≠ scenarioPhaseEnded := fun hc => hph (f3 hc)
    have hE := devShouldEnd_iff L.session
    rw [f2, hA] at hE
    by_cases hret : L.returned = true
    · rw [if_pos hret]
      constructor
      · intro hc
        exact absurd hc hne
      · intro hc
        rw [hret] at hc
        exact absurd hc.1 (by decide)
    · rw [if_neg hret]
      by_cases hend : devShouldEnd L.session = true
      · rw [if_pos hend]
        constructor
        · intro _
          exact ⟨by simpa using hret, (hE.1 hend).2⟩
        · intro _
          exact finishGame_Phase _ _ _
      · rw [if_neg hend]
        constructor
        · intro hc
          exact absurd hc hne
        · intro hc
          exact absurd (hE.2 ⟨hne, hc.2⟩) hend
  refine ⟨hmain g result, fun n => postProcessLoop_fuel now n _, (hframe g result).2.1,
    aliveIDs_of_poll (hframe g result).1, ?_⟩
  intro actorID payload hle hph
  have hq := devMarkLeftBunker_quiet g (payloadString payload "targetPlayerId") now
  change (postProcess (devMarkLeftBunker g (payloadString payload "targetPlayerId") now).1
    (devMarkLeftBunker g (payloadString payload "targetPlayerId") now).2 now).1.Phase ≠ _
  generalize devMarkLeftBunker g (payloadString payload "targetPlayerId") now = r at hq
  have hph2 : r.1.Phase ≠ scenarioPhaseEnded := fun hc => hph (hq.2 hc)
  by_cases hok : r.2.Error = ""
  · intro hc
    have h3 := ((hmain r.1 r.2 hok hph2).1 hc).2.1
    rw [hq.1] at h3
    exact h3 hle
  · rw [postProcess_of_error _ _ _ hok]
    exact hph2

set_option maxRecDepth 100000 in
/-- The end rule on the session of the test: three alive players and a recorded elimination
end the game, and `markLeftBunker` without an elimination does not. -/
theorem postProcess_end_rule_witness :
    (postProcess exampleDevCapacity (changedResult []) 5).1.Phase = scenarioPhaseEnded ∧
      (devHandleAction exampleDevDealt "p1" "markLeftBunker" (targetPayload "p2") 5).1.Phase ≠
        scenarioPhaseEnded :=
  ⟨((postProcess_end_rule exampleDevCapacity (changedResult []) 5).1 (by decide)
      (by decide)).2 ⟨by decide, by decide, by decide⟩,
    (postProcess_end_rule exampleDevDealt (changedResult []) 5).2.2.2.2 "p1"
      (targetPayload "p2") (by decide) (by decide)⟩



/-- The identifiers kept by the scan of `computeAgeExtremes` are those it started with or
name players that are alive. -/
theorem ageScan_alive (g : gameSession) (l : List String) (acc : ageScan) :
    ((l.foldl (ageScanStep g) acc).youngestID = acc.youngestID ∨
        ∃ p, mapGet? g.Players (l.foldl (ageScanStep g) acc).youngestID = some p ∧
          p.Status = playerAlive) ∧
      ((l.foldl (ageScanStep g) acc).oldestID = acc.oldestID ∨
        ∃ p, mapGet? g.Players (l.foldl (ageScanStep g) acc).oldestID = some p ∧
          p.Status = playerAlive) := by
  induction l generalizing acc with
  | nil => exact ⟨Or.inl rfl, Or.inl rfl⟩
  | cons a t ih =>
    rw [List.foldl_cons]
    have hstep : ((ageScanStep g acc a).youngestID = acc.youngestID ∨
        ∃ p, mapGet? g.Players (ageScanStep g acc a).youngestID = some p ∧
          p.Status = playerAlive) ∧
      ((ageScanStep g acc a).oldestID = acc.oldestID ∨
        ∃ p, mapGet? g.Players (ageScanStep g acc a).oldestID = some p ∧
          p.Status = playerAlive) := by
      generalize hr : ageScanStep g acc a = res
      unfold ageScanStep at hr
      dsimp only at hr
      repeat' split at hr
      all_goals subst hr
      all_goals first
        | exact ⟨Or.inl rfl, Or.inl rfl⟩
        | (have hp := ‹mapGet? g.Players a = some _›
           have hal := not_not.1 ‹¬ _ ≠ playerAlive›
           first
             | exact ⟨Or.inr ⟨_, hp, hal⟩, Or.inr ⟨_, hp, hal⟩⟩
             | exact ⟨Or.inr ⟨_, hp, hal⟩, Or.inl rfl⟩
             | exact ⟨Or.inl rfl, Or.inr ⟨_, hp, hal⟩⟩)
    obtain ⟨i1, i2⟩ := ih (ageScanStep g acc a)
    refine ⟨?_, ?_⟩
    · rcases i1 with h | h
      · rw [h]
        exact hstep.1
      · exact Or.inr h
    · rcases i2 with h | h
      · rw [h]
        exact hstep.2
      · exact Or.inr h

/-- Both players named by `computeAgeExtremes` are alive in the session it scans. -/
theorem computeAgeExtremes_alive (g : gameSession) (a : String × String)
    (h : computeAgeExtremes g = some a) :
    (∃ p, mapGet? g.Players a.1 = some p ∧ p.Status = playerAlive) ∧
      (∃ p, mapGet? g.Players a.2 = some p ∧ p.Status = playerAlive) := by
  unfold computeAgeExtremes at h
  dsimp only at h
  obtain ⟨h1, h2⟩ := ageScan_alive g g.Order
    { youngestAge := 1073741824, oldestAge := -1, youngestID := "", oldestID := "" }
  generalize List.foldl (ageScanStep g) _ g.Order = r at h h1 h2
  split at h
  · exact absurd h (by simp)
  · rename_i hne
    have ha : a = (r.youngestID, r.oldestID) := (Option.some.inj h).symm
    subst ha
    refine ⟨?_, ?_⟩
    · rcases h1 with h1 | h1
      · exact absurd (Or.inl h1) hne
      · exact h1
    · rcases h2 with h2 | h2
      · exact absurd (Or.inr h2) hne
      · exact h2

/-- The age conditions of `handleSecretEliminationTriggers` do not hold for a player who is
not alive in the scanned session. -/
theorem ageCondition_false (g acc : gameSession) (o E condition : String) (t : gamePlayer)
    (hE : mapGet? g.Players E = some t) (hst : t.Status ≠ playerAlive)
    (hc : condition = "youngestByRevealedAgeEliminated" ∨
      condition = "oldestByRevealedAgeEliminated") :
    secretConditionHolds acc (computeAgeExtremes g) o E condition = false := by
  cases ha : computeAgeExtremes g with
  | none =>
    rcases hc with hc | hc
    · subst hc
      rfl
    · subst hc
      rfl
  | some a =>
    obtain ⟨⟨p1, hp1, hs1⟩, ⟨p2, hp2, hs2⟩⟩ := computeAgeExtremes_alive g a ha
    have h1 : a.1 ≠ E := by
      intro hc1
      rw [hc1, hE] at hp1
      exact hst ((Option.some.inj hp1) ▸ hs1)
    have h2 : a.2 ≠ E := by
      intro hc2
      rw [hc2, hE] at hp2
      exact hst ((Option.some.inj hp2) ▸ hs2)
    rcases hc with hc | hc
    · subst hc
      show decide (a.1 = E) = false
      exact decide_eq_false h1
    · subst hc
      show decide (a.2 = E) = false
      exact decide_eq_false h2

theorem applySecretTriggers_slot (acc : gameSession) (ages : Option (String × String))
    (pid E : String) (p : gamePlayer) (i : Nat) (s : specialConditionState)
    (hs : p.Specials.get? i = some s) (hf : secretFires acc ages pid E s = false) :
    (applySecretTriggers acc ages pid E p).Specials.get? i = some s := by
  unfold applySecretTriggers
  dsimp only
  rw [List.get?_eq_getElem?] at hs ⊢
  rw [List.getElem?_map, hs]
  simp [hf]

/-- The loop of `handleSecretEliminationTriggers` keeps an ability that cannot fire. -/
theorem secretTriggers_keep_slot (ages : Option (String × String)) (E o : String) (i : Nat)
    (s : specialConditionState) (hf : ∀ acc pid, secretFires acc ages pid E s = false)
    (l : List String) (acc : gameSession)
    (h : ∃ p, mapGet? acc.Players o = some p ∧ p.Specials.get? i = some s) :
    ∃ p, mapGet? (l.foldl (fun acc playerID =>
        { acc with Players :=
            mapModify acc.Players playerID (applySecretTriggers acc ages playerID E) })
        acc).Players o = some p ∧ p.Specials.get? i = some s := by
  induction l generalizing acc with
  | nil => exact h
  | cons a t ih =>
    rw [List.foldl_cons]
    refine ih _ ?_
    obtain ⟨p, hp, hs⟩ := h
    dsimp only
    rw [mapGet?_mapModify]
    by_cases hk : a = o
    · rw [if_pos hk, hp]
      exact ⟨_, rfl, applySecretTriggers_slot acc ages a E p i s hs (hf acc a)⟩
    · rw [if_neg hk]
      exact ⟨p, hp, hs⟩

/-- Claim C23, the divergence of the code.  `applyElimination` marks the player `E` as
eliminated before `handleSecretEliminationTriggers` lets `computeAgeExtremes` scan the
alive players, so `E` is never the youngest or the oldest of that scan: an ability of
another player whose condition is `youngestByRevealedAgeEliminated` or
`oldestByRevealedAgeEliminated` is left exactly as it was, whatever the ages are. -/
theorem age_trigger_never_fires (g : gameSession) (E o : String) (t p : gamePlayer) (i : Nat)
    (s : specialConditionState) (hE : mapGet? g.Players E = some t)
    (halive : t.Status = playerAlive) (ho : o ≠ E) (hp : mapGet? g.Players o = some p)
    (hs : p.Specials.get? i = some s)
    (hc : asString (mapGet? s.Definition.Effect.Params "condition") =
        "youngestByRevealedAgeEliminated" ∨
      asString (mapGet? s.Definition.Effect.Params "condition") =
        "oldestByRevealedAgeEliminated") :
    ∃ p2, mapGet? (applyElimination g E).Players o = some p2 ∧
      p2.Specials.get? i = some s := by
  unfold applyElimination
  rw [hE]
  dsimp only
  rw [if_neg (not_not.2 halive)]
  show ∃ p2, mapGet? (handleSecretEliminationTriggers _ E).Players o = some p2 ∧ _
  generalize hg1 : handleOnOwnerEliminated _ E = g2
  have hE2 : ∃ t2, mapGet? g2.Players E = some t2 ∧ t2.Status ≠ playerAlive := by
    subst hg1
    unfold handleOnOwnerEliminated
    dsimp only
    rw [mapGet?_mapModify, if_pos rfl, hE]
    dsimp only [Option.map]
    rw [mapGet?_mapModify, if_pos rfl, mapGet?_mapModify, if_pos rfl, hE]
    exact ⟨_, rfl, fun hc => absurd (show playerEliminated = playerAlive from hc) (by decide)⟩
  have ho2 : mapGet? g2.Players o = some p := by
    subst hg1
    unfold handleOnOwnerEliminated
    dsimp only
    split
    · dsimp only
      rw [mapGet?_mapModify, if_neg (Ne.symm ho)]
      exact hp
    · dsimp only
      rw [mapGet?_mapModify, if_neg (Ne.symm ho), mapGet?_mapModify, if_neg (Ne.symm ho)]
      exact hp
  obtain ⟨t2, ht2, hst2⟩ := hE2
  unfold handleSecretEliminationTriggers
  dsimp only
  refine secretTriggers_keep_slot (computeAgeExtremes g2) E o i s ?_ g2.Order g2 ⟨p, ho2, hs⟩
  intro acc pid
  unfold secretFires
  rw [ageCondition_false g2 acc pid E _ t2 ht2 hst2 hc]
  simp

set_option maxRecDepth 100000 in
/-- The elimination of `p4`, the youngest of the four alive players of `exampleAges`: the
ability `protect_youngest` of `p1` stays unused and the next vote of `p1` is not wasted. -/
theorem age_trigger_never_fires_witness :
    computeAgeExtremes exampleAges = some ("p4", "p3") ∧
      (∃ p2, mapGet? (applyElimination exampleAges "p4").Players "p1" = some p2 ∧
        p2.Specials.get? 0 = some exampleYoungestSpecial) ∧
      (mapGet? (applyElimination exampleAges "p4").Players "p1").map
        (fun q => (q.ForcedWastedVoteNext, q.Specials.map (fun s => s.Used))) =
          some (false, [false]) :=
  ⟨by decide,
    age_trigger_never_fires exampleAges "p4" "p1"
      { examplePlayer "p4" "alive" with Hand := [exampleAgeCard "p4" "Женщина 20 лет"] }
      { examplePlayer "p1" "alive" with
          Hand := [exampleAgeCard "p1" "Мужчина 40 лет"],
          Specials := [exampleYoungestSpecial] }
      0 exampleYoungestSpecial (by decide) (by decide) (by decide) (by decide) (by decide) (Or.inl (by decide)),
    by decide⟩



set_option maxRecDepth 100000 in
/-- Claim C21, the divergence of the code.  In `exampleRedeal` the two affected slots hold
the rope of `p1` and the medkit of `p2`, and the shuffle exchanges the two pointers.  The
copy loop of `redealAllRevealed` reads each source card through its pointer at the moment of
the copy: the slot of `p1` receives the medkit, and the slot of `p2` then receives what the
slot of `p1` holds by now, the medkit again.  The call succeeds, the rope is lost and the
medkit is held twice; with the other outcome of the random source the hands stay as they
were. -/
theorem redeal_duplicates_card :
    (handleAction exampleRedeal "p1" "applySpecial" redealPayload 5).2.Error = "" ∧
      (handleAction exampleRedeal "p1" "applySpecial" redealPayload 5).2.StateChanged = true ∧
      handContents exampleRedeal "p1" = [("baggage/rope.jpg", "Верёвка", false)] ∧
      handContents exampleRedeal "p2" = [("baggage/medkit.jpg", "Аптечка", false)] ∧
      handContents (handleAction exampleRedeal "p1" "applySpecial" redealPayload 5).1 "p1" =
        [("baggage/medkit.jpg", "Аптечка", false)] ∧
      handContents (handleAction exampleRedeal "p1" "applySpecial" redealPayload 5).1 "p2" =
        [("baggage/medkit.jpg", "Аптечка", false)] ∧
      handContents (handleAction { exampleRedeal with rng := [1] } "p1" "applySpecial"
        redealPayload 5).1 "p1" = [("baggage/rope.jpg", "Верёвка", false)] ∧
      handContents (handleAction { exampleRedeal with rng := [1] } "p1" "applySpecial"
        redealPayload 5).1 "p2" = [("baggage/medkit.jpg", "Аптечка", false)] := by
  decide

set_option maxRecDepth 100000 in
/-- Claim C22, the divergence of the code.  In `exampleTheft` the target `p2` holds the
baggage card `p2-1` (a rope) followed by the profession card `p2-2`.  The effect
`stealBaggage_and_giveSpecial` succeeds and takes the rope out of the hand of `p2`, but
`slices.DeleteFunc` has moved the next card into the array position that the pointer
`stolen` refers to, so the card appended to the hand of the actor `p1` copies the
profession card and not the rope: the rope is lost and the profession card is held
twice. -/
theorem steal_hands_over_next_card :
    (handleAction exampleTheft "p1" "applySpecial" (stealPayload "p2") 5).2.Error = "" ∧
      (handleAction exampleTheft "p1" "applySpecial" (stealPayload "p2") 5).2.StateChanged
        = true ∧
      (handOf exampleTheft "p2").map (fun c => (c.InstanceID, c.CardID, c.Deck, c.Label)) =
        [("p2-1", "baggage/rope.jpg", "Багаж", "Верёвка"),
         ("p2-2", "profession/cook.jpg", "Профессия", "Повар")] ∧
      (handOf (handleAction exampleTheft "p1" "applySpecial" (stealPayload "p2") 5).1 "p2").map
          (fun c => (c.InstanceID, c.CardID, c.Deck, c.Label)) =
        [("p2-2", "profession/cook.jpg", "Профессия", "Повар")] ∧
      (handOf (handleAction exampleTheft "p1" "applySpecial" (stealPayload "p2") 5).1 "p1").map
          (fun c => (c.InstanceID, c.CardID, c.Deck, c.Label)) =
        [("p1-1", "health/asthma.jpg", "Здоровье", "Астма"),
         ("p1-4", "profession/cook.jpg", "Профессия", "Повар")] := by
  decide



theorem mapGet?_map_values {V W : Type} (m : GoMap V) (f : V → W) (k : String) :
    mapGet? (m.map (fun e => (e.1, f e.2))) k = (mapGet? m k).map f := by
  induction m with
  | nil => rfl
  | cons e t ih =>
    obtain ⟨a, v⟩ := e
    simp only [List.map_cons, mapGet?]
    by_cases h : a = k
    · simp [h, mapGet?]
    · simp [h, mapGet?, ih]

theorem filter_map_fixed {α : Type} (f : α → α) (P : α → Bool) (l : List α)
    (h1 : ∀ c, P (f c) = P c) (h2 : ∀ c, P c = true → f c = c) :
    (l.map f).filter P = l.filter P := by
  induction l with
  | nil => rfl
  | cons a t ih =>
    rw [List.map_cons, List.filter_cons, List.filter_cons, h1 a, ih]
    cases hp : P a
    · rfl
    · simp only [if_true]
      rw [h2 a hp]

theorem mapGet?_hideSecrets (g : gameSession) (id : String) :
    mapGet? (hideSecrets g).Players id = (mapGet? g.Players id).map hidePlayer :=
  mapGet?_map_values g.Players hidePlayer id

theorem playerIsAlive_hideSecrets (g : gameSession) (id : String) :
    playerIsAlive (hideSecrets g) id = playerIsAlive g id := by
  unfold playerIsAlive
  rw [mapGet?_hideSecrets]
  cases mapGet? g.Players id <;> rfl

theorem aliveIDs_hideSecrets (g : gameSession) : aliveIDs (hideSecrets g) = aliveIDs g := by
  unfold aliveIDs
  have hf : playerIsAlive (hideSecrets g) = playerIsAlive g :=
    funext (playerIsAlive_hideSecrets g)
  rw [hf]
  rfl

theorem maskWorldCard_hide (c : worldFacedCardView) :
    maskWorldCard (hideWorldCard c) = maskWorldCard c := by
  unfold maskWorldCard hideWorldCard
  cases h : c.IsRevealed <;> simp [h]

theorem buildWorldView_hideSecrets (g : gameSession) :
    buildWorldView (hideSecrets g) = buildWorldView g := by
  unfold buildWorldView hideSecrets
  simp only [List.map_map]
  have hf : maskWorldCard ∘ hideWorldCard = maskWorldCard := funext maskWorldCard_hide
  rw [hf]

theorem currentThreatModifier_hideSecrets (g : gameSession) :
    currentThreatModifier (hideSecrets g) = currentThreatModifier g := by
  have hB : (hideSecrets g).World.Bunker.filter (fun card =>
      card.IsRevealed && (mapGet? modifierByTitle (normalizeThreatTitle card.Title)).getD 0 ≠ 0)
      = g.World.Bunker.filter (fun card =>
      card.IsRevealed &&
        (mapGet? modifierByTitle (normalizeThreatTitle card.Title)).getD 0 ≠ 0) := by
    refine filter_map_fixed hideWorldCard _ g.World.Bunker ?_ ?_
    · intro c
      unfold hideWorldCard
      cases h : c.IsRevealed <;> simp [h]
    · intro c hc
      unfold hideWorldCard
      rw [if_pos]
      simp only [Bool.and_eq_true] at hc
      exact hc.1
  have hT : (hideSecrets g).World.Threats.length = g.World.Threats.length := by
    unfold hideSecrets
    simp only [List.length_map]
  have hC : (hideSecrets g).World.CountsThreats = g.World.CountsThreats := rfl
  unfold currentThreatModifier
  simp only [hB, hT, hC]

theorem targetBans_hideSecrets (g : gameSession) (t v : String) :
    targetBans (hideSecrets g) t v = targetBans g t v := by
  unfold targetBans
  rw [mapGet?_hideSecrets]
  cases mapGet? g.Players t <;> rfl

theorem effectiveVoteOf_hideSecrets (g : gameSession) (id : String) (record : voteRecord) :
    effectiveVoteOf (hideSecrets g) id record = effectiveVoteOf g id record := by
  unfold effectiveVoteOf
  simp only [targetBans_hideSecrets]
  rfl

theorem buildEffectiveVotes_hideSecrets (g : gameSession) (source : GoMap voteRecord) :
    buildEffectiveVotes (hideSecrets g) source = buildEffectiveVotes g source := by
  have hstep : buildEffectiveVotesStep (hideSecrets g) source =
      buildEffectiveVotesStep g source := by
    funext out id
    unfold buildEffectiveVotesStep
    rw [mapGet?_hideSecrets]
    cases mapGet? g.Players id with
    | none => rfl
    | some p =>
      simp only [Option.map, effectiveVoteOf_hideSecrets]
  unfold buildEffectiveVotes
  rw [hstep]
  rfl

theorem voteTargetName_hideSecrets (g : gameSession) (t : String) :
    voteTargetName (hideSecrets g) t = voteTargetName g t := by
  unfold voteTargetName
  rw [mapGet?_hideSecrets]
  cases mapGet? g.Players t <;> rfl

theorem buildVotesPublic_hideSecrets (g : gameSession) :
    buildVotesPublic (hideSecrets g) = buildVotesPublic g := by
  unfold buildVotesPublic
  dsimp only
  rw [show currentVoteSource (hideSecrets g) = currentVoteSource g from rfl,
    buildEffectiveVotes_hideSecrets]
  rw [show (hideSecrets g).Order = g.Order from rfl]
  congr 1
  funext id
  rw [mapGet?_hideSecrets]
  cases mapGet? g.Players id with
  | none => rfl
  | some p =>
    simp only [Option.map]
    unfold votePublicOf
    simp only [voteTargetName_hideSecrets]
    rfl

theorem buildPublicCategories_hideSecrets (g : gameSession) (h : g.IsDev = false)
    (p : gamePlayer) :
    buildPublicCategories (hideSecrets g) (hidePlayer p) = buildPublicCategories g p := by
  have hdev : (hideSecrets g).IsDev = false := h
  have hS : (hidePlayer p).Specials.filter (fun special => special.RevealedPublic) =
      p.Specials.filter (fun special => special.RevealedPublic) := by
    unfold hidePlayer
    simp only [List.filter_filter, Bool.and_self]
  have hH : ∀ cfg : deckSlotConfig,
      (hidePlayer p).Hand.filter (fun card => cardInSlot cfg card && card.Revealed) =
      p.Hand.filter (fun card => cardInSlot cfg card && card.Revealed) := by
    intro cfg
    refine filter_map_fixed hideCard _ p.Hand ?_ ?_
    · intro c
      unfold hideCard cardInSlot
      cases hr : c.Revealed <;> simp [hr]
    · intro c hc
      unfold hideCard
      rw [if_pos]
      simp only [Bool.and_eq_true] at hc
      exact hc.2
  unfold buildPublicCategories
  simp only [hdev, h, Bool.not_false, Bool.true_and, Bool.not_not, hS, hH]

theorem publicPlayerOf_hideSecrets (g : gameSession) (h : g.IsDev = false) (rm : Option room)
    (now : Int) (id : String) (p : gamePlayer) :
    publicPlayerOf (hideSecrets g) rm now id (hidePlayer p) = publicPlayerOf g rm now id p := by
  have hdev : (hideSecrets g).IsDev = false := h
  have hR : (hidePlayer p).Hand.filter (fun card => card.Revealed) =
      p.Hand.filter (fun card => card.Revealed) := by
    refine filter_map_fixed hideCard _ p.Hand ?_ ?_
    · intro c
      unfold hideCard
      cases hr : c.Revealed <;> simp [hr]
    · intro c hc
      unfold hideCard
      rw [if_pos hc]
  have hL : (hidePlayer p).Hand.length = p.Hand.length := by
    unfold hidePlayer
    simp only [List.length_map]
  have hS : playerHasRevealedSpecial (hidePlayer p) = playerHasRevealedSpecial p := by
    unfold playerHasRevealedSpecial hidePlayer
    simp only [List.any_filter, Bool.and_self]
  unfold publicPlayerOf
  simp only [hR, hL, hS, hdev, h, buildPublicCategories_hideSecrets g h p, Bool.false_and]
  rfl

theorem buildPublicPlayers_hideSecrets (g : gameSession) (h : g.IsDev = false)
    (rm : Option room) (now : Int) :
    buildPublicPlayers (hideSecrets g) rm now = buildPublicPlayers g rm now := by
  unfold buildPublicPlayers
  rw [show (hideSecrets g).Order = g.Order from rfl]
  congr 1
  funext id
  rw [mapGet?_hideSecrets]
  cases mapGet? g.Players id with
  | none => rfl
  | some p =>
    simp only [Option.map, publicPlayerOf_hideSecrets g h rm now id p]

/-- The public and the world section of the view of a session that is not a dev session
are those of the session without its hidden information. -/
theorem buildGameView_hideSecrets (g : gameSession) (h : g.IsDev = false) (rm : Option room)
    (now : Int) (viewer : String) :
    (buildGameView (hideSecrets g) rm now viewer).Public =
        (buildGameView g rm now viewer).Public ∧
      (buildGameView (hideSecrets g) rm now viewer).World =
        (buildGameView g rm now viewer).World := by
  unfold buildGameView
  dsimp only
  refine ⟨?_, ?_⟩
  · rw [buildPublicPlayers_hideSecrets g h, aliveIDs_hideSecrets,
      currentThreatModifier_hideSecrets, buildVotesPublic_hideSecrets]
    rfl
  · rw [buildWorldView_hideSecrets]

/-- Claim C26. Two sessions that are not dev sessions and differ only in hidden information
(card id and label of unrevealed hand cards, abilities that are not publicly revealed, and
title, description, text and image id of unrevealed bunker and threat cards) give every
viewer, for the same room and the same reading of the clock, the same public section and
the same world section of `buildGameView`. -/
theorem hidden_information_not_in_view (g g2 : gameSession) (rm : Option room) (now : Int)
    (viewer : String) (hdev : g.IsDev = false) (h : SameButHidden g g2) :
    (buildGameView g rm now viewer).Public = (buildGameView g2 rm now viewer).Public ∧
      (buildGameView g rm now viewer).World = (buildGameView g2 rm now viewer).World := by
  have hdev2 : g2.IsDev = false := by
    have h1 : (hideSecrets g).IsDev = (hideSecrets g2).IsDev := congrArg gameSession.IsDev h
    exact h1.symm.trans hdev
  obtain ⟨a1, a2⟩ := buildGameView_hideSecrets g hdev rm now viewer
  obtain ⟨b1, b2⟩ := buildGameView_hideSecrets g2 hdev2 rm now viewer
  unfold SameButHidden at h
  rw [h] at a1 a2
  exact ⟨a1.symm.trans b1, a2.symm.trans b2⟩

set_option maxRecDepth 100000 in
/-- The two example sessions differ in the hidden cards of `p2`, `p3` and `p4`, in the
hidden ability of `p2` and in the hidden bunker card, and `p1` sees the same. -/
theorem hidden_information_not_in_view_witness :
    exampleSeen.Players ≠ exampleSeenOther.Players ∧
      exampleSeen.World ≠ exampleSeenOther.World ∧
      (buildGameView exampleSeen none 0 "p1").Public =
        (buildGameView exampleSeenOther none 0 "p1").Public ∧
      (buildGameView exampleSeen none 0 "p1").World =
        (buildGameView exampleSeenOther none 0 "p1").World :=
  ⟨by decide, by decide,
    hidden_information_not_in_view exampleSeen exampleSeenOther none 0 "p1" (by decide)
      (by rfl)⟩



/-! ## Doubled votes -/

/-- A successful call of `applySpecial`: the actor is stored and alive, holds the ability,
the target is resolved, `applySpecialEffect` succeeds, and the session returned is the one
that `applySpecialEffect` returns, up to the event counter and the abilities of the actor. -/
theorem applySpecial_success_forms (g : gameSession) (actorID sid : String)
    (payload : GoMap AnyLeaf) (now : Int) :
    (applySpecial g actorID sid payload now).2.Error ≠ "" ∨
      ∃ player sp ep, mapGet? g.Players actorID = some player ∧
        player.Specials.find? (fun s => s.InstanceID = sid) = some sp ∧
        resolveSpecialTarget g actorID sp.Definition.TargetScope (mapEntries payload) = .ok ep ∧
        (applySpecialEffect g actorID player
          (player.Specials.findIdx (fun s => s.InstanceID = sid)) sp ep now).2.1.Error = "" ∧
        ∃ (f : List specialConditionState → List specialConditionState) (counter : Int),
          (applySpecial g actorID sid payload now).1 =
          { (applySpecialEffect g actorID player
              (player.Specials.findIdx (fun s => s.InstanceID = sid)) sp ep now).1 with
            Players := (mapModify (applySpecialEffect g actorID player
                (player.Specials.findIdx (fun s => s.InstanceID = sid)) sp ep now).1.Players
              actorID (fun p => { p with Specials := f p.Specials }))
            EventCounter := counter } := by
  have hid : ∀ (ps : GoMap gamePlayer) (k : String),
      mapModify ps k (fun p => { p with Specials := id p.Specials }) = ps := by
    intro ps k
    induction ps with
    | nil => rfl
    | cons e t ih =>
      obtain ⟨a, w⟩ := e
      unfold mapModify
      split
      · rfl
      · rw [ih]
  have hkeep : ∀ s : gameSession, ∃ (f : List specialConditionState → List specialConditionState)
      (counter : Int), s = { s with
        Players := (mapModify s.Players actorID (fun p => { p with Specials := f p.Specials }))
        EventCounter := counter } := by
    intro s
    refine ⟨id, s.EventCounter, ?_⟩
    rw [hid]
  generalize hr : applySpecial g actorID sid payload now = res
  unfold applySpecial at hr
  cases hp : mapGet? g.Players actorID with
  | none =>
    rw [hp] at hr
    subst hr
    exact Or.inl (err_pair g _ (by decide)).1
  | some player =>
    rw [hp] at hr
    dsimp only at hr
    by_cases h1 : player.Status ≠ playerAlive
    · rw [if_pos h1] at hr
      subst hr
      exact Or.inl (err_pair g _ (by decide)).1
    rw [if_neg h1] at hr
    by_cases h2 : g.Phase = scenarioPhaseEnded
    · rw [if_pos h2] at hr
      subst hr
      exact Or.inl (err_pair g _ (by decide)).1
    rw [if_neg h2] at hr
    by_cases h3 : sid = ""
    · rw [if_pos h3] at hr
      subst hr
      exact Or.inl (err_pair g _ (by decide)).1
    rw [if_neg h3, get?_findIdx] at hr
    cases hs : player.Specials.find? (fun sp => sp.InstanceID = sid) with
    | none =>
      rw [hs] at hr
      subst hr
      exact Or.inl (err_pair g _ (by decide)).1
    | some special =>
      rw [hs] at hr
      dsimp only at hr
      by_cases h4 : (!special.Definition.Implemented) = true
      · rw [if_pos h4] at hr
        subst hr
        exact Or.inl (err_pair g _ (by decide)).1
      rw [if_neg h4] at hr
      by_cases h5 : special.Used = true
      · rw [if_pos h5] at hr
        subst hr
        exact Or.inl (err_pair g _ (by decide)).1
      rw [if_neg h5] at hr
      by_cases h6 : (!g.IsDev) = true ∧ g.Settings.SpecialUsage = "only_during_voting" ∧
          g.Phase ≠ scenarioPhaseVoting
      · rw [if_pos h6] at hr
        subst hr
        exact Or.inl (err_pair g _ (by decide)).1
      rw [if_neg h6] at hr
      by_cases h7 : special.Definition.Trigger = "onOwnerEliminated" ∨
          special.Definition.Trigger = "secret_onEliminate"
      · rw [if_pos h7] at hr
        subst hr
        exact Or.inl (err_pair g _ (by decide)).1
      rw [if_neg h7] at hr
      by_cases h8 : special.Definition.ChoiceKind ≠ "" ∧ special.Definition.ChoiceKind ≠ "none" ∧
          mapLen payload = 0 ∧
          (!decide (special.Definition.ChoiceKind = "category" ∧
            asString (mapGet? special.Definition.Effect.Params "category") ≠ "")) = true
      · rw [if_pos h8] at hr
        subst hr
        exact Or.inl (err_pair g _ (by decide)).1
      rw [if_neg h8] at hr
      cases ht : resolveSpecialTarget g actorID special.Definition.TargetScope
          (mapEntries payload) with
      | error e =>
        rw [ht] at hr
        subst hr
        exact Or.inl (err_pair g _ (resolveSpecialTarget_error _ _ _ _ _ ht)).1
      | ok ep =>
        rw [ht] at hr
        dsimp only at hr
        by_cases h9 : special.Definition.ChoiceKind = "player" ∧
            (!special.Definition.AllowSelf) = true ∧
            trimSpace (asString (mapGet? ep "targetPlayerId")) ≠ "" ∧
            trimSpace (asString (mapGet? ep "targetPlayerId")) = actorID
        · rw [if_pos h9] at hr
          subst hr
          exact Or.inl (err_pair g _ (by decide)).1
        rw [if_neg h9] at hr
        by_cases h10 : validateSpecialRequires g special ep ≠ ""
        · rw [if_pos h10] at hr
          subst hr
          exact Or.inl (err_pair g _ h10).1
        rw [if_neg h10] at hr
        by_cases herr : (applySpecialEffect g actorID player
            (player.Specials.findIdx (fun sp => sp.InstanceID = sid)) special ep now).2.1.Error ≠ ""
        · rw [if_pos herr] at hr
          subst hr
          exact Or.inl herr
        rw [if_neg herr] at hr
        right
        refine ⟨player, special, ep, rfl, hs, ht, not_not.mp herr, ?_⟩
        by_cases h11 : (!(applySpecialEffect g actorID player
            (player.Specials.findIdx (fun sp => sp.InstanceID = sid)) special ep now).2.1.StateChanged) = true
        · rw [if_pos h11] at hr
          subst hr
          exact hkeep _
        rw [if_neg h11] at hr
        by_cases h12 : (!special.RevealedPublic) = true
        · rw [if_pos h12] at hr
          by_cases hb : (applySpecialEffect g actorID player
              (player.Specials.findIdx (fun sp => sp.InstanceID = sid)) special ep now).2.2 = true
          · rw [if_pos hb] at hr
            subst hr
            exact ⟨fun l => listModify l (player.Specials.findIdx (fun sp => sp.InstanceID = sid))
              (fun sp => { sp with RevealedPublic := true }),
              (applySpecialEffect g actorID player
                (player.Specials.findIdx (fun sp => sp.InstanceID = sid)) special ep
                now).1.EventCounter + 1, rfl⟩
          · rw [if_neg hb] at hr
            subst hr
            exact hkeep _
        · rw [if_neg h12] at hr
          subst hr
          exact hkeep _

/-- The effect `doubleVotesAgainst_and_disableSelfVote`, when it succeeds: the phase is
`voting`, outside dev sessions the special window is open, the target is alive, and the
session returned has the target in `DoubleAgainst`, the vote of the actor marked as wasted
and the ability marked as used. -/
theorem applySpecialEffect_double (g : gameSession) (a : String) (p : gamePlayer)
    (i : Nat) (sp : specialConditionState) (payload : GoMap AnyLeaf) (now : Int)
    (ht : sp.Definition.Effect.EffectType = "doubleVotesAgainst_and_disableSelfVote")
    (hok : (applySpecialEffect g a p i sp payload now).2.1.Error = "") :
    g.Phase = scenarioPhaseVoting ∧
      (g.IsDev = false → g.VotePhase = votePhaseSpecialWindow) ∧
      playerIsAlive g (trimSpace (asString (mapGet? payload "targetPlayerId"))) = true ∧
      (applySpecialEffect g a p i sp payload now).1 =
        (makeEvent (markSpecialUsed (markVoteWasted
            { g with DoubleAgainst := trimSpace (asString (mapGet? payload "targetPlayerId")) }
            p.PlayerID "Ваш голос потрачен." now) a i) "info"
          (p.Name ++ " усиливает голоса против " ++
            nameOf (markSpecialUsed (markVoteWasted
              { g with DoubleAgainst := trimSpace (asString (mapGet? payload "targetPlayerId")) }
              p.PlayerID "Ваш голос потрачен." now) a i)
              (trimSpace (asString (mapGet? payload "targetPlayerId"))) ++ ".") now).1 := by
  generalize hr : applySpecialEffect g a p i sp payload now = r at hok ⊢
  unfold applySpecialEffect at hr
  dsimp only at hr
  rw [ht] at hr
  split at hr
  · subst hr
    simp [errorResult] at hok
  · rename_i hwin
    simp only [] at hr
    split at hr
    · subst hr
      simp [errorResult] at hok
    · split at hr
      · subst hr
        simp [errorResult] at hok
      · split at hr
        · subst hr
          simp [errorResult] at hok
        · subst hr
          rename_i h1 h2 h3
          refine ⟨not_not.1 h1, ?_, by simpa using h2, rfl⟩
          intro hdev
          by_contra hc
          apply hwin
          exact ⟨by simp [hdev], by decide, hc⟩

theorem mapModify_comp {V : Type} (m : GoMap V) (k : String) (f h : V → V) :
    mapModify (mapModify m k f) k h = mapModify m k (fun v => h (f v)) := by
  induction m with
  | nil => rfl
  | cons e t ih =>
    obtain ⟨a, w⟩ := e
    by_cases hk : a = k
    · simp [mapModify, hk]
    · simp [mapModify, hk, ih]

/-- The session after a successful activation of `doubleVotesAgainst_and_disableSelfVote`,
field by field. -/
theorem applySpecial_double_fields (g : gameSession) (A sid : String)
    (payload : GoMap AnyLeaf) (now : Int) (player : gamePlayer) (sp : specialConditionState)
    (hp : mapGet? g.Players A = some player) (hid : player.PlayerID = A)
    (hsp : player.Specials.find? (fun s => s.InstanceID = sid) = some sp)
    (ht : sp.Definition.Effect.EffectType = "doubleVotesAgainst_and_disableSelfVote")
    (hok : (applySpecial g A sid payload now).2.Error = "") :
    ∃ (X : String) (ep : GoMap AnyLeaf)
      (f : List specialConditionState → List specialConditionState) (counter : Int),
      resolveSpecialTarget g A sp.Definition.TargetScope (mapEntries payload) = .ok ep ∧
      X = trimSpace (asString (mapGet? ep "targetPlayerId")) ∧
      playerIsAlive g X = true ∧ g.Phase = scenarioPhaseVoting ∧
      (g.IsDev = false → g.VotePhase = votePhaseSpecialWindow) ∧
      (applySpecial g A sid payload now).1 =
        { g with
          DoubleAgainst := X
          AutoWastedVoters := mapSet g.AutoWastedVoters A true
          VoteDisabled := mapSet g.VoteDisabled A "Ваш голос потрачен."
          Votes := (mapSet g.Votes A
            { TargetID := "", Submitted := now, IsValid := false,
              ReasonText := "Ваш голос потрачен." })
          Players := (mapModify g.Players A (fun p => { p with Specials := f p.Specials }))
          EventCounter := counter } := by
  rcases applySpecial_success_forms g A sid payload now with herr | h
  · exact absurd hok herr
  obtain ⟨player2, sp2, ep, hp2, hsp2, hres, heff, f, counter, hg2⟩ := h
  rw [hp] at hp2
  have e1 : player2 = player := (Option.some.inj hp2).symm
  subst e1
  rw [hsp] at hsp2
  have e2 : sp2 = sp := (Option.some.inj hsp2).symm
  subst e2
  obtain ⟨d1, d2, d3, d4⟩ := applySpecialEffect_double g A player2 _ sp2 ep now ht heff
  refine ⟨trimSpace (asString (mapGet? ep "targetPlayerId")), ep,
    fun l => f (listModify l (player2.Specials.findIdx (fun s => s.InstanceID = sid))
      (fun s => { s with Used := true })), counter, hres, rfl, d3, d1, d2, ?_⟩
  rw [hg2, d4, hid]
  simp only [makeEvent, markSpecialUsed, markVoteWasted, mapModify_comp]
  have hre : (if "Ваш голос потрачен." = "" then "Голос заблокирован."
      else "Ваш голос потрачен.") = "Ваш голос потрачен." := by decide
  simp only [hre]

/-- Claim C4. After the actor `A` has successfully applied an ability with the effect
`doubleVotesAgainst_and_disableSelfVote` (which needs the phase `voting` and, outside dev
sessions, the special window) to the alive target `X`, the record of `A` being stored under
its own id: the total that `computeVoteTotals` gives `X` is twice the sum of the weights
(`VoteWeights` override or 1) of the votes that count for `X`; the votes that count are valid
votes for `X` of alive voters other than `A`, and every valid vote for `X` of an alive voter
of `Order` other than `A` that no rule of the vote invalidates counts; for everybody but `A`
the submitted record, the status and the validity of a vote are what they were before; and
the effective vote of `A`, whatever record `A` has submitted, has the status `invalid`, the
weight 0 and a reason. -/
theorem double_votes_contract (g : gameSession) (A sid : String) (payload : GoMap AnyLeaf)
    (now : Int) (player : gamePlayer) (sp : specialConditionState)
    (hp : mapGet? g.Players A = some player) (hid : player.PlayerID = A)
    (hsp : player.Specials.find? (fun s => s.InstanceID = sid) = some sp)
    (ht : sp.Definition.Effect.EffectType = "doubleVotesAgainst_and_disableSelfVote")
    (hok : (applySpecial g A sid payload now).2.Error = "") :
    ∃ X, (applySpecial g A sid payload now).1.DoubleAgainst = X ∧
      (sp.Definition.TargetScope = "any_alive" →
        X = trimSpace (asString (mapGet? (mapEntries payload) "targetPlayerId"))) ∧
      playerIsAlive g X = true ∧ g.Phase = scenarioPhaseVoting ∧
      (g.IsDev = false → g.VotePhase = votePhaseSpecialWindow) ∧
      (mapGet? (computeVoteTotals (applySpecial g A sid payload now).1
          (currentVoteSource (applySpecial g A sid payload now).1)).1 X).getD 0 =
        2 * ((countedVotes (applySpecial g A sid payload now).1
          (currentVoteSource (applySpecial g A sid payload now).1) X).map
            (fun e => baseWeight g e.1)).sum ∧
      (∀ e ∈ countedVotes (applySpecial g A sid payload now).1
          (currentVoteSource (applySpecial g A sid payload now).1) X,
        e.1 ≠ A ∧ playerIsAlive g e.1 = true ∧
          ∃ record, mapGet? (currentVoteSource g) e.1 = some record ∧ record.TargetID = X ∧
            record.IsValid = true ∧ claimedInvalid g e.1 record = false) ∧
      (∀ v record, v ≠ A → v ∈ g.Order → playerIsAlive g v = true →
        mapGet? (currentVoteSource g) v = some record → record.TargetID = X → X ≠ "" →
        record.IsValid = true → claimedInvalid g v record = false →
        ∃ e, (v, e) ∈ countedVotes (applySpecial g A sid payload now).1
          (currentVoteSource (applySpecial g A sid payload now).1) X) ∧
      (∀ v, v ≠ A →
        mapGet? (currentVoteSource (applySpecial g A sid payload now).1) v =
            mapGet? (currentVoteSource g) v ∧
          playerIsAlive (applySpecial g A sid payload now).1 v = playerIsAlive g v ∧
          ∀ record, claimedInvalid (applySpecial g A sid payload now).1 v record =
            claimedInvalid g v record) ∧
      (∀ record, mapGet? (currentVoteSource (applySpecial g A sid payload now).1) A =
          some record → A ∈ g.Order →
        ∃ e, mapGet? (buildEffectiveVotes (applySpecial g A sid payload now).1
            (currentVoteSource (applySpecial g A sid payload now).1)) A = some e ∧
          e.Status = "invalid" ∧ e.Weight = 0 ∧ e.ReasonText ≠ "") := by
  obtain ⟨X, ep, f, counter, hres, hX, halive, hphase, hwin, hg2⟩ :=
    applySpecial_double_fields g A sid payload now player sp hp hid hsp ht hok
  generalize (applySpecial g A sid payload now).1 = g2 at hg2 ⊢
  have hDA : g2.DoubleAgainst = X := by rw [hg2]
  have hVD : g2.VoteDisabled = mapSet g.VoteDisabled A "Ваш голос потрачен." := by rw [hg2]
  have hV : g2.Votes = mapSet g.Votes A
      { TargetID := "", Submitted := now, IsValid := false,
        ReasonText := "Ваш голос потрачен." } := by rw [hg2]
  have hBV : g2.BaseVotes = g.BaseVotes := by rw [hg2]
  have hVR : g2.VoteResults = g.VoteResults := by rw [hg2]
  have hVP : g2.VotePhase = g.VotePhase := by rw [hg2]
  have hVC : g2.VoteCandidates = g.VoteCandidates := by rw [hg2]
  have hRD : g2.RevoteDisallow = g.RevoteDisallow := by rw [hg2]
  have hVW : g2.VoteWeights = g.VoteWeights := by rw [hg2]
  have hO : g2.Order = g.Order := by rw [hg2]
  have hP : g2.Players =
      mapModify g.Players A (fun p => { p with Specials := f p.Specials }) := by rw [hg2]
  clear hg2
  have hget : ∀ v, mapGet? g2.Players v = (mapGet? g.Players v).map (fun p =>
      if A = v then { p with Specials := f p.Specials } else p) := by
    intro v
    rw [hP, mapGet?_mapModify]
    by_cases hv : A = v
    · simp only [if_pos hv]
    · simp only [if_neg hv]
      cases mapGet? g.Players v <;> rfl
  have hal : ∀ v, playerIsAlive g2 v = playerIsAlive g v := by
    intro v
    unfold playerIsAlive
    rw [hget]
    cases mapGet? g.Players v with
    | none => rfl
    | some q =>
      simp only [Option.map]
      split <;> rfl
  have hban : ∀ t v, targetBans g2 t v = targetBans g t v := by
    intro t v
    unfold targetBans
    rw [hget]
    cases mapGet? g.Players t with
    | none => rfl
    | some q =>
      simp only [Option.map]
      split <;> rfl
  have hhas : mapHas g2.Players A = true := by
    unfold mapHas
    rw [hget, hp]
    rfl
  have hsrc : ∀ v, v ≠ A → mapGet? (currentVoteSource g2) v = mapGet? (currentVoteSource g) v := by
    intro v hv
    unfold currentVoteSource
    rw [hVP, hVR, hBV, hV]
    repeat' split
    all_goals first
      | rfl
      | (rw [mapGet?_mapSet, if_neg (Ne.symm hv)])
  have hinv : ∀ v, v ≠ A → ∀ record, claimedInvalid g2 v record = claimedInvalid g v record := by
    intro v hv record
    unfold claimedInvalid mapHas
    rw [hVD, hRD, hVC, hban, mapGet?_mapSet, if_neg (Ne.symm hv)]
  have hdis : mapHas g2.VoteDisabled A = true := by
    rw [hVD]
    exact mapHas_mapSet_self _ _ _
  have hcount : ∀ e ∈ countedVotes g2 (currentVoteSource g2) X,
      e.1 ≠ A ∧ playerIsAlive g e.1 = true ∧ e.2.Weight = 2 * baseWeight g e.1 ∧
        ∃ record, mapGet? (currentVoteSource g) e.1 = some record ∧ record.TargetID = X ∧
          record.IsValid = true ∧ claimedInvalid g e.1 record = false := by
    intro e he
    obtain ⟨record, c1, c2, c3, c4, c5, c6, c7, c8⟩ :=
      countedVotes_spec g2 (currentVoteSource g2) X e he
    have hne : e.1 ≠ A := by
      intro hc
      unfold claimedInvalid at c4
      rw [hc, hdis] at c4
      simp at c4
    refine ⟨hne, (hal e.1) ▸ c7, ?_, record, (hsrc e.1 hne) ▸ c1, c2, c5,
      (hinv e.1 hne record) ▸ c4⟩
    rw [c6]
    unfold claimedWeight baseWeight
    rw [hVW, hDA, if_pos rfl]
    exact mul_comm _ _
  refine ⟨X, hDA, ?_, halive, hphase, hwin, ?_, ?_, ?_, ?_, ?_⟩
  · intro hscope
    rw [hX]
    unfold resolveSpecialTarget at hres
    rw [hscope] at hres
    rw [if_neg (by decide), if_neg (by decide), if_pos (Or.inl rfl)] at hres
    dsimp only at hres
    split at hres
    · exact Except.noConfusion hres
    · split at hres
      · exact Except.noConfusion hres
      · rw [← Except.ok.inj hres]
  · rw [computeVoteTotals_get]
    have hsum : voteTotal g2 (currentVoteSource g2) X =
        2 * ((countedVotes g2 (currentVoteSource g2) X).map
          (fun e => baseWeight g e.1)).sum := by
      unfold voteTotal
      rw [← List.sum_map_mul_left]
      congr 1
      refine List.map_congr_left ?_
      intro e he
      exact (hcount e he).2.2.1
    split
    · rw [Option.getD_some, hsum]
    · rename_i hno
      have hnil : countedVotes g2 (currentVoteSource g2) X = [] := by
        by_contra hc
        exact hno (Or.inr hc)
      rw [hnil]
      rfl
  · intro e he
    obtain ⟨h1, h2, _, h4⟩ := hcount e he
    exact ⟨h1, h2, h4⟩
  · intro v record hv hord hlive hrec htarget hX0 hvalid hclaim
    have hhasv : mapHas g2.Players v = true := by
      have h1 := hal v
      rw [hlive] at h1
      unfold playerIsAlive at h1
      unfold mapHas
      cases hm : mapGet? g2.Players v with
      | none =>
        rw [hm] at h1
        exact absurd h1 (by decide)
      | some q => rfl
    obtain ⟨s1, _, _, s4⟩ := effectiveVoteOf_spec g2 v record
    have hci : claimedInvalid g2 v record = false := by rw [hinv v hv, hclaim]
    have hne : record.TargetID ≠ "" := by rw [htarget]; exact hX0
    rw [hci, hvalid] at s1
    simp only [hne, Bool.not_true, Bool.and_false, Bool.or_false, Bool.false_eq_true,
      if_false, Prod.mk.injEq] at s1
    rw [s1.1, if_pos rfl] at s4
    refine ⟨effectiveVoteOf g2 v record, ?_⟩
    unfold countedVotes
    rw [List.mem_filter, mem_mapEntries, buildEffectiveVotes_get,
      if_pos ⟨hO ▸ hord, hhasv⟩, hsrc v hv, hrec]
    refine ⟨rfl, ?_⟩
    unfold countsFor
    simp only [Bool.and_eq_true, decide_eq_true_eq]
    exact ⟨⟨⟨s1.1, by rw [s4]; exact hne⟩, by rw [hal v]; exact hlive⟩, by rw [s4]; exact htarget⟩
  · intro v hv
    exact ⟨hsrc v hv, hal v, hinv v hv⟩
  · intro record hrec hord
    rw [buildEffectiveVotes_get, if_pos ⟨hO ▸ hord, hhas⟩, hrec]
    refine ⟨_, rfl, ?_⟩
    obtain ⟨s1, s2, _, _⟩ := effectiveVoteOf_spec g2 A record
    have hci : claimedInvalid g2 A record = true := by
      unfold claimedInvalid
      rw [hdis]
      rfl
    rw [hci] at s1
    simp only [Bool.true_or, if_true, Prod.mk.injEq] at s1
    refine ⟨s1.1, s1.2, ?_⟩
    rw [s2]
    unfold invalidReason mapGetS
    rw [hVD, mapGet?_mapSet, if_pos rfl]
    split
    · assumption
    · simp only [Option.getD_some]
      rw [if_pos (by decide)]
      decide

set_option maxRecDepth 100000 in
/-- Five players, `p1` has voted for `p2` and then applied `compromat` to `p2`; `p3`, `p4`
and `p5` have voted for `p2`: the total of `p2` is 6, and the vote of `p1` is invalid. -/
theorem double_votes_contract_witness :
    (mapGet? (computeVoteTotals exampleFiveDoubled
        (currentVoteSource exampleFiveDoubled)).1 "p2").getD 0 = 6 ∧
      (mapGet? (buildEffectiveVotes exampleFiveDoubled
        (currentVoteSource exampleFiveDoubled)) "p1").map
          (fun e => (e.Status, e.Weight, e.ReasonText)) =
        some ("invalid", 0, "Ваш голос потрачен.") ∧
      ∃ X, exampleFiveDoubled.DoubleAgainst = X ∧
        (mapGet? (computeVoteTotals exampleFiveDoubled
            (currentVoteSource exampleFiveDoubled)).1 X).getD 0 =
          2 * ((countedVotes exampleFiveDoubled (currentVoteSource exampleFiveDoubled) X).map
            (fun e => baseWeight exampleFiveWindow e.1)).sum := by
  refine ⟨by decide, by decide, ?_⟩
  obtain ⟨X, h1, _, _, _, _, h6, _⟩ :=
    double_votes_contract exampleFiveWindow "p1" "special-p1-1"
      [("targetPlayerId", .str "p2")] 6
      { examplePlayer "p1" "alive" with
          Specials := [{ InstanceID := "special-p1-1",
                         Definition := exampleCompromatDefinition,
                         RevealedPublic := false, Used := false }] }
      { InstanceID := "special-p1-1", Definition := exampleCompromatDefinition,
        RevealedPublic := false, Used := false }
      (by decide) (by decide) (by decide) (by decide) (by decide)
  exact ⟨X, h1, h6⟩



/-! ## The vote quota over time -/

theorem handleRevealPhaseTimeout_step (g : gameSession) (now : Int) :
    PollStep (poll g) (poll (handleRevealPhaseTimeout g now).1) := by
  unfold handleRevealPhaseTimeout
  dsimp only [makeEvent]
  refine ite_of (fun r : gameSession × gameActionResult => PollStep (poll g) (poll r.1)) _ _ _ (fun _ => PollStep_same rfl) (fun _ => ?_)
  split
  · exact PollStep_to (PollStep_same rfl) (scheduleRevealTimeoutIfNeeded_poll _ now)
  · refine ite_of (fun r : gameSession × gameActionResult => PollStep (poll g) (poll r.1)) _ _ _ (fun _ => ?_) (fun _ => ?_)
    · exact PollStep_to (PollStep_same rfl) (scheduleRevealTimeoutIfNeeded_poll _ now)
    · refine ite_of (fun r : gameSession × gameActionResult => PollStep (poll g) (poll r.1)) _ _ _ (fun _ => ?_) (fun _ => ?_)
      · refine PollStep_same ?_
        refine Eq.trans (show _ = poll (enterRevealDiscussion _ now) from rfl) ?_
        rw [enterRevealDiscussion_poll]
        split <;>
          exact Eq.trans (show _ = poll (modifyCard _ _ _ _) from rfl) (modifyCard_poll _ _ _ _)
      · refine ite_of (fun r : gameSession × gameActionResult => PollStep (poll g) (poll r.1)) _ _ _ (fun _ => ?_) (fun _ => ?_)
        · refine ite_of (fun r : gameSession × gameActionResult => PollStep (poll g) (poll r.1)) _ _ _ (fun _ => ?_) (fun _ => ?_)
          · refine PollStep_post (startVoting_from (poll g)
              { g with RevealedThisRnd := mapSet g.RevealedThisRnd g.CurrentTurnID true
                       LastRevealerID := g.CurrentTurnID } now rfl) ?_
            rfl
          · refine ite_of (fun r : gameSession × gameActionResult => PollStep (poll g) (poll r.1)) _ _ _ (fun _ => ?_) (fun _ => ?_)
            · refine PollStep_post (startNextRoundOrEnd_from (poll g)
                { g with RevealedThisRnd := mapSet g.RevealedThisRnd g.CurrentTurnID true
                         LastRevealerID := g.CurrentTurnID } now rfl) ?_
              rfl
            · exact startNextRoundOrEnd_from (poll g)
                { g with RevealedThisRnd := mapSet g.RevealedThisRnd g.CurrentTurnID true
                         LastRevealerID := g.CurrentTurnID } now rfl
        · exact PollStep_same (scheduleRevealTimeoutIfNeeded_poll _ now)

theorem handleTimerExpired_step (g : gameSession) (now : Int) :
    PollStep (poll g) (poll (handleTimerExpired g now).1) := by
  have hc : poll (clearActiveTimer g) = poll g := rfl
  have hS : PollStep (poll g) (poll (clearActiveTimer g)) := PollStep_same hc
  unfold handleTimerExpired
  split
  · exact PollStep_same rfl
  · dsimp only [makeEvent]
    repeat' (first
      | with_reducible exact hS
      | with_reducible exact PollStep_same rfl
      | with_reducible exact PollStep_pre hc (handleRevealPhaseTimeout_step _ now)
      | with_reducible exact PollStep_pre hc (advanceAfterDiscussion_step _ now)
      | with_reducible exact PollStep_pre hc (finalizeVoting_step _ _ now)
      | with_reducible exact PollStep_pre hc (startNextRoundOrEnd_step _ now)
      | with_reducible exact PollStep_pre hc (PollStep_same (finishGame_poll _ _ now))
      | with_reducible refine ite_of (fun r : gameSession × gameActionResult => PollStep (poll g) (poll r.1)) _ _ _ (fun _ => ?_) (fun _ => ?_)
      | exact PollStep_post (startVoting_from (poll g) (clearActiveTimer g) now hc) rfl)

theorem handleAction_step (g : gameSession) (actorID actionType : String)
    (payload : GoMap AnyVal) (now : Int) :
    PollStep (poll g) (poll (handleAction g actorID actionType payload now).1) := by
  unfold handleAction
  split
  · exact PollStep_same rfl
  · split
    · exact PollStep_same (revealCard_poll _ _ _ _)
    · exact continueRound_step _ _ _
    · exact PollStep_same (vote_poll _ _ _ _)
    · exact finalizeVoting_step _ _ _
    · exact PollStep_same (applySpecial_poll _ _ _ _ _)
    · exact PollStep_same (poll_of_hard (revealWorldThreat_hard _ _ _))
    · exact PollStep_same (poll_of_hard (setBunkerOutcome_hard _ _ _ _))
    · exact startNextRoundOrEnd_step _ _
    · exact kickPlayer_step _ _ _
    · exact devAddPlayer_step _ _ _
    · exact devRemovePlayer_step _ _ _
    · exact markLeftBunker_step _ _ _
    · exact PollStep_same rfl

theorem mapEntries_keys_nodup {V : Type} (m : GoMap V) : (mapKeys m).Nodup := by
  unfold mapKeys
  induction m with
  | nil => exact List.nodup_nil
  | cons e t ih =>
    obtain ⟨a, v⟩ := e
    unfold mapEntries
    rw [List.map_cons, List.nodup_cons]
    refine ⟨?_, ?_⟩
    · intro hc
      obtain ⟨x, hx, hxa⟩ := List.mem_map.1 hc
      have := (List.mem_filter.1 hx).2
      simp only [ne_eq, decide_not, Bool.not_eq_true', decide_eq_false_iff_not] at this
      exact this hxa
    · exact (List.Nodup.sublist (List.Sublist.map _ (List.filter_sublist _)) ih)

theorem removals_none (r r2 : GoMap String)
    (h : ∀ id, mapGet? r id = some playerAlive → mapGet? r2 id ≠ some playerEliminated ∧
      mapGet? r2 id ≠ some playerLeftBunker) : removals r r2 = 0 := by
  unfold removals
  rw [List.length_eq_zero, List.filter_eq_nil_iff]
  intro id _ hc
  simp only [Bool.and_eq_true, Bool.or_eq_true, decide_eq_true_eq] at hc
  rcases hc.2 with h2 | h2
  · exact (h id hc.1).1 h2
  · exact (h id hc.1).2 h2

theorem removals_one (r r2 : GoMap String) (t : String)
    (ht : mapGet? r t = some playerAlive)
    (ht2 : mapGet? r2 t = some playerEliminated ∨ mapGet? r2 t = some playerLeftBunker)
    (h : ∀ id, id ≠ t → mapGet? r2 id = mapGet? r id) : removals r r2 = 1 := by
  unfold removals
  have hfilter : (mapKeys r).filter (fun id =>
      decide (mapGet? r id = some playerAlive) &&
        (decide (mapGet? r2 id = some playerEliminated) ||
          decide (mapGet? r2 id = some playerLeftBunker))) =
      (mapKeys r).filter (fun id => decide (id = t)) := by
    refine List.filter_congr ?_
    intro id _
    by_cases hid : id = t
    · subst hid
      simp only [ht, decide_True, Bool.true_and]
      rcases ht2 with h2 | h2 <;> simp [h2]
    · have hd : decide (id = t) = false := decide_eq_false hid
      rw [hd, h id hid]
      cases hm : mapGet? r id with
      | none => simp
      | some s =>
        by_cases hs : s = playerAlive
        · subst hs
          simp
          decide
        · simp [hs]
  rw [hfilter]
  have hmem : t ∈ mapKeys r := by
    rw [mem_mapKeys]
    unfold mapHas
    rw [ht]
    rfl
  have hcount := List.count_eq_one_of_mem (mapEntries_keys_nodup r) hmem
  rw [List.count_eq_countP, List.countP_eq_length_filter] at hcount
  rw [← hcount]
  congr 1

theorem alive_ne_eliminated : (some playerAlive : Option String) ≠ some playerEliminated := by
  decide

theorem alive_ne_left : (some playerAlive : Option String) ≠ some playerLeftBunker := by
  decide

theorem QuotaStep_of_step (g g2 : gameSession) (h : PollStep (poll g) (poll g2)) :
    QuotaStep g g2 := by
  unfold QuotaStep removalsIn
  cases h with
  | still ho hs hr hv he hc =>
    refine Or.inl ⟨removals_none _ _ ?_, hr, hv⟩
    intro id hid
    have hs2 : playerStatuses g2.Players = playerStatuses g.Players := hs
    rw [hs2, hid]
    exact ⟨alive_ne_eliminated, alive_ne_left⟩
  | advance ho hs hr hv he hc =>
    refine Or.inr (Or.inr ⟨removals_none _ _ ?_, hr, hv⟩)
    intro id hid
    have hs2 : playerStatuses g2.Players = playerStatuses g.Players := hs
    rw [hs2, hid]
    exact ⟨alive_ne_eliminated, alive_ne_left⟩
  | exit t s halive hs ho hst hr hv he hc =>
    have hst2 : playerStatuses g2.Players =
        mapModify (playerStatuses g.Players) t (fun _ => s) := hst
    have ha : mapGet? (playerStatuses g.Players) t = some playerAlive := halive
    refine Or.inr (Or.inl ⟨removals_one _ _ t ha ?_ ?_, hr, hv⟩)
    · rw [hst2, mapGet?_mapModify, if_pos rfl, ha]
      rcases hs with hs | hs
      · exact Or.inl (by rw [hs]; rfl)
      · exact Or.inr (by rw [hs]; rfl)
    · intro id hid
      rw [hst2, mapGet?_mapModify, if_neg (fun hc => hid hc.symm)]
  | relabel t hdead ho hst hr hv he hc =>
    have hst2 : playerStatuses g2.Players =
        mapModify (playerStatuses g.Players) t (fun _ => playerLeftBunker) := hst
    refine Or.inl ⟨removals_none _ _ ?_, hr, hv⟩
    intro id hid
    have hne : ¬ t = id := fun hc => hdead (hc ▸ hid)
    rw [hst2, mapGet?_mapModify, if_neg hne, hid]
    exact ⟨alive_ne_eliminated, alive_ne_left⟩
  | added id0 hfree hid0 ho hst hr hv he hc =>
    have hst2 : playerStatuses g2.Players =
        playerStatuses g.Players ++ [(id0, playerAlive)] := hst
    refine Or.inl ⟨removals_none _ _ ?_, hr, hv⟩
    intro id hid
    rw [hst2, mapGet?_append_single, hid]
    exact ⟨alive_ne_eliminated, alive_ne_left⟩
  | removed id0 ho hst hr hv he hc =>
    have hst2 : playerStatuses g2.Players = mapDel (playerStatuses g.Players) id0 := hst
    refine Or.inl ⟨removals_none _ _ ?_, hr, hv⟩
    intro id hid
    rw [hst2, mapGet?_mapDel]
    split
    · exact ⟨fun hc => Option.noConfusion hc, fun hc => Option.noConfusion hc⟩
    · rw [hid]
      exact ⟨alive_ne_eliminated, alive_ne_left⟩

theorem quotaAfterExit_eq (v : Int) (h : 0 ≤ v) : quotaAfterExit v = max 0 (v - 1) := by
  unfold quotaAfterExit
  split <;> omega

theorem QuotaStep_nonneg (g g2 : gameSession) (h : QuotaStep g g2)
    (h0 : 0 ≤ g.VotesRemaining) : 0 ≤ g2.VotesRemaining := by
  rcases h with ⟨_, _, hv⟩ | ⟨_, _, hv⟩ | ⟨_, _, hv⟩
  · rw [hv]
    exact h0
  · rw [hv, quotaAfterExit_eq _ h0]
    exact le_max_left _ _
  · exact hv

theorem poll_votes (g g2 : gameSession) (h : poll g2 = poll g) :
    g2.VotesRemaining = g.VotesRemaining := congrArg pollView.VotesRemaining h

theorem newGameSession_quota (roomCode hostID scenarioID : String) (settings : gameSettings)
    (ruleset : gameRuleset) (roomPlayers : List player) (assets : GoMap (List assetCard))
    (specialDefinitions : List specialDefinition) (rng : List Nat) (now : Int) :
    0 ≤ (newGameSession roomCode hostID scenarioID settings ruleset roomPlayers assets
      specialDefinitions rng now).VotesRemaining := by
  unfold newGameSession
  dsimp only
  rw [poll_votes _ _ (scheduleRevealTimeoutIfNeeded_poll _ _)]
  refine le_of_le_of_eq ?_ (Eq.symm (poll_votes _ _ (revealNextBunkerCard_poll _ _)))
  exact votesForRound_nonneg _ _

theorem reachable_quota (g0 g : gameSession) (h : ReachableFrom g0 g)
    (h0 : 0 ≤ g0.VotesRemaining) : 0 ≤ g.VotesRemaining := by
  induction h with
  | start => exact h0
  | action g a t payload now _ ih =>
    exact QuotaStep_nonneg _ _ (QuotaStep_of_step _ _ (handleAction_step g a t payload now)) ih
  | timer g now _ ih =>
    exact QuotaStep_nonneg _ _ (QuotaStep_of_step _ _ (handleTimerExpired_step g now)) ih

theorem QuotaStep_run (g0 g g2 : gameSession) (n : Nat) (h : QuotaStep g g2)
    (ih : g0.Round ≤ g.Round ∧ 0 ≤ g.VotesRemaining ∧
      (g.Round = g0.Round → g.VotesRemaining = max 0 (g0.VotesRemaining - n))) :
    g0.Round ≤ g2.Round ∧ 0 ≤ g2.VotesRemaining ∧
      (g2.Round = g0.Round →
        g2.VotesRemaining = max 0 (g0.VotesRemaining - ((n + removalsIn g g2 : Nat) : Int))) := by
  obtain ⟨hr0, hv0, hq⟩ := ih
  refine ⟨?_, QuotaStep_nonneg _ _ h hv0, ?_⟩
  · rcases h with ⟨_, hr, _⟩ | ⟨_, hr, _⟩ | ⟨_, hr, _⟩ <;> omega
  · intro hround
    rcases h with ⟨hn, hr, hv⟩ | ⟨hn, hr, hv⟩ | ⟨hn, hr, hv⟩
    · rw [hn, hv, hq (hr ▸ hround)]
      rfl
    · rw [hn, hv, quotaAfterExit_eq _ hv0, hq (hr ▸ hround)]
      push_cast
      omega
    · omega

theorem RunFrom_quota (g0 g : gameSession) (n : Nat) (h : RunFrom g0 g n)
    (h0 : 0 ≤ g0.VotesRemaining) :
    g0.Round ≤ g.Round ∧ 0 ≤ g.VotesRemaining ∧
      (g.Round = g0.Round → g.VotesRemaining = max 0 (g0.VotesRemaining - n)) := by
  induction h with
  | start =>
    refine ⟨le_refl _, h0, fun _ => ?_⟩
    simp only [Nat.cast_zero, sub_zero]
    exact (max_eq_right h0).symm
  | action g n a t payload now _ ih =>
    exact QuotaStep_run g0 g _ n (QuotaStep_of_step _ _ (handleAction_step g a t payload now)) ih
  | timer g n now _ ih =>
    exact QuotaStep_run g0 g _ n (QuotaStep_of_step _ _ (handleTimerExpired_step g now)) ih

theorem poll_statuses (g g2 : gameSession) (h : poll g2 = poll g) :
    playerStatuses g2.Players = playerStatuses g.Players := congrArg pollView.statuses h

theorem kickPlayer_statuses (g : gameSession) (t : String) (now : Int) (player : gamePlayer)
    (hp : mapGet? g.Players t = some player) (ha : player.Status = playerAlive) :
    playerStatuses (kickPlayer g t now).1.Players =
      mapModify (playerStatuses g.Players) t (fun _ => playerEliminated) := by
  have hE : playerStatuses (applyElimination g t).Players =
      mapModify (playerStatuses g.Players) t (fun _ => playerEliminated) := by
    rcases applyElimination_poll g t with ⟨h, _⟩ | ⟨_, h⟩
    · exfalso
      apply h
      show mapGet? (playerStatuses g.Players) t = some playerAlive
      rw [status_of_player g t player hp, ha]
    · exact congrArg pollView.statuses h
  generalize hr : kickPlayer g t now = res
  unfold kickPlayer at hr
  rw [hp] at hr
  dsimp only at hr
  rw [if_neg (not_not.2 ha)] at hr
  generalize applyElimination g t = E at hr hE
  repeat' split at hr
  all_goals subst hr
  all_goals refine Eq.trans ?_ hE
  all_goals first
    | rfl
    | exact Eq.trans (poll_statuses _ _ (finishGame_poll _ _ _)) rfl

theorem markLeftBunker_statuses (g : gameSession) (targetID : String) (now : Int)
    (player : gamePlayer) (h0 : trimSpace targetID ≠ "")
    (hp : mapGet? g.Players (trimSpace targetID) = some player)
    (ha : player.Status ≠ playerLeftBunker) :
    playerStatuses (markLeftBunker g targetID now).1.Players =
      mapModify (playerStatuses g.Players) (trimSpace targetID) (fun _ => playerLeftBunker) := by
  unfold markLeftBunker
  dsimp only
  generalize trimSpace targetID = t at hp h0
  refine ite_of (fun r : gameSession × gameActionResult => playerStatuses r.1.Players = mapModify (playerStatuses g.Players) t (fun _ => playerLeftBunker)) _ _ _ (fun hc => absurd hc h0) (fun _ => ?_)
  split
  · rename_i hn
    exact Option.noConfusion (hn.symm.trans hp)
  rename_i player2 hp2
  have hsame : player2 = player := Option.some.inj (hp2.symm.trans hp)
  subst hsame
  refine ite_of (fun r : gameSession × gameActionResult => playerStatuses r.1.Players = mapModify (playerStatuses g.Players) t (fun _ => playerLeftBunker)) _ _ _ (fun hc => absurd hc ha) (fun _ => ?_)
  generalize hP : passTurnFrom _ _ = P
  have hPoll : playerStatuses P.Players =
      mapModify (playerStatuses g.Players) t (fun _ => playerLeftBunker) := by
    rw [← hP, poll_statuses _ _ (passTurnFrom_poll _ _)]
    exact playerStatuses_set _ _ _
  clear hP
  dsimp only [makeEvent, clearActiveTimer]
  repeat' (first
    | with_reducible exact hPoll
    | with_reducible refine ite_of (fun r : gameSession × gameActionResult => playerStatuses r.1.Players = mapModify (playerStatuses g.Players) t (fun _ => playerLeftBunker)) _ _ _ (fun _ => ?_) (fun _ => ?_)
    | with_reducible refine ite_of (fun s : gameSession => playerStatuses s.Players = mapModify (playerStatuses g.Players) t (fun _ => playerLeftBunker)) _ _ _ (fun _ => ?_) (fun _ => ?_)
    | with_reducible refine Eq.trans (poll_statuses _ _ (finishGame_poll _ _ _)) ?_
    | with_reducible refine Eq.trans (poll_statuses _ _ (schedulePhaseTimer_poll _ _ _ _)) ?_)

theorem removal_quota (g g2 : gameSession) (t s : String) (player : gamePlayer)
    (hstep : PollStep (poll g) (poll g2)) (hp : mapGet? g.Players t = some player)
    (ha : player.Status = playerAlive) (hs : s = playerEliminated ∨ s = playerLeftBunker)
    (hst : playerStatuses g2.Players = mapModify (playerStatuses g.Players) t (fun _ => s))
    (h0 : 0 ≤ g.VotesRemaining) :
    removalsIn g g2 = 1 ∧ g2.Round = g.Round ∧
      g2.VotesRemaining = max 0 (g.VotesRemaining - 1) := by
  have halive : mapGet? (playerStatuses g.Players) t = some playerAlive := by
    rw [status_of_player g t player hp, ha]
  have hone : removalsIn g g2 = 1 := by
    unfold removalsIn
    refine removals_one _ _ t halive ?_ ?_
    · rw [hst, mapGet?_mapModify, if_pos rfl, halive]
      rcases hs with hs | hs
      · exact Or.inl (by rw [hs]; rfl)
      · exact Or.inr (by rw [hs]; rfl)
    · intro id hid
      rw [hst, mapGet?_mapModify, if_neg (fun hc => hid hc.symm)]
  rcases QuotaStep_of_step g g2 hstep with ⟨hn, _, _⟩ | ⟨_, hr, hv⟩ | ⟨hn, _, _⟩
  · rw [hone] at hn
    exact absurd hn (by decide)
  · exact ⟨hone, hr, by rw [hv, quotaAfterExit_eq _ h0]⟩
  · rw [hone] at hn
    exact absurd hn (by decide)

theorem QuotaStep_max (g g2 : gameSession) (h : QuotaStep g g2) (h0 : 0 ≤ g.VotesRemaining) :
    (removalsIn g g2 = 0 ∧ g2.Round = g.Round ∧ g2.VotesRemaining = g.VotesRemaining) ∨
    (removalsIn g g2 = 1 ∧ g2.Round = g.Round ∧
      g2.VotesRemaining = max 0 (g.VotesRemaining - 1)) ∨
    (removalsIn g g2 = 0 ∧ g2.Round = g.Round + 1 ∧ 0 ≤ g2.VotesRemaining) := by
  rcases h with h | ⟨hn, hr, hv⟩ | h
  · exact Or.inl h
  · exact Or.inr (Or.inl ⟨hn, hr, by rw [hv, quotaAfterExit_eq _ h0]⟩)
  · exact Or.inr (Or.inr h)

/-- Claim C8. In every state `g` that the core session reaches from `newGameSession` by
actions and timer expiries, `VotesRemaining` is not negative. Every action and every timer
expiry in `g` does one of three things: no alive player is removed and round and quota stay;
exactly one alive player becomes eliminated or leaves the bunker, the round stays and the
quota goes from `v` to `max 0 (v - 1)`; or nobody is removed and the next round starts with a
quota that is not negative. `applyElimination` (the elimination of `finalizeVoting`), the
function `kickPlayer` of the action `devKickPlayer` and `markLeftBunker`, called for an alive
player, are
removals of the second kind. After every run from `g` with `n` removals that ends in the
round of `g`, the quota is `max 0 (g.VotesRemaining - n)`. A removal is a player who was
alive and is then eliminated or has left the bunker; a player whom `devRemovePlayer` deletes
from the session is not one. -/
theorem vote_quota_invariant (roomCode hostID scenarioID : String) (settings : gameSettings)
    (ruleset : gameRuleset) (roomPlayers : List player) (assets : GoMap (List assetCard))
    (specialDefinitions : List specialDefinition) (rng : List Nat) (now0 : Int)
    (g : gameSession)
    (hreach : ReachableFrom (newGameSession roomCode hostID scenarioID settings ruleset
      roomPlayers assets specialDefinitions rng now0) g) :
    0 ≤ g.VotesRemaining ∧
    (∀ g2 : gameSession,
      ((∃ actorID actionType payload now,
          g2 = (handleAction g actorID actionType payload now).1) ∨
        (∃ now, g2 = (handleTimerExpired g now).1)) →
      (removalsIn g g2 = 0 ∧ g2.Round = g.Round ∧ g2.VotesRemaining = g.VotesRemaining) ∨
      (removalsIn g g2 = 1 ∧ g2.Round = g.Round ∧
        g2.VotesRemaining = max 0 (g.VotesRemaining - 1)) ∨
      (removalsIn g g2 = 0 ∧ g2.Round = g.Round + 1 ∧ 0 ≤ g2.VotesRemaining)) ∧
    (∀ (t : String) (p : gamePlayer), mapGet? g.Players t = some p → p.Status = playerAlive →
      removalsIn g (applyElimination g t) = 1 ∧
      (applyElimination g t).Round = g.Round ∧
      (applyElimination g t).VotesRemaining = max 0 (g.VotesRemaining - 1)) ∧
    (∀ (t : String) (now : Int) (p : gamePlayer),
      mapGet? g.Players t = some p → p.Status = playerAlive →
      removalsIn g (kickPlayer g t now).1 = 1 ∧
      (kickPlayer g t now).1.Round = g.Round ∧
      (kickPlayer g t now).1.VotesRemaining = max 0 (g.VotesRemaining - 1)) ∧
    (∀ (targetID : String) (now : Int) (p : gamePlayer), trimSpace targetID ≠ "" →
      mapGet? g.Players (trimSpace targetID) = some p → p.Status = playerAlive →
      removalsIn g (markLeftBunker g targetID now).1 = 1 ∧
      (markLeftBunker g targetID now).1.Round = g.Round ∧
      (markLeftBunker g targetID now).1.VotesRemaining = max 0 (g.VotesRemaining - 1)) ∧
    (∀ (g2 : gameSession) (n : Nat), RunFrom g g2 n → g2.Round = g.Round →
      g2.VotesRemaining = max 0 (g.VotesRemaining - n)) := by
  have h0 : 0 ≤ g.VotesRemaining :=
    reachable_quota _ g hreach (newGameSession_quota _ _ _ _ _ _ _ _ _ _)
  refine ⟨h0, ?_, ?_, ?_, ?_, ?_⟩
  · intro g2 hg2
    rcases hg2 with ⟨a, t, payload, now, rfl⟩ | ⟨now, rfl⟩
    · exact QuotaStep_max _ _ (QuotaStep_of_step _ _ (handleAction_step g a t payload now)) h0
    · exact QuotaStep_max _ _ (QuotaStep_of_step _ _ (handleTimerExpired_step g now)) h0
  · intro t p hp ha
    refine removal_quota g _ t playerEliminated p (applyElimination_step g t) hp ha
      (Or.inl rfl) ?_ h0
    rcases applyElimination_poll g t with ⟨h, _⟩ | ⟨_, h⟩
    · exfalso
      apply h
      show mapGet? (playerStatuses g.Players) t = some playerAlive
      rw [status_of_player g t p hp, ha]
    · exact congrArg pollView.statuses h
  · intro t now p hp ha
    exact removal_quota g _ t playerEliminated p (kickPlayer_step g t now) hp ha (Or.inl rfl)
      (kickPlayer_statuses g t now p hp ha) h0
  · intro targetID now p hne hp ha
    exact removal_quota g _ (trimSpace targetID) playerLeftBunker p
      (markLeftBunker_step g targetID now) hp ha (Or.inr rfl)
      (markLeftBunker_statuses g targetID now p hne hp
        (fun hc => absurd (ha.symm.trans hc) (by decide))) h0
  · intro g2 n hrun hround
    exact (RunFrom_quota g g2 n hrun h0).2.2 hround

set_option maxRecDepth 100000 in
/-- Claim C8, witness: the session that `newGameSession` creates for four players starts
with the quota 1; `p4` leaves the bunker and the quota is 0, `p3` leaves the bunker in the
same round and the quota is still 0, which is `max 0 (1 - 2)`. -/
theorem vote_quota_invariant_witness :
    ReachableFrom exampleQuotaStart exampleQuotaStart ∧
    exampleQuotaStart.VotesRemaining = 1 ∧
    removalsIn exampleQuotaStart exampleQuotaOne = 1 ∧
    removalsIn exampleQuotaOne exampleQuotaTwo = 1 ∧
    exampleQuotaOne.VotesRemaining = 0 ∧
    exampleQuotaTwo.Round = exampleQuotaStart.Round ∧
    exampleQuotaTwo.VotesRemaining = 0 ∧
    exampleQuotaTwo.VotesRemaining =
      max 0 (exampleQuotaStart.VotesRemaining -
        ((0 + removalsIn exampleQuotaStart exampleQuotaOne +
          removalsIn exampleQuotaOne exampleQuotaTwo : Nat) : Int)) :=
  ⟨ReachableFrom.start, by decide, by decide, by decide, by decide, by decide, by decide,
    (vote_quota_invariant "ROOM" "p1" "classic" exampleSettings exampleQuotaRuleset
      [{ ID := "p1", Name := "A" }, { ID := "p2", Name := "B" }, { ID := "p3", Name := "C" },
       { ID := "p4", Name := "D" }] [] [] [] 0 exampleQuotaStart ReachableFrom.start).2.2.2.2.2
      exampleQuotaTwo _
      (RunFrom.action exampleQuotaOne _ "p1" "markLeftBunker" (targetPayload "p3") 2
        (RunFrom.action exampleQuotaStart 0 "p1" "markLeftBunker" (targetPayload "p4") 1
          RunFrom.start))
      (by decide)⟩



/-! ## The elimination after the tie-break -/

theorem CandidatesAlive_step {r r2 : pollView} (h : PollStep r r2) (hc : CandidatesAlive r) :
    CandidatesAlive r2 := by
  obtain ⟨he, hcand⟩ := hc
  unfold CandidatesAlive
  cases h with
  | still ho hs hr hv hx hn =>
    rw [hs]
    refine ⟨he, fun c hcc => ?_⟩
    rcases hn c hcc with h1 | h1
    · exact hcand c h1
    · exact h1
  | advance ho hs hr hv hx hn =>
    rw [hs, hn]
    exact ⟨he, fun c hcc => absurd hcc (by simp [mapHas, mapGet?])⟩
  | exit t s halive hs ho hst hr hv hx hn =>
    rw [hst]
    refine ⟨?_, fun c hcc => ?_⟩
    · rw [mapGet?_mapModify, he]
      split <;> rfl
    · obtain ⟨h1, h2⟩ := hn c hcc
      rw [mapGet?_mapModify, if_neg (fun hh => h2 hh.symm)]
      exact hcand c h1
  | relabel t hdead ho hst hr hv hx hn =>
    rw [hst]
    refine ⟨?_, fun c hcc => ?_⟩
    · rw [mapGet?_mapModify, he]
      split <;> rfl
    · obtain ⟨h1, h2⟩ := hn c hcc
      rw [mapGet?_mapModify, if_neg (fun hh => h2 hh.symm)]
      exact hcand c h1
  | added id hfree hid ho hst hr hv hx hn =>
    rw [hst]
    refine ⟨?_, fun c hcc => ?_⟩
    · rw [mapGet?_append_single, he]
      dsimp only
      rw [if_neg hid]
    · rw [mapGet?_append_single]
      rcases hn c hcc with h1 | h1
      · rw [hcand c h1]
      · rw [h1, hfree]
        dsimp only
        rw [if_pos rfl]
  | removed id ho hst hr hv hx hn =>
    rw [hst]
    refine ⟨?_, fun c hcc => ?_⟩
    · rw [mapGet?_mapDel, he]
      split <;> rfl
    · obtain ⟨h1, h2⟩ := hn c hcc
      rw [mapGet?_mapDel, if_neg (fun hh => h2 hh.symm)]
      exact hcand c h1

theorem reachable_candidates (g0 g : gameSession) (h : ReachableFrom g0 g)
    (h0 : CandidatesAlive (poll g0)) : CandidatesAlive (poll g) := by
  induction h with
  | start => exact h0
  | action g a t payload now _ ih =>
    exact CandidatesAlive_step (handleAction_step g a t payload now) ih
  | timer g now _ ih =>
    exact CandidatesAlive_step (handleTimerExpired_step g now) ih

theorem foldl_holds {σ α : Type} (f : σ → α → σ) (P : σ → Prop) (l : List α)
    (h : ∀ s a, a ∈ l → P s → P (f s a)) (s : σ) (hs : P s) : P (l.foldl f s) := by
  induction l generalizing s with
  | nil => exact hs
  | cons a t ih =>
    rw [List.foldl_cons]
    exact ih (fun s b hb => h s b (List.mem_cons_of_mem _ hb)) _
      (h s a (List.mem_cons_self _ _) hs)

theorem hard_VoteCandidates {g g2 : gameSession} (h : hard g2 = hard g) :
    g2.VoteCandidates = g.VoteCandidates := congrArg hardView.VoteCandidates h

theorem addRosterPlayer_fresh (g : gameSession) (rp : player) (hid : rp.ID ≠ "")
    (h : mapGet? g.Players "" = none ∧ g.VoteCandidates = []) :
    mapGet? (addRosterPlayer g rp).Players "" = none ∧
      (addRosterPlayer g rp).VoteCandidates = [] := by
  unfold addRosterPlayer
  dsimp only
  refine ⟨?_, ?_⟩
  · rw [mapGet?_mapSet, if_neg hid, drawInitialHandForPlayer_Players]
    exact h.1
  · show (drawInitialHandForPlayer g rp.ID).1.VoteCandidates = []
    rw [hard_VoteCandidates (drawInitialHandForPlayer_hard g rp.ID)]
    exact h.2

theorem assignInitialSpecials_fresh (g : gameSession)
    (h : mapGet? g.Players "" = none ∧ g.VoteCandidates = []) :
    mapGet? (assignInitialSpecials g).Players "" = none ∧
      (assignInitialSpecials g).VoteCandidates = [] := by
  unfold assignInitialSpecials
  split
  · exact h
  · rename_i hlen
    clear hlen
    dsimp only
    generalize buildSpecialAssetLookup g = L
    generalize g.Order = order
    induction order generalizing g with
    | nil => exact h
    | cons a t ih =>
      rw [List.foldl_cons]
      refine ih _ ?_
      split
      · exact h
      · dsimp only
        refine ⟨?_, ?_⟩
        · rw [mapGet?_mapModify, assignInitialSpecialsForPlayer_Players, h.1]
          split <;> rfl
        · show (assignInitialSpecialsForPlayer g a L).1.VoteCandidates = []
          rw [hard_VoteCandidates (assignInitialSpecialsForPlayer_hard g a L)]
          exact h.2

theorem newGameSession_candidates (roomCode hostID scenarioID : String)
    (settings : gameSettings) (ruleset : gameRuleset) (roomPlayers : List player)
    (assets : GoMap (List assetCard)) (specialDefinitions : List specialDefinition)
    (rng : List Nat) (now : Int) (hids : ∀ rp ∈ roomPlayers, rp.ID ≠ "") :
    CandidatesAlive (poll (newGameSession roomCode hostID scenarioID settings ruleset
      roomPlayers assets specialDefinitions rng now)) := by
  unfold newGameSession
  dsimp only
  rw [scheduleRevealTimeoutIfNeeded_poll]
  refine Eq.mpr (congrArg CandidatesAlive
    (show poll { revealNextBunkerCard _ _ with LastStageText := _ } =
      poll (revealNextBunkerCard _ _) from rfl)) ?_
  rw [revealNextBunkerCard_poll]
  generalize hS : assignInitialSpecials _ = S
  have hfresh : mapGet? S.Players "" = none ∧ S.VoteCandidates = [] := by
    rw [← hS]
    refine assignInitialSpecials_fresh _ ?_
    refine foldl_holds addRosterPlayer
      (fun s : gameSession => mapGet? s.Players "" = none ∧ s.VoteCandidates = []) _
      ?_ _ ⟨rfl, rfl⟩
    intro s a ha hs
    exact addRosterPlayer_fresh s a (hids a ha) hs
  unfold CandidatesAlive
  refine ⟨?_, ?_⟩
  · show mapGet? (playerStatuses S.Players) "" = none
    rw [mapGet?_playerStatuses, hfresh.1]
    rfl
  · intro c hc
    have hcand : ∀ x, mapHas S.VoteCandidates x = false := by
      intro x
      rw [hfresh.2]
      rfl
    have hcc := hcand c
    change mapHas S.VoteCandidates c = true at hc
    rw [hcc] at hc
    exact absurd hc (by decide)

theorem handleSecretEliminationTriggers_last (g : gameSession) (e : String) :
    (handleSecretEliminationTriggers g e).LastEliminatedID = g.LastEliminatedID := by
  unfold handleSecretEliminationTriggers
  dsimp only
  generalize computeAgeExtremes g = ages
  generalize g.Order = order
  induction order generalizing g with
  | nil => rfl
  | cons a t ih =>
    rw [List.foldl_cons, ih]

theorem handleOnOwnerEliminated_last (g : gameSession) (e : String) :
    (handleOnOwnerEliminated g e).LastEliminatedID = g.LastEliminatedID := by
  unfold handleOnOwnerEliminated
  split <;> rfl

theorem applyElimination_last (g : gameSession) (t : String)
    (ha : mapGet? (playerStatuses g.Players) t = some playerAlive) :
    (applyElimination g t).LastEliminatedID = t := by
  rw [mapGet?_playerStatuses] at ha
  unfold applyElimination
  cases hp : mapGet? g.Players t with
  | none =>
    rw [hp] at ha
    exact Option.noConfusion ha
  | some p =>
    rw [hp] at ha
    have hs : p.Status = playerAlive := Option.some.inj ha
    dsimp only
    rw [if_neg (not_not.2 hs)]
    show (handleSecretEliminationTriggers _ t).LastEliminatedID = t
    rw [handleSecretEliminationTriggers_last, handleOnOwnerEliminated_last]

theorem shouldEnd_of_poll {g g2 : gameSession} (h : poll g2 = poll g)
    (hr : g2.Ruleset = g.Ruleset) : shouldEnd g2 = shouldEnd g := by
  unfold shouldEnd
  rw [aliveIDs_of_poll h, hr, show g2.TotalExiles = g.TotalExiles from
    congrArg pollView.TotalExiles h]

theorem finishGame_Ruleset (g : gameSession) (reason : String) (now : Int) :
    (finishGame g reason now).1.Ruleset = g.Ruleset := by
  unfold finishGame
  split <;> rfl

theorem finishGame_last (g : gameSession) (reason : String) (now : Int) :
    (finishGame g reason now).1.LastEliminatedID = g.LastEliminatedID := by
  unfold finishGame
  split <;> rfl

theorem schedulePhaseTimer_fields (g : gameSession) (k : String) (s now : Int) :
    (schedulePhaseTimer g k s now).Ruleset = g.Ruleset ∧
      (schedulePhaseTimer g k s now).LastEliminatedID = g.LastEliminatedID ∧
      (schedulePhaseTimer g k s now).Phase = g.Phase ∧
      (schedulePhaseTimer g k s now).VotePhase = g.VotePhase := by
  unfold schedulePhaseTimer
  split <;> exact ⟨rfl, rfl, rfl, rfl⟩

theorem applyElimination_facts (X E : gameSession) (t : String)
    (hE : applyElimination X t = E)
    (ha : mapGet? (playerStatuses X.Players) t = some playerAlive) :
    playerStatuses E.Players =
        mapModify (playerStatuses X.Players) t (fun _ => playerEliminated) ∧
      E.LastEliminatedID = t := by
  subst hE
  refine ⟨?_, applyElimination_last X t ha⟩
  rcases applyElimination_poll X t with ⟨hna, _⟩ | ⟨_, h⟩
  · exact absurd ha hna
  · exact congrArg pollView.statuses h

theorem finishGame_VotePhase (g : gameSession) (reason : String) (now : Int) :
    (finishGame g reason now).1.VotePhase = "" ∨
      (finishGame g reason now).1.VotePhase = g.VotePhase := by
  unfold finishGame
  split
  · exact Or.inr rfl
  · exact Or.inl rfl

set_option maxHeartbeats 1600000 in
theorem finalizeVoting_tail (g : gameSession) (actorID : String) (now : Int)
    (d : String) (hinv : CandidatesAlive (poll g))
    (h1 : g.Phase = scenarioPhaseVoting)
    (h2 : g.VotePhase = votePhaseSpecialWindow ∨ g.VotePhase = votePhaseVoting)
    (h3 : actorID = g.HostID) (h4 : g.TieBreakUsed = true)
    (hd : mapHas g.VoteCandidates d = true) :
    ∃ (G : gameSession) (events : List gameEvent),
      finalizeVoting g actorID now =
        (if shouldEnd G then
          ((finishGame G "after_voting" now).1,
            changedResult (events ++ (finishGame G "after_voting" now).2.Events))
         else (schedulePhaseTimer G timerKindResolutionAuto 2 now, changedResult events)) ∧
      G.Phase = scenarioPhaseResolution ∧ G.VotePhase = votePhaseResolve ∧
      playerStatuses G.Players =
        mapModify (playerStatuses g.Players) ((computeVoteTotals g (finalizeSource g)).2.getD
          (intn g.rng (computeVoteTotals g (finalizeSource g)).2.length).1 "")
          (fun _ => playerEliminated) ∧
      G.LastEliminatedID = (computeVoteTotals g (finalizeSource g)).2.getD
          (intn g.rng (computeVoteTotals g (finalizeSource g)).2.length).1 "" ∧
      (computeVoteTotals g (finalizeSource g)).2.getD
        (intn g.rng (computeVoteTotals g (finalizeSource g)).2.length).1 "" ∈
          (computeVoteTotals g (finalizeSource g)).2 := by
  have h2n : ¬ (g.VotePhase ≠ votePhaseSpecialWindow ∧ g.VotePhase ≠ votePhaseVoting) := by
    rcases h2 with h | h <;> simp [h]
  obtain ⟨hne, htop⟩ := computeVoteTotals_top_candidates g (finalizeSource g) d hd
  have hkey : (computeVoteTotals
      { clearActiveTimer g with VoteResults := copyVotes (finalizeSource (clearActiveTimer g)) }
      (finalizeSource (clearActiveTimer g))).2 = (computeVoteTotals g (finalizeSource g)).2 :=
    rfl
  generalize (computeVoteTotals g (finalizeSource g)).2 = top at hne htop hkey ⊢
  have hlen : 0 < top.length := List.length_pos.2 hne
  have hmem : top.getD (intn g.rng top.length).1 "" ∈ top :=
    getD_mem_of_lt _ _ _ (intn_lt _ _ hlen)
  generalize ht : top.getD (intn g.rng top.length).1 "" = t at hmem ⊢
  have halive : mapGet? (playerStatuses g.Players) t = some playerAlive :=
    hinv.2 t ((htop t).1 hmem).1
  have hte : t ≠ "" := by
    intro hc
    rw [hc] at halive
    exact Option.noConfusion (halive.symm.trans hinv.1)
  generalize hv : finalizeVoting g actorID now = r
  unfold finalizeVoting at hv
  rw [if_neg (not_not.mpr h1), if_neg h2n, if_neg (not_not.mpr h3)] at hv
  dsimp only at hv
  generalize hE : applyElimination _ _ = E at hv
  rw [hkey] at hE
  rw [if_pos hlen, if_pos hlen] at hE
  have ht2 : top.getD (intn (clearActiveTimer g).rng top.length).1 "" = t := ht
  rw [ht2] at hE
  obtain ⟨hEst, hElast⟩ := applyElimination_facts _ E t hE halive
  have hEst2 : playerStatuses E.Players =
      mapModify (playerStatuses g.Players) t (fun _ => playerEliminated) := hEst
  clear hE hEst
  have hTB : (clearActiveTimer g).TieBreakUsed = true := h4
  have hElast2 : E.LastEliminatedID ≠ "" := fun hc => hte (hElast.symm.trans hc)
  split at hv
  · rename_i hc
    exact absurd hc.2 (by rw [hTB]; decide)
  · clear hTB h4 hd hinv htop halive h1 h2 h2n h3 hne
    repeat' split at hv
    all_goals subst hv
    all_goals rename_i hA hB hC hD
    all_goals first
      | (exfalso
         rw [hkey] at hB
         exact absurd hlen hB)
      | (exfalso
         rw [hkey, ht2] at hC
         exact absurd hte hC)
      | (refine ⟨_, _, (if_pos hD).symm, ?_, ?_, ?_, ?_, hmem⟩
         · rfl
         · rfl
         · exact hEst2
         · exact hElast)
      | (refine ⟨_, _, (if_neg hD).symm, ?_, ?_, ?_, ?_, hmem⟩
         · rfl
         · rfl
         · exact hEst2
         · exact hElast)

theorem reachable_turn (g0 g : gameSession) (playerID cardID : String) (now : Int)
    (h : ReachableFrom g0 g) : ReachableFrom g0 (exampleTurn g playerID cardID now) :=
  ReachableFrom.action _ "p1" "continueRound" [] (now + 1)
    (ReachableFrom.action g playerID "revealCard" (cardPayload cardID) now h)

theorem reachable_tieBreak : ReachableFrom exampleQuotaStart exampleTieBreak :=
  ReachableFrom.action exampleAllRevealed "p1" "finalizeVoting" [] 9
    (reachable_turn _ _ "p4" "p4-22" 7 (reachable_turn _ _ "p3" "p3-15" 5
      (reachable_turn _ _ "p2" "p2-8" 3 (reachable_turn _ _ "p1" "p1-1" 1
        ReachableFrom.start))))

/-- Claim C2. In every state `g` that the core session reaches from `newGameSession` (for
room players with non-empty ids), when votes are collected (`Phase` is `voting`, `VotePhase`
is `voting` or the special window), `TieBreakUsed` is true and there is a candidate, the call
of `finalizeVoting` by the host succeeds and starts no revote: the player `t` that the random
index picks from the list returned by `computeVoteTotals` is a candidate whose total is the
highest of all candidates, `t` was alive and is the one player whose status changes, from
alive to eliminated, and the session is in the phase `ended` if the end condition holds and
in the phase `resolution` otherwise, with votes no longer collected. -/
theorem finalize_after_tiebreak (roomCode hostID scenarioID : String)
    (settings : gameSettings) (ruleset : gameRuleset) (roomPlayers : List player)
    (assets : GoMap (List assetCard)) (specialDefinitions : List specialDefinition)
    (rng : List Nat) (now0 : Int) (g : gameSession) (actorID : String) (now : Int)
    (d : String)
    (hids : ∀ rp ∈ roomPlayers, rp.ID ≠ "")
    (hreach : ReachableFrom (newGameSession roomCode hostID scenarioID settings ruleset
      roomPlayers assets specialDefinitions rng now0) g)
    (h1 : g.Phase = scenarioPhaseVoting)
    (h2 : g.VotePhase = votePhaseSpecialWindow ∨ g.VotePhase = votePhaseVoting)
    (h3 : actorID = g.HostID) (h4 : g.TieBreakUsed = true)
    (hd : mapHas g.VoteCandidates d = true) :
    ∃ t : String,
      t = (computeVoteTotals g (finalizeSource g)).2.getD
        (intn g.rng (computeVoteTotals g (finalizeSource g)).2.length).1 "" ∧
      t ∈ (computeVoteTotals g (finalizeSource g)).2 ∧
      (finalizeVoting g actorID now).2.Error = "" ∧
      mapHas g.VoteCandidates t = true ∧
      (∀ x, mapHas g.VoteCandidates x = true →
        voteTotal g (finalizeSource g) x ≤ voteTotal g (finalizeSource g) t) ∧
      mapGet? (computeVoteTotals g (finalizeSource g)).1 t =
        some (voteTotal g (finalizeSource g) t) ∧
      mapGet? (playerStatuses g.Players) t = some playerAlive ∧
      mapGet? (playerStatuses (finalizeVoting g actorID now).1.Players) t =
        some playerEliminated ∧
      (∀ x, x ≠ t → mapGet? (playerStatuses (finalizeVoting g actorID now).1.Players) x =
        mapGet? (playerStatuses g.Players) x) ∧
      removalsIn g (finalizeVoting g actorID now).1 = 1 ∧
      (finalizeVoting g actorID now).1.LastEliminatedID = t ∧
      (finalizeVoting g actorID now).1.Phase =
        (if shouldEnd (finalizeVoting g actorID now).1 then scenarioPhaseEnded
         else scenarioPhaseResolution) ∧
      (finalizeVoting g actorID now).1.VotePhase ≠ votePhaseVoting ∧
      (finalizeVoting g actorID now).1.VotePhase ≠ votePhaseSpecialWindow := by
  have hinv : CandidatesAlive (poll g) :=
    reachable_candidates _ g hreach (newGameSession_candidates _ _ _ _ _ _ _ _ _ _ hids)
  obtain ⟨G, events, hres, hG1, hG2, hG3, hG4, hmem⟩ :=
    finalizeVoting_tail g actorID now d hinv h1 h2 h3 h4 hd
  obtain ⟨_, htop⟩ := computeVoteTotals_top_candidates g (finalizeSource g) d hd
  generalize (computeVoteTotals g (finalizeSource g)).2.getD
    (intn g.rng (computeVoteTotals g (finalizeSource g)).2.length).1 "" = t at hG3 hG4 hmem ⊢
  have hcand := (htop t).1 hmem
  have halive : mapGet? (playerStatuses g.Players) t = some playerAlive := hinv.2 t hcand.1
  have hfacts : (finalizeVoting g actorID now).2.Error = "" ∧
      playerStatuses (finalizeVoting g actorID now).1.Players = playerStatuses G.Players ∧
      (finalizeVoting g actorID now).1.LastEliminatedID = G.LastEliminatedID ∧
      (finalizeVoting g actorID now).1.Phase =
        (if shouldEnd (finalizeVoting g actorID now).1 then scenarioPhaseEnded
         else scenarioPhaseResolution) ∧
      (finalizeVoting g actorID now).1.VotePhase ≠ votePhaseVoting ∧
      (finalizeVoting g actorID now).1.VotePhase ≠ votePhaseSpecialWindow := by
    rw [hres]
    by_cases hend : shouldEnd G = true
    · rw [if_pos hend]
      dsimp only
      refine ⟨rfl, poll_statuses _ _ (finishGame_poll _ _ _), finishGame_last _ _ _, ?_, ?_, ?_⟩
      · rw [shouldEnd_of_poll (finishGame_poll _ _ _) (finishGame_Ruleset _ _ _), if_pos hend]
        exact finishGame_Phase _ _ _
      · rcases finishGame_VotePhase G "after_voting" now with h | h
        · rw [h]
          decide
        · rw [h, hG2]
          decide
      · rcases finishGame_VotePhase G "after_voting" now with h | h
        · rw [h]
          decide
        · rw [h, hG2]
          decide
    · rw [if_neg hend]
      dsimp only
      obtain ⟨f1, f2, f3, f4⟩ := schedulePhaseTimer_fields G timerKindResolutionAuto 2 now
      refine ⟨rfl, poll_statuses _ _ (schedulePhaseTimer_poll _ _ _ _), f2, ?_, ?_, ?_⟩
      · rw [shouldEnd_of_poll (schedulePhaseTimer_poll _ _ _ _) f1, if_neg hend, f3, hG1]
      · rw [f4, hG2]
        decide
      · rw [f4, hG2]
        decide
  obtain ⟨e1, e2, e3, e4, e5, e6⟩ := hfacts
  have hst : playerStatuses (finalizeVoting g actorID now).1.Players =
      mapModify (playerStatuses g.Players) t (fun _ => playerEliminated) := e2.trans hG3
  refine ⟨t, rfl, hmem, e1, hcand.1, hcand.2, ?_, halive, ?_, ?_, ?_, e3.trans hG4, e4, e5, e6⟩
  · rw [computeVoteTotals_get, if_pos (Or.inl hcand.1)]
  · rw [hst, mapGet?_mapModify, if_pos rfl, halive]
    rfl
  · intro x hx
    rw [hst, mapGet?_mapModify, if_neg (fun hc => hx hc.symm)]
  · unfold removalsIn
    refine removals_one _ _ t halive (Or.inl ?_) ?_
    · rw [hst, mapGet?_mapModify, if_pos rfl, halive]
      rfl
    · intro x hx
      rw [hst, mapGet?_mapModify, if_neg (fun hc => hx hc.symm)]

set_option maxRecDepth 100000 in
/-- Claim C2, witness: in the session of four players every player reveals a card, the host
finalizes the vote without any vote, all four candidates tie and the tie-break revote runs;
the host finalizes again, and `p1`, the candidate that the random index picks, is eliminated
while the phase becomes `resolution`. -/
theorem finalize_after_tiebreak_witness :
    exampleTieBreak.Phase = scenarioPhaseVoting ∧
    exampleTieBreak.TieBreakUsed = true ∧
    mapKeys exampleTieBreak.VoteCandidates = ["p1", "p2", "p3", "p4"] ∧
    playerStatuses (finalizeVoting exampleTieBreak "p1" 10).1.Players =
      [("p1", playerEliminated), ("p2", playerAlive), ("p3", playerAlive),
       ("p4", playerAlive)] ∧
    (finalizeVoting exampleTieBreak "p1" 10).1.Phase = scenarioPhaseResolution ∧
    ∃ t : String,
      t ∈ (computeVoteTotals exampleTieBreak (finalizeSource exampleTieBreak)).2 ∧
      removalsIn exampleTieBreak (finalizeVoting exampleTieBreak "p1" 10).1 = 1 ∧
      (finalizeVoting exampleTieBreak "p1" 10).1.LastEliminatedID = t := by
  refine ⟨by decide, by decide, by decide, by decide, by decide, ?_⟩
  obtain ⟨t, _, hmem, _, _, _, _, _, _, _, hone, hlast, _⟩ :=
    finalize_after_tiebreak "ROOM" "p1" "classic" exampleSettings exampleQuotaRuleset
      [{ ID := "p1", Name := "A" }, { ID := "p2", Name := "B" }, { ID := "p3", Name := "C" },
       { ID := "p4", Name := "D" }] [] [] [] 0 exampleTieBreak "p1" 10 "p1"
      (by decide) reachable_tieBreak (by decide) (Or.inr (by decide)) (by decide) (by decide)
      (by decide)
  exact ⟨t, hmem, hone, hlast⟩



/-! ## The end of the vote collection -/

theorem enterVoteSpecialWindow_fields (g : gameSession) (now : Int) :
    (enterVoteSpecialWindow g now).1.Votes = g.Votes ∧
      (enterVoteSpecialWindow g now).1.BaseVotes = g.Votes ∧
      (enterVoteSpecialWindow g now).1.VotePhase = votePhaseSpecialWindow ∧
      (enterVoteSpecialWindow g now).1.Phase = g.Phase ∧
      (enterVoteSpecialWindow g now).1.Players = g.Players ∧
      (enterVoteSpecialWindow g now).1.Order = g.Order := by
  unfold enterVoteSpecialWindow
  simp only [clearActiveTimer, makeEvent, schedulePhaseTimer, copyVotes]
  repeat' split
  all_goals exact ⟨rfl, rfl, rfl, rfl, rfl, rfl⟩

theorem vote_window_fields (g : gameSession) (votes : GoMap voteRecord) (now : Int) :
    (enterVoteSpecialWindow { g with Votes := votes } now).1.Votes = votes ∧
      (enterVoteSpecialWindow { g with Votes := votes } now).1.BaseVotes = votes ∧
      (enterVoteSpecialWindow { g with Votes := votes } now).1.VotePhase =
        votePhaseSpecialWindow ∧
      (enterVoteSpecialWindow { g with Votes := votes } now).1.Phase = g.Phase ∧
      (enterVoteSpecialWindow { g with Votes := votes } now).1.Players = g.Players ∧
      (enterVoteSpecialWindow { g with Votes := votes } now).1.Order = g.Order :=
  enterVoteSpecialWindow_fields _ now

theorem aliveIDs_of_players {g g2 : gameSession} (hp : g2.Players = g.Players)
    (ho : g2.Order = g.Order) : aliveIDs g2 = aliveIDs g := by
  unfold aliveIDs playerIsAlive
  rw [hp, ho]

/-- Claim C31. An accepted vote stores the record of the actor and leaves the phase `voting`
and the alive players as they were. When the number of records in `Votes` (valid or wasted)
is then at least the number of alive players, `BaseVotes` becomes a copy of `Votes` and
`VotePhase` becomes the special window; when it is smaller, `VotePhase` stays `voting` and
`BaseVotes` is unchanged. -/
theorem vote_completes_collection (g : gameSession) (actorID targetID : String) (now : Int)
    (hok : (vote g actorID targetID now).2.Error = "") :
    (vote g actorID targetID now).1.Votes = mapSet g.Votes actorID
        { TargetID := targetID, Submitted := now, IsValid := true, ReasonText := "" } ∧
      (vote g actorID targetID now).1.Phase = scenarioPhaseVoting ∧
      aliveIDs (vote g actorID targetID now).1 = aliveIDs g ∧
      (mapLen (vote g actorID targetID now).1.Votes ≥ (aliveIDs g).length →
        (vote g actorID targetID now).1.BaseVotes = (vote g actorID targetID now).1.Votes ∧
          (vote g actorID targetID now).1.VotePhase = votePhaseSpecialWindow) ∧
      (mapLen (vote g actorID targetID now).1.Votes < (aliveIDs g).length →
        (vote g actorID targetID now).1.VotePhase = votePhaseVoting ∧
          (vote g actorID targetID now).1.BaseVotes = g.BaseVotes) := by
  generalize hv : vote g actorID targetID now = r at hok ⊢
  unfold vote at hv
  by_cases h1 : g.Phase ≠ scenarioPhaseVoting ∨ g.VotePhase ≠ votePhaseVoting
  · rw [if_pos h1] at hv
    subst hv
    exact absurd hok (by simp [errorResult])
  rw [if_neg h1] at hv
  have hphase : g.Phase = scenarioPhaseVoting := not_not.1 (fun hc => h1 (Or.inl hc))
  have hvp : g.VotePhase = votePhaseVoting := not_not.1 (fun hc => h1 (Or.inr hc))
  repeat' split at hv
  all_goals try dsimp only at hv
  all_goals repeat' split at hv
  all_goals subst hv
  all_goals first
    | (exfalso
       simp [errorResult] at hok
       done)
    | (exfalso
       simp only [errorResult] at hok
       contradiction)
    | (rename_i hlen
       have hlen2 : mapLen (mapSet g.Votes actorID ({ TargetID := targetID, Submitted := now, IsValid := true, ReasonText := "" } : voteRecord)) ≥
         (aliveIDs g).length := hlen
       obtain ⟨f1, f2, f3, f4, f5, f6⟩ := vote_window_fields g
         (mapSet g.Votes actorID ({ TargetID := targetID, Submitted := now, IsValid := true, ReasonText := "" } : voteRecord)) now
       have hal := aliveIDs_of_players f5 f6
       refine ⟨f1, f4.trans hphase, hal, fun _ => ⟨f2.trans f1.symm, f3⟩, ?_⟩
       intro hlt
       rw [f1] at hlt
       exact absurd hlen2 (not_le.2 hlt))
    | (rename_i hlen
       have hlen2 : ¬ mapLen (mapSet g.Votes actorID ({ TargetID := targetID, Submitted := now, IsValid := true, ReasonText := "" } : voteRecord)) ≥
         (aliveIDs g).length := hlen
       exact ⟨rfl, hphase, rfl, fun hge => absurd hge hlen2, fun _ => ⟨hvp, rfl⟩⟩)

set_option maxRecDepth 100000 in
/-- Claim C31, witness: in `exampleVoting` one of four alive players has voted, the vote of
`p2` is the second record and the vote phase stays `voting`; in `exampleThreeVotes` the vote
of `p4` is the fourth record, `BaseVotes` becomes the copy of the four records and the
special window opens. -/
theorem vote_completes_collection_witness :
    ((vote exampleVoting "p2" "p3" 6).1.VotePhase = votePhaseVoting ∧
      (vote exampleVoting "p2" "p3" 6).1.BaseVotes = exampleVoting.BaseVotes) ∧
    ((vote exampleThreeVotes "p4" "p2" 8).1.BaseVotes =
        (vote exampleThreeVotes "p4" "p2" 8).1.Votes ∧
      (vote exampleThreeVotes "p4" "p2" 8).1.VotePhase = votePhaseSpecialWindow) ∧
    mapLen (vote exampleThreeVotes "p4" "p2" 8).1.BaseVotes = 4 :=
  ⟨(vote_completes_collection exampleVoting "p2" "p3" 6 (by decide)).2.2.2.2 (by decide),
    (vote_completes_collection exampleThreeVotes "p4" "p2" 8 (by decide)).2.2.2.1 (by decide),
    by decide⟩



/-! ## The step after the discussion -/

theorem schedulePhaseTimer_only (g : gameSession) (k : String) (s now : Int) :
    ∃ t, schedulePhaseTimer g k s now = { g with ActiveTimer := t } := by
  unfold schedulePhaseTimer
  split
  · exact ⟨g.ActiveTimer, rfl⟩
  · exact ⟨_, rfl⟩

theorem scheduleRevealTimeoutIfNeeded_only (g : gameSession) (now : Int) :
    ∃ t, scheduleRevealTimeoutIfNeeded g now = { g with ActiveTimer := t } := by
  unfold scheduleRevealTimeoutIfNeeded
  split
  · exact ⟨g.ActiveTimer, rfl⟩
  · split
    · exact ⟨g.ActiveTimer, rfl⟩
    · exact schedulePhaseTimer_only _ _ _ _

theorem mem_rotateAfter (l : List String) (s : Nat) (x : String) :
    x ∈ rotateAfter l s ↔ x ∈ l := by
  unfold rotateAfter
  rw [List.mem_append]
  constructor
  · rintro (h | h)
    · exact List.mem_of_mem_drop h
    · exact List.mem_of_mem_take h
  · intro h
    rw [← List.take_append_drop (s + 1) l, List.mem_append] at h
    exact h.symm

theorem allAliveRevealed_false (g : gameSession) :
    allAliveRevealed g = false ↔
      ∃ id ∈ g.Order, playerIsAlive g id = true ∧ mapGetB g.RevealedThisRnd id = false := by
  unfold allAliveRevealed
  rw [← Bool.not_eq_true, List.all_eq_true]
  constructor
  · intro h
    by_contra hc
    apply h
    intro x hx
    by_cases ha : playerIsAlive g x = true
    · by_cases hr : mapGetB g.RevealedThisRnd x = true
      · rw [hr, Bool.or_true]
      · exact absurd ⟨x, hx, ha, Bool.eq_false_iff.2 hr⟩ hc
    · rw [Bool.eq_false_iff.2 ha]
      rfl
  · rintro ⟨x, hx, ha, hr⟩ h
    have := h x hx
    rw [ha, hr] at this
    exact absurd this (by decide)

theorem orderStart_of_mem (l : List String) (x : String) (h : x ∈ l) :
    orderStart l x = l.indexOf x := by
  unfold orderStart
  rw [if_pos (List.indexOf_lt_length.2 h)]

/-- The player whose turn comes next: the first alive player without a reveal in this round
in the circular scan of `Order` after the current one. -/
theorem nextUnrevealedAliveAfter_spec (g : gameSession) (c : String) (hc : c ∈ g.Order)
    (h : allAliveRevealed g = false) :
    ∃ t, (rotateAfter g.Order (g.Order.indexOf c)).find?
        (fun id => playerIsAlive g id && !mapGetB g.RevealedThisRnd id) = some t ∧
      nextUnrevealedAliveAfter g c = t := by
  obtain ⟨x, hx, ha, hr⟩ := (allAliveRevealed_false g).1 h
  have hsome : ((rotateAfter g.Order (g.Order.indexOf c)).find?
      (fun id => playerIsAlive g id && !mapGetB g.RevealedThisRnd id)).isSome = true := by
    rw [List.find?_isSome]
    exact ⟨x, (mem_rotateAfter _ _ _).2 hx, by rw [ha, hr]; rfl⟩
  obtain ⟨t, ht⟩ := Option.isSome_iff_exists.1 hsome
  refine ⟨t, ht, ?_⟩
  unfold nextUnrevealedAliveAfter
  rw [if_neg (fun h0 => by rw [List.length_eq_zero] at h0; rw [h0] at hc; exact absurd hc (List.not_mem_nil _)),
    orderStart_of_mem _ _ hc, ht]
  rfl

theorem startVotingStep_Phase (now : Int) (g : gameSession) (e : String × gamePlayer) :
    (startVotingStep now g e).Phase = g.Phase := by
  unfold startVotingStep
  repeat' split
  all_goals rfl

theorem startVoting_Phase (g : gameSession) (now : Int) :
    (startVoting g now).Phase = scenarioPhaseVoting := by
  unfold startVoting
  dsimp only
  exact (foldl_keeps _ (fun s : gameSession => s.Phase) (startVotingStep_Phase now) _ _).trans rfl

theorem continueRound_discussion (g : gameSession) (actorID : String) (now : Int)
    (hphase : g.Phase = scenarioPhaseRevealDiscussion) (hperm : canContinue g actorID = true) :
    continueRound g actorID now = advanceAfterDiscussion g now := by
  unfold continueRound
  rw [if_neg (by rw [hphase]; decide), if_neg (by rw [hperm]; decide), if_pos hphase]

/-- Claim C32. In the phase `reveal_discussion`, `continueRound` by a permitted actor, with
`CurrentTurnID` in `Order`: if some alive player of `Order` has no reveal in this round, the
call succeeds, `Phase` becomes `reveal` and `CurrentTurnID` becomes the first player `t` who
is alive and has no reveal in this round in the circular scan of `Order` that starts after
the position of the previous `CurrentTurnID` (the first alive player of `Order` should `t`
be the empty id), while the players and the reveals of the round stay; if every alive player
has revealed and `VotesRemaining > 0`, the result is the session of `startVoting`, in the
phase `voting`, with one more event counted; otherwise the result is that of
`startNextRoundOrEnd`. -/
theorem continueRound_after_discussion (g : gameSession) (actorID : String) (now : Int)
    (hphase : g.Phase = scenarioPhaseRevealDiscussion) (hperm : canContinue g actorID = true)
    (hturn : g.CurrentTurnID ∈ g.Order) :
    ((∃ id ∈ g.Order, playerIsAlive g id = true ∧ mapGetB g.RevealedThisRnd id = false) →
      ∃ t, (rotateAfter g.Order (g.Order.indexOf g.CurrentTurnID)).find?
          (fun id => playerIsAlive g id && !mapGetB g.RevealedThisRnd id) = some t ∧
        (continueRound g actorID now).2.Error = "" ∧
        (continueRound g actorID now).1.CurrentTurnID = (if t = "" then firstAliveID g else t) ∧
        (continueRound g actorID now).1.Phase = scenarioPhaseReveal ∧
        (continueRound g actorID now).1.Players = g.Players ∧
        (continueRound g actorID now).1.Order = g.Order ∧
        (continueRound g actorID now).1.RevealedThisRnd = g.RevealedThisRnd) ∧
    ((¬ ∃ id ∈ g.Order, playerIsAlive g id = true ∧ mapGetB g.RevealedThisRnd id = false) →
      0 < g.VotesRemaining →
        (continueRound g actorID now).2.Error = "" ∧
        (continueRound g actorID now).1.Phase = scenarioPhaseVoting ∧
        (continueRound g actorID now).1 =
          { startVoting (clearActiveTimer g) now with
            EventCounter := (startVoting (clearActiveTimer g) now).EventCounter + 1 }) ∧
    ((¬ ∃ id ∈ g.Order, playerIsAlive g id = true ∧ mapGetB g.RevealedThisRnd id = false) →
      g.VotesRemaining ≤ 0 →
        continueRound g actorID now = startNextRoundOrEnd (clearActiveTimer g) now) := by
  rw [continueRound_discussion g actorID now hphase hperm]
  unfold advanceAfterDiscussion
  rw [if_neg (not_not.2 hphase)]
  dsimp only
  have hall : allAliveRevealed (clearActiveTimer g) = allAliveRevealed g := rfl
  rw [hall]
  refine ⟨fun hex => ?_, fun hno hv => ?_, fun hno hv => ?_⟩
  · have hfalse := (allAliveRevealed_false g).2 hex
    obtain ⟨t, ht, hnext⟩ := nextUnrevealedAliveAfter_spec g g.CurrentTurnID hturn hfalse
    have hnext2 : nextUnrevealedAliveAfter (clearActiveTimer g) (clearActiveTimer g).CurrentTurnID
        = t := hnext
    rw [hfalse, if_pos (by decide), hnext2]
    have hfirst : firstAliveID (clearActiveTimer g) = firstAliveID g := rfl
    rw [hfirst]
    obtain ⟨timer, hs⟩ := scheduleRevealTimeoutIfNeeded_only
      { clearActiveTimer g with CurrentTurnID := (if t = "" then firstAliveID g else t),
                                Phase := scenarioPhaseReveal,
                                LastStageText := "Следующий ход раскрытия." } now
    rw [hs]
    exact ⟨t, ht, rfl, rfl, rfl, rfl, rfl, rfl⟩
  · have htrue : allAliveRevealed g = true := by
      cases h : allAliveRevealed g
      · exact absurd ((allAliveRevealed_false g).1 h) hno
      · rfl
    have hv2 : (clearActiveTimer g).VotesRemaining > 0 := hv
    rw [htrue, if_neg (by decide), if_pos hv2]
    exact ⟨rfl, startVoting_Phase _ _, rfl⟩
  · have htrue : allAliveRevealed g = true := by
      cases h : allAliveRevealed g
      · exact absurd ((allAliveRevealed_false g).1 h) hno
      · rfl
    have hv2 : ¬ (clearActiveTimer g).VotesRemaining > 0 := not_lt.2 hv
    rw [htrue, if_neg (by decide), if_neg hv2]

set_option maxRecDepth 100000 in
/-- Claim C32, witness: after the reveal of `p1` in the session of four players the host
continues, and the turn passes to `p2`, the next alive player without a reveal, in the
phase `reveal`. -/
theorem continueRound_after_discussion_witness :
    exampleDiscussion.CurrentTurnID = "p1" ∧
    (continueRound exampleDiscussion "p1" 2).1.CurrentTurnID = "p2" ∧
    ∃ t, (rotateAfter exampleDiscussion.Order
          (exampleDiscussion.Order.indexOf exampleDiscussion.CurrentTurnID)).find?
        (fun id => playerIsAlive exampleDiscussion id &&
          !mapGetB exampleDiscussion.RevealedThisRnd id) = some t ∧
      (continueRound exampleDiscussion "p1" 2).1.CurrentTurnID =
        (if t = "" then firstAliveID exampleDiscussion else t) ∧
      (continueRound exampleDiscussion "p1" 2).1.Phase = scenarioPhaseReveal := by
  refine ⟨by decide, by decide, ?_⟩
  obtain ⟨t, h1, _, h3, h4, _⟩ :=
    (continueRound_after_discussion exampleDiscussion "p1" 2 (by decide) (by decide)
      (by decide)).1 ⟨"p2", by decide, by decide, by decide⟩
  exact ⟨t, h1, h3, h4⟩



/-! ## The next round -/

/-- The loop of `revealNextBunkerCard` in closed form: the first hidden card, if there is one,
is revealed with the round recorded, and its position is returned. -/
theorem revealFirstHidden_spec (round : Int) (cards : List worldFacedCardView) (i : Nat) :
    (revealFirstHidden round cards i).1 =
        listModify cards (cards.findIdx (fun c => !c.IsRevealed))
          (fun c => { c with IsRevealed := true, RevealedAtRound := some round }) ∧
      (revealFirstHidden round cards i).2 =
        (if cards.findIdx (fun c => !c.IsRevealed) < cards.length then
          some (i + cards.findIdx (fun c => !c.IsRevealed)) else none) := by
  induction cards generalizing i with
  | nil => exact ⟨rfl, rfl⟩
  | cons c t ih =>
    unfold revealFirstHidden
    by_cases hc : c.IsRevealed = true
    · rw [if_pos hc]
      dsimp only
      obtain ⟨h1, h2⟩ := ih (i + 1)
      have hf : (c :: t).findIdx (fun c => !c.IsRevealed) =
          t.findIdx (fun c => !c.IsRevealed) + 1 := by
        rw [List.findIdx_cons]
        simp [hc]
      rw [h1, h2, hf]
      refine ⟨rfl, ?_⟩
      simp only [List.length_cons, Nat.add_lt_add_iff_right]
      split
      · congr 1
        omega
      · rfl
    · have hf : (c :: t).findIdx (fun c => !c.IsRevealed) = 0 := by
        rw [List.findIdx_cons]
        simp [hc]
      rw [if_neg hc, hf]
      exact ⟨rfl, by simp⟩

theorem revealNextBunkerCard_eq (g : gameSession) (round : Int) :
    revealNextBunkerCard g round =
      { g with
        World := { g.World with Bunker := (listModify g.World.Bunker
          (g.World.Bunker.findIdx (fun c => !c.IsRevealed))
          (fun c => { c with IsRevealed := true, RevealedAtRound := some round })) }
        WorldEvent := (if g.World.Bunker.findIdx (fun c => !c.IsRevealed) < g.World.Bunker.length
          then some { EventType := "bunker_revealed",
                      Index := ((g.World.Bunker.findIdx (fun c => !c.IsRevealed) : Nat) : Int),
                      Round := round }
          else g.WorldEvent) } := by
  obtain ⟨h1, h2⟩ := revealFirstHidden_spec round g.World.Bunker 0
  unfold revealNextBunkerCard
  split
  · rename_i cards i heq
    rw [heq] at h1 h2
    dsimp only at h1 h2
    split at h2
    · rw [if_pos ‹_›, ← h1]
      have hi := Option.some.inj h2
      rw [hi, Nat.zero_add]
    · exact Option.noConfusion h2
  · rename_i cards heq
    rw [heq] at h1 h2
    dsimp only at h1 h2
    split at h2
    · exact Option.noConfusion h2
    · rename_i hlt
      rw [if_neg hlt]
      have hk : g.World.Bunker.findIdx (fun c => !c.IsRevealed) = g.World.Bunker.length := by
        have := @List.findIdx_le_length _ (fun c : worldFacedCardView => !c.IsRevealed)
          g.World.Bunker
        omega
      rw [hk]
      have hm : ∀ (l : List worldFacedCardView) (f : worldFacedCardView → worldFacedCardView),
          listModify l l.length f = l := by
        intro l f
        induction l with
        | nil => rfl
        | cons a t ih => exact congrArg (List.cons a) ih
      rw [hm]

theorem maxInt_eq_max (a b : Int) : maxInt a b = max a b := by
  unfold maxInt
  split
  · exact (max_eq_left (le_of_lt ‹_›)).symm
  · exact (max_eq_right (not_lt.1 ‹_›)).symm

/-- Claim C33. `startNextRoundOrEnd` returns the result of `finishGame`, which ends the game,
when the end condition holds or `Round + 1` exceeds the length of `Ruleset.VotesPerRnd`.
Otherwise the call succeeds and the new session is the old one except that `Round` is
`Round + 1`, the first hidden bunker card (and no other) is revealed with the new round
recorded on it, `RevealedThisRnd` and the vote bookkeeping (`Votes`, `BaseVotes`,
`VoteResults`, `VoteCandidates`, `VoteDisabled`, `VoteWeights`, `AutoWastedVoters`,
`RevoteDisallow`, `DoubleAgainst`, `TieBreakUsed`, `RoundRules`) are empty, `Phase` is
`reveal`, `CurrentTurnID` is the first alive player of `Order`, `VotesRemaining` is the
quota of the new round, which for a round number that is not negative is
`max 0 VotesPerRnd[Round]`, the notes of the stage are reset, the timer is set anew and one
more event is counted. -/
theorem startNextRoundOrEnd_contract (g : gameSession) (now : Int) :
    (shouldEnd g = true →
      startNextRoundOrEnd g now = finishGame g "условия завершения достигнуты" now) ∧
    (shouldEnd g = false → (g.Ruleset.VotesPerRnd.length : Int) < g.Round + 1 →
      startNextRoundOrEnd g now = finishGame g "закончились раунды" now) ∧
    (∀ reason, (finishGame g reason now).1.Phase = scenarioPhaseEnded) ∧
    (shouldEnd g = false → g.Round + 1 ≤ (g.Ruleset.VotesPerRnd.length : Int) →
      (startNextRoundOrEnd g now).2.Error = "" ∧
      (startNextRoundOrEnd g now).2.StateChanged = true ∧
      ∃ timer, (startNextRoundOrEnd g now).1 =
        { g with
          Round := g.Round + 1
          World := { g.World with Bunker := (listModify g.World.Bunker
            (g.World.Bunker.findIdx (fun c => !c.IsRevealed))
            (fun c => { c with IsRevealed := true, RevealedAtRound := some (g.Round + 1) })) }
          WorldEvent :=
            (if g.World.Bunker.findIdx (fun c => !c.IsRevealed) < g.World.Bunker.length then
              some { EventType := "bunker_revealed",
                     Index := ((g.World.Bunker.findIdx (fun c => !c.IsRevealed) : Nat) : Int),
                     Round := g.Round + 1 }
             else none)
          Phase := scenarioPhaseReveal
          VotePhase := ""
          Votes := []
          BaseVotes := []
          VoteResults := []
          VoteCandidates := []
          VoteDisabled := []
          VoteWeights := []
          AutoWastedVoters := []
          RevoteDisallow := []
          DoubleAgainst := ""
          TieBreakUsed := false
          RevealedThisRnd := []
          CurrentTurnID := firstAliveID g
          VotesRemaining := votesForRound g (g.Round + 1)
          LastRevealerID := ""
          ResolutionNote := ""
          RoundRules := { NoTalkUntilVoting := false, ForcedCategory := "" }
          LastStageText := "Раунд " ++ fmtInt (g.Round + 1) ++ ". Раскрытие карт."
          ActiveTimer := timer
          EventCounter := g.EventCounter + 1 }) ∧
    (0 ≤ g.Round → g.Round + 1 ≤ (g.Ruleset.VotesPerRnd.length : Int) →
      votesForRound g (g.Round + 1) = max 0 (g.Ruleset.VotesPerRnd.getD g.Round.toNat 0)) := by
  refine ⟨fun h => ?_, fun h hr => ?_, fun reason => finishGame_Phase g reason now,
    fun h hr => ?_, fun h0 hr => ?_⟩
  · unfold startNextRoundOrEnd
    rw [if_pos h]
  · unfold startNextRoundOrEnd
    rw [if_neg (by rw [h]; decide)]
    dsimp only
    rw [if_pos hr]
  · unfold startNextRoundOrEnd
    rw [if_neg (by rw [h]; decide)]
    dsimp only
    rw [if_neg (not_lt.2 hr), revealNextBunkerCard_eq]
    generalize hG : scheduleRevealTimeoutIfNeeded _ now = G
    obtain ⟨timer, hs⟩ := scheduleRevealTimeoutIfNeeded_only _ now
    rw [hG] at hs
    subst hs
    exact ⟨rfl, rfl, timer, rfl⟩
  · unfold votesForRound
    dsimp only
    rw [if_neg (by omega), maxInt_eq_max]
    congr 2
    omega

set_option maxRecDepth 100000 in
/-- Claim C33, witness: the session of four players advances from round 1 to round 2: the
second bunker card, the first hidden one, is revealed with round 2 recorded, the others stay
as they were, and the quota of the new round is 1. -/
theorem startNextRoundOrEnd_contract_witness :
    (startNextRoundOrEnd exampleQuotaStart 5).1.World.Bunker.map
        (fun c => (c.IsRevealed, c.RevealedAtRound)) =
      [(true, some 1), (true, some 2), (false, none), (false, none), (false, none)] ∧
    (startNextRoundOrEnd exampleQuotaStart 5).1.Round = 2 ∧
    (startNextRoundOrEnd exampleQuotaStart 5).1.VotesRemaining = 1 ∧
    (startNextRoundOrEnd exampleQuotaStart 5).2.Error = "" ∧
    votesForRound exampleQuotaStart (exampleQuotaStart.Round + 1) =
      max 0 (exampleQuotaStart.Ruleset.VotesPerRnd.getD exampleQuotaStart.Round.toNat 0) :=
  ⟨by decide, by decide, by decide,
    ((startNextRoundOrEnd_contract exampleQuotaStart 5).2.2.2.1 (by decide) (by decide)).1,
    (startNextRoundOrEnd_contract exampleQuotaStart 5).2.2.2.2 (by decide) (by decide)⟩



/-! ## The end of the game -/

theorem aliveNames_eq (g : gameSession) :
    aliveNames g = (aliveIDs g).map (playerName g) := by
  unfold aliveNames aliveIDs
  generalize g.Order = order
  induction order with
  | nil => rfl
  | cons id t ih =>
    rw [List.filterMap_cons, List.filter_cons]
    unfold playerIsAlive playerName
    cases hp : mapGet? g.Players id with
    | none =>
      dsimp only
      rw [if_neg (by decide)]
      exact ih
    | some p =>
      dsimp only
      by_cases hs : p.Status = playerAlive
      · rw [if_pos hs, if_pos (by rw [decide_eq_true hs]), List.map_cons, hp, ih]
        rfl
      · rw [if_neg hs, if_neg (by rw [decide_eq_false hs]; decide)]
        exact ih

/-- Claim C34. `finishGame` on a session that is not ended (or is ended without an active
post-game) changes the state: the new session is the old one except that `Phase` is `ended`,
`VotePhase` and `CurrentTurnID` are empty, there is no active timer, every bunker card is
revealed (a card that was hidden gets the round `max 1 (len VotesPerRnd)`, a revealed one
stays as it was), the post-game is active without an outcome, `Winners` holds the names of
the alive players in `Order`, the stage text tells the end and one more event is counted.
On a session that is ended with an active post-game it returns `StateChanged = false` and
the session as it was. -/
theorem finishGame_contract (g : gameSession) (reason : String) (now : Int) :
    (¬ (g.Phase = scenarioPhaseEnded ∧ postGameActive g = true) →
      (finishGame g reason now).2.StateChanged = true ∧
      (finishGame g reason now).2.Error = "" ∧
      (finishGame g reason now).1 =
        { g with
          ActiveTimer := none
          World := { g.World with Bunker := (g.World.Bunker.map (fun c =>
            if c.IsRevealed then c
            else { c with IsRevealed := true,
                          RevealedAtRound :=
                            some (maxInt 1 (g.Ruleset.VotesPerRnd.length : Int)) })) }
          Phase := scenarioPhaseEnded
          VotePhase := ""
          CurrentTurnID := ""
          PostGame := some { IsActive := true, EnteredAt := now, Outcome := "", DecidedBy := "",
                             DecidedAt := 0 }
          Winners := (aliveIDs g).map (playerName g)
          LastStageText :=
            (if ((aliveIDs g).map (playerName g)).length = 0 then "Игра завершена."
             else "Игра завершена. В бункер попали: " ++
               joinStrings "," ((aliveIDs g).map (playerName g)) ++ ".")
          EventCounter := g.EventCounter + 1 } ∧
      (finishGame g reason now).1.World.Bunker.all (fun c => c.IsRevealed) = true) ∧
    (g.Phase = scenarioPhaseEnded → postGameActive g = true →
      (finishGame g reason now).2.StateChanged = false ∧
      (finishGame g reason now).1 = g) := by
  refine ⟨fun h => ?_, fun h1 h2 => ?_⟩
  · have hall : (g.World.Bunker.map (fun c =>
        if c.IsRevealed then c
        else { c with IsRevealed := true,
                      RevealedAtRound :=
                        some (maxInt 1 (g.Ruleset.VotesPerRnd.length : Int)) })).all
          (fun c => c.IsRevealed) = true := by
      rw [List.all_eq_true]
      intro c hc
      obtain ⟨c0, _, rfl⟩ := List.mem_map.1 hc
      split
      · assumption
      · rfl
    unfold finishGame
    rw [if_neg h]
    have hn : aliveNames { ensureAllBunkerCardsRevealed (clearActiveTimer g) with
        Phase := scenarioPhaseEnded, VotePhase := "", CurrentTurnID := "",
        PostGame := some { IsActive := true, EnteredAt := now, Outcome := "", DecidedBy := "",
                           DecidedAt := 0 } } = (aliveIDs g).map (playerName g) :=
      (show _ = aliveNames g from rfl).trans (aliveNames_eq g)
    dsimp only
    rw [hn]
    exact ⟨rfl, rfl, rfl, hall⟩
  · unfold finishGame
    rw [if_pos ⟨h1, h2⟩]
    exact ⟨rfl, rfl⟩

set_option maxRecDepth 100000 in
/-- Claim C34, witness: the session of four players is finished in round 1: all five bunker
cards are revealed, the four hidden ones with round 2, the length of the vote list; the four
alive players are the winners; a second call changes nothing. -/
theorem finishGame_contract_witness :
    (finishGame exampleQuotaStart "" 5).1.Winners = ["A", "B", "C", "D"] ∧
    (finishGame exampleQuotaStart "" 5).1.World.Bunker.map
        (fun c => (c.IsRevealed, c.RevealedAtRound)) =
      [(true, some 1), (true, some 2), (true, some 2), (true, some 2), (true, some 2)] ∧
    (finishGame exampleQuotaStart "" 5).2.StateChanged = true ∧
    (finishGame exampleQuotaStart "" 5).1.World.Bunker.all (fun c => c.IsRevealed) = true ∧
    (finishGame exampleFinished "" 6).2.StateChanged = false ∧
    (finishGame exampleFinished "" 6).1 = exampleFinished :=
  ⟨by decide, by decide,
    ((finishGame_contract exampleQuotaStart "" 5).1 (by decide)).1,
    ((finishGame_contract exampleQuotaStart "" 5).1 (by decide)).2.2.2,
    ((finishGame_contract exampleFinished "" 6).2 (by decide) (by decide)).1,
    ((finishGame_contract exampleFinished "" 6).2 (by decide) (by decide)).2⟩



/-! ## Claim C35: the neighbour triggers of an elimination -/

/-- The test `playerIsAlive` reads the statuses only. -/
theorem playerIsAlive_of_statuses (a b : gameSession)
    (h : playerStatuses a.Players = playerStatuses b.Players) (id : String) :
    playerIsAlive a id = playerIsAlive b id := by
  refine Bool.eq_iff_iff.2 ?_
  rw [playerIsAlive_status, playerIsAlive_status]
  show mapGet? (playerStatuses a.Players) id = _ ↔ mapGet? (playerStatuses b.Players) id = _
  rw [h]

/-- The test of the secret abilities reads the order, the statuses and the first revealer
of a health card only. -/
theorem secretFires_congr (a b : gameSession) (ages : Option (String × String))
    (P E : String) (s : specialConditionState) (hO : a.Order = b.Order)
    (hS : playerStatuses a.Players = playerStatuses b.Players)
    (hF : a.FirstHealthRevealerID = b.FirstHealthRevealerID) :
    secretFires a ages P E s = secretFires b ages P E s := by
  have hal : aliveOrTarget a E = aliveOrTarget b E := by
    funext id
    unfold aliveOrTarget
    rw [playerIsAlive_of_statuses a b hS id]
  have hn : neighborIDs a P E = neighborIDs b P E := by
    unfold neighborIDs
    rw [hO, hal]
  unfold secretFires secretConditionHolds
  rw [hn, hF]

/-- An ability that is used does not fire. -/
theorem secretFires_used (g : gameSession) (ages : Option (String × String)) (P E : String)
    (s : specialConditionState) :
    secretFires g ages P E { s with Used := true } = false := by
  unfold secretFires
  simp

/-- The inner loop of `handleSecretEliminationTriggers` changes nothing when it runs a
second time. -/
theorem applySecretTriggers_idem (g : gameSession) (ages : Option (String × String))
    (P E : String) (p : gamePlayer) :
    applySecretTriggers g ages P E (applySecretTriggers g ages P E p) =
      applySecretTriggers g ages P E p := by
  have hmap : ∀ l : List specialConditionState,
      (l.map (fun s => if secretFires g ages P E s then { s with Used := true } else s)).map
          (fun s => if secretFires g ages P E s then { s with Used := true } else s) =
        l.map (fun s => if secretFires g ages P E s then { s with Used := true } else s) := by
    intro l
    rw [List.map_map]
    refine List.map_congr_left ?_
    intro s _
    dsimp only [Function.comp]
    by_cases hf : secretFires g ages P E s = true
    · rw [if_pos hf, secretFires_used]
      rfl
    · rw [if_neg hf, if_neg hf]
  have hany : ∀ l : List specialConditionState,
      (l.map (fun s => if secretFires g ages P E s then { s with Used := true } else s)).any
          (secretFires g ages P E) = false := by
    intro l
    rw [List.any_eq_false]
    intro x hx
    obtain ⟨s, _, hsx⟩ := List.mem_map.1 hx
    subst hsx
    by_cases hf : secretFires g ages P E s = true
    · rw [if_pos hf, secretFires_used]
      simp
    · rw [if_neg hf]
      exact hf
  unfold applySecretTriggers
  dsimp only
  rw [hmap, hany, Bool.or_false]

/-- A round of the loop of `handleSecretEliminationTriggers` keeps the order, the statuses
and the first revealer of a health card. -/
theorem secretTriggers_round_frame (a : String) (f : gamePlayer → gamePlayer)
    (hf : ∀ p, (f p).Status = p.Status) (acc g2 : gameSession)
    (h : acc.Order = g2.Order ∧ playerStatuses acc.Players = playerStatuses g2.Players ∧
      acc.FirstHealthRevealerID = g2.FirstHealthRevealerID) :
    ({ acc with Players := (mapModify acc.Players a f) } : gameSession).Order = g2.Order ∧
      playerStatuses
          ({ acc with Players := (mapModify acc.Players a f) } : gameSession).Players =
        playerStatuses g2.Players ∧
      ({ acc with Players := (mapModify acc.Players a f) } :
          gameSession).FirstHealthRevealerID = g2.FirstHealthRevealerID := by
  refine ⟨h.1, ?_, h.2.2⟩
  dsimp only
  rw [playerStatuses_mapModify _ _ _ hf]
  exact h.2.1

/-- Once the inner loop has run on the player `P`, later rounds of the loop of
`handleSecretEliminationTriggers` leave the player as the first run made it. -/
theorem secretTriggers_done (ages : Option (String × String)) (E P : String) (p : gamePlayer)
    (g2 : gameSession) (l : List String) (acc : gameSession)
    (hfr : acc.Order = g2.Order ∧ playerStatuses acc.Players = playerStatuses g2.Players ∧
      acc.FirstHealthRevealerID = g2.FirstHealthRevealerID)
    (h : mapGet? acc.Players P = some (applySecretTriggers g2 ages P E p)) :
    mapGet? (l.foldl (fun acc playerID =>
        { acc with Players :=
            mapModify acc.Players playerID (applySecretTriggers acc ages playerID E) })
        acc).Players P = some (applySecretTriggers g2 ages P E p) := by
  induction l generalizing acc with
  | nil => exact h
  | cons a t ih =>
    rw [List.foldl_cons]
    refine ih _ (secretTriggers_round_frame a (applySecretTriggers acc ages a E) (fun _ => rfl) acc g2 hfr) ?_
    dsimp only
    rw [mapGet?_mapModify]
    by_cases hk : a = P
    · subst hk
      rw [if_pos rfl, h]
      dsimp only [Option.map]
      have hc : applySecretTriggers acc ages a E = applySecretTriggers g2 ages a E := by
        funext q
        unfold applySecretTriggers
        have hf : secretFires acc ages a E = secretFires g2 ages a E :=
          funext (fun s => secretFires_congr acc g2 ages a E s hfr.1 hfr.2.1 hfr.2.2)
        rw [hf]
      rw [hc, applySecretTriggers_idem]
    · rw [if_neg hk]
      exact h

/-- The loop of `handleSecretEliminationTriggers` over a list that holds the player `P`
runs the inner loop on `P`, on the session the loop started with. -/
theorem secretTriggers_player (ages : Option (String × String)) (E P : String) (p : gamePlayer)
    (g2 : gameSession) (l : List String) (acc : gameSession)
    (hfr : acc.Order = g2.Order ∧ playerStatuses acc.Players = playerStatuses g2.Players ∧
      acc.FirstHealthRevealerID = g2.FirstHealthRevealerID)
    (h : mapGet? acc.Players P = some p) (hmem : P ∈ l) :
    mapGet? (l.foldl (fun acc playerID =>
        { acc with Players :=
            mapModify acc.Players playerID (applySecretTriggers acc ages playerID E) })
        acc).Players P = some (applySecretTriggers g2 ages P E p) := by
  induction l generalizing acc with
  | nil => exact absurd hmem (List.not_mem_nil _)
  | cons a t ih =>
    rw [List.foldl_cons]
    by_cases hk : a = P
    · subst hk
      refine secretTriggers_done ages E a p g2 t _
        (secretTriggers_round_frame a (applySecretTriggers acc ages a E) (fun _ => rfl) acc g2 hfr) ?_
      dsimp only
      rw [mapGet?_mapModify, if_pos rfl, h]
      dsimp only [Option.map]
      have hc : applySecretTriggers acc ages a E = applySecretTriggers g2 ages a E := by
        funext q
        unfold applySecretTriggers
        have hf : secretFires acc ages a E = secretFires g2 ages a E :=
          funext (fun s => secretFires_congr acc g2 ages a E s hfr.1 hfr.2.1 hfr.2.2)
        rw [hf]
      rw [hc]
    · refine ih _ (secretTriggers_round_frame a (applySecretTriggers acc ages a E) (fun _ => rfl) acc g2 hfr) ?_ ?_
      · dsimp only
        rw [mapGet?_mapModify, if_neg hk]
        exact h
      · rcases List.mem_cons.1 hmem with h1 | h1
        · exact absurd h1.symm hk
        · exact h1

/-- What `applyElimination` of an alive player `E` does to another player `P` of `Order`:
the inner loop of `handleSecretEliminationTriggers` runs on `P`, and the test of the
neighbour conditions scans the players that were alive before the elimination. -/
theorem applyElimination_other (g : gameSession) (E P : String) (t p : gamePlayer)
    (hE : mapGet? g.Players E = some t) (halive : t.Status = playerAlive) (hPE : P ≠ E)
    (hmem : P ∈ g.Order) (hp : mapGet? g.Players P = some p) :
    ∃ g2 ages, mapGet? (applyElimination g E).Players P =
        some (applySecretTriggers g2 ages P E p) ∧
      g2.Order = g.Order ∧ aliveOrTarget g2 E = playerIsAlive g := by
  unfold applyElimination
  rw [hE]
  dsimp only
  rw [if_neg (not_not.2 halive)]
  show ∃ g2 ages, mapGet? (handleSecretEliminationTriggers _ E).Players P = _ ∧ _
  generalize hg1 : handleOnOwnerEliminated _ E = g2
  have hO : g2.Order = g.Order := by
    subst hg1
    unfold handleOnOwnerEliminated
    dsimp only
    split <;> rfl
  have hst : ∀ id, mapGet? g2.Players id =
      if E = id then (mapGet? g2.Players id) else mapGet? g.Players id := by
    intro id
    by_cases hk : E = id
    · rw [if_pos hk]
    · rw [if_neg hk]
      subst hg1
      unfold handleOnOwnerEliminated
      dsimp only
      split
      · dsimp only
        rw [mapGet?_mapModify, if_neg hk]
      · dsimp only
        rw [mapGet?_mapModify, if_neg hk, mapGet?_mapModify, if_neg hk]
  have hal : aliveOrTarget g2 E = playerIsAlive g := by
    funext id
    unfold aliveOrTarget
    by_cases hk : id = E
    · subst hk
      have : playerIsAlive g id = true := by
        unfold playerIsAlive
        rw [hE]
        exact decide_eq_true halive
      rw [this]
      simp
    · have h1 : playerIsAlive g2 id = playerIsAlive g id := by
        unfold playerIsAlive
        rw [hst id, if_neg (Ne.symm hk)]
      rw [h1]
      simp [hk]
  have hp2 : mapGet? g2.Players P = some p := by
    rw [hst P, if_neg (Ne.symm hPE)]
    exact hp
  refine ⟨g2, computeAgeExtremes g2, ?_, hO, hal⟩
  unfold handleSecretEliminationTriggers
  dsimp only
  exact secretTriggers_player (computeAgeExtremes g2) E P p g2 g2.Order g2 ⟨rfl, rfl, rfl⟩ hp2
    (hO ▸ hmem)

/-- The scan of `neighborIDs` with the eliminated player `E` counted as present finds `E`
exactly when the nearest alive player of the scan before the elimination was `E`. -/
theorem scan_finds_target (g : gameSession) (E : String) (t : gamePlayer) (scan : List String)
    (hE : mapGet? g.Players E = some t) (halive : t.Status = playerAlive)
    (hE0 : E ≠ "" ∨ E ∈ scan) :
    decide ((scan.find? (playerIsAlive g)).getD "" = E) =
      decide (scan.find? (playerIsAlive g) = some E) := by
  have hEal : playerIsAlive g E = true := by
    unfold playerIsAlive
    rw [hE]
    exact decide_eq_true halive
  cases hf : scan.find? (playerIsAlive g) with
  | some x => simp
  | none =>
    rcases hE0 with h0 | h0
    · simp [Ne.symm h0]
    · exact absurd hEal (by simpa using List.find?_eq_none.1 hf E h0)

/-- Claim C35.  Let the alive player `E` be eliminated by `applyElimination`, and let another
player `P` of `Order` hold at slot `i` an unused, implemented ability `s` with the trigger
`secret_onEliminate` whose condition is `leftNeighborEliminated` (respectively
`rightNeighborEliminated`).  If `E` was the nearest alive player to the left (respectively
right) of `P` in the circular `Order` just before the elimination, the ability is used
afterwards and `ForcedWastedVoteNext` of `P` is true.  If `E` was not that neighbour, the
ability is unchanged, and when no other ability of `P` is an unused implemented
`secret_onEliminate` ability the flag of `P` keeps its value. -/
theorem neighbour_trigger (g : gameSession) (E P : String) (t p : gamePlayer) (i : Nat)
    (s : specialConditionState) (hE : mapGet? g.Players E = some t)
    (halive : t.Status = playerAlive) (hE0 : E ≠ "" ∨ E ∈ g.Order) (hPE : P ≠ E)
    (hmem : P ∈ g.Order) (hp : mapGet? g.Players P = some p)
    (hs : p.Specials.get? i = some s) (hunused : s.Used = false)
    (htrig : s.Definition.Trigger = "secret_onEliminate")
    (himpl : s.Definition.Implemented = true) :
    ∃ p2, mapGet? (applyElimination g E).Players P = some p2 ∧
      ∀ nearest : Option String,
        (asString (mapGet? s.Definition.Effect.Params "condition") = "leftNeighborEliminated" ∧
            nearest = nearestAliveLeft g P) ∨
          (asString (mapGet? s.Definition.Effect.Params "condition") =
              "rightNeighborEliminated" ∧ nearest = nearestAliveRight g P) →
        (nearest = some E →
          p2.Specials.get? i = some { s with Used := true } ∧
            p2.ForcedWastedVoteNext = true) ∧
        (nearest ≠ some E →
          p2.Specials.get? i = some s ∧
            ((∀ j s2, j ≠ i → p.Specials.get? j = some s2 →
                s2.Used = true ∨ s2.Definition.Trigger ≠ "secret_onEliminate" ∨
                  s2.Definition.Implemented = false) →
              p2.ForcedWastedVoteNext = p.ForcedWastedVoteNext)) := by
  obtain ⟨g2, ages, hget, hO, hal⟩ := applyElimination_other g E P t p hE halive hPE hmem hp
  refine ⟨_, hget, ?_⟩
  intro nearest hn
  have hidx : ¬ (g.Order.indexOf P ≥ g.Order.length ∨ g.Order.length = 0) := by
    have h1 : g.Order.indexOf P < g.Order.length := List.indexOf_lt_length.2 hmem
    omega
  have hscanL : E ≠ "" ∨ E ∈ (g.Order.take (g.Order.indexOf P)).reverse ++
      (g.Order.drop (g.Order.indexOf P)).reverse := by
    rcases hE0 with h0 | h0
    · exact Or.inl h0
    · refine Or.inr ?_
      rw [← List.take_append_drop (g.Order.indexOf P) g.Order] at h0
      rcases List.mem_append.1 h0 with h1 | h1
      · exact List.mem_append.2 (Or.inl (List.mem_reverse.2 h1))
      · exact List.mem_append.2 (Or.inr (List.mem_reverse.2 h1))
  have hscanR : E ≠ "" ∨ E ∈ g.Order.drop (g.Order.indexOf P + 1) ++
      g.Order.take (g.Order.indexOf P + 1) := by
    rcases hE0 with h0 | h0
    · exact Or.inl h0
    · refine Or.inr ?_
      rw [← List.take_append_drop (g.Order.indexOf P + 1) g.Order] at h0
      rcases List.mem_append.1 h0 with h1 | h1
      · exact List.mem_append.2 (Or.inr h1)
      · exact List.mem_append.2 (Or.inl h1)
  have hfire : secretFires g2 ages P E s = decide (nearest = some E) := by
    unfold secretFires
    rw [hunused, htrig, himpl]
    rcases hn with ⟨hc, hn⟩ | ⟨hc, hn⟩
    · rw [hc, hn]
      unfold secretConditionHolds neighborIDs nearestAliveLeft
      rw [hO, hal, if_neg hidx]
      dsimp only
      rw [scan_finds_target g E t _ hE halive hscanL]
      simp
    · rw [hc, hn]
      unfold secretConditionHolds neighborIDs nearestAliveRight
      rw [hO, hal, if_neg hidx]
      dsimp only
      rw [scan_finds_target g E t _ hE halive hscanR]
      simp
  have hslot : (applySecretTriggers g2 ages P E p).Specials.get? i =
      some (if secretFires g2 ages P E s then { s with Used := true } else s) := by
    unfold applySecretTriggers
    dsimp only
    rw [List.get?_eq_getElem?] at hs ⊢
    rw [List.getElem?_map, hs]
    rfl
  have hflag : (applySecretTriggers g2 ages P E p).ForcedWastedVoteNext =
      (p.ForcedWastedVoteNext || p.Specials.any (secretFires g2 ages P E)) := rfl
  refine ⟨?_, ?_⟩
  · intro hy
    rw [decide_eq_true hy] at hfire
    refine ⟨?_, ?_⟩
    · rw [hslot, if_pos hfire]
    · rw [hflag]
      have hany : p.Specials.any (secretFires g2 ages P E) = true :=
        List.any_eq_true.2 ⟨s, List.get?_mem hs, hfire⟩
      rw [hany, Bool.or_true]
  · intro hy
    rw [decide_eq_false hy] at hfire
    refine ⟨?_, ?_⟩
    · rw [hslot, hfire]
      rfl
    · intro hother
      rw [hflag]
      have hany : p.Specials.any (secretFires g2 ages P E) = false := by
        rw [List.any_eq_false]
        intro x hx
        obtain ⟨j, hj⟩ := List.get?_of_mem hx
        by_cases hji : j = i
        · subst hji
          rw [hs] at hj
          rw [← Option.some.inj hj, hfire]
          simp
        · rcases hother j x hji hj with h1 | h1 | h1
          · unfold secretFires
            simp [h1]
          · unfold secretFires
            simp [h1]
          · unfold secretFires
            simp [h1]
      rw [hany, Bool.or_false]

set_option maxRecDepth 100000 in
/-- Claim C35, witness: in `exampleNeighbours` the alive player to the left of `p1` is `p4`.
The elimination of `p4` uses the ability `protect_left` of `p1` and sets the flag of `p1`;
the elimination of `p2`, the right neighbour, leaves both as they were. -/
theorem neighbour_trigger_witness :
    nearestAliveLeft exampleNeighbours "p1" = some "p4" ∧
    (mapGet? (applyElimination exampleNeighbours "p4").Players "p1").map
        (fun q => (q.ForcedWastedVoteNext, q.Specials.map (fun s => s.Used))) =
      some (true, [true]) ∧
    (mapGet? (applyElimination exampleNeighbours "p2").Players "p1").map
        (fun q => (q.ForcedWastedVoteNext, q.Specials.map (fun s => s.Used))) =
      some (false, [false]) ∧
    (∃ p2, mapGet? (applyElimination exampleNeighbours "p4").Players "p1" = some p2 ∧
      ∀ nearest : Option String,
        (asString (mapGet? exampleLeftSpecial.Definition.Effect.Params "condition") =
              "leftNeighborEliminated" ∧
            nearest = nearestAliveLeft exampleNeighbours "p1") ∨
          (asString (mapGet? exampleLeftSpecial.Definition.Effect.Params "condition") =
              "rightNeighborEliminated" ∧
            nearest = nearestAliveRight exampleNeighbours "p1") →
        (nearest = some "p4" →
          p2.Specials.get? 0 = some { exampleLeftSpecial with Used := true } ∧
            p2.ForcedWastedVoteNext = true) ∧
        (nearest ≠ some "p4" →
          p2.Specials.get? 0 = some exampleLeftSpecial ∧
            ((∀ j s2, j ≠ 0 →
                ({ examplePlayer "p1" "alive" with
                    Specials := [exampleLeftSpecial] } : gamePlayer).Specials.get? j =
                  some s2 →
                s2.Used = true ∨ s2.Definition.Trigger ≠ "secret_onEliminate" ∨
                  s2.Definition.Implemented = false) →
              p2.ForcedWastedVoteNext =
                ({ examplePlayer "p1" "alive" with
                    Specials := [exampleLeftSpecial] } : gamePlayer).ForcedWastedVoteNext))) :=
  ⟨by decide, by decide, by decide,
    neighbour_trigger exampleNeighbours "p4" "p1" (examplePlayer "p4" "alive")
      { examplePlayer "p1" "alive" with Specials := [exampleLeftSpecial] } 0 exampleLeftSpecial
      (by decide) (by decide) (Or.inl (by decide)) (by decide) (by decide) (by decide)
      (by decide) (by decide) (by decide) (by decide)⟩



/-! ## Claim C36: `startVoting` consumes the forced wasted vote -/

/-- What one round of the loop of `startVoting` does to the vote maps at the key `id`. -/
theorem startVotingStep_maps (now : Int) (id : String) (acc : gameSession)
    (e : String × gamePlayer) :
    mapGet? (startVotingStep now acc e).Votes id =
        (if (decide (e.2.Status = playerAlive) && e.2.ForcedWastedVoteNext &&
            decide (e.2.PlayerID = id)) = true then
          some { TargetID := "", Submitted := now, IsValid := false,
                 ReasonText := "Голос потрачен." }
        else mapGet? acc.Votes id) ∧
      mapGet? (startVotingStep now acc e).VoteDisabled id =
        (if (decide (e.2.Status = playerAlive) && e.2.ForcedWastedVoteNext &&
            decide (e.2.PlayerID = id)) = true then some "Голос потрачен."
        else mapGet? acc.VoteDisabled id) ∧
      mapGet? (startVotingStep now acc e).AutoWastedVoters id =
        (if (decide (e.2.Status = playerAlive) && e.2.ForcedWastedVoteNext &&
            decide (e.2.PlayerID = id)) = true then some true
        else mapGet? acc.AutoWastedVoters id) := by
  unfold startVotingStep
  by_cases h1 : e.2.Status = playerAlive
  · rw [if_neg (not_not.2 h1)]
    by_cases h2 : e.2.ForcedWastedVoteNext = true
    · rw [if_pos h2]
      unfold markVoteWasted
      dsimp only
      rw [mapGet?_mapSet, mapGet?_mapSet, mapGet?_mapSet]
      by_cases h3 : e.2.PlayerID = id
      · simp [h1, h2, h3]
      · simp [h1, h2, h3]
    · rw [if_neg h2]
      simp [h2]
  · rw [if_pos h1]
    simp [h1]

/-- What the loop of `startVoting` does to the vote maps at the key `id`. -/
theorem startVotingStep_fold_maps (now : Int) (id : String) (l : List (String × gamePlayer))
    (acc : gameSession) :
    mapGet? (l.foldl (startVotingStep now) acc).Votes id =
        (if l.any (fun e => decide (e.2.Status = playerAlive) && e.2.ForcedWastedVoteNext &&
            decide (e.2.PlayerID = id)) = true then
          some { TargetID := "", Submitted := now, IsValid := false,
                 ReasonText := "Голос потрачен." }
        else mapGet? acc.Votes id) ∧
      mapGet? (l.foldl (startVotingStep now) acc).VoteDisabled id =
        (if l.any (fun e => decide (e.2.Status = playerAlive) && e.2.ForcedWastedVoteNext &&
            decide (e.2.PlayerID = id)) = true then some "Голос потрачен."
        else mapGet? acc.VoteDisabled id) ∧
      mapGet? (l.foldl (startVotingStep now) acc).AutoWastedVoters id =
        (if l.any (fun e => decide (e.2.Status = playerAlive) && e.2.ForcedWastedVoteNext &&
            decide (e.2.PlayerID = id)) = true then some true
        else mapGet? acc.AutoWastedVoters id) := by
  induction l generalizing acc with
  | nil => exact ⟨rfl, rfl, rfl⟩
  | cons e t ih =>
    rw [List.foldl_cons, List.any_cons]
    obtain ⟨i1, i2, i3⟩ := ih (startVotingStep now acc e)
    obtain ⟨s1, s2, s3⟩ := startVotingStep_maps now id acc e
    rw [i1, i2, i3, s1, s2, s3]
    generalize (t.any fun e => decide (e.2.Status = playerAlive) && e.2.ForcedWastedVoteNext &&
      decide (e.2.PlayerID = id)) = b
    generalize (decide (e.2.Status = playerAlive) && e.2.ForcedWastedVoteNext &&
      decide (e.2.PlayerID = id)) = c
    cases b <;> cases c <;> simp

/-- What one round of the loop of `startVoting` does to the stored players. -/
theorem startVotingStep_lookup (now : Int) (k : String) (acc : gameSession)
    (e : String × gamePlayer) :
    mapGet? (startVotingStep now acc e).Players k =
      (mapGet? acc.Players k).map (fun p =>
        if (decide (e.1 = k) && decide (e.2.Status = playerAlive) &&
            e.2.ForcedWastedVoteNext) = true then
          { p with ForcedWastedVoteNext := false } else p) := by
  unfold startVotingStep
  by_cases h1 : e.2.Status = playerAlive
  · rw [if_neg (not_not.2 h1)]
    by_cases h2 : e.2.ForcedWastedVoteNext = true
    · rw [if_pos h2]
      unfold markVoteWasted
      dsimp only
      rw [mapGet?_mapModify]
      by_cases h3 : e.1 = k
      · simp [h1, h2, h3]
      · simp [h1, h2, h3]
    · rw [if_neg h2]
      simp [h2]
  · rw [if_pos h1]
    simp [h1]

/-- What the loop of `startVoting` does to the stored players. -/
theorem startVotingStep_fold_lookup (now : Int) (k : String)
    (l : List (String × gamePlayer)) (acc : gameSession) :
    mapGet? (l.foldl (startVotingStep now) acc).Players k =
      (mapGet? acc.Players k).map (fun p =>
        if l.any (fun e => decide (e.1 = k) && decide (e.2.Status = playerAlive) &&
            e.2.ForcedWastedVoteNext) = true then
          { p with ForcedWastedVoteNext := false } else p) := by
  induction l generalizing acc with
  | nil => simp
  | cons e t ih =>
    rw [List.foldl_cons, List.any_cons, ih (startVotingStep now acc e),
      startVotingStep_lookup now k acc e, Option.map_map]
    generalize (t.any fun e => decide (e.1 = k) && decide (e.2.Status = playerAlive) &&
      e.2.ForcedWastedVoteNext) = b
    generalize (decide (e.1 = k) && decide (e.2.Status = playerAlive) &&
      e.2.ForcedWastedVoteNext) = c
    cases mapGet? acc.Players k with
    | none => rfl
    | some q => cases b <;> cases c <;> rfl

/-- The loop of `startVoting` over the stored players meets the player bound to `k`. -/
theorem any_mapEntries (ps : GoMap gamePlayer) (k : String) (p : gamePlayer)
    (hp : mapGet? ps k = some p) (f : gamePlayer → Bool) :
    (mapEntries ps).any (fun e => decide (e.1 = k) && f e.2) = f p := by
  refine Bool.eq_iff_iff.2 ?_
  rw [List.any_eq_true]
  constructor
  · rintro ⟨⟨k2, q⟩, hmem, hq⟩
    rw [Bool.and_eq_true, decide_eq_true_eq] at hq
    obtain ⟨hk, hf⟩ := hq
    dsimp only at hk hf
    subst hk
    rw [mem_mapEntries, hp] at hmem
    rw [Option.some.inj hmem]
    exact hf
  · intro hf
    refine ⟨(k, p), (mem_mapEntries ps k p).2 hp, ?_⟩
    simp [hf]

/-- A voter with an entry in `VoteDisabled` is turned away by `vote`. -/
theorem vote_disabled (g : gameSession) (actorID targetID reason : String) (now : Int)
    (h : mapGet? g.VoteDisabled actorID = some reason) (hr : reason ≠ "") :
    (vote g actorID targetID now).2.Error ≠ "" ∧ (vote g actorID targetID now).1 = g := by
  unfold vote
  rw [h]
  dsimp only
  rw [if_neg hr]
  repeat' split
  all_goals refine ⟨?_, rfl⟩
  all_goals dsimp only [errorResult]
  all_goals first
    | decide
    | exact hr

/-- The effective vote of a voter with an entry in `VoteDisabled` and an empty target has
the weight 0. -/
theorem effectiveVoteOf_wasted (g : gameSession) (id reason : String) (record : voteRecord)
    (h : mapGet? g.VoteDisabled id = some reason) (ht : record.TargetID = "") :
    (effectiveVoteOf g id record).Weight = 0 ∧ (effectiveVoteOf g id record).Status = "invalid" ∧
      (effectiveVoteOf g id record).TargetID = "" := by
  obtain ⟨t0, sub, valid, rt⟩ := record
  dsimp only at ht
  subst ht
  unfold effectiveVoteOf
  rw [h]
  cases valid <;> simp

/-- The maps of `startVoting` are those of its loop over the stored players, which starts
with empty vote maps. -/
theorem startVoting_loop (g : gameSession) (now : Int) :
    ∃ g3 : gameSession, g3.Players = g.Players ∧ g3.Votes = [] ∧ g3.VoteDisabled = [] ∧
      g3.AutoWastedVoters = [] ∧
      (startVoting g now).Players =
        ((mapEntries g.Players).foldl (startVotingStep now) g3).Players ∧
      (startVoting g now).Votes =
        ((mapEntries g.Players).foldl (startVotingStep now) g3).Votes ∧
      (startVoting g now).VoteDisabled =
        ((mapEntries g.Players).foldl (startVotingStep now) g3).VoteDisabled ∧
      (startVoting g now).AutoWastedVoters =
        ((mapEntries g.Players).foldl (startVotingStep now) g3).AutoWastedVoters := by
  unfold startVoting
  dsimp only
  refine ⟨_, ?_, ?_, ?_, ?_, rfl, ?_, ?_, ?_⟩ <;> rfl

/-- Claim C36.  `startVoting` consumes the forced wasted vote.  Afterwards every alive
player has `ForcedWastedVoteNext = false` and is otherwise unchanged, and players who are
not alive are unchanged.  For an alive player who had the flag set, `Votes` holds the
invalid record with the empty target under the player's id, `VoteDisabled` and
`AutoWastedVoters` hold an entry; so `vote` by this player is turned away and changes
nothing, the effective vote of the record weighs 0, and the id is one of the keys of
`Votes` that `len(g.Votes)` counts.  An id that is not the id of an alive player with the
flag has no entry in the three maps. -/
theorem startVoting_consumes_flag (g : gameSession) (now : Int) :
    (∀ k p, mapGet? g.Players k = some p → p.Status = playerAlive →
      mapGet? (startVoting g now).Players k = some { p with ForcedWastedVoteNext := false }) ∧
    (∀ k p, mapGet? g.Players k = some p → p.Status ≠ playerAlive →
      mapGet? (startVoting g now).Players k = some p) ∧
    (∀ k p, mapGet? g.Players k = some p → p.Status = playerAlive →
      p.ForcedWastedVoteNext = true →
      mapGet? (startVoting g now).Votes p.PlayerID =
          some { TargetID := "", Submitted := now, IsValid := false,
                 ReasonText := "Голос потрачен." } ∧
        mapGet? (startVoting g now).VoteDisabled p.PlayerID = some "Голос потрачен." ∧
        mapGet? (startVoting g now).AutoWastedVoters p.PlayerID = some true ∧
        (∀ targetID later, (vote (startVoting g now) p.PlayerID targetID later).2.Error ≠ "" ∧
          (vote (startVoting g now) p.PlayerID targetID later).1 = startVoting g now) ∧
        (effectiveVoteOf (startVoting g now) p.PlayerID
          { TargetID := "", Submitted := now, IsValid := false,
            ReasonText := "Голос потрачен." }).Weight = 0 ∧
        p.PlayerID ∈ mapKeys (startVoting g now).Votes ∧
        mapLen (startVoting g now).Votes = (mapKeys (startVoting g now).Votes).length) ∧
    (∀ id, (∀ k p, mapGet? g.Players k = some p → p.Status = playerAlive →
        p.ForcedWastedVoteNext = true → p.PlayerID ≠ id) →
      mapGet? (startVoting g now).Votes id = none ∧
        mapGet? (startVoting g now).VoteDisabled id = none ∧
        mapGet? (startVoting g now).AutoWastedVoters id = none) := by
  obtain ⟨g3, hP, hV, hD, hA, eP, eV, eD, eA⟩ := startVoting_loop g now
  have hplayers : ∀ k p, mapGet? g.Players k = some p →
      mapGet? (startVoting g now).Players k =
        some (if (decide (p.Status = playerAlive) && p.ForcedWastedVoteNext) = true then
          { p with ForcedWastedVoteNext := false } else p) := by
    intro k p hp
    rw [eP, startVotingStep_fold_lookup, hP, hp]
    have h := any_mapEntries g.Players k p hp
      (fun q => decide (q.Status = playerAlive) && q.ForcedWastedVoteNext)
    simp only [← Bool.and_assoc] at h
    rw [h]
    rfl
  have hmaps : ∀ id,
      mapGet? (startVoting g now).Votes id =
          (if (mapEntries g.Players).any (fun e => decide (e.2.Status = playerAlive) &&
              e.2.ForcedWastedVoteNext && decide (e.2.PlayerID = id)) = true then
            some { TargetID := "", Submitted := now, IsValid := false,
                   ReasonText := "Голос потрачен." }
          else none) ∧
        mapGet? (startVoting g now).VoteDisabled id =
          (if (mapEntries g.Players).any (fun e => decide (e.2.Status = playerAlive) &&
              e.2.ForcedWastedVoteNext && decide (e.2.PlayerID = id)) = true then
            some "Голос потрачен."
          else none) ∧
        mapGet? (startVoting g now).AutoWastedVoters id =
          (if (mapEntries g.Players).any (fun e => decide (e.2.Status = playerAlive) &&
              e.2.ForcedWastedVoteNext && decide (e.2.PlayerID = id)) = true then some true
          else none) := by
    intro id
    obtain ⟨f1, f2, f3⟩ := startVotingStep_fold_maps now id (mapEntries g.Players) g3
    rw [eV, eD, eA, f1, f2, f3, hV, hD, hA]
    exact ⟨rfl, rfl, rfl⟩
  refine ⟨?_, ?_, ?_, ?_⟩
  · intro k p hp hal
    rw [hplayers k p hp]
    by_cases hf : p.ForcedWastedVoteNext = true
    · simp [hal, hf]
    · have hf2 : p.ForcedWastedVoteNext = false := by simpa using hf
      obtain ⟨a, b, c, d, e, f, h, fl⟩ := p
      dsimp only at hf2
      subst hf2
      simp
  · intro k p hp hal
    rw [hplayers k p hp]
    simp [hal]
  · intro k p hp hal hf
    have hany : (mapEntries g.Players).any (fun e => decide (e.2.Status = playerAlive) &&
        e.2.ForcedWastedVoteNext && decide (e.2.PlayerID = p.PlayerID)) = true := by
      rw [List.any_eq_true]
      exact ⟨(k, p), (mem_mapEntries g.Players k p).2 hp, by simp [hal, hf]⟩
    obtain ⟨m1, m2, m3⟩ := hmaps p.PlayerID
    rw [if_pos hany] at m1 m2 m3
    refine ⟨m1, m2, m3, ?_, ?_, ?_, ?_⟩
    rotate_left 3
    · unfold mapLen mapKeys
      rw [List.length_map]
    · intro targetID later
      exact vote_disabled _ _ _ _ _ m2 (by decide)
    · exact (effectiveVoteOf_wasted _ _ _ _ m2 rfl).1
    · rw [mem_mapKeys]
      unfold mapHas
      rw [m1]
      rfl
  · intro id hnone
    have hany : ¬ (mapEntries g.Players).any (fun e => decide (e.2.Status = playerAlive) &&
        e.2.ForcedWastedVoteNext && decide (e.2.PlayerID = id)) = true := by
      rw [List.any_eq_true]
      rintro ⟨⟨k, p⟩, hmem, hq⟩
      rw [mem_mapEntries] at hmem
      simp only [Bool.and_eq_true, decide_eq_true_eq] at hq
      exact hnone k p hmem hq.1.1 hq.1.2 hq.2
    obtain ⟨m1, m2, m3⟩ := hmaps id
    rw [if_neg hany] at m1 m2 m3
    exact ⟨m1, m2, m3⟩

set_option maxRecDepth 100000 in
/-- Claim C36, witness: in `exampleFlagged` the alive player `p1` has the flag set.  After
`startVoting` the flag is cleared, `Votes` holds the wasted record of `p1`, a vote of `p1`
is turned away, and `p2`, who had no flag, has no record. -/
theorem startVoting_consumes_flag_witness :
    (mapGet? exampleFlagged.Players "p1").map
        (fun q => (q.Status, q.ForcedWastedVoteNext)) = some ("alive", true) ∧
    mapGet? (startVoting exampleFlagged 9).Players "p1" =
      some { examplePlayer "p1" "alive" with
        Specials := [{ exampleLeftSpecial with Used := true }] } ∧
    (mapGet? (startVoting exampleFlagged 9).Votes "p1" =
        some { TargetID := "", Submitted := 9, IsValid := false,
               ReasonText := "Голос потрачен." } ∧
      mapGet? (startVoting exampleFlagged 9).VoteDisabled "p1" = some "Голос потрачен." ∧
      mapGet? (startVoting exampleFlagged 9).AutoWastedVoters "p1" = some true ∧
      (∀ targetID later, (vote (startVoting exampleFlagged 9) "p1" targetID later).2.Error ≠ "" ∧
        (vote (startVoting exampleFlagged 9) "p1" targetID later).1 =
          startVoting exampleFlagged 9) ∧
      (effectiveVoteOf (startVoting exampleFlagged 9) "p1"
        { TargetID := "", Submitted := 9, IsValid := false,
          ReasonText := "Голос потрачен." }).Weight = 0 ∧
      "p1" ∈ mapKeys (startVoting exampleFlagged 9).Votes ∧
      mapLen (startVoting exampleFlagged 9).Votes =
        (mapKeys (startVoting exampleFlagged 9).Votes).length) ∧
    mapKeys (startVoting exampleFlagged 9).Votes = ["p1"] ∧
    (vote (startVoting exampleFlagged 9) "p1" "p2" 10).2.Error = "Голос потрачен." ∧
    mapGet? (startVoting exampleFlagged 9).Votes "p2" = none :=
  ⟨by decide,
    (startVoting_consumes_flag exampleFlagged 9).1 "p1"
      { examplePlayer "p1" "alive" with
        Specials := [{ exampleLeftSpecial with Used := true }],
        ForcedWastedVoteNext := true } (by decide) (by decide),
    (startVoting_consumes_flag exampleFlagged 9).2.2.1 "p1"
      { examplePlayer "p1" "alive" with
        Specials := [{ exampleLeftSpecial with Used := true }],
        ForcedWastedVoteNext := true } (by decide) (by decide) (by decide),
    by decide, by decide, by decide⟩



/-! ## Claim C37: the threat modifier -/

/-- The lookup in the table `modifierByTitle`. -/
theorem modifierByTitle_value (s : String) :
    (mapGet? modifierByTitle s).getD 0 =
      if s = "ВМЕСТЕ НА 10 ЛЕТ" then 1 else if s = "ЗАГАДОЧНЫЙ ЖУРНАЛ" then -1 else 0 := by
  unfold modifierByTitle mapGet? mapGet? mapGet?
  by_cases h1 : s = "ВМЕСТЕ НА 10 ЛЕТ"
  · rw [if_pos h1.symm, if_pos h1]
    rfl
  · rw [if_neg (Ne.symm h1), if_neg h1]
    by_cases h2 : s = "ЗАГАДОЧНЫЙ ЖУРНАЛ"
    · rw [if_pos h2.symm, if_pos h2]
      rfl
    · rw [if_neg (Ne.symm h2), if_neg h2]
      rfl

/-- The sum of the modifiers of the counted bunker cards. -/
theorem modifier_sum (cards : List worldFacedCardView) :
    ((cards.filter (fun card =>
        card.IsRevealed &&
          (mapGet? modifierByTitle (normalizeThreatTitle card.Title)).getD 0 ≠ 0)).map
      (fun card => (mapGet? modifierByTitle (normalizeThreatTitle card.Title)).getD 0)).sum =
    ((cards.filter (fun card => card.IsRevealed &&
        decide (normalizeThreatTitle card.Title = "ВМЕСТЕ НА 10 ЛЕТ"))).length : Int) -
      ((cards.filter (fun card => card.IsRevealed &&
        decide (normalizeThreatTitle card.Title = "ЗАГАДОЧНЫЙ ЖУРНАЛ"))).length : Int) := by
  simp only [modifierByTitle_value]
  have hne : ("ВМЕСТЕ НА 10 ЛЕТ" : String) ≠ "ЗАГАДОЧНЫЙ ЖУРНАЛ" := by decide
  induction cards with
  | nil => rfl
  | cons c t ih =>
    rw [List.filter_cons, List.filter_cons, List.filter_cons]
    cases hr : c.IsRevealed
    · simpa using ih
    · by_cases h1 : normalizeThreatTitle c.Title = "ВМЕСТЕ НА 10 ЛЕТ"
      · simp [hr, h1, hne] at ih ⊢
        omega
      · by_cases h2 : normalizeThreatTitle c.Title = "ЗАГАДОЧНЫЙ ЖУРНАЛ"
        · simp [hr, h2, Ne.symm hne] at ih ⊢
          omega
        · simp [hr, h1, h2] at ih ⊢
          omega

/-- Claim C37.  `currentThreatModifier` returns `BaseCount = World.Counts.Threats`, as
`Delta` the number of revealed bunker cards whose normalised title is "ВМЕСТЕ НА 10 ЛЕТ"
minus the number of revealed bunker cards whose normalised title is "ЗАГАДОЧНЫЙ ЖУРНАЛ"
(unrevealed cards are not counted), and
`FinalCount = min (len World.Threats) (max 0 (BaseCount + Delta))`, so that
`0 ≤ FinalCount ≤ len World.Threats`. -/
theorem threat_modifier_count (g : gameSession) :
    (currentThreatModifier g).BaseCount = g.World.CountsThreats ∧
    (currentThreatModifier g).Delta =
      ((g.World.Bunker.filter (fun card => card.IsRevealed &&
          decide (normalizeThreatTitle card.Title = "ВМЕСТЕ НА 10 ЛЕТ"))).length : Int) -
        ((g.World.Bunker.filter (fun card => card.IsRevealed &&
          decide (normalizeThreatTitle card.Title = "ЗАГАДОЧНЫЙ ЖУРНАЛ"))).length : Int) ∧
    (currentThreatModifier g).FinalCount =
      min (g.World.Threats.length : Int)
        (max 0 ((currentThreatModifier g).BaseCount + (currentThreatModifier g).Delta)) ∧
    0 ≤ (currentThreatModifier g).FinalCount ∧
    (currentThreatModifier g).FinalCount ≤ (g.World.Threats.length : Int) := by
  refine ⟨rfl, modifier_sum g.World.Bunker, ?_, ?_, ?_⟩
  all_goals unfold currentThreatModifier
  all_goals dsimp only
  all_goals split_ifs <;> omega



/-! ## Claim C38: the field `IsDev` is never written -/

theorem hard_IsDev {g g2 : gameSession} (h : hard g2 = hard g) : g2.IsDev = g.IsDev :=
  congrArg hardView.IsDev h

theorem ite_fst_IsDev {β : Type} (c : Prop) [Decidable c] (a b : gameSession × β) (v : Bool)
    (ha : a.1.IsDev = v) (hb : b.1.IsDev = v) : (if c then a else b).1.IsDev = v := by
  split
  · exact ha
  · exact hb

theorem ite_IsDev (c : Prop) [Decidable c] (a b : gameSession) (v : Bool)
    (ha : a.IsDev = v) (hb : b.IsDev = v) : (if c then a else b).IsDev = v := by
  split
  · exact ha
  · exact hb

theorem schedulePhaseTimer_IsDev (g : gameSession) (k : String) (s now : Int) :
    (schedulePhaseTimer g k s now).IsDev = g.IsDev :=
  hard_IsDev (schedulePhaseTimer_hard g k s now)

theorem scheduleRevealTimeoutIfNeeded_IsDev (g : gameSession) (now : Int) :
    (scheduleRevealTimeoutIfNeeded g now).IsDev = g.IsDev :=
  hard_IsDev (scheduleRevealTimeoutIfNeeded_hard g now)

theorem revealNextBunkerCard_IsDev (g : gameSession) (round : Int) :
    (revealNextBunkerCard g round).IsDev = g.IsDev := by
  unfold revealNextBunkerCard
  split <;> rfl

theorem finishGame_IsDev (g : gameSession) (reason : String) (now : Int) :
    (finishGame g reason now).1.IsDev = g.IsDev := by
  unfold finishGame
  dsimp only
  split <;> rfl

theorem startVotingStep_IsDev (now : Int) (g : gameSession) (e : String × gamePlayer) :
    (startVotingStep now g e).IsDev = g.IsDev := by
  unfold startVotingStep
  repeat' split
  all_goals rfl

theorem startVoting_IsDev (g : gameSession) (now : Int) :
    (startVoting g now).IsDev = g.IsDev := by
  unfold startVoting
  dsimp only
  exact (foldl_keeps _ (fun s : gameSession => s.IsDev) (startVotingStep_IsDev now) _ _).trans rfl

theorem passTurnFrom_IsDev (g : gameSession) (id : String) :
    (passTurnFrom g id).IsDev = g.IsDev := hard_IsDev (passTurnFrom_hard g id)

theorem revealWorldThreat_IsDev (g : gameSession) (a : String) (i : Int) :
    (revealWorldThreat g a i).1.IsDev = g.IsDev := hard_IsDev (revealWorldThreat_hard g a i)

theorem setBunkerOutcome_IsDev (g : gameSession) (a o : String) (now : Int) :
    (setBunkerOutcome g a o now).1.IsDev = g.IsDev :=
  hard_IsDev (setBunkerOutcome_hard g a o now)

theorem resetVotesForRevote_IsDev (g : gameSession) (now : Int) :
    (resetVotesForRevote g now).IsDev = g.IsDev := by
  unfold resetVotesForRevote
  dsimp only
  exact (foldl_keeps (fun acc voterID => markVoteWasted acc voterID "Голос потрачен." now)
    (fun s : gameSession => s.IsDev) (fun _ _ => rfl) _ _).trans rfl

theorem startTieBreakRevote_IsDev (g : gameSession) (c : List String) (now : Int) :
    (startTieBreakRevote g c now).IsDev = g.IsDev := by
  unfold startTieBreakRevote
  dsimp only [clearActiveTimer]
  rw [resetVotesForRevote_IsDev]

theorem handleOnOwnerEliminated_IsDev (g : gameSession) (id : String) :
    (handleOnOwnerEliminated g id).IsDev = g.IsDev :=
  hard_IsDev (handleOnOwnerEliminated_hard g id)

theorem handleSecretEliminationTriggers_IsDev (g : gameSession) (id : String) :
    (handleSecretEliminationTriggers g id).IsDev = g.IsDev :=
  hard_IsDev (handleSecretEliminationTriggers_hard g id)

theorem replaceCardEffect_IsDev (g : gameSession) (a : String) (p : gamePlayer) (i : Nat)
    (d : specialDefinition) (payload : GoMap AnyLeaf) (hide : Bool) (now : Int) :
    (replaceCardEffect g a p i d payload hide now).1.IsDev = g.IsDev :=
  hard_IsDev (replaceCardEffect_hard g a p i d payload hide now)

theorem redealEffect_IsDev (g : gameSession) (a : String) (p : gamePlayer) (i : Nat)
    (d : specialDefinition) (now : Int) :
    (redealEffect g a p i d now).1.IsDev = g.IsDev :=
  hard_IsDev (redealEffect_hard g a p i d now)

theorem stealBaggageEffect_IsDev (g : gameSession) (a : String) (p : gamePlayer) (i : Nat)
    (d : specialDefinition) (payload : GoMap AnyLeaf) (now : Int) :
    (stealBaggageEffect g a p i d payload now).1.IsDev = g.IsDev :=
  hard_IsDev (stealBaggageEffect_hard g a p i d payload now)

theorem startNextRoundOrEnd_IsDev (g : gameSession) (now : Int) :
    (startNextRoundOrEnd g now).1.IsDev = g.IsDev := by
  unfold startNextRoundOrEnd
  dsimp only [makeEvent, clearActiveTimer, removeFromVoting, markSpecialUsed, modifyCard,
    markVoteWasted]
  repeat' (first
    | with_reducible rfl
    | with_reducible refine ite_fst_IsDev _ _ _ _ ?_ ?_
    | with_reducible refine ite_IsDev _ _ _ _ ?_ ?_
    | with_reducible refine (finishGame_IsDev _ _ _).trans ?_
    | with_reducible refine (passTurnFrom_IsDev _ _).trans ?_
    | with_reducible refine (schedulePhaseTimer_IsDev _ _ _ _).trans ?_
    | with_reducible refine (scheduleRevealTimeoutIfNeeded_IsDev _ _).trans ?_
    | with_reducible refine (revealNextBunkerCard_IsDev _ _).trans ?_
    | with_reducible refine (startVoting_IsDev _ _).trans ?_
    | with_reducible refine (resetVotesForRevote_IsDev _ _).trans ?_
    | with_reducible refine (startTieBreakRevote_IsDev _ _ _).trans ?_
    | with_reducible refine (handleOnOwnerEliminated_IsDev _ _).trans ?_
    | with_reducible refine (handleSecretEliminationTriggers_IsDev _ _).trans ?_
    | with_reducible refine (replaceCardEffect_IsDev _ _ _ _ _ _ _ _).trans ?_
    | with_reducible refine (redealEffect_IsDev _ _ _ _ _ _).trans ?_
    | with_reducible refine (stealBaggageEffect_IsDev _ _ _ _ _ _ _).trans ?_
    | split)

theorem enterRevealDiscussion_IsDev (g : gameSession) (now : Int) :
    (enterRevealDiscussion g now).IsDev = g.IsDev := by
  unfold enterRevealDiscussion
  dsimp only [makeEvent, clearActiveTimer, removeFromVoting, markSpecialUsed, modifyCard,
    markVoteWasted]
  repeat' (first
    | with_reducible rfl
    | with_reducible refine ite_fst_IsDev _ _ _ _ ?_ ?_
    | with_reducible refine ite_IsDev _ _ _ _ ?_ ?_
    | with_reducible refine (finishGame_IsDev _ _ _).trans ?_
    | with_reducible refine (passTurnFrom_IsDev _ _).trans ?_
    | with_reducible refine (schedulePhaseTimer_IsDev _ _ _ _).trans ?_
    | with_reducible refine (scheduleRevealTimeoutIfNeeded_IsDev _ _).trans ?_
    | with_reducible refine (revealNextBunkerCard_IsDev _ _).trans ?_
    | with_reducible refine (startVoting_IsDev _ _).trans ?_
    | with_reducible refine (resetVotesForRevote_IsDev _ _).trans ?_
    | with_reducible refine (startTieBreakRevote_IsDev _ _ _).trans ?_
    | with_reducible refine (handleOnOwnerEliminated_IsDev _ _).trans ?_
    | with_reducible refine (handleSecretEliminationTriggers_IsDev _ _).trans ?_
    | with_reducible refine (replaceCardEffect_IsDev _ _ _ _ _ _ _ _).trans ?_
    | with_reducible refine (redealEffect_IsDev _ _ _ _ _ _).trans ?_
    | with_reducible refine (stealBaggageEffect_IsDev _ _ _ _ _ _ _).trans ?_
    | with_reducible refine (startNextRoundOrEnd_IsDev _ _).trans ?_
    | split)

theorem enterVoteSpecialWindow_IsDev (g : gameSession) (now : Int) :
    (enterVoteSpecialWindow g now).1.IsDev = g.IsDev := by
  unfold enterVoteSpecialWindow
  dsimp only [makeEvent, clearActiveTimer, removeFromVoting, markSpecialUsed, modifyCard,
    markVoteWasted]
  repeat' (first
    | with_reducible rfl
    | with_reducible refine ite_fst_IsDev _ _ _ _ ?_ ?_
    | with_reducible refine ite_IsDev _ _ _ _ ?_ ?_
    | with_reducible refine (finishGame_IsDev _ _ _).trans ?_
    | with_reducible refine (passTurnFrom_IsDev _ _).trans ?_
    | with_reducible refine (schedulePhaseTimer_IsDev _ _ _ _).trans ?_
    | with_reducible refine (scheduleRevealTimeoutIfNeeded_IsDev _ _).trans ?_
    | with_reducible refine (revealNextBunkerCard_IsDev _ _).trans ?_
    | with_reducible refine (startVoting_IsDev _ _).trans ?_
    | with_reducible refine (resetVotesForRevote_IsDev _ _).trans ?_
    | with_reducible refine (startTieBreakRevote_IsDev _ _ _).trans ?_
    | with_reducible refine (handleOnOwnerEliminated_IsDev _ _).trans ?_
    | with_reducible refine (handleSecretEliminationTriggers_IsDev _ _).trans ?_
    | with_reducible refine (replaceCardEffect_IsDev _ _ _ _ _ _ _ _).trans ?_
    | with_reducible refine (redealEffect_IsDev _ _ _ _ _ _).trans ?_
    | with_reducible refine (stealBaggageEffect_IsDev _ _ _ _ _ _ _).trans ?_
    | with_reducible refine (startNextRoundOrEnd_IsDev _ _).trans ?_
    | with_reducible refine (enterRevealDiscussion_IsDev _ _).trans ?_
    | split)

theorem vote_IsDev (g : gameSession) (a t : String) (now : Int) :
    (vote g a t now).1.IsDev = g.IsDev := by
  unfold vote
  dsimp only [makeEvent, clearActiveTimer, removeFromVoting, markSpecialUsed, modifyCard,
    markVoteWasted]
  repeat' (first
    | with_reducible rfl
    | with_reducible refine ite_fst_IsDev _ _ _ _ ?_ ?_
    | with_reducible refine ite_IsDev _ _ _ _ ?_ ?_
    | with_reducible refine (finishGame_IsDev _ _ _).trans ?_
    | with_reducible refine (passTurnFrom_IsDev _ _).trans ?_
    | with_reducible refine (schedulePhaseTimer_IsDev _ _ _ _).trans ?_
    | with_reducible refine (scheduleRevealTimeoutIfNeeded_IsDev _ _).trans ?_
    | with_reducible refine (revealNextBunkerCard_IsDev _ _).trans ?_
    | with_reducible refine (startVoting_IsDev _ _).trans ?_
    | with_reducible refine (resetVotesForRevote_IsDev _ _).trans ?_
    | with_reducible refine (startTieBreakRevote_IsDev _ _ _).trans ?_
    | with_reducible refine (handleOnOwnerEliminated_IsDev _ _).trans ?_
    | with_reducible refine (handleSecretEliminationTriggers_IsDev _ _).trans ?_
    | with_reducible refine (replaceCardEffect_IsDev _ _ _ _ _ _ _ _).trans ?_
    | with_reducible refine (redealEffect_IsDev _ _ _ _ _ _).trans ?_
    | with_reducible refine (stealBaggageEffect_IsDev _ _ _ _ _ _ _).trans ?_
    | with_reducible refine (startNextRoundOrEnd_IsDev _ _).trans ?_
    | with_reducible refine (enterRevealDiscussion_IsDev _ _).trans ?_
    | with_reducible refine (enterVoteSpecialWindow_IsDev _ _).trans ?_
    | split)

theorem applyElimination_IsDev (g : gameSession) (t : String) :
    (applyElimination g t).IsDev = g.IsDev := by
  unfold applyElimination
  dsimp only [makeEvent, clearActiveTimer, removeFromVoting, markSpecialUsed, modifyCard,
    markVoteWasted]
  repeat' (first
    | with_reducible rfl
    | with_reducible refine ite_fst_IsDev _ _ _ _ ?_ ?_
    | with_reducible refine ite_IsDev _ _ _ _ ?_ ?_
    | with_reducible refine (finishGame_IsDev _ _ _).trans ?_
    | with_reducible refine (passTurnFrom_IsDev _ _).trans ?_
    | with_reducible refine (schedulePhaseTimer_IsDev _ _ _ _).trans ?_
    | with_reducible refine (scheduleRevealTimeoutIfNeeded_IsDev _ _).trans ?_
    | with_reducible refine (revealNextBunkerCard_IsDev _ _).trans ?_
    | with_reducible refine (startVoting_IsDev _ _).trans ?_
    | with_reducible refine (resetVotesForRevote_IsDev _ _).trans ?_
    | with_reducible refine (startTieBreakRevote_IsDev _ _ _).trans ?_
    | with_reducible refine (handleOnOwnerEliminated_IsDev _ _).trans ?_
    | with_reducible refine (handleSecretEliminationTriggers_IsDev _ _).trans ?_
    | with_reducible refine (replaceCardEffect_IsDev _ _ _ _ _ _ _ _).trans ?_
    | with_reducible refine (redealEffect_IsDev _ _ _ _ _ _).trans ?_
    | with_reducible refine (stealBaggageEffect_IsDev _ _ _ _ _ _ _).trans ?_
    | with_reducible refine (startNextRoundOrEnd_IsDev _ _).trans ?_
    | with_reducible refine (enterRevealDiscussion_IsDev _ _).trans ?_
    | with_reducible refine (enterVoteSpecialWindow_IsDev _ _).trans ?_
    | with_reducible refine (vote_IsDev _ _ _ _).trans ?_
    | split)

theorem finalizeVoting_IsDev (g : gameSession) (a : String) (now : Int) :
    (finalizeVoting g a now).1.IsDev = g.IsDev := by
  unfold finalizeVoting
  dsimp only [makeEvent, clearActiveTimer, removeFromVoting, markSpecialUsed, modifyCard,
    markVoteWasted]
  repeat' (first
    | with_reducible rfl
    | with_reducible refine ite_fst_IsDev _ _ _ _ ?_ ?_
    | with_reducible refine ite_IsDev _ _ _ _ ?_ ?_
    | with_reducible refine (finishGame_IsDev _ _ _).trans ?_
    | with_reducible refine (passTurnFrom_IsDev _ _).trans ?_
    | with_reducible refine (schedulePhaseTimer_IsDev _ _ _ _).trans ?_
    | with_reducible refine (scheduleRevealTimeoutIfNeeded_IsDev _ _).trans ?_
    | with_reducible refine (revealNextBunkerCard_IsDev _ _).trans ?_
    | with_reducible refine (startVoting_IsDev _ _).trans ?_
    | with_reducible refine (resetVotesForRevote_IsDev _ _).trans ?_
    | with_reducible refine (startTieBreakRevote_IsDev _ _ _).trans ?_
    | with_reducible refine (handleOnOwnerEliminated_IsDev _ _).trans ?_
    | with_reducible refine (handleSecretEliminationTriggers_IsDev _ _).trans ?_
    | with_reducible refine (replaceCardEffect_IsDev _ _ _ _ _ _ _ _).trans ?_
    | with_reducible refine (redealEffect_IsDev _ _ _ _ _ _).trans ?_
    | with_reducible refine (stealBaggageEffect_IsDev _ _ _ _ _ _ _).trans ?_
    | with_reducible refine (startNextRoundOrEnd_IsDev _ _).trans ?_
    | with_reducible refine (enterRevealDiscussion_IsDev _ _).trans ?_
    | with_reducible refine (enterVoteSpecialWindow_IsDev _ _).trans ?_
    | with_reducible refine (vote_IsDev _ _ _ _).trans ?_
    | with_reducible refine (applyElimination_IsDev _ _).trans ?_
    | split)

theorem advanceAfterDiscussion_IsDev (g : gameSession) (now : Int) :
    (advanceAfterDiscussion g now).1.IsDev = g.IsDev := by
  unfold advanceAfterDiscussion
  dsimp only [makeEvent, clearActiveTimer, removeFromVoting, markSpecialUsed, modifyCard,
    markVoteWasted]
  repeat' (first
    | with_reducible rfl
    | with_reducible refine ite_fst_IsDev _ _ _ _ ?_ ?_
    | with_reducible refine ite_IsDev _ _ _ _ ?_ ?_
    | with_reducible refine (finishGame_IsDev _ _ _).trans ?_
    | with_reducible refine (passTurnFrom_IsDev _ _).trans ?_
    | with_reducible refine (schedulePhaseTimer_IsDev _ _ _ _).trans ?_
    | with_reducible refine (scheduleRevealTimeoutIfNeeded_IsDev _ _).trans ?_
    | with_reducible refine (revealNextBunkerCard_IsDev _ _).trans ?_
    | with_reducible refine (startVoting_IsDev _ _).trans ?_
    | with_reducible refine (resetVotesForRevote_IsDev _ _).trans ?_
    | with_reducible refine (startTieBreakRevote_IsDev _ _ _).trans ?_
    | with_reducible refine (handleOnOwnerEliminated_IsDev _ _).trans ?_
    | with_reducible refine (handleSecretEliminationTriggers_IsDev _ _).trans ?_
    | with_reducible refine (replaceCardEffect_IsDev _ _ _ _ _ _ _ _).trans ?_
    | with_reducible refine (redealEffect_IsDev _ _ _ _ _ _).trans ?_
    | with_reducible refine (stealBaggageEffect_IsDev _ _ _ _ _ _ _).trans ?_
    | with_reducible refine (startNextRoundOrEnd_IsDev _ _).trans ?_
    | with_reducible refine (enterRevealDiscussion_IsDev _ _).trans ?_
    | with_reducible refine (enterVoteSpecialWindow_IsDev _ _).trans ?_
    | with_reducible refine (vote_IsDev _ _ _ _).trans ?_
    | with_reducible refine (applyElimination_IsDev _ _).trans ?_
    | with_reducible refine (finalizeVoting_IsDev _ _ _).trans ?_
    | split)

theorem continueRound_IsDev (g : gameSession) (a : String) (now : Int) :
    (continueRound g a now).1.IsDev = g.IsDev := by
  unfold continueRound
  dsimp only [makeEvent, clearActiveTimer, removeFromVoting, markSpecialUsed, modifyCard,
    markVoteWasted]
  repeat' (first
    | with_reducible rfl
    | with_reducible refine ite_fst_IsDev _ _ _ _ ?_ ?_
    | with_reducible refine ite_IsDev _ _ _ _ ?_ ?_
    | with_reducible refine (finishGame_IsDev _ _ _).trans ?_
    | with_reducible refine (passTurnFrom_IsDev _ _).trans ?_
    | with_reducible refine (schedulePhaseTimer_IsDev _ _ _ _).trans ?_
    | with_reducible refine (scheduleRevealTimeoutIfNeeded_IsDev _ _).trans ?_
    | with_reducible refine (revealNextBunkerCard_IsDev _ _).trans ?_
    | with_reducible refine (startVoting_IsDev _ _).trans ?_
    | with_reducible refine (resetVotesForRevote_IsDev _ _).trans ?_
    | with_reducible refine (startTieBreakRevote_IsDev _ _ _).trans ?_
    | with_reducible refine (handleOnOwnerEliminated_IsDev _ _).trans ?_
    | with_reducible refine (handleSecretEliminationTriggers_IsDev _ _).trans ?_
    | with_reducible refine (replaceCardEffect_IsDev _ _ _ _ _ _ _ _).trans ?_
    | with_reducible refine (redealEffect_IsDev _ _ _ _ _ _).trans ?_
    | with_reducible refine (stealBaggageEffect_IsDev _ _ _ _ _ _ _).trans ?_
    | with_reducible refine (startNextRoundOrEnd_IsDev _ _).trans ?_
    | with_reducible refine (enterRevealDiscussion_IsDev _ _).trans ?_
    | with_reducible refine (enterVoteSpecialWindow_IsDev _ _).trans ?_
    | with_reducible refine (vote_IsDev _ _ _ _).trans ?_
    | with_reducible refine (applyElimination_IsDev _ _).trans ?_
    | with_reducible refine (finalizeVoting_IsDev _ _ _).trans ?_
    | with_reducible refine (advanceAfterDiscussion_IsDev _ _).trans ?_
    | split)

theorem kickPlayer_IsDev (g : gameSession) (t : String) (now : Int) :
    (kickPlayer g t now).1.IsDev = g.IsDev := by
  unfold kickPlayer
  dsimp only [makeEvent, clearActiveTimer, removeFromVoting, markSpecialUsed, modifyCard,
    markVoteWasted]
  repeat' (first
    | with_reducible rfl
    | with_reducible refine ite_fst_IsDev _ _ _ _ ?_ ?_
    | with_reducible refine ite_IsDev _ _ _ _ ?_ ?_
    | with_reducible refine (finishGame_IsDev _ _ _).trans ?_
    | with_reducible refine (passTurnFrom_IsDev _ _).trans ?_
    | with_reducible refine (schedulePhaseTimer_IsDev _ _ _ _).trans ?_
    | with_reducible refine (scheduleRevealTimeoutIfNeeded_IsDev _ _).trans ?_
    | with_reducible refine (revealNextBunkerCard_IsDev _ _).trans ?_
    | with_reducible refine (startVoting_IsDev _ _).trans ?_
    | with_reducible refine (resetVotesForRevote_IsDev _ _).trans ?_
    | with_reducible refine (startTieBreakRevote_IsDev _ _ _).trans ?_
    | with_reducible refine (handleOnOwnerEliminated_IsDev _ _).trans ?_
    | with_reducible refine (handleSecretEliminationTriggers_IsDev _ _).trans ?_
    | with_reducible refine (replaceCardEffect_IsDev _ _ _ _ _ _ _ _).trans ?_
    | with_reducible refine (redealEffect_IsDev _ _ _ _ _ _).trans ?_
    | with_reducible refine (stealBaggageEffect_IsDev _ _ _ _ _ _ _).trans ?_
    | with_reducible refine (startNextRoundOrEnd_IsDev _ _).trans ?_
    | with_reducible refine (enterRevealDiscussion_IsDev _ _).trans ?_
    | with_reducible refine (enterVoteSpecialWindow_IsDev _ _).trans ?_
    | with_reducible refine (vote_IsDev _ _ _ _).trans ?_
    | with_reducible refine (applyElimination_IsDev _ _).trans ?_
    | with_reducible refine (finalizeVoting_IsDev _ _ _).trans ?_
    | with_reducible refine (advanceAfterDiscussion_IsDev _ _).trans ?_
    | with_reducible refine (continueRound_IsDev _ _ _).trans ?_
    | split)

theorem markLeftBunker_IsDev (g : gameSession) (t : String) (now : Int) :
    (markLeftBunker g t now).1.IsDev = g.IsDev := by
  unfold markLeftBunker
  dsimp only [makeEvent, clearActiveTimer, removeFromVoting, markSpecialUsed, modifyCard,
    markVoteWasted]
  repeat' (first
    | with_reducible rfl
    | with_reducible refine ite_fst_IsDev _ _ _ _ ?_ ?_
    | with_reducible refine ite_IsDev _ _ _ _ ?_ ?_
    | with_reducible refine (finishGame_IsDev _ _ _).trans ?_
    | with_reducible refine (passTurnFrom_IsDev _ _).trans ?_
    | with_reducible refine (schedulePhaseTimer_IsDev _ _ _ _).trans ?_
    | with_reducible refine (scheduleRevealTimeoutIfNeeded_IsDev _ _).trans ?_
    | with_reducible refine (revealNextBunkerCard_IsDev _ _).trans ?_
    | with_reducible refine (startVoting_IsDev _ _).trans ?_
    | with_reducible refine (resetVotesForRevote_IsDev _ _).trans ?_
    | with_reducible refine (startTieBreakRevote_IsDev _ _ _).trans ?_
    | with_reducible refine (handleOnOwnerEliminated_IsDev _ _).trans ?_
    | with_reducible refine (handleSecretEliminationTriggers_IsDev _ _).trans ?_
    | with_reducible refine (replaceCardEffect_IsDev _ _ _ _ _ _ _ _).trans ?_
    | with_reducible refine (redealEffect_IsDev _ _ _ _ _ _).trans ?_
    | with_reducible refine (stealBaggageEffect_IsDev _ _ _ _ _ _ _).trans ?_
    | with_reducible refine (startNextRoundOrEnd_IsDev _ _).trans ?_
    | with_reducible refine (enterRevealDiscussion_IsDev _ _).trans ?_
    | with_reducible refine (enterVoteSpecialWindow_IsDev _ _).trans ?_
    | with_reducible refine (vote_IsDev _ _ _ _).trans ?_
    | with_reducible refine (applyElimination_IsDev _ _).trans ?_
    | with_reducible refine (finalizeVoting_IsDev _ _ _).trans ?_
    | with_reducible refine (advanceAfterDiscussion_IsDev _ _).trans ?_
    | with_reducible refine (continueRound_IsDev _ _ _).trans ?_
    | with_reducible refine (kickPlayer_IsDev _ _ _).trans ?_
    | split)

theorem revealCard_IsDev (g : gameSession) (a c : String) (now : Int) :
    (revealCard g a c now).1.IsDev = g.IsDev := by
  unfold revealCard
  dsimp only [makeEvent, clearActiveTimer, removeFromVoting, markSpecialUsed, modifyCard,
    markVoteWasted]
  repeat' (first
    | with_reducible rfl
    | with_reducible refine ite_fst_IsDev _ _ _ _ ?_ ?_
    | with_reducible refine ite_IsDev _ _ _ _ ?_ ?_
    | with_reducible refine (finishGame_IsDev _ _ _).trans ?_
    | with_reducible refine (passTurnFrom_IsDev _ _).trans ?_
    | with_reducible refine (schedulePhaseTimer_IsDev _ _ _ _).trans ?_
    | with_reducible refine (scheduleRevealTimeoutIfNeeded_IsDev _ _).trans ?_
    | with_reducible refine (revealNextBunkerCard_IsDev _ _).trans ?_
    | with_reducible refine (startVoting_IsDev _ _).trans ?_
    | with_reducible refine (resetVotesForRevote_IsDev _ _).trans ?_
    | with_reducible refine (startTieBreakRevote_IsDev _ _ _).trans ?_
    | with_reducible refine (handleOnOwnerEliminated_IsDev _ _).trans ?_
    | with_reducible refine (handleSecretEliminationTriggers_IsDev _ _).trans ?_
    | with_reducible refine (replaceCardEffect_IsDev _ _ _ _ _ _ _ _).trans ?_
    | with_reducible refine (redealEffect_IsDev _ _ _ _ _ _).trans ?_
    | with_reducible refine (stealBaggageEffect_IsDev _ _ _ _ _ _ _).trans ?_
    | with_reducible refine (startNextRoundOrEnd_IsDev _ _).trans ?_
    | with_reducible refine (enterRevealDiscussion_IsDev _ _).trans ?_
    | with_reducible refine (enterVoteSpecialWindow_IsDev _ _).trans ?_
    | with_reducible refine (vote_IsDev _ _ _ _).trans ?_
    | with_reducible refine (applyElimination_IsDev _ _).trans ?_
    | with_reducible refine (finalizeVoting_IsDev _ _ _).trans ?_
    | with_reducible refine (advanceAfterDiscussion_IsDev _ _).trans ?_
    | with_reducible refine (continueRound_IsDev _ _ _).trans ?_
    | with_reducible refine (kickPlayer_IsDev _ _ _).trans ?_
    | with_reducible refine (markLeftBunker_IsDev _ _ _).trans ?_
    | split)

theorem applySpecialEffect_IsDev (g : gameSession) (a : String) (p : gamePlayer) (i : Nat)
    (sp : specialConditionState) (payload : GoMap AnyLeaf) (now : Int) :
    (applySpecialEffect g a p i sp payload now).1.IsDev = g.IsDev := by
  unfold applySpecialEffect
  dsimp only [makeEvent, clearActiveTimer, removeFromVoting, markSpecialUsed, modifyCard,
    markVoteWasted]
  repeat' (first
    | with_reducible rfl
    | with_reducible refine ite_fst_IsDev _ _ _ _ ?_ ?_
    | with_reducible refine ite_IsDev _ _ _ _ ?_ ?_
    | with_reducible refine (finishGame_IsDev _ _ _).trans ?_
    | with_reducible refine (passTurnFrom_IsDev _ _).trans ?_
    | with_reducible refine (schedulePhaseTimer_IsDev _ _ _ _).trans ?_
    | with_reducible refine (scheduleRevealTimeoutIfNeeded_IsDev _ _).trans ?_
    | with_reducible refine (revealNextBunkerCard_IsDev _ _).trans ?_
    | with_reducible refine (startVoting_IsDev _ _).trans ?_
    | with_reducible refine (resetVotesForRevote_IsDev _ _).trans ?_
    | with_reducible refine (startTieBreakRevote_IsDev _ _ _).trans ?_
    | with_reducible refine (handleOnOwnerEliminated_IsDev _ _).trans ?_
    | with_reducible refine (handleSecretEliminationTriggers_IsDev _ _).trans ?_
    | with_reducible refine (replaceCardEffect_IsDev _ _ _ _ _ _ _ _).trans ?_
    | with_reducible refine (redealEffect_IsDev _ _ _ _ _ _).trans ?_
    | with_reducible refine (stealBaggageEffect_IsDev _ _ _ _ _ _ _).trans ?_
    | with_reducible refine (startNextRoundOrEnd_IsDev _ _).trans ?_
    | with_reducible refine (enterRevealDiscussion_IsDev _ _).trans ?_
    | with_reducible refine (enterVoteSpecialWindow_IsDev _ _).trans ?_
    | with_reducible refine (vote_IsDev _ _ _ _).trans ?_
    | with_reducible refine (applyElimination_IsDev _ _).trans ?_
    | with_reducible refine (finalizeVoting_IsDev _ _ _).trans ?_
    | with_reducible refine (advanceAfterDiscussion_IsDev _ _).trans ?_
    | with_reducible refine (continueRound_IsDev _ _ _).trans ?_
    | with_reducible refine (kickPlayer_IsDev _ _ _).trans ?_
    | with_reducible refine (markLeftBunker_IsDev _ _ _).trans ?_
    | with_reducible refine (revealCard_IsDev _ _ _ _).trans ?_
    | split)

theorem handleRevealPhaseTimeout_IsDev (g : gameSession) (now : Int) :
    (handleRevealPhaseTimeout g now).1.IsDev = g.IsDev := by
  unfold handleRevealPhaseTimeout
  dsimp only [makeEvent, clearActiveTimer, removeFromVoting, markSpecialUsed, modifyCard,
    markVoteWasted]
  repeat' (first
    | with_reducible rfl
    | with_reducible refine ite_fst_IsDev _ _ _ _ ?_ ?_
    | with_reducible refine ite_IsDev _ _ _ _ ?_ ?_
    | with_reducible refine (finishGame_IsDev _ _ _).trans ?_
    | with_reducible refine (passTurnFrom_IsDev _ _).trans ?_
    | with_reducible refine (schedulePhaseTimer_IsDev _ _ _ _).trans ?_
    | with_reducible refine (scheduleRevealTimeoutIfNeeded_IsDev _ _).trans ?_
    | with_reducible refine (revealNextBunkerCard_IsDev _ _).trans ?_
    | with_reducible refine (startVoting_IsDev _ _).trans ?_
    | with_reducible refine (resetVotesForRevote_IsDev _ _).trans ?_
    | with_reducible refine (startTieBreakRevote_IsDev _ _ _).trans ?_
    | with_reducible refine (handleOnOwnerEliminated_IsDev _ _).trans ?_
    | with_reducible refine (handleSecretEliminationTriggers_IsDev _ _).trans ?_
    | with_reducible refine (replaceCardEffect_IsDev _ _ _ _ _ _ _ _).trans ?_
    | with_reducible refine (redealEffect_IsDev _ _ _ _ _ _).trans ?_
    | with_reducible refine (stealBaggageEffect_IsDev _ _ _ _ _ _ _).trans ?_
    | with_reducible refine (startNextRoundOrEnd_IsDev _ _).trans ?_
    | with_reducible refine (enterRevealDiscussion_IsDev _ _).trans ?_
    | with_reducible refine (enterVoteSpecialWindow_IsDev _ _).trans ?_
    | with_reducible refine (vote_IsDev _ _ _ _).trans ?_
    | with_reducible refine (applyElimination_IsDev _ _).trans ?_
    | with_reducible refine (finalizeVoting_IsDev _ _ _).trans ?_
    | with_reducible refine (advanceAfterDiscussion_IsDev _ _).trans ?_
    | with_reducible refine (continueRound_IsDev _ _ _).trans ?_
    | with_reducible refine (kickPlayer_IsDev _ _ _).trans ?_
    | with_reducible refine (markLeftBunker_IsDev _ _ _).trans ?_
    | with_reducible refine (revealCard_IsDev _ _ _ _).trans ?_
    | with_reducible refine (applySpecialEffect_IsDev _ _ _ _ _ _ _).trans ?_
    | split)

theorem handleTimerExpired_IsDev (g : gameSession) (now : Int) :
    (handleTimerExpired g now).1.IsDev = g.IsDev := by
  unfold handleTimerExpired
  dsimp only [makeEvent, clearActiveTimer, removeFromVoting, markSpecialUsed, modifyCard,
    markVoteWasted]
  repeat' (first
    | with_reducible rfl
    | with_reducible refine ite_fst_IsDev _ _ _ _ ?_ ?_
    | with_reducible refine ite_IsDev _ _ _ _ ?_ ?_
    | with_reducible refine (finishGame_IsDev _ _ _).trans ?_
    | with_reducible refine (passTurnFrom_IsDev _ _).trans ?_
    | with_reducible refine (schedulePhaseTimer_IsDev _ _ _ _).trans ?_
    | with_reducible refine (scheduleRevealTimeoutIfNeeded_IsDev _ _).trans ?_
    | with_reducible refine (revealNextBunkerCard_IsDev _ _).trans ?_
    | with_reducible refine (startVoting_IsDev _ _).trans ?_
    | with_reducible refine (resetVotesForRevote_IsDev _ _).trans ?_
    | with_reducible refine (startTieBreakRevote_IsDev _ _ _).trans ?_
    | with_reducible refine (handleOnOwnerEliminated_IsDev _ _).trans ?_
    | with_reducible refine (handleSecretEliminationTriggers_IsDev _ _).trans ?_
    | with_reducible refine (replaceCardEffect_IsDev _ _ _ _ _ _ _ _).trans ?_
    | with_reducible refine (redealEffect_IsDev _ _ _ _ _ _).trans ?_
    | with_reducible refine (stealBaggageEffect_IsDev _ _ _ _ _ _ _).trans ?_
    | with_reducible refine (startNextRoundOrEnd_IsDev _ _).trans ?_
    | with_reducible refine (enterRevealDiscussion_IsDev _ _).trans ?_
    | with_reducible refine (enterVoteSpecialWindow_IsDev _ _).trans ?_
    | with_reducible refine (vote_IsDev _ _ _ _).trans ?_
    | with_reducible refine (applyElimination_IsDev _ _).trans ?_
    | with_reducible refine (finalizeVoting_IsDev _ _ _).trans ?_
    | with_reducible refine (advanceAfterDiscussion_IsDev _ _).trans ?_
    | with_reducible refine (continueRound_IsDev _ _ _).trans ?_
    | with_reducible refine (kickPlayer_IsDev _ _ _).trans ?_
    | with_reducible refine (markLeftBunker_IsDev _ _ _).trans ?_
    | with_reducible refine (revealCard_IsDev _ _ _ _).trans ?_
    | with_reducible refine (applySpecialEffect_IsDev _ _ _ _ _ _ _).trans ?_
    | with_reducible refine (handleRevealPhaseTimeout_IsDev _ _).trans ?_
    | split)

theorem applySpecial_IsDev (g : gameSession) (actorID sid : String)
    (payload : GoMap AnyLeaf) (now : Int) :
    (applySpecial g actorID sid payload now).1.IsDev = g.IsDev := by
  rcases applySpecial_shape g actorID sid payload now with h | ⟨player, sp, ep, _, _, h⟩
  · rw [h]
  · have hE := applySpecialEffect_IsDev g actorID player
      (player.Specials.findIdx (fun s => s.InstanceID = sid)) sp ep now
    generalize applySpecialEffect g actorID player
      (player.Specials.findIdx (fun s => s.InstanceID = sid)) sp ep now = E at h hE
    rcases h with h | ⟨c, h⟩ | ⟨c, h⟩
    · rw [h]
      exact hE
    · rw [h]
      exact hE
    · rw [h]
      exact hE

theorem devAddPlayer_nondev (g : gameSession) (name : String) (now : Int)
    (h : g.IsDev = false) : (devAddPlayer g name now).1 = g := by
  unfold devAddPlayer
  rw [if_pos (by rw [h]; rfl)]

theorem devRemovePlayer_nondev (g : gameSession) (targetID : String) (now : Int)
    (h : g.IsDev = false) : (devRemovePlayer g targetID now).1 = g := by
  unfold devRemovePlayer
  rw [if_pos (by rw [h]; rfl)]

/-- An action of a session that is not a dev session leaves it so. -/
theorem handleAction_IsDev (g : gameSession) (actorID actionType : String)
    (payload : GoMap AnyVal) (now : Int) (h : g.IsDev = false) :
    (handleAction g actorID actionType payload now).1.IsDev = false := by
  refine Eq.trans ?_ h
  unfold handleAction
  split
  · rfl
  · split
    · exact revealCard_IsDev _ _ _ _
    · exact continueRound_IsDev _ _ _
    · exact vote_IsDev _ _ _ _
    · exact finalizeVoting_IsDev _ _ _
    · exact applySpecial_IsDev _ _ _ _ _
    · exact revealWorldThreat_IsDev _ _ _
    · exact setBunkerOutcome_IsDev _ _ _ _
    · exact startNextRoundOrEnd_IsDev _ _
    · exact kickPlayer_IsDev _ _ _
    · rw [devAddPlayer_nondev _ _ _ h]
    · rw [devRemovePlayer_nondev _ _ _ h]
    · exact markLeftBunker_IsDev _ _ _
    · rfl

/-- In a session that is not a dev session an action keeps the stored players in their
places. -/
theorem handleAction_players_nondev {R : gamePlayer → gamePlayer → Prop} (hR : PlayerFrame R)
    (g : gameSession) (actorID actionType : String) (payload : GoMap AnyVal) (now : Int)
    (h : g.IsDev = false) :
    PStep R g.Players (handleAction g actorID actionType payload now).1.Players := by
  unfold handleAction
  split
  · exact PStep_refl hR _
  · split
    · exact revealCard_players hR _ _ _ _ (PStep_refl hR _)
    · exact continueRound_players hR _ _ _ (PStep_refl hR _)
    · exact PStep_of_eq hR (vote_Players _ _ _ _)
    · exact finalizeVoting_players hR _ _ _ (PStep_refl hR _)
    · exact applySpecial_players hR _ _ _ _ _ (PStep_refl hR _)
    · exact PStep_of_eq hR (revealWorldThreat_Players _ _ _)
    · exact PStep_of_eq hR (setBunkerOutcome_Players _ _ _ _)
    · exact PStep_of_eq hR (startNextRoundOrEnd_Players _ _)
    · exact kickPlayer_players hR _ _ _ (PStep_refl hR _)
    · rw [devAddPlayer_nondev _ _ _ h]
      exact PStep_refl hR _
    · rw [devRemovePlayer_nondev _ _ _ h]
      exact PStep_refl hR _
    · exact markLeftBunker_players hR _ _ _ (PStep_refl hR _)
    · exact PStep_refl hR _

/-- The relation that holds between any two records of a player. -/
theorem anyPlayers_frame : PlayerFrame (fun _ _ => True) where
  refl := fun _ => trivial
  trans := fun _ _ _ _ _ => trivial
  hand := fun _ _ => trivial
  specials := fun _ _ => trivial
  flag := fun _ _ => trivial
  exit := fun _ _ _ => trivial
  ban := fun _ _ => trivial

/-- Stored players that stay in their places have the same keys. -/
theorem PStep_keys {R : gamePlayer → gamePlayer → Prop} {ps ps2 : GoMap gamePlayer}
    (h : PStep R ps ps2) : ps2.map Prod.fst = ps.map Prod.fst := by
  unfold PStep at h
  induction h with
  | nil => rfl
  | cons hab _ ih =>
    rw [List.map_cons, List.map_cons, ih, hab.1]



/-! ## Claim C38: the exiles are the players who are not alive -/

theorem mapKeys_cons {V : Type} (k : String) (v : V) (t : GoMap V) :
    mapKeys ((k, v) :: t) = k :: (mapKeys t).filter (fun x => decide (x ≠ k)) := by
  show k :: ((mapEntries t).filter (fun e => decide (e.1 ≠ k))).map Prod.fst =
    k :: ((mapEntries t).map Prod.fst).filter (fun x => decide (x ≠ k))
  rw [List.filter_map]
  rfl

/-- The keys that a loop over a map visits depend on the stored keys only. -/
theorem mapKeys_congr {V W : Type} (m : GoMap V) (m2 : GoMap W)
    (h : m2.map Prod.fst = m.map Prod.fst) : mapKeys m2 = mapKeys m := by
  induction m generalizing m2 with
  | nil =>
    cases m2 with
    | nil => rfl
    | cons e t => exact absurd h (by simp)
  | cons e t ih =>
    cases m2 with
    | nil => exact absurd h (by simp)
    | cons e2 t2 =>
      obtain ⟨k, v⟩ := e
      obtain ⟨k2, v2⟩ := e2
      rw [List.map_cons, List.map_cons, List.cons.injEq] at h
      obtain ⟨hk, ht⟩ := h
      dsimp only at hk
      subst hk
      rw [mapKeys_cons, mapKeys_cons, ih t2 ht]

theorem playerStatuses_keys (ps : GoMap gamePlayer) :
    (playerStatuses ps).map Prod.fst = ps.map Prod.fst := by
  unfold playerStatuses
  rw [List.map_map]
  rfl

theorem mapModify_keys {V : Type} (m : GoMap V) (k : String) (f : V → V) :
    (mapModify m k f).map Prod.fst = m.map Prod.fst := by
  induction m with
  | nil => rfl
  | cons e t ih =>
    obtain ⟨a, v⟩ := e
    unfold mapModify
    split
    · rfl
    · rw [List.map_cons, List.map_cons, ih]

/-- The count of the words of the specification is the count on the status table. -/
theorem notAliveCount_eq (g : gameSession) :
    notAliveCount g = notAliveIn (playerStatuses g.Players) := by
  unfold notAliveCount notAliveIn
  rw [mapKeys_congr g.Players (playerStatuses g.Players) (playerStatuses_keys g.Players)]
  congr 1
  refine List.filter_congr ?_
  intro id _
  have h := playerIsAlive_status g id
  change playerIsAlive g id = true ↔ mapGet? (playerStatuses g.Players) id = some playerAlive at h
  by_cases ha : mapGet? (playerStatuses g.Players) id = some playerAlive
  · rw [h.2 ha]
    simp [ha]
  · have hf : playerIsAlive g id = false := by
      cases hx : playerIsAlive g id with
      | false => rfl
      | true => exact absurd (h.1 hx) ha
    rw [hf]
    simp [ha]

/-- One more element of a list without duplicates passes the filter. -/
theorem filter_one_more {α : Type} [DecidableEq α] (l : List α) (p q : α → Bool) (t : α)
    (hnd : l.Nodup) (ht : t ∈ l) (hp : p t = false) (hq : q t = true)
    (h : ∀ x, x ≠ t → q x = p x) : (l.filter q).length = (l.filter p).length + 1 := by
  induction l with
  | nil => exact absurd ht (List.not_mem_nil _)
  | cons a r ih =>
    rw [List.nodup_cons] at hnd
    by_cases hat : a = t
    · subst hat
      have hsame : r.filter q = r.filter p := by
        refine List.filter_congr ?_
        intro x hx
        exact h x (fun hc => hnd.1 (hc ▸ hx))
      rw [List.filter_cons, List.filter_cons, hp, hq, hsame]
      simp
    · have htr : t ∈ r := by
        rcases List.mem_cons.1 ht with h1 | h1
        · exact absurd h1.symm hat
        · exact h1
      have ih2 := ih hnd.2 htr
      rw [List.filter_cons, List.filter_cons, h a hat]
      cases p a
      · simpa using ih2
      · simp [ih2]

/-- The count after an alive player has got another status. -/
theorem notAliveIn_exit (st : GoMap String) (t s : String)
    (ht : mapGet? st t = some playerAlive) (hs : s ≠ playerAlive) :
    notAliveIn (mapModify st t (fun _ => s)) = notAliveIn st + 1 := by
  unfold notAliveIn
  rw [mapKeys_congr st (mapModify st t (fun _ => s)) (mapModify_keys st t _)]
  refine filter_one_more (mapKeys st) _ _ t (mapEntries_keys_nodup st) ?_ ?_ ?_ ?_
  · rw [mem_mapKeys]
    unfold mapHas
    rw [ht]
    rfl
  · simp [ht]
  · rw [mapGet?_mapModify, if_pos rfl, ht]
    simp [hs]
  · intro x hx
    rw [mapGet?_mapModify, if_neg (fun hc => hx hc.symm)]

/-- The count after a player who is not alive has got the status `left_bunker`. -/
theorem notAliveIn_relabel (st : GoMap String) (t : String)
    (ht : mapGet? st t ≠ some playerAlive) :
    notAliveIn (mapModify st t (fun _ => playerLeftBunker)) = notAliveIn st := by
  unfold notAliveIn
  rw [mapKeys_congr st (mapModify st t (fun _ => playerLeftBunker)) (mapModify_keys st t _)]
  congr 1
  refine List.filter_congr ?_
  intro x _
  rw [mapGet?_mapModify]
  by_cases hx : t = x
  · subst hx
    rw [if_pos rfl]
    cases hm : mapGet? st t with
    | none => rfl
    | some v =>
      rw [hm] at ht
      have h1 : decide (some v ≠ some playerAlive) = true := decide_eq_true ht
      rw [h1]
      rfl
  · rw [if_neg hx]

/-- What one step of the session that keeps the stored keys does to the exiles and to the
players who are not alive: the difference stays. -/
theorem PollStep_balance (r r2 : pollView) (h : PollStep r r2)
    (hk : r2.statuses.map Prod.fst = r.statuses.map Prod.fst) :
    r2.TotalExiles - (notAliveIn r2.statuses : Int) =
      r.TotalExiles - (notAliveIn r.statuses : Int) := by
  cases h with
  | still ho hs hr hv he hc => rw [hs, he]
  | advance ho hs hr hv he hc => rw [hs, he]
  | exit t s halive hs ho hst hr hv he hc =>
    have hne : s ≠ playerAlive := by
      rcases hs with hs | hs <;> rw [hs] <;> decide
    rw [hst, he, notAliveIn_exit _ t s halive hne]
    push_cast
    omega
  | relabel t hdead ho hst hr hv he hc =>
    rw [hst, he, notAliveIn_relabel _ t hdead]
  | added id hfree hid ho hst hr hv he hc =>
    exfalso
    rw [hst] at hk
    have := congrArg List.length hk
    simp at this
  | removed id ho hst hr hv he hc =>
    have hself : mapDel r.statuses id = r.statuses := by
      unfold mapDel
      rw [List.filter_eq_self, ← List.filter_length_eq_length]
      have := congrArg List.length hk
      rw [hst] at this
      unfold mapDel at this
      simpa using this
    rw [hst, he, hself]

/-- A step between two sessions that keeps the stored players in their places keeps the
difference between the exiles and the players who are not alive. -/
theorem session_balance (g g2 : gameSession) (hstep : PollStep (poll g) (poll g2))
    (hkeys : PStep (fun _ _ => True) g.Players g2.Players) :
    g2.TotalExiles - (notAliveCount g2 : Int) = g.TotalExiles - (notAliveCount g : Int) := by
  rw [notAliveCount_eq, notAliveCount_eq]
  refine PollStep_balance (poll g) (poll g2) hstep ?_
  show (playerStatuses g2.Players).map Prod.fst = (playerStatuses g.Players).map Prod.fst
  rw [playerStatuses_keys, playerStatuses_keys]
  exact PStep_keys hkeys

theorem hard_TotalExiles {g g2 : gameSession} (h : hard g2 = hard g) :
    g2.TotalExiles = g.TotalExiles := congrArg hardView.TotalExiles h

/-- The roster loop of `newGameSession` stores alive players only and counts no exile. -/
theorem addRosterPlayer_alive (b : Bool) (g : gameSession) (rp : player)
    (h : (∀ k p, mapGet? g.Players k = some p → p.Status = playerAlive) ∧
      g.TotalExiles = 0 ∧ g.IsDev = b) :
    (∀ k p, mapGet? (addRosterPlayer g rp).Players k = some p → p.Status = playerAlive) ∧
      (addRosterPlayer g rp).TotalExiles = 0 ∧ (addRosterPlayer g rp).IsDev = b := by
  unfold addRosterPlayer
  dsimp only
  refine ⟨?_, ?_, ?_⟩
  · intro k p hp
    rw [mapGet?_mapSet, drawInitialHandForPlayer_Players] at hp
    by_cases hk : rp.ID = k
    · rw [if_pos hk] at hp
      rw [← Option.some.inj hp]
    · rw [if_neg hk] at hp
      exact h.1 k p hp
  · show (drawInitialHandForPlayer g rp.ID).1.TotalExiles = 0
    rw [hard_TotalExiles (drawInitialHandForPlayer_hard g rp.ID)]
    exact h.2.1
  · show (drawInitialHandForPlayer g rp.ID).1.IsDev = b
    rw [hard_IsDev (drawInitialHandForPlayer_hard g rp.ID)]
    exact h.2.2

theorem assignInitialSpecials_alive (b : Bool) (g : gameSession)
    (h : (∀ k p, mapGet? g.Players k = some p → p.Status = playerAlive) ∧
      g.TotalExiles = 0 ∧ g.IsDev = b) :
    (∀ k p, mapGet? (assignInitialSpecials g).Players k = some p → p.Status = playerAlive) ∧
      (assignInitialSpecials g).TotalExiles = 0 ∧ (assignInitialSpecials g).IsDev = b := by
  unfold assignInitialSpecials
  split
  · exact h
  · rename_i hlen
    clear hlen
    dsimp only
    generalize buildSpecialAssetLookup g = L
    generalize g.Order = order
    induction order generalizing g with
    | nil => exact h
    | cons a t ih =>
      rw [List.foldl_cons]
      refine ih _ ?_
      split
      · exact h
      · dsimp only
        refine ⟨?_, ?_, ?_⟩
        · intro k p hp
          rw [mapGet?_mapModify, assignInitialSpecialsForPlayer_Players] at hp
          by_cases hk : a = k
          · rw [if_pos hk] at hp
            cases hq : mapGet? g.Players k with
            | none =>
              rw [hq] at hp
              exact Option.noConfusion hp
            | some q =>
              rw [hq] at hp
              rw [← Option.some.inj hp]
              exact h.1 k q hq
          · rw [if_neg hk] at hp
            exact h.1 k p hp
        · show (assignInitialSpecialsForPlayer g a L).1.TotalExiles = 0
          rw [hard_TotalExiles (assignInitialSpecialsForPlayer_hard g a L)]
          exact h.2.1
        · show (assignInitialSpecialsForPlayer g a L).1.IsDev = b
          rw [hard_IsDev (assignInitialSpecialsForPlayer_hard g a L)]
          exact h.2.2

/-- The session that `newGameSession` creates has no exile, stores alive players only, and
is a dev session exactly in the scenario `dev_test`. -/
theorem newGameSession_start (roomCode hostID scenarioID : String) (settings : gameSettings)
    (ruleset : gameRuleset) (roomPlayers : List player) (assets : GoMap (List assetCard))
    (specialDefinitions : List specialDefinition) (rng : List Nat) (now : Int) :
    (newGameSession roomCode hostID scenarioID settings ruleset roomPlayers assets
        specialDefinitions rng now).TotalExiles = 0 ∧
      notAliveCount (newGameSession roomCode hostID scenarioID settings ruleset roomPlayers
        assets specialDefinitions rng now) = 0 ∧
      (newGameSession roomCode hostID scenarioID settings ruleset roomPlayers assets
        specialDefinitions rng now).IsDev = decide (scenarioID = scenarioDevTest) := by
  unfold newGameSession
  dsimp only
  generalize hS : assignInitialSpecials _ = S
  have hfacts : (∀ k p, mapGet? S.Players k = some p → p.Status = playerAlive) ∧
      S.TotalExiles = 0 ∧ S.IsDev = decide (scenarioID = scenarioDevTest) := by
    rw [← hS]
    refine assignInitialSpecials_alive _ _ ?_
    refine foldl_holds addRosterPlayer
      (fun s : gameSession => (∀ k p, mapGet? s.Players k = some p →
        p.Status = playerAlive) ∧ s.TotalExiles = 0 ∧
        s.IsDev = decide (scenarioID = scenarioDevTest)) _ ?_ _ ⟨?_, rfl, rfl⟩
    · intro s a _ hs
      exact addRosterPlayer_alive _ s a hs
    · intro k p hp
      exact Option.noConfusion hp
  obtain ⟨hal, hex, hdev⟩ := hfacts
  refine ⟨?_, ?_, ?_⟩
  · refine (congrArg pollView.TotalExiles (scheduleRevealTimeoutIfNeeded_poll _ _)).trans ?_
    refine Eq.trans (show _ = (poll (revealNextBunkerCard _ _)).TotalExiles from rfl) ?_
    rw [revealNextBunkerCard_poll]
    exact hex
  · rw [notAliveCount_eq]
    refine Eq.trans (show _ = notAliveIn (poll (scheduleRevealTimeoutIfNeeded _ _)).statuses
      from rfl) ?_
    rw [scheduleRevealTimeoutIfNeeded_poll]
    refine Eq.trans (show _ = notAliveIn (poll (revealNextBunkerCard _ _)).statuses
      from rfl) ?_
    rw [revealNextBunkerCard_poll]
    show notAliveIn (playerStatuses S.Players) = 0
    unfold notAliveIn
    rw [List.length_eq_zero, List.filter_eq_nil_iff]
    intro id hid hc
    rw [mem_mapKeys] at hid
    unfold mapHas at hid
    rw [mapGet?_playerStatuses] at hid hc
    cases hq : mapGet? S.Players id with
    | none =>
      rw [hq] at hid
      exact absurd hid (by decide)
    | some q =>
      rw [hq] at hc
      have := hal id q hq
      simp [this] at hc
  · rw [scheduleRevealTimeoutIfNeeded_IsDev]
    refine Eq.trans (show _ = (revealNextBunkerCard _ _).IsDev from rfl) ?_
    rw [revealNextBunkerCard_IsDev]
    exact hdev

/-- In every state that a session which is not a dev session reaches, the exiles are the
players who are not alive. -/
theorem reachable_balance (g0 g : gameSession) (h : ReachableFrom g0 g)
    (hdev : g0.IsDev = false) (h0 : g0.TotalExiles = (notAliveCount g0 : Int)) :
    g.IsDev = false ∧ g.TotalExiles = (notAliveCount g : Int) := by
  induction h with
  | start => exact ⟨hdev, h0⟩
  | action g a t payload now _ ih =>
    refine ⟨handleAction_IsDev g a t payload now ih.1, ?_⟩
    have hb := session_balance g _ (handleAction_step g a t payload now)
      (handleAction_players_nondev anyPlayers_frame g a t payload now ih.1)
    have := ih.2
    omega
  | timer g now _ ih =>
    refine ⟨(handleTimerExpired_IsDev g now).trans ih.1, ?_⟩
    have hb := session_balance g _ (handleTimerExpired_step g now)
      (handleTimerExpired_players anyPlayers_frame g now (PStep_refl anyPlayers_frame _))
    have := ih.2
    omega

/-- A step that gives an alive player another status counts one more exile and one more
player who is not alive. -/
theorem exit_counts (g g2 : gameSession) (t s : String) (player : gamePlayer)
    (hstep : PollStep (poll g) (poll g2))
    (hkeys : PStep (fun _ _ => True) g.Players g2.Players)
    (hp : mapGet? g.Players t = some player) (ha : player.Status = playerAlive)
    (hs : s ≠ playerAlive)
    (hst : playerStatuses g2.Players = mapModify (playerStatuses g.Players) t (fun _ => s)) :
    g2.TotalExiles = g.TotalExiles + 1 ∧ notAliveCount g2 = notAliveCount g + 1 := by
  have halive : mapGet? (playerStatuses g.Players) t = some playerAlive := by
    rw [status_of_player g t player hp, ha]
  have hcount : notAliveCount g2 = notAliveCount g + 1 := by
    rw [notAliveCount_eq, notAliveCount_eq, hst]
    exact notAliveIn_exit _ t s halive hs
  have hb := session_balance g g2 hstep hkeys
  refine ⟨?_, hcount⟩
  rw [hcount] at hb
  push_cast at hb
  omega

/-- A step that marks a player who is not alive as having left the bunker counts no exile
and no further player who is not alive. -/
theorem relabel_counts (g g2 : gameSession) (t : String) (player : gamePlayer)
    (hstep : PollStep (poll g) (poll g2))
    (hkeys : PStep (fun _ _ => True) g.Players g2.Players)
    (hp : mapGet? g.Players t = some player) (ha : player.Status ≠ playerAlive)
    (hst : playerStatuses g2.Players =
      mapModify (playerStatuses g.Players) t (fun _ => playerLeftBunker)) :
    g2.TotalExiles = g.TotalExiles ∧ notAliveCount g2 = notAliveCount g := by
  have hdead : mapGet? (playerStatuses g.Players) t ≠ some playerAlive := by
    rw [status_of_player g t player hp]
    exact fun hc => ha (Option.some.inj hc)
  have hcount : notAliveCount g2 = notAliveCount g := by
    rw [notAliveCount_eq, notAliveCount_eq, hst]
    exact notAliveIn_relabel _ t hdead
  have hb := session_balance g g2 hstep hkeys
  refine ⟨?_, hcount⟩
  rw [hcount] at hb
  omega

/-- The function `markLeftBunker` turns away a call for a player who has left already. -/
theorem markLeftBunker_gone (g : gameSession) (targetID : String) (now : Int)
    (player : gamePlayer) (hp : mapGet? g.Players (trimSpace targetID) = some player)
    (hs : player.Status = playerLeftBunker) : (markLeftBunker g targetID now).1 = g := by
  unfold markLeftBunker
  dsimp only
  split
  · rfl
  · rw [hp]
    dsimp only
    rw [if_pos hs]

/-- Claim C38.  In every state that a session which is not a dev session reaches from
`newGameSession` by actions and timer expiries, `TotalExiles` is the number of stored
players whose status is not `alive`.  `applyElimination` and `kickPlayer` of an alive
player and `markLeftBunker` of an alive player add exactly one to both; `markLeftBunker` of
a player who is not alive changes neither. -/
theorem exiles_are_not_alive (roomCode hostID scenarioID : String) (settings : gameSettings)
    (ruleset : gameRuleset) (roomPlayers : List player) (assets : GoMap (List assetCard))
    (specialDefinitions : List specialDefinition) (rng : List Nat) (now0 : Int)
    (g : gameSession) (hnd : scenarioID ≠ scenarioDevTest)
    (hreach : ReachableFrom (newGameSession roomCode hostID scenarioID settings ruleset
      roomPlayers assets specialDefinitions rng now0) g) :
    g.IsDev = false ∧
    g.TotalExiles = (notAliveCount g : Int) ∧
    (∀ (t : String) (p : gamePlayer), mapGet? g.Players t = some p → p.Status = playerAlive →
      (applyElimination g t).TotalExiles = g.TotalExiles + 1 ∧
      notAliveCount (applyElimination g t) = notAliveCount g + 1) ∧
    (∀ (t : String) (now : Int) (p : gamePlayer),
      mapGet? g.Players t = some p → p.Status = playerAlive →
      (kickPlayer g t now).1.TotalExiles = g.TotalExiles + 1 ∧
      notAliveCount (kickPlayer g t now).1 = notAliveCount g + 1) ∧
    (∀ (targetID : String) (now : Int) (p : gamePlayer), trimSpace targetID ≠ "" →
      mapGet? g.Players (trimSpace targetID) = some p → p.Status = playerAlive →
      (markLeftBunker g targetID now).1.TotalExiles = g.TotalExiles + 1 ∧
      notAliveCount (markLeftBunker g targetID now).1 = notAliveCount g + 1) ∧
    (∀ (targetID : String) (now : Int) (p : gamePlayer),
      mapGet? g.Players (trimSpace targetID) = some p → p.Status ≠ playerAlive →
      (markLeftBunker g targetID now).1.TotalExiles = g.TotalExiles ∧
      notAliveCount (markLeftBunker g targetID now).1 = notAliveCount g) := by
  obtain ⟨h1, h2, h3⟩ := newGameSession_start roomCode hostID scenarioID settings ruleset
    roomPlayers assets specialDefinitions rng now0
  have hdev0 : (newGameSession roomCode hostID scenarioID settings ruleset roomPlayers assets
      specialDefinitions rng now0).IsDev = false := by
    rw [h3]
    exact decide_eq_false hnd
  have hinv := reachable_balance _ g hreach hdev0 (by rw [h1, h2]; rfl)
  refine ⟨hinv.1, hinv.2, ?_, ?_, ?_, ?_⟩
  · intro t p hp ha
    refine exit_counts g _ t playerEliminated p (applyElimination_step g t)
      (applyElimination_players anyPlayers_frame g t (PStep_refl anyPlayers_frame _)) hp ha
      (by decide) ?_
    rcases applyElimination_poll g t with ⟨h, _⟩ | ⟨_, h⟩
    · exfalso
      apply h
      show mapGet? (playerStatuses g.Players) t = some playerAlive
      rw [status_of_player g t p hp, ha]
    · exact congrArg pollView.statuses h
  · intro t now p hp ha
    exact exit_counts g _ t playerEliminated p (kickPlayer_step g t now)
      (kickPlayer_players anyPlayers_frame g t now (PStep_refl anyPlayers_frame _)) hp ha
      (by decide) (kickPlayer_statuses g t now p hp ha)
  · intro targetID now p hne hp ha
    exact exit_counts g _ (trimSpace targetID) playerLeftBunker p
      (markLeftBunker_step g targetID now)
      (markLeftBunker_players anyPlayers_frame g targetID now (PStep_refl anyPlayers_frame _))
      hp ha (by decide)
      (markLeftBunker_statuses g targetID now p hne hp
        (fun hc => absurd (ha.symm.trans hc) (by decide)))
  · intro targetID now p hp ha
    by_cases hgone : p.Status = playerLeftBunker
    · rw [markLeftBunker_gone g targetID now p hp hgone]
      exact ⟨rfl, rfl⟩
    · by_cases hne : trimSpace targetID = ""
      · have hsame : (markLeftBunker g targetID now).1 = g := by
          unfold markLeftBunker
          dsimp only
          rw [if_pos hne]
        rw [hsame]
        exact ⟨rfl, rfl⟩
      · exact relabel_counts g _ (trimSpace targetID) p (markLeftBunker_step g targetID now)
          (markLeftBunker_players anyPlayers_frame g targetID now
            (PStep_refl anyPlayers_frame _))
          hp ha (markLeftBunker_statuses g targetID now p hne hp hgone)

set_option maxRecDepth 100000 in
/-- Claim C38, witness: the session of four players in the scenario `classic`, after `p4`
and then `p3` have left the bunker: two exiles, two players who are not alive.  Marking `p3`
once more changes nothing; the elimination of the alive `p2` makes it three. -/
theorem exiles_are_not_alive_witness :
    ReachableFrom exampleQuotaStart exampleQuotaTwo ∧
    exampleQuotaTwo.TotalExiles = 2 ∧ notAliveCount exampleQuotaTwo = 2 ∧
    exampleQuotaTwo.TotalExiles = (notAliveCount exampleQuotaTwo : Int) ∧
    ((applyElimination exampleQuotaTwo "p2").TotalExiles = exampleQuotaTwo.TotalExiles + 1 ∧
      notAliveCount (applyElimination exampleQuotaTwo "p2") =
        notAliveCount exampleQuotaTwo + 1) ∧
    (applyElimination exampleQuotaTwo "p2").TotalExiles = 3 ∧
    (markLeftBunker exampleQuotaTwo "p3" 3).1.TotalExiles = 2 :=
  ⟨ReachableFrom.action exampleQuotaOne "p1" "markLeftBunker" (targetPayload "p3") 2
      (ReachableFrom.action exampleQuotaStart "p1" "markLeftBunker" (targetPayload "p4") 1
        ReachableFrom.start),
    by decide, by decide,
    (exiles_are_not_alive "ROOM" "p1" "classic" exampleSettings exampleQuotaRuleset
      [{ ID := "p1", Name := "A" }, { ID := "p2", Name := "B" }, { ID := "p3", Name := "C" },
       { ID := "p4", Name := "D" }] [] [] [] 0 exampleQuotaTwo (by decide)
      (ReachableFrom.action exampleQuotaOne "p1" "markLeftBunker" (targetPayload "p3") 2
        (ReachableFrom.action exampleQuotaStart "p1" "markLeftBunker" (targetPayload "p4") 1
          ReachableFrom.start))).2.1,
    by decide, by decide, by decide⟩



/-! ## Claim C39: the resolution of a category -/

set_option maxRecDepth 100000 in
/-- Claim C39, the divergence of the code.  The input "Факты", the deck name of the keys
`facts`, `facts1` and `facts2`, is no key of `categoryKeyToLabel`; `resolveCategoryKey` can
match it with `facts`, whose label is "Факт №1", and with `facts2`, whose label is
"Факт №2".  The loop over the table returns the first match: `facts` when the table is
scanned in the order in which it is written, `facts2` when the same entries are scanned in
the opposite order. -/
theorem category_resolution_depends_on_order :
    mapHas categoryKeyToLabel (trimSpace "Факты") = false ∧
    categoryKeyMatches "Факты" "facts" = true ∧
    categoryKeyMatches "Факты" "facts2" = true ∧
    mapGetS categoryKeyToLabel "facts" = "Факт №1" ∧
    mapGetS categoryKeyToLabel "facts2" = "Факт №2" ∧
    resolveCategoryKey "Факты" = "facts" ∧
    resolveCategoryKeyIn (normalizeSpecialKey (trimSpace "Факты")) categoryKeyToLabel =
      "facts" ∧
    categoryKeyToLabel.reverse.Perm categoryKeyToLabel ∧
    resolveCategoryKeyIn (normalizeSpecialKey (trimSpace "Факты"))
      categoryKeyToLabel.reverse = "facts2" :=
  ⟨by decide, by decide, by decide, by decide, by decide, by decide, by decide,
    List.reverse_perm _, by decide⟩



/-! ## Claim C40: the preset rulesets -/

/-- Claim C40.  For every player count `n` from 4 to 16 the preset ruleset that
`getRulesetForPlayerCount` returns is for `n` players, the sum of `VotesPerRnd` is
`TotalExiles`, and `TotalExiles` is `n - BunkerSeats`; for four players it has the votes
`[0, 0, 0, 1, 1]`, two exiles and two seats.  For a count below 4 the result is the preset
of 4, for a count above 16 the preset of 16. -/
theorem preset_rulesets_consistent (n : Int) :
    (4 ≤ n → n ≤ 16 →
      (getRulesetForPlayerCount n).PlayerCount = n ∧
      (getRulesetForPlayerCount n).VotesPerRnd.sum = (getRulesetForPlayerCount n).TotalExiles ∧
      (getRulesetForPlayerCount n).TotalExiles =
        n - (getRulesetForPlayerCount n).BunkerSeats ∧
      (getRulesetForPlayerCount n).RulesetMode = "preset") ∧
    getRulesetForPlayerCount 4 =
      { PlayerCount := 4, VotesPerRnd := [0, 0, 0, 1, 1], TotalExiles := 2, BunkerSeats := 2,
        RulesetMode := "preset" } ∧
    (n < 4 → getRulesetForPlayerCount n = getRulesetForPlayerCount 4) ∧
    (16 < n → getRulesetForPlayerCount n = getRulesetForPlayerCount 16) := by
  refine ⟨?_, by decide, ?_, ?_⟩
  · intro h4 h16
    interval_cases n <;> decide
  · intro h
    have hc : clampInt n minClassicPlayers maxClassicPlayers = 4 := by
      unfold clampInt minClassicPlayers
      rw [if_pos h]
    unfold getRulesetForPlayerCount
    dsimp only
    rw [hc]
    rfl
  · intro h
    have hc : clampInt n minClassicPlayers maxClassicPlayers = 16 := by
      unfold clampInt minClassicPlayers maxClassicPlayers
      rw [if_neg (by omega), if_pos h]
    unfold getRulesetForPlayerCount
    dsimp only
    rw [hc]
    rfl

/-- Claim C40, witness: nine players play with the votes `[0, 1, 1, 1, 2]`, five exiles and
four seats; three players get the preset of four, twenty players the preset of sixteen. -/
theorem preset_rulesets_consistent_witness :
    getRulesetForPlayerCount 9 =
      { PlayerCount := 9, VotesPerRnd := [0, 1, 1, 1, 2], TotalExiles := 5, BunkerSeats := 4,
        RulesetMode := "preset" } ∧
    ((getRulesetForPlayerCount 9).PlayerCount = 9 ∧
      (getRulesetForPlayerCount 9).VotesPerRnd.sum = (getRulesetForPlayerCount 9).TotalExiles ∧
      (getRulesetForPlayerCount 9).TotalExiles = 9 - (getRulesetForPlayerCount 9).BunkerSeats ∧
      (getRulesetForPlayerCount 9).RulesetMode = "preset") ∧
    getRulesetForPlayerCount 3 = getRulesetForPlayerCount 4 ∧
    getRulesetForPlayerCount 20 = getRulesetForPlayerCount 16 :=
  ⟨by decide, (preset_rulesets_consistent 9).1 (by decide) (by decide),
    (preset_rulesets_consistent 3).2.2.1 (by decide),
    (preset_rulesets_consistent 20).2.2.2 (by decide)⟩



/-! ## Instance ids: counting -/

theorem mintedCards_append (n : Int) (a b : List String) :
    mintedCards n (a ++ b) = mintedCards n a ++ mintedCards (n + a.length) b := by
  induction a generalizing n with
  | nil => simp [mintedCards]
  | cons o os ih =>
    have e : n + 1 + (os.length : Int) = n + ((os ++ []).length + 1 : Nat) := by
      simp only [List.append_nil, Nat.cast_add, Nat.cast_one]
      ring
    rw [List.cons_append, mintedCards, mintedCards, ih, List.cons_append, e]
    simp only [List.append_nil, List.length_cons]

theorem mintedSpecials_eq (n : Int) (owners : List String) :
    mintedSpecials n owners = mintedCards n (owners.map (fun o => "special-" ++ o)) := by
  induction owners generalizing n with
  | nil => rfl
  | cons o os ih =>
    simp only [mintedSpecials, List.map_cons, mintedCards, ih]

theorem mem_mintedCards (n : Int) (owners : List String) (x : String)
    (h : x ∈ mintedCards n owners) :
    ∃ (o : String) (c : Int), n < c ∧ c ≤ n + owners.length ∧ x = o ++ "-" ++ fmtInt c := by
  induction owners generalizing n with
  | nil => exact absurd h (List.not_mem_nil _)
  | cons o os ih =>
    unfold mintedCards at h
    rcases List.mem_cons.1 h with h | h
    · refine ⟨o, n + 1, by omega, ?_, h⟩
      simp only [List.length_cons, Nat.cast_add, Nat.cast_one]
      omega
    · obtain ⟨o2, c, h1, h2, h3⟩ := ih (n + 1) h
      refine ⟨o2, c, by omega, ?_, h3⟩
      simp only [List.length_cons, Nat.cast_add, Nat.cast_one]
      omega

/-- Two lists that agree after a prefix without `c` followed by `c` have the same prefix. -/
theorem prefix_before_char (c : Char) (x x2 y y2 : List Char) (hx : c ∉ x) (hx2 : c ∉ x2)
    (h : x ++ c :: y = x2 ++ c :: y2) : x = x2 := by
  induction x generalizing x2 with
  | nil =>
    cases x2 with
    | nil => rfl
    | cons a t =>
      simp only [List.nil_append, List.cons_append, List.cons.injEq] at h
      exact absurd (h.1 ▸ List.mem_cons_self _ _) hx2
  | cons a t ih =>
    cases x2 with
    | nil =>
      simp only [List.nil_append, List.cons_append, List.cons.injEq] at h
      exact absurd (h.1 ▸ List.mem_cons_self _ _) hx
    | cons a2 t2 =>
      simp only [List.cons_append, List.cons.injEq] at h
      rw [h.1, ih t2 (fun hc => hx (List.mem_cons_of_mem _ hc))
        (fun hc => hx2 (List.mem_cons_of_mem _ hc)) h.2]

theorem fmtInt_no_minus (c : Int) (h : 0 ≤ c) : '-' ∉ (fmtInt c).data := by
  obtain ⟨m, rfl⟩ := Int.eq_ofNat_of_zero_le h
  intro hmem
  have e1 : (fmtInt (Int.ofNat m)).data = Nat.toDigits 10 m := rfl
  rw [show ((m : Int)) = Int.ofNat m from rfl, e1] at hmem
  unfold Nat.toDigits at hmem
  rcases toDigitsCore_chars _ _ _ _ hmem with h0 | ⟨d, hd, hc⟩
  · exact absurd h0 (List.not_mem_nil _)
  · interval_cases d <;> exact absurd hc (by decide)

/-- An id `owner-counter` determines its counter. -/
theorem counter_of_id (o o2 : String) (c c2 : Int) (hc : 0 ≤ c) (hc2 : 0 ≤ c2)
    (h : o ++ "-" ++ fmtInt c = o2 ++ "-" ++ fmtInt c2) : c = c2 := by
  have hd := congrArg String.data h
  simp only [String.data_append] at hd
  rw [List.append_assoc, List.append_assoc] at hd
  have hr := congrArg List.reverse hd
  simp only [List.reverse_append, List.reverse_cons, List.reverse_nil, List.nil_append,
    List.append_assoc, List.singleton_append] at hr
  have hpre := prefix_before_char '-' _ _ _ _
    (fun hm => fmtInt_no_minus c hc (List.mem_reverse.1 hm))
    (fun hm => fmtInt_no_minus c2 hc2 (List.mem_reverse.1 hm)) hr
  have hdata : (fmtInt c).data = (fmtInt c2).data := List.reverse_injective hpre
  exact fmtInt_injective c c2 (String.ext hdata)

theorem not_issued_of_minted (n : Int) (owners : List String) (x : String) (hn : 0 ≤ n)
    (h : x ∈ mintedCards n owners) : ¬ IssuedCard n x := by
  obtain ⟨o, c, h1, _, h3⟩ := mem_mintedCards n owners x h
  rintro ⟨o2, c2, g1, g2, g3⟩
  have := counter_of_id o o2 c c2 (by omega) (by omega) (h3.symm.trans g3)
  omega

theorem issued_of_minted (n : Int) (owners : List String) (x : String) (hn : 0 ≤ n)
    (h : x ∈ mintedCards n owners) : IssuedCard (n + owners.length) x := by
  obtain ⟨o, c, h1, h2, h3⟩ := mem_mintedCards n owners x h
  exact ⟨o, c, by omega, h2, h3⟩

theorem IssuedCard_mono (n m : Int) (x : String) (hnm : n ≤ m) (h : IssuedCard n x) :
    IssuedCard m x := by
  obtain ⟨o, c, h1, h2, h3⟩ := h
  exact ⟨o, c, h1, by omega, h3⟩

theorem IssuedSpecial_mono (n m : Int) (x : String) (hnm : n ≤ m) (h : IssuedSpecial n x) :
    IssuedSpecial m x := by
  obtain ⟨o, c, h1, h2, h3⟩ := h
  exact ⟨o, c, h1, by omega, h3⟩

theorem IssuedSpecial_card (n : Int) (x : String) (h : IssuedSpecial n x) : IssuedCard n x := by
  obtain ⟨o, c, h1, h2, h3⟩ := h
  exact ⟨"special-" ++ o, c, h1, h2, h3⟩

theorem mintedCards_nodup (n : Int) (owners : List String) (hn : 0 ≤ n) :
    (mintedCards n owners).Nodup := by
  induction owners generalizing n with
  | nil => exact List.nodup_nil
  | cons o os ih =>
    unfold mintedCards
    rw [List.nodup_cons]
    refine ⟨?_, ih (n + 1) (by omega)⟩
    intro hmem
    exact not_issued_of_minted (n + 1) os _ (by omega) hmem ⟨o, n + 1, by omega, le_refl _, rfl⟩

/-- The step of the invariant on one of the two kinds of ids. -/
theorem nodup_step (old new : List String) (n : Int) (owners : List String) (hn : 0 ≤ n)
    (hold : old.Nodup) (hiss : ∀ x ∈ old, IssuedCard n x)
    (hcount : ∀ x, new.count x ≤ old.count x + (mintedCards n owners).count x) :
    new.Nodup ∧ ∀ x ∈ new, x ∈ old ∨ (x ∉ old ∧ x ∈ mintedCards n owners) := by
  have hmem : ∀ x ∈ new, x ∈ old ∨ (x ∉ old ∧ x ∈ mintedCards n owners) := by
    intro x hx
    by_cases hxo : x ∈ old
    · exact Or.inl hxo
    · refine Or.inr ⟨hxo, ?_⟩
      have h1 := hcount x
      have h2 : 0 < new.count x := List.count_pos_iff.2 hx
      rw [List.count_eq_zero_of_not_mem hxo] at h1
      exact List.count_pos_iff.1 (by omega)
  refine ⟨?_, hmem⟩
  rw [List.nodup_iff_count_le_one]
  intro x
  have h1 := hcount x
  have h2 := List.nodup_iff_count_le_one.1 hold x
  have h3 := List.nodup_iff_count_le_one.1 (mintedCards_nodup n owners hn) x
  by_cases hxo : x ∈ old
  · have h4 : (mintedCards n owners).count x = 0 :=
      List.count_eq_zero_of_not_mem
        (fun hm => not_issued_of_minted n owners x hn hm (hiss x hxo))
    omega
  · rw [List.count_eq_zero_of_not_mem hxo] at h1
    omega



/-! ## Instance ids: calls that leave the counters alone -/

theorem ite_fst_CardCounter {β : Type} (c : Prop) [Decidable c] (a b : gameSession × β)
    (v : Int) (ha : a.1.CardCounter = v) (hb : b.1.CardCounter = v) :
    (if c then a else b).1.CardCounter = v := by
  split
  · exact ha
  · exact hb

theorem ite_CardCounter (c : Prop) [Decidable c] (a b : gameSession) (v : Int)
    (ha : a.CardCounter = v) (hb : b.CardCounter = v) : (if c then a else b).CardCounter = v := by
  split
  · exact ha
  · exact hb

theorem schedulePhaseTimer_CardCounter (g : gameSession) (k : String) (s now : Int) :
    (schedulePhaseTimer g k s now).CardCounter = g.CardCounter := by
  unfold schedulePhaseTimer
  split <;> rfl

theorem scheduleRevealTimeoutIfNeeded_CardCounter (g : gameSession) (now : Int) :
    (scheduleRevealTimeoutIfNeeded g now).CardCounter = g.CardCounter := by
  unfold scheduleRevealTimeoutIfNeeded
  repeat' split
  all_goals first | rfl | exact schedulePhaseTimer_CardCounter _ _ _ _

theorem revealNextBunkerCard_CardCounter (g : gameSession) (round : Int) :
    (revealNextBunkerCard g round).CardCounter = g.CardCounter := by
  unfold revealNextBunkerCard
  split <;> rfl

theorem finishGame_CardCounter (g : gameSession) (reason : String) (now : Int) :
    (finishGame g reason now).1.CardCounter = g.CardCounter := by
  unfold finishGame
  dsimp only
  split <;> rfl

theorem startVotingStep_CardCounter (now : Int) (g : gameSession) (e : String × gamePlayer) :
    (startVotingStep now g e).CardCounter = g.CardCounter := by
  unfold startVotingStep
  repeat' split
  all_goals rfl

theorem startVoting_CardCounter (g : gameSession) (now : Int) :
    (startVoting g now).CardCounter = g.CardCounter := by
  unfold startVoting
  dsimp only
  exact (foldl_keeps _ (fun s : gameSession => s.CardCounter)
    (startVotingStep_CardCounter now) _ _).trans rfl

theorem passTurnFrom_CardCounter (g : gameSession) (id : String) :
    (passTurnFrom g id).CardCounter = g.CardCounter := by
  unfold passTurnFrom
  split <;> rfl

theorem revealWorldThreat_CardCounter (g : gameSession) (a : String) (i : Int) :
    (revealWorldThreat g a i).1.CardCounter = g.CardCounter := by
  unfold revealWorldThreat
  repeat' split
  all_goals rfl

theorem setBunkerOutcome_CardCounter (g : gameSession) (a o : String) (now : Int) :
    (setBunkerOutcome g a o now).1.CardCounter = g.CardCounter := by
  unfold setBunkerOutcome
  repeat' split
  all_goals rfl

theorem resetVotesForRevote_CardCounter (g : gameSession) (now : Int) :
    (resetVotesForRevote g now).CardCounter = g.CardCounter := by
  unfold resetVotesForRevote
  dsimp only
  exact (foldl_keeps (fun acc voterID => markVoteWasted acc voterID "Голос потрачен." now)
    (fun s : gameSession => s.CardCounter) (fun _ _ => rfl) _ _).trans rfl

theorem startTieBreakRevote_CardCounter (g : gameSession) (c : List String) (now : Int) :
    (startTieBreakRevote g c now).CardCounter = g.CardCounter := by
  unfold startTieBreakRevote
  dsimp only [clearActiveTimer]
  rw [resetVotesForRevote_CardCounter]

theorem handleOnOwnerEliminated_CardCounter (g : gameSession) (id : String) :
    (handleOnOwnerEliminated g id).CardCounter = g.CardCounter := by
  unfold handleOnOwnerEliminated
  split <;> rfl

theorem handleSecretEliminationTriggers_CardCounter (g : gameSession) (id : String) :
    (handleSecretEliminationTriggers g id).CardCounter = g.CardCounter := by
  unfold handleSecretEliminationTriggers
  dsimp only
  generalize computeAgeExtremes g = ages
  generalize g.Order = order
  induction order generalizing g with
  | nil => rfl
  | cons a t ih => rw [List.foldl_cons, ih]

theorem startNextRoundOrEnd_CardCounter (g : gameSession) (now : Int) :
    (startNextRoundOrEnd g now).1.CardCounter = g.CardCounter := by
  unfold startNextRoundOrEnd
  dsimp only [makeEvent, clearActiveTimer, removeFromVoting, markSpecialUsed, modifyCard,
    markVoteWasted]
  repeat' (first
    | with_reducible rfl
    | with_reducible refine ite_fst_CardCounter _ _ _ _ ?_ ?_
    | with_reducible refine ite_CardCounter _ _ _ _ ?_ ?_
    | with_reducible refine (finishGame_CardCounter _ _ _).trans ?_
    | with_reducible refine (passTurnFrom_CardCounter _ _).trans ?_
    | with_reducible refine (schedulePhaseTimer_CardCounter _ _ _ _).trans ?_
    | with_reducible refine (scheduleRevealTimeoutIfNeeded_CardCounter _ _).trans ?_
    | with_reducible refine (revealNextBunkerCard_CardCounter _ _).trans ?_
    | with_reducible refine (startVoting_CardCounter _ _).trans ?_
    | with_reducible refine (resetVotesForRevote_CardCounter _ _).trans ?_
    | with_reducible refine (startTieBreakRevote_CardCounter _ _ _).trans ?_
    | with_reducible refine (handleOnOwnerEliminated_CardCounter _ _).trans ?_
    | with_reducible refine (handleSecretEliminationTriggers_CardCounter _ _).trans ?_
    | split)

theorem enterRevealDiscussion_CardCounter (g : gameSession) (now : Int) :
    (enterRevealDiscussion g now).CardCounter = g.CardCounter := by
  unfold enterRevealDiscussion
  dsimp only [makeEvent, clearActiveTimer, removeFromVoting, markSpecialUsed, modifyCard,
    markVoteWasted]
  repeat' (first
    | with_reducible rfl
    | with_reducible refine ite_fst_CardCounter _ _ _ _ ?_ ?_
    | with_reducible refine ite_CardCounter _ _ _ _ ?_ ?_
    | with_reducible refine (finishGame_CardCounter _ _ _).trans ?_
    | with_reducible refine (passTurnFrom_CardCounter _ _).trans ?_
    | with_reducible refine (schedulePhaseTimer_CardCounter _ _ _ _).trans ?_
    | with_reducible refine (scheduleRevealTimeoutIfNeeded_CardCounter _ _).trans ?_
    | with_reducible refine (revealNextBunkerCard_CardCounter _ _).trans ?_
    | with_reducible refine (startVoting_CardCounter _ _).trans ?_
    | with_reducible refine (resetVotesForRevote_CardCounter _ _).trans ?_
    | with_reducible refine (startTieBreakRevote_CardCounter _ _ _).trans ?_
    | with_reducible refine (handleOnOwnerEliminated_CardCounter _ _).trans ?_
    | with_reducible refine (handleSecretEliminationTriggers_CardCounter _ _).trans ?_
    | with_reducible refine (startNextRoundOrEnd_CardCounter _ _).trans ?_
    | split)

theorem enterVoteSpecialWindow_CardCounter (g : gameSession) (now : Int) :
    (enterVoteSpecialWindow g now).1.CardCounter = g.CardCounter := by
  unfold enterVoteSpecialWindow
  dsimp only [makeEvent, clearActiveTimer, removeFromVoting, markSpecialUsed, modifyCard,
    markVoteWasted]
  repeat' (first
    | with_reducible rfl
    | with_reducible refine ite_fst_CardCounter _ _ _ _ ?_ ?_
    | with_reducible refine ite_CardCounter _ _ _ _ ?_ ?_
    | with_reducible refine (finishGame_CardCounter _ _ _).trans ?_
    | with_reducible refine (passTurnFrom_CardCounter _ _).trans ?_
    | with_reducible refine (schedulePhaseTimer_CardCounter _ _ _ _).trans ?_
    | with_reducible refine (scheduleRevealTimeoutIfNeeded_CardCounter _ _).trans ?_
    | with_reducible refine (revealNextBunkerCard_CardCounter _ _).trans ?_
    | with_reducible refine (startVoting_CardCounter _ _).trans ?_
    | with_reducible refine (resetVotesForRevote_CardCounter _ _).trans ?_
    | with_reducible refine (startTieBreakRevote_CardCounter _ _ _).trans ?_
    | with_reducible refine (handleOnOwnerEliminated_CardCounter _ _).trans ?_
    | with_reducible refine (handleSecretEliminationTriggers_CardCounter _ _).trans ?_
    | with_reducible refine (startNextRoundOrEnd_CardCounter _ _).trans ?_
    | with_reducible refine (enterRevealDiscussion_CardCounter _ _).trans ?_
    | split)

theorem vote_CardCounter (g : gameSession) (a t : String) (now : Int) :
    (vote g a t now).1.CardCounter = g.CardCounter := by
  unfold vote
  dsimp only [makeEvent, clearActiveTimer, removeFromVoting, markSpecialUsed, modifyCard,
    markVoteWasted]
  repeat' (first
    | with_reducible rfl
    | with_reducible refine ite_fst_CardCounter _ _ _ _ ?_ ?_
    | with_reducible refine ite_CardCounter _ _ _ _ ?_ ?_
    | with_reducible refine (finishGame_CardCounter _ _ _).trans ?_
    | with_reducible refine (passTurnFrom_CardCounter _ _).trans ?_
    | with_reducible refine (schedulePhaseTimer_CardCounter _ _ _ _).trans ?_
    | with_reducible refine (scheduleRevealTimeoutIfNeeded_CardCounter _ _).trans ?_
    | with_reducible refine (revealNextBunkerCard_CardCounter _ _).trans ?_
    | with_reducible refine (startVoting_CardCounter _ _).trans ?_
    | with_reducible refine (resetVotesForRevote_CardCounter _ _).trans ?_
    | with_reducible refine (startTieBreakRevote_CardCounter _ _ _).trans ?_
    | with_reducible refine (handleOnOwnerEliminated_CardCounter _ _).trans ?_
    | with_reducible refine (handleSecretEliminationTriggers_CardCounter _ _).trans ?_
    | with_reducible refine (startNextRoundOrEnd_CardCounter _ _).trans ?_
    | with_reducible refine (enterRevealDiscussion_CardCounter _ _).trans ?_
    | with_reducible refine (enterVoteSpecialWindow_CardCounter _ _).trans ?_
    | split)

theorem applyElimination_CardCounter (g : gameSession) (t : String) :
    (applyElimination g t).CardCounter = g.CardCounter := by
  unfold applyElimination
  dsimp only [makeEvent, clearActiveTimer, removeFromVoting, markSpecialUsed, modifyCard,
    markVoteWasted]
  repeat' (first
    | with_reducible rfl
    | with_reducible refine ite_fst_CardCounter _ _ _ _ ?_ ?_
    | with_reducible refine ite_CardCounter _ _ _ _ ?_ ?_
    | with_reducible refine (finishGame_CardCounter _ _ _).trans ?_
    | with_reducible refine (passTurnFrom_CardCounter _ _).trans ?_
    | with_reducible refine (schedulePhaseTimer_CardCounter _ _ _ _).trans ?_
    | with_reducible refine (scheduleRevealTimeoutIfNeeded_CardCounter _ _).trans ?_
    | with_reducible refine (revealNextBunkerCard_CardCounter _ _).trans ?_
    | with_reducible refine (startVoting_CardCounter _ _).trans ?_
    | with_reducible refine (resetVotesForRevote_CardCounter _ _).trans ?_
    | with_reducible refine (startTieBreakRevote_CardCounter _ _ _).trans ?_
    | with_reducible refine (handleOnOwnerEliminated_CardCounter _ _).trans ?_
    | with_reducible refine (handleSecretEliminationTriggers_CardCounter _ _).trans ?_
    | with_reducible refine (startNextRoundOrEnd_CardCounter _ _).trans ?_
    | with_reducible refine (enterRevealDiscussion_CardCounter _ _).trans ?_
    | with_reducible refine (enterVoteSpecialWindow_CardCounter _ _).trans ?_
    | with_reducible refine (vote_CardCounter _ _ _ _).trans ?_
    | split)

theorem finalizeVoting_CardCounter (g : gameSession) (a : String) (now : Int) :
    (finalizeVoting g a now).1.CardCounter = g.CardCounter := by
  unfold finalizeVoting
  dsimp only [makeEvent, clearActiveTimer, removeFromVoting, markSpecialUsed, modifyCard,
    markVoteWasted]
  repeat' (first
    | with_reducible rfl
    | with_reducible refine ite_fst_CardCounter _ _ _ _ ?_ ?_
    | with_reducible refine ite_CardCounter _ _ _ _ ?_ ?_
    | with_reducible refine (finishGame_CardCounter _ _ _).trans ?_
    | with_reducible refine (passTurnFrom_CardCounter _ _).trans ?_
    | with_reducible refine (schedulePhaseTimer_CardCounter _ _ _ _).trans ?_
    | with_reducible refine (scheduleRevealTimeoutIfNeeded_CardCounter _ _).trans ?_
    | with_reducible refine (revealNextBunkerCard_CardCounter _ _).trans ?_
    | with_reducible refine (startVoting_CardCounter _ _).trans ?_
    | with_reducible refine (resetVotesForRevote_CardCounter _ _).trans ?_
    | with_reducible refine (startTieBreakRevote_CardCounter _ _ _).trans ?_
    | with_reducible refine (handleOnOwnerEliminated_CardCounter _ _).trans ?_
    | with_reducible refine (handleSecretEliminationTriggers_CardCounter _ _).trans ?_
    | with_reducible refine (startNextRoundOrEnd_CardCounter _ _).trans ?_
    | with_reducible refine (enterRevealDiscussion_CardCounter _ _).trans ?_
    | with_reducible refine (enterVoteSpecialWindow_CardCounter _ _).trans ?_
    | with_reducible refine (vote_CardCounter _ _ _ _).trans ?_
    | with_reducible refine (applyElimination_CardCounter _ _).trans ?_
    | split)

theorem advanceAfterDiscussion_CardCounter (g : gameSession) (now : Int) :
    (advanceAfterDiscussion g now).1.CardCounter = g.CardCounter := by
  unfold advanceAfterDiscussion
  dsimp only [makeEvent, clearActiveTimer, removeFromVoting, markSpecialUsed, modifyCard,
    markVoteWasted]
  repeat' (first
    | with_reducible rfl
    | with_reducible refine ite_fst_CardCounter _ _ _ _ ?_ ?_
    | with_reducible refine ite_CardCounter _ _ _ _ ?_ ?_
    | with_reducible refine (finishGame_CardCounter _ _ _).trans ?_
    | with_reducible refine (passTurnFrom_CardCounter _ _).trans ?_
    | with_reducible refine (schedulePhaseTimer_CardCounter _ _ _ _).trans ?_
    | with_reducible refine (scheduleRevealTimeoutIfNeeded_CardCounter _ _).trans ?_
    | with_reducible refine (revealNextBunkerCard_CardCounter _ _).trans ?_
    | with_reducible refine (startVoting_CardCounter _ _).trans ?_
    | with_reducible refine (resetVotesForRevote_CardCounter _ _).trans ?_
    | with_reducible refine (startTieBreakRevote_CardCounter _ _ _).trans ?_
    | with_reducible refine (handleOnOwnerEliminated_CardCounter _ _).trans ?_
    | with_reducible refine (handleSecretEliminationTriggers_CardCounter _ _).trans ?_
    | with_reducible refine (startNextRoundOrEnd_CardCounter _ _).trans ?_
    | with_reducible refine (enterRevealDiscussion_CardCounter _ _).trans ?_
    | with_reducible refine (enterVoteSpecialWindow_CardCounter _ _).trans ?_
    | with_reducible refine (vote_CardCounter _ _ _ _).trans ?_
    | with_reducible refine (applyElimination_CardCounter _ _).trans ?_
    | with_reducible refine (finalizeVoting_CardCounter _ _ _).trans ?_
    | split)

theorem continueRound_CardCounter (g : gameSession) (a : String) (now : Int) :
    (continueRound g a now).1.CardCounter = g.CardCounter := by
  unfold continueRound
  dsimp only [makeEvent, clearActiveTimer, removeFromVoting, markSpecialUsed, modifyCard,
    markVoteWasted]
  repeat' (first
    | with_reducible rfl
    | with_reducible refine ite_fst_CardCounter _ _ _ _ ?_ ?_
    | with_reducible refine ite_CardCounter _ _ _ _ ?_ ?_
    | with_reducible refine (finishGame_CardCounter _ _ _).trans ?_
    | with_reducible refine (passTurnFrom_CardCounter _ _).trans ?_
    | with_reducible refine (schedulePhaseTimer_CardCounter _ _ _ _).trans ?_
    | with_reducible refine (scheduleRevealTimeoutIfNeeded_CardCounter _ _).trans ?_
    | with_reducible refine (revealNextBunkerCard_CardCounter _ _).trans ?_
    | with_reducible refine (startVoting_CardCounter _ _).trans ?_
    | with_reducible refine (resetVotesForRevote_CardCounter _ _).trans ?_
    | with_reducible refine (startTieBreakRevote_CardCounter _ _ _).trans ?_
    | with_reducible refine (handleOnOwnerEliminated_CardCounter _ _).trans ?_
    | with_reducible refine (handleSecretEliminationTriggers_CardCounter _ _).trans ?_
    | with_reducible refine (startNextRoundOrEnd_CardCounter _ _).trans ?_
    | with_reducible refine (enterRevealDiscussion_CardCounter _ _).trans ?_
    | with_reducible refine (enterVoteSpecialWindow_CardCounter _ _).trans ?_
    | with_reducible refine (vote_CardCounter _ _ _ _).trans ?_
    | with_reducible refine (applyElimination_CardCounter _ _).trans ?_
    | with_reducible refine (finalizeVoting_CardCounter _ _ _).trans ?_
    | with_reducible refine (advanceAfterDiscussion_CardCounter _ _).trans ?_
    | split)

theorem kickPlayer_CardCounter (g : gameSession) (t : String) (now : Int) :
    (kickPlayer g t now).1.CardCounter = g.CardCounter := by
  unfold kickPlayer
  dsimp only [makeEvent, clearActiveTimer, removeFromVoting, markSpecialUsed, modifyCard,
    markVoteWasted]
  repeat' (first
    | with_reducible rfl
    | with_reducible refine ite_fst_CardCounter _ _ _ _ ?_ ?_
    | with_reducible refine ite_CardCounter _ _ _ _ ?_ ?_
    | with_reducible refine (finishGame_CardCounter _ _ _).trans ?_
    | with_reducible refine (passTurnFrom_CardCounter _ _).trans ?_
    | with_reducible refine (schedulePhaseTimer_CardCounter _ _ _ _).trans ?_
    | with_reducible refine (scheduleRevealTimeoutIfNeeded_CardCounter _ _).trans ?_
    | with_reducible refine (revealNextBunkerCard_CardCounter _ _).trans ?_
    | with_reducible refine (startVoting_CardCounter _ _).trans ?_
    | with_reducible refine (resetVotesForRevote_CardCounter _ _).trans ?_
    | with_reducible refine (startTieBreakRevote_CardCounter _ _ _).trans ?_
    | with_reducible refine (handleOnOwnerEliminated_CardCounter _ _).trans ?_
    | with_reducible refine (handleSecretEliminationTriggers_CardCounter _ _).trans ?_
    | with_reducible refine (startNextRoundOrEnd_CardCounter _ _).trans ?_
    | with_reducible refine (enterRevealDiscussion_CardCounter _ _).trans ?_
    | with_reducible refine (enterVoteSpecialWindow_CardCounter _ _).trans ?_
    | with_reducible refine (vote_CardCounter _ _ _ _).trans ?_
    | with_reducible refine (applyElimination_CardCounter _ _).trans ?_
    | with_reducible refine (finalizeVoting_CardCounter _ _ _).trans ?_
    | with_reducible refine (advanceAfterDiscussion_CardCounter _ _).trans ?_
    | with_reducible refine (continueRound_CardCounter _ _ _).trans ?_
    | split)

theorem markLeftBunker_CardCounter (g : gameSession) (t : String) (now : Int) :
    (markLeftBunker g t now).1.CardCounter = g.CardCounter := by
  unfold markLeftBunker
  dsimp only [makeEvent, clearActiveTimer, removeFromVoting, markSpecialUsed, modifyCard,
    markVoteWasted]
  repeat' (first
    | with_reducible rfl
    | with_reducible refine ite_fst_CardCounter _ _ _ _ ?_ ?_
    | with_reducible refine ite_CardCounter _ _ _ _ ?_ ?_
    | with_reducible refine (finishGame_CardCounter _ _ _).trans ?_
    | with_reducible refine (passTurnFrom_CardCounter _ _).trans ?_
    | with_reducible refine (schedulePhaseTimer_CardCounter _ _ _ _).trans ?_
    | with_reducible refine (scheduleRevealTimeoutIfNeeded_CardCounter _ _).trans ?_
    | with_reducible refine (revealNextBunkerCard_CardCounter _ _).trans ?_
    | with_reducible refine (startVoting_CardCounter _ _).trans ?_
    | with_reducible refine (resetVotesForRevote_CardCounter _ _).trans ?_
    | with_reducible refine (startTieBreakRevote_CardCounter _ _ _).trans ?_
    | with_reducible refine (handleOnOwnerEliminated_CardCounter _ _).trans ?_
    | with_reducible refine (handleSecretEliminationTriggers_CardCounter _ _).trans ?_
    | with_reducible refine (startNextRoundOrEnd_CardCounter _ _).trans ?_
    | with_reducible refine (enterRevealDiscussion_CardCounter _ _).trans ?_
    | with_reducible refine (enterVoteSpecialWindow_CardCounter _ _).trans ?_
    | with_reducible refine (vote_CardCounter _ _ _ _).trans ?_
    | with_reducible refine (applyElimination_CardCounter _ _).trans ?_
    | with_reducible refine (finalizeVoting_CardCounter _ _ _).trans ?_
    | with_reducible refine (advanceAfterDiscussion_CardCounter _ _).trans ?_
    | with_reducible refine (continueRound_CardCounter _ _ _).trans ?_
    | with_reducible refine (kickPlayer_CardCounter _ _ _).trans ?_
    | split)

theorem revealCard_CardCounter (g : gameSession) (a c : String) (now : Int) :
    (revealCard g a c now).1.CardCounter = g.CardCounter := by
  unfold revealCard
  dsimp only [makeEvent, clearActiveTimer, removeFromVoting, markSpecialUsed, modifyCard,
    markVoteWasted]
  repeat' (first
    | with_reducible rfl
    | with_reducible refine ite_fst_CardCounter _ _ _ _ ?_ ?_
    | with_reducible refine ite_CardCounter _ _ _ _ ?_ ?_
    | with_reducible refine (finishGame_CardCounter _ _ _).trans ?_
    | with_reducible refine (passTurnFrom_CardCounter _ _).trans ?_
    | with_reducible refine (schedulePhaseTimer_CardCounter _ _ _ _).trans ?_
    | with_reducible refine (scheduleRevealTimeoutIfNeeded_CardCounter _ _).trans ?_
    | with_reducible refine (revealNextBunkerCard_CardCounter _ _).trans ?_
    | with_reducible refine (startVoting_CardCounter _ _).trans ?_
    | with_reducible refine (resetVotesForRevote_CardCounter _ _).trans ?_
    | with_reducible refine (startTieBreakRevote_CardCounter _ _ _).trans ?_
    | with_reducible refine (handleOnOwnerEliminated_CardCounter _ _).trans ?_
    | with_reducible refine (handleSecretEliminationTriggers_CardCounter _ _).trans ?_
    | with_reducible refine (startNextRoundOrEnd_CardCounter _ _).trans ?_
    | with_reducible refine (enterRevealDiscussion_CardCounter _ _).trans ?_
    | with_reducible refine (enterVoteSpecialWindow_CardCounter _ _).trans ?_
    | with_reducible refine (vote_CardCounter _ _ _ _).trans ?_
    | with_reducible refine (applyElimination_CardCounter _ _).trans ?_
    | with_reducible refine (finalizeVoting_CardCounter _ _ _).trans ?_
    | with_reducible refine (advanceAfterDiscussion_CardCounter _ _).trans ?_
    | with_reducible refine (continueRound_CardCounter _ _ _).trans ?_
    | with_reducible refine (kickPlayer_CardCounter _ _ _).trans ?_
    | with_reducible refine (markLeftBunker_CardCounter _ _ _).trans ?_
    | split)

theorem handleRevealPhaseTimeout_CardCounter (g : gameSession) (now : Int) :
    (handleRevealPhaseTimeout g now).1.CardCounter = g.CardCounter := by
  unfold handleRevealPhaseTimeout
  dsimp only [makeEvent, clearActiveTimer, removeFromVoting, markSpecialUsed, modifyCard,
    markVoteWasted]
  repeat' (first
    | with_reducible rfl
    | with_reducible refine ite_fst_CardCounter _ _ _ _ ?_ ?_
    | with_reducible refine ite_CardCounter _ _ _ _ ?_ ?_
    | with_reducible refine (finishGame_CardCounter _ _ _).trans ?_
    | with_reducible refine (passTurnFrom_CardCounter _ _).trans ?_
    | with_reducible refine (schedulePhaseTimer_CardCounter _ _ _ _).trans ?_
    | with_reducible refine (scheduleRevealTimeoutIfNeeded_CardCounter _ _).trans ?_
    | with_reducible refine (revealNextBunkerCard_CardCounter _ _).trans ?_
    | with_reducible refine (startVoting_CardCounter _ _).trans ?_
    | with_reducible refine (resetVotesForRevote_CardCounter _ _).trans ?_
    | with_reducible refine (startTieBreakRevote_CardCounter _ _ _).trans ?_
    | with_reducible refine (handleOnOwnerEliminated_CardCounter _ _).trans ?_
    | with_reducible refine (handleSecretEliminationTriggers_CardCounter _ _).trans ?_
    | with_reducible refine (startNextRoundOrEnd_CardCounter _ _).trans ?_
    | with_reducible refine (enterRevealDiscussion_CardCounter _ _).trans ?_
    | with_reducible refine (enterVoteSpecialWindow_CardCounter _ _).trans ?_
    | with_reducible refine (vote_CardCounter _ _ _ _).trans ?_
    | with_reducible refine (applyElimination_CardCounter _ _).trans ?_
    | with_reducible refine (finalizeVoting_CardCounter _ _ _).trans ?_
    | with_reducible refine (advanceAfterDiscussion_CardCounter _ _).trans ?_
    | with_reducible refine (continueRound_CardCounter _ _ _).trans ?_
    | with_reducible refine (kickPlayer_CardCounter _ _ _).trans ?_
    | with_reducible refine (markLeftBunker_CardCounter _ _ _).trans ?_
    | with_reducible refine (revealCard_CardCounter _ _ _ _).trans ?_
    | split)

theorem handleTimerExpired_CardCounter (g : gameSession) (now : Int) :
    (handleTimerExpired g now).1.CardCounter = g.CardCounter := by
  unfold handleTimerExpired
  dsimp only [makeEvent, clearActiveTimer, removeFromVoting, markSpecialUsed, modifyCard,
    markVoteWasted]
  repeat' (first
    | with_reducible rfl
    | with_reducible refine ite_fst_CardCounter _ _ _ _ ?_ ?_
    | with_reducible refine ite_CardCounter _ _ _ _ ?_ ?_
    | with_reducible refine (finishGame_CardCounter _ _ _).trans ?_
    | with_reducible refine (passTurnFrom_CardCounter _ _).trans ?_
    | with_reducible refine (schedulePhaseTimer_CardCounter _ _ _ _).trans ?_
    | with_reducible refine (scheduleRevealTimeoutIfNeeded_CardCounter _ _).trans ?_
    | with_reducible refine (revealNextBunkerCard_CardCounter _ _).trans ?_
    | with_reducible refine (startVoting_CardCounter _ _).trans ?_
    | with_reducible refine (resetVotesForRevote_CardCounter _ _).trans ?_
    | with_reducible refine (startTieBreakRevote_CardCounter _ _ _).trans ?_
    | with_reducible refine (handleOnOwnerEliminated_CardCounter _ _).trans ?_
    | with_reducible refine (handleSecretEliminationTriggers_CardCounter _ _).trans ?_
    | with_reducible refine (startNextRoundOrEnd_CardCounter _ _).trans ?_
    | with_reducible refine (enterRevealDiscussion_CardCounter _ _).trans ?_
    | with_reducible refine (enterVoteSpecialWindow_CardCounter _ _).trans ?_
    | with_reducible refine (vote_CardCounter _ _ _ _).trans ?_
    | with_reducible refine (applyElimination_CardCounter _ _).trans ?_
    | with_reducible refine (finalizeVoting_CardCounter _ _ _).trans ?_
    | with_reducible refine (advanceAfterDiscussion_CardCounter _ _).trans ?_
    | with_reducible refine (continueRound_CardCounter _ _ _).trans ?_
    | with_reducible refine (kickPlayer_CardCounter _ _ _).trans ?_
    | with_reducible refine (markLeftBunker_CardCounter _ _ _).trans ?_
    | with_reducible refine (revealCard_CardCounter _ _ _ _).trans ?_
    | with_reducible refine (handleRevealPhaseTimeout_CardCounter _ _).trans ?_
    | split)

theorem ite_fst_specialCounter {β : Type} (c : Prop) [Decidable c] (a b : gameSession × β)
    (v : Int) (ha : a.1.specialCounter = v) (hb : b.1.specialCounter = v) :
    (if c then a else b).1.specialCounter = v := by
  split
  · exact ha
  · exact hb

theorem ite_specialCounter (c : Prop) [Decidable c] (a b : gameSession) (v : Int)
    (ha : a.specialCounter = v) (hb : b.specialCounter = v) : (if c then a else b).specialCounter = v := by
  split
  · exact ha
  · exact hb

theorem schedulePhaseTimer_specialCounter (g : gameSession) (k : String) (s now : Int) :
    (schedulePhaseTimer g k s now).specialCounter = g.specialCounter := by
  unfold schedulePhaseTimer
  split <;> rfl

theorem scheduleRevealTimeoutIfNeeded_specialCounter (g : gameSession) (now : Int) :
    (scheduleRevealTimeoutIfNeeded g now).specialCounter = g.specialCounter := by
  unfold scheduleRevealTimeoutIfNeeded
  repeat' split
  all_goals first | rfl | exact schedulePhaseTimer_specialCounter _ _ _ _

theorem revealNextBunkerCard_specialCounter (g : gameSession) (round : Int) :
    (revealNextBunkerCard g round).specialCounter = g.specialCounter := by
  unfold revealNextBunkerCard
  split <;> rfl

theorem finishGame_specialCounter (g : gameSession) (reason : String) (now : Int) :
    (finishGame g reason now).1.specialCounter = g.specialCounter := by
  unfold finishGame
  dsimp only
  split <;> rfl

theorem startVotingStep_specialCounter (now : Int) (g : gameSession) (e : String × gamePlayer) :
    (startVotingStep now g e).specialCounter = g.specialCounter := by
  unfold startVotingStep
  repeat' split
  all_goals rfl

theorem startVoting_specialCounter (g : gameSession) (now : Int) :
    (startVoting g now).specialCounter = g.specialCounter := by
  unfold startVoting
  dsimp only
  exact (foldl_keeps _ (fun s : gameSession => s.specialCounter)
    (startVotingStep_specialCounter now) _ _).trans rfl

theorem passTurnFrom_specialCounter (g : gameSession) (id : String) :
    (passTurnFrom g id).specialCounter = g.specialCounter := by
  unfold passTurnFrom
  split <;> rfl

theorem revealWorldThreat_specialCounter (g : gameSession) (a : String) (i : Int) :
    (revealWorldThreat g a i).1.specialCounter = g.specialCounter := by
  unfold revealWorldThreat
  repeat' split
  all_goals rfl

theorem setBunkerOutcome_specialCounter (g : gameSession) (a o : String) (now : Int) :
    (setBunkerOutcome g a o now).1.specialCounter = g.specialCounter := by
  unfold setBunkerOutcome
  repeat' split
  all_goals rfl

theorem resetVotesForRevote_specialCounter (g : gameSession) (now : Int) :
    (resetVotesForRevote g now).specialCounter = g.specialCounter := by
  unfold resetVotesForRevote
  dsimp only
  exact (foldl_keeps (fun acc voterID => markVoteWasted acc voterID "Голос потрачен." now)
    (fun s : gameSession => s.specialCounter) (fun _ _ => rfl) _ _).trans rfl

theorem startTieBreakRevote_specialCounter (g : gameSession) (c : List String) (now : Int) :
    (startTieBreakRevote g c now).specialCounter = g.specialCounter := by
  unfold startTieBreakRevote
  dsimp only [clearActiveTimer]
  rw [resetVotesForRevote_specialCounter]

theorem handleOnOwnerEliminated_specialCounter (g : gameSession) (id : String) :
    (handleOnOwnerEliminated g id).specialCounter = g.specialCounter := by
  unfold handleOnOwnerEliminated
  split <;> rfl

theorem handleSecretEliminationTriggers_specialCounter (g : gameSession) (id : String) :
    (handleSecretEliminationTriggers g id).specialCounter = g.specialCounter := by
  unfold handleSecretEliminationTriggers
  dsimp only
  generalize computeAgeExtremes g = ages
  generalize g.Order = order
  induction order generalizing g with
  | nil => rfl
  | cons a t ih => rw [List.foldl_cons, ih]

theorem startNextRoundOrEnd_specialCounter (g : gameSession) (now : Int) :
    (startNextRoundOrEnd g now).1.specialCounter = g.specialCounter := by
  unfold startNextRoundOrEnd
  dsimp only [makeEvent, clearActiveTimer, removeFromVoting, markSpecialUsed, modifyCard,
    markVoteWasted]
  repeat' (first
    | with_reducible rfl
    | with_reducible refine ite_fst_specialCounter _ _ _ _ ?_ ?_
    | with_reducible refine ite_specialCounter _ _ _ _ ?_ ?_
    | with_reducible refine (finishGame_specialCounter _ _ _).trans ?_
    | with_reducible refine (passTurnFrom_specialCounter _ _).trans ?_
    | with_reducible refine (schedulePhaseTimer_specialCounter _ _ _ _).trans ?_
    | with_reducible refine (scheduleRevealTimeoutIfNeeded_specialCounter _ _).trans ?_
    | with_reducible refine (revealNextBunkerCard_specialCounter _ _).trans ?_
    | with_reducible refine (startVoting_specialCounter _ _).trans ?_
    | with_reducible refine (resetVotesForRevote_specialCounter _ _).trans ?_
    | with_reducible refine (startTieBreakRevote_specialCounter _ _ _).trans ?_
    | with_reducible refine (handleOnOwnerEliminated_specialCounter _ _).trans ?_
    | with_reducible refine (handleSecretEliminationTriggers_specialCounter _ _).trans ?_
    | split)

theorem enterRevealDiscussion_specialCounter (g : gameSession) (now : Int) :
    (enterRevealDiscussion g now).specialCounter = g.specialCounter := by
  unfold enterRevealDiscussion
  dsimp only [makeEvent, clearActiveTimer, removeFromVoting, markSpecialUsed, modifyCard,
    markVoteWasted]
  repeat' (first
    | with_reducible rfl
    | with_reducible refine ite_fst_specialCounter _ _ _ _ ?_ ?_
    | with_reducible refine ite_specialCounter _ _ _ _ ?_ ?_
    | with_reducible refine (finishGame_specialCounter _ _ _).trans ?_
    | with_reducible refine (passTurnFrom_specialCounter _ _).trans ?_
    | with_reducible refine (schedulePhaseTimer_specialCounter _ _ _ _).trans ?_
    | with_reducible refine (scheduleRevealTimeoutIfNeeded_specialCounter _ _).trans ?_
    | with_reducible refine (revealNextBunkerCard_specialCounter _ _).trans ?_
    | with_reducible refine (startVoting_specialCounter _ _).trans ?_
    | with_reducible refine (resetVotesForRevote_specialCounter _ _).trans ?_
    | with_reducible refine (startTieBreakRevote_specialCounter _ _ _).trans ?_
    | with_reducible refine (handleOnOwnerEliminated_specialCounter _ _).trans ?_
    | with_reducible refine (handleSecretEliminationTriggers_specialCounter _ _).trans ?_
    | with_reducible refine (startNextRoundOrEnd_specialCounter _ _).trans ?_
    | split)

theorem enterVoteSpecialWindow_specialCounter (g : gameSession) (now : Int) :
    (enterVoteSpecialWindow g now).1.specialCounter = g.specialCounter := by
  unfold enterVoteSpecialWindow
  dsimp only [makeEvent, clearActiveTimer, removeFromVoting, markSpecialUsed, modifyCard,
    markVoteWasted]
  repeat' (first
    | with_reducible rfl
    | with_reducible refine ite_fst_specialCounter _ _ _ _ ?_ ?_
    | with_reducible refine ite_specialCounter _ _ _ _ ?_ ?_
    | with_reducible refine (finishGame_specialCounter _ _ _).trans ?_
    | with_reducible refine (passTurnFrom_specialCounter _ _).trans ?_
    | with_reducible refine (schedulePhaseTimer_specialCounter _ _ _ _).trans ?_
    | with_reducible refine (scheduleRevealTimeoutIfNeeded_specialCounter _ _).trans ?_
    | with_reducible refine (revealNextBunkerCard_specialCounter _ _).trans ?_
    | with_reducible refine (startVoting_specialCounter _ _).trans ?_
    | with_reducible refine (resetVotesForRevote_specialCounter _ _).trans ?_
    | with_reducible refine (startTieBreakRevote_specialCounter _ _ _).trans ?_
    | with_reducible refine (handleOnOwnerEliminated_specialCounter _ _).trans ?_
    | with_reducible refine (handleSecretEliminationTriggers_specialCounter _ _).trans ?_
    | with_reducible refine (startNextRoundOrEnd_specialCounter _ _).trans ?_
    | with_reducible refine (enterRevealDiscussion_specialCounter _ _).trans ?_
    | split)

theorem vote_specialCounter (g : gameSession) (a t : String) (now : Int) :
    (vote g a t now).1.specialCounter = g.specialCounter := by
  unfold vote
  dsimp only [makeEvent, clearActiveTimer, removeFromVoting, markSpecialUsed, modifyCard,
    markVoteWasted]
  repeat' (first
    | with_reducible rfl
    | with_reducible refine ite_fst_specialCounter _ _ _ _ ?_ ?_
    | with_reducible refine ite_specialCounter _ _ _ _ ?_ ?_
    | with_reducible refine (finishGame_specialCounter _ _ _).trans ?_
    | with_reducible refine (passTurnFrom_specialCounter _ _).trans ?_
    | with_reducible refine (schedulePhaseTimer_specialCounter _ _ _ _).trans ?_
    | with_reducible refine (scheduleRevealTimeoutIfNeeded_specialCounter _ _).trans ?_
    | with_reducible refine (revealNextBunkerCard_specialCounter _ _).trans ?_
    | with_reducible refine (startVoting_specialCounter _ _).trans ?_
    | with_reducible refine (resetVotesForRevote_specialCounter _ _).trans ?_
    | with_reducible refine (startTieBreakRevote_specialCounter _ _ _).trans ?_
    | with_reducible refine (handleOnOwnerEliminated_specialCounter _ _).trans ?_
    | with_reducible refine (handleSecretEliminationTriggers_specialCounter _ _).trans ?_
    | with_reducible refine (startNextRoundOrEnd_specialCounter _ _).trans ?_
    | with_reducible refine (enterRevealDiscussion_specialCounter _ _).trans ?_
    | with_reducible refine (enterVoteSpecialWindow_specialCounter _ _).trans ?_
    | split)

theorem applyElimination_specialCounter (g : gameSession) (t : String) :
    (applyElimination g t).specialCounter = g.specialCounter := by
  unfold applyElimination
  dsimp only [makeEvent, clearActiveTimer, removeFromVoting, markSpecialUsed, modifyCard,
    markVoteWasted]
  repeat' (first
    | with_reducible rfl
    | with_reducible refine ite_fst_specialCounter _ _ _ _ ?_ ?_
    | with_reducible refine ite_specialCounter _ _ _ _ ?_ ?_
    | with_reducible refine (finishGame_specialCounter _ _ _).trans ?_
    | with_reducible refine (passTurnFrom_specialCounter _ _).trans ?_
    | with_reducible refine (schedulePhaseTimer_specialCounter _ _ _ _).trans ?_
    | with_reducible refine (scheduleRevealTimeoutIfNeeded_specialCounter _ _).trans ?_
    | with_reducible refine (revealNextBunkerCard_specialCounter _ _).trans ?_
    | with_reducible refine (startVoting_specialCounter _ _).trans ?_
    | with_reducible refine (resetVotesForRevote_specialCounter _ _).trans ?_
    | with_reducible refine (startTieBreakRevote_specialCounter _ _ _).trans ?_
    | with_reducible refine (handleOnOwnerEliminated_specialCounter _ _).trans ?_
    | with_reducible refine (handleSecretEliminationTriggers_specialCounter _ _).trans ?_
    | with_reducible refine (startNextRoundOrEnd_specialCounter _ _).trans ?_
    | with_reducible refine (enterRevealDiscussion_specialCounter _ _).trans ?_
    | with_reducible refine (enterVoteSpecialWindow_specialCounter _ _).trans ?_
    | with_reducible refine (vote_specialCounter _ _ _ _).trans ?_
    | split)

theorem finalizeVoting_specialCounter (g : gameSession) (a : String) (now : Int) :
    (finalizeVoting g a now).1.specialCounter = g.specialCounter := by
  unfold finalizeVoting
  dsimp only [makeEvent, clearActiveTimer, removeFromVoting, markSpecialUsed, modifyCard,
    markVoteWasted]
  repeat' (first
    | with_reducible rfl
    | with_reducible refine ite_fst_specialCounter _ _ _ _ ?_ ?_
    | with_reducible refine ite_specialCounter _ _ _ _ ?_ ?_
    | with_reducible refine (finishGame_specialCounter _ _ _).trans ?_
    | with_reducible refine (passTurnFrom_specialCounter _ _).trans ?_
    | with_reducible refine (schedulePhaseTimer_specialCounter _ _ _ _).trans ?_
    | with_reducible refine (scheduleRevealTimeoutIfNeeded_specialCounter _ _).trans ?_
    | with_reducible refine (revealNextBunkerCard_specialCounter _ _).trans ?_
    | with_reducible refine (startVoting_specialCounter _ _).trans ?_
    | with_reducible refine (resetVotesForRevote_specialCounter _ _).trans ?_
    | with_reducible refine (startTieBreakRevote_specialCounter _ _ _).trans ?_
    | with_reducible refine (handleOnOwnerEliminated_specialCounter _ _).trans ?_
    | with_reducible refine (handleSecretEliminationTriggers_specialCounter _ _).trans ?_
    | with_reducible refine (startNextRoundOrEnd_specialCounter _ _).trans ?_
    | with_reducible refine (enterRevealDiscussion_specialCounter _ _).trans ?_
    | with_reducible refine (enterVoteSpecialWindow_specialCounter _ _).trans ?_
    | with_reducible refine (vote_specialCounter _ _ _ _).trans ?_
    | with_reducible refine (applyElimination_specialCounter _ _).trans ?_
    | split)

theorem advanceAfterDiscussion_specialCounter (g : gameSession) (now : Int) :
    (advanceAfterDiscussion g now).1.specialCounter = g.specialCounter := by
  unfold advanceAfterDiscussion
  dsimp only [makeEvent, clearActiveTimer, removeFromVoting, markSpecialUsed, modifyCard,
    markVoteWasted]
  repeat' (first
    | with_reducible rfl
    | with_reducible refine ite_fst_specialCounter _ _ _ _ ?_ ?_
    | with_reducible refine ite_specialCounter _ _ _ _ ?_ ?_
    | with_reducible refine (finishGame_specialCounter _ _ _).trans ?_
    | with_reducible refine (passTurnFrom_specialCounter _ _).trans ?_
    | with_reducible refine (schedulePhaseTimer_specialCounter _ _ _ _).trans ?_
    | with_reducible refine (scheduleRevealTimeoutIfNeeded_specialCounter _ _).trans ?_
    | with_reducible refine (revealNextBunkerCard_specialCounter _ _).trans ?_
    | with_reducible refine (startVoting_specialCounter _ _).trans ?_
    | with_reducible refine (resetVotesForRevote_specialCounter _ _).trans ?_
    | with_reducible refine (startTieBreakRevote_specialCounter _ _ _).trans ?_
    | with_reducible refine (handleOnOwnerEliminated_specialCounter _ _).trans ?_
    | with_reducible refine (handleSecretEliminationTriggers_specialCounter _ _).trans ?_
    | with_reducible refine (startNextRoundOrEnd_specialCounter _ _).trans ?_
    | with_reducible refine (enterRevealDiscussion_specialCounter _ _).trans ?_
    | with_reducible refine (enterVoteSpecialWindow_specialCounter _ _).trans ?_
    | with_reducible refine (vote_specialCounter _ _ _ _).trans ?_
    | with_reducible refine (applyElimination_specialCounter _ _).trans ?_
    | with_reducible refine (finalizeVoting_specialCounter _ _ _).trans ?_
    | split)

theorem continueRound_specialCounter (g : gameSession) (a : String) (now : Int) :
    (continueRound g a now).1.specialCounter = g.specialCounter := by
  unfold continueRound
  dsimp only [makeEvent, clearActiveTimer, removeFromVoting, markSpecialUsed, modifyCard,
    markVoteWasted]
  repeat' (first
    | with_reducible rfl
    | with_reducible refine ite_fst_specialCounter _ _ _ _ ?_ ?_
    | with_reducible refine ite_specialCounter _ _ _ _ ?_ ?_
    | with_reducible refine (finishGame_specialCounter _ _ _).trans ?_
    | with_reducible refine (passTurnFrom_specialCounter _ _).trans ?_
    | with_reducible refine (schedulePhaseTimer_specialCounter _ _ _ _).trans ?_
    | with_reducible refine (scheduleRevealTimeoutIfNeeded_specialCounter _ _).trans ?_
    | with_reducible refine (revealNextBunkerCard_specialCounter _ _).trans ?_
    | with_reducible refine (startVoting_specialCounter _ _).trans ?_
    | with_reducible refine (resetVotesForRevote_specialCounter _ _).trans ?_
    | with_reducible refine (startTieBreakRevote_specialCounter _ _ _).trans ?_
    | with_reducible refine (handleOnOwnerEliminated_specialCounter _ _).trans ?_
    | with_reducible refine (handleSecretEliminationTriggers_specialCounter _ _).trans ?_
    | with_reducible refine (startNextRoundOrEnd_specialCounter _ _).trans ?_
    | with_reducible refine (enterRevealDiscussion_specialCounter _ _).trans ?_
    | with_reducible refine (enterVoteSpecialWindow_specialCounter _ _).trans ?_
    | with_reducible refine (vote_specialCounter _ _ _ _).trans ?_
    | with_reducible refine (applyElimination_specialCounter _ _).trans ?_
    | with_reducible refine (finalizeVoting_specialCounter _ _ _).trans ?_
    | with_reducible refine (advanceAfterDiscussion_specialCounter _ _).trans ?_
    | split)

theorem kickPlayer_specialCounter (g : gameSession) (t : String) (now : Int) :
    (kickPlayer g t now).1.specialCounter = g.specialCounter := by
  unfold kickPlayer
  dsimp only [makeEvent, clearActiveTimer, removeFromVoting, markSpecialUsed, modifyCard,
    markVoteWasted]
  repeat' (first
    | with_reducible rfl
    | with_reducible refine ite_fst_specialCounter _ _ _ _ ?_ ?_
    | with_reducible refine ite_specialCounter _ _ _ _ ?_ ?_
    | with_reducible refine (finishGame_specialCounter _ _ _).trans ?_
    | with_reducible refine (passTurnFrom_specialCounter _ _).trans ?_
    | with_reducible refine (schedulePhaseTimer_specialCounter _ _ _ _).trans ?_
    | with_reducible refine (scheduleRevealTimeoutIfNeeded_specialCounter _ _).trans ?_
    | with_reducible refine (revealNextBunkerCard_specialCounter _ _).trans ?_
    | with_reducible refine (startVoting_specialCounter _ _).trans ?_
    | with_reducible refine (resetVotesForRevote_specialCounter _ _).trans ?_
    | with_reducible refine (startTieBreakRevote_specialCounter _ _ _).trans ?_
    | with_reducible refine (handleOnOwnerEliminated_specialCounter _ _).trans ?_
    | with_reducible refine (handleSecretEliminationTriggers_specialCounter _ _).trans ?_
    | with_reducible refine (startNextRoundOrEnd_specialCounter _ _).trans ?_
    | with_reducible refine (enterRevealDiscussion_specialCounter _ _).trans ?_
    | with_reducible refine (enterVoteSpecialWindow_specialCounter _ _).trans ?_
    | with_reducible refine (vote_specialCounter _ _ _ _).trans ?_
    | with_reducible refine (applyElimination_specialCounter _ _).trans ?_
    | with_reducible refine (finalizeVoting_specialCounter _ _ _).trans ?_
    | with_reducible refine (advanceAfterDiscussion_specialCounter _ _).trans ?_
    | with_reducible refine (continueRound_specialCounter _ _ _).trans ?_
    | split)

theorem markLeftBunker_specialCounter (g : gameSession) (t : String) (now : Int) :
    (markLeftBunker g t now).1.specialCounter = g.specialCounter := by
  unfold markLeftBunker
  dsimp only [makeEvent, clearActiveTimer, removeFromVoting, markSpecialUsed, modifyCard,
    markVoteWasted]
  repeat' (first
    | with_reducible rfl
    | with_reducible refine ite_fst_specialCounter _ _ _ _ ?_ ?_
    | with_reducible refine ite_specialCounter _ _ _ _ ?_ ?_
    | with_reducible refine (finishGame_specialCounter _ _ _).trans ?_
    | with_reducible refine (passTurnFrom_specialCounter _ _).trans ?_
    | with_reducible refine (schedulePhaseTimer_specialCounter _ _ _ _).trans ?_
    | with_reducible refine (scheduleRevealTimeoutIfNeeded_specialCounter _ _).trans ?_
    | with_reducible refine (revealNextBunkerCard_specialCounter _ _).trans ?_
    | with_reducible refine (startVoting_specialCounter _ _).trans ?_
    | with_reducible refine (resetVotesForRevote_specialCounter _ _).trans ?_
    | with_reducible refine (startTieBreakRevote_specialCounter _ _ _).trans ?_
    | with_reducible refine (handleOnOwnerEliminated_specialCounter _ _).trans ?_
    | with_reducible refine (handleSecretEliminationTriggers_specialCounter _ _).trans ?_
    | with_reducible refine (startNextRoundOrEnd_specialCounter _ _).trans ?_
    | with_reducible refine (enterRevealDiscussion_specialCounter _ _).trans ?_
    | with_reducible refine (enterVoteSpecialWindow_specialCounter _ _).trans ?_
    | with_reducible refine (vote_specialCounter _ _ _ _).trans ?_
    | with_reducible refine (applyElimination_specialCounter _ _).trans ?_
    | with_reducible refine (finalizeVoting_specialCounter _ _ _).trans ?_
    | with_reducible refine (advanceAfterDiscussion_specialCounter _ _).trans ?_
    | with_reducible refine (continueRound_specialCounter _ _ _).trans ?_
    | with_reducible refine (kickPlayer_specialCounter _ _ _).trans ?_
    | split)

theorem revealCard_specialCounter (g : gameSession) (a c : String) (now : Int) :
    (revealCard g a c now).1.specialCounter = g.specialCounter := by
  unfold revealCard
  dsimp only [makeEvent, clearActiveTimer, removeFromVoting, markSpecialUsed, modifyCard,
    markVoteWasted]
  repeat' (first
    | with_reducible rfl
    | with_reducible refine ite_fst_specialCounter _ _ _ _ ?_ ?_
    | with_reducible refine ite_specialCounter _ _ _ _ ?_ ?_
    | with_reducible refine (finishGame_specialCounter _ _ _).trans ?_
    | with_reducible refine (passTurnFrom_specialCounter _ _).trans ?_
    | with_reducible refine (schedulePhaseTimer_specialCounter _ _ _ _).trans ?_
    | with_reducible refine (scheduleRevealTimeoutIfNeeded_specialCounter _ _).trans ?_
    | with_reducible refine (revealNextBunkerCard_specialCounter _ _).trans ?_
    | with_reducible refine (startVoting_specialCounter _ _).trans ?_
    | with_reducible refine (resetVotesForRevote_specialCounter _ _).trans ?_
    | with_reducible refine (startTieBreakRevote_specialCounter _ _ _).trans ?_
    | with_reducible refine (handleOnOwnerEliminated_specialCounter _ _).trans ?_
    | with_reducible refine (handleSecretEliminationTriggers_specialCounter _ _).trans ?_
    | with_reducible refine (startNextRoundOrEnd_specialCounter _ _).trans ?_
    | with_reducible refine (enterRevealDiscussion_specialCounter _ _).trans ?_
    | with_reducible refine (enterVoteSpecialWindow_specialCounter _ _).trans ?_
    | with_reducible refine (vote_specialCounter _ _ _ _).trans ?_
    | with_reducible refine (applyElimination_specialCounter _ _).trans ?_
    | with_reducible refine (finalizeVoting_specialCounter _ _ _).trans ?_
    | with_reducible refine (advanceAfterDiscussion_specialCounter _ _).trans ?_
    | with_reducible refine (continueRound_specialCounter _ _ _).trans ?_
    | with_reducible refine (kickPlayer_specialCounter _ _ _).trans ?_
    | with_reducible refine (markLeftBunker_specialCounter _ _ _).trans ?_
    | split)

theorem handleRevealPhaseTimeout_specialCounter (g : gameSession) (now : Int) :
    (handleRevealPhaseTimeout g now).1.specialCounter = g.specialCounter := by
  unfold handleRevealPhaseTimeout
  dsimp only [makeEvent, clearActiveTimer, removeFromVoting, markSpecialUsed, modifyCard,
    markVoteWasted]
  repeat' (first
    | with_reducible rfl
    | with_reducible refine ite_fst_specialCounter _ _ _ _ ?_ ?_
    | with_reducible refine ite_specialCounter _ _ _ _ ?_ ?_
    | with_reducible refine (finishGame_specialCounter _ _ _).trans ?_
    | with_reducible refine (passTurnFrom_specialCounter _ _).trans ?_
    | with_reducible refine (schedulePhaseTimer_specialCounter _ _ _ _).trans ?_
    | with_reducible refine (scheduleRevealTimeoutIfNeeded_specialCounter _ _).trans ?_
    | with_reducible refine (revealNextBunkerCard_specialCounter _ _).trans ?_
    | with_reducible refine (startVoting_specialCounter _ _).trans ?_
    | with_reducible refine (resetVotesForRevote_specialCounter _ _).trans ?_
    | with_reducible refine (startTieBreakRevote_specialCounter _ _ _).trans ?_
    | with_reducible refine (handleOnOwnerEliminated_specialCounter _ _).trans ?_
    | with_reducible refine (handleSecretEliminationTriggers_specialCounter _ _).trans ?_
    | with_reducible refine (startNextRoundOrEnd_specialCounter _ _).trans ?_
    | with_reducible refine (enterRevealDiscussion_specialCounter _ _).trans ?_
    | with_reducible refine (enterVoteSpecialWindow_specialCounter _ _).trans ?_
    | with_reducible refine (vote_specialCounter _ _ _ _).trans ?_
    | with_reducible refine (applyElimination_specialCounter _ _).trans ?_
    | with_reducible refine (finalizeVoting_specialCounter _ _ _).trans ?_
    | with_reducible refine (advanceAfterDiscussion_specialCounter _ _).trans ?_
    | with_reducible refine (continueRound_specialCounter _ _ _).trans ?_
    | with_reducible refine (kickPlayer_specialCounter _ _ _).trans ?_
    | with_reducible refine (markLeftBunker_specialCounter _ _ _).trans ?_
    | with_reducible refine (revealCard_specialCounter _ _ _ _).trans ?_
    | split)

theorem handleTimerExpired_specialCounter (g : gameSession) (now : Int) :
    (handleTimerExpired g now).1.specialCounter = g.specialCounter := by
  unfold handleTimerExpired
  dsimp only [makeEvent, clearActiveTimer, removeFromVoting, markSpecialUsed, modifyCard,
    markVoteWasted]
  repeat' (first
    | with_reducible rfl
    | with_reducible refine ite_fst_specialCounter _ _ _ _ ?_ ?_
    | with_reducible refine ite_specialCounter _ _ _ _ ?_ ?_
    | with_reducible refine (finishGame_specialCounter _ _ _).trans ?_
    | with_reducible refine (passTurnFrom_specialCounter _ _).trans ?_
    | with_reducible refine (schedulePhaseTimer_specialCounter _ _ _ _).trans ?_
    | with_reducible refine (scheduleRevealTimeoutIfNeeded_specialCounter _ _).trans ?_
    | with_reducible refine (revealNextBunkerCard_specialCounter _ _).trans ?_
    | with_reducible refine (startVoting_specialCounter _ _).trans ?_
    | with_reducible refine (resetVotesForRevote_specialCounter _ _).trans ?_
    | with_reducible refine (startTieBreakRevote_specialCounter _ _ _).trans ?_
    | with_reducible refine (handleOnOwnerEliminated_specialCounter _ _).trans ?_
    | with_reducible refine (handleSecretEliminationTriggers_specialCounter _ _).trans ?_
    | with_reducible refine (startNextRoundOrEnd_specialCounter _ _).trans ?_
    | with_reducible refine (enterRevealDiscussion_specialCounter _ _).trans ?_
    | with_reducible refine (enterVoteSpecialWindow_specialCounter _ _).trans ?_
    | with_reducible refine (vote_specialCounter _ _ _ _).trans ?_
    | with_reducible refine (applyElimination_specialCounter _ _).trans ?_
    | with_reducible refine (finalizeVoting_specialCounter _ _ _).trans ?_
    | with_reducible refine (advanceAfterDiscussion_specialCounter _ _).trans ?_
    | with_reducible refine (continueRound_specialCounter _ _ _).trans ?_
    | with_reducible refine (kickPlayer_specialCounter _ _ _).trans ?_
    | with_reducible refine (markLeftBunker_specialCounter _ _ _).trans ?_
    | with_reducible refine (revealCard_specialCounter _ _ _ _).trans ?_
    | with_reducible refine (handleRevealPhaseTimeout_specialCounter _ _).trans ?_
    | split)



/-! ## Instance ids: calls that leave the ids of the stored players alone -/

theorem playerIds_modify (ps : GoMap gamePlayer) (k : String) (f : gamePlayer → gamePlayer)
    (hf : ∀ p, handIDs (f p) = handIDs p ∧ abilityIDs (f p) = abilityIDs p) :
    playerIds (mapModify ps k f) = playerIds ps := by
  induction ps with
  | nil => rfl
  | cons e t ih =>
    obtain ⟨a, v⟩ := e
    unfold mapModify
    split
    · show (handIDs (f v), abilityIDs (f v)) :: playerIds t = (handIDs v, abilityIDs v) :: _
      rw [(hf v).1, (hf v).2]
      rfl
    · show (handIDs v, abilityIDs v) :: playerIds (mapModify t k f) =
        (handIDs v, abilityIDs v) :: playerIds t
      rw [ih]

theorem abilityIDs_map (p : gamePlayer) (f : specialConditionState → specialConditionState)
    (hf : ∀ s, (f s).InstanceID = s.InstanceID) :
    abilityIDs { p with Specials := p.Specials.map f } = abilityIDs p := by
  unfold abilityIDs
  dsimp only
  rw [List.map_map]
  exact List.map_congr_left (fun s _ => hf s)

theorem map_listModify {α β : Type} (l : List α) (i : Nat) (f : α → α) (v : α → β)
    (hf : ∀ a, v (f a) = v a) : (listModify l i f).map v = l.map v := by
  induction l generalizing i with
  | nil => rfl
  | cons a t ih =>
    cases i with
    | zero =>
      show v (f a) :: t.map v = v a :: t.map v
      rw [hf]
    | succ n =>
      show v a :: (listModify t n f).map v = v a :: t.map v
      rw [ih]

theorem handIDs_reveal (cardID : String) (p : gamePlayer) :
    handIDs { p with Hand := revealFirstMatching cardID p.Hand } = handIDs p := by
  unfold handIDs
  dsimp only
  generalize p.Hand = l
  induction l with
  | nil => rfl
  | cons c t ih =>
    unfold revealFirstMatching
    split
    · rfl
    · rw [List.map_cons, List.map_cons, ih]

theorem modifyCard_playerIds (g : gameSession) (id : String) (idx : Nat) (f : handCard → handCard)
    (hf : ∀ c, (f c).InstanceID = c.InstanceID) :
    playerIds (modifyCard g id idx f).Players = playerIds g.Players :=
  playerIds_modify _ _ _ (fun p => ⟨map_listModify p.Hand idx f _ hf, rfl⟩)

theorem markSpecialUsed_playerIds (g : gameSession) (a : String) (idx : Nat) :
    playerIds (markSpecialUsed g a idx).Players = playerIds g.Players :=
  playerIds_modify _ _ _ (fun p => ⟨rfl, map_listModify p.Specials idx _ _ (fun _ => rfl)⟩)

theorem ite_fst_playerIds {β : Type} (c : Prop) [Decidable c] (a b : gameSession × β)
    (v : List (List String × List String)) (ha : playerIds a.1.Players = v) (hb : playerIds b.1.Players = v) :
    playerIds (if c then a else b).1.Players = v := by
  split
  · exact ha
  · exact hb

theorem ite_playerIds (c : Prop) [Decidable c] (a b : gameSession) (v : List (List String × List String))
    (ha : playerIds a.Players = v) (hb : playerIds b.Players = v) : playerIds (if c then a else b).Players = v := by
  split
  · exact ha
  · exact hb

theorem schedulePhaseTimer_playerIds (g : gameSession) (k : String) (s now : Int) :
    playerIds (schedulePhaseTimer g k s now).Players = playerIds g.Players := by
  unfold schedulePhaseTimer
  split <;> rfl

theorem scheduleRevealTimeoutIfNeeded_playerIds (g : gameSession) (now : Int) :
    playerIds (scheduleRevealTimeoutIfNeeded g now).Players = playerIds g.Players := by
  unfold scheduleRevealTimeoutIfNeeded
  repeat' split
  all_goals first | rfl | exact schedulePhaseTimer_playerIds _ _ _ _

theorem revealNextBunkerCard_playerIds (g : gameSession) (round : Int) :
    playerIds (revealNextBunkerCard g round).Players = playerIds g.Players := by
  unfold revealNextBunkerCard
  split <;> rfl

theorem finishGame_playerIds (g : gameSession) (reason : String) (now : Int) :
    playerIds (finishGame g reason now).1.Players = playerIds g.Players := by
  unfold finishGame
  dsimp only
  split <;> rfl

theorem startVotingStep_playerIds (now : Int) (g : gameSession) (e : String × gamePlayer) :
    playerIds (startVotingStep now g e).Players = playerIds g.Players := by
  unfold startVotingStep
  repeat' split
  all_goals first
    | rfl
    | exact playerIds_modify _ _ _ (fun _ => ⟨rfl, rfl⟩)

theorem startVoting_playerIds (g : gameSession) (now : Int) :
    playerIds (startVoting g now).Players = playerIds g.Players := by
  unfold startVoting
  dsimp only
  exact (foldl_keeps _ (fun s : gameSession => playerIds s.Players)
    (startVotingStep_playerIds now) _ _).trans rfl

theorem passTurnFrom_playerIds (g : gameSession) (id : String) :
    playerIds (passTurnFrom g id).Players = playerIds g.Players := by
  unfold passTurnFrom
  split <;> rfl

theorem revealWorldThreat_playerIds (g : gameSession) (a : String) (i : Int) :
    playerIds (revealWorldThreat g a i).1.Players = playerIds g.Players := by
  unfold revealWorldThreat
  repeat' split
  all_goals rfl

theorem setBunkerOutcome_playerIds (g : gameSession) (a o : String) (now : Int) :
    playerIds (setBunkerOutcome g a o now).1.Players = playerIds g.Players := by
  unfold setBunkerOutcome
  repeat' split
  all_goals rfl

theorem resetVotesForRevote_playerIds (g : gameSession) (now : Int) :
    playerIds (resetVotesForRevote g now).Players = playerIds g.Players := by
  unfold resetVotesForRevote
  dsimp only
  exact (foldl_keeps (fun acc voterID => markVoteWasted acc voterID "Голос потрачен." now)
    (fun s : gameSession => playerIds s.Players) (fun _ _ => rfl) _ _).trans rfl

theorem startTieBreakRevote_playerIds (g : gameSession) (c : List String) (now : Int) :
    playerIds (startTieBreakRevote g c now).Players = playerIds g.Players := by
  unfold startTieBreakRevote
  dsimp only [clearActiveTimer]
  rw [resetVotesForRevote_playerIds]

theorem handleOnOwnerEliminated_playerIds (g : gameSession) (id : String) :
    playerIds (handleOnOwnerEliminated g id).Players = playerIds g.Players := by
  unfold handleOnOwnerEliminated
  split
  · rfl
  · exact playerIds_modify _ _ _ (fun p => ⟨rfl, abilityIDs_map _ _ (fun s => by
      split <;> rfl)⟩)

theorem handleSecretEliminationTriggers_playerIds (g : gameSession) (id : String) :
    playerIds (handleSecretEliminationTriggers g id).Players = playerIds g.Players := by
  unfold handleSecretEliminationTriggers
  dsimp only
  refine foldl_keeps _ (fun s : gameSession => playerIds s.Players) ?_ _ _
  intro s a
  exact playerIds_modify _ _ _ (fun p => ⟨rfl, abilityIDs_map _ _ (fun s => by
    split <;> rfl)⟩)

theorem startNextRoundOrEnd_playerIds (g : gameSession) (now : Int) :
    playerIds (startNextRoundOrEnd g now).1.Players = playerIds g.Players := by
  unfold startNextRoundOrEnd
  dsimp only [makeEvent, clearActiveTimer, removeFromVoting, markVoteWasted]
  repeat' (first
    | with_reducible rfl
    | with_reducible refine ite_fst_playerIds _ _ _ _ ?_ ?_
    | with_reducible refine ite_playerIds _ _ _ _ ?_ ?_
    | with_reducible refine (finishGame_playerIds _ _ _).trans ?_
    | with_reducible refine (passTurnFrom_playerIds _ _).trans ?_
    | with_reducible refine (schedulePhaseTimer_playerIds _ _ _ _).trans ?_
    | with_reducible refine (scheduleRevealTimeoutIfNeeded_playerIds _ _).trans ?_
    | with_reducible refine (revealNextBunkerCard_playerIds _ _).trans ?_
    | with_reducible refine (startVoting_playerIds _ _).trans ?_
    | with_reducible refine (resetVotesForRevote_playerIds _ _).trans ?_
    | with_reducible refine (startTieBreakRevote_playerIds _ _ _).trans ?_
    | with_reducible refine (handleOnOwnerEliminated_playerIds _ _).trans ?_
    | with_reducible refine (handleSecretEliminationTriggers_playerIds _ _).trans ?_
    | with_reducible refine (modifyCard_playerIds _ _ _ _ ?_).trans ?_
    | with_reducible refine (playerIds_modify _ _ _ ?_).trans ?_
    | (intro p; exact ⟨rfl, rfl⟩)
    | (intro p; exact ⟨handIDs_reveal _ _, rfl⟩)
    | (intro c; rfl)
    | split)

theorem enterRevealDiscussion_playerIds (g : gameSession) (now : Int) :
    playerIds (enterRevealDiscussion g now).Players = playerIds g.Players := by
  unfold enterRevealDiscussion
  dsimp only [makeEvent, clearActiveTimer, removeFromVoting, markVoteWasted]
  repeat' (first
    | with_reducible rfl
    | with_reducible refine ite_fst_playerIds _ _ _ _ ?_ ?_
    | with_reducible refine ite_playerIds _ _ _ _ ?_ ?_
    | with_reducible refine (finishGame_playerIds _ _ _).trans ?_
    | with_reducible refine (passTurnFrom_playerIds _ _).trans ?_
    | with_reducible refine (schedulePhaseTimer_playerIds _ _ _ _).trans ?_
    | with_reducible refine (scheduleRevealTimeoutIfNeeded_playerIds _ _).trans ?_
    | with_reducible refine (revealNextBunkerCard_playerIds _ _).trans ?_
    | with_reducible refine (startVoting_playerIds _ _).trans ?_
    | with_reducible refine (resetVotesForRevote_playerIds _ _).trans ?_
    | with_reducible refine (startTieBreakRevote_playerIds _ _ _).trans ?_
    | with_reducible refine (handleOnOwnerEliminated_playerIds _ _).trans ?_
    | with_reducible refine (handleSecretEliminationTriggers_playerIds _ _).trans ?_
    | with_reducible refine (startNextRoundOrEnd_playerIds _ _).trans ?_
    | with_reducible refine (modifyCard_playerIds _ _ _ _ ?_).trans ?_
    | with_reducible refine (playerIds_modify _ _ _ ?_).trans ?_
    | (intro p; exact ⟨rfl, rfl⟩)
    | (intro p; exact ⟨handIDs_reveal _ _, rfl⟩)
    | (intro c; rfl)
    | split)

theorem enterVoteSpecialWindow_playerIds (g : gameSession) (now : Int) :
    playerIds (enterVoteSpecialWindow g now).1.Players = playerIds g.Players := by
  unfold enterVoteSpecialWindow
  dsimp only [makeEvent, clearActiveTimer, removeFromVoting, markVoteWasted]
  repeat' (first
    | with_reducible rfl
    | with_reducible refine ite_fst_playerIds _ _ _ _ ?_ ?_
    | with_reducible refine ite_playerIds _ _ _ _ ?_ ?_
    | with_reducible refine (finishGame_playerIds _ _ _).trans ?_
    | with_reducible refine (passTurnFrom_playerIds _ _).trans ?_
    | with_reducible refine (schedulePhaseTimer_playerIds _ _ _ _).trans ?_
    | with_reducible refine (scheduleRevealTimeoutIfNeeded_playerIds _ _).trans ?_
    | with_reducible refine (revealNextBunkerCard_playerIds _ _).trans ?_
    | with_reducible refine (startVoting_playerIds _ _).trans ?_
    | with_reducible refine (resetVotesForRevote_playerIds _ _).trans ?_
    | with_reducible refine (startTieBreakRevote_playerIds _ _ _).trans ?_
    | with_reducible refine (handleOnOwnerEliminated_playerIds _ _).trans ?_
    | with_reducible refine (handleSecretEliminationTriggers_playerIds _ _).trans ?_
    | with_reducible refine (startNextRoundOrEnd_playerIds _ _).trans ?_
    | with_reducible refine (enterRevealDiscussion_playerIds _ _).trans ?_
    | with_reducible refine (modifyCard_playerIds _ _ _ _ ?_).trans ?_
    | with_reducible refine (playerIds_modify _ _ _ ?_).trans ?_
    | (intro p; exact ⟨rfl, rfl⟩)
    | (intro p; exact ⟨handIDs_reveal _ _, rfl⟩)
    | (intro c; rfl)
    | split)

theorem vote_playerIds (g : gameSession) (a t : String) (now : Int) :
    playerIds (vote g a t now).1.Players = playerIds g.Players := by
  unfold vote
  dsimp only [makeEvent, clearActiveTimer, removeFromVoting, markVoteWasted]
  repeat' (first
    | with_reducible rfl
    | with_reducible refine ite_fst_playerIds _ _ _ _ ?_ ?_
    | with_reducible refine ite_playerIds _ _ _ _ ?_ ?_
    | with_reducible refine (finishGame_playerIds _ _ _).trans ?_
    | with_reducible refine (passTurnFrom_playerIds _ _).trans ?_
    | with_reducible refine (schedulePhaseTimer_playerIds _ _ _ _).trans ?_
    | with_reducible refine (scheduleRevealTimeoutIfNeeded_playerIds _ _).trans ?_
    | with_reducible refine (revealNextBunkerCard_playerIds _ _).trans ?_
    | with_reducible refine (startVoting_playerIds _ _).trans ?_
    | with_reducible refine (resetVotesForRevote_playerIds _ _).trans ?_
    | with_reducible refine (startTieBreakRevote_playerIds _ _ _).trans ?_
    | with_reducible refine (handleOnOwnerEliminated_playerIds _ _).trans ?_
    | with_reducible refine (handleSecretEliminationTriggers_playerIds _ _).trans ?_
    | with_reducible refine (startNextRoundOrEnd_playerIds _ _).trans ?_
    | with_reducible refine (enterRevealDiscussion_playerIds _ _).trans ?_
    | with_reducible refine (enterVoteSpecialWindow_playerIds _ _).trans ?_
    | with_reducible refine (modifyCard_playerIds _ _ _ _ ?_).trans ?_
    | with_reducible refine (playerIds_modify _ _ _ ?_).trans ?_
    | (intro p; exact ⟨rfl, rfl⟩)
    | (intro p; exact ⟨handIDs_reveal _ _, rfl⟩)
    | (intro c; rfl)
    | split)

theorem applyElimination_playerIds (g : gameSession) (t : String) :
    playerIds (applyElimination g t).Players = playerIds g.Players := by
  unfold applyElimination
  dsimp only [makeEvent, clearActiveTimer, removeFromVoting, markVoteWasted]
  repeat' (first
    | with_reducible rfl
    | with_reducible refine ite_fst_playerIds _ _ _ _ ?_ ?_
    | with_reducible refine ite_playerIds _ _ _ _ ?_ ?_
    | with_reducible refine (finishGame_playerIds _ _ _).trans ?_
    | with_reducible refine (passTurnFrom_playerIds _ _).trans ?_
    | with_reducible refine (schedulePhaseTimer_playerIds _ _ _ _).trans ?_
    | with_reducible refine (scheduleRevealTimeoutIfNeeded_playerIds _ _).trans ?_
    | with_reducible refine (revealNextBunkerCard_playerIds _ _).trans ?_
    | with_reducible refine (startVoting_playerIds _ _).trans ?_
    | with_reducible refine (resetVotesForRevote_playerIds _ _).trans ?_
    | with_reducible refine (startTieBreakRevote_playerIds _ _ _).trans ?_
    | with_reducible refine (handleOnOwnerEliminated_playerIds _ _).trans ?_
    | with_reducible refine (handleSecretEliminationTriggers_playerIds _ _).trans ?_
    | with_reducible refine (startNextRoundOrEnd_playerIds _ _).trans ?_
    | with_reducible refine (enterRevealDiscussion_playerIds _ _).trans ?_
    | with_reducible refine (enterVoteSpecialWindow_playerIds _ _).trans ?_
    | with_reducible refine (vote_playerIds _ _ _ _).trans ?_
    | with_reducible refine (modifyCard_playerIds _ _ _ _ ?_).trans ?_
    | with_reducible refine (playerIds_modify _ _ _ ?_).trans ?_
    | (intro p; exact ⟨rfl, rfl⟩)
    | (intro p; exact ⟨handIDs_reveal _ _, rfl⟩)
    | (intro c; rfl)
    | split)

theorem finalizeVoting_playerIds (g : gameSession) (a : String) (now : Int) :
    playerIds (finalizeVoting g a now).1.Players = playerIds g.Players := by
  unfold finalizeVoting
  dsimp only [makeEvent, clearActiveTimer, removeFromVoting, markVoteWasted]
  repeat' (first
    | with_reducible rfl
    | with_reducible refine ite_fst_playerIds _ _ _ _ ?_ ?_
    | with_reducible refine ite_playerIds _ _ _ _ ?_ ?_
    | with_reducible refine (finishGame_playerIds _ _ _).trans ?_
    | with_reducible refine (passTurnFrom_playerIds _ _).trans ?_
    | with_reducible refine (schedulePhaseTimer_playerIds _ _ _ _).trans ?_
    | with_reducible refine (scheduleRevealTimeoutIfNeeded_playerIds _ _).trans ?_
    | with_reducible refine (revealNextBunkerCard_playerIds _ _).trans ?_
    | with_reducible refine (startVoting_playerIds _ _).trans ?_
    | with_reducible refine (resetVotesForRevote_playerIds _ _).trans ?_
    | with_reducible refine (startTieBreakRevote_playerIds _ _ _).trans ?_
    | with_reducible refine (handleOnOwnerEliminated_playerIds _ _).trans ?_
    | with_reducible refine (handleSecretEliminationTriggers_playerIds _ _).trans ?_
    | with_reducible refine (startNextRoundOrEnd_playerIds _ _).trans ?_
    | with_reducible refine (enterRevealDiscussion_playerIds _ _).trans ?_
    | with_reducible refine (enterVoteSpecialWindow_playerIds _ _).trans ?_
    | with_reducible refine (vote_playerIds _ _ _ _).trans ?_
    | with_reducible refine (applyElimination_playerIds _ _).trans ?_
    | with_reducible refine (modifyCard_playerIds _ _ _ _ ?_).trans ?_
    | with_reducible refine (playerIds_modify _ _ _ ?_).trans ?_
    | (intro p; exact ⟨rfl, rfl⟩)
    | (intro p; exact ⟨handIDs_reveal _ _, rfl⟩)
    | (intro c; rfl)
    | split)

theorem advanceAfterDiscussion_playerIds (g : gameSession) (now : Int) :
    playerIds (advanceAfterDiscussion g now).1.Players = playerIds g.Players := by
  unfold advanceAfterDiscussion
  dsimp only [makeEvent, clearActiveTimer, removeFromVoting, markVoteWasted]
  repeat' (first
    | with_reducible rfl
    | with_reducible refine ite_fst_playerIds _ _ _ _ ?_ ?_
    | with_reducible refine ite_playerIds _ _ _ _ ?_ ?_
    | with_reducible refine (finishGame_playerIds _ _ _).trans ?_
    | with_reducible refine (passTurnFrom_playerIds _ _).trans ?_
    | with_reducible refine (schedulePhaseTimer_playerIds _ _ _ _).trans ?_
    | with_reducible refine (scheduleRevealTimeoutIfNeeded_playerIds _ _).trans ?_
    | with_reducible refine (revealNextBunkerCard_playerIds _ _).trans ?_
    | with_reducible refine (startVoting_playerIds _ _).trans ?_
    | with_reducible refine (resetVotesForRevote_playerIds _ _).trans ?_
    | with_reducible refine (startTieBreakRevote_playerIds _ _ _).trans ?_
    | with_reducible refine (handleOnOwnerEliminated_playerIds _ _).trans ?_
    | with_reducible refine (handleSecretEliminationTriggers_playerIds _ _).trans ?_
    | with_reducible refine (startNextRoundOrEnd_playerIds _ _).trans ?_
    | with_reducible refine (enterRevealDiscussion_playerIds _ _).trans ?_
    | with_reducible refine (enterVoteSpecialWindow_playerIds _ _).trans ?_
    | with_reducible refine (vote_playerIds _ _ _ _).trans ?_
    | with_reducible refine (applyElimination_playerIds _ _).trans ?_
    | with_reducible refine (finalizeVoting_playerIds _ _ _).trans ?_
    | with_reducible refine (modifyCard_playerIds _ _ _ _ ?_).trans ?_
    | with_reducible refine (playerIds_modify _ _ _ ?_).trans ?_
    | (intro p; exact ⟨rfl, rfl⟩)
    | (intro p; exact ⟨handIDs_reveal _ _, rfl⟩)
    | (intro c; rfl)
    | split)

theorem continueRound_playerIds (g : gameSession) (a : String) (now : Int) :
    playerIds (continueRound g a now).1.Players = playerIds g.Players := by
  unfold continueRound
  dsimp only [makeEvent, clearActiveTimer, removeFromVoting, markVoteWasted]
  repeat' (first
    | with_reducible rfl
    | with_reducible refine ite_fst_playerIds _ _ _ _ ?_ ?_
    | with_reducible refine ite_playerIds _ _ _ _ ?_ ?_
    | with_reducible refine (finishGame_playerIds _ _ _).trans ?_
    | with_reducible refine (passTurnFrom_playerIds _ _).trans ?_
    | with_reducible refine (schedulePhaseTimer_playerIds _ _ _ _).trans ?_
    | with_reducible refine (scheduleRevealTimeoutIfNeeded_playerIds _ _).trans ?_
    | with_reducible refine (revealNextBunkerCard_playerIds _ _).trans ?_
    | with_reducible refine (startVoting_playerIds _ _).trans ?_
    | with_reducible refine (resetVotesForRevote_playerIds _ _).trans ?_
    | with_reducible refine (startTieBreakRevote_playerIds _ _ _).trans ?_
    | with_reducible refine (handleOnOwnerEliminated_playerIds _ _).trans ?_
    | with_reducible refine (handleSecretEliminationTriggers_playerIds _ _).trans ?_
    | with_reducible refine (startNextRoundOrEnd_playerIds _ _).trans ?_
    | with_reducible refine (enterRevealDiscussion_playerIds _ _).trans ?_
    | with_reducible refine (enterVoteSpecialWindow_playerIds _ _).trans ?_
    | with_reducible refine (vote_playerIds _ _ _ _).trans ?_
    | with_reducible refine (applyElimination_playerIds _ _).trans ?_
    | with_reducible refine (finalizeVoting_playerIds _ _ _).trans ?_
    | with_reducible refine (advanceAfterDiscussion_playerIds _ _).trans ?_
    | with_reducible refine (modifyCard_playerIds _ _ _ _ ?_).trans ?_
    | with_reducible refine (playerIds_modify _ _ _ ?_).trans ?_
    | (intro p; exact ⟨rfl, rfl⟩)
    | (intro p; exact ⟨handIDs_reveal _ _, rfl⟩)
    | (intro c; rfl)
    | split)

theorem kickPlayer_playerIds (g : gameSession) (t : String) (now : Int) :
    playerIds (kickPlayer g t now).1.Players = playerIds g.Players := by
  unfold kickPlayer
  dsimp only [makeEvent, clearActiveTimer, removeFromVoting, markVoteWasted]
  repeat' (first
    | with_reducible rfl
    | with_reducible refine ite_fst_playerIds _ _ _ _ ?_ ?_
    | with_reducible refine ite_playerIds _ _ _ _ ?_ ?_
    | with_reducible refine (finishGame_playerIds _ _ _).trans ?_
    | with_reducible refine (passTurnFrom_playerIds _ _).trans ?_
    | with_reducible refine (schedulePhaseTimer_playerIds _ _ _ _).trans ?_
    | with_reducible refine (scheduleRevealTimeoutIfNeeded_playerIds _ _).trans ?_
    | with_reducible refine (revealNextBunkerCard_playerIds _ _).trans ?_
    | with_reducible refine (startVoting_playerIds _ _).trans ?_
    | with_reducible refine (resetVotesForRevote_playerIds _ _).trans ?_
    | with_reducible refine (startTieBreakRevote_playerIds _ _ _).trans ?_
    | with_reducible refine (handleOnOwnerEliminated_playerIds _ _).trans ?_
    | with_reducible refine (handleSecretEliminationTriggers_playerIds _ _).trans ?_
    | with_reducible refine (startNextRoundOrEnd_playerIds _ _).trans ?_
    | with_reducible refine (enterRevealDiscussion_playerIds _ _).trans ?_
    | with_reducible refine (enterVoteSpecialWindow_playerIds _ _).trans ?_
    | with_reducible refine (vote_playerIds _ _ _ _).trans ?_
    | with_reducible refine (applyElimination_playerIds _ _).trans ?_
    | with_reducible refine (finalizeVoting_playerIds _ _ _).trans ?_
    | with_reducible refine (advanceAfterDiscussion_playerIds _ _).trans ?_
    | with_reducible refine (continueRound_playerIds _ _ _).trans ?_
    | with_reducible refine (modifyCard_playerIds _ _ _ _ ?_).trans ?_
    | with_reducible refine (playerIds_modify _ _ _ ?_).trans ?_
    | (intro p; exact ⟨rfl, rfl⟩)
    | (intro p; exact ⟨handIDs_reveal _ _, rfl⟩)
    | (intro c; rfl)
    | split)

theorem markLeftBunker_playerIds (g : gameSession) (t : String) (now : Int) :
    playerIds (markLeftBunker g t now).1.Players = playerIds g.Players := by
  unfold markLeftBunker
  dsimp only [makeEvent, clearActiveTimer, removeFromVoting, markVoteWasted]
  repeat' (first
    | with_reducible rfl
    | with_reducible refine ite_fst_playerIds _ _ _ _ ?_ ?_
    | with_reducible refine ite_playerIds _ _ _ _ ?_ ?_
    | with_reducible refine (finishGame_playerIds _ _ _).trans ?_
    | with_reducible refine (passTurnFrom_playerIds _ _).trans ?_
    | with_reducible refine (schedulePhaseTimer_playerIds _ _ _ _).trans ?_
    | with_reducible refine (scheduleRevealTimeoutIfNeeded_playerIds _ _).trans ?_
    | with_reducible refine (revealNextBunkerCard_playerIds _ _).trans ?_
    | with_reducible refine (startVoting_playerIds _ _).trans ?_
    | with_reducible refine (resetVotesForRevote_playerIds _ _).trans ?_
    | with_reducible refine (startTieBreakRevote_playerIds _ _ _).trans ?_
    | with_reducible refine (handleOnOwnerEliminated_playerIds _ _).trans ?_
    | with_reducible refine (handleSecretEliminationTriggers_playerIds _ _).trans ?_
    | with_reducible refine (startNextRoundOrEnd_playerIds _ _).trans ?_
    | with_reducible refine (enterRevealDiscussion_playerIds _ _).trans ?_
    | with_reducible refine (enterVoteSpecialWindow_playerIds _ _).trans ?_
    | with_reducible refine (vote_playerIds _ _ _ _).trans ?_
    | with_reducible refine (applyElimination_playerIds _ _).trans ?_
    | with_reducible refine (finalizeVoting_playerIds _ _ _).trans ?_
    | with_reducible refine (advanceAfterDiscussion_playerIds _ _).trans ?_
    | with_reducible refine (continueRound_playerIds _ _ _).trans ?_
    | with_reducible refine (kickPlayer_playerIds _ _ _).trans ?_
    | with_reducible refine (modifyCard_playerIds _ _ _ _ ?_).trans ?_
    | with_reducible refine (playerIds_modify _ _ _ ?_).trans ?_
    | (intro p; exact ⟨rfl, rfl⟩)
    | (intro p; exact ⟨handIDs_reveal _ _, rfl⟩)
    | (intro c; rfl)
    | split)

theorem revealCard_playerIds (g : gameSession) (a c : String) (now : Int) :
    playerIds (revealCard g a c now).1.Players = playerIds g.Players := by
  unfold revealCard
  dsimp only [makeEvent, clearActiveTimer, removeFromVoting, markVoteWasted]
  repeat' (first
    | with_reducible rfl
    | with_reducible refine ite_fst_playerIds _ _ _ _ ?_ ?_
    | with_reducible refine ite_playerIds _ _ _ _ ?_ ?_
    | with_reducible refine (finishGame_playerIds _ _ _).trans ?_
    | with_reducible refine (passTurnFrom_playerIds _ _).trans ?_
    | with_reducible refine (schedulePhaseTimer_playerIds _ _ _ _).trans ?_
    | with_reducible refine (scheduleRevealTimeoutIfNeeded_playerIds _ _).trans ?_
    | with_reducible refine (revealNextBunkerCard_playerIds _ _).trans ?_
    | with_reducible refine (startVoting_playerIds _ _).trans ?_
    | with_reducible refine (resetVotesForRevote_playerIds _ _).trans ?_
    | with_reducible refine (startTieBreakRevote_playerIds _ _ _).trans ?_
    | with_reducible refine (handleOnOwnerEliminated_playerIds _ _).trans ?_
    | with_reducible refine (handleSecretEliminationTriggers_playerIds _ _).trans ?_
    | with_reducible refine (startNextRoundOrEnd_playerIds _ _).trans ?_
    | with_reducible refine (enterRevealDiscussion_playerIds _ _).trans ?_
    | with_reducible refine (enterVoteSpecialWindow_playerIds _ _).trans ?_
    | with_reducible refine (vote_playerIds _ _ _ _).trans ?_
    | with_reducible refine (applyElimination_playerIds _ _).trans ?_
    | with_reducible refine (finalizeVoting_playerIds _ _ _).trans ?_
    | with_reducible refine (advanceAfterDiscussion_playerIds _ _).trans ?_
    | with_reducible refine (continueRound_playerIds _ _ _).trans ?_
    | with_reducible refine (kickPlayer_playerIds _ _ _).trans ?_
    | with_reducible refine (markLeftBunker_playerIds _ _ _).trans ?_
    | with_reducible refine (modifyCard_playerIds _ _ _ _ ?_).trans ?_
    | with_reducible refine (playerIds_modify _ _ _ ?_).trans ?_
    | (intro p; exact ⟨rfl, rfl⟩)
    | (intro p; exact ⟨handIDs_reveal _ _, rfl⟩)
    | (intro c; rfl)
    | split)

theorem handleRevealPhaseTimeout_playerIds (g : gameSession) (now : Int) :
    playerIds (handleRevealPhaseTimeout g now).1.Players = playerIds g.Players := by
  unfold handleRevealPhaseTimeout
  dsimp only [makeEvent, clearActiveTimer, removeFromVoting, markVoteWasted]
  repeat' (first
    | with_reducible rfl
    | with_reducible refine ite_fst_playerIds _ _ _ _ ?_ ?_
    | with_reducible refine ite_playerIds _ _ _ _ ?_ ?_
    | with_reducible refine (finishGame_playerIds _ _ _).trans ?_
    | with_reducible refine (passTurnFrom_playerIds _ _).trans ?_
    | with_reducible refine (schedulePhaseTimer_playerIds _ _ _ _).trans ?_
    | with_reducible refine (scheduleRevealTimeoutIfNeeded_playerIds _ _).trans ?_
    | with_reducible refine (revealNextBunkerCard_playerIds _ _).trans ?_
    | with_reducible refine (startVoting_playerIds _ _).trans ?_
    | with_reducible refine (resetVotesForRevote_playerIds _ _).trans ?_
    | with_reducible refine (startTieBreakRevote_playerIds _ _ _).trans ?_
    | with_reducible refine (handleOnOwnerEliminated_playerIds _ _).trans ?_
    | with_reducible refine (handleSecretEliminationTriggers_playerIds _ _).trans ?_
    | with_reducible refine (startNextRoundOrEnd_playerIds _ _).trans ?_
    | with_reducible refine (enterRevealDiscussion_playerIds _ _).trans ?_
    | with_reducible refine (enterVoteSpecialWindow_playerIds _ _).trans ?_
    | with_reducible refine (vote_playerIds _ _ _ _).trans ?_
    | with_reducible refine (applyElimination_playerIds _ _).trans ?_
    | with_reducible refine (finalizeVoting_playerIds _ _ _).trans ?_
    | with_reducible refine (advanceAfterDiscussion_playerIds _ _).trans ?_
    | with_reducible refine (continueRound_playerIds _ _ _).trans ?_
    | with_reducible refine (kickPlayer_playerIds _ _ _).trans ?_
    | with_reducible refine (markLeftBunker_playerIds _ _ _).trans ?_
    | with_reducible refine (revealCard_playerIds _ _ _ _).trans ?_
    | with_reducible refine (modifyCard_playerIds _ _ _ _ ?_).trans ?_
    | with_reducible refine (playerIds_modify _ _ _ ?_).trans ?_
    | (intro p; exact ⟨rfl, rfl⟩)
    | (intro p; exact ⟨handIDs_reveal _ _, rfl⟩)
    | (intro c; rfl)
    | split)

theorem handleTimerExpired_playerIds (g : gameSession) (now : Int) :
    playerIds (handleTimerExpired g now).1.Players = playerIds g.Players := by
  unfold handleTimerExpired
  dsimp only [makeEvent, clearActiveTimer, removeFromVoting, markVoteWasted]
  repeat' (first
    | with_reducible rfl
    | with_reducible refine ite_fst_playerIds _ _ _ _ ?_ ?_
    | with_reducible refine ite_playerIds _ _ _ _ ?_ ?_
    | with_reducible refine (finishGame_playerIds _ _ _).trans ?_
    | with_reducible refine (passTurnFrom_playerIds _ _).trans ?_
    | with_reducible refine (schedulePhaseTimer_playerIds _ _ _ _).trans ?_
    | with_reducible refine (scheduleRevealTimeoutIfNeeded_playerIds _ _).trans ?_
    | with_reducible refine (revealNextBunkerCard_playerIds _ _).trans ?_
    | with_reducible refine (startVoting_playerIds _ _).trans ?_
    | with_reducible refine (resetVotesForRevote_playerIds _ _).trans ?_
    | with_reducible refine (startTieBreakRevote_playerIds _ _ _).trans ?_
    | with_reducible refine (handleOnOwnerEliminated_playerIds _ _).trans ?_
    | with_reducible refine (handleSecretEliminationTriggers_playerIds _ _).trans ?_
    | with_reducible refine (startNextRoundOrEnd_playerIds _ _).trans ?_
    | with_reducible refine (enterRevealDiscussion_playerIds _ _).trans ?_
    | with_reducible refine (enterVoteSpecialWindow_playerIds _ _).trans ?_
    | with_reducible refine (vote_playerIds _ _ _ _).trans ?_
    | with_reducible refine (applyElimination_playerIds _ _).trans ?_
    | with_reducible refine (finalizeVoting_playerIds _ _ _).trans ?_
    | with_reducible refine (advanceAfterDiscussion_playerIds _ _).trans ?_
    | with_reducible refine (continueRound_playerIds _ _ _).trans ?_
    | with_reducible refine (kickPlayer_playerIds _ _ _).trans ?_
    | with_reducible refine (markLeftBunker_playerIds _ _ _).trans ?_
    | with_reducible refine (revealCard_playerIds _ _ _ _).trans ?_
    | with_reducible refine (handleRevealPhaseTimeout_playerIds _ _).trans ?_
    | with_reducible refine (modifyCard_playerIds _ _ _ _ ?_).trans ?_
    | with_reducible refine (playerIds_modify _ _ _ ?_).trans ?_
    | (intro p; exact ⟨rfl, rfl⟩)
    | (intro p; exact ⟨handIDs_reveal _ _, rfl⟩)
    | (intro c; rfl)
    | split)



/-! ## Instance ids: what the writes to the stored players do to the ids -/

/-- A write to one stored player adds to the count of an id what it adds for that player. -/
theorem count_modify_le (v : gamePlayer → List String) (ps : GoMap gamePlayer) (k : String)
    (f : gamePlayer → gamePlayer) (x : String) (m : Nat)
    (hf : ∀ p, (v (f p)).count x ≤ (v p).count x + m) :
    ((mapModify ps k f).map (fun e => v e.2)).flatten.count x ≤
      (ps.map (fun e => v e.2)).flatten.count x + m := by
  induction ps with
  | nil => exact Nat.zero_le _
  | cons e t ih =>
    obtain ⟨a, p⟩ := e
    unfold mapModify
    split
    · simp only [List.map_cons, List.flatten_cons, List.count_append]
      have := hf p
      omega
    · simp only [List.map_cons, List.flatten_cons, List.count_append]
      omega

/-- A write to one stored player that leaves the ids of this kind alone. -/
theorem count_modify_same (v : gamePlayer → List String) (ps : GoMap gamePlayer) (k : String)
    (f : gamePlayer → gamePlayer) (hf : ∀ p, v (f p) = v p) :
    ((mapModify ps k f).map (fun e => v e.2)).flatten = (ps.map (fun e => v e.2)).flatten := by
  induction ps with
  | nil => rfl
  | cons e t ih =>
    obtain ⟨a, p⟩ := e
    unfold mapModify
    split
    · simp only [List.map_cons, List.flatten_cons, hf]
    · simp only [List.map_cons, List.flatten_cons, ih]

/-- Storing a player adds to the count of an id at most what the new record holds. -/
theorem count_mapSet_le (v : gamePlayer → List String) (ps : GoMap gamePlayer) (k : String)
    (p : gamePlayer) (x : String) :
    ((mapSet ps k p).map (fun e => v e.2)).flatten.count x ≤
      (ps.map (fun e => v e.2)).flatten.count x + (v p).count x := by
  unfold mapSet
  split
  · exact count_modify_le v ps k (fun _ => p) x _ (fun q => Nat.le_add_left _ _)
  · simp only [List.map_append, List.flatten_append, List.count_append, List.map_cons,
      List.map_nil, List.flatten_cons, List.flatten_nil, List.append_nil]
    exact le_refl _

/-- Deleting a player adds nothing to the count of an id. -/
theorem count_mapDel_le (v : gamePlayer → List String) (ps : GoMap gamePlayer) (k : String)
    (x : String) :
    ((mapDel ps k).map (fun e => v e.2)).flatten.count x ≤
      (ps.map (fun e => v e.2)).flatten.count x := by
  unfold mapDel
  induction ps with
  | nil => exact le_refl _
  | cons e t ih =>
    rw [List.filter_cons]
    split
    · simp only [List.map_cons, List.flatten_cons, List.count_append]
      omega
    · simp only [List.map_cons, List.flatten_cons, List.count_append]
      omega

theorem allCardIDs_eq (g : gameSession) :
    allCardIDs g = (g.Players.map (fun e => handIDs e.2)).flatten := rfl

theorem allSpecialIDs_eq (g : gameSession) :
    allSpecialIDs g = (g.Players.map (fun e => abilityIDs e.2)).flatten := rfl

theorem allCardIDs_of_playerIds (g g2 : gameSession)
    (h : playerIds g2.Players = playerIds g.Players) : allCardIDs g2 = allCardIDs g := by
  have h1 := congrArg (fun l : List (List String × List String) => (l.map Prod.fst).flatten) h
  simp only [playerIds, List.map_map] at h1
  exact h1

theorem allSpecialIDs_of_playerIds (g g2 : gameSession)
    (h : playerIds g2.Players = playerIds g.Players) : allSpecialIDs g2 = allSpecialIDs g := by
  have h1 := congrArg (fun l : List (List String × List String) => (l.map Prod.snd).flatten) h
  simp only [playerIds, List.map_map] at h1
  exact h1

theorem mintedSpecials_append (n : Int) (a b : List String) :
    mintedSpecials n (a ++ b) = mintedSpecials n a ++ mintedSpecials (n + a.length) b := by
  rw [mintedSpecials_eq, mintedSpecials_eq, mintedSpecials_eq, List.map_append,
    mintedCards_append, List.length_map]

/-- A call that issues no id and leaves the ids of the stored players alone. -/
theorem IdStep_of_same (g g2 : gameSession)
    (hP : playerIds g2.Players = playerIds g.Players) (hc : g2.CardCounter = g.CardCounter)
    (hs : g2.specialCounter = g.specialCounter) : IdStep g g2 := by
  refine ⟨⟨[], ?_, ?_⟩, ⟨[], ?_, ?_⟩⟩
  · rw [hc]
    simp
  · intro x
    rw [allCardIDs_of_playerIds g g2 hP]
    exact Nat.le_add_right _ _
  · rw [hs]
    simp
  · intro x
    rw [allSpecialIDs_of_playerIds g g2 hP]
    exact Nat.le_add_right _ _

theorem IdStep_refl (g : gameSession) : IdStep g g := IdStep_of_same g g rfl rfl rfl

theorem IdStep_trans {a b c : gameSession} (h1 : IdStep a b) (h2 : IdStep b c) :
    IdStep a c := by
  obtain ⟨⟨o1, c1, k1⟩, ⟨p1, s1, l1⟩⟩ := h1
  obtain ⟨⟨o2, c2, k2⟩, ⟨p2, s2, l2⟩⟩ := h2
  refine ⟨⟨o1 ++ o2, ?_, ?_⟩, ⟨p1 ++ p2, ?_, ?_⟩⟩
  · rw [c2, c1, List.length_append]
    push_cast
    ring
  · intro x
    rw [mintedCards_append, List.count_append, ← c1]
    have := k1 x
    have := k2 x
    omega
  · rw [s2, s1, List.length_append]
    push_cast
    ring
  · intro x
    rw [mintedSpecials_append, List.count_append, ← s1]
    have := l1 x
    have := l2 x
    omega



/-! ## Instance ids: the calls that issue ids -/

/-- What `drawFor` does to the ids: the card gets the next id of the card counter. -/
theorem drawFor_ids (g : gameSession) (p d s : String) :
    (drawFor g p d s).1.Players = g.Players ∧
      (drawFor g p d s).1.CardCounter = g.CardCounter + 1 ∧
      (drawFor g p d s).1.specialCounter = g.specialCounter ∧
      (drawFor g p d s).2.InstanceID = p ++ "-" ++ fmtInt (g.CardCounter + 1) := by
  unfold drawFor
  simp only [nextCardInstanceID, drawCardFromDeck]
  split <;> exact ⟨rfl, rfl, rfl, rfl⟩

theorem mintedCards_replicate_succ (n : Int) (k : Nat) (p : String) :
    mintedCards n (List.replicate (k + 1) p) =
      mintedCards n (List.replicate k p) ++ [p ++ "-" ++ fmtInt (n + k + 1)] := by
  rw [List.replicate_succ', mintedCards_append, List.length_replicate]
  rfl

/-- The hand that `drawInitialHandForPlayer` deals carries the next ids of the card
counter. -/
theorem drawInitialHandForPlayer_ids (g : gameSession) (p : String) :
    (drawInitialHandForPlayer g p).1.Players = g.Players ∧
      (drawInitialHandForPlayer g p).1.CardCounter =
        g.CardCounter + ((drawInitialHandForPlayer g p).2.length : Nat) ∧
      (drawInitialHandForPlayer g p).1.specialCounter = g.specialCounter ∧
      (drawInitialHandForPlayer g p).2.map (fun c => c.InstanceID) =
        mintedCards g.CardCounter
          (List.replicate (drawInitialHandForPlayer g p).2.length p) := by
  have hfold : ∀ (decks : List String) (acc : gameSession × List handCard),
      (acc.1.Players = g.Players ∧ acc.1.CardCounter = g.CardCounter + (acc.2.length : Nat) ∧
        acc.1.specialCounter = g.specialCounter ∧
        acc.2.map (fun c => c.InstanceID) =
          mintedCards g.CardCounter (List.replicate acc.2.length p)) →
      ((decks.foldl (fun (acc : gameSession × List handCard) deck =>
          ((drawFor acc.1 p deck "").1, acc.2 ++ [(drawFor acc.1 p deck "").2])) acc).1.Players =
          g.Players ∧
        (decks.foldl (fun (acc : gameSession × List handCard) deck =>
          ((drawFor acc.1 p deck "").1, acc.2 ++ [(drawFor acc.1 p deck "").2]))
            acc).1.CardCounter = g.CardCounter +
          ((decks.foldl (fun (acc : gameSession × List handCard) deck =>
            ((drawFor acc.1 p deck "").1, acc.2 ++ [(drawFor acc.1 p deck "").2]))
              acc).2.length : Nat) ∧
        (decks.foldl (fun (acc : gameSession × List handCard) deck =>
          ((drawFor acc.1 p deck "").1, acc.2 ++ [(drawFor acc.1 p deck "").2]))
            acc).1.specialCounter = g.specialCounter ∧
        (decks.foldl (fun (acc : gameSession × List handCard) deck =>
          ((drawFor acc.1 p deck "").1, acc.2 ++ [(drawFor acc.1 p deck "").2]))
            acc).2.map (fun c => c.InstanceID) =
          mintedCards g.CardCounter (List.replicate
            (decks.foldl (fun (acc : gameSession × List handCard) deck =>
              ((drawFor acc.1 p deck "").1, acc.2 ++ [(drawFor acc.1 p deck "").2]))
                acc).2.length p)) := by
    intro decks
    induction decks with
    | nil => exact fun acc h => h
    | cons d t ih =>
      intro acc h
      rw [List.foldl_cons]
      refine ih _ ?_
      obtain ⟨h1, h2, h3, h4⟩ := h
      obtain ⟨d1, d2, d3, d4⟩ := drawFor_ids acc.1 p d ""
      dsimp only
      refine ⟨d1.trans h1, ?_, d3.trans h3, ?_⟩
      · rw [d2, h2, List.length_append]
        simp only [List.length_singleton, Nat.cast_add, Nat.cast_one]
        ring
      · rw [List.map_append, h4, List.length_append, List.length_singleton,
          mintedCards_replicate_succ, List.map_cons, List.map_nil, d4, h2]
  unfold drawInitialHandForPlayer
  dsimp only
  obtain ⟨h1, h2, h3, h4⟩ := hfold coreDecks (g, []) ⟨rfl, by simp, rfl, rfl⟩
  generalize List.foldl (fun (acc : gameSession × List handCard) deck =>
    ((drawFor acc.1 p deck "").1, acc.2 ++ [(drawFor acc.1 p deck "").2])) (g, []) coreDecks =
      r at h1 h2 h3 h4
  obtain ⟨a1, a2, a3, a4⟩ := drawFor_ids r.1 p factsDeck "facts1"
  obtain ⟨b1, b2, b3, b4⟩ := drawFor_ids (drawFor r.1 p factsDeck "facts1").1 p factsDeck "facts2"
  refine ⟨b1.trans (a1.trans h1), ?_, b3.trans (a3.trans h3), ?_⟩
  · rw [b2, a2, h2, List.length_append]
    simp only [List.length_cons, List.length_nil, Nat.cast_add, Nat.cast_one]
    ring
  · rw [List.map_append, h4, List.length_append]
    simp only [List.length_cons, List.length_nil, List.map_cons, List.map_nil]
    rw [show r.2.length + (0 + 1 + 1) = (r.2.length + 1) + 1 from rfl,
      mintedCards_replicate_succ, mintedCards_replicate_succ, a4, b4, a2, h2,
      List.append_assoc]
    simp only [List.cons_append, List.nil_append, Nat.cast_add, Nat.cast_one]
    rw [show g.CardCounter + ((r.2.length : Int) + 1) + 1 =
      g.CardCounter + (r.2.length : Int) + 1 + 1 by ring]

/-- The abilities that `assignInitialSpecialsForPlayer` deals carry the next ids of the
ability counter. -/
theorem assignInitialSpecialsForPlayer_ids (g : gameSession) (p : String) (l : GoMap String) :
    (assignInitialSpecialsForPlayer g p l).1.Players = g.Players ∧
      (assignInitialSpecialsForPlayer g p l).1.CardCounter = g.CardCounter ∧
      (assignInitialSpecialsForPlayer g p l).1.specialCounter =
        g.specialCounter + ((assignInitialSpecialsForPlayer g p l).2.length : Nat) ∧
      (assignInitialSpecialsForPlayer g p l).2.map (fun s => s.InstanceID) =
        mintedSpecials g.specialCounter
          (List.replicate (assignInitialSpecialsForPlayer g p l).2.length p) := by
  have hP := drawSpecialFromPool_Players g
  have hc : (drawSpecialFromPool g).1.CardCounter = g.CardCounter := by
    unfold drawSpecialFromPool
    split <;> rfl
  have hs : (drawSpecialFromPool g).1.specialCounter = g.specialCounter := by
    unfold drawSpecialFromPool
    split <;> rfl
  unfold assignInitialSpecialsForPlayer
  simp only [nextSpecialInstanceID]
  generalize drawSpecialFromPool g = D at hP hc hs
  repeat' split
  all_goals dsimp only
  all_goals refine ⟨hP, hc, ?_, ?_⟩
  all_goals simp only [List.length_cons, List.length_nil, List.map_cons, List.map_nil,
    List.replicate, mintedSpecials, hs, Nat.cast_add, Nat.cast_one, Nat.cast_zero]
  all_goals first
    | rfl
    | ring
    | (congr 1; ring)

/-- Storing a new player with a freshly dealt hand and freshly dealt abilities. -/
theorem IdStep_store (g g1 g2 : gameSession) (k : String) (q : gamePlayer) (n m : Nat)
    (hP1 : g1.Players = g.Players) (hP2 : g2.Players = mapSet g1.Players k q)
    (hc : g2.CardCounter = g.CardCounter + n) (hs : g2.specialCounter = g.specialCounter + m)
    (hh : handIDs q = mintedCards g.CardCounter (List.replicate n k))
    (ha : abilityIDs q = mintedSpecials g.specialCounter (List.replicate m k)) :
    IdStep g g2 := by
  refine ⟨⟨List.replicate n k, ?_, ?_⟩, ⟨List.replicate m k, ?_, ?_⟩⟩
  · rw [hc, List.length_replicate]
  · intro x
    rw [allCardIDs_eq, allCardIDs_eq, hP2, hP1, ← hh]
    exact count_mapSet_le handIDs g.Players k q x
  · rw [hs, List.length_replicate]
  · intro x
    rw [allSpecialIDs_eq, allSpecialIDs_eq, hP2, hP1, ← ha]
    exact count_mapSet_le abilityIDs g.Players k q x

theorem addRosterPlayer_step (g : gameSession) (rp : player) :
    IdStep g (addRosterPlayer g rp) := by
  obtain ⟨h1, h2, h3, h4⟩ := drawInitialHandForPlayer_ids g rp.ID
  unfold addRosterPlayer
  dsimp only
  generalize drawInitialHandForPlayer g rp.ID = D at h1 h2 h3 h4
  exact IdStep_store g D.1 _ rp.ID _ D.2.length 0 h1 rfl h2 (by rw [h3]; simp) h4 rfl

/-- Replacing the abilities of a stored player by freshly dealt ones. -/
theorem IdStep_give (g g1 g2 : gameSession) (k : String) (sp : List specialConditionState)
    (m : Nat) (hP1 : g1.Players = g.Players)
    (hP2 : g2.Players = mapModify g1.Players k (fun p => { p with Specials := sp }))
    (hc : g2.CardCounter = g.CardCounter) (hs : g2.specialCounter = g.specialCounter + m)
    (ha : sp.map (fun s => s.InstanceID) =
      mintedSpecials g.specialCounter (List.replicate m k)) :
    IdStep g g2 := by
  refine ⟨⟨[], ?_, ?_⟩, ⟨List.replicate m k, ?_, ?_⟩⟩
  · rw [hc]
    simp
  · intro x
    rw [allCardIDs_eq, allCardIDs_eq, hP2, hP1,
      count_modify_same handIDs g.Players k (fun p => { p with Specials := sp })
        (fun _ => rfl)]
    exact Nat.le_add_right _ _
  · rw [hs, List.length_replicate]
  · intro x
    rw [allSpecialIDs_eq, allSpecialIDs_eq, hP2, hP1, ← ha]
    exact count_modify_le abilityIDs g.Players k (fun p => { p with Specials := sp }) x _
      (fun _ => Nat.le_add_left _ _)

theorem assignInitialSpecials_step (g : gameSession) : IdStep g (assignInitialSpecials g) := by
  unfold assignInitialSpecials
  split
  · exact IdStep_refl g
  · rename_i hlen
    clear hlen
    dsimp only
    generalize buildSpecialAssetLookup g = L
    have hfold : ∀ (order : List String) (acc : gameSession), IdStep g acc →
        IdStep g (order.foldl (fun acc playerID =>
          match mapGet? acc.Players playerID with
          | none => acc
          | some _ =>
            { (assignInitialSpecialsForPlayer acc playerID L).1 with
              Players := mapModify (assignInitialSpecialsForPlayer acc playerID L).1.Players
                playerID (fun p =>
                  { p with Specials := (assignInitialSpecialsForPlayer acc playerID L).2 }) })
          acc) := by
      intro order
      induction order with
      | nil => exact fun acc h => h
      | cons a t ih =>
        intro acc h
        rw [List.foldl_cons]
        refine ih _ (IdStep_trans h ?_)
        split
        · exact IdStep_refl acc
        · obtain ⟨h1, h2, h3, h4⟩ := assignInitialSpecialsForPlayer_ids acc a L
          generalize assignInitialSpecialsForPlayer acc a L = D at h1 h2 h3 h4
          exact IdStep_give acc D.1 _ a D.2 D.2.length h1 rfl h2 h3 h4
    exact hfold g.Order g (IdStep_refl g)



/-! ## Instance ids: the dev actions -/

theorem devAdd_core (g : gameSession) (c : Int) (pid nm : String) (T : gameSession)
    (hP : T.Players = mapSet
      (assignInitialSpecialsForPlayer (drawInitialHandForPlayer { g with DevBotCounter := c } pid).1
        pid (buildSpecialAssetLookup
          (drawInitialHandForPlayer { g with DevBotCounter := c } pid).1)).1.Players pid
      { PlayerID := pid, Name := nm, Status := playerAlive,
        Hand := (drawInitialHandForPlayer { g with DevBotCounter := c } pid).2,
        Specials := (assignInitialSpecialsForPlayer
          (drawInitialHandForPlayer { g with DevBotCounter := c } pid).1
          pid (buildSpecialAssetLookup
            (drawInitialHandForPlayer { g with DevBotCounter := c } pid).1)).2,
        IsBot := true, BannedAgainst := [], ForcedWastedVoteNext := false })
    (hc : T.CardCounter =
      (assignInitialSpecialsForPlayer (drawInitialHandForPlayer { g with DevBotCounter := c } pid).1
        pid (buildSpecialAssetLookup
          (drawInitialHandForPlayer { g with DevBotCounter := c } pid).1)).1.CardCounter)
    (hs : T.specialCounter =
      (assignInitialSpecialsForPlayer (drawInitialHandForPlayer { g with DevBotCounter := c } pid).1
        pid (buildSpecialAssetLookup
          (drawInitialHandForPlayer { g with DevBotCounter := c } pid).1)).1.specialCounter) :
    IdStep g T := by
  obtain ⟨d1, d2, d3, d4⟩ := drawInitialHandForPlayer_ids { g with DevBotCounter := c } pid
  generalize drawInitialHandForPlayer { g with DevBotCounter := c } pid = D
    at d1 d2 d3 d4 hP hc hs
  obtain ⟨a1, a2, a3, a4⟩ :=
    assignInitialSpecialsForPlayer_ids D.1 pid (buildSpecialAssetLookup D.1)
  generalize assignInitialSpecialsForPlayer D.1 pid (buildSpecialAssetLookup D.1) = A
    at a1 a2 a3 a4 hP hc hs
  have d3 : D.1.specialCounter = g.specialCounter := d3
  rw [d3] at a3 a4
  exact IdStep_store g A.1 T pid _ D.2.length A.2.length (a1.trans d1) hP
    (hc.trans (a2.trans d2)) (hs.trans a3) d4 a4

theorem devAddPlayer_ids (g : gameSession) (name : String) (now : Int) :
    IdStep g (devAddPlayer g name now).1 := by
  unfold devAddPlayer
  split
  · exact IdStep_refl g
  · dsimp only [makeEvent]
    split <;> split
    all_goals
      refine devAdd_core g
        (devFreshCounter g (g.Players.length + 1) (g.DevBotCounter + 1))
        (devPlayerID { g with DevBotCounter := (devFreshCounter g (g.Players.length + 1) (g.DevBotCounter + 1)) }
          (devFreshCounter g (g.Players.length + 1) (g.DevBotCounter + 1)))
        (sanitizeHumanText (trimSpace name) ("DEV Игрок " ++
          fmtInt (devFreshCounter g (g.Players.length + 1) (g.DevBotCounter + 1)))) _ ?_ ?_ ?_
    all_goals with_reducible rfl

/-! ## Instance ids: writes to one stored player -/

theorem count_modify_at (v : gamePlayer → List String) (ps : GoMap gamePlayer) (k : String)
    (f : gamePlayer → gamePlayer) (x : String) (m : Nat)
    (hf : ∀ t, mapGet? ps k = some t → (v (f t)).count x ≤ (v t).count x + m) :
    ((mapModify ps k f).map (fun e => v e.2)).flatten.count x ≤
      (ps.map (fun e => v e.2)).flatten.count x + m := by
  induction ps with
  | nil => exact Nat.zero_le _
  | cons e t ih =>
    obtain ⟨a, p⟩ := e
    unfold mapModify
    unfold mapGet? at hf
    split
    · rename_i hk
      rw [if_pos hk] at hf
      simp only [List.map_cons, List.flatten_cons, List.count_append]
      have := hf p rfl
      omega
    · rename_i hk
      rw [if_neg hk] at hf
      simp only [List.map_cons, List.flatten_cons, List.count_append]
      have := ih hf
      omega

/-- A write to one stored player that issues the card ids `oc` and the ability ids `os`. -/
theorem IdStep_modify (g g2 : gameSession) (k : String) (f : gamePlayer → gamePlayer)
    (oc os : List String)
    (hP : g2.Players = mapModify g.Players k f)
    (hc : g2.CardCounter = g.CardCounter + (oc.length : Nat))
    (hs : g2.specialCounter = g.specialCounter + (os.length : Nat))
    (hh : ∀ t x, mapGet? g.Players k = some t →
      (handIDs (f t)).count x ≤ (handIDs t).count x + (mintedCards g.CardCounter oc).count x)
    (ha : ∀ t x, mapGet? g.Players k = some t →
      (abilityIDs (f t)).count x ≤
        (abilityIDs t).count x + (mintedSpecials g.specialCounter os).count x) :
    IdStep g g2 := by
  refine ⟨⟨oc, hc, fun x => ?_⟩, ⟨os, hs, fun x => ?_⟩⟩
  · rw [allCardIDs_eq, allCardIDs_eq, hP]
    exact count_modify_at handIDs _ _ _ _ _ (fun t ht => hh t x ht)
  · rw [allSpecialIDs_eq, allSpecialIDs_eq, hP]
    exact count_modify_at abilityIDs _ _ _ _ _ (fun t ht => ha t x ht)

/-- An `IdStep` followed by a call that leaves ids and counters alone. -/
theorem IdStep_then_same {g U T : gameSession} (h : IdStep g U)
    (hP : playerIds T.Players = playerIds U.Players) (hc : T.CardCounter = U.CardCounter)
    (hs : T.specialCounter = U.specialCounter) : IdStep g T :=
  IdStep_trans h (IdStep_of_same U T hP hc hs)

/-! ## Instance ids: `slices.DeleteFunc` -/

theorem take_set_succ {α : Type} (l : List α) (i : Nat) (v : α) (h : i < l.length) :
    (l.set i v).take (i + 1) = l.take i ++ [v] := by
  induction l generalizing i with
  | nil => exact absurd h (Nat.not_lt_zero _)
  | cons a t ih =>
    cases i with
    | zero => rfl
    | succ n =>
      show a :: (t.set n v).take (n + 1) = a :: (t.take n ++ [v])
      rw [ih n (Nat.lt_of_succ_lt_succ h)]

theorem deleteStep_inv (hand : List handCard) (p : Nat) (st : deleteState) (j : Nat)
    (hi : st.i ≤ j) (hlen : st.arr.length = hand.length)
    (hsub : (st.arr.take st.i).Sublist (hand.take j))
    (hrest : ∀ k, j ≤ k → st.arr.get? k = hand.get? k) :
    (deleteStep p st j).i ≤ j + 1 ∧ (deleteStep p st j).arr.length = hand.length ∧
      ((deleteStep p st j).arr.take (deleteStep p st j).i).Sublist (hand.take (j + 1)) ∧
      ∀ k, j + 1 ≤ k → (deleteStep p st j).arr.get? k = hand.get? k := by
  have hweak : (st.arr.take st.i).Sublist (hand.take (j + 1)) :=
    hsub.trans (List.take_sublist_take_left hand (Nat.le_succ j))
  have hkeep : st.i ≤ j + 1 ∧ st.arr.length = hand.length ∧
      (st.arr.take st.i).Sublist (hand.take (j + 1)) ∧
      ∀ k, j + 1 ≤ k → st.arr.get? k = hand.get? k :=
    ⟨Nat.le_succ_of_le hi, hlen, hweak, fun k hk => hrest k (Nat.le_of_succ_le hk)⟩
  unfold deleteStep
  split
  · rename_i v stolen hv hst
    split
    · exact hkeep
    · dsimp only
      have hvj : hand.get? j = some v := by rw [← hrest j (le_refl j)]; exact hv
      have hjlt : j < hand.length := by
        rcases Nat.lt_or_ge j hand.length with h | h
        · exact h
        · rw [List.get?_eq_none.mpr h] at hvj
          cases hvj
      refine ⟨Nat.succ_le_succ hi, ?_, ?_, ?_⟩
      · rw [List.length_set, hlen]
      · have hil : st.i < st.arr.length := by omega
        rw [take_set_succ _ _ _ hil, List.take_succ, ← List.get?_eq_getElem?, hvj]
        exact hsub.append (List.Sublist.refl [v])
      · intro k hk
        have hne : st.i ≠ k := by omega
        rw [List.get?_eq_getElem?, List.getElem?_set_ne hne, ← List.get?_eq_getElem?]
        exact hrest k (by omega)
  · exact hkeep

theorem drop_range_step (k s n : Nat) :
    (List.range' s n).drop k = List.range' (s + k) (n - k) := by
  induction k generalizing s n with
  | zero => rfl
  | succ k ih =>
    cases n with
    | zero => simp
    | succ n =>
      rw [List.range'_succ, List.drop_succ_cons, ih]
      have e1 : s + 1 + k = s + (k + 1) := by omega
      have e2 : n + 1 - (k + 1) = n - k := by omega
      rw [e1, e2]

theorem deleteFold_inv (hand : List handCard) (p : Nat) (m : Nat) :
    ∀ (j : Nat) (st : deleteState), st.i ≤ j → st.arr.length = hand.length →
      (st.arr.take st.i).Sublist (hand.take j) →
      (∀ k, j ≤ k → st.arr.get? k = hand.get? k) →
      (((List.range' j m).foldl (deleteStep p) st).arr.take
        ((List.range' j m).foldl (deleteStep p) st).i).Sublist hand := by
  induction m with
  | zero =>
    intro j st _ _ hsub _
    exact hsub.trans (List.take_sublist _ _)
  | succ m ih =>
    intro j st hi hlen hsub hrest
    rw [List.range'_succ, List.foldl_cons]
    obtain ⟨h1, h2, h3, h4⟩ := deleteStep_inv hand p st j hi hlen hsub hrest
    exact ih (j + 1) _ h1 h2 h3 h4

/-- The hand that `slices.DeleteFunc` leaves is a sublist of the hand it was given, whatever
the closure answers. -/
theorem deleteStolen_sublist (hand : List handCard) (p : Nat) :
    (deleteStolen hand p).1.Sublist hand := by
  unfold deleteStolen
  split
  · exact List.Sublist.refl _
  · dsimp only
    rw [List.range_eq_range', drop_range_step, Nat.zero_add]
    exact deleteFold_inv hand p _ _ _ (Nat.le_succ _) rfl
      (List.take_sublist_take_left hand (Nat.le_succ _)) (fun _ _ => rfl)

theorem deleteStolen_count (hand : List handCard) (p : Nat) (x : String) :
    ((deleteStolen hand p).1.map (fun c => c.InstanceID)).count x ≤
      (hand.map (fun c => c.InstanceID)).count x :=
  ((deleteStolen_sublist hand p).map _).count_le _

/-! ## Instance ids: the effect `stealBaggage_and_giveSpecial` -/

theorem drawSpecialFromPool_same (g : gameSession) : IdStep g (drawSpecialFromPool g).1 := by
  refine IdStep_of_same _ _ (congrArg playerIds (drawSpecialFromPool_Players g)) ?_ ?_
  · unfold drawSpecialFromPool
    split <;> rfl
  · unfold drawSpecialFromPool
    split <;> rfl

theorem giveSpecials_ids (t : String) (n : Nat) :
    ∀ (g : gameSession) (moved : Bool), IdStep g (giveSpecials t n g moved).1 := by
  induction n with
  | zero =>
    intro g moved
    exact IdStep_refl g
  | succ n ih =>
    intro g moved
    unfold giveSpecials
    split
    · exact IdStep_refl g
    · rename_i target ht
      dsimp only [nextSpecialInstanceID]
      refine IdStep_trans (IdStep_trans (drawSpecialFromPool_same g) ?_) (ih _ _)
      generalize drawSpecialFromPool g = D
      refine IdStep_modify D.1 _ t _ [] [target.PlayerID] rfl ?_ rfl ?_ ?_
      · show D.1.CardCounter = D.1.CardCounter + ((0 : Nat) : Int)
        simp
      · intro q x _
        exact Nat.le_add_right _ _
      · intro q x _
        simp only [abilityIDs, List.map_append, List.count_append, mintedSpecials,
          List.map_cons, List.map_nil]
        exact le_refl _

theorem steal_core (g : gameSession) (tid a : String) (target : gamePlayer)
    (ht : mapGet? g.Players tid = some target) (si : Nat) (pid : String) (taken : handCard)
    (htk : taken.InstanceID = pid ++ "-" ++ fmtInt (g.CardCounter + 1)) (G3 : gameSession)
    (hP : G3.Players = mapModify
      (mapModify g.Players tid (fun q => { q with Hand := (deleteStolen target.Hand si).1 })) a
      (fun q => { q with Hand := q.Hand ++ [taken] }))
    (hc : G3.CardCounter = g.CardCounter + 1) (hs : G3.specialCounter = g.specialCounter) :
    IdStep g G3 := by
  have h1 : IdStep g { g with Players := (mapModify g.Players tid (fun q => { q with Hand := (deleteStolen target.Hand si).1 })) } := by
    refine IdStep_modify g _ tid _ [] [] rfl ?_ ?_ ?_ ?_
    · show g.CardCounter = g.CardCounter + ((0 : Nat) : Int)
      simp
    · show g.specialCounter = g.specialCounter + ((0 : Nat) : Int)
      simp
    · intro t x h
      cases ht.symm.trans h
      exact Nat.le_trans (deleteStolen_count _ _ _) (Nat.le_add_right _ _)
    · intro t x _
      exact Nat.le_add_right _ _
  refine IdStep_trans h1 (IdStep_modify _ G3 a _ [pid] [] hP ?_ ?_ ?_ ?_)
  · rw [hc]
    rfl
  · rw [hs]
    show g.specialCounter = g.specialCounter + ((0 : Nat) : Int)
    simp
  · intro t x _
    simp only [handIDs, List.map_append, List.count_append, mintedCards, List.map_cons,
      List.map_nil, htk]
    exact le_refl _
  · intro t x _
    exact Nat.le_add_right _ _

theorem stealBaggageEffect_ids (g : gameSession) (a : String) (p : gamePlayer) (i : Nat)
    (d : specialDefinition) (payload : GoMap AnyLeaf) (now : Int) :
    IdStep g (stealBaggageEffect g a p i d payload now).1 := by
  unfold stealBaggageEffect
  dsimp only [makeEvent, nextCardInstanceID]
  split
  · exact IdStep_refl g
  rename_i target ht
  repeat' (first
    | with_reducible exact IdStep_refl g
    | split)
  all_goals
    refine @IdStep_then_same g (giveSpecials ?_ ?_ ?_ false).1 _ ?_ ?_ ?_ ?_
  all_goals first
    | with_reducible exact markSpecialUsed_playerIds _ _ _
    | with_reducible exact rfl
    | skip
  all_goals first
    | exact rfl
    | skip
  all_goals refine IdStep_trans ?_ (giveSpecials_ids _ _ _ _)
  all_goals exact steal_core g _ a target ht _ p.PlayerID _ rfl _ rfl rfl rfl

/-! ## Instance ids: the effects that rewrite cards in place -/

theorem replaceCardEffect_same (g : gameSession) (a : String) (p : gamePlayer) (i : Nat)
    (d : specialDefinition) (payload : GoMap AnyLeaf) (hide : Bool) (now : Int) :
    playerIds (replaceCardEffect g a p i d payload hide now).1.Players = playerIds g.Players ∧
      (replaceCardEffect g a p i d payload hide now).1.CardCounter = g.CardCounter ∧
      (replaceCardEffect g a p i d payload hide now).1.specialCounter = g.specialCounter := by
  unfold replaceCardEffect
  dsimp only [makeEvent]
  have hD : ∀ dn, (drawCardFromDeck g dn).1.Players = g.Players ∧
      (drawCardFromDeck g dn).1.CardCounter = g.CardCounter ∧
      (drawCardFromDeck g dn).1.specialCounter = g.specialCounter := fun _ => ⟨rfl, rfl, rfl⟩
  split
  · exact ⟨rfl, rfl, rfl⟩
  split
  · exact ⟨rfl, rfl, rfl⟩
  split
  · exact ⟨rfl, rfl, rfl⟩
  split
  · rename_i heq
    obtain ⟨h1, h2, h3⟩ := hD _
    rw [heq] at h1 h2 h3
    exact ⟨congrArg playerIds h1, h2, h3⟩
  · rename_i heq
    obtain ⟨h1, h2, h3⟩ := hD _
    rw [heq] at h1 h2 h3
    refine ⟨(markSpecialUsed_playerIds _ _ _).trans ?_, h2, h3⟩
    refine (modifyCard_playerIds _ _ _ _ ?_).trans (congrArg playerIds h1)
    intro c
    rfl

theorem redealCopy_same (g : gameSession) (pair : (String × Nat) × (String × Nat)) :
    playerIds (redealCopy g pair).Players = playerIds g.Players ∧
      (redealCopy g pair).CardCounter = g.CardCounter ∧
      (redealCopy g pair).specialCounter = g.specialCounter := by
  unfold redealCopy
  split
  · exact ⟨rfl, rfl, rfl⟩
  · exact ⟨modifyCard_playerIds _ _ _ _ (fun _ => rfl), rfl, rfl⟩

theorem redealFold_same (l : List ((String × Nat) × (String × Nat))) :
    ∀ g : gameSession, playerIds (l.foldl redealCopy g).Players = playerIds g.Players ∧
      (l.foldl redealCopy g).CardCounter = g.CardCounter ∧
      (l.foldl redealCopy g).specialCounter = g.specialCounter := by
  induction l with
  | nil => exact fun g => ⟨rfl, rfl, rfl⟩
  | cons e t ih =>
    intro g
    rw [List.foldl_cons]
    obtain ⟨h1, h2, h3⟩ := ih (redealCopy g e)
    obtain ⟨k1, k2, k3⟩ := redealCopy_same g e
    exact ⟨h1.trans k1, h2.trans k2, h3.trans k3⟩

theorem redealEffect_same (g : gameSession) (a : String) (p : gamePlayer) (i : Nat)
    (d : specialDefinition) (now : Int) :
    playerIds (redealEffect g a p i d now).1.Players = playerIds g.Players ∧
      (redealEffect g a p i d now).1.CardCounter = g.CardCounter ∧
      (redealEffect g a p i d now).1.specialCounter = g.specialCounter := by
  unfold redealEffect
  dsimp only [makeEvent]
  split
  · exact ⟨rfl, rfl, rfl⟩
  split
  · exact ⟨rfl, rfl, rfl⟩
  exact ⟨(markSpecialUsed_playerIds _ _ _).trans (redealFold_same _ _).1,
    (redealFold_same _ _).2.1, (redealFold_same _ _).2.2⟩



/-! ## Instance ids: abilities -/

theorem replaceCardEffect_playerIds (g : gameSession) (a : String) (p : gamePlayer) (i : Nat)
    (d : specialDefinition) (payload : GoMap AnyLeaf) (hide : Bool) (now : Int) :
    playerIds (replaceCardEffect g a p i d payload hide now).1.Players = playerIds g.Players :=
  (replaceCardEffect_same g a p i d payload hide now).1

theorem replaceCardEffect_CardCounter (g : gameSession) (a : String) (p : gamePlayer) (i : Nat)
    (d : specialDefinition) (payload : GoMap AnyLeaf) (hide : Bool) (now : Int) :
    (replaceCardEffect g a p i d payload hide now).1.CardCounter = g.CardCounter :=
  (replaceCardEffect_same g a p i d payload hide now).2.1

theorem replaceCardEffect_specialCounter (g : gameSession) (a : String) (p : gamePlayer)
    (i : Nat) (d : specialDefinition) (payload : GoMap AnyLeaf) (hide : Bool) (now : Int) :
    (replaceCardEffect g a p i d payload hide now).1.specialCounter = g.specialCounter :=
  (replaceCardEffect_same g a p i d payload hide now).2.2

theorem redealEffect_playerIds (g : gameSession) (a : String) (p : gamePlayer) (i : Nat)
    (d : specialDefinition) (now : Int) :
    playerIds (redealEffect g a p i d now).1.Players = playerIds g.Players :=
  (redealEffect_same g a p i d now).1

theorem redealEffect_CardCounter (g : gameSession) (a : String) (p : gamePlayer) (i : Nat)
    (d : specialDefinition) (now : Int) :
    (redealEffect g a p i d now).1.CardCounter = g.CardCounter :=
  (redealEffect_same g a p i d now).2.1

theorem redealEffect_specialCounter (g : gameSession) (a : String) (p : gamePlayer) (i : Nat)
    (d : specialDefinition) (now : Int) :
    (redealEffect g a p i d now).1.specialCounter = g.specialCounter :=
  (redealEffect_same g a p i d now).2.2

theorem applySpecialEffect_ids (g : gameSession) (a : String) (p : gamePlayer) (i : Nat)
    (sp : specialConditionState) (payload : GoMap AnyLeaf) (now : Int) :
    IdStep g (applySpecialEffect g a p i sp payload now).1 := by
  unfold applySpecialEffect
  dsimp only [makeEvent, clearActiveTimer, removeFromVoting, markVoteWasted]
  repeat' (first
    | with_reducible exact IdStep_refl g
    | with_reducible exact stealBaggageEffect_ids _ _ _ _ _ _ _
    | split)
  all_goals refine IdStep_of_same _ _ ?_ ?_ ?_
  all_goals first
    | (
        repeat' (first
          | with_reducible rfl
          | with_reducible refine ite_fst_playerIds _ _ _ _ ?_ ?_
          | with_reducible refine ite_playerIds _ _ _ _ ?_ ?_
          | with_reducible refine (replaceCardEffect_playerIds _ _ _ _ _ _ _ _).trans ?_
          | with_reducible refine (redealEffect_playerIds _ _ _ _ _ _).trans ?_
          | with_reducible refine (markSpecialUsed_playerIds _ _ _).trans ?_
          | with_reducible refine (finishGame_playerIds _ _ _).trans ?_
          | with_reducible refine (passTurnFrom_playerIds _ _).trans ?_
          | with_reducible refine (schedulePhaseTimer_playerIds _ _ _ _).trans ?_
          | with_reducible refine (scheduleRevealTimeoutIfNeeded_playerIds _ _).trans ?_
          | with_reducible refine (revealNextBunkerCard_playerIds _ _).trans ?_
          | with_reducible refine (startVoting_playerIds _ _).trans ?_
          | with_reducible refine (resetVotesForRevote_playerIds _ _).trans ?_
          | with_reducible refine (startTieBreakRevote_playerIds _ _ _).trans ?_
          | with_reducible refine (handleOnOwnerEliminated_playerIds _ _).trans ?_
          | with_reducible refine (handleSecretEliminationTriggers_playerIds _ _).trans ?_
          | with_reducible refine (startNextRoundOrEnd_playerIds _ _).trans ?_
          | with_reducible refine (enterRevealDiscussion_playerIds _ _).trans ?_
          | with_reducible refine (enterVoteSpecialWindow_playerIds _ _).trans ?_
          | with_reducible refine (vote_playerIds _ _ _ _).trans ?_
          | with_reducible refine (applyElimination_playerIds _ _).trans ?_
          | with_reducible refine (finalizeVoting_playerIds _ _ _).trans ?_
          | with_reducible refine (advanceAfterDiscussion_playerIds _ _).trans ?_
          | with_reducible refine (continueRound_playerIds _ _ _).trans ?_
          | with_reducible refine (kickPlayer_playerIds _ _ _).trans ?_
          | with_reducible refine (markLeftBunker_playerIds _ _ _).trans ?_
          | with_reducible refine (revealCard_playerIds _ _ _ _).trans ?_
          | with_reducible refine (handleRevealPhaseTimeout_playerIds _ _).trans ?_
          | with_reducible refine (handleTimerExpired_playerIds _ _).trans ?_
          | with_reducible refine (modifyCard_playerIds _ _ _ _ ?_).trans ?_
          | with_reducible refine (playerIds_modify _ _ _ ?_).trans ?_
          | (intro p; exact ⟨rfl, rfl⟩)
          | (intro p; exact ⟨handIDs_reveal _ _, rfl⟩)
          | (intro c; rfl)
          | split)
        done)
    | (
        dsimp only [markSpecialUsed, modifyCard]
        repeat' (first
          | with_reducible rfl
          | with_reducible refine ite_fst_CardCounter _ _ _ _ ?_ ?_
          | with_reducible refine ite_CardCounter _ _ _ _ ?_ ?_
          | with_reducible refine (replaceCardEffect_CardCounter _ _ _ _ _ _ _ _).trans ?_
          | with_reducible refine (redealEffect_CardCounter _ _ _ _ _ _).trans ?_
          | with_reducible refine (finishGame_CardCounter _ _ _).trans ?_
          | with_reducible refine (passTurnFrom_CardCounter _ _).trans ?_
          | with_reducible refine (schedulePhaseTimer_CardCounter _ _ _ _).trans ?_
          | with_reducible refine (scheduleRevealTimeoutIfNeeded_CardCounter _ _).trans ?_
          | with_reducible refine (revealNextBunkerCard_CardCounter _ _).trans ?_
          | with_reducible refine (startVoting_CardCounter _ _).trans ?_
          | with_reducible refine (resetVotesForRevote_CardCounter _ _).trans ?_
          | with_reducible refine (startTieBreakRevote_CardCounter _ _ _).trans ?_
          | with_reducible refine (handleOnOwnerEliminated_CardCounter _ _).trans ?_
          | with_reducible refine (handleSecretEliminationTriggers_CardCounter _ _).trans ?_
          | with_reducible refine (startNextRoundOrEnd_CardCounter _ _).trans ?_
          | with_reducible refine (enterRevealDiscussion_CardCounter _ _).trans ?_
          | with_reducible refine (enterVoteSpecialWindow_CardCounter _ _).trans ?_
          | with_reducible refine (vote_CardCounter _ _ _ _).trans ?_
          | with_reducible refine (applyElimination_CardCounter _ _).trans ?_
          | with_reducible refine (finalizeVoting_CardCounter _ _ _).trans ?_
          | with_reducible refine (advanceAfterDiscussion_CardCounter _ _).trans ?_
          | with_reducible refine (continueRound_CardCounter _ _ _).trans ?_
          | with_reducible refine (kickPlayer_CardCounter _ _ _).trans ?_
          | with_reducible refine (markLeftBunker_CardCounter _ _ _).trans ?_
          | with_reducible refine (revealCard_CardCounter _ _ _ _).trans ?_
          | with_reducible refine (handleRevealPhaseTimeout_CardCounter _ _).trans ?_
          | with_reducible refine (handleTimerExpired_CardCounter _ _).trans ?_
          | split)
        done)
    | (
        dsimp only [markSpecialUsed, modifyCard]
        repeat' (first
          | with_reducible rfl
          | with_reducible refine ite_fst_specialCounter _ _ _ _ ?_ ?_
          | with_reducible refine ite_specialCounter _ _ _ _ ?_ ?_
          | with_reducible refine (replaceCardEffect_specialCounter _ _ _ _ _ _ _ _).trans ?_
          | with_reducible refine (redealEffect_specialCounter _ _ _ _ _ _).trans ?_
          | with_reducible refine (finishGame_specialCounter _ _ _).trans ?_
          | with_reducible refine (passTurnFrom_specialCounter _ _).trans ?_
          | with_reducible refine (schedulePhaseTimer_specialCounter _ _ _ _).trans ?_
          | with_reducible refine (scheduleRevealTimeoutIfNeeded_specialCounter _ _).trans ?_
          | with_reducible refine (revealNextBunkerCard_specialCounter _ _).trans ?_
          | with_reducible refine (startVoting_specialCounter _ _).trans ?_
          | with_reducible refine (resetVotesForRevote_specialCounter _ _).trans ?_
          | with_reducible refine (startTieBreakRevote_specialCounter _ _ _).trans ?_
          | with_reducible refine (handleOnOwnerEliminated_specialCounter _ _).trans ?_
          | with_reducible refine (handleSecretEliminationTriggers_specialCounter _ _).trans ?_
          | with_reducible refine (startNextRoundOrEnd_specialCounter _ _).trans ?_
          | with_reducible refine (enterRevealDiscussion_specialCounter _ _).trans ?_
          | with_reducible refine (enterVoteSpecialWindow_specialCounter _ _).trans ?_
          | with_reducible refine (vote_specialCounter _ _ _ _).trans ?_
          | with_reducible refine (applyElimination_specialCounter _ _).trans ?_
          | with_reducible refine (finalizeVoting_specialCounter _ _ _).trans ?_
          | with_reducible refine (advanceAfterDiscussion_specialCounter _ _).trans ?_
          | with_reducible refine (continueRound_specialCounter _ _ _).trans ?_
          | with_reducible refine (kickPlayer_specialCounter _ _ _).trans ?_
          | with_reducible refine (markLeftBunker_specialCounter _ _ _).trans ?_
          | with_reducible refine (revealCard_specialCounter _ _ _ _).trans ?_
          | with_reducible refine (handleRevealPhaseTimeout_specialCounter _ _).trans ?_
          | with_reducible refine (handleTimerExpired_specialCounter _ _).trans ?_
          | split)
        done)



/-! ## Instance ids: actions and timer expiries -/

theorem applySpecial_ids (g : gameSession) (actorID sid : String) (payload : GoMap AnyLeaf)
    (now : Int) : IdStep g (applySpecial g actorID sid payload now).1 := by
  rcases applySpecial_shape g actorID sid payload now with
    h | ⟨player, sp, ep, _, _, h | ⟨c, h⟩ | ⟨c, h⟩⟩
  · rw [h]
    exact IdStep_refl g
  · rw [h]
    exact applySpecialEffect_ids _ _ _ _ _ _ _
  · rw [h]
    exact IdStep_then_same (applySpecialEffect_ids _ _ _ _ _ _ _) rfl rfl rfl
  · rw [h]
    refine IdStep_then_same (applySpecialEffect_ids _ _ _ _ _ _ _) ?_ rfl rfl
    exact playerIds_modify _ _ _
      (fun q => ⟨rfl, map_listModify q.Specials _ _ _ (fun _ => rfl)⟩)

theorem IdStep_del (g : gameSession) (k : String) (G : gameSession)
    (hP : G.Players = mapDel g.Players k) (hc : G.CardCounter = g.CardCounter)
    (hs : G.specialCounter = g.specialCounter) : IdStep g G := by
  refine ⟨⟨[], ?_, fun x => ?_⟩, ⟨[], ?_, fun x => ?_⟩⟩
  · rw [hc]
    simp
  · rw [allCardIDs_eq, allCardIDs_eq, hP]
    exact Nat.le_trans (count_mapDel_le handIDs _ _ _) (Nat.le_add_right _ _)
  · rw [hs]
    simp
  · rw [allSpecialIDs_eq, allSpecialIDs_eq, hP]
    exact Nat.le_trans (count_mapDel_le abilityIDs _ _ _) (Nat.le_add_right _ _)

theorem devRemovePlayer_ids (g : gameSession) (t : String) (now : Int) :
    IdStep g (devRemovePlayer g t now).1 := by
  unfold devRemovePlayer
  dsimp only [makeEvent, removeFromVoting]
  repeat' (first
    | with_reducible exact IdStep_refl g
    | split)
  all_goals
    refine @IdStep_then_same g { g with Players := mapDel g.Players ?_ } _ ?_ ?_ ?_ ?_
  all_goals first
    | exact IdStep_del g _ _ rfl rfl rfl
    | (
        repeat' (first
          | with_reducible rfl
          | with_reducible exact rfl
          | with_reducible refine ite_fst_playerIds _ _ _ _ ?_ ?_
          | with_reducible refine ite_playerIds _ _ _ _ ?_ ?_
          | with_reducible refine (finishGame_playerIds _ _ _).trans ?_
          | with_reducible refine (passTurnFrom_playerIds _ _).trans ?_
          | with_reducible refine (schedulePhaseTimer_playerIds _ _ _ _).trans ?_
          | with_reducible refine (scheduleRevealTimeoutIfNeeded_playerIds _ _).trans ?_
          | with_reducible refine (revealNextBunkerCard_playerIds _ _).trans ?_
          | with_reducible refine (startVoting_playerIds _ _).trans ?_
          | with_reducible refine (resetVotesForRevote_playerIds _ _).trans ?_
          | with_reducible refine (startTieBreakRevote_playerIds _ _ _).trans ?_
          | with_reducible refine (handleOnOwnerEliminated_playerIds _ _).trans ?_
          | with_reducible refine (handleSecretEliminationTriggers_playerIds _ _).trans ?_
          | with_reducible refine (startNextRoundOrEnd_playerIds _ _).trans ?_
          | with_reducible refine (enterRevealDiscussion_playerIds _ _).trans ?_
          | with_reducible refine (enterVoteSpecialWindow_playerIds _ _).trans ?_
          | with_reducible refine (vote_playerIds _ _ _ _).trans ?_
          | with_reducible refine (applyElimination_playerIds _ _).trans ?_
          | with_reducible refine (finalizeVoting_playerIds _ _ _).trans ?_
          | with_reducible refine (advanceAfterDiscussion_playerIds _ _).trans ?_
          | with_reducible refine (continueRound_playerIds _ _ _).trans ?_
          | with_reducible refine (kickPlayer_playerIds _ _ _).trans ?_
          | with_reducible refine (markLeftBunker_playerIds _ _ _).trans ?_
          | with_reducible refine (revealCard_playerIds _ _ _ _).trans ?_
          | with_reducible refine (handleRevealPhaseTimeout_playerIds _ _).trans ?_
          | with_reducible refine (handleTimerExpired_playerIds _ _).trans ?_
          | with_reducible refine (modifyCard_playerIds _ _ _ _ ?_).trans ?_
          | with_reducible refine (playerIds_modify _ _ _ ?_).trans ?_
          | (intro p; exact ⟨rfl, rfl⟩)
          | (intro p; exact ⟨handIDs_reveal _ _, rfl⟩)
          | (intro c; rfl)
          | split)
        done)
    | (
        dsimp only [markSpecialUsed, modifyCard]
        repeat' (first
          | with_reducible rfl
          | with_reducible exact rfl
          | with_reducible refine ite_fst_CardCounter _ _ _ _ ?_ ?_
          | with_reducible refine ite_CardCounter _ _ _ _ ?_ ?_
          | with_reducible refine (finishGame_CardCounter _ _ _).trans ?_
          | with_reducible refine (passTurnFrom_CardCounter _ _).trans ?_
          | with_reducible refine (schedulePhaseTimer_CardCounter _ _ _ _).trans ?_
          | with_reducible refine (scheduleRevealTimeoutIfNeeded_CardCounter _ _).trans ?_
          | with_reducible refine (revealNextBunkerCard_CardCounter _ _).trans ?_
          | with_reducible refine (startVoting_CardCounter _ _).trans ?_
          | with_reducible refine (resetVotesForRevote_CardCounter _ _).trans ?_
          | with_reducible refine (startTieBreakRevote_CardCounter _ _ _).trans ?_
          | with_reducible refine (handleOnOwnerEliminated_CardCounter _ _).trans ?_
          | with_reducible refine (handleSecretEliminationTriggers_CardCounter _ _).trans ?_
          | with_reducible refine (startNextRoundOrEnd_CardCounter _ _).trans ?_
          | with_reducible refine (enterRevealDiscussion_CardCounter _ _).trans ?_
          | with_reducible refine (enterVoteSpecialWindow_CardCounter _ _).trans ?_
          | with_reducible refine (vote_CardCounter _ _ _ _).trans ?_
          | with_reducible refine (applyElimination_CardCounter _ _).trans ?_
          | with_reducible refine (finalizeVoting_CardCounter _ _ _).trans ?_
          | with_reducible refine (advanceAfterDiscussion_CardCounter _ _).trans ?_
          | with_reducible refine (continueRound_CardCounter _ _ _).trans ?_
          | with_reducible refine (kickPlayer_CardCounter _ _ _).trans ?_
          | with_reducible refine (markLeftBunker_CardCounter _ _ _).trans ?_
          | with_reducible refine (revealCard_CardCounter _ _ _ _).trans ?_
          | with_reducible refine (handleRevealPhaseTimeout_CardCounter _ _).trans ?_
          | with_reducible refine (handleTimerExpired_CardCounter _ _).trans ?_
          | split)
        done)
    | (
        dsimp only [markSpecialUsed, modifyCard]
        repeat' (first
          | with_reducible rfl
          | with_reducible exact rfl
          | with_reducible refine ite_fst_specialCounter _ _ _ _ ?_ ?_
          | with_reducible refine ite_specialCounter _ _ _ _ ?_ ?_
          | with_reducible refine (finishGame_specialCounter _ _ _).trans ?_
          | with_reducible refine (passTurnFrom_specialCounter _ _).trans ?_
          | with_reducible refine (schedulePhaseTimer_specialCounter _ _ _ _).trans ?_
          | with_reducible refine (scheduleRevealTimeoutIfNeeded_specialCounter _ _).trans ?_
          | with_reducible refine (revealNextBunkerCard_specialCounter _ _).trans ?_
          | with_reducible refine (startVoting_specialCounter _ _).trans ?_
          | with_reducible refine (resetVotesForRevote_specialCounter _ _).trans ?_
          | with_reducible refine (startTieBreakRevote_specialCounter _ _ _).trans ?_
          | with_reducible refine (handleOnOwnerEliminated_specialCounter _ _).trans ?_
          | with_reducible refine (handleSecretEliminationTriggers_specialCounter _ _).trans ?_
          | with_reducible refine (startNextRoundOrEnd_specialCounter _ _).trans ?_
          | with_reducible refine (enterRevealDiscussion_specialCounter _ _).trans ?_
          | with_reducible refine (enterVoteSpecialWindow_specialCounter _ _).trans ?_
          | with_reducible refine (vote_specialCounter _ _ _ _).trans ?_
          | with_reducible refine (applyElimination_specialCounter _ _).trans ?_
          | with_reducible refine (finalizeVoting_specialCounter _ _ _).trans ?_
          | with_reducible refine (advanceAfterDiscussion_specialCounter _ _).trans ?_
          | with_reducible refine (continueRound_specialCounter _ _ _).trans ?_
          | with_reducible refine (kickPlayer_specialCounter _ _ _).trans ?_
          | with_reducible refine (markLeftBunker_specialCounter _ _ _).trans ?_
          | with_reducible refine (revealCard_specialCounter _ _ _ _).trans ?_
          | with_reducible refine (handleRevealPhaseTimeout_specialCounter _ _).trans ?_
          | with_reducible refine (handleTimerExpired_specialCounter _ _).trans ?_
          | split)
        done)
    | skip

theorem startNextRoundOrEnd_ids (g : gameSession) (now : Int) :
    IdStep g (startNextRoundOrEnd g now).1 :=
  IdStep_of_same _ _ (startNextRoundOrEnd_playerIds _ _) (startNextRoundOrEnd_CardCounter _ _)
    (startNextRoundOrEnd_specialCounter _ _)

theorem vote_ids (g : gameSession) (a t : String) (now : Int) :
    IdStep g (vote g a t now).1 :=
  IdStep_of_same _ _ (vote_playerIds _ _ _ _) (vote_CardCounter _ _ _ _)
    (vote_specialCounter _ _ _ _)

theorem finalizeVoting_ids (g : gameSession) (a : String) (now : Int) :
    IdStep g (finalizeVoting g a now).1 :=
  IdStep_of_same _ _ (finalizeVoting_playerIds _ _ _) (finalizeVoting_CardCounter _ _ _)
    (finalizeVoting_specialCounter _ _ _)

theorem continueRound_ids (g : gameSession) (a : String) (now : Int) :
    IdStep g (continueRound g a now).1 :=
  IdStep_of_same _ _ (continueRound_playerIds _ _ _) (continueRound_CardCounter _ _ _)
    (continueRound_specialCounter _ _ _)

theorem kickPlayer_ids (g : gameSession) (t : String) (now : Int) :
    IdStep g (kickPlayer g t now).1 :=
  IdStep_of_same _ _ (kickPlayer_playerIds _ _ _) (kickPlayer_CardCounter _ _ _)
    (kickPlayer_specialCounter _ _ _)

theorem markLeftBunker_ids (g : gameSession) (t : String) (now : Int) :
    IdStep g (markLeftBunker g t now).1 :=
  IdStep_of_same _ _ (markLeftBunker_playerIds _ _ _) (markLeftBunker_CardCounter _ _ _)
    (markLeftBunker_specialCounter _ _ _)

theorem revealCard_ids (g : gameSession) (a c : String) (now : Int) :
    IdStep g (revealCard g a c now).1 :=
  IdStep_of_same _ _ (revealCard_playerIds _ _ _ _) (revealCard_CardCounter _ _ _ _)
    (revealCard_specialCounter _ _ _ _)

theorem handleTimerExpired_ids (g : gameSession) (now : Int) :
    IdStep g (handleTimerExpired g now).1 :=
  IdStep_of_same _ _ (handleTimerExpired_playerIds _ _) (handleTimerExpired_CardCounter _ _)
    (handleTimerExpired_specialCounter _ _)

theorem revealWorldThreat_ids (g : gameSession) (a : String) (i : Int) :
    IdStep g (revealWorldThreat g a i).1 :=
  IdStep_of_same _ _ (revealWorldThreat_playerIds _ _ _) (revealWorldThreat_CardCounter _ _ _)
    (revealWorldThreat_specialCounter _ _ _)

theorem setBunkerOutcome_ids (g : gameSession) (a o : String) (now : Int) :
    IdStep g (setBunkerOutcome g a o now).1 :=
  IdStep_of_same _ _ (setBunkerOutcome_playerIds _ _ _ _) (setBunkerOutcome_CardCounter _ _ _ _)
    (setBunkerOutcome_specialCounter _ _ _ _)

theorem handleAction_ids (g : gameSession) (actorID actionType : String)
    (payload : GoMap AnyVal) (now : Int) :
    IdStep g (handleAction g actorID actionType payload now).1 := by
  unfold handleAction
  split
  · exact IdStep_refl g
  · split
    · exact revealCard_ids _ _ _ _
    · exact continueRound_ids _ _ _
    · exact vote_ids _ _ _ _
    · exact finalizeVoting_ids _ _ _
    · exact applySpecial_ids _ _ _ _ _
    · exact revealWorldThreat_ids _ _ _
    · exact setBunkerOutcome_ids _ _ _ _
    · exact startNextRoundOrEnd_ids _ _
    · exact kickPlayer_ids _ _ _
    · exact devAddPlayer_ids _ _ _
    · exact devRemovePlayer_ids _ _ _
    · exact markLeftBunker_ids _ _ _
    · exact IdStep_refl g



/-! ## Instance ids: the invariant -/

theorem mem_mintedSpecials (n : Int) (owners : List String) (x : String)
    (h : x ∈ mintedSpecials n owners) :
    ∃ (o : String) (c : Int), n < c ∧ c ≤ n + owners.length ∧
      x = "special-" ++ o ++ "-" ++ fmtInt c := by
  induction owners generalizing n with
  | nil => exact absurd h (List.not_mem_nil _)
  | cons o os ih =>
    unfold mintedSpecials at h
    rcases List.mem_cons.1 h with h | h
    · refine ⟨o, n + 1, by omega, ?_, h⟩
      simp only [List.length_cons, Nat.cast_add, Nat.cast_one]
      omega
    · obtain ⟨o2, c, h1, h2, h3⟩ := ih (n + 1) h
      refine ⟨o2, c, by omega, ?_, h3⟩
      simp only [List.length_cons, Nat.cast_add, Nat.cast_one]
      omega

theorem issuedSpecial_of_minted (n : Int) (owners : List String) (x : String) (hn : 0 ≤ n)
    (h : x ∈ mintedSpecials n owners) : IssuedSpecial (n + owners.length) x := by
  obtain ⟨o, c, h1, h2, h3⟩ := mem_mintedSpecials n owners x h
  exact ⟨o, c, by omega, h2, h3⟩

theorem not_issuedSpecial_of_minted (n : Int) (owners : List String) (x : String)
    (hn : 0 ≤ n) (h : x ∈ mintedSpecials n owners) : ¬ IssuedSpecial n x := by
  rw [mintedSpecials_eq] at h
  exact fun hi => not_issued_of_minted n _ x hn h (IssuedSpecial_card n x hi)

/-- A call that is an `IdStep` keeps the ids distinct, and every id of the later session is
an id of the earlier one or an id that had not been issued. -/
theorem UniqueIDs_step (g g2 : gameSession) (hu : UniqueIDs g) (hs : IdStep g g2) :
    UniqueIDs g2 ∧ g.CardCounter ≤ g2.CardCounter ∧ g.specialCounter ≤ g2.specialCounter ∧
      (∀ id ∈ allCardIDs g2, id ∈ allCardIDs g ∨ ¬ IssuedCard g.CardCounter id) ∧
      (∀ id ∈ allSpecialIDs g2, id ∈ allSpecialIDs g ∨ ¬ IssuedSpecial g.specialCounter id) := by
  obtain ⟨u1, u2, u3, u4, u5, u6⟩ := hu
  obtain ⟨⟨oc, hc, kc⟩, ⟨os, hsp, ks⟩⟩ := hs
  obtain ⟨n1, m1⟩ := nodup_step (allCardIDs g) (allCardIDs g2) g.CardCounter oc u3 u1 u5 kc
  have ks2 : ∀ x, (allSpecialIDs g2).count x ≤ (allSpecialIDs g).count x +
      (mintedCards g.specialCounter (os.map (fun o => "special-" ++ o))).count x := by
    intro x
    rw [← mintedSpecials_eq]
    exact ks x
  obtain ⟨n2, m2⟩ := nodup_step (allSpecialIDs g) (allSpecialIDs g2) g.specialCounter _ u4 u2
    (fun x hx => IssuedSpecial_card _ x (u6 x hx)) ks2
  have hc1 : g.CardCounter ≤ g2.CardCounter := by
    rw [hc]
    omega
  have hs1 : g.specialCounter ≤ g2.specialCounter := by
    rw [hsp]
    omega
  refine ⟨⟨n1, n2, by omega, by omega, ?_, ?_⟩, hc1, hs1, ?_, ?_⟩
  · intro id hid
    rcases m1 id hid with h | ⟨_, h⟩
    · exact IssuedCard_mono _ _ id hc1 (u5 id h)
    · rw [hc]
      exact issued_of_minted _ _ id u3 h
  · intro id hid
    rcases m2 id hid with h | ⟨_, h⟩
    · exact IssuedSpecial_mono _ _ id hs1 (u6 id h)
    · rw [hsp]
      rw [← mintedSpecials_eq] at h
      exact issuedSpecial_of_minted _ _ id u4 h
  · intro id hid
    rcases m1 id hid with h | ⟨_, h⟩
    · exact Or.inl h
    · exact Or.inr (not_issued_of_minted _ _ id u3 h)
  · intro id hid
    rcases m2 id hid with h | ⟨_, h⟩
    · exact Or.inl h
    · rw [← mintedSpecials_eq] at h
      exact Or.inr (not_issuedSpecial_of_minted _ _ id u4 h)

theorem UniqueIDs_of_same (g g2 : gameSession) (hu : UniqueIDs g)
    (hP : playerIds g2.Players = playerIds g.Players) (hc : g2.CardCounter = g.CardCounter)
    (hs : g2.specialCounter = g.specialCounter) : UniqueIDs g2 :=
  (UniqueIDs_step g g2 hu (IdStep_of_same g g2 hP hc hs)).1

theorem reachable_unique (g0 g : gameSession) (hreach : ReachableFrom g0 g)
    (h0 : UniqueIDs g0) : UniqueIDs g := by
  induction hreach with
  | start => exact h0
  | action g a t p now _ ih => exact (UniqueIDs_step _ _ ih (handleAction_ids g a t p now)).1
  | timer g now _ ih => exact (UniqueIDs_step _ _ ih (handleTimerExpired_ids g now)).1

theorem newGameSession_unique (roomCode hostID scenarioID : String) (settings : gameSettings)
    (ruleset : gameRuleset) (roomPlayers : List player) (assets : GoMap (List assetCard))
    (specialDefinitions : List specialDefinition) (rng : List Nat) (now : Int) :
    UniqueIDs (newGameSession roomCode hostID scenarioID settings ruleset roomPlayers assets
      specialDefinitions rng now) := by
  unfold newGameSession
  dsimp only
  generalize hS : assignInitialSpecials _ = S
  have hu : UniqueIDs S := by
    rw [← hS]
    refine (UniqueIDs_step _ _ ?_ (assignInitialSpecials_step _)).1
    refine foldl_holds addRosterPlayer UniqueIDs _ ?_ _ ?_
    · intro s a _ hs
      exact (UniqueIDs_step _ _ hs (addRosterPlayer_step s a)).1
    · refine ⟨List.nodup_nil, List.nodup_nil, le_refl _, le_refl _, ?_, ?_⟩
      · intro id hid
        exact absurd hid (List.not_mem_nil _)
      · intro id hid
        exact absurd hid (List.not_mem_nil _)
  refine UniqueIDs_of_same S _ hu ?_ ?_ ?_
  · refine (scheduleRevealTimeoutIfNeeded_playerIds _ _).trans ?_
    exact revealNextBunkerCard_playerIds _ _
  · refine (scheduleRevealTimeoutIfNeeded_CardCounter _ _).trans ?_
    exact revealNextBunkerCard_CardCounter _ _
  · refine (scheduleRevealTimeoutIfNeeded_specialCounter _ _).trans ?_
    exact revealNextBunkerCard_specialCounter _ _

theorem mapEntries_sublist {V : Type} (m : GoMap V) : (mapEntries m).Sublist m := by
  induction m with
  | nil => exact List.Sublist.refl _
  | cons e t ih =>
    obtain ⟨k, v⟩ := e
    unfold mapEntries
    exact ((List.filter_sublist _).trans ih).cons₂ _

theorem flatten_sublist_of_sublist {α : Type} {a b : List (List α)} (h : a.Sublist b) :
    a.flatten.Sublist b.flatten := by
  induction h with
  | slnil => exact List.Sublist.refl _
  | cons x _ ih =>
    rw [List.flatten_cons]
    exact ih.trans (List.sublist_append_right _ _)
  | cons₂ x _ ih =>
    rw [List.flatten_cons, List.flatten_cons]
    exact (List.Sublist.refl x).append ih

theorem heldCardIDs_sublist (g : gameSession) : (heldCardIDs g).Sublist (allCardIDs g) :=
  flatten_sublist_of_sublist ((mapEntries_sublist g.Players).map _)

theorem heldSpecialIDs_sublist (g : gameSession) :
    (heldSpecialIDs g).Sublist (allSpecialIDs g) :=
  flatten_sublist_of_sublist ((mapEntries_sublist g.Players).map _)



/-- Claim C12.  In every state `g` that a session reaches from `newGameSession` by actions
and timer expiries, the instance ids of the hand cards of all stored players are pairwise
distinct, and so are the instance ids of their abilities (over the list of bindings and over
the bindings that the map holds).  Every id in use is one that the counter has issued, at a
counter value from 1 to its present value; the id that `nextCardInstanceID` or
`nextSpecialInstanceID` would return next is none of those; and after any further action or
timer expiry the counters have not gone down and every id in use is an id that was in use
before or an id that had not been issued before.  The two counters are integers without
bound here, as everywhere in this development; the `int` of Go is that below `2^63`
issued ids. -/
theorem instance_ids_unique (roomCode hostID scenarioID : String) (settings : gameSettings)
    (ruleset : gameRuleset) (roomPlayers : List player) (assets : GoMap (List assetCard))
    (specialDefinitions : List specialDefinition) (rng : List Nat) (now0 : Int)
    (g : gameSession)
    (hreach : ReachableFrom (newGameSession roomCode hostID scenarioID settings ruleset
      roomPlayers assets specialDefinitions rng now0) g) :
    (allCardIDs g).Nodup ∧ (allSpecialIDs g).Nodup ∧
    (heldCardIDs g).Nodup ∧ (heldSpecialIDs g).Nodup ∧
    (∀ id ∈ allCardIDs g, IssuedCard g.CardCounter id) ∧
    (∀ id ∈ allSpecialIDs g, IssuedSpecial g.specialCounter id) ∧
    (∀ owner : String,
      ¬ IssuedCard g.CardCounter (nextCardInstanceID g owner).2 ∧
      ¬ IssuedSpecial g.specialCounter (nextSpecialInstanceID g owner).2) ∧
    (∀ g2 : gameSession,
      ((∃ actorID actionType payload now,
          g2 = (handleAction g actorID actionType payload now).1) ∨
        (∃ now, g2 = (handleTimerExpired g now).1)) →
      g.CardCounter ≤ g2.CardCounter ∧ g.specialCounter ≤ g2.specialCounter ∧
      (∀ id ∈ allCardIDs g2, id ∈ allCardIDs g ∨ ¬ IssuedCard g.CardCounter id) ∧
      (∀ id ∈ allSpecialIDs g2, id ∈ allSpecialIDs g ∨
        ¬ IssuedSpecial g.specialCounter id)) := by
  have hu : UniqueIDs g := reachable_unique _ g hreach
    (newGameSession_unique roomCode hostID scenarioID settings ruleset roomPlayers assets
      specialDefinitions rng now0)
  have hu2 := hu
  obtain ⟨u1, u2, u3, u4, u5, u6⟩ := hu2
  refine ⟨u1, u2, u1.sublist (heldCardIDs_sublist g), u2.sublist (heldSpecialIDs_sublist g),
    u5, u6, ?_, ?_⟩
  · intro owner
    constructor
    · exact not_issued_of_minted g.CardCounter [owner] _ u3 (List.mem_singleton.2 rfl)
    · exact not_issuedSpecial_of_minted g.specialCounter [owner] _ u4
        (List.mem_singleton.2 rfl)
  · intro g2 hg2
    have hstep : IdStep g g2 := by
      rcases hg2 with ⟨a, t, p, now, h⟩ | ⟨now, h⟩
      · rw [h]
        exact handleAction_ids g a t p now
      · rw [h]
        exact handleTimerExpired_ids g now
    exact (UniqueIDs_step g g2 hu hstep).2

set_option maxRecDepth 1000000 in
/-- Claim C12, witness: the dev session of `p1` and `p2` after the host has added a dev player
and `p1` has taken the baggage of `p2`: 21 cards and 7 abilities, the card `p2-11` is gone,
`p1-22` and `special-p2-7` are new, all ids are distinct, and the next card id `p1-23` is
not an id issued before. -/
theorem instance_ids_unique_witness :
    ReachableFrom exampleIdsStart exampleIdsStolen ∧
    allCardIDs exampleIdsStolen =
      ["p1-1", "p1-2", "p1-3", "p1-4", "p1-5", "p1-6", "p1-7", "p1-22",
       "p2-8", "p2-9", "p2-10", "p2-12", "p2-13", "p2-14",
       "dev-room-1-15", "dev-room-1-16", "dev-room-1-17", "dev-room-1-18", "dev-room-1-19",
       "dev-room-1-20", "dev-room-1-21"] ∧
    allSpecialIDs exampleIdsStolen =
      ["special-p1-1", "special-p1-2", "special-p2-3", "special-p2-4", "special-p2-7",
       "special-dev-room-1-5", "special-dev-room-1-6"] ∧
    (nextCardInstanceID exampleIdsStolen "p1").2 = "p1-23" ∧
    (allCardIDs exampleIdsStolen).Nodup ∧ (allSpecialIDs exampleIdsStolen).Nodup ∧
    ¬ IssuedCard exampleIdsStolen.CardCounter (nextCardInstanceID exampleIdsStolen "p1").2 :=
  ⟨ReachableFrom.action exampleIdsGrown "p1" "applySpecial" (stealPayload "p2") 2
      (ReachableFrom.action exampleIdsStart "p1" "devAddPlayer" [] 1 ReachableFrom.start),
    by decide, by decide, by decide,
    (instance_ids_unique "ROOM" "p1" scenarioDevTest exampleSettings exampleQuotaRuleset
      [{ ID := "p1", Name := "A" }, { ID := "p2", Name := "B" }] []
      [exampleStealDefinition, exampleBanDefinition, exampleRevoteDefinition,
       exampleReplaceDefinition, exampleRedealDefinition] [] 0 exampleIdsStolen
      (ReachableFrom.action exampleIdsGrown "p1" "applySpecial" (stealPayload "p2") 2
        (ReachableFrom.action exampleIdsStart "p1" "devAddPlayer" [] 1
          ReachableFrom.start))).1,
    (instance_ids_unique "ROOM" "p1" scenarioDevTest exampleSettings exampleQuotaRuleset
      [{ ID := "p1", Name := "A" }, { ID := "p2", Name := "B" }] []
      [exampleStealDefinition, exampleBanDefinition, exampleRevoteDefinition,
       exampleReplaceDefinition, exampleRedealDefinition] [] 0 exampleIdsStolen
      (ReachableFrom.action exampleIdsGrown "p1" "applySpecial" (stealPayload "p2") 2
        (ReachableFrom.action exampleIdsStart "p1" "devAddPlayer" [] 1
          ReachableFrom.start))).2.1,
    ((instance_ids_unique "ROOM" "p1" scenarioDevTest exampleSettings exampleQuotaRuleset
      [{ ID := "p1", Name := "A" }, { ID := "p2", Name := "B" }] []
      [exampleStealDefinition, exampleBanDefinition, exampleRevoteDefinition,
       exampleReplaceDefinition, exampleRedealDefinition] [] 0 exampleIdsStolen
      (ReachableFrom.action exampleIdsGrown "p1" "applySpecial" (stealPayload "p2") 2
        (ReachableFrom.action exampleIdsStart "p1" "devAddPlayer" [] 1
          ReachableFrom.start))).2.2.2.2.2.2.1 "p1").1⟩



/-! ## Deck pools: calls that draw no card -/

theorem ite_fst_DeckPools {β : Type} (c : Prop) [Decidable c] (a b : gameSession × β)
    (v : GoMap (List assetCard)) (ha : a.1.DeckPools = v) (hb : b.1.DeckPools = v) :
    (if c then a else b).1.DeckPools = v := by
  split
  · exact ha
  · exact hb

theorem ite_DeckPools (c : Prop) [Decidable c] (a b : gameSession) (v : GoMap (List assetCard))
    (ha : a.DeckPools = v) (hb : b.DeckPools = v) : (if c then a else b).DeckPools = v := by
  split
  · exact ha
  · exact hb

theorem schedulePhaseTimer_DeckPools (g : gameSession) (k : String) (s now : Int) :
    (schedulePhaseTimer g k s now).DeckPools = g.DeckPools := by
  unfold schedulePhaseTimer
  split <;> rfl

theorem scheduleRevealTimeoutIfNeeded_DeckPools (g : gameSession) (now : Int) :
    (scheduleRevealTimeoutIfNeeded g now).DeckPools = g.DeckPools := by
  unfold scheduleRevealTimeoutIfNeeded
  repeat' split
  all_goals first | rfl | exact schedulePhaseTimer_DeckPools _ _ _ _

theorem revealNextBunkerCard_DeckPools (g : gameSession) (round : Int) :
    (revealNextBunkerCard g round).DeckPools = g.DeckPools := by
  unfold revealNextBunkerCard
  split <;> rfl

theorem finishGame_DeckPools (g : gameSession) (reason : String) (now : Int) :
    (finishGame g reason now).1.DeckPools = g.DeckPools := by
  unfold finishGame
  dsimp only
  split <;> rfl

theorem startVotingStep_DeckPools (now : Int) (g : gameSession) (e : String × gamePlayer) :
    (startVotingStep now g e).DeckPools = g.DeckPools := by
  unfold startVotingStep
  repeat' split
  all_goals rfl

theorem startVoting_DeckPools (g : gameSession) (now : Int) :
    (startVoting g now).DeckPools = g.DeckPools := by
  unfold startVoting
  dsimp only
  exact (foldl_keeps _ (fun s : gameSession => s.DeckPools)
    (startVotingStep_DeckPools now) _ _).trans rfl

theorem passTurnFrom_DeckPools (g : gameSession) (id : String) :
    (passTurnFrom g id).DeckPools = g.DeckPools := by
  unfold passTurnFrom
  split <;> rfl

theorem revealWorldThreat_DeckPools (g : gameSession) (a : String) (i : Int) :
    (revealWorldThreat g a i).1.DeckPools = g.DeckPools := by
  unfold revealWorldThreat
  repeat' split
  all_goals rfl

theorem setBunkerOutcome_DeckPools (g : gameSession) (a o : String) (now : Int) :
    (setBunkerOutcome g a o now).1.DeckPools = g.DeckPools := by
  unfold setBunkerOutcome
  repeat' split
  all_goals rfl

theorem resetVotesForRevote_DeckPools (g : gameSession) (now : Int) :
    (resetVotesForRevote g now).DeckPools = g.DeckPools := by
  unfold resetVotesForRevote
  dsimp only
  exact (foldl_keeps (fun acc voterID => markVoteWasted acc voterID "Голос потрачен." now)
    (fun s : gameSession => s.DeckPools) (fun _ _ => rfl) _ _).trans rfl

theorem startTieBreakRevote_DeckPools (g : gameSession) (c : List String) (now : Int) :
    (startTieBreakRevote g c now).DeckPools = g.DeckPools := by
  unfold startTieBreakRevote
  dsimp only [clearActiveTimer]
  rw [resetVotesForRevote_DeckPools]

theorem handleOnOwnerEliminated_DeckPools (g : gameSession) (id : String) :
    (handleOnOwnerEliminated g id).DeckPools = g.DeckPools := by
  unfold handleOnOwnerEliminated
  split <;> rfl

theorem handleSecretEliminationTriggers_DeckPools (g : gameSession) (id : String) :
    (handleSecretEliminationTriggers g id).DeckPools = g.DeckPools := by
  unfold handleSecretEliminationTriggers
  dsimp only
  generalize computeAgeExtremes g = ages
  generalize g.Order = order
  induction order generalizing g with
  | nil => rfl
  | cons a t ih => rw [List.foldl_cons, ih]

theorem startNextRoundOrEnd_DeckPools (g : gameSession) (now : Int) :
    (startNextRoundOrEnd g now).1.DeckPools = g.DeckPools := by
  unfold startNextRoundOrEnd
  dsimp only [makeEvent, clearActiveTimer, removeFromVoting, markSpecialUsed, modifyCard,
    markVoteWasted]
  repeat' (first
    | with_reducible rfl
    | with_reducible refine ite_fst_DeckPools _ _ _ _ ?_ ?_
    | with_reducible refine ite_DeckPools _ _ _ _ ?_ ?_
    | with_reducible refine (finishGame_DeckPools _ _ _).trans ?_
    | with_reducible refine (passTurnFrom_DeckPools _ _).trans ?_
    | with_reducible refine (schedulePhaseTimer_DeckPools _ _ _ _).trans ?_
    | with_reducible refine (scheduleRevealTimeoutIfNeeded_DeckPools _ _).trans ?_
    | with_reducible refine (revealNextBunkerCard_DeckPools _ _).trans ?_
    | with_reducible refine (startVoting_DeckPools _ _).trans ?_
    | with_reducible refine (resetVotesForRevote_DeckPools _ _).trans ?_
    | with_reducible refine (startTieBreakRevote_DeckPools _ _ _).trans ?_
    | with_reducible refine (handleOnOwnerEliminated_DeckPools _ _).trans ?_
    | with_reducible refine (handleSecretEliminationTriggers_DeckPools _ _).trans ?_
    | split)

theorem enterRevealDiscussion_DeckPools (g : gameSession) (now : Int) :
    (enterRevealDiscussion g now).DeckPools = g.DeckPools := by
  unfold enterRevealDiscussion
  dsimp only [makeEvent, clearActiveTimer, removeFromVoting, markSpecialUsed, modifyCard,
    markVoteWasted]
  repeat' (first
    | with_reducible rfl
    | with_reducible refine ite_fst_DeckPools _ _ _ _ ?_ ?_
    | with_reducible refine ite_DeckPools _ _ _ _ ?_ ?_
    | with_reducible refine (finishGame_DeckPools _ _ _).trans ?_
    | with_reducible refine (passTurnFrom_DeckPools _ _).trans ?_
    | with_reducible refine (schedulePhaseTimer_DeckPools _ _ _ _).trans ?_
    | with_reducible refine (scheduleRevealTimeoutIfNeeded_DeckPools _ _).trans ?_
    | with_reducible refine (revealNextBunkerCard_DeckPools _ _).trans ?_
    | with_reducible refine (startVoting_DeckPools _ _).trans ?_
    | with_reducible refine (resetVotesForRevote_DeckPools _ _).trans ?_
    | with_reducible refine (startTieBreakRevote_DeckPools _ _ _).trans ?_
    | with_reducible refine (handleOnOwnerEliminated_DeckPools _ _).trans ?_
    | with_reducible refine (handleSecretEliminationTriggers_DeckPools _ _).trans ?_
    | with_reducible refine (startNextRoundOrEnd_DeckPools _ _).trans ?_
    | split)

theorem enterVoteSpecialWindow_DeckPools (g : gameSession) (now : Int) :
    (enterVoteSpecialWindow g now).1.DeckPools = g.DeckPools := by
  unfold enterVoteSpecialWindow
  dsimp only [makeEvent, clearActiveTimer, removeFromVoting, markSpecialUsed, modifyCard,
    markVoteWasted]
  repeat' (first
    | with_reducible rfl
    | with_reducible refine ite_fst_DeckPools _ _ _ _ ?_ ?_
    | with_reducible refine ite_DeckPools _ _ _ _ ?_ ?_
    | with_reducible refine (finishGame_DeckPools _ _ _).trans ?_
    | with_reducible refine (passTurnFrom_DeckPools _ _).trans ?_
    | with_reducible refine (schedulePhaseTimer_DeckPools _ _ _ _).trans ?_
    | with_reducible refine (scheduleRevealTimeoutIfNeeded_DeckPools _ _).trans ?_
    | with_reducible refine (revealNextBunkerCard_DeckPools _ _).trans ?_
    | with_reducible refine (startVoting_DeckPools _ _).trans ?_
    | with_reducible refine (resetVotesForRevote_DeckPools _ _).trans ?_
    | with_reducible refine (startTieBreakRevote_DeckPools _ _ _).trans ?_
    | with_reducible refine (handleOnOwnerEliminated_DeckPools _ _).trans ?_
    | with_reducible refine (handleSecretEliminationTriggers_DeckPools _ _).trans ?_
    | with_reducible refine (startNextRoundOrEnd_DeckPools _ _).trans ?_
    | with_reducible refine (enterRevealDiscussion_DeckPools _ _).trans ?_
    | split)

theorem vote_DeckPools (g : gameSession) (a t : String) (now : Int) :
    (vote g a t now).1.DeckPools = g.DeckPools := by
  unfold vote
  dsimp only [makeEvent, clearActiveTimer, removeFromVoting, markSpecialUsed, modifyCard,
    markVoteWasted]
  repeat' (first
    | with_reducible rfl
    | with_reducible refine ite_fst_DeckPools _ _ _ _ ?_ ?_
    | with_reducible refine ite_DeckPools _ _ _ _ ?_ ?_
    | with_reducible refine (finishGame_DeckPools _ _ _).trans ?_
    | with_reducible refine (passTurnFrom_DeckPools _ _).trans ?_
    | with_reducible refine (schedulePhaseTimer_DeckPools _ _ _ _).trans ?_
    | with_reducible refine (scheduleRevealTimeoutIfNeeded_DeckPools _ _).trans ?_
    | with_reducible refine (revealNextBunkerCard_DeckPools _ _).trans ?_
    | with_reducible refine (startVoting_DeckPools _ _).trans ?_
    | with_reducible refine (resetVotesForRevote_DeckPools _ _).trans ?_
    | with_reducible refine (startTieBreakRevote_DeckPools _ _ _).trans ?_
    | with_reducible refine (handleOnOwnerEliminated_DeckPools _ _).trans ?_
    | with_reducible refine (handleSecretEliminationTriggers_DeckPools _ _).trans ?_
    | with_reducible refine (startNextRoundOrEnd_DeckPools _ _).trans ?_
    | with_reducible refine (enterRevealDiscussion_DeckPools _ _).trans ?_
    | with_reducible refine (enterVoteSpecialWindow_DeckPools _ _).trans ?_
    | split)

theorem applyElimination_DeckPools (g : gameSession) (t : String) :
    (applyElimination g t).DeckPools = g.DeckPools := by
  unfold applyElimination
  dsimp only [makeEvent, clearActiveTimer, removeFromVoting, markSpecialUsed, modifyCard,
    markVoteWasted]
  repeat' (first
    | with_reducible rfl
    | with_reducible refine ite_fst_DeckPools _ _ _ _ ?_ ?_
    | with_reducible refine ite_DeckPools _ _ _ _ ?_ ?_
    | with_reducible refine (finishGame_DeckPools _ _ _).trans ?_
    | with_reducible refine (passTurnFrom_DeckPools _ _).trans ?_
    | with_reducible refine (schedulePhaseTimer_DeckPools _ _ _ _).trans ?_
    | with_reducible refine (scheduleRevealTimeoutIfNeeded_DeckPools _ _).trans ?_
    | with_reducible refine (revealNextBunkerCard_DeckPools _ _).trans ?_
    | with_reducible refine (startVoting_DeckPools _ _).trans ?_
    | with_reducible refine (resetVotesForRevote_DeckPools _ _).trans ?_
    | with_reducible refine (startTieBreakRevote_DeckPools _ _ _).trans ?_
    | with_reducible refine (handleOnOwnerEliminated_DeckPools _ _).trans ?_
    | with_reducible refine (handleSecretEliminationTriggers_DeckPools _ _).trans ?_
    | with_reducible refine (startNextRoundOrEnd_DeckPools _ _).trans ?_
    | with_reducible refine (enterRevealDiscussion_DeckPools _ _).trans ?_
    | with_reducible refine (enterVoteSpecialWindow_DeckPools _ _).trans ?_
    | with_reducible refine (vote_DeckPools _ _ _ _).trans ?_
    | split)

theorem finalizeVoting_DeckPools (g : gameSession) (a : String) (now : Int) :
    (finalizeVoting g a now).1.DeckPools = g.DeckPools := by
  unfold finalizeVoting
  dsimp only [makeEvent, clearActiveTimer, removeFromVoting, markSpecialUsed, modifyCard,
    markVoteWasted]
  repeat' (first
    | with_reducible rfl
    | with_reducible refine ite_fst_DeckPools _ _ _ _ ?_ ?_
    | with_reducible refine ite_DeckPools _ _ _ _ ?_ ?_
    | with_reducible refine (finishGame_DeckPools _ _ _).trans ?_
    | with_reducible refine (passTurnFrom_DeckPools _ _).trans ?_
    | with_reducible refine (schedulePhaseTimer_DeckPools _ _ _ _).trans ?_
    | with_reducible refine (scheduleRevealTimeoutIfNeeded_DeckPools _ _).trans ?_
    | with_reducible refine (revealNextBunkerCard_DeckPools _ _).trans ?_
    | with_reducible refine (startVoting_DeckPools _ _).trans ?_
    | with_reducible refine (resetVotesForRevote_DeckPools _ _).trans ?_
    | with_reducible refine (startTieBreakRevote_DeckPools _ _ _).trans ?_
    | with_reducible refine (handleOnOwnerEliminated_DeckPools _ _).trans ?_
    | with_reducible refine (handleSecretEliminationTriggers_DeckPools _ _).trans ?_
    | with_reducible refine (startNextRoundOrEnd_DeckPools _ _).trans ?_
    | with_reducible refine (enterRevealDiscussion_DeckPools _ _).trans ?_
    | with_reducible refine (enterVoteSpecialWindow_DeckPools _ _).trans ?_
    | with_reducible refine (vote_DeckPools _ _ _ _).trans ?_
    | with_reducible refine (applyElimination_DeckPools _ _).trans ?_
    | split)

theorem advanceAfterDiscussion_DeckPools (g : gameSession) (now : Int) :
    (advanceAfterDiscussion g now).1.DeckPools = g.DeckPools := by
  unfold advanceAfterDiscussion
  dsimp only [makeEvent, clearActiveTimer, removeFromVoting, markSpecialUsed, modifyCard,
    markVoteWasted]
  repeat' (first
    | with_reducible rfl
    | with_reducible refine ite_fst_DeckPools _ _ _ _ ?_ ?_
    | with_reducible refine ite_DeckPools _ _ _ _ ?_ ?_
    | with_reducible refine (finishGame_DeckPools _ _ _).trans ?_
    | with_reducible refine (passTurnFrom_DeckPools _ _).trans ?_
    | with_reducible refine (schedulePhaseTimer_DeckPools _ _ _ _).trans ?_
    | with_reducible refine (scheduleRevealTimeoutIfNeeded_DeckPools _ _).trans ?_
    | with_reducible refine (revealNextBunkerCard_DeckPools _ _).trans ?_
    | with_reducible refine (startVoting_DeckPools _ _).trans ?_
    | with_reducible refine (resetVotesForRevote_DeckPools _ _).trans ?_
    | with_reducible refine (startTieBreakRevote_DeckPools _ _ _).trans ?_
    | with_reducible refine (handleOnOwnerEliminated_DeckPools _ _).trans ?_
    | with_reducible refine (handleSecretEliminationTriggers_DeckPools _ _).trans ?_
    | with_reducible refine (startNextRoundOrEnd_DeckPools _ _).trans ?_
    | with_reducible refine (enterRevealDiscussion_DeckPools _ _).trans ?_
    | with_reducible refine (enterVoteSpecialWindow_DeckPools _ _).trans ?_
    | with_reducible refine (vote_DeckPools _ _ _ _).trans ?_
    | with_reducible refine (applyElimination_DeckPools _ _).trans ?_
    | with_reducible refine (finalizeVoting_DeckPools _ _ _).trans ?_
    | split)

theorem continueRound_DeckPools (g : gameSession) (a : String) (now : Int) :
    (continueRound g a now).1.DeckPools = g.DeckPools := by
  unfold continueRound
  dsimp only [makeEvent, clearActiveTimer, removeFromVoting, markSpecialUsed, modifyCard,
    markVoteWasted]
  repeat' (first
    | with_reducible rfl
    | with_reducible refine ite_fst_DeckPools _ _ _ _ ?_ ?_
    | with_reducible refine ite_DeckPools _ _ _ _ ?_ ?_
    | with_reducible refine (finishGame_DeckPools _ _ _).trans ?_
    | with_reducible refine (passTurnFrom_DeckPools _ _).trans ?_
    | with_reducible refine (schedulePhaseTimer_DeckPools _ _ _ _).trans ?_
    | with_reducible refine (scheduleRevealTimeoutIfNeeded_DeckPools _ _).trans ?_
    | with_reducible refine (revealNextBunkerCard_DeckPools _ _).trans ?_
    | with_reducible refine (startVoting_DeckPools _ _).trans ?_
    | with_reducible refine (resetVotesForRevote_DeckPools _ _).trans ?_
    | with_reducible refine (startTieBreakRevote_DeckPools _ _ _).trans ?_
    | with_reducible refine (handleOnOwnerEliminated_DeckPools _ _).trans ?_
    | with_reducible refine (handleSecretEliminationTriggers_DeckPools _ _).trans ?_
    | with_reducible refine (startNextRoundOrEnd_DeckPools _ _).trans ?_
    | with_reducible refine (enterRevealDiscussion_DeckPools _ _).trans ?_
    | with_reducible refine (enterVoteSpecialWindow_DeckPools _ _).trans ?_
    | with_reducible refine (vote_DeckPools _ _ _ _).trans ?_
    | with_reducible refine (applyElimination_DeckPools _ _).trans ?_
    | with_reducible refine (finalizeVoting_DeckPools _ _ _).trans ?_
    | with_reducible refine (advanceAfterDiscussion_DeckPools _ _).trans ?_
    | split)

theorem kickPlayer_DeckPools (g : gameSession) (t : String) (now : Int) :
    (kickPlayer g t now).1.DeckPools = g.DeckPools := by
  unfold kickPlayer
  dsimp only [makeEvent, clearActiveTimer, removeFromVoting, markSpecialUsed, modifyCard,
    markVoteWasted]
  repeat' (first
    | with_reducible rfl
    | with_reducible refine ite_fst_DeckPools _ _ _ _ ?_ ?_
    | with_reducible refine ite_DeckPools _ _ _ _ ?_ ?_
    | with_reducible refine (finishGame_DeckPools _ _ _).trans ?_
    | with_reducible refine (passTurnFrom_DeckPools _ _).trans ?_
    | with_reducible refine (schedulePhaseTimer_DeckPools _ _ _ _).trans ?_
    | with_reducible refine (scheduleRevealTimeoutIfNeeded_DeckPools _ _).trans ?_
    | with_reducible refine (revealNextBunkerCard_DeckPools _ _).trans ?_
    | with_reducible refine (startVoting_DeckPools _ _).trans ?_
    | with_reducible refine (resetVotesForRevote_DeckPools _ _).trans ?_
    | with_reducible refine (startTieBreakRevote_DeckPools _ _ _).trans ?_
    | with_reducible refine (handleOnOwnerEliminated_DeckPools _ _).trans ?_
    | with_reducible refine (handleSecretEliminationTriggers_DeckPools _ _).trans ?_
    | with_reducible refine (startNextRoundOrEnd_DeckPools _ _).trans ?_
    | with_reducible refine (enterRevealDiscussion_DeckPools _ _).trans ?_
    | with_reducible refine (enterVoteSpecialWindow_DeckPools _ _).trans ?_
    | with_reducible refine (vote_DeckPools _ _ _ _).trans ?_
    | with_reducible refine (applyElimination_DeckPools _ _).trans ?_
    | with_reducible refine (finalizeVoting_DeckPools _ _ _).trans ?_
    | with_reducible refine (advanceAfterDiscussion_DeckPools _ _).trans ?_
    | with_reducible refine (continueRound_DeckPools _ _ _).trans ?_
    | split)

theorem markLeftBunker_DeckPools (g : gameSession) (t : String) (now : Int) :
    (markLeftBunker g t now).1.DeckPools = g.DeckPools := by
  unfold markLeftBunker
  dsimp only [makeEvent, clearActiveTimer, removeFromVoting, markSpecialUsed, modifyCard,
    markVoteWasted]
  repeat' (first
    | with_reducible rfl
    | with_reducible refine ite_fst_DeckPools _ _ _ _ ?_ ?_
    | with_reducible refine ite_DeckPools _ _ _ _ ?_ ?_
    | with_reducible refine (finishGame_DeckPools _ _ _).trans ?_
    | with_reducible refine (passTurnFrom_DeckPools _ _).trans ?_
    | with_reducible refine (schedulePhaseTimer_DeckPools _ _ _ _).trans ?_
    | with_reducible refine (scheduleRevealTimeoutIfNeeded_DeckPools _ _).trans ?_
    | with_reducible refine (revealNextBunkerCard_DeckPools _ _).trans ?_
    | with_reducible refine (startVoting_DeckPools _ _).trans ?_
    | with_reducible refine (resetVotesForRevote_DeckPools _ _).trans ?_
    | with_reducible refine (startTieBreakRevote_DeckPools _ _ _).trans ?_
    | with_reducible refine (handleOnOwnerEliminated_DeckPools _ _).trans ?_
    | with_reducible refine (handleSecretEliminationTriggers_DeckPools _ _).trans ?_
    | with_reducible refine (startNextRoundOrEnd_DeckPools _ _).trans ?_
    | with_reducible refine (enterRevealDiscussion_DeckPools _ _).trans ?_
    | with_reducible refine (enterVoteSpecialWindow_DeckPools _ _).trans ?_
    | with_reducible refine (vote_DeckPools _ _ _ _).trans ?_
    | with_reducible refine (applyElimination_DeckPools _ _).trans ?_
    | with_reducible refine (finalizeVoting_DeckPools _ _ _).trans ?_
    | with_reducible refine (advanceAfterDiscussion_DeckPools _ _).trans ?_
    | with_reducible refine (continueRound_DeckPools _ _ _).trans ?_
    | with_reducible refine (kickPlayer_DeckPools _ _ _).trans ?_
    | split)

theorem revealCard_DeckPools (g : gameSession) (a c : String) (now : Int) :
    (revealCard g a c now).1.DeckPools = g.DeckPools := by
  unfold revealCard
  dsimp only [makeEvent, clearActiveTimer, removeFromVoting, markSpecialUsed, modifyCard,
    markVoteWasted]
  repeat' (first
    | with_reducible rfl
    | with_reducible refine ite_fst_DeckPools _ _ _ _ ?_ ?_
    | with_reducible refine ite_DeckPools _ _ _ _ ?_ ?_
    | with_reducible refine (finishGame_DeckPools _ _ _).trans ?_
    | with_reducible refine (passTurnFrom_DeckPools _ _).trans ?_
    | with_reducible refine (schedulePhaseTimer_DeckPools _ _ _ _).trans ?_
    | with_reducible refine (scheduleRevealTimeoutIfNeeded_DeckPools _ _).trans ?_
    | with_reducible refine (revealNextBunkerCard_DeckPools _ _).trans ?_
    | with_reducible refine (startVoting_DeckPools _ _).trans ?_
    | with_reducible refine (resetVotesForRevote_DeckPools _ _).trans ?_
    | with_reducible refine (startTieBreakRevote_DeckPools _ _ _).trans ?_
    | with_reducible refine (handleOnOwnerEliminated_DeckPools _ _).trans ?_
    | with_reducible refine (handleSecretEliminationTriggers_DeckPools _ _).trans ?_
    | with_reducible refine (startNextRoundOrEnd_DeckPools _ _).trans ?_
    | with_reducible refine (enterRevealDiscussion_DeckPools _ _).trans ?_
    | with_reducible refine (enterVoteSpecialWindow_DeckPools _ _).trans ?_
    | with_reducible refine (vote_DeckPools _ _ _ _).trans ?_
    | with_reducible refine (applyElimination_DeckPools _ _).trans ?_
    | with_reducible refine (finalizeVoting_DeckPools _ _ _).trans ?_
    | with_reducible refine (advanceAfterDiscussion_DeckPools _ _).trans ?_
    | with_reducible refine (continueRound_DeckPools _ _ _).trans ?_
    | with_reducible refine (kickPlayer_DeckPools _ _ _).trans ?_
    | with_reducible refine (markLeftBunker_DeckPools _ _ _).trans ?_
    | split)

theorem handleRevealPhaseTimeout_DeckPools (g : gameSession) (now : Int) :
    (handleRevealPhaseTimeout g now).1.DeckPools = g.DeckPools := by
  unfold handleRevealPhaseTimeout
  dsimp only [makeEvent, clearActiveTimer, removeFromVoting, markSpecialUsed, modifyCard,
    markVoteWasted]
  repeat' (first
    | with_reducible rfl
    | with_reducible refine ite_fst_DeckPools _ _ _ _ ?_ ?_
    | with_reducible refine ite_DeckPools _ _ _ _ ?_ ?_
    | with_reducible refine (finishGame_DeckPools _ _ _).trans ?_
    | with_reducible refine (passTurnFrom_DeckPools _ _).trans ?_
    | with_reducible refine (schedulePhaseTimer_DeckPools _ _ _ _).trans ?_
    | with_reducible refine (scheduleRevealTimeoutIfNeeded_DeckPools _ _).trans ?_
    | with_reducible refine (revealNextBunkerCard_DeckPools _ _).trans ?_
    | with_reducible refine (startVoting_DeckPools _ _).trans ?_
    | with_reducible refine (resetVotesForRevote_DeckPools _ _).trans ?_
    | with_reducible refine (startTieBreakRevote_DeckPools _ _ _).trans ?_
    | with_reducible refine (handleOnOwnerEliminated_DeckPools _ _).trans ?_
    | with_reducible refine (handleSecretEliminationTriggers_DeckPools _ _).trans ?_
    | with_reducible refine (startNextRoundOrEnd_DeckPools _ _).trans ?_
    | with_reducible refine (enterRevealDiscussion_DeckPools _ _).trans ?_
    | with_reducible refine (enterVoteSpecialWindow_DeckPools _ _).trans ?_
    | with_reducible refine (vote_DeckPools _ _ _ _).trans ?_
    | with_reducible refine (applyElimination_DeckPools _ _).trans ?_
    | with_reducible refine (finalizeVoting_DeckPools _ _ _).trans ?_
    | with_reducible refine (advanceAfterDiscussion_DeckPools _ _).trans ?_
    | with_reducible refine (continueRound_DeckPools _ _ _).trans ?_
    | with_reducible refine (kickPlayer_DeckPools _ _ _).trans ?_
    | with_reducible refine (markLeftBunker_DeckPools _ _ _).trans ?_
    | with_reducible refine (revealCard_DeckPools _ _ _ _).trans ?_
    | split)

theorem handleTimerExpired_DeckPools (g : gameSession) (now : Int) :
    (handleTimerExpired g now).1.DeckPools = g.DeckPools := by
  unfold handleTimerExpired
  dsimp only [makeEvent, clearActiveTimer, removeFromVoting, markSpecialUsed, modifyCard,
    markVoteWasted]
  repeat' (first
    | with_reducible rfl
    | with_reducible refine ite_fst_DeckPools _ _ _ _ ?_ ?_
    | with_reducible refine ite_DeckPools _ _ _ _ ?_ ?_
    | with_reducible refine (finishGame_DeckPools _ _ _).trans ?_
    | with_reducible refine (passTurnFrom_DeckPools _ _).trans ?_
    | with_reducible refine (schedulePhaseTimer_DeckPools _ _ _ _).trans ?_
    | with_reducible refine (scheduleRevealTimeoutIfNeeded_DeckPools _ _).trans ?_
    | with_reducible refine (revealNextBunkerCard_DeckPools _ _).trans ?_
    | with_reducible refine (startVoting_DeckPools _ _).trans ?_
    | with_reducible refine (resetVotesForRevote_DeckPools _ _).trans ?_
    | with_reducible refine (startTieBreakRevote_DeckPools _ _ _).trans ?_
    | with_reducible refine (handleOnOwnerEliminated_DeckPools _ _).trans ?_
    | with_reducible refine (handleSecretEliminationTriggers_DeckPools _ _).trans ?_
    | with_reducible refine (startNextRoundOrEnd_DeckPools _ _).trans ?_
    | with_reducible refine (enterRevealDiscussion_DeckPools _ _).trans ?_
    | with_reducible refine (enterVoteSpecialWindow_DeckPools _ _).trans ?_
    | with_reducible refine (vote_DeckPools _ _ _ _).trans ?_
    | with_reducible refine (applyElimination_DeckPools _ _).trans ?_
    | with_reducible refine (finalizeVoting_DeckPools _ _ _).trans ?_
    | with_reducible refine (advanceAfterDiscussion_DeckPools _ _).trans ?_
    | with_reducible refine (continueRound_DeckPools _ _ _).trans ?_
    | with_reducible refine (kickPlayer_DeckPools _ _ _).trans ?_
    | with_reducible refine (markLeftBunker_DeckPools _ _ _).trans ?_
    | with_reducible refine (revealCard_DeckPools _ _ _ _).trans ?_
    | with_reducible refine (handleRevealPhaseTimeout_DeckPools _ _).trans ?_
    | split)



/-! ## Deck pools: the category decks keep their entries -/

theorem KeepsDecks_refl (g : gameSession) : KeepsDecks g g := fun _ h => h

theorem KeepsDecks_trans {g g2 g3 : gameSession} (h1 : KeepsDecks g g2) (h2 : KeepsDecks g2 g3) :
    KeepsDecks g g3 := fun k h => h2 k (h1 k h)

theorem KeepsDecks_of_eq {g g2 : gameSession} (h : g2.DeckPools = g.DeckPools) :
    KeepsDecks g g2 := by
  intro k hk
  rw [h]
  exact hk

theorem covers_of_keeps {g g2 : gameSession} (hk : KeepsDecks g g2)
    (h : coversCategoryDecks g = true) : coversCategoryDecks g2 = true := by
  unfold coversCategoryDecks at h ⊢
  rw [List.all_eq_true] at h ⊢
  intro e he
  exact hk _ (h e he)

theorem drawCardFromDeck_keeps (g : gameSession) (d : String) :
    KeepsDecks g (drawCardFromDeck g d).1 :=
  fun _ hk => mapHas_mapSet_mono _ _ _ _ hk

theorem drawCardFromDeck_has (g : gameSession) (d : String) :
    mapHas (drawCardFromDeck g d).1.DeckPools d = true :=
  mapHas_mapSet_self _ _ _

theorem drawFor_DeckPools (g : gameSession) (p d s : String) :
    (drawFor g p d s).1.DeckPools = (drawCardFromDeck g d).1.DeckPools := by
  unfold drawFor
  dsimp only [nextCardInstanceID]
  split <;> rfl

theorem drawFor_keeps (g : gameSession) (p d s : String) : KeepsDecks g (drawFor g p d s).1 := by
  intro k hk
  rw [drawFor_DeckPools]
  exact drawCardFromDeck_keeps g d k hk

theorem drawFor_has (g : gameSession) (p d s : String) :
    mapHas (drawFor g p d s).1.DeckPools d = true := by
  rw [drawFor_DeckPools]
  exact drawCardFromDeck_has g d

theorem drawFold_decks (p : String) (l : List String) (acc : gameSession × List handCard) :
    KeepsDecks acc.1 (l.foldl (fun (acc : gameSession × List handCard) deck =>
        ((drawFor acc.1 p deck "").1, acc.2 ++ [(drawFor acc.1 p deck "").2])) acc).1 ∧
      ∀ d ∈ l, mapHas (l.foldl (fun (acc : gameSession × List handCard) deck =>
        ((drawFor acc.1 p deck "").1, acc.2 ++ [(drawFor acc.1 p deck "").2])) acc).1.DeckPools d
          = true := by
  induction l generalizing acc with
  | nil => exact ⟨KeepsDecks_refl _, fun d hd => absurd hd (List.not_mem_nil d)⟩
  | cons a t ih =>
    rw [List.foldl_cons]
    have h := ih ((drawFor acc.1 p a "").1, acc.2 ++ [(drawFor acc.1 p a "").2])
    refine ⟨KeepsDecks_trans (drawFor_keeps _ _ _ _) h.1, ?_⟩
    intro d hd
    rcases List.mem_cons.1 hd with rfl | hd
    · exact h.1 _ (drawFor_has _ _ _ _)
    · exact h.2 d hd

/-- Dealing a hand leaves an entry in `DeckPools` for every category deck. -/
theorem drawInitialHandForPlayer_decks (g : gameSession) (p : String) :
    KeepsDecks g (drawInitialHandForPlayer g p).1 ∧
      coversCategoryDecks (drawInitialHandForPlayer g p).1 = true := by
  unfold drawInitialHandForPlayer
  dsimp only
  have h := drawFold_decks p coreDecks (g, [])
  generalize (coreDecks.foldl (fun (acc : gameSession × List handCard) deck =>
        ((drawFor acc.1 p deck "").1, acc.2 ++ [(drawFor acc.1 p deck "").2])) (g, [])) = r at h
  have k1 : KeepsDecks r.1 (drawFor r.1 p factsDeck "facts1").1 := drawFor_keeps _ _ _ _
  have k2 : KeepsDecks (drawFor r.1 p factsDeck "facts1").1
      (drawFor (drawFor r.1 p factsDeck "facts1").1 p factsDeck "facts2").1 :=
    drawFor_keeps _ _ _ _
  refine ⟨KeepsDecks_trans h.1 (KeepsDecks_trans k1 k2), ?_⟩
  unfold coversCategoryDecks
  rw [List.all_eq_true]
  intro e he
  have hmem : e.2 ∈ coreDecks ∨ e.2 = factsDeck := by
    revert e
    decide
  rcases hmem with hc | hf
  · exact k2 _ (k1 _ (h.2 _ hc))
  · rw [hf]
    exact drawFor_has _ _ _ _



/-! ## Deck pools: abilities and the actions of the core session -/

theorem drawSpecialFromPool_DeckPools (g : gameSession) :
    (drawSpecialFromPool g).1.DeckPools = g.DeckPools := by
  unfold drawSpecialFromPool
  split <;> rfl

theorem giveSpecials_DeckPools (t : String) (n : Nat) :
    ∀ (g : gameSession) (moved : Bool), (giveSpecials t n g moved).1.DeckPools = g.DeckPools := by
  induction n with
  | zero =>
    intro g moved
    rfl
  | succ n ih =>
    intro g moved
    unfold giveSpecials
    split
    · rfl
    · dsimp only [nextSpecialInstanceID]
      exact (ih _ _).trans (drawSpecialFromPool_DeckPools g)

theorem redealCopy_DeckPools (g : gameSession) (pair : (String × Nat) × (String × Nat)) :
    (redealCopy g pair).DeckPools = g.DeckPools := by
  unfold redealCopy
  split <;> rfl

theorem redealEffect_DeckPools (g : gameSession) (a : String) (p : gamePlayer) (i : Nat)
    (d : specialDefinition) (now : Int) :
    (redealEffect g a p i d now).1.DeckPools = g.DeckPools := by
  unfold redealEffect
  dsimp only [makeEvent, markSpecialUsed]
  split
  · rfl
  split
  · rfl
  exact (foldl_keeps redealCopy (fun s : gameSession => s.DeckPools) redealCopy_DeckPools _ _)

theorem stealBaggageEffect_DeckPools (g : gameSession) (a : String) (p : gamePlayer) (i : Nat)
    (d : specialDefinition) (payload : GoMap AnyLeaf) (now : Int) :
    (stealBaggageEffect g a p i d payload now).1.DeckPools = g.DeckPools := by
  unfold stealBaggageEffect
  dsimp only [makeEvent, nextCardInstanceID, markSpecialUsed]
  repeat' (first
    | with_reducible rfl
    | with_reducible refine ite_DeckPools _ _ _ _ ?_ ?_
    | with_reducible refine (giveSpecials_DeckPools _ _ _ _).trans ?_
    | split)

theorem replaceCardEffect_keeps (g : gameSession) (a : String) (p : gamePlayer) (i : Nat)
    (d : specialDefinition) (payload : GoMap AnyLeaf) (hide : Bool) (now : Int) :
    KeepsDecks g (replaceCardEffect g a p i d payload hide now).1 := by
  unfold replaceCardEffect
  dsimp only [makeEvent, markSpecialUsed, modifyCard]
  split
  · exact KeepsDecks_refl g
  split
  · exact KeepsDecks_refl g
  split
  · exact KeepsDecks_refl g
  split
  all_goals
    rename_i heq
    have hk := drawCardFromDeck_keeps g (mapGetS categoryKeyToDeck
      (asString (mapGet? d.Effect.Params "category")))
    rw [heq] at hk
    exact hk

theorem applySpecialEffect_keeps (g : gameSession) (a : String) (p : gamePlayer) (i : Nat)
    (sp : specialConditionState) (payload : GoMap AnyLeaf) (now : Int) :
    KeepsDecks g (applySpecialEffect g a p i sp payload now).1 := by
  unfold applySpecialEffect
  dsimp only [makeEvent, clearActiveTimer, removeFromVoting, markVoteWasted]
  repeat' (first
    | with_reducible exact KeepsDecks_refl g
    | with_reducible exact replaceCardEffect_keeps _ _ _ _ _ _ _ _
    | split)
  all_goals refine KeepsDecks_of_eq ?_
  all_goals dsimp only [markSpecialUsed, modifyCard]
  all_goals
    repeat' (first
      | with_reducible rfl
      | with_reducible refine ite_fst_DeckPools _ _ _ _ ?_ ?_
      | with_reducible refine ite_DeckPools _ _ _ _ ?_ ?_
      | with_reducible refine (redealEffect_DeckPools _ _ _ _ _ _).trans ?_
      | with_reducible refine (stealBaggageEffect_DeckPools _ _ _ _ _ _ _).trans ?_
      | with_reducible refine (resetVotesForRevote_DeckPools _ _).trans ?_)



/-! ## Deck pools: dealing abilities, the dev actions and the dispatcher -/

theorem assignInitialSpecialsForPlayer_DeckPools (g : gameSession) (p : String)
    (l : GoMap String) : (assignInitialSpecialsForPlayer g p l).1.DeckPools = g.DeckPools := by
  unfold assignInitialSpecialsForPlayer
  dsimp only [nextSpecialInstanceID]
  repeat' split
  all_goals exact drawSpecialFromPool_DeckPools g

theorem assignInitialSpecials_DeckPools (g : gameSession) :
    (assignInitialSpecials g).DeckPools = g.DeckPools := by
  unfold assignInitialSpecials
  split
  · rfl
  · dsimp only
    refine foldl_keeps _ (fun s : gameSession => s.DeckPools) ?_ _ _
    intro s a
    dsimp only
    split
    · rfl
    · exact assignInitialSpecialsForPlayer_DeckPools _ _ _

theorem devAdd_decks (g : gameSession) (c : Int) (pid : String) (T : gameSession)
    (hD : T.DeckPools =
      (assignInitialSpecialsForPlayer (drawInitialHandForPlayer { g with DevBotCounter := c } pid).1
        pid (buildSpecialAssetLookup
          (drawInitialHandForPlayer { g with DevBotCounter := c } pid).1)).1.DeckPools) :
    KeepsDecks g T := by
  intro k hk
  rw [hD, assignInitialSpecialsForPlayer_DeckPools]
  exact (drawInitialHandForPlayer_decks { g with DevBotCounter := c } pid).1 k hk

theorem devAddPlayer_keeps (g : gameSession) (name : String) (now : Int) :
    KeepsDecks g (devAddPlayer g name now).1 := by
  unfold devAddPlayer
  split
  · exact KeepsDecks_refl g
  · dsimp only [makeEvent]
    split <;> split
    all_goals
      refine devAdd_decks g
        (devFreshCounter g (g.Players.length + 1) (g.DevBotCounter + 1))
        (devPlayerID { g with DevBotCounter := (devFreshCounter g (g.Players.length + 1) (g.DevBotCounter + 1)) }
          (devFreshCounter g (g.Players.length + 1) (g.DevBotCounter + 1))) _ ?_
    all_goals with_reducible rfl

theorem devRemovePlayer_DeckPools (g : gameSession) (t : String) (now : Int) :
    (devRemovePlayer g t now).1.DeckPools = g.DeckPools := by
  unfold devRemovePlayer
  dsimp only [makeEvent, removeFromVoting]
  repeat' (first
    | with_reducible rfl
    | with_reducible refine ite_fst_DeckPools _ _ _ _ ?_ ?_
    | with_reducible refine (finishGame_DeckPools _ _ _).trans ?_
    | with_reducible refine (passTurnFrom_DeckPools _ _).trans ?_
    | split)

theorem applySpecial_keeps (g : gameSession) (actorID sid : String) (payload : GoMap AnyLeaf)
    (now : Int) : KeepsDecks g (applySpecial g actorID sid payload now).1 := by
  rcases applySpecial_shape g actorID sid payload now with h | ⟨player, sp, ep, _, _, h⟩
  · rw [h]
    exact KeepsDecks_refl g
  · rcases h with h | ⟨c, h⟩ | ⟨c, h⟩
    all_goals rw [h]
    all_goals exact applySpecialEffect_keeps g actorID player _ sp ep now

theorem handleAction_keeps (g : gameSession) (actorID actionType : String)
    (payload : GoMap AnyVal) (now : Int) :
    KeepsDecks g (handleAction g actorID actionType payload now).1 := by
  unfold handleAction
  split
  · exact KeepsDecks_refl g
  · split
    · exact KeepsDecks_of_eq (revealCard_DeckPools _ _ _ _)
    · exact KeepsDecks_of_eq (continueRound_DeckPools _ _ _)
    · exact KeepsDecks_of_eq (vote_DeckPools _ _ _ _)
    · exact KeepsDecks_of_eq (finalizeVoting_DeckPools _ _ _)
    · exact applySpecial_keeps _ _ _ _ _
    · exact KeepsDecks_of_eq (revealWorldThreat_DeckPools _ _ _)
    · exact KeepsDecks_of_eq (setBunkerOutcome_DeckPools _ _ _ _)
    · exact KeepsDecks_of_eq (startNextRoundOrEnd_DeckPools _ _)
    · exact KeepsDecks_of_eq (kickPlayer_DeckPools _ _ _)
    · exact devAddPlayer_keeps _ _ _
    · exact KeepsDecks_of_eq (devRemovePlayer_DeckPools _ _ _)
    · exact KeepsDecks_of_eq (markLeftBunker_DeckPools _ _ _)
    · exact KeepsDecks_refl g

/-! ## Deck pools: the dev wrapper -/

theorem autoRevealBots_DeckPools (g : gameSession) (now : Int) :
    (autoRevealBots g now).1.DeckPools = g.DeckPools := by
  unfold autoRevealBots
  dsimp only
  repeat' (first
    | with_reducible rfl
    | with_reducible refine ite_fst_DeckPools _ _ _ _ ?_ ?_
    | with_reducible exact revealCard_DeckPools _ _ _ _
    | split)

theorem autoVoteStep_DeckPools (now : Int) (acc : gameSession × Bool) (v : String) :
    (autoVoteStep now acc v).1.DeckPools = acc.1.DeckPools := by
  unfold autoVoteStep
  dsimp only [markVoteWasted]
  repeat' (first
    | with_reducible rfl
    | with_reducible refine ite_fst_DeckPools _ _ _ _ ?_ ?_
    | split)

theorem autoVoteBots_DeckPools (g : gameSession) (now : Int) :
    (autoVoteBots g now).1.DeckPools = g.DeckPools := by
  have hf : (g.Order.foldl (autoVoteStep now) (g, false)).1.DeckPools = g.DeckPools :=
    foldl_keeps (autoVoteStep now) (fun s : gameSession × Bool => s.1.DeckPools)
      (autoVoteStep_DeckPools now) _ _
  unfold autoVoteBots
  dsimp only
  repeat' (first
    | with_reducible rfl
    | with_reducible exact hf
    | with_reducible refine ite_fst_DeckPools _ _ _ _ ?_ ?_
    | with_reducible refine (enterVoteSpecialWindow_DeckPools _ _).trans ?_)

theorem postProcessLoop_DeckPools (now : Int) (n : Nat) :
    ∀ st : postState, (postProcessLoop now n st).session.DeckPools = st.session.DeckPools := by
  induction n with
  | zero => exact fun _ => rfl
  | succ n ih =>
    intro st
    unfold postProcessLoop
    dsimp only
    repeat' (first
      | with_reducible rfl
      | with_reducible exact autoRevealBots_DeckPools _ _
      | with_reducible exact autoVoteBots_DeckPools _ _
      | with_reducible refine (ih _).trans ?_
      | with_reducible refine (autoVoteBots_DeckPools _ _).trans ?_
      | with_reducible refine ite_of (fun s : postState => s.session.DeckPools = st.session.DeckPools) _ _ _ (fun _ => ?_) (fun _ => ?_)
      | with_reducible refine ite_of (fun r => (Prod.fst r : postState).session.DeckPools = st.session.DeckPools) _ _ _ (fun _ => ?_) (fun _ => ?_)
      | split)

theorem postProcess_DeckPools (g : gameSession) (result : gameActionResult) (now : Int) :
    (postProcess g result now).1.DeckPools = g.DeckPools := by
  unfold postProcess
  dsimp only
  repeat' (first
    | with_reducible rfl
    | with_reducible exact postProcessLoop_DeckPools _ _ _
    | with_reducible refine ite_fst_DeckPools _ _ _ _ ?_ ?_
    | with_reducible refine (finishGame_DeckPools _ _ _).trans ?_)



theorem removeFromVotingDev_DeckPools (g : gameSession) (t : String) (now : Int) :
    (removeFromVotingDev g t now).DeckPools = g.DeckPools := by
  unfold removeFromVotingDev
  dsimp only [removeFromVoting]
  repeat' (first
    | with_reducible rfl
    | with_reducible refine ite_DeckPools _ _ _ _ ?_ ?_
    | with_reducible refine (enterVoteSpecialWindow_DeckPools _ _).trans ?_)

theorem devMarkLeftBunker_DeckPools (g : gameSession) (t : String) (now : Int) :
    (devMarkLeftBunker g t now).1.DeckPools = g.DeckPools := by
  unfold devMarkLeftBunker
  dsimp only
  repeat' (first
    | with_reducible rfl
    | with_reducible refine ite_fst_DeckPools _ _ _ _ ?_ ?_
    | with_reducible refine (passTurnFrom_DeckPools _ _).trans ?_
    | with_reducible refine (removeFromVotingDev_DeckPools _ _ _).trans ?_
    | split)

theorem devSkipRound_DeckPools (g : gameSession) (a : String) (now : Int) :
    (devSkipRound g a now).1.DeckPools = g.DeckPools := by
  unfold devSkipRound
  dsimp only
  repeat' (first
    | with_reducible rfl
    | with_reducible refine ite_fst_DeckPools _ _ _ _ ?_ ?_
    | with_reducible refine (advanceAfterDiscussion_DeckPools _ _).trans ?_)

theorem devHandleAction_keeps (g : gameSession) (actorID actionType : String)
    (payload : GoMap AnyVal) (now : Int) :
    KeepsDecks g (devHandleAction g actorID actionType payload now).1 := by
  have hcore : KeepsDecks g
      (postProcess (handleAction g actorID actionType payload now).1
        (handleAction g actorID actionType payload now).2 now).1 :=
    KeepsDecks_trans (handleAction_keeps g actorID actionType payload now)
      (KeepsDecks_of_eq (postProcess_DeckPools _ _ _))
  unfold devHandleAction
  dsimp only
  repeat' (first
    | with_reducible exact hcore
    | with_reducible exact KeepsDecks_refl g
    | with_reducible exact KeepsDecks_of_eq ((postProcess_DeckPools _ _ _).trans (devSkipRound_DeckPools _ _ _))
    | with_reducible exact KeepsDecks_of_eq ((postProcess_DeckPools _ _ _).trans (devMarkLeftBunker_DeckPools _ _ _))
    | with_reducible refine ite_of (fun r => KeepsDecks g (Prod.fst r : gameSession)) _ _ _ (fun _ => ?_) (fun _ => ?_)
    | split)

theorem devHandleTimerExpired_DeckPools (g : gameSession) (now : Int) :
    (devHandleTimerExpired g now).1.DeckPools = g.DeckPools :=
  (postProcess_DeckPools _ _ _).trans (handleTimerExpired_DeckPools g now)

/-! ## A session without players stays without players -/

theorem PStep_nil {R : gamePlayer → gamePlayer → Prop} {ps ps2 : GoMap gamePlayer}
    (h : PStep R ps ps2) (hn : ps = []) : ps2 = [] := by
  subst hn
  cases h
  rfl

theorem handleAction_nobody (g : gameSession) (actorID actionType : String)
    (payload : GoMap AnyVal) (now : Int) (h : g.Players = []) :
    handleAction g actorID actionType payload now = (g, errorResult "Игрок не найден.") := by
  unfold handleAction
  split
  · rfl
  · rename_i heq
    rw [h] at heq
    exact Option.noConfusion heq

theorem handleTimerExpired_nobody (g : gameSession) (now : Int) (h : g.Players = []) :
    (handleTimerExpired g now).1.Players = [] :=
  PStep_nil (handleTimerExpired_players anyPlayers_frame g now (PStep_refl anyPlayers_frame _)) h

theorem postProcess_nobody (g : gameSession) (result : gameActionResult) (now : Int)
    (h : g.Players = []) : (postProcess g result now).1.Players = [] :=
  PStep_nil (postProcess_players anyPlayers_frame g result now (PStep_refl anyPlayers_frame _)) h

theorem devHandleAction_nobody (g : gameSession) (actorID actionType : String)
    (payload : GoMap AnyVal) (now : Int) (h : g.Players = []) :
    (devHandleAction g actorID actionType payload now).1.Players = [] := by
  have hcore : (postProcess (handleAction g actorID actionType payload now).1
        (handleAction g actorID actionType payload now).2 now).1.Players = [] := by
    refine postProcess_nobody _ _ _ ?_
    rw [handleAction_nobody g actorID actionType payload now h]
    exact h
  unfold devHandleAction
  dsimp only
  repeat' (first
    | with_reducible exact hcore
    | with_reducible exact h
    | with_reducible exact postProcess_nobody _ _ _ (PStep_nil (devSkipRound_players anyPlayers_frame _ _ _ (PStep_refl anyPlayers_frame _)) h)
    | with_reducible exact postProcess_nobody _ _ _ (PStep_nil (devMarkLeftBunker_players anyPlayers_frame _ _ _ (PStep_refl anyPlayers_frame _)) h)
    | with_reducible refine ite_of (fun r => (Prod.fst r : gameSession).Players = []) _ _ _ (fun _ => ?_) (fun _ => ?_)
    | split)

/-! ## Deck pools: the sessions a room holds -/

theorem handleAction_decks (g : gameSession) (actorID actionType : String)
    (payload : GoMap AnyVal) (now : Int)
    (ih : g.Players = [] ∨ coversCategoryDecks g = true) :
    (handleAction g actorID actionType payload now).1.Players = [] ∨
      coversCategoryDecks (handleAction g actorID actionType payload now).1 = true := by
  rcases ih with hn | hc
  · left
    exact (congrArg (fun r : gameSession × gameActionResult => r.1.Players)
      (handleAction_nobody g actorID actionType payload now hn)).trans hn
  · exact Or.inr (covers_of_keeps (handleAction_keeps g actorID actionType payload now) hc)

theorem handleTimerExpired_decks (g : gameSession) (now : Int)
    (ih : g.Players = [] ∨ coversCategoryDecks g = true) :
    (handleTimerExpired g now).1.Players = [] ∨
      coversCategoryDecks (handleTimerExpired g now).1 = true := by
  rcases ih with hn | hc
  · exact Or.inl (handleTimerExpired_nobody g now hn)
  · exact Or.inr (covers_of_keeps (KeepsDecks_of_eq (handleTimerExpired_DeckPools g now)) hc)

theorem devHandleAction_decks (g : gameSession) (actorID actionType : String)
    (payload : GoMap AnyVal) (now : Int)
    (ih : g.Players = [] ∨ coversCategoryDecks g = true) :
    (devHandleAction g actorID actionType payload now).1.Players = [] ∨
      coversCategoryDecks (devHandleAction g actorID actionType payload now).1 = true := by
  rcases ih with hn | hc
  · exact Or.inl (devHandleAction_nobody g actorID actionType payload now hn)
  · exact Or.inr (covers_of_keeps (devHandleAction_keeps g actorID actionType payload now) hc)

theorem devHandleTimerExpired_decks (g : gameSession) (now : Int)
    (ih : g.Players = [] ∨ coversCategoryDecks g = true) :
    (devHandleTimerExpired g now).1.Players = [] ∨
      coversCategoryDecks (devHandleTimerExpired g now).1 = true := by
  rcases ih with hn | hc
  · exact Or.inl (PStep_nil (postProcess_players anyPlayers_frame _ _ _
      (handleTimerExpired_players anyPlayers_frame g now (PStep_refl anyPlayers_frame _))) hn)
  · exact Or.inr (covers_of_keeps (KeepsDecks_of_eq (devHandleTimerExpired_DeckPools g now)) hc)

theorem setHostID_decks (g : gameSession) (hostID : String)
    (ih : g.Players = [] ∨ coversCategoryDecks g = true) :
    (setHostID g hostID).Players = [] ∨ coversCategoryDecks (setHostID g hostID) = true :=
  ih

/-- Every state of a room's session stores no player or has an entry in `DeckPools` for
every category deck, if the first state does. -/
theorem serverRun_decks (g0 g : gameSession) (h : ServerRun g0 g)
    (h0 : g0.Players = [] ∨ coversCategoryDecks g0 = true) :
    g.Players = [] ∨ coversCategoryDecks g = true := by
  induction h with
  | start => exact h0
  | action g actorID actionType payload now _ _ ih =>
    exact handleAction_decks g actorID actionType payload now ih
  | timer g now _ _ ih => exact handleTimerExpired_decks g now ih
  | devAction g actorID actionType payload now _ _ ih =>
    exact devHandleAction_decks g actorID actionType payload now ih
  | devTimer g now _ _ ih => exact devHandleTimerExpired_decks g now ih
  | host g hostID _ ih => exact setHostID_decks g hostID ih

theorem addRosterPlayer_covers (g : gameSession) (rp : player) :
    coversCategoryDecks (addRosterPlayer g rp) = true := by
  have h := (drawInitialHandForPlayer_decks g rp.ID).2
  unfold coversCategoryDecks at h ⊢
  unfold addRosterPlayer
  dsimp only
  exact h

/-- The session that `newGameSession` creates stores no player or has an entry in
`DeckPools` for every category deck. -/
theorem newGameSession_decks (roomCode hostID scenarioID : String) (settings : gameSettings)
    (ruleset : gameRuleset) (roomPlayers : List player) (assets : GoMap (List assetCard))
    (specialDefinitions : List specialDefinition) (rng : List Nat) (now : Int) :
    (newGameSession roomCode hostID scenarioID settings ruleset roomPlayers assets
        specialDefinitions rng now).Players = [] ∨
      coversCategoryDecks (newGameSession roomCode hostID scenarioID settings ruleset
        roomPlayers assets specialDefinitions rng now) = true := by
  unfold newGameSession
  dsimp only
  generalize hS : List.foldl addRosterPlayer _ roomPlayers = S
  have hfacts : S.Players = [] ∨ coversCategoryDecks S = true := by
    rw [← hS]
    rcases List.eq_nil_or_concat roomPlayers with hnil | ⟨l, a, hl⟩
    · rw [hnil]
      exact Or.inl rfl
    · rw [hl, List.concat_eq_append, List.foldl_append]
      exact Or.inr (addRosterPlayer_covers _ _)
  clear hS
  rcases hfacts with hn | hc
  · left
    refine (scheduleRevealTimeoutIfNeeded_Players _ _).trans ?_
    refine Eq.trans (revealNextBunkerCard_Players _ _) ?_
    show (assignInitialSpecials S).Players = []
    unfold assignInitialSpecials
    rw [if_pos (by rw [hn]; rfl)]
    exact hn
  · right
    refine covers_of_keeps (KeepsDecks_of_eq ?_) hc
    refine (scheduleRevealTimeoutIfNeeded_DeckPools _ _).trans ?_
    refine Eq.trans (revealNextBunkerCard_DeckPools _ _) ?_
    exact assignInitialSpecials_DeckPools S



/-- Claim C16.  In every state `g` of the session that a room holds, that is, in every state
that the session made by `newGameSession` reaches by the calls of the server (`ServerRun`),
an `applySpecial` call that returns an error leaves the whole session unchanged: the session
after the call is `g` itself, with its hands, votes, deck pools, pool of abilities, round
rules, counters and the flags `Used` and `RevealedPublic` of every ability.  (The draw of
`replaceRevealedCard` from an empty deck assigns the empty pool to an entry of `DeckPools`
that the dealing of the hands has already made.)  In particular, in a non-dev session an
ability whose requirements include `targetHasRevealedHealth`, aimed at a target that has no
revealed health card, returns an error and leaves the session, and with it the flag `Used`
of the ability, as it was. -/
theorem applySpecial_error_changes_nothing (roomCode hostID scenarioID : String)
    (settings : gameSettings) (ruleset : gameRuleset) (roomPlayers : List player)
    (assets : GoMap (List assetCard)) (specialDefinitions : List specialDefinition)
    (rng : List Nat) (now0 : Int) (g : gameSession) (actorID sid : String)
    (payload : GoMap AnyLeaf) (now : Int)
    (hrun : ServerRun (newGameSession roomCode hostID scenarioID settings ruleset roomPlayers
      assets specialDefinitions rng now0) g) :
    ((applySpecial g actorID sid payload now).2.Error ≠ "" →
        (applySpecial g actorID sid payload now).1 = g) ∧
      (∀ sp, g.IsDev = false → namedSpecial g actorID sid = some sp →
        "targetHasRevealedHealth" ∈ sp.Definition.Requires →
        (∀ ep, resolveSpecialTarget g actorID sp.Definition.TargetScope (mapEntries payload)
            = .ok ep → targetLacksRevealedHealth g ep = true) →
        (applySpecial g actorID sid payload now).2.Error ≠ "" ∧
          (applySpecial g actorID sid payload now).1 = g ∧
          namedSpecial (applySpecial g actorID sid payload now).1 actorID sid = some sp) := by
  constructor
  · intro h
    rcases serverRun_decks _ g hrun (newGameSession_decks roomCode hostID scenarioID settings
      ruleset roomPlayers assets specialDefinitions rng now0) with hn | hc
    · rcases applySpecial_shape g actorID sid payload now with e | ⟨player, _, _, hp, _⟩
      · exact e
      · rw [hn] at hp
        exact Option.noConfusion hp
    · rcases applySpecial_ok_or_frame g actorID sid payload now with e | e
      · exact absurd e h
      · exact e.2 hc
  · intro sp hdev hsp hreq hlacks
    rcases applySpecial_pre_cases g actorID sid payload now with ⟨e1, e2⟩ | ⟨sp2, ep, h1, h2, h3⟩
    · refine ⟨e1, e2, ?_⟩
      rw [e2]
      exact hsp
    · rw [hsp] at h1
      simp only [Option.some.injEq] at h1
      subst h1
      exact absurd h3 (requirement_unmet g sp ep _ hreq
        (health_requirement_error g sp ep hdev (hlacks ep h2)))

set_option maxRecDepth 100000 in
/-- Witness of `applySpecial_error_changes_nothing` in a classic session of four players:
after both have revealed their health cards, `p1` aims the replacement ability at `p2` while
the health deck holds no card, and the session stays as it was; at the start, when `p2` has
no revealed health card, the requirement rejects the same call. -/
theorem applySpecial_error_changes_nothing_witness :
    (applySpecial exampleReplaceRun "p1" "special-p1-1" (aimAt "p2") 5).2.Error =
        "В колоде категории \"Здоровье\" больше нет карт." ∧
      (applySpecial exampleReplaceRun "p1" "special-p1-1" (aimAt "p2") 5).1 =
        exampleReplaceRun ∧
      (applySpecial exampleReplaceStart "p1" "special-p1-1" (aimAt "p2") 5).2.Error ≠ "" ∧
      (applySpecial exampleReplaceStart "p1" "special-p1-1" (aimAt "p2") 5).1 =
        exampleReplaceStart ∧
      (namedSpecial (applySpecial exampleReplaceStart "p1" "special-p1-1" (aimAt "p2") 5).1
        "p1" "special-p1-1").map (fun sp => sp.Used) = some false := by
  have hrun : ServerRun exampleReplaceStart exampleReplaceRun :=
    ServerRun.action _ "p2" "revealCard" (cardPayload "p2-9") 3
      (ServerRun.action _ "p1" "continueRound" [] 2
        (ServerRun.action _ "p1" "revealCard" (cardPayload "p1-2") 1 ServerRun.start
          (by decide)) (by decide)) (by decide)
  have h1 := (applySpecial_error_changes_nothing "ROOM" "p1" "classic" exampleSettings
    exampleQuotaRuleset [{ ID := "p1", Name := "A" }, { ID := "p2", Name := "B" },
    { ID := "p3", Name := "C" }, { ID := "p4", Name := "D" }] []
    [exampleReplaceDefinition, exampleBanDefinition] [] 0 exampleReplaceRun "p1"
    "special-p1-1" (aimAt "p2") 5 hrun).1 (by decide)
  have h2 := (applySpecial_error_changes_nothing "ROOM" "p1" "classic" exampleSettings
    exampleQuotaRuleset [{ ID := "p1", Name := "A" }, { ID := "p2", Name := "B" },
    { ID := "p3", Name := "C" }, { ID := "p4", Name := "D" }] []
    [exampleReplaceDefinition, exampleBanDefinition] [] 0 exampleReplaceStart "p1"
    "special-p1-1" (aimAt "p2") 5 ServerRun.start).2 _ (by decide) rfl (by decide) (by
      intro ep hep
      have : ep = aimAt "p2" := by
        have h0 : resolveSpecialTarget exampleReplaceStart "p1" "any_alive"
            (mapEntries (aimAt "p2")) = .ok (aimAt "p2") := rfl
        exact Except.ok.inj (hep.symm.trans h0)
      subst this
      decide)
  exact ⟨by decide, h1, h2.1, h2.2.1, by rw [h2.2.2]; rfl⟩



/-! ## Vote records: flagged records name no target -/

theorem flagged_nil : flaggedWithoutTarget [] := fun _ he => absurd he (List.not_mem_nil _)

theorem flagged_mapModify (m : GoMap voteRecord) (k : String) (r : voteRecord)
    (h : flaggedWithoutTarget m) (hr : r.IsValid = false → r.TargetID = "") :
    flaggedWithoutTarget (mapModify m k (fun _ => r)) := by
  induction m with
  | nil => exact flagged_nil
  | cons e t ih =>
    obtain ⟨a, v⟩ := e
    have ht : flaggedWithoutTarget t := fun x hx => h x (List.mem_cons_of_mem _ hx)
    unfold mapModify
    split
    · intro x hx
      rcases List.mem_cons.1 hx with rfl | hx
      · exact hr
      · exact ht x hx
    · intro x hx
      rcases List.mem_cons.1 hx with rfl | hx
      · exact h _ (List.mem_cons_self _ _)
      · exact ih ht x hx

theorem flagged_mapSet (m : GoMap voteRecord) (k : String) (r : voteRecord)
    (h : flaggedWithoutTarget m) (hr : r.IsValid = false → r.TargetID = "") :
    flaggedWithoutTarget (mapSet m k r) := by
  unfold mapSet
  split
  · exact flagged_mapModify m k r h hr
  · intro x hx
    rcases List.mem_append.1 hx with hx | hx
    · exact h x hx
    · rw [List.mem_singleton.1 hx]
      exact hr

theorem flagged_mapDel (m : GoMap voteRecord) (k : String) (h : flaggedWithoutTarget m) :
    flaggedWithoutTarget (mapDel m k) :=
  fun x hx => h x (List.mem_of_mem_filter hx)

theorem flagged_get (m : GoMap voteRecord) (k : String) (r : voteRecord)
    (h : flaggedWithoutTarget m) (hg : mapGet? m k = some r) (hv : r.IsValid = false) :
    r.TargetID = "" :=
  h (k, r) (mapGet?_mem m k r hg) hv

theorem currentVoteSource_flagged (g : gameSession) (h : VotesWellFormed g) :
    flaggedWithoutTarget (currentVoteSource g) := by
  unfold currentVoteSource
  repeat' split
  · exact h.results
  · exact h.base
  · exact h.base
  · exact h.results
  · exact h.votes

theorem wf_of_same (g g2 : gameSession) (hv : g2.Votes = g.Votes)
    (hb : g2.BaseVotes = g.BaseVotes) (hr : g2.VoteResults = g.VoteResults)
    (h : VotesWellFormed g) : VotesWellFormed g2 :=
  ⟨hv ▸ h.votes, hb ▸ h.base, hr ▸ h.results⟩

theorem finalizeSource_flagged (g : gameSession) (h : VotesWellFormed g) :
    flaggedWithoutTarget (finalizeSource g) := by
  unfold finalizeSource
  split
  · exact h.base
  · exact currentVoteSource_flagged g h

/-- On a map of records whose flagged records name no target, the rule with the clause for
flagged records and the rule of the claim agree. -/
theorem guarded_eq_claimed (g : gameSession) (source : GoMap voteRecord) (id : String)
    (h : flaggedWithoutTarget source) :
    guardedEffectiveVote g source id = claimedEffectiveVote g source id := by
  unfold guardedEffectiveVote claimedEffectiveVote
  cases hs : mapGet? source id with
  | none => rfl
  | some record =>
    dsimp only
    by_cases hv : record.IsValid = false
    · have ht := flagged_get source id record h hs hv
      rw [hv, ht]
      simp
    · have hv2 : record.IsValid = true := by
        cases hb : record.IsValid
        · exact absurd hb hv
        · rfl
      rw [hv2]
      simp



/-! ## Vote records: the calls of the core session -/

theorem schedulePhaseTimer_wf (g : gameSession) (k : String) (s now : Int)
    (h : VotesWellFormed g) : VotesWellFormed (schedulePhaseTimer g k s now) := by
  unfold schedulePhaseTimer
  try dsimp only [makeEvent, clearActiveTimer, markSpecialUsed, modifyCard,
    copyVotes, nextCardInstanceID, nextSpecialInstanceID,
    ensureAllBunkerCardsRevealed]
  repeat' (first
    | with_reducible exact h
    | with_reducible refine ite_of (fun r => VotesWellFormed (Prod.fst r : gameSession)) _ _ _ (fun _ => ?_) (fun _ => ?_)
    | with_reducible refine ite_of (fun s : gameSession => VotesWellFormed s) _ _ _ (fun _ => ?_) (fun _ => ?_)
    | with_reducible exact flagged_nil
    | with_reducible refine flagged_mapSet _ _ _ ?_ ?_
    | with_reducible refine flagged_mapDel _ _ ?_
    | with_reducible refine currentVoteSource_flagged _ ?_
    | with_reducible refine finalizeSource_flagged _ ?_
    | with_reducible exact fun _ => rfl
    | with_reducible exact fun hh => Bool.noConfusion hh
    | with_reducible refine VotesWellFormed.votes ?_
    | with_reducible refine VotesWellFormed.base ?_
    | with_reducible refine VotesWellFormed.results ?_
    | (with_reducible refine wf_of_same _ _ (by with_reducible (conv => lhs; whnf); exact rfl) (by with_reducible rfl) (by with_reducible rfl) ?_; first | with_reducible exact h | with_reducible refine ite_of (fun r => VotesWellFormed (Prod.fst r : gameSession)) _ _ _ (fun _ => ?_) (fun _ => ?_) | with_reducible refine ite_of (fun s : gameSession => VotesWellFormed s) _ _ _ (fun _ => ?_) (fun _ => ?_))
    | (with_reducible refine VotesWellFormed.mk ?_ ?_ ?_ <;> with_reducible (conv => arg 1; whnf) <;> first | with_reducible exact flagged_nil | with_reducible refine flagged_mapSet _ _ _ ?_ ?_ | with_reducible refine flagged_mapDel _ _ ?_ | with_reducible refine currentVoteSource_flagged _ ?_ | with_reducible refine finalizeSource_flagged _ ?_ | (first | with_reducible refine VotesWellFormed.votes ?_ | with_reducible refine VotesWellFormed.base ?_ | with_reducible refine VotesWellFormed.results ?_); first | with_reducible exact h | with_reducible refine ite_of (fun r => VotesWellFormed (Prod.fst r : gameSession)) _ _ _ (fun _ => ?_) (fun _ => ?_) | with_reducible refine ite_of (fun s : gameSession => VotesWellFormed s) _ _ _ (fun _ => ?_) (fun _ => ?_))
    | split)

theorem scheduleRevealTimeoutIfNeeded_wf (g : gameSession) (now : Int)
    (h : VotesWellFormed g) : VotesWellFormed (scheduleRevealTimeoutIfNeeded g now) := by
  unfold scheduleRevealTimeoutIfNeeded
  try dsimp only [makeEvent, clearActiveTimer, markSpecialUsed, modifyCard,
    copyVotes, nextCardInstanceID, nextSpecialInstanceID,
    ensureAllBunkerCardsRevealed]
  repeat' (first
    | with_reducible exact h
    | with_reducible refine ite_of (fun r => VotesWellFormed (Prod.fst r : gameSession)) _ _ _ (fun _ => ?_) (fun _ => ?_)
    | with_reducible refine ite_of (fun s : gameSession => VotesWellFormed s) _ _ _ (fun _ => ?_) (fun _ => ?_)
    | with_reducible refine schedulePhaseTimer_wf _ _ _ _ ?_
    | with_reducible exact flagged_nil
    | with_reducible refine flagged_mapSet _ _ _ ?_ ?_
    | with_reducible refine flagged_mapDel _ _ ?_
    | with_reducible refine currentVoteSource_flagged _ ?_
    | with_reducible refine finalizeSource_flagged _ ?_
    | with_reducible exact fun _ => rfl
    | with_reducible exact fun hh => Bool.noConfusion hh
    | with_reducible refine VotesWellFormed.votes ?_
    | with_reducible refine VotesWellFormed.base ?_
    | with_reducible refine VotesWellFormed.results ?_
    | (with_reducible refine wf_of_same _ _ (by with_reducible (conv => lhs; whnf); exact rfl) (by with_reducible rfl) (by with_reducible rfl) ?_; first | with_reducible exact h | with_reducible refine schedulePhaseTimer_wf _ _ _ _ ?_ | with_reducible refine ite_of (fun r => VotesWellFormed (Prod.fst r : gameSession)) _ _ _ (fun _ => ?_) (fun _ => ?_) | with_reducible refine ite_of (fun s : gameSession => VotesWellFormed s) _ _ _ (fun _ => ?_) (fun _ => ?_))
    | (with_reducible refine VotesWellFormed.mk ?_ ?_ ?_ <;> with_reducible (conv => arg 1; whnf) <;> first | with_reducible exact flagged_nil | with_reducible refine flagged_mapSet _ _ _ ?_ ?_ | with_reducible refine flagged_mapDel _ _ ?_ | with_reducible refine currentVoteSource_flagged _ ?_ | with_reducible refine finalizeSource_flagged _ ?_ | (first | with_reducible refine VotesWellFormed.votes ?_ | with_reducible refine VotesWellFormed.base ?_ | with_reducible refine VotesWellFormed.results ?_); first | with_reducible exact h | with_reducible refine schedulePhaseTimer_wf _ _ _ _ ?_ | with_reducible refine ite_of (fun r => VotesWellFormed (Prod.fst r : gameSession)) _ _ _ (fun _ => ?_) (fun _ => ?_) | with_reducible refine ite_of (fun s : gameSession => VotesWellFormed s) _ _ _ (fun _ => ?_) (fun _ => ?_))
    | split)

theorem revealNextBunkerCard_wf (g : gameSession) (round : Int)
    (h : VotesWellFormed g) : VotesWellFormed (revealNextBunkerCard g round) := by
  unfold revealNextBunkerCard
  try dsimp only [makeEvent, clearActiveTimer, markSpecialUsed, modifyCard,
    copyVotes, nextCardInstanceID, nextSpecialInstanceID,
    ensureAllBunkerCardsRevealed]
  repeat' (first
    | with_reducible exact h
    | with_reducible refine ite_of (fun r => VotesWellFormed (Prod.fst r : gameSession)) _ _ _ (fun _ => ?_) (fun _ => ?_)
    | with_reducible refine ite_of (fun s : gameSession => VotesWellFormed s) _ _ _ (fun _ => ?_) (fun _ => ?_)
    | with_reducible refine schedulePhaseTimer_wf _ _ _ _ ?_
    | with_reducible refine scheduleRevealTimeoutIfNeeded_wf _ _ ?_
    | with_reducible exact flagged_nil
    | with_reducible refine flagged_mapSet _ _ _ ?_ ?_
    | with_reducible refine flagged_mapDel _ _ ?_
    | with_reducible refine currentVoteSource_flagged _ ?_
    | with_reducible refine finalizeSource_flagged _ ?_
    | with_reducible exact fun _ => rfl
    | with_reducible exact fun hh => Bool.noConfusion hh
    | with_reducible refine VotesWellFormed.votes ?_
    | with_reducible refine VotesWellFormed.base ?_
    | with_reducible refine VotesWellFormed.results ?_
    | (with_reducible refine wf_of_same _ _ (by with_reducible (conv => lhs; whnf); exact rfl) (by with_reducible rfl) (by with_reducible rfl) ?_; first | with_reducible exact h | with_reducible refine schedulePhaseTimer_wf _ _ _ _ ?_ | with_reducible refine scheduleRevealTimeoutIfNeeded_wf _ _ ?_ | with_reducible refine ite_of (fun r => VotesWellFormed (Prod.fst r : gameSession)) _ _ _ (fun _ => ?_) (fun _ => ?_) | with_reducible refine ite_of (fun s : gameSession => VotesWellFormed s) _ _ _ (fun _ => ?_) (fun _ => ?_))
    | (with_reducible refine VotesWellFormed.mk ?_ ?_ ?_ <;> with_reducible (conv => arg 1; whnf) <;> first | with_reducible exact flagged_nil | with_reducible refine flagged_mapSet _ _ _ ?_ ?_ | with_reducible refine flagged_mapDel _ _ ?_ | with_reducible refine currentVoteSource_flagged _ ?_ | with_reducible refine finalizeSource_flagged _ ?_ | (first | with_reducible refine VotesWellFormed.votes ?_ | with_reducible refine VotesWellFormed.base ?_ | with_reducible refine VotesWellFormed.results ?_); first | with_reducible exact h | with_reducible refine schedulePhaseTimer_wf _ _ _ _ ?_ | with_reducible refine scheduleRevealTimeoutIfNeeded_wf _ _ ?_ | with_reducible refine ite_of (fun r => VotesWellFormed (Prod.fst r : gameSession)) _ _ _ (fun _ => ?_) (fun _ => ?_) | with_reducible refine ite_of (fun s : gameSession => VotesWellFormed s) _ _ _ (fun _ => ?_) (fun _ => ?_))
    | split)

theorem finishGame_wf (g : gameSession) (reason : String) (now : Int)
    (h : VotesWellFormed g) : VotesWellFormed (finishGame g reason now).1 := by
  unfold finishGame
  try dsimp only [makeEvent, clearActiveTimer, markSpecialUsed, modifyCard,
    copyVotes, nextCardInstanceID, nextSpecialInstanceID,
    ensureAllBunkerCardsRevealed]
  repeat' (first
    | with_reducible exact h
    | with_reducible refine ite_of (fun r => VotesWellFormed (Prod.fst r : gameSession)) _ _ _ (fun _ => ?_) (fun _ => ?_)
    | with_reducible refine ite_of (fun s : gameSession => VotesWellFormed s) _ _ _ (fun _ => ?_) (fun _ => ?_)
    | with_reducible refine schedulePhaseTimer_wf _ _ _ _ ?_
    | with_reducible refine scheduleRevealTimeoutIfNeeded_wf _ _ ?_
    | with_reducible refine revealNextBunkerCard_wf _ _ ?_
    | with_reducible exact flagged_nil
    | with_reducible refine flagged_mapSet _ _ _ ?_ ?_
    | with_reducible refine flagged_mapDel _ _ ?_
    | with_reducible refine currentVoteSource_flagged _ ?_
    | with_reducible refine finalizeSource_flagged _ ?_
    | with_reducible exact fun _ => rfl
    | with_reducible exact fun hh => Bool.noConfusion hh
    | with_reducible refine VotesWellFormed.votes ?_
    | with_reducible refine VotesWellFormed.base ?_
    | with_reducible refine VotesWellFormed.results ?_
    | (with_reducible refine wf_of_same _ _ (by with_reducible (conv => lhs; whnf); exact rfl) (by with_reducible rfl) (by with_reducible rfl) ?_; first | with_reducible exact h | with_reducible refine schedulePhaseTimer_wf _ _ _ _ ?_ | with_reducible refine scheduleRevealTimeoutIfNeeded_wf _ _ ?_ | with_reducible refine revealNextBunkerCard_wf _ _ ?_ | with_reducible refine ite_of (fun r => VotesWellFormed (Prod.fst r : gameSession)) _ _ _ (fun _ => ?_) (fun _ => ?_) | with_reducible refine ite_of (fun s : gameSession => VotesWellFormed s) _ _ _ (fun _ => ?_) (fun _ => ?_))
    | (with_reducible refine VotesWellFormed.mk ?_ ?_ ?_ <;> with_reducible (conv => arg 1; whnf) <;> first | with_reducible exact flagged_nil | with_reducible refine flagged_mapSet _ _ _ ?_ ?_ | with_reducible refine flagged_mapDel _ _ ?_ | with_reducible refine currentVoteSource_flagged _ ?_ | with_reducible refine finalizeSource_flagged _ ?_ | (first | with_reducible refine VotesWellFormed.votes ?_ | with_reducible refine VotesWellFormed.base ?_ | with_reducible refine VotesWellFormed.results ?_); first | with_reducible exact h | with_reducible refine schedulePhaseTimer_wf _ _ _ _ ?_ | with_reducible refine scheduleRevealTimeoutIfNeeded_wf _ _ ?_ | with_reducible refine revealNextBunkerCard_wf _ _ ?_ | with_reducible refine ite_of (fun r => VotesWellFormed (Prod.fst r : gameSession)) _ _ _ (fun _ => ?_) (fun _ => ?_) | with_reducible refine ite_of (fun s : gameSession => VotesWellFormed s) _ _ _ (fun _ => ?_) (fun _ => ?_))
    | split)

theorem passTurnFrom_wf (g : gameSession) (id : String)
    (h : VotesWellFormed g) : VotesWellFormed (passTurnFrom g id) := by
  unfold passTurnFrom
  try dsimp only [makeEvent, clearActiveTimer, markSpecialUsed, modifyCard,
    copyVotes, nextCardInstanceID, nextSpecialInstanceID,
    ensureAllBunkerCardsRevealed]
  repeat' (first
    | with_reducible exact h
    | with_reducible refine ite_of (fun r => VotesWellFormed (Prod.fst r : gameSession)) _ _ _ (fun _ => ?_) (fun _ => ?_)
    | with_reducible refine ite_of (fun s : gameSession => VotesWellFormed s) _ _ _ (fun _ => ?_) (fun _ => ?_)
    | with_reducible refine schedulePhaseTimer_wf _ _ _ _ ?_
    | with_reducible refine scheduleRevealTimeoutIfNeeded_wf _ _ ?_
    | with_reducible refine revealNextBunkerCard_wf _ _ ?_
    | with_reducible refine finishGame_wf _ _ _ ?_
    | with_reducible exact flagged_nil
    | with_reducible refine flagged_mapSet _ _ _ ?_ ?_
    | with_reducible refine flagged_mapDel _ _ ?_
    | with_reducible refine currentVoteSource_flagged _ ?_
    | with_reducible refine finalizeSource_flagged _ ?_
    | with_reducible exact fun _ => rfl
    | with_reducible exact fun hh => Bool.noConfusion hh
    | with_reducible refine VotesWellFormed.votes ?_
    | with_reducible refine VotesWellFormed.base ?_
    | with_reducible refine VotesWellFormed.results ?_
    | (with_reducible refine wf_of_same _ _ (by with_reducible (conv => lhs; whnf); exact rfl) (by with_reducible rfl) (by with_reducible rfl) ?_; first | with_reducible exact h | with_reducible refine schedulePhaseTimer_wf _ _ _ _ ?_ | with_reducible refine scheduleRevealTimeoutIfNeeded_wf _ _ ?_ | with_reducible refine revealNextBunkerCard_wf _ _ ?_ | with_reducible refine finishGame_wf _ _ _ ?_ | with_reducible refine ite_of (fun r => VotesWellFormed (Prod.fst r : gameSession)) _ _ _ (fun _ => ?_) (fun _ => ?_) | with_reducible refine ite_of (fun s : gameSession => VotesWellFormed s) _ _ _ (fun _ => ?_) (fun _ => ?_))
    | (with_reducible refine VotesWellFormed.mk ?_ ?_ ?_ <;> with_reducible (conv => arg 1; whnf) <;> first | with_reducible exact flagged_nil | with_reducible refine flagged_mapSet _ _ _ ?_ ?_ | with_reducible refine flagged_mapDel _ _ ?_ | with_reducible refine currentVoteSource_flagged _ ?_ | with_reducible refine finalizeSource_flagged _ ?_ | (first | with_reducible refine VotesWellFormed.votes ?_ | with_reducible refine VotesWellFormed.base ?_ | with_reducible refine VotesWellFormed.results ?_); first | with_reducible exact h | with_reducible refine schedulePhaseTimer_wf _ _ _ _ ?_ | with_reducible refine scheduleRevealTimeoutIfNeeded_wf _ _ ?_ | with_reducible refine revealNextBunkerCard_wf _ _ ?_ | with_reducible refine finishGame_wf _ _ _ ?_ | with_reducible refine ite_of (fun r => VotesWellFormed (Prod.fst r : gameSession)) _ _ _ (fun _ => ?_) (fun _ => ?_) | with_reducible refine ite_of (fun s : gameSession => VotesWellFormed s) _ _ _ (fun _ => ?_) (fun _ => ?_))
    | split)

theorem revealWorldThreat_wf (g : gameSession) (a : String) (i : Int)
    (h : VotesWellFormed g) : VotesWellFormed (revealWorldThreat g a i).1 := by
  unfold revealWorldThreat
  try dsimp only [makeEvent, clearActiveTimer, markSpecialUsed, modifyCard,
    copyVotes, nextCardInstanceID, nextSpecialInstanceID,
    ensureAllBunkerCardsRevealed]
  repeat' (first
    | with_reducible exact h
    | with_reducible refine ite_of (fun r => VotesWellFormed (Prod.fst r : gameSession)) _ _ _ (fun _ => ?_) (fun _ => ?_)
    | with_reducible refine ite_of (fun s : gameSession => VotesWellFormed s) _ _ _ (fun _ => ?_) (fun _ => ?_)
    | with_reducible refine schedulePhaseTimer_wf _ _ _ _ ?_
    | with_reducible refine scheduleRevealTimeoutIfNeeded_wf _ _ ?_
    | with_reducible refine revealNextBunkerCard_wf _ _ ?_
    | with_reducible refine finishGame_wf _ _ _ ?_
    | with_reducible refine passTurnFrom_wf _ _ ?_
    | with_reducible exact flagged_nil
    | with_reducible refine flagged_mapSet _ _ _ ?_ ?_
    | with_reducible refine flagged_mapDel _ _ ?_
    | with_reducible refine currentVoteSource_flagged _ ?_
    | with_reducible refine finalizeSource_flagged _ ?_
    | with_reducible exact fun _ => rfl
    | with_reducible exact fun hh => Bool.noConfusion hh
    | with_reducible refine VotesWellFormed.votes ?_
    | with_reducible refine VotesWellFormed.base ?_
    | with_reducible refine VotesWellFormed.results ?_
    | (with_reducible refine wf_of_same _ _ (by with_reducible (conv => lhs; whnf); exact rfl) (by with_reducible rfl) (by with_reducible rfl) ?_; first | with_reducible exact h | with_reducible refine schedulePhaseTimer_wf _ _ _ _ ?_ | with_reducible refine scheduleRevealTimeoutIfNeeded_wf _ _ ?_ | with_reducible refine revealNextBunkerCard_wf _ _ ?_ | with_reducible refine finishGame_wf _ _ _ ?_ | with_reducible refine passTurnFrom_wf _ _ ?_ | with_reducible refine ite_of (fun r => VotesWellFormed (Prod.fst r : gameSession)) _ _ _ (fun _ => ?_) (fun _ => ?_) | with_reducible refine ite_of (fun s : gameSession => VotesWellFormed s) _ _ _ (fun _ => ?_) (fun _ => ?_))
    | (with_reducible refine VotesWellFormed.mk ?_ ?_ ?_ <;> with_reducible (conv => arg 1; whnf) <;> first | with_reducible exact flagged_nil | with_reducible refine flagged_mapSet _ _ _ ?_ ?_ | with_reducible refine flagged_mapDel _ _ ?_ | with_reducible refine currentVoteSource_flagged _ ?_ | with_reducible refine finalizeSource_flagged _ ?_ | (first | with_reducible refine VotesWellFormed.votes ?_ | with_reducible refine VotesWellFormed.base ?_ | with_reducible refine VotesWellFormed.results ?_); first | with_reducible exact h | with_reducible refine schedulePhaseTimer_wf _ _ _ _ ?_ | with_reducible refine scheduleRevealTimeoutIfNeeded_wf _ _ ?_ | with_reducible refine revealNextBunkerCard_wf _ _ ?_ | with_reducible refine finishGame_wf _ _ _ ?_ | with_reducible refine passTurnFrom_wf _ _ ?_ | with_reducible refine ite_of (fun r => VotesWellFormed (Prod.fst r : gameSession)) _ _ _ (fun _ => ?_) (fun _ => ?_) | with_reducible refine ite_of (fun s : gameSession => VotesWellFormed s) _ _ _ (fun _ => ?_) (fun _ => ?_))
    | split)

theorem setBunkerOutcome_wf (g : gameSession) (a o : String) (now : Int)
    (h : VotesWellFormed g) : VotesWellFormed (setBunkerOutcome g a o now).1 := by
  unfold setBunkerOutcome
  try dsimp only [makeEvent, clearActiveTimer, markSpecialUsed, modifyCard,
    copyVotes, nextCardInstanceID, nextSpecialInstanceID,
    ensureAllBunkerCardsRevealed]
  repeat' (first
    | with_reducible exact h
    | with_reducible refine ite_of (fun r => VotesWellFormed (Prod.fst r : gameSession)) _ _ _ (fun _ => ?_) (fun _ => ?_)
    | with_reducible refine ite_of (fun s : gameSession => VotesWellFormed s) _ _ _ (fun _ => ?_) (fun _ => ?_)
    | with_reducible refine schedulePhaseTimer_wf _ _ _ _ ?_
    | with_reducible refine scheduleRevealTimeoutIfNeeded_wf _ _ ?_
    | with_reducible refine revealNextBunkerCard_wf _ _ ?_
    | with_reducible refine finishGame_wf _ _ _ ?_
    | with_reducible refine passTurnFrom_wf _ _ ?_
    | with_reducible refine revealWorldThreat_wf _ _ _ ?_
    | with_reducible exact flagged_nil
    | with_reducible refine flagged_mapSet _ _ _ ?_ ?_
    | with_reducible refine flagged_mapDel _ _ ?_
    | with_reducible refine currentVoteSource_flagged _ ?_
    | with_reducible refine finalizeSource_flagged _ ?_
    | with_reducible exact fun _ => rfl
    | with_reducible exact fun hh => Bool.noConfusion hh
    | with_reducible refine VotesWellFormed.votes ?_
    | with_reducible refine VotesWellFormed.base ?_
    | with_reducible refine VotesWellFormed.results ?_
    | (with_reducible refine wf_of_same _ _ (by with_reducible (conv => lhs; whnf); exact rfl) (by with_reducible rfl) (by with_reducible rfl) ?_; first | with_reducible exact h | with_reducible refine schedulePhaseTimer_wf _ _ _ _ ?_ | with_reducible refine scheduleRevealTimeoutIfNeeded_wf _ _ ?_ | with_reducible refine revealNextBunkerCard_wf _ _ ?_ | with_reducible refine finishGame_wf _ _ _ ?_ | with_reducible refine passTurnFrom_wf _ _ ?_ | with_reducible refine revealWorldThreat_wf _ _ _ ?_ | with_reducible refine ite_of (fun r => VotesWellFormed (Prod.fst r : gameSession)) _ _ _ (fun _ => ?_) (fun _ => ?_) | with_reducible refine ite_of (fun s : gameSession => VotesWellFormed s) _ _ _ (fun _ => ?_) (fun _ => ?_))
    | (with_reducible refine VotesWellFormed.mk ?_ ?_ ?_ <;> with_reducible (conv => arg 1; whnf) <;> first | with_reducible exact flagged_nil | with_reducible refine flagged_mapSet _ _ _ ?_ ?_ | with_reducible refine flagged_mapDel _ _ ?_ | with_reducible refine currentVoteSource_flagged _ ?_ | with_reducible refine finalizeSource_flagged _ ?_ | (first | with_reducible refine VotesWellFormed.votes ?_ | with_reducible refine VotesWellFormed.base ?_ | with_reducible refine VotesWellFormed.results ?_); first | with_reducible exact h | with_reducible refine schedulePhaseTimer_wf _ _ _ _ ?_ | with_reducible refine scheduleRevealTimeoutIfNeeded_wf _ _ ?_ | with_reducible refine revealNextBunkerCard_wf _ _ ?_ | with_reducible refine finishGame_wf _ _ _ ?_ | with_reducible refine passTurnFrom_wf _ _ ?_ | with_reducible refine revealWorldThreat_wf _ _ _ ?_ | with_reducible refine ite_of (fun r => VotesWellFormed (Prod.fst r : gameSession)) _ _ _ (fun _ => ?_) (fun _ => ?_) | with_reducible refine ite_of (fun s : gameSession => VotesWellFormed s) _ _ _ (fun _ => ?_) (fun _ => ?_))
    | split)

theorem handleOnOwnerEliminated_wf (g : gameSession) (id : String)
    (h : VotesWellFormed g) : VotesWellFormed (handleOnOwnerEliminated g id) := by
  unfold handleOnOwnerEliminated
  try dsimp only [makeEvent, clearActiveTimer, markSpecialUsed, modifyCard,
    copyVotes, nextCardInstanceID, nextSpecialInstanceID,
    ensureAllBunkerCardsRevealed]
  repeat' (first
    | with_reducible exact h
    | with_reducible refine ite_of (fun r => VotesWellFormed (Prod.fst r : gameSession)) _ _ _ (fun _ => ?_) (fun _ => ?_)
    | with_reducible refine ite_of (fun s : gameSession => VotesWellFormed s) _ _ _ (fun _ => ?_) (fun _ => ?_)
    | with_reducible refine schedulePhaseTimer_wf _ _ _ _ ?_
    | with_reducible refine scheduleRevealTimeoutIfNeeded_wf _ _ ?_
    | with_reducible refine revealNextBunkerCard_wf _ _ ?_
    | with_reducible refine finishGame_wf _ _ _ ?_
    | with_reducible refine passTurnFrom_wf _ _ ?_
    | with_reducible refine revealWorldThreat_wf _ _ _ ?_
    | with_reducible refine setBunkerOutcome_wf _ _ _ _ ?_
    | with_reducible exact flagged_nil
    | with_reducible refine flagged_mapSet _ _ _ ?_ ?_
    | with_reducible refine flagged_mapDel _ _ ?_
    | with_reducible refine currentVoteSource_flagged _ ?_
    | with_reducible refine finalizeSource_flagged _ ?_
    | with_reducible exact fun _ => rfl
    | with_reducible exact fun hh => Bool.noConfusion hh
    | with_reducible refine VotesWellFormed.votes ?_
    | with_reducible refine VotesWellFormed.base ?_
    | with_reducible refine VotesWellFormed.results ?_
    | (with_reducible refine wf_of_same _ _ (by with_reducible (conv => lhs; whnf); exact rfl) (by with_reducible rfl) (by with_reducible rfl) ?_; first | with_reducible exact h | with_reducible refine schedulePhaseTimer_wf _ _ _ _ ?_ | with_reducible refine scheduleRevealTimeoutIfNeeded_wf _ _ ?_ | with_reducible refine revealNextBunkerCard_wf _ _ ?_ | with_reducible refine finishGame_wf _ _ _ ?_ | with_reducible refine passTurnFrom_wf _ _ ?_ | with_reducible refine revealWorldThreat_wf _ _ _ ?_ | with_reducible refine setBunkerOutcome_wf _ _ _ _ ?_ | with_reducible refine ite_of (fun r => VotesWellFormed (Prod.fst r : gameSession)) _ _ _ (fun _ => ?_) (fun _ => ?_) | with_reducible refine ite_of (fun s : gameSession => VotesWellFormed s) _ _ _ (fun _ => ?_) (fun _ => ?_))
    | (with_reducible refine VotesWellFormed.mk ?_ ?_ ?_ <;> with_reducible (conv => arg 1; whnf) <;> first | with_reducible exact flagged_nil | with_reducible refine flagged_mapSet _ _ _ ?_ ?_ | with_reducible refine flagged_mapDel _ _ ?_ | with_reducible refine currentVoteSource_flagged _ ?_ | with_reducible refine finalizeSource_flagged _ ?_ | (first | with_reducible refine VotesWellFormed.votes ?_ | with_reducible refine VotesWellFormed.base ?_ | with_reducible refine VotesWellFormed.results ?_); first | with_reducible exact h | with_reducible refine schedulePhaseTimer_wf _ _ _ _ ?_ | with_reducible refine scheduleRevealTimeoutIfNeeded_wf _ _ ?_ | with_reducible refine revealNextBunkerCard_wf _ _ ?_ | with_reducible refine finishGame_wf _ _ _ ?_ | with_reducible refine passTurnFrom_wf _ _ ?_ | with_reducible refine revealWorldThreat_wf _ _ _ ?_ | with_reducible refine setBunkerOutcome_wf _ _ _ _ ?_ | with_reducible refine ite_of (fun r => VotesWellFormed (Prod.fst r : gameSession)) _ _ _ (fun _ => ?_) (fun _ => ?_) | with_reducible refine ite_of (fun s : gameSession => VotesWellFormed s) _ _ _ (fun _ => ?_) (fun _ => ?_))
    | split)

theorem removeFromVoting_wf (g : gameSession) (t : String)
    (h : VotesWellFormed g) : VotesWellFormed (removeFromVoting g t) :=
  ⟨flagged_mapDel _ _ h.votes, flagged_mapDel _ _ h.base, flagged_mapDel _ _ h.results⟩

theorem markVoteWasted_wf (g : gameSession) (v r : String) (now : Int)
    (h : VotesWellFormed g) : VotesWellFormed (markVoteWasted g v r now) :=
  ⟨flagged_mapSet _ _ _ h.votes (fun _ => rfl), h.base, h.results⟩

theorem startVotingStep_wf (now : Int) (g : gameSession) (e : String × gamePlayer)
    (h : VotesWellFormed g) : VotesWellFormed (startVotingStep now g e) := by
  unfold startVotingStep
  repeat' (first
    | with_reducible exact h
    | with_reducible refine ite_of (fun r => VotesWellFormed (Prod.fst r : gameSession)) _ _ _ (fun _ => ?_) (fun _ => ?_)
    | with_reducible refine ite_of (fun s : gameSession => VotesWellFormed s) _ _ _ (fun _ => ?_) (fun _ => ?_)
    | with_reducible refine markVoteWasted_wf _ _ _ _ ?_
    | with_reducible exact flagged_nil
    | with_reducible refine flagged_mapSet _ _ _ ?_ ?_
    | with_reducible refine flagged_mapDel _ _ ?_
    | with_reducible refine currentVoteSource_flagged _ ?_
    | with_reducible refine finalizeSource_flagged _ ?_
    | with_reducible exact fun _ => rfl
    | with_reducible exact fun hh => Bool.noConfusion hh
    | with_reducible refine VotesWellFormed.votes ?_
    | with_reducible refine VotesWellFormed.base ?_
    | with_reducible refine VotesWellFormed.results ?_
    | (with_reducible refine wf_of_same _ _ (by with_reducible (conv => lhs; whnf); exact rfl) (by with_reducible rfl) (by with_reducible rfl) ?_; first | with_reducible exact h | with_reducible refine markVoteWasted_wf _ _ _ _ ?_ | with_reducible refine ite_of (fun r => VotesWellFormed (Prod.fst r : gameSession)) _ _ _ (fun _ => ?_) (fun _ => ?_) | with_reducible refine ite_of (fun s : gameSession => VotesWellFormed s) _ _ _ (fun _ => ?_) (fun _ => ?_))
    | (with_reducible refine VotesWellFormed.mk ?_ ?_ ?_ <;> with_reducible (conv => arg 1; whnf) <;> first | with_reducible exact flagged_nil | with_reducible refine flagged_mapSet _ _ _ ?_ ?_ | with_reducible refine flagged_mapDel _ _ ?_ | with_reducible refine currentVoteSource_flagged _ ?_ | with_reducible refine finalizeSource_flagged _ ?_ | (first | with_reducible refine VotesWellFormed.votes ?_ | with_reducible refine VotesWellFormed.base ?_ | with_reducible refine VotesWellFormed.results ?_); first | with_reducible exact h | with_reducible refine markVoteWasted_wf _ _ _ _ ?_ | with_reducible refine ite_of (fun r => VotesWellFormed (Prod.fst r : gameSession)) _ _ _ (fun _ => ?_) (fun _ => ?_) | with_reducible refine ite_of (fun s : gameSession => VotesWellFormed s) _ _ _ (fun _ => ?_) (fun _ => ?_))
    | split)

theorem startVoting_wf (g : gameSession) (now : Int)
    (h : VotesWellFormed g) : VotesWellFormed (startVoting g now) := by
  unfold startVoting
  dsimp only [clearActiveTimer]
  refine VotesWellFormed.mk ?_ ?_ ?_
  all_goals dsimp only
  all_goals
    first
    | with_reducible refine VotesWellFormed.votes ?_
    | with_reducible refine VotesWellFormed.base ?_
    | with_reducible refine VotesWellFormed.results ?_
  all_goals
    refine foldl_holds (startVotingStep now) VotesWellFormed _
      (fun s e _ hs => startVotingStep_wf now s e hs) _ ?_
    exact ⟨flagged_nil, flagged_nil, flagged_nil⟩

theorem resetVotesForRevote_wf (g : gameSession) (now : Int)
    (h : VotesWellFormed g) : VotesWellFormed (resetVotesForRevote g now) := by
  unfold resetVotesForRevote
  dsimp only
  refine foldl_holds _ VotesWellFormed _ ?_ _ ⟨flagged_nil, flagged_nil, h.results⟩
  intro s a _ hs
  exact markVoteWasted_wf s a _ now hs

theorem startTieBreakRevote_wf (g : gameSession) (c : List String) (now : Int)
    (h : VotesWellFormed g) : VotesWellFormed (startTieBreakRevote g c now) := by
  unfold startTieBreakRevote
  dsimp only [clearActiveTimer]
  have h2 := resetVotesForRevote_wf { g with TieBreakUsed := true, VoteCandidates := c.foldl (fun m c => mapSet m c true) [], RevoteDisallow := [] } now ⟨h.votes, h.base, h.results⟩
  exact ⟨h2.votes, h2.base, h2.results⟩

theorem handleSecretEliminationTriggers_wf (g : gameSession) (id : String)
    (h : VotesWellFormed g) : VotesWellFormed (handleSecretEliminationTriggers g id) := by
  unfold handleSecretEliminationTriggers
  dsimp only
  refine foldl_holds _ VotesWellFormed _ ?_ _ h
  intro s a _ hs
  exact ⟨hs.votes, hs.base, hs.results⟩

theorem startNextRoundOrEnd_wf (g : gameSession) (now : Int)
    (h : VotesWellFormed g) : VotesWellFormed (startNextRoundOrEnd g now).1 := by
  unfold startNextRoundOrEnd
  try dsimp only [makeEvent, clearActiveTimer, markSpecialUsed, modifyCard,
    copyVotes, nextCardInstanceID, nextSpecialInstanceID,
    ensureAllBunkerCardsRevealed]
  repeat' (first
    | with_reducible exact h
    | with_reducible refine ite_of (fun r => VotesWellFormed (Prod.fst r : gameSession)) _ _ _ (fun _ => ?_) (fun _ => ?_)
    | with_reducible refine ite_of (fun s : gameSession => VotesWellFormed s) _ _ _ (fun _ => ?_) (fun _ => ?_)
    | with_reducible refine schedulePhaseTimer_wf _ _ _ _ ?_
    | with_reducible refine scheduleRevealTimeoutIfNeeded_wf _ _ ?_
    | with_reducible refine revealNextBunkerCard_wf _ _ ?_
    | with_reducible refine finishGame_wf _ _ _ ?_
    | with_reducible refine passTurnFrom_wf _ _ ?_
    | with_reducible refine revealWorldThreat_wf _ _ _ ?_
    | with_reducible refine setBunkerOutcome_wf _ _ _ _ ?_
    | with_reducible refine handleOnOwnerEliminated_wf _ _ ?_
    | with_reducible refine removeFromVoting_wf _ _ ?_
    | with_reducible refine markVoteWasted_wf _ _ _ _ ?_
    | with_reducible refine startVoting_wf _ _ ?_
    | with_reducible refine resetVotesForRevote_wf _ _ ?_
    | with_reducible refine startTieBreakRevote_wf _ _ _ ?_
    | with_reducible refine handleSecretEliminationTriggers_wf _ _ ?_
    | with_reducible exact flagged_nil
    | with_reducible refine flagged_mapSet _ _ _ ?_ ?_
    | with_reducible refine flagged_mapDel _ _ ?_
    | with_reducible refine currentVoteSource_flagged _ ?_
    | with_reducible refine finalizeSource_flagged _ ?_
    | with_reducible exact fun _ => rfl
    | with_reducible exact fun hh => Bool.noConfusion hh
    | with_reducible refine VotesWellFormed.votes ?_
    | with_reducible refine VotesWellFormed.base ?_
    | with_reducible refine VotesWellFormed.results ?_
    | (with_reducible refine wf_of_same _ _ (by with_reducible (conv => lhs; whnf); exact rfl) (by with_reducible rfl) (by with_reducible rfl) ?_; first | with_reducible exact h | with_reducible refine schedulePhaseTimer_wf _ _ _ _ ?_ | with_reducible refine scheduleRevealTimeoutIfNeeded_wf _ _ ?_ | with_reducible refine revealNextBunkerCard_wf _ _ ?_ | with_reducible refine finishGame_wf _ _ _ ?_ | with_reducible refine passTurnFrom_wf _ _ ?_ | with_reducible refine revealWorldThreat_wf _ _ _ ?_ | with_reducible refine setBunkerOutcome_wf _ _ _ _ ?_ | with_reducible refine handleOnOwnerEliminated_wf _ _ ?_ | with_reducible refine removeFromVoting_wf _ _ ?_ | with_reducible refine markVoteWasted_wf _ _ _ _ ?_ | with_reducible refine startVoting_wf _ _ ?_ | with_reducible refine resetVotesForRevote_wf _ _ ?_ | with_reducible refine startTieBreakRevote_wf _ _ _ ?_ | with_reducible refine handleSecretEliminationTriggers_wf _ _ ?_ | with_reducible refine ite_of (fun r => VotesWellFormed (Prod.fst r : gameSession)) _ _ _ (fun _ => ?_) (fun _ => ?_) | with_reducible refine ite_of (fun s : gameSession => VotesWellFormed s) _ _ _ (fun _ => ?_) (fun _ => ?_))
    | (with_reducible refine VotesWellFormed.mk ?_ ?_ ?_ <;> with_reducible (conv => arg 1; whnf) <;> first | with_reducible exact flagged_nil | with_reducible refine flagged_mapSet _ _ _ ?_ ?_ | with_reducible refine flagged_mapDel _ _ ?_ | with_reducible refine currentVoteSource_flagged _ ?_ | with_reducible refine finalizeSource_flagged _ ?_ | (first | with_reducible refine VotesWellFormed.votes ?_ | with_reducible refine VotesWellFormed.base ?_ | with_reducible refine VotesWellFormed.results ?_); first | with_reducible exact h | with_reducible refine schedulePhaseTimer_wf _ _ _ _ ?_ | with_reducible refine scheduleRevealTimeoutIfNeeded_wf _ _ ?_ | with_reducible refine revealNextBunkerCard_wf _ _ ?_ | with_reducible refine finishGame_wf _ _ _ ?_ | with_reducible refine passTurnFrom_wf _ _ ?_ | with_reducible refine revealWorldThreat_wf _ _ _ ?_ | with_reducible refine setBunkerOutcome_wf _ _ _ _ ?_ | with_reducible refine handleOnOwnerEliminated_wf _ _ ?_ | with_reducible refine removeFromVoting_wf _ _ ?_ | with_reducible refine markVoteWasted_wf _ _ _ _ ?_ | with_reducible refine startVoting_wf _ _ ?_ | with_reducible refine resetVotesForRevote_wf _ _ ?_ | with_reducible refine startTieBreakRevote_wf _ _ _ ?_ | with_reducible refine handleSecretEliminationTriggers_wf _ _ ?_ | with_reducible refine ite_of (fun r => VotesWellFormed (Prod.fst r : gameSession)) _ _ _ (fun _ => ?_) (fun _ => ?_) | with_reducible refine ite_of (fun s : gameSession => VotesWellFormed s) _ _ _ (fun _ => ?_) (fun _ => ?_))
    | split)

theorem enterRevealDiscussion_wf (g : gameSession) (now : Int)
    (h : VotesWellFormed g) : VotesWellFormed (enterRevealDiscussion g now) := by
  unfold enterRevealDiscussion
  try dsimp only [makeEvent, clearActiveTimer, markSpecialUsed, modifyCard,
    copyVotes, nextCardInstanceID, nextSpecialInstanceID,
    ensureAllBunkerCardsRevealed]
  repeat' (first
    | with_reducible exact h
    | with_reducible refine ite_of (fun r => VotesWellFormed (Prod.fst r : gameSession)) _ _ _ (fun _ => ?_) (fun _ => ?_)
    | with_reducible refine ite_of (fun s : gameSession => VotesWellFormed s) _ _ _ (fun _ => ?_) (fun _ => ?_)
    | with_reducible refine schedulePhaseTimer_wf _ _ _ _ ?_
    | with_reducible refine scheduleRevealTimeoutIfNeeded_wf _ _ ?_
    | with_reducible refine revealNextBunkerCard_wf _ _ ?_
    | with_reducible refine finishGame_wf _ _ _ ?_
    | with_reducible refine passTurnFrom_wf _ _ ?_
    | with_reducible refine revealWorldThreat_wf _ _ _ ?_
    | with_reducible refine setBunkerOutcome_wf _ _ _ _ ?_
    | with_reducible refine handleOnOwnerEliminated_wf _ _ ?_
    | with_reducible refine removeFromVoting_wf _ _ ?_
    | with_reducible refine markVoteWasted_wf _ _ _ _ ?_
    | with_reducible refine startVoting_wf _ _ ?_
    | with_reducible refine resetVotesForRevote_wf _ _ ?_
    | with_reducible refine startTieBreakRevote_wf _ _ _ ?_
    | with_reducible refine handleSecretEliminationTriggers_wf _ _ ?_
    | with_reducible refine startNextRoundOrEnd_wf _ _ ?_
    | with_reducible exact flagged_nil
    | with_reducible refine flagged_mapSet _ _ _ ?_ ?_
    | with_reducible refine flagged_mapDel _ _ ?_
    | with_reducible refine currentVoteSource_flagged _ ?_
    | with_reducible refine finalizeSource_flagged _ ?_
    | with_reducible exact fun _ => rfl
    | with_reducible exact fun hh => Bool.noConfusion hh
    | with_reducible refine VotesWellFormed.votes ?_
    | with_reducible refine VotesWellFormed.base ?_
    | with_reducible refine VotesWellFormed.results ?_
    | (with_reducible refine wf_of_same _ _ (by with_reducible (conv => lhs; whnf); exact rfl) (by with_reducible rfl) (by with_reducible rfl) ?_; first | with_reducible exact h | with_reducible refine schedulePhaseTimer_wf _ _ _ _ ?_ | with_reducible refine scheduleRevealTimeoutIfNeeded_wf _ _ ?_ | with_reducible refine revealNextBunkerCard_wf _ _ ?_ | with_reducible refine finishGame_wf _ _ _ ?_ | with_reducible refine passTurnFrom_wf _ _ ?_ | with_reducible refine revealWorldThreat_wf _ _ _ ?_ | with_reducible refine setBunkerOutcome_wf _ _ _ _ ?_ | with_reducible refine handleOnOwnerEliminated_wf _ _ ?_ | with_reducible refine removeFromVoting_wf _ _ ?_ | with_reducible refine markVoteWasted_wf _ _ _ _ ?_ | with_reducible refine startVoting_wf _ _ ?_ | with_reducible refine resetVotesForRevote_wf _ _ ?_ | with_reducible refine startTieBreakRevote_wf _ _ _ ?_ | with_reducible refine handleSecretEliminationTriggers_wf _ _ ?_ | with_reducible refine startNextRoundOrEnd_wf _ _ ?_ | with_reducible refine ite_of (fun r => VotesWellFormed (Prod.fst r : gameSession)) _ _ _ (fun _ => ?_) (fun _ => ?_) | with_reducible refine ite_of (fun s : gameSession => VotesWellFormed s) _ _ _ (fun _ => ?_) (fun _ => ?_))
    | (with_reducible refine VotesWellFormed.mk ?_ ?_ ?_ <;> with_reducible (conv => arg 1; whnf) <;> first | with_reducible exact flagged_nil | with_reducible refine flagged_mapSet _ _ _ ?_ ?_ | with_reducible refine flagged_mapDel _ _ ?_ | with_reducible refine currentVoteSource_flagged _ ?_ | with_reducible refine finalizeSource_flagged _ ?_ | (first | with_reducible refine VotesWellFormed.votes ?_ | with_reducible refine VotesWellFormed.base ?_ | with_reducible refine VotesWellFormed.results ?_); first | with_reducible exact h | with_reducible refine schedulePhaseTimer_wf _ _ _ _ ?_ | with_reducible refine scheduleRevealTimeoutIfNeeded_wf _ _ ?_ | with_reducible refine revealNextBunkerCard_wf _ _ ?_ | with_reducible refine finishGame_wf _ _ _ ?_ | with_reducible refine passTurnFrom_wf _ _ ?_ | with_reducible refine revealWorldThreat_wf _ _ _ ?_ | with_reducible refine setBunkerOutcome_wf _ _ _ _ ?_ | with_reducible refine handleOnOwnerEliminated_wf _ _ ?_ | with_reducible refine removeFromVoting_wf _ _ ?_ | with_reducible refine markVoteWasted_wf _ _ _ _ ?_ | with_reducible refine startVoting_wf _ _ ?_ | with_reducible refine resetVotesForRevote_wf _ _ ?_ | with_reducible refine startTieBreakRevote_wf _ _ _ ?_ | with_reducible refine handleSecretEliminationTriggers_wf _ _ ?_ | with_reducible refine startNextRoundOrEnd_wf _ _ ?_ | with_reducible refine ite_of (fun r => VotesWellFormed (Prod.fst r : gameSession)) _ _ _ (fun _ => ?_) (fun _ => ?_) | with_reducible refine ite_of (fun s : gameSession => VotesWellFormed s) _ _ _ (fun _ => ?_) (fun _ => ?_))
    | split)

theorem enterVoteSpecialWindow_wf (g : gameSession) (now : Int)
    (h : VotesWellFormed g) : VotesWellFormed (enterVoteSpecialWindow g now).1 := by
  unfold enterVoteSpecialWindow
  try dsimp only [makeEvent, clearActiveTimer, markSpecialUsed, modifyCard,
    copyVotes, nextCardInstanceID, nextSpecialInstanceID,
    ensureAllBunkerCardsRevealed]
  repeat' (first
    | with_reducible exact h
    | with_reducible refine ite_of (fun r => VotesWellFormed (Prod.fst r : gameSession)) _ _ _ (fun _ => ?_) (fun _ => ?_)
    | with_reducible refine ite_of (fun s : gameSession => VotesWellFormed s) _ _ _ (fun _ => ?_) (fun _ => ?_)
    | with_reducible refine schedulePhaseTimer_wf _ _ _ _ ?_
    | with_reducible refine scheduleRevealTimeoutIfNeeded_wf _ _ ?_
    | with_reducible refine revealNextBunkerCard_wf _ _ ?_
    | with_reducible refine finishGame_wf _ _ _ ?_
    | with_reducible refine passTurnFrom_wf _ _ ?_
    | with_reducible refine revealWorldThreat_wf _ _ _ ?_
    | with_reducible refine setBunkerOutcome_wf _ _ _ _ ?_
    | with_reducible refine handleOnOwnerEliminated_wf _ _ ?_
    | with_reducible refine removeFromVoting_wf _ _ ?_
    | with_reducible refine markVoteWasted_wf _ _ _ _ ?_
    | with_reducible refine startVoting_wf _ _ ?_
    | with_reducible refine resetVotesForRevote_wf _ _ ?_
    | with_reducible refine startTieBreakRevote_wf _ _ _ ?_
    | with_reducible refine handleSecretEliminationTriggers_wf _ _ ?_
    | with_reducible refine startNextRoundOrEnd_wf _ _ ?_
    | with_reducible refine enterRevealDiscussion_wf _ _ ?_
    | with_reducible exact flagged_nil
    | with_reducible refine flagged_mapSet _ _ _ ?_ ?_
    | with_reducible refine flagged_mapDel _ _ ?_
    | with_reducible refine currentVoteSource_flagged _ ?_
    | with_reducible refine finalizeSource_flagged _ ?_
    | with_reducible exact fun _ => rfl
    | with_reducible exact fun hh => Bool.noConfusion hh
    | with_reducible refine VotesWellFormed.votes ?_
    | with_reducible refine VotesWellFormed.base ?_
    | with_reducible refine VotesWellFormed.results ?_
    | (with_reducible refine wf_of_same _ _ (by with_reducible (conv => lhs; whnf); exact rfl) (by with_reducible rfl) (by with_reducible rfl) ?_; first | with_reducible exact h | with_reducible refine schedulePhaseTimer_wf _ _ _ _ ?_ | with_reducible refine scheduleRevealTimeoutIfNeeded_wf _ _ ?_ | with_reducible refine revealNextBunkerCard_wf _ _ ?_ | with_reducible refine finishGame_wf _ _ _ ?_ | with_reducible refine passTurnFrom_wf _ _ ?_ | with_reducible refine revealWorldThreat_wf _ _ _ ?_ | with_reducible refine setBunkerOutcome_wf _ _ _ _ ?_ | with_reducible refine handleOnOwnerEliminated_wf _ _ ?_ | with_reducible refine removeFromVoting_wf _ _ ?_ | with_reducible refine markVoteWasted_wf _ _ _ _ ?_ | with_reducible refine startVoting_wf _ _ ?_ | with_reducible refine resetVotesForRevote_wf _ _ ?_ | with_reducible refine startTieBreakRevote_wf _ _ _ ?_ | with_reducible refine handleSecretEliminationTriggers_wf _ _ ?_ | with_reducible refine startNextRoundOrEnd_wf _ _ ?_ | with_reducible refine enterRevealDiscussion_wf _ _ ?_ | with_reducible refine ite_of (fun r => VotesWellFormed (Prod.fst r : gameSession)) _ _ _ (fun _ => ?_) (fun _ => ?_) | with_reducible refine ite_of (fun s : gameSession => VotesWellFormed s) _ _ _ (fun _ => ?_) (fun _ => ?_))
    | (with_reducible refine VotesWellFormed.mk ?_ ?_ ?_ <;> with_reducible (conv => arg 1; whnf) <;> first | with_reducible exact flagged_nil | with_reducible refine flagged_mapSet _ _ _ ?_ ?_ | with_reducible refine flagged_mapDel _ _ ?_ | with_reducible refine currentVoteSource_flagged _ ?_ | with_reducible refine finalizeSource_flagged _ ?_ | (first | with_reducible refine VotesWellFormed.votes ?_ | with_reducible refine VotesWellFormed.base ?_ | with_reducible refine VotesWellFormed.results ?_); first | with_reducible exact h | with_reducible refine schedulePhaseTimer_wf _ _ _ _ ?_ | with_reducible refine scheduleRevealTimeoutIfNeeded_wf _ _ ?_ | with_reducible refine revealNextBunkerCard_wf _ _ ?_ | with_reducible refine finishGame_wf _ _ _ ?_ | with_reducible refine passTurnFrom_wf _ _ ?_ | with_reducible refine revealWorldThreat_wf _ _ _ ?_ | with_reducible refine setBunkerOutcome_wf _ _ _ _ ?_ | with_reducible refine handleOnOwnerEliminated_wf _ _ ?_ | with_reducible refine removeFromVoting_wf _ _ ?_ | with_reducible refine markVoteWasted_wf _ _ _ _ ?_ | with_reducible refine startVoting_wf _ _ ?_ | with_reducible refine resetVotesForRevote_wf _ _ ?_ | with_reducible refine startTieBreakRevote_wf _ _ _ ?_ | with_reducible refine handleSecretEliminationTriggers_wf _ _ ?_ | with_reducible refine startNextRoundOrEnd_wf _ _ ?_ | with_reducible refine enterRevealDiscussion_wf _ _ ?_ | with_reducible refine ite_of (fun r => VotesWellFormed (Prod.fst r : gameSession)) _ _ _ (fun _ => ?_) (fun _ => ?_) | with_reducible refine ite_of (fun s : gameSession => VotesWellFormed s) _ _ _ (fun _ => ?_) (fun _ => ?_))
    | split)

theorem vote_wf (g : gameSession) (a t : String) (now : Int)
    (h : VotesWellFormed g) : VotesWellFormed (vote g a t now).1 := by
  unfold vote
  try dsimp only [makeEvent, clearActiveTimer, markSpecialUsed, modifyCard,
    copyVotes, nextCardInstanceID, nextSpecialInstanceID,
    ensureAllBunkerCardsRevealed]
  repeat' (first
    | with_reducible exact h
    | with_reducible refine ite_of (fun r => VotesWellFormed (Prod.fst r : gameSession)) _ _ _ (fun _ => ?_) (fun _ => ?_)
    | with_reducible refine ite_of (fun s : gameSession => VotesWellFormed s) _ _ _ (fun _ => ?_) (fun _ => ?_)
    | with_reducible refine schedulePhaseTimer_wf _ _ _ _ ?_
    | with_reducible refine scheduleRevealTimeoutIfNeeded_wf _ _ ?_
    | with_reducible refine revealNextBunkerCard_wf _ _ ?_
    | with_reducible refine finishGame_wf _ _ _ ?_
    | with_reducible refine passTurnFrom_wf _ _ ?_
    | with_reducible refine revealWorldThreat_wf _ _ _ ?_
    | with_reducible refine setBunkerOutcome_wf _ _ _ _ ?_
    | with_reducible refine handleOnOwnerEliminated_wf _ _ ?_
    | with_reducible refine removeFromVoting_wf _ _ ?_
    | with_reducible refine markVoteWasted_wf _ _ _ _ ?_
    | with_reducible refine startVoting_wf _ _ ?_
    | with_reducible refine resetVotesForRevote_wf _ _ ?_
    | with_reducible refine startTieBreakRevote_wf _ _ _ ?_
    | with_reducible refine handleSecretEliminationTriggers_wf _ _ ?_
    | with_reducible refine startNextRoundOrEnd_wf _ _ ?_
    | with_reducible refine enterRevealDiscussion_wf _ _ ?_
    | with_reducible refine enterVoteSpecialWindow_wf _ _ ?_
    | with_reducible exact flagged_nil
    | with_reducible refine flagged_mapSet _ _ _ ?_ ?_
    | with_reducible refine flagged_mapDel _ _ ?_
    | with_reducible refine currentVoteSource_flagged _ ?_
    | with_reducible refine finalizeSource_flagged _ ?_
    | with_reducible exact fun _ => rfl
    | with_reducible exact fun hh => Bool.noConfusion hh
    | with_reducible refine VotesWellFormed.votes ?_
    | with_reducible refine VotesWellFormed.base ?_
    | with_reducible refine VotesWellFormed.results ?_
    | (with_reducible refine wf_of_same _ _ (by with_reducible (conv => lhs; whnf); exact rfl) (by with_reducible rfl) (by with_reducible rfl) ?_; first | with_reducible exact h | with_reducible refine schedulePhaseTimer_wf _ _ _ _ ?_ | with_reducible refine scheduleRevealTimeoutIfNeeded_wf _ _ ?_ | with_reducible refine revealNextBunkerCard_wf _ _ ?_ | with_reducible refine finishGame_wf _ _ _ ?_ | with_reducible refine passTurnFrom_wf _ _ ?_ | with_reducible refine revealWorldThreat_wf _ _ _ ?_ | with_reducible refine setBunkerOutcome_wf _ _ _ _ ?_ | with_reducible refine handleOnOwnerEliminated_wf _ _ ?_ | with_reducible refine removeFromVoting_wf _ _ ?_ | with_reducible refine markVoteWasted_wf _ _ _ _ ?_ | with_reducible refine startVoting_wf _ _ ?_ | with_reducible refine resetVotesForRevote_wf _ _ ?_ | with_reducible refine startTieBreakRevote_wf _ _ _ ?_ | with_reducible refine handleSecretEliminationTriggers_wf _ _ ?_ | with_reducible refine startNextRoundOrEnd_wf _ _ ?_ | with_reducible refine enterRevealDiscussion_wf _ _ ?_ | with_reducible refine enterVoteSpecialWindow_wf _ _ ?_ | with_reducible refine ite_of (fun r => VotesWellFormed (Prod.fst r : gameSession)) _ _ _ (fun _ => ?_) (fun _ => ?_) | with_reducible refine ite_of (fun s : gameSession => VotesWellFormed s) _ _ _ (fun _ => ?_) (fun _ => ?_))
    | (with_reducible refine VotesWellFormed.mk ?_ ?_ ?_ <;> with_reducible (conv => arg 1; whnf) <;> first | with_reducible exact flagged_nil | with_reducible refine flagged_mapSet _ _ _ ?_ ?_ | with_reducible refine flagged_mapDel _ _ ?_ | with_reducible refine currentVoteSource_flagged _ ?_ | with_reducible refine finalizeSource_flagged _ ?_ | (first | with_reducible refine VotesWellFormed.votes ?_ | with_reducible refine VotesWellFormed.base ?_ | with_reducible refine VotesWellFormed.results ?_); first | with_reducible exact h | with_reducible refine schedulePhaseTimer_wf _ _ _ _ ?_ | with_reducible refine scheduleRevealTimeoutIfNeeded_wf _ _ ?_ | with_reducible refine revealNextBunkerCard_wf _ _ ?_ | with_reducible refine finishGame_wf _ _ _ ?_ | with_reducible refine passTurnFrom_wf _ _ ?_ | with_reducible refine revealWorldThreat_wf _ _ _ ?_ | with_reducible refine setBunkerOutcome_wf _ _ _ _ ?_ | with_reducible refine handleOnOwnerEliminated_wf _ _ ?_ | with_reducible refine removeFromVoting_wf _ _ ?_ | with_reducible refine markVoteWasted_wf _ _ _ _ ?_ | with_reducible refine startVoting_wf _ _ ?_ | with_reducible refine resetVotesForRevote_wf _ _ ?_ | with_reducible refine startTieBreakRevote_wf _ _ _ ?_ | with_reducible refine handleSecretEliminationTriggers_wf _ _ ?_ | with_reducible refine startNextRoundOrEnd_wf _ _ ?_ | with_reducible refine enterRevealDiscussion_wf _ _ ?_ | with_reducible refine enterVoteSpecialWindow_wf _ _ ?_ | with_reducible refine ite_of (fun r => VotesWellFormed (Prod.fst r : gameSession)) _ _ _ (fun _ => ?_) (fun _ => ?_) | with_reducible refine ite_of (fun s : gameSession => VotesWellFormed s) _ _ _ (fun _ => ?_) (fun _ => ?_))
    | split)

theorem applyElimination_wf (g : gameSession) (t : String)
    (h : VotesWellFormed g) : VotesWellFormed (applyElimination g t) := by
  unfold applyElimination
  try dsimp only [makeEvent, clearActiveTimer, markSpecialUsed, modifyCard,
    copyVotes, nextCardInstanceID, nextSpecialInstanceID,
    ensureAllBunkerCardsRevealed]
  repeat' (first
    | with_reducible exact h
    | with_reducible refine ite_of (fun r => VotesWellFormed (Prod.fst r : gameSession)) _ _ _ (fun _ => ?_) (fun _ => ?_)
    | with_reducible refine ite_of (fun s : gameSession => VotesWellFormed s) _ _ _ (fun _ => ?_) (fun _ => ?_)
    | with_reducible refine schedulePhaseTimer_wf _ _ _ _ ?_
    | with_reducible refine scheduleRevealTimeoutIfNeeded_wf _ _ ?_
    | with_reducible refine revealNextBunkerCard_wf _ _ ?_
    | with_reducible refine finishGame_wf _ _ _ ?_
    | with_reducible refine passTurnFrom_wf _ _ ?_
    | with_reducible refine revealWorldThreat_wf _ _ _ ?_
    | with_reducible refine setBunkerOutcome_wf _ _ _ _ ?_
    | with_reducible refine handleOnOwnerEliminated_wf _ _ ?_
    | with_reducible refine removeFromVoting_wf _ _ ?_
    | with_reducible refine markVoteWasted_wf _ _ _ _ ?_
    | with_reducible refine startVoting_wf _ _ ?_
    | with_reducible refine resetVotesForRevote_wf _ _ ?_
    | with_reducible refine startTieBreakRevote_wf _ _ _ ?_
    | with_reducible refine handleSecretEliminationTriggers_wf _ _ ?_
    | with_reducible refine startNextRoundOrEnd_wf _ _ ?_
    | with_reducible refine enterRevealDiscussion_wf _ _ ?_
    | with_reducible refine enterVoteSpecialWindow_wf _ _ ?_
    | with_reducible refine vote_wf _ _ _ _ ?_
    | with_reducible exact flagged_nil
    | with_reducible refine flagged_mapSet _ _ _ ?_ ?_
    | with_reducible refine flagged_mapDel _ _ ?_
    | with_reducible refine currentVoteSource_flagged _ ?_
    | with_reducible refine finalizeSource_flagged _ ?_
    | with_reducible exact fun _ => rfl
    | with_reducible exact fun hh => Bool.noConfusion hh
    | with_reducible refine VotesWellFormed.votes ?_
    | with_reducible refine VotesWellFormed.base ?_
    | with_reducible refine VotesWellFormed.results ?_
    | (with_reducible refine wf_of_same _ _ (by with_reducible (conv => lhs; whnf); exact rfl) (by with_reducible rfl) (by with_reducible rfl) ?_; first | with_reducible exact h | with_reducible refine schedulePhaseTimer_wf _ _ _ _ ?_ | with_reducible refine scheduleRevealTimeoutIfNeeded_wf _ _ ?_ | with_reducible refine revealNextBunkerCard_wf _ _ ?_ | with_reducible refine finishGame_wf _ _ _ ?_ | with_reducible refine passTurnFrom_wf _ _ ?_ | with_reducible refine revealWorldThreat_wf _ _ _ ?_ | with_reducible refine setBunkerOutcome_wf _ _ _ _ ?_ | with_reducible refine handleOnOwnerEliminated_wf _ _ ?_ | with_reducible refine removeFromVoting_wf _ _ ?_ | with_reducible refine markVoteWasted_wf _ _ _ _ ?_ | with_reducible refine startVoting_wf _ _ ?_ | with_reducible refine resetVotesForRevote_wf _ _ ?_ | with_reducible refine startTieBreakRevote_wf _ _ _ ?_ | with_reducible refine handleSecretEliminationTriggers_wf _ _ ?_ | with_reducible refine startNextRoundOrEnd_wf _ _ ?_ | with_reducible refine enterRevealDiscussion_wf _ _ ?_ | with_reducible refine enterVoteSpecialWindow_wf _ _ ?_ | with_reducible refine vote_wf _ _ _ _ ?_ | with_reducible refine ite_of (fun r => VotesWellFormed (Prod.fst r : gameSession)) _ _ _ (fun _ => ?_) (fun _ => ?_) | with_reducible refine ite_of (fun s : gameSession => VotesWellFormed s) _ _ _ (fun _ => ?_) (fun _ => ?_))
    | (with_reducible refine VotesWellFormed.mk ?_ ?_ ?_ <;> with_reducible (conv => arg 1; whnf) <;> first | with_reducible exact flagged_nil | with_reducible refine flagged_mapSet _ _ _ ?_ ?_ | with_reducible refine flagged_mapDel _ _ ?_ | with_reducible refine currentVoteSource_flagged _ ?_ | with_reducible refine finalizeSource_flagged _ ?_ | (first | with_reducible refine VotesWellFormed.votes ?_ | with_reducible refine VotesWellFormed.base ?_ | with_reducible refine VotesWellFormed.results ?_); first | with_reducible exact h | with_reducible refine schedulePhaseTimer_wf _ _ _ _ ?_ | with_reducible refine scheduleRevealTimeoutIfNeeded_wf _ _ ?_ | with_reducible refine revealNextBunkerCard_wf _ _ ?_ | with_reducible refine finishGame_wf _ _ _ ?_ | with_reducible refine passTurnFrom_wf _ _ ?_ | with_reducible refine revealWorldThreat_wf _ _ _ ?_ | with_reducible refine setBunkerOutcome_wf _ _ _ _ ?_ | with_reducible refine handleOnOwnerEliminated_wf _ _ ?_ | with_reducible refine removeFromVoting_wf _ _ ?_ | with_reducible refine markVoteWasted_wf _ _ _ _ ?_ | with_reducible refine startVoting_wf _ _ ?_ | with_reducible refine resetVotesForRevote_wf _ _ ?_ | with_reducible refine startTieBreakRevote_wf _ _ _ ?_ | with_reducible refine handleSecretEliminationTriggers_wf _ _ ?_ | with_reducible refine startNextRoundOrEnd_wf _ _ ?_ | with_reducible refine enterRevealDiscussion_wf _ _ ?_ | with_reducible refine enterVoteSpecialWindow_wf _ _ ?_ | with_reducible refine vote_wf _ _ _ _ ?_ | with_reducible refine ite_of (fun r => VotesWellFormed (Prod.fst r : gameSession)) _ _ _ (fun _ => ?_) (fun _ => ?_) | with_reducible refine ite_of (fun s : gameSession => VotesWellFormed s) _ _ _ (fun _ => ?_) (fun _ => ?_))
    | split)

theorem finalizeVoting_wf (g : gameSession) (a : String) (now : Int)
    (h : VotesWellFormed g) : VotesWellFormed (finalizeVoting g a now).1 := by
  unfold finalizeVoting
  refine ite_of (fun r => VotesWellFormed (Prod.fst r : gameSession)) _ _ _ (fun _ => h) (fun _ => ?_)
  refine ite_of (fun r => VotesWellFormed (Prod.fst r : gameSession)) _ _ _ (fun _ => h) (fun _ => ?_)
  refine ite_of (fun r => VotesWellFormed (Prod.fst r : gameSession)) _ _ _ (fun _ => h) (fun _ => ?_)
  dsimp only [makeEvent, clearActiveTimer, markSpecialUsed, modifyCard, copyVotes, nextCardInstanceID, nextSpecialInstanceID, ensureAllBunkerCardsRevealed]
  refine ite_of (fun r => VotesWellFormed (Prod.fst r : gameSession)) _ _ _ (fun _ => ?_) (fun _ => ?_)
  · dsimp only
    repeat' (first
      | with_reducible exact h
      | with_reducible refine ite_of (fun r => VotesWellFormed (Prod.fst r : gameSession)) _ _ _ (fun _ => ?_) (fun _ => ?_)
      | with_reducible refine ite_of (fun s : gameSession => VotesWellFormed s) _ _ _ (fun _ => ?_) (fun _ => ?_)
      | with_reducible refine schedulePhaseTimer_wf _ _ _ _ ?_
      | with_reducible refine scheduleRevealTimeoutIfNeeded_wf _ _ ?_
      | with_reducible refine revealNextBunkerCard_wf _ _ ?_
      | with_reducible refine finishGame_wf _ _ _ ?_
      | with_reducible refine passTurnFrom_wf _ _ ?_
      | with_reducible refine revealWorldThreat_wf _ _ _ ?_
      | with_reducible refine setBunkerOutcome_wf _ _ _ _ ?_
      | with_reducible refine handleOnOwnerEliminated_wf _ _ ?_
      | with_reducible refine removeFromVoting_wf _ _ ?_
      | with_reducible refine markVoteWasted_wf _ _ _ _ ?_
      | with_reducible refine startVoting_wf _ _ ?_
      | with_reducible refine resetVotesForRevote_wf _ _ ?_
      | with_reducible refine startTieBreakRevote_wf _ _ _ ?_
      | with_reducible refine handleSecretEliminationTriggers_wf _ _ ?_
      | with_reducible refine startNextRoundOrEnd_wf _ _ ?_
      | with_reducible refine enterRevealDiscussion_wf _ _ ?_
      | with_reducible refine enterVoteSpecialWindow_wf _ _ ?_
      | with_reducible refine vote_wf _ _ _ _ ?_
      | with_reducible refine applyElimination_wf _ _ ?_
      | with_reducible exact flagged_nil
      | with_reducible refine flagged_mapSet _ _ _ ?_ ?_
      | with_reducible refine flagged_mapDel _ _ ?_
      | with_reducible refine currentVoteSource_flagged _ ?_
      | with_reducible refine finalizeSource_flagged _ ?_
      | with_reducible exact fun _ => rfl
      | with_reducible exact fun hh => Bool.noConfusion hh
      | with_reducible refine VotesWellFormed.votes ?_
      | with_reducible refine VotesWellFormed.base ?_
      | with_reducible refine VotesWellFormed.results ?_
      | (with_reducible refine wf_of_same _ _ (by with_reducible (conv => lhs; whnf); exact rfl) (by with_reducible rfl) (by with_reducible rfl) ?_; first | with_reducible exact h | with_reducible refine schedulePhaseTimer_wf _ _ _ _ ?_ | with_reducible refine scheduleRevealTimeoutIfNeeded_wf _ _ ?_ | with_reducible refine revealNextBunkerCard_wf _ _ ?_ | with_reducible refine finishGame_wf _ _ _ ?_ | with_reducible refine passTurnFrom_wf _ _ ?_ | with_reducible refine revealWorldThreat_wf _ _ _ ?_ | with_reducible refine setBunkerOutcome_wf _ _ _ _ ?_ | with_reducible refine handleOnOwnerEliminated_wf _ _ ?_ | with_reducible refine removeFromVoting_wf _ _ ?_ | with_reducible refine markVoteWasted_wf _ _ _ _ ?_ | with_reducible refine startVoting_wf _ _ ?_ | with_reducible refine resetVotesForRevote_wf _ _ ?_ | with_reducible refine startTieBreakRevote_wf _ _ _ ?_ | with_reducible refine handleSecretEliminationTriggers_wf _ _ ?_ | with_reducible refine startNextRoundOrEnd_wf _ _ ?_ | with_reducible refine enterRevealDiscussion_wf _ _ ?_ | with_reducible refine enterVoteSpecialWindow_wf _ _ ?_ | with_reducible refine vote_wf _ _ _ _ ?_ | with_reducible refine applyElimination_wf _ _ ?_ | with_reducible refine ite_of (fun r => VotesWellFormed (Prod.fst r : gameSession)) _ _ _ (fun _ => ?_) (fun _ => ?_) | with_reducible refine ite_of (fun s : gameSession => VotesWellFormed s) _ _ _ (fun _ => ?_) (fun _ => ?_))
      | (with_reducible refine VotesWellFormed.mk ?_ ?_ ?_ <;> with_reducible (conv => arg 1; whnf) <;> first | with_reducible exact flagged_nil | with_reducible refine flagged_mapSet _ _ _ ?_ ?_ | with_reducible refine flagged_mapDel _ _ ?_ | with_reducible refine currentVoteSource_flagged _ ?_ | with_reducible refine finalizeSource_flagged _ ?_ | (first | with_reducible refine VotesWellFormed.votes ?_ | with_reducible refine VotesWellFormed.base ?_ | with_reducible refine VotesWellFormed.results ?_); first | with_reducible exact h | with_reducible refine schedulePhaseTimer_wf _ _ _ _ ?_ | with_reducible refine scheduleRevealTimeoutIfNeeded_wf _ _ ?_ | with_reducible refine revealNextBunkerCard_wf _ _ ?_ | with_reducible refine finishGame_wf _ _ _ ?_ | with_reducible refine passTurnFrom_wf _ _ ?_ | with_reducible refine revealWorldThreat_wf _ _ _ ?_ | with_reducible refine setBunkerOutcome_wf _ _ _ _ ?_ | with_reducible refine handleOnOwnerEliminated_wf _ _ ?_ | with_reducible refine removeFromVoting_wf _ _ ?_ | with_reducible refine markVoteWasted_wf _ _ _ _ ?_ | with_reducible refine startVoting_wf _ _ ?_ | with_reducible refine resetVotesForRevote_wf _ _ ?_ | with_reducible refine startTieBreakRevote_wf _ _ _ ?_ | with_reducible refine handleSecretEliminationTriggers_wf _ _ ?_ | with_reducible refine startNextRoundOrEnd_wf _ _ ?_ | with_reducible refine enterRevealDiscussion_wf _ _ ?_ | with_reducible refine enterVoteSpecialWindow_wf _ _ ?_ | with_reducible refine vote_wf _ _ _ _ ?_ | with_reducible refine applyElimination_wf _ _ ?_ | with_reducible refine ite_of (fun r => VotesWellFormed (Prod.fst r : gameSession)) _ _ _ (fun _ => ?_) (fun _ => ?_) | with_reducible refine ite_of (fun s : gameSession => VotesWellFormed s) _ _ _ (fun _ => ?_) (fun _ => ?_))
      | split)
  · generalize hG : @ite (gameSession × List gameEvent) ((if List.length _ > 0 then _ else "") ≠ "") _ _ _ = G4
    have hG4 : VotesWellFormed G4.1 := by
      rw [← hG]
      repeat' (first
        | with_reducible exact h
        | with_reducible refine ite_of (fun r => VotesWellFormed (Prod.fst r : gameSession)) _ _ _ (fun _ => ?_) (fun _ => ?_)
        | with_reducible refine ite_of (fun s : gameSession => VotesWellFormed s) _ _ _ (fun _ => ?_) (fun _ => ?_)
        | with_reducible refine schedulePhaseTimer_wf _ _ _ _ ?_
        | with_reducible refine scheduleRevealTimeoutIfNeeded_wf _ _ ?_
        | with_reducible refine revealNextBunkerCard_wf _ _ ?_
        | with_reducible refine finishGame_wf _ _ _ ?_
        | with_reducible refine passTurnFrom_wf _ _ ?_
        | with_reducible refine revealWorldThreat_wf _ _ _ ?_
        | with_reducible refine setBunkerOutcome_wf _ _ _ _ ?_
        | with_reducible refine handleOnOwnerEliminated_wf _ _ ?_
        | with_reducible refine removeFromVoting_wf _ _ ?_
        | with_reducible refine markVoteWasted_wf _ _ _ _ ?_
        | with_reducible refine startVoting_wf _ _ ?_
        | with_reducible refine resetVotesForRevote_wf _ _ ?_
        | with_reducible refine startTieBreakRevote_wf _ _ _ ?_
        | with_reducible refine handleSecretEliminationTriggers_wf _ _ ?_
        | with_reducible refine startNextRoundOrEnd_wf _ _ ?_
        | with_reducible refine enterRevealDiscussion_wf _ _ ?_
        | with_reducible refine enterVoteSpecialWindow_wf _ _ ?_
        | with_reducible refine vote_wf _ _ _ _ ?_
        | with_reducible refine applyElimination_wf _ _ ?_
        | with_reducible exact flagged_nil
        | with_reducible refine flagged_mapSet _ _ _ ?_ ?_
        | with_reducible refine flagged_mapDel _ _ ?_
        | with_reducible refine currentVoteSource_flagged _ ?_
        | with_reducible refine finalizeSource_flagged _ ?_
        | with_reducible exact fun _ => rfl
        | with_reducible exact fun hh => Bool.noConfusion hh
        | with_reducible refine VotesWellFormed.votes ?_
        | with_reducible refine VotesWellFormed.base ?_
        | with_reducible refine VotesWellFormed.results ?_
        | (with_reducible refine wf_of_same _ _ (by with_reducible (conv => lhs; whnf); exact rfl) (by with_reducible rfl) (by with_reducible rfl) ?_; first | with_reducible exact h | with_reducible refine schedulePhaseTimer_wf _ _ _ _ ?_ | with_reducible refine scheduleRevealTimeoutIfNeeded_wf _ _ ?_ | with_reducible refine revealNextBunkerCard_wf _ _ ?_ | with_reducible refine finishGame_wf _ _ _ ?_ | with_reducible refine passTurnFrom_wf _ _ ?_ | with_reducible refine revealWorldThreat_wf _ _ _ ?_ | with_reducible refine setBunkerOutcome_wf _ _ _ _ ?_ | with_reducible refine handleOnOwnerEliminated_wf _ _ ?_ | with_reducible refine removeFromVoting_wf _ _ ?_ | with_reducible refine markVoteWasted_wf _ _ _ _ ?_ | with_reducible refine startVoting_wf _ _ ?_ | with_reducible refine resetVotesForRevote_wf _ _ ?_ | with_reducible refine startTieBreakRevote_wf _ _ _ ?_ | with_reducible refine handleSecretEliminationTriggers_wf _ _ ?_ | with_reducible refine startNextRoundOrEnd_wf _ _ ?_ | with_reducible refine enterRevealDiscussion_wf _ _ ?_ | with_reducible refine enterVoteSpecialWindow_wf _ _ ?_ | with_reducible refine vote_wf _ _ _ _ ?_ | with_reducible refine applyElimination_wf _ _ ?_ | with_reducible refine ite_of (fun r => VotesWellFormed (Prod.fst r : gameSession)) _ _ _ (fun _ => ?_) (fun _ => ?_) | with_reducible refine ite_of (fun s : gameSession => VotesWellFormed s) _ _ _ (fun _ => ?_) (fun _ => ?_))
        | (with_reducible refine VotesWellFormed.mk ?_ ?_ ?_ <;> with_reducible (conv => arg 1; whnf) <;> first | with_reducible exact flagged_nil | with_reducible refine flagged_mapSet _ _ _ ?_ ?_ | with_reducible refine flagged_mapDel _ _ ?_ | with_reducible refine currentVoteSource_flagged _ ?_ | with_reducible refine finalizeSource_flagged _ ?_ | (first | with_reducible refine VotesWellFormed.votes ?_ | with_reducible refine VotesWellFormed.base ?_ | with_reducible refine VotesWellFormed.results ?_); first | with_reducible exact h | with_reducible refine schedulePhaseTimer_wf _ _ _ _ ?_ | with_reducible refine scheduleRevealTimeoutIfNeeded_wf _ _ ?_ | with_reducible refine revealNextBunkerCard_wf _ _ ?_ | with_reducible refine finishGame_wf _ _ _ ?_ | with_reducible refine passTurnFrom_wf _ _ ?_ | with_reducible refine revealWorldThreat_wf _ _ _ ?_ | with_reducible refine setBunkerOutcome_wf _ _ _ _ ?_ | with_reducible refine handleOnOwnerEliminated_wf _ _ ?_ | with_reducible refine removeFromVoting_wf _ _ ?_ | with_reducible refine markVoteWasted_wf _ _ _ _ ?_ | with_reducible refine startVoting_wf _ _ ?_ | with_reducible refine resetVotesForRevote_wf _ _ ?_ | with_reducible refine startTieBreakRevote_wf _ _ _ ?_ | with_reducible refine handleSecretEliminationTriggers_wf _ _ ?_ | with_reducible refine startNextRoundOrEnd_wf _ _ ?_ | with_reducible refine enterRevealDiscussion_wf _ _ ?_ | with_reducible refine enterVoteSpecialWindow_wf _ _ ?_ | with_reducible refine vote_wf _ _ _ _ ?_ | with_reducible refine applyElimination_wf _ _ ?_ | with_reducible refine ite_of (fun r => VotesWellFormed (Prod.fst r : gameSession)) _ _ _ (fun _ => ?_) (fun _ => ?_) | with_reducible refine ite_of (fun s : gameSession => VotesWellFormed s) _ _ _ (fun _ => ?_) (fun _ => ?_))
        | split)
    clear hG
    obtain ⟨G, ev⟩ := G4
    replace h : VotesWellFormed G := hG4
    dsimp only
    repeat' (first
      | with_reducible exact h
      | with_reducible refine ite_of (fun r => VotesWellFormed (Prod.fst r : gameSession)) _ _ _ (fun _ => ?_) (fun _ => ?_)
      | with_reducible refine ite_of (fun s : gameSession => VotesWellFormed s) _ _ _ (fun _ => ?_) (fun _ => ?_)
      | with_reducible refine schedulePhaseTimer_wf _ _ _ _ ?_
      | with_reducible refine scheduleRevealTimeoutIfNeeded_wf _ _ ?_
      | with_reducible refine revealNextBunkerCard_wf _ _ ?_
      | with_reducible refine finishGame_wf _ _ _ ?_
      | with_reducible refine passTurnFrom_wf _ _ ?_
      | with_reducible refine revealWorldThreat_wf _ _ _ ?_
      | with_reducible refine setBunkerOutcome_wf _ _ _ _ ?_
      | with_reducible refine handleOnOwnerEliminated_wf _ _ ?_
      | with_reducible refine removeFromVoting_wf _ _ ?_
      | with_reducible refine markVoteWasted_wf _ _ _ _ ?_
      | with_reducible refine startVoting_wf _ _ ?_
      | with_reducible refine resetVotesForRevote_wf _ _ ?_
      | with_reducible refine startTieBreakRevote_wf _ _ _ ?_
      | with_reducible refine handleSecretEliminationTriggers_wf _ _ ?_
      | with_reducible refine startNextRoundOrEnd_wf _ _ ?_
      | with_reducible refine enterRevealDiscussion_wf _ _ ?_
      | with_reducible refine enterVoteSpecialWindow_wf _ _ ?_
      | with_reducible refine vote_wf _ _ _ _ ?_
      | with_reducible refine applyElimination_wf _ _ ?_
      | with_reducible exact flagged_nil
      | with_reducible refine flagged_mapSet _ _ _ ?_ ?_
      | with_reducible refine flagged_mapDel _ _ ?_
      | with_reducible refine currentVoteSource_flagged _ ?_
      | with_reducible refine finalizeSource_flagged _ ?_
      | with_reducible exact fun _ => rfl
      | with_reducible exact fun hh => Bool.noConfusion hh
      | with_reducible refine VotesWellFormed.votes ?_
      | with_reducible refine VotesWellFormed.base ?_
      | with_reducible refine VotesWellFormed.results ?_
      | (with_reducible refine wf_of_same _ _ (by with_reducible (conv => lhs; whnf); exact rfl) (by with_reducible rfl) (by with_reducible rfl) ?_; first | with_reducible exact h | with_reducible refine schedulePhaseTimer_wf _ _ _ _ ?_ | with_reducible refine scheduleRevealTimeoutIfNeeded_wf _ _ ?_ | with_reducible refine revealNextBunkerCard_wf _ _ ?_ | with_reducible refine finishGame_wf _ _ _ ?_ | with_reducible refine passTurnFrom_wf _ _ ?_ | with_reducible refine revealWorldThreat_wf _ _ _ ?_ | with_reducible refine setBunkerOutcome_wf _ _ _ _ ?_ | with_reducible refine handleOnOwnerEliminated_wf _ _ ?_ | with_reducible refine removeFromVoting_wf _ _ ?_ | with_reducible refine markVoteWasted_wf _ _ _ _ ?_ | with_reducible refine startVoting_wf _ _ ?_ | with_reducible refine resetVotesForRevote_wf _ _ ?_ | with_reducible refine startTieBreakRevote_wf _ _ _ ?_ | with_reducible refine handleSecretEliminationTriggers_wf _ _ ?_ | with_reducible refine startNextRoundOrEnd_wf _ _ ?_ | with_reducible refine enterRevealDiscussion_wf _ _ ?_ | with_reducible refine enterVoteSpecialWindow_wf _ _ ?_ | with_reducible refine vote_wf _ _ _ _ ?_ | with_reducible refine applyElimination_wf _ _ ?_ | with_reducible refine ite_of (fun r => VotesWellFormed (Prod.fst r : gameSession)) _ _ _ (fun _ => ?_) (fun _ => ?_) | with_reducible refine ite_of (fun s : gameSession => VotesWellFormed s) _ _ _ (fun _ => ?_) (fun _ => ?_))
      | (with_reducible refine VotesWellFormed.mk ?_ ?_ ?_ <;> with_reducible (conv => arg 1; whnf) <;> first | with_reducible exact flagged_nil | with_reducible refine flagged_mapSet _ _ _ ?_ ?_ | with_reducible refine flagged_mapDel _ _ ?_ | with_reducible refine currentVoteSource_flagged _ ?_ | with_reducible refine finalizeSource_flagged _ ?_ | (first | with_reducible refine VotesWellFormed.votes ?_ | with_reducible refine VotesWellFormed.base ?_ | with_reducible refine VotesWellFormed.results ?_); first | with_reducible exact h | with_reducible refine schedulePhaseTimer_wf _ _ _ _ ?_ | with_reducible refine scheduleRevealTimeoutIfNeeded_wf _ _ ?_ | with_reducible refine revealNextBunkerCard_wf _ _ ?_ | with_reducible refine finishGame_wf _ _ _ ?_ | with_reducible refine passTurnFrom_wf _ _ ?_ | with_reducible refine revealWorldThreat_wf _ _ _ ?_ | with_reducible refine setBunkerOutcome_wf _ _ _ _ ?_ | with_reducible refine handleOnOwnerEliminated_wf _ _ ?_ | with_reducible refine removeFromVoting_wf _ _ ?_ | with_reducible refine markVoteWasted_wf _ _ _ _ ?_ | with_reducible refine startVoting_wf _ _ ?_ | with_reducible refine resetVotesForRevote_wf _ _ ?_ | with_reducible refine startTieBreakRevote_wf _ _ _ ?_ | with_reducible refine handleSecretEliminationTriggers_wf _ _ ?_ | with_reducible refine startNextRoundOrEnd_wf _ _ ?_ | with_reducible refine enterRevealDiscussion_wf _ _ ?_ | with_reducible refine enterVoteSpecialWindow_wf _ _ ?_ | with_reducible refine vote_wf _ _ _ _ ?_ | with_reducible refine applyElimination_wf _ _ ?_ | with_reducible refine ite_of (fun r => VotesWellFormed (Prod.fst r : gameSession)) _ _ _ (fun _ => ?_) (fun _ => ?_) | with_reducible refine ite_of (fun s : gameSession => VotesWellFormed s) _ _ _ (fun _ => ?_) (fun _ => ?_))
      | split)

theorem advanceAfterDiscussion_wf (g : gameSession) (now : Int)
    (h : VotesWellFormed g) : VotesWellFormed (advanceAfterDiscussion g now).1 := by
  unfold advanceAfterDiscussion
  try dsimp only [makeEvent, clearActiveTimer, markSpecialUsed, modifyCard,
    copyVotes, nextCardInstanceID, nextSpecialInstanceID,
    ensureAllBunkerCardsRevealed]
  repeat' (first
    | with_reducible exact h
    | with_reducible refine ite_of (fun r => VotesWellFormed (Prod.fst r : gameSession)) _ _ _ (fun _ => ?_) (fun _ => ?_)
    | with_reducible refine ite_of (fun s : gameSession => VotesWellFormed s) _ _ _ (fun _ => ?_) (fun _ => ?_)
    | with_reducible refine schedulePhaseTimer_wf _ _ _ _ ?_
    | with_reducible refine scheduleRevealTimeoutIfNeeded_wf _ _ ?_
    | with_reducible refine revealNextBunkerCard_wf _ _ ?_
    | with_reducible refine finishGame_wf _ _ _ ?_
    | with_reducible refine passTurnFrom_wf _ _ ?_
    | with_reducible refine revealWorldThreat_wf _ _ _ ?_
    | with_reducible refine setBunkerOutcome_wf _ _ _ _ ?_
    | with_reducible refine handleOnOwnerEliminated_wf _ _ ?_
    | with_reducible refine removeFromVoting_wf _ _ ?_
    | with_reducible refine markVoteWasted_wf _ _ _ _ ?_
    | with_reducible refine startVoting_wf _ _ ?_
    | with_reducible refine resetVotesForRevote_wf _ _ ?_
    | with_reducible refine startTieBreakRevote_wf _ _ _ ?_
    | with_reducible refine handleSecretEliminationTriggers_wf _ _ ?_
    | with_reducible refine startNextRoundOrEnd_wf _ _ ?_
    | with_reducible refine enterRevealDiscussion_wf _ _ ?_
    | with_reducible refine enterVoteSpecialWindow_wf _ _ ?_
    | with_reducible refine vote_wf _ _ _ _ ?_
    | with_reducible refine applyElimination_wf _ _ ?_
    | with_reducible refine finalizeVoting_wf _ _ _ ?_
    | with_reducible exact flagged_nil
    | with_reducible refine flagged_mapSet _ _ _ ?_ ?_
    | with_reducible refine flagged_mapDel _ _ ?_
    | with_reducible refine currentVoteSource_flagged _ ?_
    | with_reducible refine finalizeSource_flagged _ ?_
    | with_reducible exact fun _ => rfl
    | with_reducible exact fun hh => Bool.noConfusion hh
    | with_reducible refine VotesWellFormed.votes ?_
    | with_reducible refine VotesWellFormed.base ?_
    | with_reducible refine VotesWellFormed.results ?_
    | (with_reducible refine wf_of_same _ _ (by with_reducible (conv => lhs; whnf); exact rfl) (by with_reducible rfl) (by with_reducible rfl) ?_; first | with_reducible exact h | with_reducible refine schedulePhaseTimer_wf _ _ _ _ ?_ | with_reducible refine scheduleRevealTimeoutIfNeeded_wf _ _ ?_ | with_reducible refine revealNextBunkerCard_wf _ _ ?_ | with_reducible refine finishGame_wf _ _ _ ?_ | with_reducible refine passTurnFrom_wf _ _ ?_ | with_reducible refine revealWorldThreat_wf _ _ _ ?_ | with_reducible refine setBunkerOutcome_wf _ _ _ _ ?_ | with_reducible refine handleOnOwnerEliminated_wf _ _ ?_ | with_reducible refine removeFromVoting_wf _ _ ?_ | with_reducible refine markVoteWasted_wf _ _ _ _ ?_ | with_reducible refine startVoting_wf _ _ ?_ | with_reducible refine resetVotesForRevote_wf _ _ ?_ | with_reducible refine startTieBreakRevote_wf _ _ _ ?_ | with_reducible refine handleSecretEliminationTriggers_wf _ _ ?_ | with_reducible refine startNextRoundOrEnd_wf _ _ ?_ | with_reducible refine enterRevealDiscussion_wf _ _ ?_ | with_reducible refine enterVoteSpecialWindow_wf _ _ ?_ | with_reducible refine vote_wf _ _ _ _ ?_ | with_reducible refine applyElimination_wf _ _ ?_ | with_reducible refine finalizeVoting_wf _ _ _ ?_ | with_reducible refine ite_of (fun r => VotesWellFormed (Prod.fst r : gameSession)) _ _ _ (fun _ => ?_) (fun _ => ?_) | with_reducible refine ite_of (fun s : gameSession => VotesWellFormed s) _ _ _ (fun _ => ?_) (fun _ => ?_))
    | (with_reducible refine VotesWellFormed.mk ?_ ?_ ?_ <;> with_reducible (conv => arg 1; whnf) <;> first | with_reducible exact flagged_nil | with_reducible refine flagged_mapSet _ _ _ ?_ ?_ | with_reducible refine flagged_mapDel _ _ ?_ | with_reducible refine currentVoteSource_flagged _ ?_ | with_reducible refine finalizeSource_flagged _ ?_ | (first | with_reducible refine VotesWellFormed.votes ?_ | with_reducible refine VotesWellFormed.base ?_ | with_reducible refine VotesWellFormed.results ?_); first | with_reducible exact h | with_reducible refine schedulePhaseTimer_wf _ _ _ _ ?_ | with_reducible refine scheduleRevealTimeoutIfNeeded_wf _ _ ?_ | with_reducible refine revealNextBunkerCard_wf _ _ ?_ | with_reducible refine finishGame_wf _ _ _ ?_ | with_reducible refine passTurnFrom_wf _ _ ?_ | with_reducible refine revealWorldThreat_wf _ _ _ ?_ | with_reducible refine setBunkerOutcome_wf _ _ _ _ ?_ | with_reducible refine handleOnOwnerEliminated_wf _ _ ?_ | with_reducible refine removeFromVoting_wf _ _ ?_ | with_reducible refine markVoteWasted_wf _ _ _ _ ?_ | with_reducible refine startVoting_wf _ _ ?_ | with_reducible refine resetVotesForRevote_wf _ _ ?_ | with_reducible refine startTieBreakRevote_wf _ _ _ ?_ | with_reducible refine handleSecretEliminationTriggers_wf _ _ ?_ | with_reducible refine startNextRoundOrEnd_wf _ _ ?_ | with_reducible refine enterRevealDiscussion_wf _ _ ?_ | with_reducible refine enterVoteSpecialWindow_wf _ _ ?_ | with_reducible refine vote_wf _ _ _ _ ?_ | with_reducible refine applyElimination_wf _ _ ?_ | with_reducible refine finalizeVoting_wf _ _ _ ?_ | with_reducible refine ite_of (fun r => VotesWellFormed (Prod.fst r : gameSession)) _ _ _ (fun _ => ?_) (fun _ => ?_) | with_reducible refine ite_of (fun s : gameSession => VotesWellFormed s) _ _ _ (fun _ => ?_) (fun _ => ?_))
    | split)

theorem continueRound_wf (g : gameSession) (a : String) (now : Int)
    (h : VotesWellFormed g) : VotesWellFormed (continueRound g a now).1 := by
  unfold continueRound
  try dsimp only [makeEvent, clearActiveTimer, markSpecialUsed, modifyCard,
    copyVotes, nextCardInstanceID, nextSpecialInstanceID,
    ensureAllBunkerCardsRevealed]
  repeat' (first
    | with_reducible exact h
    | with_reducible refine ite_of (fun r => VotesWellFormed (Prod.fst r : gameSession)) _ _ _ (fun _ => ?_) (fun _ => ?_)
    | with_reducible refine ite_of (fun s : gameSession => VotesWellFormed s) _ _ _ (fun _ => ?_) (fun _ => ?_)
    | with_reducible refine schedulePhaseTimer_wf _ _ _ _ ?_
    | with_reducible refine scheduleRevealTimeoutIfNeeded_wf _ _ ?_
    | with_reducible refine revealNextBunkerCard_wf _ _ ?_
    | with_reducible refine finishGame_wf _ _ _ ?_
    | with_reducible refine passTurnFrom_wf _ _ ?_
    | with_reducible refine revealWorldThreat_wf _ _ _ ?_
    | with_reducible refine setBunkerOutcome_wf _ _ _ _ ?_
    | with_reducible refine handleOnOwnerEliminated_wf _ _ ?_
    | with_reducible refine removeFromVoting_wf _ _ ?_
    | with_reducible refine markVoteWasted_wf _ _ _ _ ?_
    | with_reducible refine startVoting_wf _ _ ?_
    | with_reducible refine resetVotesForRevote_wf _ _ ?_
    | with_reducible refine startTieBreakRevote_wf _ _ _ ?_
    | with_reducible refine handleSecretEliminationTriggers_wf _ _ ?_
    | with_reducible refine startNextRoundOrEnd_wf _ _ ?_
    | with_reducible refine enterRevealDiscussion_wf _ _ ?_
    | with_reducible refine enterVoteSpecialWindow_wf _ _ ?_
    | with_reducible refine vote_wf _ _ _ _ ?_
    | with_reducible refine applyElimination_wf _ _ ?_
    | with_reducible refine finalizeVoting_wf _ _ _ ?_
    | with_reducible refine advanceAfterDiscussion_wf _ _ ?_
    | with_reducible exact flagged_nil
    | with_reducible refine flagged_mapSet _ _ _ ?_ ?_
    | with_reducible refine flagged_mapDel _ _ ?_
    | with_reducible refine currentVoteSource_flagged _ ?_
    | with_reducible refine finalizeSource_flagged _ ?_
    | with_reducible exact fun _ => rfl
    | with_reducible exact fun hh => Bool.noConfusion hh
    | with_reducible refine VotesWellFormed.votes ?_
    | with_reducible refine VotesWellFormed.base ?_
    | with_reducible refine VotesWellFormed.results ?_
    | (with_reducible refine wf_of_same _ _ (by with_reducible (conv => lhs; whnf); exact rfl) (by with_reducible rfl) (by with_reducible rfl) ?_; first | with_reducible exact h | with_reducible refine schedulePhaseTimer_wf _ _ _ _ ?_ | with_reducible refine scheduleRevealTimeoutIfNeeded_wf _ _ ?_ | with_reducible refine revealNextBunkerCard_wf _ _ ?_ | with_reducible refine finishGame_wf _ _ _ ?_ | with_reducible refine passTurnFrom_wf _ _ ?_ | with_reducible refine revealWorldThreat_wf _ _ _ ?_ | with_reducible refine setBunkerOutcome_wf _ _ _ _ ?_ | with_reducible refine handleOnOwnerEliminated_wf _ _ ?_ | with_reducible refine removeFromVoting_wf _ _ ?_ | with_reducible refine markVoteWasted_wf _ _ _ _ ?_ | with_reducible refine startVoting_wf _ _ ?_ | with_reducible refine resetVotesForRevote_wf _ _ ?_ | with_reducible refine startTieBreakRevote_wf _ _ _ ?_ | with_reducible refine handleSecretEliminationTriggers_wf _ _ ?_ | with_reducible refine startNextRoundOrEnd_wf _ _ ?_ | with_reducible refine enterRevealDiscussion_wf _ _ ?_ | with_reducible refine enterVoteSpecialWindow_wf _ _ ?_ | with_reducible refine vote_wf _ _ _ _ ?_ | with_reducible refine applyElimination_wf _ _ ?_ | with_reducible refine finalizeVoting_wf _ _ _ ?_ | with_reducible refine advanceAfterDiscussion_wf _ _ ?_ | with_reducible refine ite_of (fun r => VotesWellFormed (Prod.fst r : gameSession)) _ _ _ (fun _ => ?_) (fun _ => ?_) | with_reducible refine ite_of (fun s : gameSession => VotesWellFormed s) _ _ _ (fun _ => ?_) (fun _ => ?_))
    | (with_reducible refine VotesWellFormed.mk ?_ ?_ ?_ <;> with_reducible (conv => arg 1; whnf) <;> first | with_reducible exact flagged_nil | with_reducible refine flagged_mapSet _ _ _ ?_ ?_ | with_reducible refine flagged_mapDel _ _ ?_ | with_reducible refine currentVoteSource_flagged _ ?_ | with_reducible refine finalizeSource_flagged _ ?_ | (first | with_reducible refine VotesWellFormed.votes ?_ | with_reducible refine VotesWellFormed.base ?_ | with_reducible refine VotesWellFormed.results ?_); first | with_reducible exact h | with_reducible refine schedulePhaseTimer_wf _ _ _ _ ?_ | with_reducible refine scheduleRevealTimeoutIfNeeded_wf _ _ ?_ | with_reducible refine revealNextBunkerCard_wf _ _ ?_ | with_reducible refine finishGame_wf _ _ _ ?_ | with_reducible refine passTurnFrom_wf _ _ ?_ | with_reducible refine revealWorldThreat_wf _ _ _ ?_ | with_reducible refine setBunkerOutcome_wf _ _ _ _ ?_ | with_reducible refine handleOnOwnerEliminated_wf _ _ ?_ | with_reducible refine removeFromVoting_wf _ _ ?_ | with_reducible refine markVoteWasted_wf _ _ _ _ ?_ | with_reducible refine startVoting_wf _ _ ?_ | with_reducible refine resetVotesForRevote_wf _ _ ?_ | with_reducible refine startTieBreakRevote_wf _ _ _ ?_ | with_reducible refine handleSecretEliminationTriggers_wf _ _ ?_ | with_reducible refine startNextRoundOrEnd_wf _ _ ?_ | with_reducible refine enterRevealDiscussion_wf _ _ ?_ | with_reducible refine enterVoteSpecialWindow_wf _ _ ?_ | with_reducible refine vote_wf _ _ _ _ ?_ | with_reducible refine applyElimination_wf _ _ ?_ | with_reducible refine finalizeVoting_wf _ _ _ ?_ | with_reducible refine advanceAfterDiscussion_wf _ _ ?_ | with_reducible refine ite_of (fun r => VotesWellFormed (Prod.fst r : gameSession)) _ _ _ (fun _ => ?_) (fun _ => ?_) | with_reducible refine ite_of (fun s : gameSession => VotesWellFormed s) _ _ _ (fun _ => ?_) (fun _ => ?_))
    | split)

theorem kickPlayer_wf (g : gameSession) (t : String) (now : Int)
    (h : VotesWellFormed g) : VotesWellFormed (kickPlayer g t now).1 := by
  unfold kickPlayer
  try dsimp only [makeEvent, clearActiveTimer, markSpecialUsed, modifyCard,
    copyVotes, nextCardInstanceID, nextSpecialInstanceID,
    ensureAllBunkerCardsRevealed]
  repeat' (first
    | with_reducible exact h
    | with_reducible refine ite_of (fun r => VotesWellFormed (Prod.fst r : gameSession)) _ _ _ (fun _ => ?_) (fun _ => ?_)
    | with_reducible refine ite_of (fun s : gameSession => VotesWellFormed s) _ _ _ (fun _ => ?_) (fun _ => ?_)
    | with_reducible refine schedulePhaseTimer_wf _ _ _ _ ?_
    | with_reducible refine scheduleRevealTimeoutIfNeeded_wf _ _ ?_
    | with_reducible refine revealNextBunkerCard_wf _ _ ?_
    | with_reducible refine finishGame_wf _ _ _ ?_
    | with_reducible refine passTurnFrom_wf _ _ ?_
    | with_reducible refine revealWorldThreat_wf _ _ _ ?_
    | with_reducible refine setBunkerOutcome_wf _ _ _ _ ?_
    | with_reducible refine handleOnOwnerEliminated_wf _ _ ?_
    | with_reducible refine removeFromVoting_wf _ _ ?_
    | with_reducible refine markVoteWasted_wf _ _ _ _ ?_
    | with_reducible refine startVoting_wf _ _ ?_
    | with_reducible refine resetVotesForRevote_wf _ _ ?_
    | with_reducible refine startTieBreakRevote_wf _ _ _ ?_
    | with_reducible refine handleSecretEliminationTriggers_wf _ _ ?_
    | with_reducible refine startNextRoundOrEnd_wf _ _ ?_
    | with_reducible refine enterRevealDiscussion_wf _ _ ?_
    | with_reducible refine enterVoteSpecialWindow_wf _ _ ?_
    | with_reducible refine vote_wf _ _ _ _ ?_
    | with_reducible refine applyElimination_wf _ _ ?_
    | with_reducible refine finalizeVoting_wf _ _ _ ?_
    | with_reducible refine advanceAfterDiscussion_wf _ _ ?_
    | with_reducible refine continueRound_wf _ _ _ ?_
    | with_reducible exact flagged_nil
    | with_reducible refine flagged_mapSet _ _ _ ?_ ?_
    | with_reducible refine flagged_mapDel _ _ ?_
    | with_reducible refine currentVoteSource_flagged _ ?_
    | with_reducible refine finalizeSource_flagged _ ?_
    | with_reducible exact fun _ => rfl
    | with_reducible exact fun hh => Bool.noConfusion hh
    | with_reducible refine VotesWellFormed.votes ?_
    | with_reducible refine VotesWellFormed.base ?_
    | with_reducible refine VotesWellFormed.results ?_
    | (with_reducible refine wf_of_same _ _ (by with_reducible (conv => lhs; whnf); exact rfl) (by with_reducible rfl) (by with_reducible rfl) ?_; first | with_reducible exact h | with_reducible refine schedulePhaseTimer_wf _ _ _ _ ?_ | with_reducible refine scheduleRevealTimeoutIfNeeded_wf _ _ ?_ | with_reducible refine revealNextBunkerCard_wf _ _ ?_ | with_reducible refine finishGame_wf _ _ _ ?_ | with_reducible refine passTurnFrom_wf _ _ ?_ | with_reducible refine revealWorldThreat_wf _ _ _ ?_ | with_reducible refine setBunkerOutcome_wf _ _ _ _ ?_ | with_reducible refine handleOnOwnerEliminated_wf _ _ ?_ | with_reducible refine removeFromVoting_wf _ _ ?_ | with_reducible refine markVoteWasted_wf _ _ _ _ ?_ | with_reducible refine startVoting_wf _ _ ?_ | with_reducible refine resetVotesForRevote_wf _ _ ?_ | with_reducible refine startTieBreakRevote_wf _ _ _ ?_ | with_reducible refine handleSecretEliminationTriggers_wf _ _ ?_ | with_reducible refine startNextRoundOrEnd_wf _ _ ?_ | with_reducible refine enterRevealDiscussion_wf _ _ ?_ | with_reducible refine enterVoteSpecialWindow_wf _ _ ?_ | with_reducible refine vote_wf _ _ _ _ ?_ | with_reducible refine applyElimination_wf _ _ ?_ | with_reducible refine finalizeVoting_wf _ _ _ ?_ | with_reducible refine advanceAfterDiscussion_wf _ _ ?_ | with_reducible refine continueRound_wf _ _ _ ?_ | with_reducible refine ite_of (fun r => VotesWellFormed (Prod.fst r : gameSession)) _ _ _ (fun _ => ?_) (fun _ => ?_) | with_reducible refine ite_of (fun s : gameSession => VotesWellFormed s) _ _ _ (fun _ => ?_) (fun _ => ?_))
    | (with_reducible refine VotesWellFormed.mk ?_ ?_ ?_ <;> with_reducible (conv => arg 1; whnf) <;> first | with_reducible exact flagged_nil | with_reducible refine flagged_mapSet _ _ _ ?_ ?_ | with_reducible refine flagged_mapDel _ _ ?_ | with_reducible refine currentVoteSource_flagged _ ?_ | with_reducible refine finalizeSource_flagged _ ?_ | (first | with_reducible refine VotesWellFormed.votes ?_ | with_reducible refine VotesWellFormed.base ?_ | with_reducible refine VotesWellFormed.results ?_); first | with_reducible exact h | with_reducible refine schedulePhaseTimer_wf _ _ _ _ ?_ | with_reducible refine scheduleRevealTimeoutIfNeeded_wf _ _ ?_ | with_reducible refine revealNextBunkerCard_wf _ _ ?_ | with_reducible refine finishGame_wf _ _ _ ?_ | with_reducible refine passTurnFrom_wf _ _ ?_ | with_reducible refine revealWorldThreat_wf _ _ _ ?_ | with_reducible refine setBunkerOutcome_wf _ _ _ _ ?_ | with_reducible refine handleOnOwnerEliminated_wf _ _ ?_ | with_reducible refine removeFromVoting_wf _ _ ?_ | with_reducible refine markVoteWasted_wf _ _ _ _ ?_ | with_reducible refine startVoting_wf _ _ ?_ | with_reducible refine resetVotesForRevote_wf _ _ ?_ | with_reducible refine startTieBreakRevote_wf _ _ _ ?_ | with_reducible refine handleSecretEliminationTriggers_wf _ _ ?_ | with_reducible refine startNextRoundOrEnd_wf _ _ ?_ | with_reducible refine enterRevealDiscussion_wf _ _ ?_ | with_reducible refine enterVoteSpecialWindow_wf _ _ ?_ | with_reducible refine vote_wf _ _ _ _ ?_ | with_reducible refine applyElimination_wf _ _ ?_ | with_reducible refine finalizeVoting_wf _ _ _ ?_ | with_reducible refine advanceAfterDiscussion_wf _ _ ?_ | with_reducible refine continueRound_wf _ _ _ ?_ | with_reducible refine ite_of (fun r => VotesWellFormed (Prod.fst r : gameSession)) _ _ _ (fun _ => ?_) (fun _ => ?_) | with_reducible refine ite_of (fun s : gameSession => VotesWellFormed s) _ _ _ (fun _ => ?_) (fun _ => ?_))
    | split)

theorem markLeftBunker_wf (g : gameSession) (t : String) (now : Int)
    (h : VotesWellFormed g) : VotesWellFormed (markLeftBunker g t now).1 := by
  unfold markLeftBunker
  dsimp only
  refine ite_of (fun r => VotesWellFormed (Prod.fst r : gameSession)) _ _ _ (fun _ => h) (fun _ => ?_)
  split
  · exact h
  rename_i player hp
  refine ite_of (fun r => VotesWellFormed (Prod.fst r : gameSession)) _ _ _ (fun _ => h) (fun _ => ?_)
  generalize hP : passTurnFrom _ _ = P
  have hPwf : VotesWellFormed P := by
    rw [← hP]
    exact passTurnFrom_wf _ _ (removeFromVoting_wf _ _ ⟨h.votes, h.base, h.results⟩)
  clear hP
  generalize hG : @ite gameSession (decide (player.Status = playerAlive) = true) _ _ _ = G4
  have hG4 : VotesWellFormed G4 := by
    rw [← hG]
    dsimp only [makeEvent]
    refine ite_of (fun s : gameSession => VotesWellFormed s) _ _ _ (fun _ => ?_) (fun _ => ?_)
    · exact ⟨hPwf.votes, hPwf.base, hPwf.results⟩
    · exact ⟨hPwf.votes, hPwf.base, hPwf.results⟩
  clear hG
  replace h : VotesWellFormed G4 := hG4
  dsimp only [makeEvent, clearActiveTimer, markSpecialUsed, modifyCard, copyVotes, nextCardInstanceID, nextSpecialInstanceID, ensureAllBunkerCardsRevealed]
  repeat' (first
    | with_reducible exact h
    | with_reducible refine ite_of (fun r => VotesWellFormed (Prod.fst r : gameSession)) _ _ _ (fun _ => ?_) (fun _ => ?_)
    | with_reducible refine ite_of (fun s : gameSession => VotesWellFormed s) _ _ _ (fun _ => ?_) (fun _ => ?_)
    | with_reducible refine schedulePhaseTimer_wf _ _ _ _ ?_
    | with_reducible refine scheduleRevealTimeoutIfNeeded_wf _ _ ?_
    | with_reducible refine revealNextBunkerCard_wf _ _ ?_
    | with_reducible refine finishGame_wf _ _ _ ?_
    | with_reducible refine passTurnFrom_wf _ _ ?_
    | with_reducible refine revealWorldThreat_wf _ _ _ ?_
    | with_reducible refine setBunkerOutcome_wf _ _ _ _ ?_
    | with_reducible refine handleOnOwnerEliminated_wf _ _ ?_
    | with_reducible refine removeFromVoting_wf _ _ ?_
    | with_reducible refine markVoteWasted_wf _ _ _ _ ?_
    | with_reducible refine startVoting_wf _ _ ?_
    | with_reducible refine resetVotesForRevote_wf _ _ ?_
    | with_reducible refine startTieBreakRevote_wf _ _ _ ?_
    | with_reducible refine handleSecretEliminationTriggers_wf _ _ ?_
    | with_reducible refine startNextRoundOrEnd_wf _ _ ?_
    | with_reducible refine enterRevealDiscussion_wf _ _ ?_
    | with_reducible refine enterVoteSpecialWindow_wf _ _ ?_
    | with_reducible refine vote_wf _ _ _ _ ?_
    | with_reducible refine applyElimination_wf _ _ ?_
    | with_reducible refine finalizeVoting_wf _ _ _ ?_
    | with_reducible refine advanceAfterDiscussion_wf _ _ ?_
    | with_reducible refine continueRound_wf _ _ _ ?_
    | with_reducible refine kickPlayer_wf _ _ _ ?_
    | with_reducible exact flagged_nil
    | with_reducible refine flagged_mapSet _ _ _ ?_ ?_
    | with_reducible refine flagged_mapDel _ _ ?_
    | with_reducible refine currentVoteSource_flagged _ ?_
    | with_reducible refine finalizeSource_flagged _ ?_
    | with_reducible exact fun _ => rfl
    | with_reducible exact fun hh => Bool.noConfusion hh
    | with_reducible refine VotesWellFormed.votes ?_
    | with_reducible refine VotesWellFormed.base ?_
    | with_reducible refine VotesWellFormed.results ?_
    | (with_reducible refine wf_of_same _ _ (by with_reducible (conv => lhs; whnf); exact rfl) (by with_reducible rfl) (by with_reducible rfl) ?_; first | with_reducible exact h | with_reducible refine schedulePhaseTimer_wf _ _ _ _ ?_ | with_reducible refine scheduleRevealTimeoutIfNeeded_wf _ _ ?_ | with_reducible refine revealNextBunkerCard_wf _ _ ?_ | with_reducible refine finishGame_wf _ _ _ ?_ | with_reducible refine passTurnFrom_wf _ _ ?_ | with_reducible refine revealWorldThreat_wf _ _ _ ?_ | with_reducible refine setBunkerOutcome_wf _ _ _ _ ?_ | with_reducible refine handleOnOwnerEliminated_wf _ _ ?_ | with_reducible refine removeFromVoting_wf _ _ ?_ | with_reducible refine markVoteWasted_wf _ _ _ _ ?_ | with_reducible refine startVoting_wf _ _ ?_ | with_reducible refine resetVotesForRevote_wf _ _ ?_ | with_reducible refine startTieBreakRevote_wf _ _ _ ?_ | with_reducible refine handleSecretEliminationTriggers_wf _ _ ?_ | with_reducible refine startNextRoundOrEnd_wf _ _ ?_ | with_reducible refine enterRevealDiscussion_wf _ _ ?_ | with_reducible refine enterVoteSpecialWindow_wf _ _ ?_ | with_reducible refine vote_wf _ _ _ _ ?_ | with_reducible refine applyElimination_wf _ _ ?_ | with_reducible refine finalizeVoting_wf _ _ _ ?_ | with_reducible refine advanceAfterDiscussion_wf _ _ ?_ | with_reducible refine continueRound_wf _ _ _ ?_ | with_reducible refine kickPlayer_wf _ _ _ ?_ | with_reducible refine ite_of (fun r => VotesWellFormed (Prod.fst r : gameSession)) _ _ _ (fun _ => ?_) (fun _ => ?_) | with_reducible refine ite_of (fun s : gameSession => VotesWellFormed s) _ _ _ (fun _ => ?_) (fun _ => ?_))
    | (with_reducible refine VotesWellFormed.mk ?_ ?_ ?_ <;> with_reducible (conv => arg 1; whnf) <;> first | with_reducible exact flagged_nil | with_reducible refine flagged_mapSet _ _ _ ?_ ?_ | with_reducible refine flagged_mapDel _ _ ?_ | with_reducible refine currentVoteSource_flagged _ ?_ | with_reducible refine finalizeSource_flagged _ ?_ | (first | with_reducible refine VotesWellFormed.votes ?_ | with_reducible refine VotesWellFormed.base ?_ | with_reducible refine VotesWellFormed.results ?_); first | with_reducible exact h | with_reducible refine schedulePhaseTimer_wf _ _ _ _ ?_ | with_reducible refine scheduleRevealTimeoutIfNeeded_wf _ _ ?_ | with_reducible refine revealNextBunkerCard_wf _ _ ?_ | with_reducible refine finishGame_wf _ _ _ ?_ | with_reducible refine passTurnFrom_wf _ _ ?_ | with_reducible refine revealWorldThreat_wf _ _ _ ?_ | with_reducible refine setBunkerOutcome_wf _ _ _ _ ?_ | with_reducible refine handleOnOwnerEliminated_wf _ _ ?_ | with_reducible refine removeFromVoting_wf _ _ ?_ | with_reducible refine markVoteWasted_wf _ _ _ _ ?_ | with_reducible refine startVoting_wf _ _ ?_ | with_reducible refine resetVotesForRevote_wf _ _ ?_ | with_reducible refine startTieBreakRevote_wf _ _ _ ?_ | with_reducible refine handleSecretEliminationTriggers_wf _ _ ?_ | with_reducible refine startNextRoundOrEnd_wf _ _ ?_ | with_reducible refine enterRevealDiscussion_wf _ _ ?_ | with_reducible refine enterVoteSpecialWindow_wf _ _ ?_ | with_reducible refine vote_wf _ _ _ _ ?_ | with_reducible refine applyElimination_wf _ _ ?_ | with_reducible refine finalizeVoting_wf _ _ _ ?_ | with_reducible refine advanceAfterDiscussion_wf _ _ ?_ | with_reducible refine continueRound_wf _ _ _ ?_ | with_reducible refine kickPlayer_wf _ _ _ ?_ | with_reducible refine ite_of (fun r => VotesWellFormed (Prod.fst r : gameSession)) _ _ _ (fun _ => ?_) (fun _ => ?_) | with_reducible refine ite_of (fun s : gameSession => VotesWellFormed s) _ _ _ (fun _ => ?_) (fun _ => ?_))
    | split)

theorem revealCard_wf (g : gameSession) (a c : String) (now : Int)
    (h : VotesWellFormed g) : VotesWellFormed (revealCard g a c now).1 := by
  unfold revealCard
  try dsimp only [makeEvent, clearActiveTimer, markSpecialUsed, modifyCard,
    copyVotes, nextCardInstanceID, nextSpecialInstanceID,
    ensureAllBunkerCardsRevealed]
  repeat' (first
    | with_reducible exact h
    | with_reducible refine ite_of (fun r => VotesWellFormed (Prod.fst r : gameSession)) _ _ _ (fun _ => ?_) (fun _ => ?_)
    | with_reducible refine ite_of (fun s : gameSession => VotesWellFormed s) _ _ _ (fun _ => ?_) (fun _ => ?_)
    | with_reducible refine schedulePhaseTimer_wf _ _ _ _ ?_
    | with_reducible refine scheduleRevealTimeoutIfNeeded_wf _ _ ?_
    | with_reducible refine revealNextBunkerCard_wf _ _ ?_
    | with_reducible refine finishGame_wf _ _ _ ?_
    | with_reducible refine passTurnFrom_wf _ _ ?_
    | with_reducible refine revealWorldThreat_wf _ _ _ ?_
    | with_reducible refine setBunkerOutcome_wf _ _ _ _ ?_
    | with_reducible refine handleOnOwnerEliminated_wf _ _ ?_
    | with_reducible refine removeFromVoting_wf _ _ ?_
    | with_reducible refine markVoteWasted_wf _ _ _ _ ?_
    | with_reducible refine startVoting_wf _ _ ?_
    | with_reducible refine resetVotesForRevote_wf _ _ ?_
    | with_reducible refine startTieBreakRevote_wf _ _ _ ?_
    | with_reducible refine handleSecretEliminationTriggers_wf _ _ ?_
    | with_reducible refine startNextRoundOrEnd_wf _ _ ?_
    | with_reducible refine enterRevealDiscussion_wf _ _ ?_
    | with_reducible refine enterVoteSpecialWindow_wf _ _ ?_
    | with_reducible refine vote_wf _ _ _ _ ?_
    | with_reducible refine applyElimination_wf _ _ ?_
    | with_reducible refine finalizeVoting_wf _ _ _ ?_
    | with_reducible refine advanceAfterDiscussion_wf _ _ ?_
    | with_reducible refine continueRound_wf _ _ _ ?_
    | with_reducible refine kickPlayer_wf _ _ _ ?_
    | with_reducible refine markLeftBunker_wf _ _ _ ?_
    | with_reducible exact flagged_nil
    | with_reducible refine flagged_mapSet _ _ _ ?_ ?_
    | with_reducible refine flagged_mapDel _ _ ?_
    | with_reducible refine currentVoteSource_flagged _ ?_
    | with_reducible refine finalizeSource_flagged _ ?_
    | with_reducible exact fun _ => rfl
    | with_reducible exact fun hh => Bool.noConfusion hh
    | with_reducible refine VotesWellFormed.votes ?_
    | with_reducible refine VotesWellFormed.base ?_
    | with_reducible refine VotesWellFormed.results ?_
    | (with_reducible refine wf_of_same _ _ (by with_reducible (conv => lhs; whnf); exact rfl) (by with_reducible rfl) (by with_reducible rfl) ?_; first | with_reducible exact h | with_reducible refine schedulePhaseTimer_wf _ _ _ _ ?_ | with_reducible refine scheduleRevealTimeoutIfNeeded_wf _ _ ?_ | with_reducible refine revealNextBunkerCard_wf _ _ ?_ | with_reducible refine finishGame_wf _ _ _ ?_ | with_reducible refine passTurnFrom_wf _ _ ?_ | with_reducible refine revealWorldThreat_wf _ _ _ ?_ | with_reducible refine setBunkerOutcome_wf _ _ _ _ ?_ | with_reducible refine handleOnOwnerEliminated_wf _ _ ?_ | with_reducible refine removeFromVoting_wf _ _ ?_ | with_reducible refine markVoteWasted_wf _ _ _ _ ?_ | with_reducible refine startVoting_wf _ _ ?_ | with_reducible refine resetVotesForRevote_wf _ _ ?_ | with_reducible refine startTieBreakRevote_wf _ _ _ ?_ | with_reducible refine handleSecretEliminationTriggers_wf _ _ ?_ | with_reducible refine startNextRoundOrEnd_wf _ _ ?_ | with_reducible refine enterRevealDiscussion_wf _ _ ?_ | with_reducible refine enterVoteSpecialWindow_wf _ _ ?_ | with_reducible refine vote_wf _ _ _ _ ?_ | with_reducible refine applyElimination_wf _ _ ?_ | with_reducible refine finalizeVoting_wf _ _ _ ?_ | with_reducible refine advanceAfterDiscussion_wf _ _ ?_ | with_reducible refine continueRound_wf _ _ _ ?_ | with_reducible refine kickPlayer_wf _ _ _ ?_ | with_reducible refine markLeftBunker_wf _ _ _ ?_ | with_reducible refine ite_of (fun r => VotesWellFormed (Prod.fst r : gameSession)) _ _ _ (fun _ => ?_) (fun _ => ?_) | with_reducible refine ite_of (fun s : gameSession => VotesWellFormed s) _ _ _ (fun _ => ?_) (fun _ => ?_))
    | (with_reducible refine VotesWellFormed.mk ?_ ?_ ?_ <;> with_reducible (conv => arg 1; whnf) <;> first | with_reducible exact flagged_nil | with_reducible refine flagged_mapSet _ _ _ ?_ ?_ | with_reducible refine flagged_mapDel _ _ ?_ | with_reducible refine currentVoteSource_flagged _ ?_ | with_reducible refine finalizeSource_flagged _ ?_ | (first | with_reducible refine VotesWellFormed.votes ?_ | with_reducible refine VotesWellFormed.base ?_ | with_reducible refine VotesWellFormed.results ?_); first | with_reducible exact h | with_reducible refine schedulePhaseTimer_wf _ _ _ _ ?_ | with_reducible refine scheduleRevealTimeoutIfNeeded_wf _ _ ?_ | with_reducible refine revealNextBunkerCard_wf _ _ ?_ | with_reducible refine finishGame_wf _ _ _ ?_ | with_reducible refine passTurnFrom_wf _ _ ?_ | with_reducible refine revealWorldThreat_wf _ _ _ ?_ | with_reducible refine setBunkerOutcome_wf _ _ _ _ ?_ | with_reducible refine handleOnOwnerEliminated_wf _ _ ?_ | with_reducible refine removeFromVoting_wf _ _ ?_ | with_reducible refine markVoteWasted_wf _ _ _ _ ?_ | with_reducible refine startVoting_wf _ _ ?_ | with_reducible refine resetVotesForRevote_wf _ _ ?_ | with_reducible refine startTieBreakRevote_wf _ _ _ ?_ | with_reducible refine handleSecretEliminationTriggers_wf _ _ ?_ | with_reducible refine startNextRoundOrEnd_wf _ _ ?_ | with_reducible refine enterRevealDiscussion_wf _ _ ?_ | with_reducible refine enterVoteSpecialWindow_wf _ _ ?_ | with_reducible refine vote_wf _ _ _ _ ?_ | with_reducible refine applyElimination_wf _ _ ?_ | with_reducible refine finalizeVoting_wf _ _ _ ?_ | with_reducible refine advanceAfterDiscussion_wf _ _ ?_ | with_reducible refine continueRound_wf _ _ _ ?_ | with_reducible refine kickPlayer_wf _ _ _ ?_ | with_reducible refine markLeftBunker_wf _ _ _ ?_ | with_reducible refine ite_of (fun r => VotesWellFormed (Prod.fst r : gameSession)) _ _ _ (fun _ => ?_) (fun _ => ?_) | with_reducible refine ite_of (fun s : gameSession => VotesWellFormed s) _ _ _ (fun _ => ?_) (fun _ => ?_))
    | split)

theorem handleRevealPhaseTimeout_wf (g : gameSession) (now : Int)
    (h : VotesWellFormed g) : VotesWellFormed (handleRevealPhaseTimeout g now).1 := by
  unfold handleRevealPhaseTimeout
  try dsimp only [makeEvent, clearActiveTimer, markSpecialUsed, modifyCard,
    copyVotes, nextCardInstanceID, nextSpecialInstanceID,
    ensureAllBunkerCardsRevealed]
  repeat' (first
    | with_reducible exact h
    | with_reducible refine ite_of (fun r => VotesWellFormed (Prod.fst r : gameSession)) _ _ _ (fun _ => ?_) (fun _ => ?_)
    | with_reducible refine ite_of (fun s : gameSession => VotesWellFormed s) _ _ _ (fun _ => ?_) (fun _ => ?_)
    | with_reducible refine schedulePhaseTimer_wf _ _ _ _ ?_
    | with_reducible refine scheduleRevealTimeoutIfNeeded_wf _ _ ?_
    | with_reducible refine revealNextBunkerCard_wf _ _ ?_
    | with_reducible refine finishGame_wf _ _ _ ?_
    | with_reducible refine passTurnFrom_wf _ _ ?_
    | with_reducible refine revealWorldThreat_wf _ _ _ ?_
    | with_reducible refine setBunkerOutcome_wf _ _ _ _ ?_
    | with_reducible refine handleOnOwnerEliminated_wf _ _ ?_
    | with_reducible refine removeFromVoting_wf _ _ ?_
    | with_reducible refine markVoteWasted_wf _ _ _ _ ?_
    | with_reducible refine startVoting_wf _ _ ?_
    | with_reducible refine resetVotesForRevote_wf _ _ ?_
    | with_reducible refine startTieBreakRevote_wf _ _ _ ?_
    | with_reducible refine handleSecretEliminationTriggers_wf _ _ ?_
    | with_reducible refine startNextRoundOrEnd_wf _ _ ?_
    | with_reducible refine enterRevealDiscussion_wf _ _ ?_
    | with_reducible refine enterVoteSpecialWindow_wf _ _ ?_
    | with_reducible refine vote_wf _ _ _ _ ?_
    | with_reducible refine applyElimination_wf _ _ ?_
    | with_reducible refine finalizeVoting_wf _ _ _ ?_
    | with_reducible refine advanceAfterDiscussion_wf _ _ ?_
    | with_reducible refine continueRound_wf _ _ _ ?_
    | with_reducible refine kickPlayer_wf _ _ _ ?_
    | with_reducible refine markLeftBunker_wf _ _ _ ?_
    | with_reducible refine revealCard_wf _ _ _ _ ?_
    | with_reducible exact flagged_nil
    | with_reducible refine flagged_mapSet _ _ _ ?_ ?_
    | with_reducible refine flagged_mapDel _ _ ?_
    | with_reducible refine currentVoteSource_flagged _ ?_
    | with_reducible refine finalizeSource_flagged _ ?_
    | with_reducible exact fun _ => rfl
    | with_reducible exact fun hh => Bool.noConfusion hh
    | with_reducible refine VotesWellFormed.votes ?_
    | with_reducible refine VotesWellFormed.base ?_
    | with_reducible refine VotesWellFormed.results ?_
    | (with_reducible refine wf_of_same _ _ (by with_reducible (conv => lhs; whnf); exact rfl) (by with_reducible rfl) (by with_reducible rfl) ?_; first | with_reducible exact h | with_reducible refine schedulePhaseTimer_wf _ _ _ _ ?_ | with_reducible refine scheduleRevealTimeoutIfNeeded_wf _ _ ?_ | with_reducible refine revealNextBunkerCard_wf _ _ ?_ | with_reducible refine finishGame_wf _ _ _ ?_ | with_reducible refine passTurnFrom_wf _ _ ?_ | with_reducible refine revealWorldThreat_wf _ _ _ ?_ | with_reducible refine setBunkerOutcome_wf _ _ _ _ ?_ | with_reducible refine handleOnOwnerEliminated_wf _ _ ?_ | with_reducible refine removeFromVoting_wf _ _ ?_ | with_reducible refine markVoteWasted_wf _ _ _ _ ?_ | with_reducible refine startVoting_wf _ _ ?_ | with_reducible refine resetVotesForRevote_wf _ _ ?_ | with_reducible refine startTieBreakRevote_wf _ _ _ ?_ | with_reducible refine handleSecretEliminationTriggers_wf _ _ ?_ | with_reducible refine startNextRoundOrEnd_wf _ _ ?_ | with_reducible refine enterRevealDiscussion_wf _ _ ?_ | with_reducible refine enterVoteSpecialWindow_wf _ _ ?_ | with_reducible refine vote_wf _ _ _ _ ?_ | with_reducible refine applyElimination_wf _ _ ?_ | with_reducible refine finalizeVoting_wf _ _ _ ?_ | with_reducible refine advanceAfterDiscussion_wf _ _ ?_ | with_reducible refine continueRound_wf _ _ _ ?_ | with_reducible refine kickPlayer_wf _ _ _ ?_ | with_reducible refine markLeftBunker_wf _ _ _ ?_ | with_reducible refine revealCard_wf _ _ _ _ ?_ | with_reducible refine ite_of (fun r => VotesWellFormed (Prod.fst r : gameSession)) _ _ _ (fun _ => ?_) (fun _ => ?_) | with_reducible refine ite_of (fun s : gameSession => VotesWellFormed s) _ _ _ (fun _ => ?_) (fun _ => ?_))
    | (with_reducible refine VotesWellFormed.mk ?_ ?_ ?_ <;> with_reducible (conv => arg 1; whnf) <;> first | with_reducible exact flagged_nil | with_reducible refine flagged_mapSet _ _ _ ?_ ?_ | with_reducible refine flagged_mapDel _ _ ?_ | with_reducible refine currentVoteSource_flagged _ ?_ | with_reducible refine finalizeSource_flagged _ ?_ | (first | with_reducible refine VotesWellFormed.votes ?_ | with_reducible refine VotesWellFormed.base ?_ | with_reducible refine VotesWellFormed.results ?_); first | with_reducible exact h | with_reducible refine schedulePhaseTimer_wf _ _ _ _ ?_ | with_reducible refine scheduleRevealTimeoutIfNeeded_wf _ _ ?_ | with_reducible refine revealNextBunkerCard_wf _ _ ?_ | with_reducible refine finishGame_wf _ _ _ ?_ | with_reducible refine passTurnFrom_wf _ _ ?_ | with_reducible refine revealWorldThreat_wf _ _ _ ?_ | with_reducible refine setBunkerOutcome_wf _ _ _ _ ?_ | with_reducible refine handleOnOwnerEliminated_wf _ _ ?_ | with_reducible refine removeFromVoting_wf _ _ ?_ | with_reducible refine markVoteWasted_wf _ _ _ _ ?_ | with_reducible refine startVoting_wf _ _ ?_ | with_reducible refine resetVotesForRevote_wf _ _ ?_ | with_reducible refine startTieBreakRevote_wf _ _ _ ?_ | with_reducible refine handleSecretEliminationTriggers_wf _ _ ?_ | with_reducible refine startNextRoundOrEnd_wf _ _ ?_ | with_reducible refine enterRevealDiscussion_wf _ _ ?_ | with_reducible refine enterVoteSpecialWindow_wf _ _ ?_ | with_reducible refine vote_wf _ _ _ _ ?_ | with_reducible refine applyElimination_wf _ _ ?_ | with_reducible refine finalizeVoting_wf _ _ _ ?_ | with_reducible refine advanceAfterDiscussion_wf _ _ ?_ | with_reducible refine continueRound_wf _ _ _ ?_ | with_reducible refine kickPlayer_wf _ _ _ ?_ | with_reducible refine markLeftBunker_wf _ _ _ ?_ | with_reducible refine revealCard_wf _ _ _ _ ?_ | with_reducible refine ite_of (fun r => VotesWellFormed (Prod.fst r : gameSession)) _ _ _ (fun _ => ?_) (fun _ => ?_) | with_reducible refine ite_of (fun s : gameSession => VotesWellFormed s) _ _ _ (fun _ => ?_) (fun _ => ?_))
    | split)

theorem handleTimerExpired_wf (g : gameSession) (now : Int)
    (h : VotesWellFormed g) : VotesWellFormed (handleTimerExpired g now).1 := by
  unfold handleTimerExpired
  try dsimp only [makeEvent, clearActiveTimer, markSpecialUsed, modifyCard,
    copyVotes, nextCardInstanceID, nextSpecialInstanceID,
    ensureAllBunkerCardsRevealed]
  repeat' (first
    | with_reducible exact h
    | with_reducible refine ite_of (fun r => VotesWellFormed (Prod.fst r : gameSession)) _ _ _ (fun _ => ?_) (fun _ => ?_)
    | with_reducible refine ite_of (fun s : gameSession => VotesWellFormed s) _ _ _ (fun _ => ?_) (fun _ => ?_)
    | with_reducible refine schedulePhaseTimer_wf _ _ _ _ ?_
    | with_reducible refine scheduleRevealTimeoutIfNeeded_wf _ _ ?_
    | with_reducible refine revealNextBunkerCard_wf _ _ ?_
    | with_reducible refine finishGame_wf _ _ _ ?_
    | with_reducible refine passTurnFrom_wf _ _ ?_
    | with_reducible refine revealWorldThreat_wf _ _ _ ?_
    | with_reducible refine setBunkerOutcome_wf _ _ _ _ ?_
    | with_reducible refine handleOnOwnerEliminated_wf _ _ ?_
    | with_reducible refine removeFromVoting_wf _ _ ?_
    | with_reducible refine markVoteWasted_wf _ _ _ _ ?_
    | with_reducible refine startVoting_wf _ _ ?_
    | with_reducible refine resetVotesForRevote_wf _ _ ?_
    | with_reducible refine startTieBreakRevote_wf _ _ _ ?_
    | with_reducible refine handleSecretEliminationTriggers_wf _ _ ?_
    | with_reducible refine startNextRoundOrEnd_wf _ _ ?_
    | with_reducible refine enterRevealDiscussion_wf _ _ ?_
    | with_reducible refine enterVoteSpecialWindow_wf _ _ ?_
    | with_reducible refine vote_wf _ _ _ _ ?_
    | with_reducible refine applyElimination_wf _ _ ?_
    | with_reducible refine finalizeVoting_wf _ _ _ ?_
    | with_reducible refine advanceAfterDiscussion_wf _ _ ?_
    | with_reducible refine continueRound_wf _ _ _ ?_
    | with_reducible refine kickPlayer_wf _ _ _ ?_
    | with_reducible refine markLeftBunker_wf _ _ _ ?_
    | with_reducible refine revealCard_wf _ _ _ _ ?_
    | with_reducible refine handleRevealPhaseTimeout_wf _ _ ?_
    | with_reducible exact flagged_nil
    | with_reducible refine flagged_mapSet _ _ _ ?_ ?_
    | with_reducible refine flagged_mapDel _ _ ?_
    | with_reducible refine currentVoteSource_flagged _ ?_
    | with_reducible refine finalizeSource_flagged _ ?_
    | with_reducible exact fun _ => rfl
    | with_reducible exact fun hh => Bool.noConfusion hh
    | with_reducible refine VotesWellFormed.votes ?_
    | with_reducible refine VotesWellFormed.base ?_
    | with_reducible refine VotesWellFormed.results ?_
    | (with_reducible refine wf_of_same _ _ (by with_reducible (conv => lhs; whnf); exact rfl) (by with_reducible rfl) (by with_reducible rfl) ?_; first | with_reducible exact h | with_reducible refine schedulePhaseTimer_wf _ _ _ _ ?_ | with_reducible refine scheduleRevealTimeoutIfNeeded_wf _ _ ?_ | with_reducible refine revealNextBunkerCard_wf _ _ ?_ | with_reducible refine finishGame_wf _ _ _ ?_ | with_reducible refine passTurnFrom_wf _ _ ?_ | with_reducible refine revealWorldThreat_wf _ _ _ ?_ | with_reducible refine setBunkerOutcome_wf _ _ _ _ ?_ | with_reducible refine handleOnOwnerEliminated_wf _ _ ?_ | with_reducible refine removeFromVoting_wf _ _ ?_ | with_reducible refine markVoteWasted_wf _ _ _ _ ?_ | with_reducible refine startVoting_wf _ _ ?_ | with_reducible refine resetVotesForRevote_wf _ _ ?_ | with_reducible refine startTieBreakRevote_wf _ _ _ ?_ | with_reducible refine handleSecretEliminationTriggers_wf _ _ ?_ | with_reducible refine startNextRoundOrEnd_wf _ _ ?_ | with_reducible refine enterRevealDiscussion_wf _ _ ?_ | with_reducible refine enterVoteSpecialWindow_wf _ _ ?_ | with_reducible refine vote_wf _ _ _ _ ?_ | with_reducible refine applyElimination_wf _ _ ?_ | with_reducible refine finalizeVoting_wf _ _ _ ?_ | with_reducible refine advanceAfterDiscussion_wf _ _ ?_ | with_reducible refine continueRound_wf _ _ _ ?_ | with_reducible refine kickPlayer_wf _ _ _ ?_ | with_reducible refine markLeftBunker_wf _ _ _ ?_ | with_reducible refine revealCard_wf _ _ _ _ ?_ | with_reducible refine handleRevealPhaseTimeout_wf _ _ ?_ | with_reducible refine ite_of (fun r => VotesWellFormed (Prod.fst r : gameSession)) _ _ _ (fun _ => ?_) (fun _ => ?_) | with_reducible refine ite_of (fun s : gameSession => VotesWellFormed s) _ _ _ (fun _ => ?_) (fun _ => ?_))
    | (with_reducible refine VotesWellFormed.mk ?_ ?_ ?_ <;> with_reducible (conv => arg 1; whnf) <;> first | with_reducible exact flagged_nil | with_reducible refine flagged_mapSet _ _ _ ?_ ?_ | with_reducible refine flagged_mapDel _ _ ?_ | with_reducible refine currentVoteSource_flagged _ ?_ | with_reducible refine finalizeSource_flagged _ ?_ | (first | with_reducible refine VotesWellFormed.votes ?_ | with_reducible refine VotesWellFormed.base ?_ | with_reducible refine VotesWellFormed.results ?_); first | with_reducible exact h | with_reducible refine schedulePhaseTimer_wf _ _ _ _ ?_ | with_reducible refine scheduleRevealTimeoutIfNeeded_wf _ _ ?_ | with_reducible refine revealNextBunkerCard_wf _ _ ?_ | with_reducible refine finishGame_wf _ _ _ ?_ | with_reducible refine passTurnFrom_wf _ _ ?_ | with_reducible refine revealWorldThreat_wf _ _ _ ?_ | with_reducible refine setBunkerOutcome_wf _ _ _ _ ?_ | with_reducible refine handleOnOwnerEliminated_wf _ _ ?_ | with_reducible refine removeFromVoting_wf _ _ ?_ | with_reducible refine markVoteWasted_wf _ _ _ _ ?_ | with_reducible refine startVoting_wf _ _ ?_ | with_reducible refine resetVotesForRevote_wf _ _ ?_ | with_reducible refine startTieBreakRevote_wf _ _ _ ?_ | with_reducible refine handleSecretEliminationTriggers_wf _ _ ?_ | with_reducible refine startNextRoundOrEnd_wf _ _ ?_ | with_reducible refine enterRevealDiscussion_wf _ _ ?_ | with_reducible refine enterVoteSpecialWindow_wf _ _ ?_ | with_reducible refine vote_wf _ _ _ _ ?_ | with_reducible refine applyElimination_wf _ _ ?_ | with_reducible refine finalizeVoting_wf _ _ _ ?_ | with_reducible refine advanceAfterDiscussion_wf _ _ ?_ | with_reducible refine continueRound_wf _ _ _ ?_ | with_reducible refine kickPlayer_wf _ _ _ ?_ | with_reducible refine markLeftBunker_wf _ _ _ ?_ | with_reducible refine revealCard_wf _ _ _ _ ?_ | with_reducible refine handleRevealPhaseTimeout_wf _ _ ?_ | with_reducible refine ite_of (fun r => VotesWellFormed (Prod.fst r : gameSession)) _ _ _ (fun _ => ?_) (fun _ => ?_) | with_reducible refine ite_of (fun s : gameSession => VotesWellFormed s) _ _ _ (fun _ => ?_) (fun _ => ?_))
    | split)



/-! ## Vote records: abilities, dev actions and the dispatcher -/

theorem hard_Votes {g g2 : gameSession} (h : hard g2 = hard g) : g2.Votes = g.Votes :=
  congrArg hardView.Votes h

theorem hard_BaseVotes {g g2 : gameSession} (h : hard g2 = hard g) :
    g2.BaseVotes = g.BaseVotes := congrArg hardView.BaseVotes h

theorem drawSpecialFromPool_VoteResults (g : gameSession) :
    (drawSpecialFromPool g).1.VoteResults = g.VoteResults := by
  unfold drawSpecialFromPool
  split <;> rfl

theorem giveSpecials_VoteResults (t : String) (n : Nat) :
    ∀ (g : gameSession) (moved : Bool),
      (giveSpecials t n g moved).1.VoteResults = g.VoteResults := by
  induction n with
  | zero =>
    intro g moved
    rfl
  | succ n ih =>
    intro g moved
    unfold giveSpecials
    split
    · rfl
    · dsimp only [nextSpecialInstanceID]
      exact (ih _ _).trans (drawSpecialFromPool_VoteResults g)

theorem redealCopy_VoteResults (g : gameSession) (pair : (String × Nat) × (String × Nat)) :
    (redealCopy g pair).VoteResults = g.VoteResults := by
  unfold redealCopy
  split <;> rfl

theorem redealEffect_VoteResults (g : gameSession) (a : String) (p : gamePlayer) (i : Nat)
    (d : specialDefinition) (now : Int) :
    (redealEffect g a p i d now).1.VoteResults = g.VoteResults := by
  unfold redealEffect
  dsimp only [makeEvent, markSpecialUsed]
  split
  · rfl
  split
  · rfl
  exact (foldl_keeps redealCopy (fun s : gameSession => s.VoteResults) redealCopy_VoteResults _ _)

theorem stealBaggageEffect_VoteResults (g : gameSession) (a : String) (p : gamePlayer)
    (i : Nat) (d : specialDefinition) (payload : GoMap AnyLeaf) (now : Int) :
    (stealBaggageEffect g a p i d payload now).1.VoteResults = g.VoteResults := by
  unfold stealBaggageEffect
  dsimp only [makeEvent, nextCardInstanceID, markSpecialUsed]
  repeat' (first
    | with_reducible rfl
    | with_reducible refine ite_of (fun s : gameSession => s.VoteResults = g.VoteResults) _ _ _ (fun _ => ?_) (fun _ => ?_)
    | with_reducible refine (giveSpecials_VoteResults _ _ _ _).trans ?_
    | split)

theorem replaceCardEffect_VoteResults (g : gameSession) (a : String) (p : gamePlayer)
    (i : Nat) (d : specialDefinition) (payload : GoMap AnyLeaf) (hide : Bool) (now : Int) :
    (replaceCardEffect g a p i d payload hide now).1.VoteResults = g.VoteResults := by
  unfold replaceCardEffect
  dsimp only [makeEvent, markSpecialUsed, modifyCard]
  split
  · rfl
  split
  · rfl
  split
  · rfl
  split
  all_goals
    rename_i heq
    have hk : (drawCardFromDeck g (mapGetS categoryKeyToDeck
      (asString (mapGet? d.Effect.Params "category")))).1.VoteResults = g.VoteResults := rfl
    rw [heq] at hk
    exact hk

theorem replaceCardEffect_wf (g : gameSession) (a : String) (p : gamePlayer) (i : Nat)
    (d : specialDefinition) (payload : GoMap AnyLeaf) (hide : Bool) (now : Int)
    (h : VotesWellFormed g) : VotesWellFormed (replaceCardEffect g a p i d payload hide now).1 :=
  wf_of_same g _ (hard_Votes (replaceCardEffect_hard g a p i d payload hide now))
    (hard_BaseVotes (replaceCardEffect_hard g a p i d payload hide now))
    (replaceCardEffect_VoteResults g a p i d payload hide now) h

theorem redealEffect_wf (g : gameSession) (a : String) (p : gamePlayer) (i : Nat)
    (d : specialDefinition) (now : Int)
    (h : VotesWellFormed g) : VotesWellFormed (redealEffect g a p i d now).1 :=
  wf_of_same g _ (hard_Votes (redealEffect_hard g a p i d now))
    (hard_BaseVotes (redealEffect_hard g a p i d now))
    (redealEffect_VoteResults g a p i d now) h

theorem stealBaggageEffect_wf (g : gameSession) (a : String) (p : gamePlayer) (i : Nat)
    (d : specialDefinition) (payload : GoMap AnyLeaf) (now : Int)
    (h : VotesWellFormed g) : VotesWellFormed (stealBaggageEffect g a p i d payload now).1 :=
  wf_of_same g _ (hard_Votes (stealBaggageEffect_hard g a p i d payload now))
    (hard_BaseVotes (stealBaggageEffect_hard g a p i d payload now))
    (stealBaggageEffect_VoteResults g a p i d payload now) h

theorem applySpecialEffect_wf (g : gameSession) (a : String) (p : gamePlayer) (i : Nat)
    (sp : specialConditionState) (payload : GoMap AnyLeaf) (now : Int)
    (h : VotesWellFormed g) : VotesWellFormed (applySpecialEffect g a p i sp payload now).1 := by
  unfold applySpecialEffect
  dsimp only [makeEvent, clearActiveTimer, markSpecialUsed, modifyCard]
  repeat' (first
    | with_reducible exact h
    | with_reducible refine ite_of (fun r => VotesWellFormed (Prod.fst r : gameSession)) _ _ _ (fun _ => ?_) (fun _ => ?_)
    | with_reducible refine ite_of (fun s : gameSession => VotesWellFormed s) _ _ _ (fun _ => ?_) (fun _ => ?_)
    | with_reducible refine replaceCardEffect_wf _ _ _ _ _ _ _ _ ?_
    | with_reducible refine redealEffect_wf _ _ _ _ _ _ ?_
    | with_reducible refine stealBaggageEffect_wf _ _ _ _ _ _ _ ?_
    | with_reducible refine markVoteWasted_wf _ _ _ _ ?_
    | with_reducible refine resetVotesForRevote_wf _ _ ?_
    | with_reducible exact flagged_nil
    | with_reducible refine flagged_mapSet _ _ _ ?_ ?_
    | with_reducible refine flagged_mapDel _ _ ?_
    | with_reducible refine currentVoteSource_flagged _ ?_
    | with_reducible refine finalizeSource_flagged _ ?_
    | with_reducible exact fun _ => rfl
    | with_reducible exact fun hh => Bool.noConfusion hh
    | with_reducible refine VotesWellFormed.votes ?_
    | with_reducible refine VotesWellFormed.base ?_
    | with_reducible refine VotesWellFormed.results ?_
    | (with_reducible refine wf_of_same _ _ (by with_reducible (conv => lhs; whnf); exact rfl) (by with_reducible rfl) (by with_reducible rfl) ?_; first | with_reducible exact h | with_reducible refine replaceCardEffect_wf _ _ _ _ _ _ _ _ ?_ | with_reducible refine redealEffect_wf _ _ _ _ _ _ ?_ | with_reducible refine stealBaggageEffect_wf _ _ _ _ _ _ _ ?_ | with_reducible refine markVoteWasted_wf _ _ _ _ ?_ | with_reducible refine resetVotesForRevote_wf _ _ ?_ | with_reducible refine ite_of (fun r => VotesWellFormed (Prod.fst r : gameSession)) _ _ _ (fun _ => ?_) (fun _ => ?_) | with_reducible refine ite_of (fun s : gameSession => VotesWellFormed s) _ _ _ (fun _ => ?_) (fun _ => ?_))
    | (with_reducible refine VotesWellFormed.mk ?_ ?_ ?_ <;> with_reducible (conv => arg 1; whnf) <;> first | with_reducible exact flagged_nil | with_reducible refine flagged_mapSet _ _ _ ?_ ?_ | with_reducible refine flagged_mapDel _ _ ?_ | with_reducible refine currentVoteSource_flagged _ ?_ | with_reducible refine finalizeSource_flagged _ ?_ | (first | with_reducible refine VotesWellFormed.votes ?_ | with_reducible refine VotesWellFormed.base ?_ | with_reducible refine VotesWellFormed.results ?_); first | with_reducible exact h | with_reducible refine replaceCardEffect_wf _ _ _ _ _ _ _ _ ?_ | with_reducible refine redealEffect_wf _ _ _ _ _ _ ?_ | with_reducible refine stealBaggageEffect_wf _ _ _ _ _ _ _ ?_ | with_reducible refine markVoteWasted_wf _ _ _ _ ?_ | with_reducible refine resetVotesForRevote_wf _ _ ?_ | with_reducible refine ite_of (fun r => VotesWellFormed (Prod.fst r : gameSession)) _ _ _ (fun _ => ?_) (fun _ => ?_) | with_reducible refine ite_of (fun s : gameSession => VotesWellFormed s) _ _ _ (fun _ => ?_) (fun _ => ?_))
    | split)

theorem applySpecial_wf (g : gameSession) (actorID sid : String) (payload : GoMap AnyLeaf)
    (now : Int) (h : VotesWellFormed g) :
    VotesWellFormed (applySpecial g actorID sid payload now).1 := by
  rcases applySpecial_shape g actorID sid payload now with e | ⟨player, sp, ep, _, _, e⟩
  · rw [e]
    exact h
  · have hE := applySpecialEffect_wf g actorID player
      (player.Specials.findIdx (fun s => s.InstanceID = sid)) sp ep now h
    rcases e with e | ⟨c, e⟩ | ⟨c, e⟩
    all_goals rw [e]
    · exact hE
    · exact ⟨hE.votes, hE.base, hE.results⟩
    · exact ⟨hE.votes, hE.base, hE.results⟩

theorem drawFor_VoteResults (g : gameSession) (p d s : String) :
    (drawFor g p d s).1.VoteResults = g.VoteResults := by
  unfold drawFor
  dsimp only [nextCardInstanceID, drawCardFromDeck]
  split <;> rfl

theorem drawInitialHandForPlayer_VoteResults (g : gameSession) (p : String) :
    (drawInitialHandForPlayer g p).1.VoteResults = g.VoteResults := by
  unfold drawInitialHandForPlayer
  dsimp only
  rw [drawFor_VoteResults, drawFor_VoteResults]
  exact foldl_keeps _ (fun s : gameSession × List handCard => s.1.VoteResults)
    (fun s a => drawFor_VoteResults s.1 p a "") _ _

theorem assignInitialSpecialsForPlayer_VoteResults (g : gameSession) (p : String)
    (l : GoMap String) : (assignInitialSpecialsForPlayer g p l).1.VoteResults = g.VoteResults := by
  unfold assignInitialSpecialsForPlayer
  dsimp only [nextSpecialInstanceID]
  repeat' split
  all_goals exact drawSpecialFromPool_VoteResults g

theorem drawInitialHandForPlayer_wf (g : gameSession) (p : String) (h : VotesWellFormed g) :
    VotesWellFormed (drawInitialHandForPlayer g p).1 :=
  wf_of_same g _ (hard_Votes (drawInitialHandForPlayer_hard g p))
    (hard_BaseVotes (drawInitialHandForPlayer_hard g p))
    (drawInitialHandForPlayer_VoteResults g p) h

theorem assignInitialSpecialsForPlayer_wf (g : gameSession) (p : String) (l : GoMap String)
    (h : VotesWellFormed g) : VotesWellFormed (assignInitialSpecialsForPlayer g p l).1 :=
  wf_of_same g _ (hard_Votes (assignInitialSpecialsForPlayer_hard g p l))
    (hard_BaseVotes (assignInitialSpecialsForPlayer_hard g p l))
    (assignInitialSpecialsForPlayer_VoteResults g p l) h

theorem devAdd_wf (g : gameSession) (c : Int) (pid : String) (T : gameSession)
    (hv : T.Votes =
      (assignInitialSpecialsForPlayer (drawInitialHandForPlayer { g with DevBotCounter := c } pid).1
        pid (buildSpecialAssetLookup
          (drawInitialHandForPlayer { g with DevBotCounter := c } pid).1)).1.Votes)
    (hb : T.BaseVotes =
      (assignInitialSpecialsForPlayer (drawInitialHandForPlayer { g with DevBotCounter := c } pid).1
        pid (buildSpecialAssetLookup
          (drawInitialHandForPlayer { g with DevBotCounter := c } pid).1)).1.BaseVotes)
    (hr : T.VoteResults =
      (assignInitialSpecialsForPlayer (drawInitialHandForPlayer { g with DevBotCounter := c } pid).1
        pid (buildSpecialAssetLookup
          (drawInitialHandForPlayer { g with DevBotCounter := c } pid).1)).1.VoteResults)
    (h : VotesWellFormed g) : VotesWellFormed T :=
  wf_of_same _ T hv hb hr (assignInitialSpecialsForPlayer_wf _ _ _
    (drawInitialHandForPlayer_wf { g with DevBotCounter := c } pid ⟨h.votes, h.base, h.results⟩))

theorem devAddPlayer_wf (g : gameSession) (name : String) (now : Int)
    (h : VotesWellFormed g) : VotesWellFormed (devAddPlayer g name now).1 := by
  unfold devAddPlayer
  split
  · exact h
  · dsimp only [makeEvent]
    split <;> split
    all_goals
      refine devAdd_wf g
        (devFreshCounter g (g.Players.length + 1) (g.DevBotCounter + 1))
        (devPlayerID { g with DevBotCounter := (devFreshCounter g (g.Players.length + 1) (g.DevBotCounter + 1)) }
          (devFreshCounter g (g.Players.length + 1) (g.DevBotCounter + 1))) _ ?_ ?_ ?_ h
    all_goals with_reducible rfl

theorem devRemovePlayer_wf (g : gameSession) (t : String) (now : Int)
    (h : VotesWellFormed g) : VotesWellFormed (devRemovePlayer g t now).1 := by
  unfold devRemovePlayer
  dsimp only [makeEvent]
  repeat' (first
    | with_reducible exact h
    | with_reducible refine ite_of (fun r => VotesWellFormed (Prod.fst r : gameSession)) _ _ _ (fun _ => ?_) (fun _ => ?_)
    | with_reducible refine ite_of (fun s : gameSession => VotesWellFormed s) _ _ _ (fun _ => ?_) (fun _ => ?_)
    | with_reducible refine finishGame_wf _ _ _ ?_
    | with_reducible refine passTurnFrom_wf _ _ ?_
    | with_reducible refine removeFromVoting_wf _ _ ?_
    | with_reducible exact flagged_nil
    | with_reducible refine flagged_mapSet _ _ _ ?_ ?_
    | with_reducible refine flagged_mapDel _ _ ?_
    | with_reducible refine currentVoteSource_flagged _ ?_
    | with_reducible refine finalizeSource_flagged _ ?_
    | with_reducible exact fun _ => rfl
    | with_reducible exact fun hh => Bool.noConfusion hh
    | with_reducible refine VotesWellFormed.votes ?_
    | with_reducible refine VotesWellFormed.base ?_
    | with_reducible refine VotesWellFormed.results ?_
    | (with_reducible refine wf_of_same _ _ (by with_reducible (conv => lhs; whnf); exact rfl) (by with_reducible rfl) (by with_reducible rfl) ?_; first | with_reducible exact h | with_reducible refine finishGame_wf _ _ _ ?_ | with_reducible refine passTurnFrom_wf _ _ ?_ | with_reducible refine removeFromVoting_wf _ _ ?_ | with_reducible refine ite_of (fun r => VotesWellFormed (Prod.fst r : gameSession)) _ _ _ (fun _ => ?_) (fun _ => ?_) | with_reducible refine ite_of (fun s : gameSession => VotesWellFormed s) _ _ _ (fun _ => ?_) (fun _ => ?_))
    | (with_reducible refine VotesWellFormed.mk ?_ ?_ ?_ <;> with_reducible (conv => arg 1; whnf) <;> first | with_reducible exact flagged_nil | with_reducible refine flagged_mapSet _ _ _ ?_ ?_ | with_reducible refine flagged_mapDel _ _ ?_ | with_reducible refine currentVoteSource_flagged _ ?_ | with_reducible refine finalizeSource_flagged _ ?_ | (first | with_reducible refine VotesWellFormed.votes ?_ | with_reducible refine VotesWellFormed.base ?_ | with_reducible refine VotesWellFormed.results ?_); first | with_reducible exact h | with_reducible refine finishGame_wf _ _ _ ?_ | with_reducible refine passTurnFrom_wf _ _ ?_ | with_reducible refine removeFromVoting_wf _ _ ?_ | with_reducible refine ite_of (fun r => VotesWellFormed (Prod.fst r : gameSession)) _ _ _ (fun _ => ?_) (fun _ => ?_) | with_reducible refine ite_of (fun s : gameSession => VotesWellFormed s) _ _ _ (fun _ => ?_) (fun _ => ?_))
    | split)

theorem handleAction_wf (g : gameSession) (actorID actionType : String)
    (payload : GoMap AnyVal) (now : Int) (h : VotesWellFormed g) :
    VotesWellFormed (handleAction g actorID actionType payload now).1 := by
  unfold handleAction
  split
  · exact h
  · split
    · exact revealCard_wf _ _ _ _ h
    · exact continueRound_wf _ _ _ h
    · exact vote_wf _ _ _ _ h
    · exact finalizeVoting_wf _ _ _ h
    · exact applySpecial_wf _ _ _ _ _ h
    · exact revealWorldThreat_wf _ _ _ h
    · exact setBunkerOutcome_wf _ _ _ _ h
    · exact startNextRoundOrEnd_wf _ _ h
    · exact kickPlayer_wf _ _ _ h
    · exact devAddPlayer_wf _ _ _ h
    · exact devRemovePlayer_wf _ _ _ h
    · exact markLeftBunker_wf _ _ _ h
    · exact h



/-! ## Vote records: the dev wrapper -/

theorem autoRevealBots_wf (g : gameSession) (now : Int)
    (h : VotesWellFormed g) : VotesWellFormed (autoRevealBots g now).1 := by
  unfold autoRevealBots
  dsimp only
  repeat' (first
    | with_reducible exact h
    | with_reducible refine ite_of (fun r => VotesWellFormed (Prod.fst r : gameSession)) _ _ _ (fun _ => ?_) (fun _ => ?_)
    | with_reducible refine ite_of (fun s : gameSession => VotesWellFormed s) _ _ _ (fun _ => ?_) (fun _ => ?_)
    | with_reducible refine revealCard_wf _ _ _ _ ?_
    | with_reducible exact flagged_nil
    | with_reducible refine flagged_mapSet _ _ _ ?_ ?_
    | with_reducible refine flagged_mapDel _ _ ?_
    | with_reducible refine currentVoteSource_flagged _ ?_
    | with_reducible refine finalizeSource_flagged _ ?_
    | with_reducible exact fun _ => rfl
    | with_reducible exact fun hh => Bool.noConfusion hh
    | with_reducible refine VotesWellFormed.votes ?_
    | with_reducible refine VotesWellFormed.base ?_
    | with_reducible refine VotesWellFormed.results ?_
    | (with_reducible refine wf_of_same _ _ (by with_reducible (conv => lhs; whnf); exact rfl) (by with_reducible rfl) (by with_reducible rfl) ?_; first | with_reducible exact h | with_reducible refine revealCard_wf _ _ _ _ ?_ | with_reducible refine ite_of (fun r => VotesWellFormed (Prod.fst r : gameSession)) _ _ _ (fun _ => ?_) (fun _ => ?_) | with_reducible refine ite_of (fun s : gameSession => VotesWellFormed s) _ _ _ (fun _ => ?_) (fun _ => ?_))
    | (with_reducible refine VotesWellFormed.mk ?_ ?_ ?_ <;> with_reducible (conv => arg 1; whnf) <;> first | with_reducible exact flagged_nil | with_reducible refine flagged_mapSet _ _ _ ?_ ?_ | with_reducible refine flagged_mapDel _ _ ?_ | with_reducible refine currentVoteSource_flagged _ ?_ | with_reducible refine finalizeSource_flagged _ ?_ | (first | with_reducible refine VotesWellFormed.votes ?_ | with_reducible refine VotesWellFormed.base ?_ | with_reducible refine VotesWellFormed.results ?_); first | with_reducible exact h | with_reducible refine revealCard_wf _ _ _ _ ?_ | with_reducible refine ite_of (fun r => VotesWellFormed (Prod.fst r : gameSession)) _ _ _ (fun _ => ?_) (fun _ => ?_) | with_reducible refine ite_of (fun s : gameSession => VotesWellFormed s) _ _ _ (fun _ => ?_) (fun _ => ?_))
    | split)

theorem autoVoteStep_wf (now : Int) (acc : gameSession × Bool) (v : String)
    (h : VotesWellFormed acc.1) : VotesWellFormed (autoVoteStep now acc v).1 := by
  unfold autoVoteStep
  dsimp only
  repeat' (first
    | with_reducible exact h
    | with_reducible refine ite_of (fun r => VotesWellFormed (Prod.fst r : gameSession)) _ _ _ (fun _ => ?_) (fun _ => ?_)
    | with_reducible refine ite_of (fun s : gameSession => VotesWellFormed s) _ _ _ (fun _ => ?_) (fun _ => ?_)
    | with_reducible refine markVoteWasted_wf _ _ _ _ ?_
    | with_reducible exact flagged_nil
    | with_reducible refine flagged_mapSet _ _ _ ?_ ?_
    | with_reducible refine flagged_mapDel _ _ ?_
    | with_reducible refine currentVoteSource_flagged _ ?_
    | with_reducible refine finalizeSource_flagged _ ?_
    | with_reducible exact fun _ => rfl
    | with_reducible exact fun hh => Bool.noConfusion hh
    | with_reducible refine VotesWellFormed.votes ?_
    | with_reducible refine VotesWellFormed.base ?_
    | with_reducible refine VotesWellFormed.results ?_
    | (with_reducible refine wf_of_same _ _ (by with_reducible (conv => lhs; whnf); exact rfl) (by with_reducible rfl) (by with_reducible rfl) ?_; first | with_reducible exact h | with_reducible refine markVoteWasted_wf _ _ _ _ ?_ | with_reducible refine ite_of (fun r => VotesWellFormed (Prod.fst r : gameSession)) _ _ _ (fun _ => ?_) (fun _ => ?_) | with_reducible refine ite_of (fun s : gameSession => VotesWellFormed s) _ _ _ (fun _ => ?_) (fun _ => ?_))
    | (with_reducible refine VotesWellFormed.mk ?_ ?_ ?_ <;> with_reducible (conv => arg 1; whnf) <;> first | with_reducible exact flagged_nil | with_reducible refine flagged_mapSet _ _ _ ?_ ?_ | with_reducible refine flagged_mapDel _ _ ?_ | with_reducible refine currentVoteSource_flagged _ ?_ | with_reducible refine finalizeSource_flagged _ ?_ | (first | with_reducible refine VotesWellFormed.votes ?_ | with_reducible refine VotesWellFormed.base ?_ | with_reducible refine VotesWellFormed.results ?_); first | with_reducible exact h | with_reducible refine markVoteWasted_wf _ _ _ _ ?_ | with_reducible refine ite_of (fun r => VotesWellFormed (Prod.fst r : gameSession)) _ _ _ (fun _ => ?_) (fun _ => ?_) | with_reducible refine ite_of (fun s : gameSession => VotesWellFormed s) _ _ _ (fun _ => ?_) (fun _ => ?_))
    | split)

theorem autoVoteBots_wf (g : gameSession) (now : Int)
    (h : VotesWellFormed g) : VotesWellFormed (autoVoteBots g now).1 := by
  have hf : VotesWellFormed (g.Order.foldl (autoVoteStep now) (g, false)).1 :=
    foldl_holds (autoVoteStep now) (fun s : gameSession × Bool => VotesWellFormed s.1) _
      (fun s a _ hs => autoVoteStep_wf now s a hs) _ h
  unfold autoVoteBots
  dsimp only
  repeat' (first
    | with_reducible exact h
    | with_reducible exact hf
    | with_reducible refine ite_of (fun r => VotesWellFormed (Prod.fst r : gameSession)) _ _ _ (fun _ => ?_) (fun _ => ?_)
    | with_reducible refine enterVoteSpecialWindow_wf _ _ ?_)

theorem postProcessLoop_wf (now : Int) (n : Nat) :
    ∀ st : postState, VotesWellFormed st.session →
      VotesWellFormed (postProcessLoop now n st).session := by
  induction n with
  | zero => exact fun _ h => h
  | succ n ih =>
    intro st h
    unfold postProcessLoop
    dsimp only
    repeat' (first
      | with_reducible exact h
      | with_reducible refine ih _ ?_
      | with_reducible refine autoRevealBots_wf _ _ ?_
      | with_reducible refine autoVoteBots_wf _ _ ?_
      | with_reducible refine ite_of (fun s : postState => VotesWellFormed s.session) _ _ _ (fun _ => ?_) (fun _ => ?_)
      | with_reducible refine ite_of (fun r => VotesWellFormed (Prod.fst r : postState).session) _ _ _ (fun _ => ?_) (fun _ => ?_)
      | split)

theorem postProcess_wf (g : gameSession) (result : gameActionResult) (now : Int)
    (h : VotesWellFormed g) : VotesWellFormed (postProcess g result now).1 := by
  unfold postProcess
  dsimp only
  repeat' (first
    | with_reducible exact h
    | with_reducible exact postProcessLoop_wf _ _ _ h
    | with_reducible refine ite_of (fun r => VotesWellFormed (Prod.fst r : gameSession)) _ _ _ (fun _ => ?_) (fun _ => ?_)
    | with_reducible refine finishGame_wf _ _ _ ?_)

theorem removeFromVotingDev_wf (g : gameSession) (t : String) (now : Int)
    (h : VotesWellFormed g) : VotesWellFormed (removeFromVotingDev g t now) := by
  unfold removeFromVotingDev
  dsimp only
  repeat' (first
    | with_reducible exact h
    | with_reducible refine ite_of (fun s : gameSession => VotesWellFormed s) _ _ _ (fun _ => ?_) (fun _ => ?_)
    | with_reducible refine enterVoteSpecialWindow_wf _ _ ?_
    | with_reducible refine removeFromVoting_wf _ _ ?_)

theorem devMarkLeftBunker_wf (g : gameSession) (t : String) (now : Int)
    (h : VotesWellFormed g) : VotesWellFormed (devMarkLeftBunker g t now).1 := by
  unfold devMarkLeftBunker
  dsimp only
  repeat' (first
    | with_reducible exact h
    | with_reducible refine ite_of (fun r => VotesWellFormed (Prod.fst r : gameSession)) _ _ _ (fun _ => ?_) (fun _ => ?_)
    | with_reducible refine ite_of (fun s : gameSession => VotesWellFormed s) _ _ _ (fun _ => ?_) (fun _ => ?_)
    | with_reducible refine passTurnFrom_wf _ _ ?_
    | with_reducible refine removeFromVotingDev_wf _ _ _ ?_
    | with_reducible exact flagged_nil
    | with_reducible refine flagged_mapSet _ _ _ ?_ ?_
    | with_reducible refine flagged_mapDel _ _ ?_
    | with_reducible refine currentVoteSource_flagged _ ?_
    | with_reducible refine finalizeSource_flagged _ ?_
    | with_reducible exact fun _ => rfl
    | with_reducible exact fun hh => Bool.noConfusion hh
    | with_reducible refine VotesWellFormed.votes ?_
    | with_reducible refine VotesWellFormed.base ?_
    | with_reducible refine VotesWellFormed.results ?_
    | (with_reducible refine wf_of_same _ _ (by with_reducible (conv => lhs; whnf); exact rfl) (by with_reducible rfl) (by with_reducible rfl) ?_; first | with_reducible exact h | with_reducible refine passTurnFrom_wf _ _ ?_ | with_reducible refine removeFromVotingDev_wf _ _ _ ?_ | with_reducible refine ite_of (fun r => VotesWellFormed (Prod.fst r : gameSession)) _ _ _ (fun _ => ?_) (fun _ => ?_) | with_reducible refine ite_of (fun s : gameSession => VotesWellFormed s) _ _ _ (fun _ => ?_) (fun _ => ?_))
    | (with_reducible refine VotesWellFormed.mk ?_ ?_ ?_ <;> with_reducible (conv => arg 1; whnf) <;> first | with_reducible exact flagged_nil | with_reducible refine flagged_mapSet _ _ _ ?_ ?_ | with_reducible refine flagged_mapDel _ _ ?_ | with_reducible refine currentVoteSource_flagged _ ?_ | with_reducible refine finalizeSource_flagged _ ?_ | (first | with_reducible refine VotesWellFormed.votes ?_ | with_reducible refine VotesWellFormed.base ?_ | with_reducible refine VotesWellFormed.results ?_); first | with_reducible exact h | with_reducible refine passTurnFrom_wf _ _ ?_ | with_reducible refine removeFromVotingDev_wf _ _ _ ?_ | with_reducible refine ite_of (fun r => VotesWellFormed (Prod.fst r : gameSession)) _ _ _ (fun _ => ?_) (fun _ => ?_) | with_reducible refine ite_of (fun s : gameSession => VotesWellFormed s) _ _ _ (fun _ => ?_) (fun _ => ?_))
    | split)

theorem devSkipRound_wf (g : gameSession) (a : String) (now : Int)
    (h : VotesWellFormed g) : VotesWellFormed (devSkipRound g a now).1 := by
  unfold devSkipRound
  dsimp only
  repeat' (first
    | with_reducible exact h
    | with_reducible refine ite_of (fun r => VotesWellFormed (Prod.fst r : gameSession)) _ _ _ (fun _ => ?_) (fun _ => ?_)
    | with_reducible refine ite_of (fun s : gameSession => VotesWellFormed s) _ _ _ (fun _ => ?_) (fun _ => ?_)
    | with_reducible refine advanceAfterDiscussion_wf _ _ ?_
    | with_reducible exact flagged_nil
    | with_reducible refine flagged_mapSet _ _ _ ?_ ?_
    | with_reducible refine flagged_mapDel _ _ ?_
    | with_reducible refine currentVoteSource_flagged _ ?_
    | with_reducible refine finalizeSource_flagged _ ?_
    | with_reducible exact fun _ => rfl
    | with_reducible exact fun hh => Bool.noConfusion hh
    | with_reducible refine VotesWellFormed.votes ?_
    | with_reducible refine VotesWellFormed.base ?_
    | with_reducible refine VotesWellFormed.results ?_
    | (with_reducible refine wf_of_same _ _ (by with_reducible (conv => lhs; whnf); exact rfl) (by with_reducible rfl) (by with_reducible rfl) ?_; first | with_reducible exact h | with_reducible refine advanceAfterDiscussion_wf _ _ ?_ | with_reducible refine ite_of (fun r => VotesWellFormed (Prod.fst r : gameSession)) _ _ _ (fun _ => ?_) (fun _ => ?_) | with_reducible refine ite_of (fun s : gameSession => VotesWellFormed s) _ _ _ (fun _ => ?_) (fun _ => ?_))
    | (with_reducible refine VotesWellFormed.mk ?_ ?_ ?_ <;> with_reducible (conv => arg 1; whnf) <;> first | with_reducible exact flagged_nil | with_reducible refine flagged_mapSet _ _ _ ?_ ?_ | with_reducible refine flagged_mapDel _ _ ?_ | with_reducible refine currentVoteSource_flagged _ ?_ | with_reducible refine finalizeSource_flagged _ ?_ | (first | with_reducible refine VotesWellFormed.votes ?_ | with_reducible refine VotesWellFormed.base ?_ | with_reducible refine VotesWellFormed.results ?_); first | with_reducible exact h | with_reducible refine advanceAfterDiscussion_wf _ _ ?_ | with_reducible refine ite_of (fun r => VotesWellFormed (Prod.fst r : gameSession)) _ _ _ (fun _ => ?_) (fun _ => ?_) | with_reducible refine ite_of (fun s : gameSession => VotesWellFormed s) _ _ _ (fun _ => ?_) (fun _ => ?_))
    | split)

theorem devHandleAction_wf (g : gameSession) (actorID actionType : String)
    (payload : GoMap AnyVal) (now : Int) (h : VotesWellFormed g) :
    VotesWellFormed (devHandleAction g actorID actionType payload now).1 := by
  have hcore : VotesWellFormed
      (postProcess (handleAction g actorID actionType payload now).1
        (handleAction g actorID actionType payload now).2 now).1 :=
    postProcess_wf _ _ _ (handleAction_wf g actorID actionType payload now h)
  unfold devHandleAction
  dsimp only
  repeat' (first
    | with_reducible exact hcore
    | with_reducible exact h
    | with_reducible exact postProcess_wf _ _ _ (devSkipRound_wf _ _ _ h)
    | with_reducible exact postProcess_wf _ _ _ (devMarkLeftBunker_wf _ _ _ h)
    | with_reducible refine ite_of (fun r => VotesWellFormed (Prod.fst r : gameSession)) _ _ _ (fun _ => ?_) (fun _ => ?_)
    | split)

theorem devHandleTimerExpired_wf (g : gameSession) (now : Int) (h : VotesWellFormed g) :
    VotesWellFormed (devHandleTimerExpired g now).1 :=
  postProcess_wf _ _ _ (handleTimerExpired_wf g now h)

/-! ## Vote records: the sessions a room holds -/

theorem addRosterPlayer_wf (g : gameSession) (rp : player) (h : VotesWellFormed g) :
    VotesWellFormed (addRosterPlayer g rp) := by
  have h2 := drawInitialHandForPlayer_wf g rp.ID h
  unfold addRosterPlayer
  dsimp only
  with_reducible exact ⟨h2.votes, h2.base, h2.results⟩

theorem assignInitialSpecials_wf (g : gameSession) (h : VotesWellFormed g) :
    VotesWellFormed (assignInitialSpecials g) := by
  unfold assignInitialSpecials
  split
  · exact h
  · dsimp only
    refine foldl_holds _ VotesWellFormed _ ?_ _ h
    intro s a _ hs
    dsimp only
    split
    · exact hs
    · have h2 := assignInitialSpecialsForPlayer_wf s a (buildSpecialAssetLookup g) hs
      with_reducible exact ⟨h2.votes, h2.base, h2.results⟩

/-- The session that `newGameSession` creates holds no vote record, so no flagged record
that names a target. -/
theorem newGameSession_wf (roomCode hostID scenarioID : String) (settings : gameSettings)
    (ruleset : gameRuleset) (roomPlayers : List player) (assets : GoMap (List assetCard))
    (specialDefinitions : List specialDefinition) (rng : List Nat) (now : Int) :
    VotesWellFormed (newGameSession roomCode hostID scenarioID settings ruleset roomPlayers
      assets specialDefinitions rng now) := by
  unfold newGameSession
  dsimp only
  refine scheduleRevealTimeoutIfNeeded_wf _ _ ?_
  refine wf_of_same (revealNextBunkerCard _ _) _ rfl rfl rfl ?_
  refine revealNextBunkerCard_wf _ _ ?_
  refine wf_of_same (assignInitialSpecials _) _ rfl rfl rfl ?_
  refine assignInitialSpecials_wf _ ?_
  refine foldl_holds addRosterPlayer VotesWellFormed _
    (fun s a _ hs => addRosterPlayer_wf s a hs) _ ?_
  exact ⟨flagged_nil, flagged_nil, flagged_nil⟩

/-- Every state of a room's session holds no flagged vote record that names a target, if the
first state holds none. -/
theorem serverRun_wf (g0 g : gameSession) (h : ServerRun g0 g) (h0 : VotesWellFormed g0) :
    VotesWellFormed g := by
  induction h with
  | start => exact h0
  | action g actorID actionType payload now _ _ ih =>
    exact handleAction_wf g actorID actionType payload now ih
  | timer g now _ _ ih => exact handleTimerExpired_wf g now ih
  | devAction g actorID actionType payload now _ _ ih =>
    exact devHandleAction_wf g actorID actionType payload now ih
  | devTimer g now _ _ ih => exact devHandleTimerExpired_wf g now ih
  | host g hostID _ ih => exact ⟨ih.votes, ih.base, ih.results⟩



/-- A run of the core session that starts in a session that is not a dev session is a run
of the session that a room holds. -/
theorem serverRun_of_reachable (g0 g : gameSession) (h : ReachableFrom g0 g)
    (hd : g0.IsDev = false) : ServerRun g0 g ∧ g.IsDev = false := by
  induction h with
  | start => exact ⟨ServerRun.start, hd⟩
  | action g actorID actionType payload now _ ih =>
    exact ⟨ServerRun.action g actorID actionType payload now ih.1 ih.2,
      handleAction_IsDev g actorID actionType payload now ih.2⟩
  | timer g now _ ih =>
    exact ⟨ServerRun.timer g now ih.1 ih.2, (handleTimerExpired_IsDev g now).trans ih.2⟩

/-- Claim C3.  In every state `g` of the session that a room holds, that is, in every state
that the session made by `newGameSession` reaches by the calls of the server (`ServerRun`),
and for every source that the session passes to `buildEffectiveVotes` (`currentVoteSource`,
the source of `finalizeVoting`, and so each of the maps `Votes`, `BaseVotes` and
`VoteResults`), `buildEffectiveVotes` follows the rule of the claim for every player of
`Order`: no submitted record gives `not_voted` with weight 0; a record whose voter is in
`VoteDisabled`, or whose non-empty target is in `RevoteDisallow`, is not in `VoteCandidates`
or has banned the voter, gives `invalid` with weight 0; a record with an empty target and a
voter who is not disabled gives `not_voted` with weight 0; otherwise the status is `voted`
and the weight is the voter's positive `VoteWeights` override, else 1, doubled when the
target equals `DoubleAgainst`.  The reason is the record's own reason, else the disable or
rejection reason; a counted vote keeps the record's target and every other vote has the
empty target.  (The records of these maps are written by `vote` and `autoVoteBots`, with
`IsValid = true`, and by `markVoteWasted`, with the empty target, so that the test of
`IsValid` in the code never decides.) -/
theorem effective_votes_follow_rule (roomCode hostID scenarioID : String)
    (settings : gameSettings) (ruleset : gameRuleset) (roomPlayers : List player)
    (assets : GoMap (List assetCard)) (specialDefinitions : List specialDefinition)
    (rng : List Nat) (now0 : Int) (g : gameSession) (source : GoMap voteRecord) (id : String)
    (hrun : ServerRun (newGameSession roomCode hostID scenarioID settings ruleset roomPlayers
      assets specialDefinitions rng now0) g)
    (hsource : source = currentVoteSource g ∨ source = finalizeSource g ∨ source = g.Votes ∨
      source = g.BaseVotes ∨ source = g.VoteResults)
    (hOrder : id ∈ g.Order) (hPlayer : mapHas g.Players id = true) :
    ∃ e, mapGet? (buildEffectiveVotes g source) id = some e ∧
      (e.Status, e.Weight) = claimedEffectiveVote g source id ∧
      e.ReasonText = (match mapGet? source id with
                      | none => ""
                      | some record => invalidReason g id record) ∧
      e.TargetID = (match mapGet? source id with
                    | none => ""
                    | some record => if e.Status = "voted" then record.TargetID else "") := by
  have hwf : VotesWellFormed g :=
    serverRun_wf _ g hrun (newGameSession_wf roomCode hostID scenarioID settings ruleset
      roomPlayers assets specialDefinitions rng now0)
  have hfl : flaggedWithoutTarget source := by
    rcases hsource with e | e | e | e | e
    · rw [e]
      exact currentVoteSource_flagged g hwf
    · rw [e]
      exact finalizeSource_flagged g hwf
    · rw [e]
      exact hwf.votes
    · rw [e]
      exact hwf.base
    · rw [e]
      exact hwf.results
  rw [← guarded_eq_claimed g source id hfl]
  exact effective_votes_follow_guarded_rule g source id hOrder hPlayer

set_option maxRecDepth 100000 in
/-- Witness of `effective_votes_follow_rule`: in the classic session of four players, after
every player has revealed a card and `p1` has voted for `p2`, the effective vote of `p1` is
counted with weight 1 and that of `p2`, who has not voted, is `not_voted`. -/
theorem effective_votes_follow_rule_witness :
    (∃ e, mapGet? (buildEffectiveVotes exampleBallot exampleBallot.Votes) "p1" = some e ∧
      (e.Status, e.Weight) = claimedEffectiveVote exampleBallot exampleBallot.Votes "p1" ∧
      e.ReasonText = (match mapGet? exampleBallot.Votes "p1" with
                      | none => ""
                      | some record => invalidReason exampleBallot "p1" record) ∧
      e.TargetID = (match mapGet? exampleBallot.Votes "p1" with
                    | none => ""
                    | some record => if e.Status = "voted" then record.TargetID else "")) ∧
      claimedEffectiveVote exampleBallot exampleBallot.Votes "p1" = ("voted", 1) ∧
      claimedEffectiveVote exampleBallot exampleBallot.Votes "p2" = ("not_voted", 0) :=
  ⟨effective_votes_follow_rule "ROOM" "p1" "classic" exampleSettings exampleQuotaRuleset
      [{ ID := "p1", Name := "A" }, { ID := "p2", Name := "B" }, { ID := "p3", Name := "C" },
       { ID := "p4", Name := "D" }] [] [] [] 0 exampleBallot exampleBallot.Votes "p1"
      (serverRun_of_reachable exampleQuotaStart exampleBallot
        (ReachableFrom.action _ "p1" "vote" (targetPayload "p2") 9
          (ReachableFrom.action _ "p1" "continueRound" [] 8
            (ReachableFrom.action _ "p4" "revealCard" (cardPayload "p4-22") 7
              (ReachableFrom.action _ "p1" "continueRound" [] 6
                (ReachableFrom.action _ "p3" "revealCard" (cardPayload "p3-15") 5
                  (ReachableFrom.action _ "p1" "continueRound" [] 4
                    (ReachableFrom.action _ "p2" "revealCard" (cardPayload "p2-8") 3
                      (ReachableFrom.action _ "p1" "continueRound" [] 2
                        (ReachableFrom.action _ "p1" "revealCard" (cardPayload "p1-1") 1
                          ReachableFrom.start)))))))))
        (by decide)).1
      (Or.inr (Or.inr (Or.inl rfl))) (by decide) (by decide),
    by decide, by decide⟩



/-! ## The ruleset is left alone -/

theorem ite_fst_Ruleset {β : Type} (c : Prop) [Decidable c] (a b : gameSession × β)
    (v : gameRuleset) (ha : a.1.Ruleset = v) (hb : b.1.Ruleset = v) :
    (if c then a else b).1.Ruleset = v := by
  split
  · exact ha
  · exact hb

theorem ite_Ruleset (c : Prop) [Decidable c] (a b : gameSession) (v : gameRuleset)
    (ha : a.Ruleset = v) (hb : b.Ruleset = v) : (if c then a else b).Ruleset = v := by
  split
  · exact ha
  · exact hb

theorem schedulePhaseTimer_Ruleset (g : gameSession) (k : String) (s now : Int) :
    (schedulePhaseTimer g k s now).Ruleset = g.Ruleset := by
  unfold schedulePhaseTimer
  split <;> rfl

theorem scheduleRevealTimeoutIfNeeded_Ruleset (g : gameSession) (now : Int) :
    (scheduleRevealTimeoutIfNeeded g now).Ruleset = g.Ruleset := by
  unfold scheduleRevealTimeoutIfNeeded
  repeat' split
  all_goals first | rfl | exact schedulePhaseTimer_Ruleset _ _ _ _

theorem revealNextBunkerCard_Ruleset (g : gameSession) (round : Int) :
    (revealNextBunkerCard g round).Ruleset = g.Ruleset := by
  unfold revealNextBunkerCard
  split <;> rfl

theorem startVotingStep_Ruleset (now : Int) (g : gameSession) (e : String × gamePlayer) :
    (startVotingStep now g e).Ruleset = g.Ruleset := by
  unfold startVotingStep
  repeat' split
  all_goals rfl

theorem startVoting_Ruleset (g : gameSession) (now : Int) :
    (startVoting g now).Ruleset = g.Ruleset := by
  unfold startVoting
  dsimp only
  exact (foldl_keeps _ (fun s : gameSession => s.Ruleset)
    (startVotingStep_Ruleset now) _ _).trans rfl

theorem passTurnFrom_Ruleset (g : gameSession) (id : String) :
    (passTurnFrom g id).Ruleset = g.Ruleset := by
  unfold passTurnFrom
  split <;> rfl

theorem revealWorldThreat_Ruleset (g : gameSession) (a : String) (i : Int) :
    (revealWorldThreat g a i).1.Ruleset = g.Ruleset := by
  unfold revealWorldThreat
  repeat' split
  all_goals rfl

theorem setBunkerOutcome_Ruleset (g : gameSession) (a o : String) (now : Int) :
    (setBunkerOutcome g a o now).1.Ruleset = g.Ruleset := by
  unfold setBunkerOutcome
  repeat' split
  all_goals rfl

theorem resetVotesForRevote_Ruleset (g : gameSession) (now : Int) :
    (resetVotesForRevote g now).Ruleset = g.Ruleset := by
  unfold resetVotesForRevote
  dsimp only
  exact (foldl_keeps (fun acc voterID => markVoteWasted acc voterID "Голос потрачен." now)
    (fun s : gameSession => s.Ruleset) (fun _ _ => rfl) _ _).trans rfl

theorem startTieBreakRevote_Ruleset (g : gameSession) (c : List String) (now : Int) :
    (startTieBreakRevote g c now).Ruleset = g.Ruleset := by
  unfold startTieBreakRevote
  dsimp only [clearActiveTimer]
  rw [resetVotesForRevote_Ruleset]

theorem handleOnOwnerEliminated_Ruleset (g : gameSession) (id : String) :
    (handleOnOwnerEliminated g id).Ruleset = g.Ruleset := by
  unfold handleOnOwnerEliminated
  split <;> rfl

theorem handleSecretEliminationTriggers_Ruleset (g : gameSession) (id : String) :
    (handleSecretEliminationTriggers g id).Ruleset = g.Ruleset := by
  unfold handleSecretEliminationTriggers
  dsimp only
  generalize computeAgeExtremes g = ages
  generalize g.Order = order
  induction order generalizing g with
  | nil => rfl
  | cons a t ih => rw [List.foldl_cons, ih]

theorem startNextRoundOrEnd_Ruleset (g : gameSession) (now : Int) :
    (startNextRoundOrEnd g now).1.Ruleset = g.Ruleset := by
  unfold startNextRoundOrEnd
  dsimp only [makeEvent, clearActiveTimer, removeFromVoting, markSpecialUsed, modifyCard,
    markVoteWasted]
  repeat' (first
    | with_reducible rfl
    | with_reducible refine ite_fst_Ruleset _ _ _ _ ?_ ?_
    | with_reducible refine ite_Ruleset _ _ _ _ ?_ ?_
    | with_reducible refine (finishGame_Ruleset _ _ _).trans ?_
    | with_reducible refine (passTurnFrom_Ruleset _ _).trans ?_
    | with_reducible refine (schedulePhaseTimer_Ruleset _ _ _ _).trans ?_
    | with_reducible refine (scheduleRevealTimeoutIfNeeded_Ruleset _ _).trans ?_
    | with_reducible refine (revealNextBunkerCard_Ruleset _ _).trans ?_
    | with_reducible refine (startVoting_Ruleset _ _).trans ?_
    | with_reducible refine (resetVotesForRevote_Ruleset _ _).trans ?_
    | with_reducible refine (startTieBreakRevote_Ruleset _ _ _).trans ?_
    | with_reducible refine (handleOnOwnerEliminated_Ruleset _ _).trans ?_
    | with_reducible refine (handleSecretEliminationTriggers_Ruleset _ _).trans ?_
    | split)

theorem enterRevealDiscussion_Ruleset (g : gameSession) (now : Int) :
    (enterRevealDiscussion g now).Ruleset = g.Ruleset := by
  unfold enterRevealDiscussion
  dsimp only [makeEvent, clearActiveTimer, removeFromVoting, markSpecialUsed, modifyCard,
    markVoteWasted]
  repeat' (first
    | with_reducible rfl
    | with_reducible refine ite_fst_Ruleset _ _ _ _ ?_ ?_
    | with_reducible refine ite_Ruleset _ _ _ _ ?_ ?_
    | with_reducible refine (finishGame_Ruleset _ _ _).trans ?_
    | with_reducible refine (passTurnFrom_Ruleset _ _).trans ?_
    | with_reducible refine (schedulePhaseTimer_Ruleset _ _ _ _).trans ?_
    | with_reducible refine (scheduleRevealTimeoutIfNeeded_Ruleset _ _).trans ?_
    | with_reducible refine (revealNextBunkerCard_Ruleset _ _).trans ?_
    | with_reducible refine (startVoting_Ruleset _ _).trans ?_
    | with_reducible refine (resetVotesForRevote_Ruleset _ _).trans ?_
    | with_reducible refine (startTieBreakRevote_Ruleset _ _ _).trans ?_
    | with_reducible refine (handleOnOwnerEliminated_Ruleset _ _).trans ?_
    | with_reducible refine (handleSecretEliminationTriggers_Ruleset _ _).trans ?_
    | with_reducible refine (startNextRoundOrEnd_Ruleset _ _).trans ?_
    | split)

theorem enterVoteSpecialWindow_Ruleset (g : gameSession) (now : Int) :
    (enterVoteSpecialWindow g now).1.Ruleset = g.Ruleset := by
  unfold enterVoteSpecialWindow
  dsimp only [makeEvent, clearActiveTimer, removeFromVoting, markSpecialUsed, modifyCard,
    markVoteWasted]
  repeat' (first
    | with_reducible rfl
    | with_reducible refine ite_fst_Ruleset _ _ _ _ ?_ ?_
    | with_reducible refine ite_Ruleset _ _ _ _ ?_ ?_
    | with_reducible refine (finishGame_Ruleset _ _ _).trans ?_
    | with_reducible refine (passTurnFrom_Ruleset _ _).trans ?_
    | with_reducible refine (schedulePhaseTimer_Ruleset _ _ _ _).trans ?_
    | with_reducible refine (scheduleRevealTimeoutIfNeeded_Ruleset _ _).trans ?_
    | with_reducible refine (revealNextBunkerCard_Ruleset _ _).trans ?_
    | with_reducible refine (startVoting_Ruleset _ _).trans ?_
    | with_reducible refine (resetVotesForRevote_Ruleset _ _).trans ?_
    | with_reducible refine (startTieBreakRevote_Ruleset _ _ _).trans ?_
    | with_reducible refine (handleOnOwnerEliminated_Ruleset _ _).trans ?_
    | with_reducible refine (handleSecretEliminationTriggers_Ruleset _ _).trans ?_
    | with_reducible refine (startNextRoundOrEnd_Ruleset _ _).trans ?_
    | with_reducible refine (enterRevealDiscussion_Ruleset _ _).trans ?_
    | split)

theorem vote_Ruleset (g : gameSession) (a t : String) (now : Int) :
    (vote g a t now).1.Ruleset = g.Ruleset := by
  unfold vote
  dsimp only [makeEvent, clearActiveTimer, removeFromVoting, markSpecialUsed, modifyCard,
    markVoteWasted]
  repeat' (first
    | with_reducible rfl
    | with_reducible refine ite_fst_Ruleset _ _ _ _ ?_ ?_
    | with_reducible refine ite_Ruleset _ _ _ _ ?_ ?_
    | with_reducible refine (finishGame_Ruleset _ _ _).trans ?_
    | with_reducible refine (passTurnFrom_Ruleset _ _).trans ?_
    | with_reducible refine (schedulePhaseTimer_Ruleset _ _ _ _).trans ?_
    | with_reducible refine (scheduleRevealTimeoutIfNeeded_Ruleset _ _).trans ?_
    | with_reducible refine (revealNextBunkerCard_Ruleset _ _).trans ?_
    | with_reducible refine (startVoting_Ruleset _ _).trans ?_
    | with_reducible refine (resetVotesForRevote_Ruleset _ _).trans ?_
    | with_reducible refine (startTieBreakRevote_Ruleset _ _ _).trans ?_
    | with_reducible refine (handleOnOwnerEliminated_Ruleset _ _).trans ?_
    | with_reducible refine (handleSecretEliminationTriggers_Ruleset _ _).trans ?_
    | with_reducible refine (startNextRoundOrEnd_Ruleset _ _).trans ?_
    | with_reducible refine (enterRevealDiscussion_Ruleset _ _).trans ?_
    | with_reducible refine (enterVoteSpecialWindow_Ruleset _ _).trans ?_
    | split)

theorem applyElimination_Ruleset (g : gameSession) (t : String) :
    (applyElimination g t).Ruleset = g.Ruleset := by
  unfold applyElimination
  dsimp only [makeEvent, clearActiveTimer, removeFromVoting, markSpecialUsed, modifyCard,
    markVoteWasted]
  repeat' (first
    | with_reducible rfl
    | with_reducible refine ite_fst_Ruleset _ _ _ _ ?_ ?_
    | with_reducible refine ite_Ruleset _ _ _ _ ?_ ?_
    | with_reducible refine (finishGame_Ruleset _ _ _).trans ?_
    | with_reducible refine (passTurnFrom_Ruleset _ _).trans ?_
    | with_reducible refine (schedulePhaseTimer_Ruleset _ _ _ _).trans ?_
    | with_reducible refine (scheduleRevealTimeoutIfNeeded_Ruleset _ _).trans ?_
    | with_reducible refine (revealNextBunkerCard_Ruleset _ _).trans ?_
    | with_reducible refine (startVoting_Ruleset _ _).trans ?_
    | with_reducible refine (resetVotesForRevote_Ruleset _ _).trans ?_
    | with_reducible refine (startTieBreakRevote_Ruleset _ _ _).trans ?_
    | with_reducible refine (handleOnOwnerEliminated_Ruleset _ _).trans ?_
    | with_reducible refine (handleSecretEliminationTriggers_Ruleset _ _).trans ?_
    | with_reducible refine (startNextRoundOrEnd_Ruleset _ _).trans ?_
    | with_reducible refine (enterRevealDiscussion_Ruleset _ _).trans ?_
    | with_reducible refine (enterVoteSpecialWindow_Ruleset _ _).trans ?_
    | with_reducible refine (vote_Ruleset _ _ _ _).trans ?_
    | split)

theorem finalizeVoting_Ruleset (g : gameSession) (a : String) (now : Int) :
    (finalizeVoting g a now).1.Ruleset = g.Ruleset := by
  unfold finalizeVoting
  dsimp only [makeEvent, clearActiveTimer, removeFromVoting, markSpecialUsed, modifyCard,
    markVoteWasted]
  repeat' (first
    | with_reducible rfl
    | with_reducible refine ite_fst_Ruleset _ _ _ _ ?_ ?_
    | with_reducible refine ite_Ruleset _ _ _ _ ?_ ?_
    | with_reducible refine (finishGame_Ruleset _ _ _).trans ?_
    | with_reducible refine (passTurnFrom_Ruleset _ _).trans ?_
    | with_reducible refine (schedulePhaseTimer_Ruleset _ _ _ _).trans ?_
    | with_reducible refine (scheduleRevealTimeoutIfNeeded_Ruleset _ _).trans ?_
    | with_reducible refine (revealNextBunkerCard_Ruleset _ _).trans ?_
    | with_reducible refine (startVoting_Ruleset _ _).trans ?_
    | with_reducible refine (resetVotesForRevote_Ruleset _ _).trans ?_
    | with_reducible refine (startTieBreakRevote_Ruleset _ _ _).trans ?_
    | with_reducible refine (handleOnOwnerEliminated_Ruleset _ _).trans ?_
    | with_reducible refine (handleSecretEliminationTriggers_Ruleset _ _).trans ?_
    | with_reducible refine (startNextRoundOrEnd_Ruleset _ _).trans ?_
    | with_reducible refine (enterRevealDiscussion_Ruleset _ _).trans ?_
    | with_reducible refine (enterVoteSpecialWindow_Ruleset _ _).trans ?_
    | with_reducible refine (vote_Ruleset _ _ _ _).trans ?_
    | with_reducible refine (applyElimination_Ruleset _ _).trans ?_
    | split)

theorem advanceAfterDiscussion_Ruleset (g : gameSession) (now : Int) :
    (advanceAfterDiscussion g now).1.Ruleset = g.Ruleset := by
  unfold advanceAfterDiscussion
  dsimp only [makeEvent, clearActiveTimer, removeFromVoting, markSpecialUsed, modifyCard,
    markVoteWasted]
  repeat' (first
    | with_reducible rfl
    | with_reducible refine ite_fst_Ruleset _ _ _ _ ?_ ?_
    | with_reducible refine ite_Ruleset _ _ _ _ ?_ ?_
    | with_reducible refine (finishGame_Ruleset _ _ _).trans ?_
    | with_reducible refine (passTurnFrom_Ruleset _ _).trans ?_
    | with_reducible refine (schedulePhaseTimer_Ruleset _ _ _ _).trans ?_
    | with_reducible refine (scheduleRevealTimeoutIfNeeded_Ruleset _ _).trans ?_
    | with_reducible refine (revealNextBunkerCard_Ruleset _ _).trans ?_
    | with_reducible refine (startVoting_Ruleset _ _).trans ?_
    | with_reducible refine (resetVotesForRevote_Ruleset _ _).trans ?_
    | with_reducible refine (startTieBreakRevote_Ruleset _ _ _).trans ?_
    | with_reducible refine (handleOnOwnerEliminated_Ruleset _ _).trans ?_
    | with_reducible refine (handleSecretEliminationTriggers_Ruleset _ _).trans ?_
    | with_reducible refine (startNextRoundOrEnd_Ruleset _ _).trans ?_
    | with_reducible refine (enterRevealDiscussion_Ruleset _ _).trans ?_
    | with_reducible refine (enterVoteSpecialWindow_Ruleset _ _).trans ?_
    | with_reducible refine (vote_Ruleset _ _ _ _).trans ?_
    | with_reducible refine (applyElimination_Ruleset _ _).trans ?_
    | with_reducible refine (finalizeVoting_Ruleset _ _ _).trans ?_
    | split)

theorem continueRound_Ruleset (g : gameSession) (a : String) (now : Int) :
    (continueRound g a now).1.Ruleset = g.Ruleset := by
  unfold continueRound
  dsimp only [makeEvent, clearActiveTimer, removeFromVoting, markSpecialUsed, modifyCard,
    markVoteWasted]
  repeat' (first
    | with_reducible rfl
    | with_reducible refine ite_fst_Ruleset _ _ _ _ ?_ ?_
    | with_reducible refine ite_Ruleset _ _ _ _ ?_ ?_
    | with_reducible refine (finishGame_Ruleset _ _ _).trans ?_
    | with_reducible refine (passTurnFrom_Ruleset _ _).trans ?_
    | with_reducible refine (schedulePhaseTimer_Ruleset _ _ _ _).trans ?_
    | with_reducible refine (scheduleRevealTimeoutIfNeeded_Ruleset _ _).trans ?_
    | with_reducible refine (revealNextBunkerCard_Ruleset _ _).trans ?_
    | with_reducible refine (startVoting_Ruleset _ _).trans ?_
    | with_reducible refine (resetVotesForRevote_Ruleset _ _).trans ?_
    | with_reducible refine (startTieBreakRevote_Ruleset _ _ _).trans ?_
    | with_reducible refine (handleOnOwnerEliminated_Ruleset _ _).trans ?_
    | with_reducible refine (handleSecretEliminationTriggers_Ruleset _ _).trans ?_
    | with_reducible refine (startNextRoundOrEnd_Ruleset _ _).trans ?_
    | with_reducible refine (enterRevealDiscussion_Ruleset _ _).trans ?_
    | with_reducible refine (enterVoteSpecialWindow_Ruleset _ _).trans ?_
    | with_reducible refine (vote_Ruleset _ _ _ _).trans ?_
    | with_reducible refine (applyElimination_Ruleset _ _).trans ?_
    | with_reducible refine (finalizeVoting_Ruleset _ _ _).trans ?_
    | with_reducible refine (advanceAfterDiscussion_Ruleset _ _).trans ?_
    | split)

theorem kickPlayer_Ruleset (g : gameSession) (t : String) (now : Int) :
    (kickPlayer g t now).1.Ruleset = g.Ruleset := by
  unfold kickPlayer
  dsimp only [makeEvent, clearActiveTimer, removeFromVoting, markSpecialUsed, modifyCard,
    markVoteWasted]
  repeat' (first
    | with_reducible rfl
    | with_reducible refine ite_fst_Ruleset _ _ _ _ ?_ ?_
    | with_reducible refine ite_Ruleset _ _ _ _ ?_ ?_
    | with_reducible refine (finishGame_Ruleset _ _ _).trans ?_
    | with_reducible refine (passTurnFrom_Ruleset _ _).trans ?_
    | with_reducible refine (schedulePhaseTimer_Ruleset _ _ _ _).trans ?_
    | with_reducible refine (scheduleRevealTimeoutIfNeeded_Ruleset _ _).trans ?_
    | with_reducible refine (revealNextBunkerCard_Ruleset _ _).trans ?_
    | with_reducible refine (startVoting_Ruleset _ _).trans ?_
    | with_reducible refine (resetVotesForRevote_Ruleset _ _).trans ?_
    | with_reducible refine (startTieBreakRevote_Ruleset _ _ _).trans ?_
    | with_reducible refine (handleOnOwnerEliminated_Ruleset _ _).trans ?_
    | with_reducible refine (handleSecretEliminationTriggers_Ruleset _ _).trans ?_
    | with_reducible refine (startNextRoundOrEnd_Ruleset _ _).trans ?_
    | with_reducible refine (enterRevealDiscussion_Ruleset _ _).trans ?_
    | with_reducible refine (enterVoteSpecialWindow_Ruleset _ _).trans ?_
    | with_reducible refine (vote_Ruleset _ _ _ _).trans ?_
    | with_reducible refine (applyElimination_Ruleset _ _).trans ?_
    | with_reducible refine (finalizeVoting_Ruleset _ _ _).trans ?_
    | with_reducible refine (advanceAfterDiscussion_Ruleset _ _).trans ?_
    | with_reducible refine (continueRound_Ruleset _ _ _).trans ?_
    | split)

theorem markLeftBunker_Ruleset (g : gameSession) (t : String) (now : Int) :
    (markLeftBunker g t now).1.Ruleset = g.Ruleset := by
  unfold markLeftBunker
  dsimp only [makeEvent, clearActiveTimer, removeFromVoting, markSpecialUsed, modifyCard,
    markVoteWasted]
  repeat' (first
    | with_reducible rfl
    | with_reducible refine ite_fst_Ruleset _ _ _ _ ?_ ?_
    | with_reducible refine ite_Ruleset _ _ _ _ ?_ ?_
    | with_reducible refine (finishGame_Ruleset _ _ _).trans ?_
    | with_reducible refine (passTurnFrom_Ruleset _ _).trans ?_
    | with_reducible refine (schedulePhaseTimer_Ruleset _ _ _ _).trans ?_
    | with_reducible refine (scheduleRevealTimeoutIfNeeded_Ruleset _ _).trans ?_
    | with_reducible refine (revealNextBunkerCard_Ruleset _ _).trans ?_
    | with_reducible refine (startVoting_Ruleset _ _).trans ?_
    | with_reducible refine (resetVotesForRevote_Ruleset _ _).trans ?_
    | with_reducible refine (startTieBreakRevote_Ruleset _ _ _).trans ?_
    | with_reducible refine (handleOnOwnerEliminated_Ruleset _ _).trans ?_
    | with_reducible refine (handleSecretEliminationTriggers_Ruleset _ _).trans ?_
    | with_reducible refine (startNextRoundOrEnd_Ruleset _ _).trans ?_
    | with_reducible refine (enterRevealDiscussion_Ruleset _ _).trans ?_
    | with_reducible refine (enterVoteSpecialWindow_Ruleset _ _).trans ?_
    | with_reducible refine (vote_Ruleset _ _ _ _).trans ?_
    | with_reducible refine (applyElimination_Ruleset _ _).trans ?_
    | with_reducible refine (finalizeVoting_Ruleset _ _ _).trans ?_
    | with_reducible refine (advanceAfterDiscussion_Ruleset _ _).trans ?_
    | with_reducible refine (continueRound_Ruleset _ _ _).trans ?_
    | with_reducible refine (kickPlayer_Ruleset _ _ _).trans ?_
    | split)

theorem revealCard_Ruleset (g : gameSession) (a c : String) (now : Int) :
    (revealCard g a c now).1.Ruleset = g.Ruleset := by
  unfold revealCard
  dsimp only [makeEvent, clearActiveTimer, removeFromVoting, markSpecialUsed, modifyCard,
    markVoteWasted]
  repeat' (first
    | with_reducible rfl
    | with_reducible refine ite_fst_Ruleset _ _ _ _ ?_ ?_
    | with_reducible refine ite_Ruleset _ _ _ _ ?_ ?_
    | with_reducible refine (finishGame_Ruleset _ _ _).trans ?_
    | with_reducible refine (passTurnFrom_Ruleset _ _).trans ?_
    | with_reducible refine (schedulePhaseTimer_Ruleset _ _ _ _).trans ?_
    | with_reducible refine (scheduleRevealTimeoutIfNeeded_Ruleset _ _).trans ?_
    | with_reducible refine (revealNextBunkerCard_Ruleset _ _).trans ?_
    | with_reducible refine (startVoting_Ruleset _ _).trans ?_
    | with_reducible refine (resetVotesForRevote_Ruleset _ _).trans ?_
    | with_reducible refine (startTieBreakRevote_Ruleset _ _ _).trans ?_
    | with_reducible refine (handleOnOwnerEliminated_Ruleset _ _).trans ?_
    | with_reducible refine (handleSecretEliminationTriggers_Ruleset _ _).trans ?_
    | with_reducible refine (startNextRoundOrEnd_Ruleset _ _).trans ?_
    | with_reducible refine (enterRevealDiscussion_Ruleset _ _).trans ?_
    | with_reducible refine (enterVoteSpecialWindow_Ruleset _ _).trans ?_
    | with_reducible refine (vote_Ruleset _ _ _ _).trans ?_
    | with_reducible refine (applyElimination_Ruleset _ _).trans ?_
    | with_reducible refine (finalizeVoting_Ruleset _ _ _).trans ?_
    | with_reducible refine (advanceAfterDiscussion_Ruleset _ _).trans ?_
    | with_reducible refine (continueRound_Ruleset _ _ _).trans ?_
    | with_reducible refine (kickPlayer_Ruleset _ _ _).trans ?_
    | with_reducible refine (markLeftBunker_Ruleset _ _ _).trans ?_
    | split)

theorem handleRevealPhaseTimeout_Ruleset (g : gameSession) (now : Int) :
    (handleRevealPhaseTimeout g now).1.Ruleset = g.Ruleset := by
  unfold handleRevealPhaseTimeout
  dsimp only [makeEvent, clearActiveTimer, removeFromVoting, markSpecialUsed, modifyCard,
    markVoteWasted]
  repeat' (first
    | with_reducible rfl
    | with_reducible refine ite_fst_Ruleset _ _ _ _ ?_ ?_
    | with_reducible refine ite_Ruleset _ _ _ _ ?_ ?_
    | with_reducible refine (finishGame_Ruleset _ _ _).trans ?_
    | with_reducible refine (passTurnFrom_Ruleset _ _).trans ?_
    | with_reducible refine (schedulePhaseTimer_Ruleset _ _ _ _).trans ?_
    | with_reducible refine (scheduleRevealTimeoutIfNeeded_Ruleset _ _).trans ?_
    | with_reducible refine (revealNextBunkerCard_Ruleset _ _).trans ?_
    | with_reducible refine (startVoting_Ruleset _ _).trans ?_
    | with_reducible refine (resetVotesForRevote_Ruleset _ _).trans ?_
    | with_reducible refine (startTieBreakRevote_Ruleset _ _ _).trans ?_
    | with_reducible refine (handleOnOwnerEliminated_Ruleset _ _).trans ?_
    | with_reducible refine (handleSecretEliminationTriggers_Ruleset _ _).trans ?_
    | with_reducible refine (startNextRoundOrEnd_Ruleset _ _).trans ?_
    | with_reducible refine (enterRevealDiscussion_Ruleset _ _).trans ?_
    | with_reducible refine (enterVoteSpecialWindow_Ruleset _ _).trans ?_
    | with_reducible refine (vote_Ruleset _ _ _ _).trans ?_
    | with_reducible refine (applyElimination_Ruleset _ _).trans ?_
    | with_reducible refine (finalizeVoting_Ruleset _ _ _).trans ?_
    | with_reducible refine (advanceAfterDiscussion_Ruleset _ _).trans ?_
    | with_reducible refine (continueRound_Ruleset _ _ _).trans ?_
    | with_reducible refine (kickPlayer_Ruleset _ _ _).trans ?_
    | with_reducible refine (markLeftBunker_Ruleset _ _ _).trans ?_
    | with_reducible refine (revealCard_Ruleset _ _ _ _).trans ?_
    | split)

theorem handleTimerExpired_Ruleset (g : gameSession) (now : Int) :
    (handleTimerExpired g now).1.Ruleset = g.Ruleset := by
  unfold handleTimerExpired
  dsimp only [makeEvent, clearActiveTimer, removeFromVoting, markSpecialUsed, modifyCard,
    markVoteWasted]
  repeat' (first
    | with_reducible rfl
    | with_reducible refine ite_fst_Ruleset _ _ _ _ ?_ ?_
    | with_reducible refine ite_Ruleset _ _ _ _ ?_ ?_
    | with_reducible refine (finishGame_Ruleset _ _ _).trans ?_
    | with_reducible refine (passTurnFrom_Ruleset _ _).trans ?_
    | with_reducible refine (schedulePhaseTimer_Ruleset _ _ _ _).trans ?_
    | with_reducible refine (scheduleRevealTimeoutIfNeeded_Ruleset _ _).trans ?_
    | with_reducible refine (revealNextBunkerCard_Ruleset _ _).trans ?_
    | with_reducible refine (startVoting_Ruleset _ _).trans ?_
    | with_reducible refine (resetVotesForRevote_Ruleset _ _).trans ?_
    | with_reducible refine (startTieBreakRevote_Ruleset _ _ _).trans ?_
    | with_reducible refine (handleOnOwnerEliminated_Ruleset _ _).trans ?_
    | with_reducible refine (handleSecretEliminationTriggers_Ruleset _ _).trans ?_
    | with_reducible refine (startNextRoundOrEnd_Ruleset _ _).trans ?_
    | with_reducible refine (enterRevealDiscussion_Ruleset _ _).trans ?_
    | with_reducible refine (enterVoteSpecialWindow_Ruleset _ _).trans ?_
    | with_reducible refine (vote_Ruleset _ _ _ _).trans ?_
    | with_reducible refine (applyElimination_Ruleset _ _).trans ?_
    | with_reducible refine (finalizeVoting_Ruleset _ _ _).trans ?_
    | with_reducible refine (advanceAfterDiscussion_Ruleset _ _).trans ?_
    | with_reducible refine (continueRound_Ruleset _ _ _).trans ?_
    | with_reducible refine (kickPlayer_Ruleset _ _ _).trans ?_
    | with_reducible refine (markLeftBunker_Ruleset _ _ _).trans ?_
    | with_reducible refine (revealCard_Ruleset _ _ _ _).trans ?_
    | with_reducible refine (handleRevealPhaseTimeout_Ruleset _ _).trans ?_
    | split)



/-! ## The end test of `startNextRoundOrEnd` stays true -/

theorem aliveIDs_eq (g : gameSession) :
    aliveIDs g = g.Order.filter (fun id =>
      decide (mapGet? (playerStatuses g.Players) id = some playerAlive)) := by
  unfold aliveIDs
  refine List.filter_congr ?_
  intro id _
  have h := playerIsAlive_status g id
  cases ha : playerIsAlive g id
  · symm
    rw [decide_eq_false_iff_not]
    intro hc
    rw [h.2 hc] at ha
    exact Bool.noConfusion ha
  · symm
    rw [decide_eq_true_iff]
    exact h.1 ha

theorem alive_length_le (o o2 : List String) (st st2 : GoMap String) (ho : o2.Sublist o)
    (hs : ∀ id, mapGet? st2 id = some playerAlive → mapGet? st id = some playerAlive) :
    (o2.filter (fun id => decide (mapGet? st2 id = some playerAlive))).length ≤
      (o.filter (fun id => decide (mapGet? st id = some playerAlive))).length := by
  refine (List.Sublist.length_le (List.Sublist.filter _ ho)).trans ?_
  refine List.Sublist.length_le (List.monotone_filter_right o ?_)
  intro id hid
  rw [decide_eq_true_iff] at hid ⊢
  exact hs id hid

/-- A step of the core session that keeps the stored keys removes nobody from the exiles,
revives nobody and does not go back a round. -/
theorem PollStep_mono (r r2 : pollView) (h : PollStep r r2)
    (hk : r2.statuses.map Prod.fst = r.statuses.map Prod.fst) :
    r2.Order.Sublist r.Order ∧
      (∀ id, mapGet? r2.statuses id = some playerAlive →
        mapGet? r.statuses id = some playerAlive) ∧
      r.TotalExiles ≤ r2.TotalExiles ∧ r.Round ≤ r2.Round := by
  cases h with
  | still ho hs hr hv he hc =>
    rw [ho, hs, he, hr]
    exact ⟨List.Sublist.refl _, fun _ h => h, le_refl _, le_refl _⟩
  | advance ho hs hr hv he hc =>
    rw [ho, hs, he, hr]
    exact ⟨List.Sublist.refl _, fun _ h => h, le_refl _, by omega⟩
  | exit t s halive hs ho hst hr hv he hc =>
    have hne : s ≠ playerAlive := by
      rcases hs with hs | hs <;> rw [hs] <;> decide
    rw [ho, hst, he, hr]
    refine ⟨List.Sublist.refl _, ?_, by omega, le_refl _⟩
    intro id hid
    rw [mapGet?_mapModify] at hid
    by_cases hx : t = id
    · rw [if_pos hx] at hid
      rw [← hx]
      exact halive
    · rw [if_neg hx] at hid
      exact hid
  | relabel t hdead ho hst hr hv he hc =>
    rw [ho, hst, he, hr]
    refine ⟨List.Sublist.refl _, ?_, le_refl _, le_refl _⟩
    intro id hid
    rw [mapGet?_mapModify] at hid
    by_cases hx : t = id
    · rw [if_pos hx] at hid
      cases hm : mapGet? r.statuses id with
      | none =>
        rw [hm] at hid
        exact Option.noConfusion hid
      | some v =>
        rw [hm] at hid
        have h2 : playerLeftBunker = playerAlive := Option.some.inj hid
        exact absurd h2 (by decide)
    · rw [if_neg hx] at hid
      exact hid
  | added id hfree hid ho hst hr hv he hc =>
    exfalso
    rw [hst] at hk
    have := congrArg List.length hk
    simp at this
  | removed id ho hst hr hv he hc =>
    rw [ho, hst, he, hr]
    refine ⟨List.filter_sublist _, ?_, le_refl _, le_refl _⟩
    intro x hx
    rw [mapGet?_mapDel] at hx
    by_cases hxx : id = x
    · rw [if_pos hxx] at hx
      exact Option.noConfusion hx
    · rw [if_neg hxx] at hx
      exact hx

theorem endReached_mono (g g2 : gameSession) (ho : g2.Order.Sublist g.Order)
    (hs : ∀ id, mapGet? (playerStatuses g2.Players) id = some playerAlive →
      mapGet? (playerStatuses g.Players) id = some playerAlive)
    (he : g.TotalExiles ≤ g2.TotalExiles) (hr : g.Round ≤ g2.Round)
    (hrs : g2.Ruleset = g.Ruleset) (h : endReached g) : endReached g2 := by
  unfold endReached at h ⊢
  rcases h with h | h
  · left
    unfold shouldEnd at h ⊢
    have hlen : ((aliveIDs g2).length : Int) ≤ ((aliveIDs g).length : Int) := by
      rw [aliveIDs_eq g, aliveIDs_eq g2]
      exact Int.ofNat_le.2 (alive_length_le _ _ _ _ ho hs)
    rw [hrs]
    by_cases h1 : ((aliveIDs g).length : Int) ≤ g.Ruleset.BunkerSeats
    · rw [if_pos (le_trans hlen h1)]
    · rw [if_neg h1] at h
      by_cases h2 : g.TotalExiles ≥ g.Ruleset.TotalExiles
      · split
        · rfl
        · rw [if_pos (le_trans h2 he)]
      · rw [if_neg h2] at h
        exact Bool.noConfusion h
  · right
    rw [hrs]
    omega

/-- A step of the core session that keeps the stored keys and the ruleset keeps the end
test of `startNextRoundOrEnd` true. -/
theorem endReached_step (g g2 : gameSession) (hstep : PollStep (poll g) (poll g2))
    (hkeys : PStep (fun _ _ => True) g.Players g2.Players) (hrs : g2.Ruleset = g.Ruleset)
    (h : endReached g) : endReached g2 := by
  have hk : (poll g2).statuses.map Prod.fst = (poll g).statuses.map Prod.fst := by
    show (playerStatuses g2.Players).map Prod.fst = (playerStatuses g.Players).map Prod.fst
    rw [playerStatuses_keys, playerStatuses_keys]
    exact PStep_keys hkeys
  obtain ⟨h1, h2, h3, h4⟩ := PollStep_mono (poll g) (poll g2) hstep hk
  exact endReached_mono g g2 h1 h2 h3 h4 hrs h



/-! ## The game ends only where the end test of `startNextRoundOrEnd` holds -/

theorem reveal_not_ended : scenarioPhaseReveal = scenarioPhaseEnded → False := by decide

theorem discussion_not_ended : scenarioPhaseRevealDiscussion = scenarioPhaseEnded → False := by
  decide

theorem voting_not_ended : scenarioPhaseVoting = scenarioPhaseEnded → False := by decide

theorem resolution_not_ended : scenarioPhaseResolution = scenarioPhaseEnded → False := by decide

theorem not_ended_via {a b : String} (e : a = b) (h : b = scenarioPhaseEnded → False) :
    a = scenarioPhaseEnded → False := e ▸ h

theorem open_leaf (g : gameSession) (h : g.Phase = scenarioPhaseEnded → False) :
    g.Phase = scenarioPhaseEnded → endReached g ∧ endSettled g := fun hh => (h hh).elim

theorem endReached_same (g g2 : gameSession) (hp : poll g2 = poll g)
    (hr : g2.Ruleset = g.Ruleset) (h : endReached g) : endReached g2 := by
  unfold endReached at h ⊢
  rw [shouldEnd_of_poll hp hr, hr, show g2.Round = g.Round from congrArg pollView.Round hp]
  exact h

theorem finishGame_reached (g : gameSession) (reason : String) (now : Int)
    (h : endReached g) : endReached (finishGame g reason now).1 :=
  endReached_same g _ (finishGame_poll g reason now) (finishGame_Ruleset g reason now) h

/-- The function `finishGame`, run on a session that is not over, leaves the post-game
active and no timer running. -/
theorem finishGame_closes (g : gameSession) (reason : String) (now : Int)
    (h : g.Phase = scenarioPhaseEnded → False) : endSettled (finishGame g reason now).1 := by
  unfold finishGame
  rw [if_neg (fun hc => h hc.1)]
  exact ⟨rfl, rfl⟩

theorem finish_leaf (g : gameSession) (reason : String) (now : Int)
    (h : shouldEnd g = true) (hne : g.Phase = scenarioPhaseEnded → False) :
    (finishGame g reason now).1.Phase = scenarioPhaseEnded →
      endReached (finishGame g reason now).1 ∧ endSettled (finishGame g reason now).1 :=
  fun _ => ⟨finishGame_reached g reason now (Or.inl h), finishGame_closes g reason now hne⟩

theorem finish_leaf_rounds (g : gameSession) (reason : String) (now : Int)
    (h : g.Round + 1 > (g.Ruleset.VotesPerRnd.length : Int))
    (hne : g.Phase = scenarioPhaseEnded → False) :
    (finishGame g reason now).1.Phase = scenarioPhaseEnded →
      endReached (finishGame g reason now).1 ∧ endSettled (finishGame g reason now).1 :=
  fun _ => ⟨finishGame_reached g reason now (Or.inr h), finishGame_closes g reason now hne⟩

theorem finish_leaf_counted (g : gameSession) (reason : String) (now c : Int)
    (h : shouldEnd g = true) (hne : g.Phase = scenarioPhaseEnded → False) :
    ({ (finishGame g reason now).1 with EventCounter := c } : gameSession).Phase
        = scenarioPhaseEnded →
      endReached { (finishGame g reason now).1 with EventCounter := c } ∧
        endSettled { (finishGame g reason now).1 with EventCounter := c } :=
  fun _ => ⟨endReached_same (finishGame g reason now).1 _ rfl rfl
    (finishGame_reached g reason now (Or.inl h)), finishGame_closes g reason now hne⟩

theorem counted_leaf (g : gameSession) (c : Int)
    (h : g.Phase = scenarioPhaseEnded → endReached g ∧ endSettled g) :
    ({ g with EventCounter := c } : gameSession).Phase = scenarioPhaseEnded →
      endReached { g with EventCounter := c } ∧ endSettled { g with EventCounter := c } :=
  fun hh => ⟨endReached_same g _ rfl rfl (h hh).1, (h hh).2⟩

theorem revealNextBunkerCard_Phase (g : gameSession) (round : Int) :
    (revealNextBunkerCard g round).Phase = g.Phase := by
  unfold revealNextBunkerCard
  split <;> rfl

theorem startTieBreakRevote_Phase (g : gameSession) (c : List String) (now : Int) :
    (startTieBreakRevote g c now).Phase = g.Phase := by
  unfold startTieBreakRevote
  exact (resetVotesForRevote_frame _ now).2.2.2

theorem startNextRoundOrEnd_B (g : gameSession) (now : Int)
    (hp : g.Phase ≠ scenarioPhaseEnded) :
    (startNextRoundOrEnd g now).1.Phase = scenarioPhaseEnded →
      endReached (startNextRoundOrEnd g now).1 ∧ endSettled (startNextRoundOrEnd g now).1 := by
  unfold startNextRoundOrEnd
  dsimp only [makeEvent, clearActiveTimer, removeFromVoting, copyVotes]
  repeat' (first
    | with_reducible refine ite_of (fun r => (Prod.fst r : gameSession).Phase = scenarioPhaseEnded → endReached (Prod.fst r) ∧ endSettled (Prod.fst r)) _ _ _ (fun _ => ?_) (fun _ => ?_)
    | with_reducible refine ite_of (fun s : gameSession => s.Phase = scenarioPhaseEnded → False) _ _ _ (fun _ => ?_) (fun _ => ?_)
    | with_reducible exact hp
    | with_reducible exact reveal_not_ended
    | with_reducible exact discussion_not_ended
    | with_reducible exact voting_not_ended
    | with_reducible exact resolution_not_ended
    | with_reducible refine finish_leaf _ _ _ (by assumption) ?_
    | with_reducible refine finish_leaf_rounds _ _ _ (by assumption) ?_
    | with_reducible refine finish_leaf_counted _ _ _ _ (by assumption) ?_
    | with_reducible refine not_ended_via (hard_Phase (schedulePhaseTimer_hard _ _ _ _)) ?_
    | with_reducible refine not_ended_via (hard_Phase (scheduleRevealTimeoutIfNeeded_hard _ _)) ?_
    | with_reducible refine not_ended_via (revealNextBunkerCard_Phase _ _) ?_
    | with_reducible refine not_ended_via (passTurnFrom_Phase _ _) ?_
    | with_reducible refine not_ended_via (applyElimination_Phase _ _) ?_
    | with_reducible refine not_ended_via ((resetVotesForRevote_frame _ _).2.2.2) ?_
    | with_reducible refine not_ended_via (startTieBreakRevote_Phase _ _ _) ?_
    | with_reducible refine not_ended_via ((enterVoteSpecialWindow_settles _ _).2.1) ?_
    | with_reducible refine not_ended_via ((enterRevealDiscussion_settles _ _).1) ?_
    | with_reducible refine not_ended_via (startVoting_Phase _ _) ?_
    | split
    | with_reducible refine open_leaf _ ?_)

theorem startNextRoundOrEnd_B_counted (g : gameSession) (now c : Int)
    (hp : g.Phase ≠ scenarioPhaseEnded) :
    ({ (startNextRoundOrEnd g now).1 with EventCounter := c } : gameSession).Phase
        = scenarioPhaseEnded →
      endReached { (startNextRoundOrEnd g now).1 with EventCounter := c } ∧
        endSettled { (startNextRoundOrEnd g now).1 with EventCounter := c } :=
  counted_leaf _ c (startNextRoundOrEnd_B g now hp)

theorem vote_B (g : gameSession) (a t : String) (now : Int)
    (hp : g.Phase ≠ scenarioPhaseEnded) :
    (vote g a t now).1.Phase = scenarioPhaseEnded →
      endReached (vote g a t now).1 ∧ endSettled (vote g a t now).1 := by
  unfold vote
  dsimp only [makeEvent, clearActiveTimer, removeFromVoting, copyVotes]
  repeat' (first
    | with_reducible refine ite_of (fun r => (Prod.fst r : gameSession).Phase = scenarioPhaseEnded → endReached (Prod.fst r) ∧ endSettled (Prod.fst r)) _ _ _ (fun _ => ?_) (fun _ => ?_)
    | with_reducible refine ite_of (fun s : gameSession => s.Phase = scenarioPhaseEnded → False) _ _ _ (fun _ => ?_) (fun _ => ?_)
    | with_reducible exact hp
    | with_reducible exact reveal_not_ended
    | with_reducible exact discussion_not_ended
    | with_reducible exact voting_not_ended
    | with_reducible exact resolution_not_ended
    | with_reducible refine finish_leaf _ _ _ (by assumption) ?_
    | with_reducible refine finish_leaf_rounds _ _ _ (by assumption) ?_
    | with_reducible refine finish_leaf_counted _ _ _ _ (by assumption) ?_
    | with_reducible refine startNextRoundOrEnd_B _ _ ?_
    | with_reducible refine not_ended_via (hard_Phase (schedulePhaseTimer_hard _ _ _ _)) ?_
    | with_reducible refine not_ended_via (hard_Phase (scheduleRevealTimeoutIfNeeded_hard _ _)) ?_
    | with_reducible refine not_ended_via (revealNextBunkerCard_Phase _ _) ?_
    | with_reducible refine not_ended_via (passTurnFrom_Phase _ _) ?_
    | with_reducible refine not_ended_via (applyElimination_Phase _ _) ?_
    | with_reducible refine not_ended_via ((resetVotesForRevote_frame _ _).2.2.2) ?_
    | with_reducible refine not_ended_via (startTieBreakRevote_Phase _ _ _) ?_
    | with_reducible refine not_ended_via ((enterVoteSpecialWindow_settles _ _).2.1) ?_
    | with_reducible refine not_ended_via ((enterRevealDiscussion_settles _ _).1) ?_
    | with_reducible refine not_ended_via (startVoting_Phase _ _) ?_
    | with_reducible refine startNextRoundOrEnd_B_counted _ _ _ ?_
    | split
    | with_reducible refine open_leaf _ ?_)

theorem finalizeVoting_B (g : gameSession) (a : String) (now : Int)
    (hp : g.Phase ≠ scenarioPhaseEnded) :
    (finalizeVoting g a now).1.Phase = scenarioPhaseEnded →
      endReached (finalizeVoting g a now).1 ∧ endSettled (finalizeVoting g a now).1 := by
  unfold finalizeVoting
  dsimp only [makeEvent, clearActiveTimer, removeFromVoting, copyVotes]
  repeat' (first
    | with_reducible refine ite_of (fun r => (Prod.fst r : gameSession).Phase = scenarioPhaseEnded → endReached (Prod.fst r) ∧ endSettled (Prod.fst r)) _ _ _ (fun _ => ?_) (fun _ => ?_)
    | with_reducible refine ite_of (fun s : gameSession => s.Phase = scenarioPhaseEnded → False) _ _ _ (fun _ => ?_) (fun _ => ?_)
    | with_reducible exact hp
    | with_reducible exact reveal_not_ended
    | with_reducible exact discussion_not_ended
    | with_reducible exact voting_not_ended
    | with_reducible exact resolution_not_ended
    | with_reducible refine finish_leaf _ _ _ (by assumption) ?_
    | with_reducible refine finish_leaf_rounds _ _ _ (by assumption) ?_
    | with_reducible refine finish_leaf_counted _ _ _ _ (by assumption) ?_
    | with_reducible refine startNextRoundOrEnd_B _ _ ?_
    | with_reducible refine vote_B _ _ _ _ ?_
    | with_reducible refine not_ended_via (hard_Phase (schedulePhaseTimer_hard _ _ _ _)) ?_
    | with_reducible refine not_ended_via (hard_Phase (scheduleRevealTimeoutIfNeeded_hard _ _)) ?_
    | with_reducible refine not_ended_via (revealNextBunkerCard_Phase _ _) ?_
    | with_reducible refine not_ended_via (passTurnFrom_Phase _ _) ?_
    | with_reducible refine not_ended_via (applyElimination_Phase _ _) ?_
    | with_reducible refine not_ended_via ((resetVotesForRevote_frame _ _).2.2.2) ?_
    | with_reducible refine not_ended_via (startTieBreakRevote_Phase _ _ _) ?_
    | with_reducible refine not_ended_via ((enterVoteSpecialWindow_settles _ _).2.1) ?_
    | with_reducible refine not_ended_via ((enterRevealDiscussion_settles _ _).1) ?_
    | with_reducible refine not_ended_via (startVoting_Phase _ _) ?_
    | with_reducible refine startNextRoundOrEnd_B_counted _ _ _ ?_
    | split
    | with_reducible refine open_leaf _ ?_)

theorem advanceAfterDiscussion_B (g : gameSession) (now : Int)
    (hp : g.Phase ≠ scenarioPhaseEnded) :
    (advanceAfterDiscussion g now).1.Phase = scenarioPhaseEnded →
      endReached (advanceAfterDiscussion g now).1 ∧ endSettled (advanceAfterDiscussion g now).1 := by
  unfold advanceAfterDiscussion
  dsimp only [makeEvent, clearActiveTimer, removeFromVoting, copyVotes]
  repeat' (first
    | with_reducible refine ite_of (fun r => (Prod.fst r : gameSession).Phase = scenarioPhaseEnded → endReached (Prod.fst r) ∧ endSettled (Prod.fst r)) _ _ _ (fun _ => ?_) (fun _ => ?_)
    | with_reducible refine ite_of (fun s : gameSession => s.Phase = scenarioPhaseEnded → False) _ _ _ (fun _ => ?_) (fun _ => ?_)
    | with_reducible exact hp
    | with_reducible exact reveal_not_ended
    | with_reducible exact discussion_not_ended
    | with_reducible exact voting_not_ended
    | with_reducible exact resolution_not_ended
    | with_reducible refine finish_leaf _ _ _ (by assumption) ?_
    | with_reducible refine finish_leaf_rounds _ _ _ (by assumption) ?_
    | with_reducible refine finish_leaf_counted _ _ _ _ (by assumption) ?_
    | with_reducible refine startNextRoundOrEnd_B _ _ ?_
    | with_reducible refine vote_B _ _ _ _ ?_
    | with_reducible refine finalizeVoting_B _ _ _ ?_
    | with_reducible refine not_ended_via (hard_Phase (schedulePhaseTimer_hard _ _ _ _)) ?_
    | with_reducible refine not_ended_via (hard_Phase (scheduleRevealTimeoutIfNeeded_hard _ _)) ?_
    | with_reducible refine not_ended_via (revealNextBunkerCard_Phase _ _) ?_
    | with_reducible refine not_ended_via (passTurnFrom_Phase _ _) ?_
    | with_reducible refine not_ended_via (applyElimination_Phase _ _) ?_
    | with_reducible refine not_ended_via ((resetVotesForRevote_frame _ _).2.2.2) ?_
    | with_reducible refine not_ended_via (startTieBreakRevote_Phase _ _ _) ?_
    | with_reducible refine not_ended_via ((enterVoteSpecialWindow_settles _ _).2.1) ?_
    | with_reducible refine not_ended_via ((enterRevealDiscussion_settles _ _).1) ?_
    | with_reducible refine not_ended_via (startVoting_Phase _ _) ?_
    | with_reducible refine startNextRoundOrEnd_B_counted _ _ _ ?_
    | split
    | with_reducible refine open_leaf _ ?_)

theorem continueRound_B (g : gameSession) (a : String) (now : Int)
    (hp : g.Phase ≠ scenarioPhaseEnded) :
    (continueRound g a now).1.Phase = scenarioPhaseEnded →
      endReached (continueRound g a now).1 ∧ endSettled (continueRound g a now).1 := by
  unfold continueRound
  dsimp only [makeEvent, clearActiveTimer, removeFromVoting, copyVotes]
  repeat' (first
    | with_reducible refine ite_of (fun r => (Prod.fst r : gameSession).Phase = scenarioPhaseEnded → endReached (Prod.fst r) ∧ endSettled (Prod.fst r)) _ _ _ (fun _ => ?_) (fun _ => ?_)
    | with_reducible refine ite_of (fun s : gameSession => s.Phase = scenarioPhaseEnded → False) _ _ _ (fun _ => ?_) (fun _ => ?_)
    | with_reducible exact hp
    | with_reducible exact reveal_not_ended
    | with_reducible exact discussion_not_ended
    | with_reducible exact voting_not_ended
    | with_reducible exact resolution_not_ended
    | with_reducible refine finish_leaf _ _ _ (by assumption) ?_
    | with_reducible refine finish_leaf_rounds _ _ _ (by assumption) ?_
    | with_reducible refine finish_leaf_counted _ _ _ _ (by assumption) ?_
    | with_reducible refine startNextRoundOrEnd_B _ _ ?_
    | with_reducible refine vote_B _ _ _ _ ?_
    | with_reducible refine finalizeVoting_B _ _ _ ?_
    | with_reducible refine advanceAfterDiscussion_B _ _ ?_
    | with_reducible refine not_ended_via (hard_Phase (schedulePhaseTimer_hard _ _ _ _)) ?_
    | with_reducible refine not_ended_via (hard_Phase (scheduleRevealTimeoutIfNeeded_hard _ _)) ?_
    | with_reducible refine not_ended_via (revealNextBunkerCard_Phase _ _) ?_
    | with_reducible refine not_ended_via (passTurnFrom_Phase _ _) ?_
    | with_reducible refine not_ended_via (applyElimination_Phase _ _) ?_
    | with_reducible refine not_ended_via ((resetVotesForRevote_frame _ _).2.2.2) ?_
    | with_reducible refine not_ended_via (startTieBreakRevote_Phase _ _ _) ?_
    | with_reducible refine not_ended_via ((enterVoteSpecialWindow_settles _ _).2.1) ?_
    | with_reducible refine not_ended_via ((enterRevealDiscussion_settles _ _).1) ?_
    | with_reducible refine not_ended_via (startVoting_Phase _ _) ?_
    | with_reducible refine startNextRoundOrEnd_B_counted _ _ _ ?_
    | split
    | with_reducible refine open_leaf _ ?_)

theorem kickPlayer_B (g : gameSession) (t : String) (now : Int)
    (hp : g.Phase ≠ scenarioPhaseEnded) :
    (kickPlayer g t now).1.Phase = scenarioPhaseEnded →
      endReached (kickPlayer g t now).1 ∧ endSettled (kickPlayer g t now).1 := by
  unfold kickPlayer
  dsimp only [makeEvent, clearActiveTimer, removeFromVoting, copyVotes]
  repeat' (first
    | with_reducible refine ite_of (fun r => (Prod.fst r : gameSession).Phase = scenarioPhaseEnded → endReached (Prod.fst r) ∧ endSettled (Prod.fst r)) _ _ _ (fun _ => ?_) (fun _ => ?_)
    | with_reducible refine ite_of (fun s : gameSession => s.Phase = scenarioPhaseEnded → False) _ _ _ (fun _ => ?_) (fun _ => ?_)
    | with_reducible exact hp
    | with_reducible exact reveal_not_ended
    | with_reducible exact discussion_not_ended
    | with_reducible exact voting_not_ended
    | with_reducible exact resolution_not_ended
    | with_reducible refine finish_leaf _ _ _ (by assumption) ?_
    | with_reducible refine finish_leaf_rounds _ _ _ (by assumption) ?_
    | with_reducible refine finish_leaf_counted _ _ _ _ (by assumption) ?_
    | with_reducible refine startNextRoundOrEnd_B _ _ ?_
    | with_reducible refine vote_B _ _ _ _ ?_
    | with_reducible refine finalizeVoting_B _ _ _ ?_
    | with_reducible refine advanceAfterDiscussion_B _ _ ?_
    | with_reducible refine continueRound_B _ _ _ ?_
    | with_reducible refine not_ended_via (hard_Phase (schedulePhaseTimer_hard _ _ _ _)) ?_
    | with_reducible refine not_ended_via (hard_Phase (scheduleRevealTimeoutIfNeeded_hard _ _)) ?_
    | with_reducible refine not_ended_via (revealNextBunkerCard_Phase _ _) ?_
    | with_reducible refine not_ended_via (passTurnFrom_Phase _ _) ?_
    | with_reducible refine not_ended_via (applyElimination_Phase _ _) ?_
    | with_reducible refine not_ended_via ((resetVotesForRevote_frame _ _).2.2.2) ?_
    | with_reducible refine not_ended_via (startTieBreakRevote_Phase _ _ _) ?_
    | with_reducible refine not_ended_via ((enterVoteSpecialWindow_settles _ _).2.1) ?_
    | with_reducible refine not_ended_via ((enterRevealDiscussion_settles _ _).1) ?_
    | with_reducible refine not_ended_via (startVoting_Phase _ _) ?_
    | with_reducible refine startNextRoundOrEnd_B_counted _ _ _ ?_
    | split
    | with_reducible refine open_leaf _ ?_)

theorem markLeftBunker_B (g : gameSession) (t : String) (now : Int)
    (hp : g.Phase ≠ scenarioPhaseEnded) :
    (markLeftBunker g t now).1.Phase = scenarioPhaseEnded →
      endReached (markLeftBunker g t now).1 ∧ endSettled (markLeftBunker g t now).1 := by
  unfold markLeftBunker
  dsimp only
  refine ite_of (fun r => (Prod.fst r : gameSession).Phase = scenarioPhaseEnded → endReached (Prod.fst r) ∧ endSettled (Prod.fst r)) _ _ _ (fun _ => open_leaf _ hp) (fun _ => ?_)
  split
  · exact open_leaf _ hp
  rename_i player hpl
  refine ite_of (fun r => (Prod.fst r : gameSession).Phase = scenarioPhaseEnded → endReached (Prod.fst r) ∧ endSettled (Prod.fst r)) _ _ _ (fun _ => open_leaf _ hp) (fun _ => ?_)
  generalize hP : passTurnFrom _ _ = P
  have hPp : P.Phase = scenarioPhaseEnded → False := by
    rw [← hP]
    exact not_ended_via (passTurnFrom_Phase _ _) hp
  clear hP
  generalize hG : @ite gameSession (decide (player.Status = playerAlive) = true) _ _ _ = G4
  have hG4 : G4.Phase ≠ scenarioPhaseEnded := by
    rw [← hG]
    dsimp only [makeEvent]
    exact ite_of (fun s : gameSession => s.Phase = scenarioPhaseEnded → False) _ _ _ (fun _ => hPp) (fun _ => hPp)
  clear hG
  replace hp := hG4
  dsimp only [makeEvent, clearActiveTimer, removeFromVoting, copyVotes]
  repeat' (first
    | with_reducible refine ite_of (fun r => (Prod.fst r : gameSession).Phase = scenarioPhaseEnded → endReached (Prod.fst r) ∧ endSettled (Prod.fst r)) _ _ _ (fun _ => ?_) (fun _ => ?_)
    | with_reducible refine ite_of (fun s : gameSession => s.Phase = scenarioPhaseEnded → False) _ _ _ (fun _ => ?_) (fun _ => ?_)
    | with_reducible exact hp
    | with_reducible exact reveal_not_ended
    | with_reducible exact discussion_not_ended
    | with_reducible exact voting_not_ended
    | with_reducible exact resolution_not_ended
    | with_reducible refine finish_leaf _ _ _ (by assumption) ?_
    | with_reducible refine finish_leaf_rounds _ _ _ (by assumption) ?_
    | with_reducible refine finish_leaf_counted _ _ _ _ (by assumption) ?_
    | with_reducible refine startNextRoundOrEnd_B _ _ ?_
    | with_reducible refine vote_B _ _ _ _ ?_
    | with_reducible refine finalizeVoting_B _ _ _ ?_
    | with_reducible refine advanceAfterDiscussion_B _ _ ?_
    | with_reducible refine continueRound_B _ _ _ ?_
    | with_reducible refine kickPlayer_B _ _ _ ?_
    | with_reducible refine not_ended_via (hard_Phase (schedulePhaseTimer_hard _ _ _ _)) ?_
    | with_reducible refine not_ended_via (hard_Phase (scheduleRevealTimeoutIfNeeded_hard _ _)) ?_
    | with_reducible refine not_ended_via (revealNextBunkerCard_Phase _ _) ?_
    | with_reducible refine not_ended_via (passTurnFrom_Phase _ _) ?_
    | with_reducible refine not_ended_via (applyElimination_Phase _ _) ?_
    | with_reducible refine not_ended_via ((resetVotesForRevote_frame _ _).2.2.2) ?_
    | with_reducible refine not_ended_via (startTieBreakRevote_Phase _ _ _) ?_
    | with_reducible refine not_ended_via ((enterVoteSpecialWindow_settles _ _).2.1) ?_
    | with_reducible refine not_ended_via ((enterRevealDiscussion_settles _ _).1) ?_
    | with_reducible refine not_ended_via (startVoting_Phase _ _) ?_
    | with_reducible refine startNextRoundOrEnd_B_counted _ _ _ ?_
    | split
    | with_reducible refine open_leaf _ ?_)

theorem revealCard_B (g : gameSession) (a c : String) (now : Int)
    (hp : g.Phase ≠ scenarioPhaseEnded) :
    (revealCard g a c now).1.Phase = scenarioPhaseEnded →
      endReached (revealCard g a c now).1 ∧ endSettled (revealCard g a c now).1 := by
  unfold revealCard
  dsimp only [makeEvent, clearActiveTimer, removeFromVoting, copyVotes]
  repeat' (first
    | with_reducible refine ite_of (fun r => (Prod.fst r : gameSession).Phase = scenarioPhaseEnded → endReached (Prod.fst r) ∧ endSettled (Prod.fst r)) _ _ _ (fun _ => ?_) (fun _ => ?_)
    | with_reducible refine ite_of (fun s : gameSession => s.Phase = scenarioPhaseEnded → False) _ _ _ (fun _ => ?_) (fun _ => ?_)
    | with_reducible exact hp
    | with_reducible exact reveal_not_ended
    | with_reducible exact discussion_not_ended
    | with_reducible exact voting_not_ended
    | with_reducible exact resolution_not_ended
    | with_reducible refine finish_leaf _ _ _ (by assumption) ?_
    | with_reducible refine finish_leaf_rounds _ _ _ (by assumption) ?_
    | with_reducible refine finish_leaf_counted _ _ _ _ (by assumption) ?_
    | with_reducible refine startNextRoundOrEnd_B _ _ ?_
    | with_reducible refine vote_B _ _ _ _ ?_
    | with_reducible refine finalizeVoting_B _ _ _ ?_
    | with_reducible refine advanceAfterDiscussion_B _ _ ?_
    | with_reducible refine continueRound_B _ _ _ ?_
    | with_reducible refine kickPlayer_B _ _ _ ?_
    | with_reducible refine markLeftBunker_B _ _ _ ?_
    | with_reducible refine not_ended_via (hard_Phase (schedulePhaseTimer_hard _ _ _ _)) ?_
    | with_reducible refine not_ended_via (hard_Phase (scheduleRevealTimeoutIfNeeded_hard _ _)) ?_
    | with_reducible refine not_ended_via (revealNextBunkerCard_Phase _ _) ?_
    | with_reducible refine not_ended_via (passTurnFrom_Phase _ _) ?_
    | with_reducible refine not_ended_via (applyElimination_Phase _ _) ?_
    | with_reducible refine not_ended_via ((resetVotesForRevote_frame _ _).2.2.2) ?_
    | with_reducible refine not_ended_via (startTieBreakRevote_Phase _ _ _) ?_
    | with_reducible refine not_ended_via ((enterVoteSpecialWindow_settles _ _).2.1) ?_
    | with_reducible refine not_ended_via ((enterRevealDiscussion_settles _ _).1) ?_
    | with_reducible refine not_ended_via (startVoting_Phase _ _) ?_
    | with_reducible refine startNextRoundOrEnd_B_counted _ _ _ ?_
    | split
    | with_reducible refine open_leaf _ ?_)

theorem handleRevealPhaseTimeout_B (g : gameSession) (now : Int)
    (hp : g.Phase ≠ scenarioPhaseEnded) :
    (handleRevealPhaseTimeout g now).1.Phase = scenarioPhaseEnded →
      endReached (handleRevealPhaseTimeout g now).1 ∧ endSettled (handleRevealPhaseTimeout g now).1 := by
  unfold handleRevealPhaseTimeout
  dsimp only [makeEvent, clearActiveTimer, removeFromVoting, copyVotes]
  repeat' (first
    | with_reducible refine ite_of (fun r => (Prod.fst r : gameSession).Phase = scenarioPhaseEnded → endReached (Prod.fst r) ∧ endSettled (Prod.fst r)) _ _ _ (fun _ => ?_) (fun _ => ?_)
    | with_reducible refine ite_of (fun s : gameSession => s.Phase = scenarioPhaseEnded → False) _ _ _ (fun _ => ?_) (fun _ => ?_)
    | with_reducible exact hp
    | with_reducible exact reveal_not_ended
    | with_reducible exact discussion_not_ended
    | with_reducible exact voting_not_ended
    | with_reducible exact resolution_not_ended
    | with_reducible refine finish_leaf _ _ _ (by assumption) ?_
    | with_reducible refine finish_leaf_rounds _ _ _ (by assumption) ?_
    | with_reducible refine finish_leaf_counted _ _ _ _ (by assumption) ?_
    | with_reducible refine startNextRoundOrEnd_B _ _ ?_
    | with_reducible refine vote_B _ _ _ _ ?_
    | with_reducible refine finalizeVoting_B _ _ _ ?_
    | with_reducible refine advanceAfterDiscussion_B _ _ ?_
    | with_reducible refine continueRound_B _ _ _ ?_
    | with_reducible refine kickPlayer_B _ _ _ ?_
    | with_reducible refine markLeftBunker_B _ _ _ ?_
    | with_reducible refine revealCard_B _ _ _ _ ?_
    | with_reducible refine not_ended_via (hard_Phase (schedulePhaseTimer_hard _ _ _ _)) ?_
    | with_reducible refine not_ended_via (hard_Phase (scheduleRevealTimeoutIfNeeded_hard _ _)) ?_
    | with_reducible refine not_ended_via (revealNextBunkerCard_Phase _ _) ?_
    | with_reducible refine not_ended_via (passTurnFrom_Phase _ _) ?_
    | with_reducible refine not_ended_via (applyElimination_Phase _ _) ?_
    | with_reducible refine not_ended_via ((resetVotesForRevote_frame _ _).2.2.2) ?_
    | with_reducible refine not_ended_via (startTieBreakRevote_Phase _ _ _) ?_
    | with_reducible refine not_ended_via ((enterVoteSpecialWindow_settles _ _).2.1) ?_
    | with_reducible refine not_ended_via ((enterRevealDiscussion_settles _ _).1) ?_
    | with_reducible refine not_ended_via (startVoting_Phase _ _) ?_
    | with_reducible refine startNextRoundOrEnd_B_counted _ _ _ ?_
    | split
    | with_reducible refine open_leaf _ ?_)

theorem handleTimerExpired_B (g : gameSession) (now : Int)
    (hp : g.Phase ≠ scenarioPhaseEnded) :
    (handleTimerExpired g now).1.Phase = scenarioPhaseEnded →
      endReached (handleTimerExpired g now).1 ∧ endSettled (handleTimerExpired g now).1 := by
  unfold handleTimerExpired
  dsimp only [makeEvent, clearActiveTimer, removeFromVoting, copyVotes]
  repeat' (first
    | with_reducible refine ite_of (fun r => (Prod.fst r : gameSession).Phase = scenarioPhaseEnded → endReached (Prod.fst r) ∧ endSettled (Prod.fst r)) _ _ _ (fun _ => ?_) (fun _ => ?_)
    | with_reducible refine ite_of (fun s : gameSession => s.Phase = scenarioPhaseEnded → False) _ _ _ (fun _ => ?_) (fun _ => ?_)
    | with_reducible exact hp
    | with_reducible exact reveal_not_ended
    | with_reducible exact discussion_not_ended
    | with_reducible exact voting_not_ended
    | with_reducible exact resolution_not_ended
    | with_reducible refine finish_leaf _ _ _ (by assumption) ?_
    | with_reducible refine finish_leaf_rounds _ _ _ (by assumption) ?_
    | with_reducible refine finish_leaf_counted _ _ _ _ (by assumption) ?_
    | with_reducible refine startNextRoundOrEnd_B _ _ ?_
    | with_reducible refine vote_B _ _ _ _ ?_
    | with_reducible refine finalizeVoting_B _ _ _ ?_
    | with_reducible refine advanceAfterDiscussion_B _ _ ?_
    | with_reducible refine continueRound_B _ _ _ ?_
    | with_reducible refine kickPlayer_B _ _ _ ?_
    | with_reducible refine markLeftBunker_B _ _ _ ?_
    | with_reducible refine revealCard_B _ _ _ _ ?_
    | with_reducible refine handleRevealPhaseTimeout_B _ _ ?_
    | with_reducible refine not_ended_via (hard_Phase (schedulePhaseTimer_hard _ _ _ _)) ?_
    | with_reducible refine not_ended_via (hard_Phase (scheduleRevealTimeoutIfNeeded_hard _ _)) ?_
    | with_reducible refine not_ended_via (revealNextBunkerCard_Phase _ _) ?_
    | with_reducible refine not_ended_via (passTurnFrom_Phase _ _) ?_
    | with_reducible refine not_ended_via (applyElimination_Phase _ _) ?_
    | with_reducible refine not_ended_via ((resetVotesForRevote_frame _ _).2.2.2) ?_
    | with_reducible refine not_ended_via (startTieBreakRevote_Phase _ _ _) ?_
    | with_reducible refine not_ended_via ((enterVoteSpecialWindow_settles _ _).2.1) ?_
    | with_reducible refine not_ended_via ((enterRevealDiscussion_settles _ _).1) ?_
    | with_reducible refine not_ended_via (startVoting_Phase _ _) ?_
    | with_reducible refine startNextRoundOrEnd_B_counted _ _ _ ?_
    | split
    | with_reducible refine open_leaf _ ?_)



/-! ## The flag `IsDev` of the sessions a room holds -/

theorem devAdd_IsDev (g : gameSession) (c : Int) (pid : String) (T : gameSession)
    (hD : T.IsDev =
      (assignInitialSpecialsForPlayer (drawInitialHandForPlayer { g with DevBotCounter := c } pid).1
        pid (buildSpecialAssetLookup
          (drawInitialHandForPlayer { g with DevBotCounter := c } pid).1)).1.IsDev) :
    T.IsDev = g.IsDev := by
  rw [hD, hard_IsDev (assignInitialSpecialsForPlayer_hard _ _ _),
    hard_IsDev (drawInitialHandForPlayer_hard _ _)]

theorem devAddPlayer_IsDev (g : gameSession) (name : String) (now : Int) :
    (devAddPlayer g name now).1.IsDev = g.IsDev := by
  unfold devAddPlayer
  split
  · rfl
  · dsimp only [makeEvent]
    split <;> split
    all_goals
      refine devAdd_IsDev g
        (devFreshCounter g (g.Players.length + 1) (g.DevBotCounter + 1))
        (devPlayerID { g with DevBotCounter := (devFreshCounter g (g.Players.length + 1) (g.DevBotCounter + 1)) }
          (devFreshCounter g (g.Players.length + 1) (g.DevBotCounter + 1))) _ ?_
    all_goals with_reducible rfl

theorem devRemovePlayer_IsDev (g : gameSession) (t : String) (now : Int) :
    (devRemovePlayer g t now).1.IsDev = g.IsDev := by
  unfold devRemovePlayer
  dsimp only [makeEvent, removeFromVoting]
  repeat' (first
    | with_reducible rfl
    | with_reducible refine ite_fst_IsDev _ _ _ _ ?_ ?_
    | with_reducible refine (finishGame_IsDev _ _ _).trans ?_
    | with_reducible refine (passTurnFrom_IsDev _ _).trans ?_
    | split)

theorem handleAction_IsDev_eq (g : gameSession) (actorID actionType : String)
    (payload : GoMap AnyVal) (now : Int) :
    (handleAction g actorID actionType payload now).1.IsDev = g.IsDev := by
  unfold handleAction
  split
  · rfl
  · split
    · exact revealCard_IsDev _ _ _ _
    · exact continueRound_IsDev _ _ _
    · exact vote_IsDev _ _ _ _
    · exact finalizeVoting_IsDev _ _ _
    · exact applySpecial_IsDev _ _ _ _ _
    · exact revealWorldThreat_IsDev _ _ _
    · exact setBunkerOutcome_IsDev _ _ _ _
    · exact startNextRoundOrEnd_IsDev _ _
    · exact kickPlayer_IsDev _ _ _
    · exact devAddPlayer_IsDev _ _ _
    · exact devRemovePlayer_IsDev _ _ _
    · exact markLeftBunker_IsDev _ _ _
    · rfl

theorem autoRevealBots_IsDev (g : gameSession) (now : Int) :
    (autoRevealBots g now).1.IsDev = g.IsDev := by
  unfold autoRevealBots
  dsimp only
  repeat' (first
    | with_reducible rfl
    | with_reducible refine ite_fst_IsDev _ _ _ _ ?_ ?_
    | with_reducible exact revealCard_IsDev _ _ _ _
    | split)

theorem autoVoteStep_IsDev (now : Int) (acc : gameSession × Bool) (v : String) :
    (autoVoteStep now acc v).1.IsDev = acc.1.IsDev := by
  unfold autoVoteStep
  dsimp only [markVoteWasted]
  repeat' (first
    | with_reducible rfl
    | with_reducible refine ite_fst_IsDev _ _ _ _ ?_ ?_
    | split)

theorem autoVoteBots_IsDev (g : gameSession) (now : Int) :
    (autoVoteBots g now).1.IsDev = g.IsDev := by
  have hf : (g.Order.foldl (autoVoteStep now) (g, false)).1.IsDev = g.IsDev :=
    foldl_keeps (autoVoteStep now) (fun s : gameSession × Bool => s.1.IsDev)
      (autoVoteStep_IsDev now) _ _
  unfold autoVoteBots
  dsimp only
  repeat' (first
    | with_reducible rfl
    | with_reducible exact hf
    | with_reducible refine ite_fst_IsDev _ _ _ _ ?_ ?_
    | with_reducible refine (enterVoteSpecialWindow_IsDev _ _).trans ?_)

theorem postProcessLoop_IsDev (now : Int) (n : Nat) :
    ∀ st : postState, (postProcessLoop now n st).session.IsDev = st.session.IsDev := by
  induction n with
  | zero => exact fun _ => rfl
  | succ n ih =>
    intro st
    unfold postProcessLoop
    dsimp only
    repeat' (first
      | with_reducible rfl
      | with_reducible exact autoRevealBots_IsDev _ _
      | with_reducible exact autoVoteBots_IsDev _ _
      | with_reducible refine (ih _).trans ?_
      | with_reducible refine (autoVoteBots_IsDev _ _).trans ?_
      | with_reducible refine ite_of (fun s : postState => s.session.IsDev = st.session.IsDev) _ _ _ (fun _ => ?_) (fun _ => ?_)
      | with_reducible refine ite_of (fun r => (Prod.fst r : postState).session.IsDev = st.session.IsDev) _ _ _ (fun _ => ?_) (fun _ => ?_)
      | split)

theorem postProcess_IsDev (g : gameSession) (result : gameActionResult) (now : Int) :
    (postProcess g result now).1.IsDev = g.IsDev := by
  unfold postProcess
  dsimp only
  repeat' (first
    | with_reducible rfl
    | with_reducible exact postProcessLoop_IsDev _ _ _
    | with_reducible refine ite_fst_IsDev _ _ _ _ ?_ ?_
    | with_reducible refine (finishGame_IsDev _ _ _).trans ?_)

theorem removeFromVotingDev_IsDev (g : gameSession) (t : String) (now : Int) :
    (removeFromVotingDev g t now).IsDev = g.IsDev := by
  unfold removeFromVotingDev
  dsimp only [removeFromVoting]
  repeat' (first
    | with_reducible rfl
    | with_reducible refine ite_IsDev _ _ _ _ ?_ ?_
    | with_reducible refine (enterVoteSpecialWindow_IsDev _ _).trans ?_)

theorem devMarkLeftBunker_IsDev (g : gameSession) (t : String) (now : Int) :
    (devMarkLeftBunker g t now).1.IsDev = g.IsDev := by
  unfold devMarkLeftBunker
  dsimp only
  repeat' (first
    | with_reducible rfl
    | with_reducible refine ite_fst_IsDev _ _ _ _ ?_ ?_
    | with_reducible refine (passTurnFrom_IsDev _ _).trans ?_
    | with_reducible refine (removeFromVotingDev_IsDev _ _ _).trans ?_
    | split)

theorem devSkipRound_IsDev (g : gameSession) (a : String) (now : Int) :
    (devSkipRound g a now).1.IsDev = g.IsDev := by
  unfold devSkipRound
  dsimp only
  repeat' (first
    | with_reducible rfl
    | with_reducible refine ite_fst_IsDev _ _ _ _ ?_ ?_
    | with_reducible refine (advanceAfterDiscussion_IsDev _ _).trans ?_)

theorem devHandleAction_IsDev (g : gameSession) (actorID actionType : String)
    (payload : GoMap AnyVal) (now : Int) :
    (devHandleAction g actorID actionType payload now).1.IsDev = g.IsDev := by
  have hcore : (postProcess (handleAction g actorID actionType payload now).1
        (handleAction g actorID actionType payload now).2 now).1.IsDev = g.IsDev :=
    (postProcess_IsDev _ _ _).trans (handleAction_IsDev_eq g actorID actionType payload now)
  unfold devHandleAction
  dsimp only
  repeat' (first
    | with_reducible exact hcore
    | with_reducible rfl
    | with_reducible exact (postProcess_IsDev _ _ _).trans (devSkipRound_IsDev _ _ _)
    | with_reducible exact (postProcess_IsDev _ _ _).trans (devMarkLeftBunker_IsDev _ _ _)
    | with_reducible refine ite_fst_IsDev _ _ _ _ ?_ ?_
    | split)

/-- The flag `IsDev` of a room's session never changes. -/
theorem serverRun_IsDev (g0 g : gameSession) (h : ServerRun g0 g) : g.IsDev = g0.IsDev := by
  induction h with
  | start => rfl
  | action g actorID actionType payload now _ _ ih =>
    exact (handleAction_IsDev_eq g actorID actionType payload now).trans ih
  | timer g now _ _ ih => exact (handleTimerExpired_IsDev g now).trans ih
  | devAction g actorID actionType payload now _ _ ih =>
    exact (devHandleAction_IsDev g actorID actionType payload now).trans ih
  | devTimer g now _ _ ih =>
    exact ((postProcess_IsDev _ _ _).trans (handleTimerExpired_IsDev g now)).trans ih
  | host g hostID _ ih => exact ih

theorem serverRun_trans {g0 g g2 : gameSession} (h1 : ServerRun g0 g) (h2 : ServerRun g g2) :
    ServerRun g0 g2 := by
  induction h2 with
  | start => exact h1
  | action g actorID actionType payload now _ hdev ih =>
    exact ServerRun.action g actorID actionType payload now ih hdev
  | timer g now _ hdev ih => exact ServerRun.timer g now ih hdev
  | devAction g actorID actionType payload now _ hdev ih =>
    exact ServerRun.devAction g actorID actionType payload now ih hdev
  | devTimer g now _ hdev ih => exact ServerRun.devTimer g now ih hdev
  | host g hostID _ ih => exact ServerRun.host g hostID ih

/-! ## Abilities leave the phase alone -/

theorem applySpecialEffect_Phase (g : gameSession) (a : String) (p : gamePlayer) (i : Nat)
    (sp : specialConditionState) (payload : GoMap AnyLeaf) (now : Int) :
    (applySpecialEffect g a p i sp payload now).1.Phase = g.Phase := by
  unfold applySpecialEffect
  dsimp only [makeEvent, clearActiveTimer, markSpecialUsed, modifyCard, markVoteWasted]
  repeat' (first
    | with_reducible rfl
    | with_reducible refine ite_fst_eq (fun s : gameSession => s.Phase) _ _ _ _ ?_ ?_
    | with_reducible refine ite_of (fun s : gameSession => s.Phase = g.Phase) _ _ _ (fun _ => ?_) (fun _ => ?_)
    | with_reducible exact hard_Phase (replaceCardEffect_hard _ _ _ _ _ _ _ _)
    | with_reducible exact hard_Phase (redealEffect_hard _ _ _ _ _ _)
    | with_reducible exact hard_Phase (stealBaggageEffect_hard _ _ _ _ _ _ _)
    | with_reducible refine ((resetVotesForRevote_frame _ _).2.2.2).trans ?_
    | split)

theorem applySpecial_Phase (g : gameSession) (actorID sid : String)
    (payload : GoMap AnyLeaf) (now : Int) :
    (applySpecial g actorID sid payload now).1.Phase = g.Phase := by
  rcases applySpecial_shape g actorID sid payload now with h | ⟨player, sp, ep, _, _, h⟩
  · rw [h]
  · have hE := applySpecialEffect_Phase g actorID player
      (player.Specials.findIdx (fun s => s.InstanceID = sid)) sp ep now
    generalize applySpecialEffect g actorID player
      (player.Specials.findIdx (fun s => s.InstanceID = sid)) sp ep now = E at h hE
    rcases h with h | ⟨c, h⟩ | ⟨c, h⟩
    · rw [h]
      exact hE
    · rw [h]
      exact hE
    · rw [h]
      exact hE



/-! ## The phase `ended` of the sessions a room holds -/

theorem handleAction_Ruleset_ended (g : gameSession) (actorID actionType : String)
    (payload : GoMap AnyVal) (now : Int) (hp : g.Phase = scenarioPhaseEnded)
    (hdev : g.IsDev = false) :
    (handleAction g actorID actionType payload now).1.Ruleset = g.Ruleset := by
  unfold handleAction
  split
  · rfl
  · split
    · exact revealCard_Ruleset _ _ _ _
    · exact continueRound_Ruleset _ _ _
    · exact vote_Ruleset _ _ _ _
    · exact finalizeVoting_Ruleset _ _ _
    · exact congrArg gameSession.Ruleset
        (applySpecial_rejects g _ _ _ _ (Or.inr (Or.inl hp))).2
    · exact revealWorldThreat_Ruleset _ _ _
    · exact setBunkerOutcome_Ruleset _ _ _ _
    · exact startNextRoundOrEnd_Ruleset _ _
    · exact kickPlayer_Ruleset _ _ _
    · rw [devAddPlayer_nondev _ _ _ hdev]
    · rw [devRemovePlayer_nondev _ _ _ hdev]
    · exact markLeftBunker_Ruleset _ _ _
    · rfl

/-- In an ended session that is not a dev session an action keeps the end test of
`startNextRoundOrEnd` true. -/
theorem handleAction_reached (g : gameSession) (actorID actionType : String)
    (payload : GoMap AnyVal) (now : Int) (hp : g.Phase = scenarioPhaseEnded)
    (hdev : g.IsDev = false) (h : endReached g) :
    endReached (handleAction g actorID actionType payload now).1 :=
  endReached_step g _ (handleAction_step g actorID actionType payload now)
    (handleAction_players_nondev anyPlayers_frame g actorID actionType payload now hdev)
    (handleAction_Ruleset_ended g actorID actionType payload now hp hdev) h

theorem handleTimerExpired_reached (g : gameSession) (now : Int) (h : endReached g) :
    endReached (handleTimerExpired g now).1 :=
  endReached_step g _ (handleTimerExpired_step g now)
    (handleTimerExpired_players anyPlayers_frame g now (PStep_refl anyPlayers_frame _))
    (handleTimerExpired_Ruleset g now) h

/-- In an ended session in which the end test of `startNextRoundOrEnd` holds, every action of
the core session, `devSkipRound` included, leaves the phase `ended`. -/
theorem handleAction_terminal (g : gameSession) (actorID actionType : String)
    (payload : GoMap AnyVal) (now : Int) (hp : g.Phase = scenarioPhaseEnded)
    (h : endReached g) :
    (handleAction g actorID actionType payload now).1.Phase = scenarioPhaseEnded := by
  by_cases hs : actionType = "devSkipRound"
  · subst hs
    unfold handleAction
    split
    · exact hp
    · exact startNextRoundOrEnd_ended g now h
  · exact handleAction_ended g actorID actionType payload now hp hs

/-- From an ended session in which the end test of `startNextRoundOrEnd` holds unless the
session is a dev session, every later state of the room's session is ended, and the end test
holds in it unless it is a dev session. -/
theorem serverRun_ended (r g : gameSession) (h : ServerRun r g)
    (hp : r.Phase = scenarioPhaseEnded) (hD : r.IsDev = false → endReached r) :
    g.Phase = scenarioPhaseEnded ∧ (g.IsDev = false → endReached g) := by
  induction h with
  | start => exact ⟨hp, hD⟩
  | action g actorID actionType payload now _ hdev ih =>
    exact ⟨handleAction_terminal g actorID actionType payload now ih.1 (ih.2 hdev),
      fun _ => handleAction_reached g actorID actionType payload now ih.1 hdev (ih.2 hdev)⟩
  | timer g now _ hdev ih =>
    exact ⟨handleTimerExpired_ended g now ih.1,
      fun _ => handleTimerExpired_reached g now (ih.2 hdev)⟩
  | devAction g actorID actionType payload now _ hdev ih =>
    refine ⟨devHandleAction_ended g actorID actionType payload now ih.1, fun hf => ?_⟩
    rw [devHandleAction_IsDev, hdev] at hf
    exact Bool.noConfusion hf
  | devTimer g now _ hdev ih =>
    refine ⟨devHandleTimerExpired_ended g now ih.1, fun hf => ?_⟩
    have h2 : (devHandleTimerExpired g now).1.IsDev = g.IsDev :=
      (postProcess_IsDev _ _ _).trans (handleTimerExpired_IsDev g now)
    rw [h2, hdev] at hf
    exact Bool.noConfusion hf
  | host g hostID _ ih =>
    exact ⟨ih.1, fun hf => endReached_same g _ rfl rfl (ih.2 hf)⟩

theorem addRosterPlayer_Phase (g : gameSession) (rp : player) :
    (addRosterPlayer g rp).Phase = g.Phase := by
  unfold addRosterPlayer
  dsimp only
  exact hard_Phase (drawInitialHandForPlayer_hard g rp.ID)

theorem assignInitialSpecials_Phase (g : gameSession) :
    (assignInitialSpecials g).Phase = g.Phase := by
  unfold assignInitialSpecials
  split
  · rfl
  · dsimp only
    refine foldl_keeps _ (fun s : gameSession => s.Phase) ?_ _ _
    intro s a
    dsimp only
    split
    · rfl
    · have h := hard_Phase (assignInitialSpecialsForPlayer_hard s a (buildSpecialAssetLookup g))
      exact h

/-- The session that `newGameSession` creates is in the phase `reveal`. -/
theorem newGameSession_Phase (roomCode hostID scenarioID : String) (settings : gameSettings)
    (ruleset : gameRuleset) (roomPlayers : List player) (assets : GoMap (List assetCard))
    (specialDefinitions : List specialDefinition) (rng : List Nat) (now : Int) :
    (newGameSession roomCode hostID scenarioID settings ruleset roomPlayers assets
      specialDefinitions rng now).Phase = scenarioPhaseReveal := by
  unfold newGameSession
  dsimp only
  refine (hard_Phase (scheduleRevealTimeoutIfNeeded_hard _ _)).trans ?_
  refine Eq.trans (revealNextBunkerCard_Phase _ _) ?_
  refine Eq.trans (assignInitialSpecials_Phase _) ?_
  exact foldl_keeps addRosterPlayer (fun s : gameSession => s.Phase) addRosterPlayer_Phase _ _

/-- From an ended session with an active post-game and a recorded outcome, in which the end
test of `startNextRoundOrEnd` holds unless the session is a dev session, every later state
of the room's session is ended and holds the same post-game record. -/
theorem serverRun_outcome (r g : gameSession) (h : ServerRun r g) (pg : postGameStateView)
    (hf : finale r = (scenarioPhaseEnded, some pg)) (ha : pg.IsActive = true)
    (ho : pg.Outcome ≠ "") (hD : r.IsDev = false → endReached r) :
    finale g = (scenarioPhaseEnded, some pg) := by
  have hfin : ∀ s : gameSession, s.Phase = scenarioPhaseEnded → s.PostGame = some pg →
      finale s = (scenarioPhaseEnded, some pg) := by
    intro s h1 h2
    unfold finale
    rw [h1, h2]
  induction h with
  | start => exact hf
  | action g actorID actionType payload now hrun hdev ih =>
    have he := serverRun_ended r g hrun (congrArg Prod.fst hf) hD
    exact hfin _ (handleAction_terminal g actorID actionType payload now he.1 (he.2 hdev))
      ((handleAction_PostGame g actorID actionType payload now pg ih ha ho).trans
        (congrArg Prod.snd ih))
  | timer g now hrun hdev ih =>
    exact (handleTimerExpired_finale g now (congrArg Prod.fst ih)).trans ih
  | devAction g actorID actionType payload now hrun hdev ih =>
    exact hfin _ (devHandleAction_ended g actorID actionType payload now (congrArg Prod.fst ih))
      ((devHandleAction_PostGame g actorID actionType payload now pg ih ha ho).trans
        (congrArg Prod.snd ih))
  | devTimer g now hrun hdev ih =>
    exact hfin _ (devHandleTimerExpired_ended g now (congrArg Prod.fst ih))
      ((devHandleTimerExpired_PostGame g now (congrArg Prod.fst ih)).trans
        (congrArg Prod.snd ih))
  | host g hostID _ ih => exact ih



/-! ## What an ended session still lets through -/

theorem closing_of (g g2 : gameSession) (h1 : g2.Phase = g.Phase) (h2 : g2.PostGame = g.PostGame)
    (h3 : g2.ActiveTimer = g.ActiveTimer) : closing g2 = closing g := by
  unfold closing
  rw [h1, h2, h3]

theorem endSettled_of_closing (g g2 : gameSession) (h : closing g2 = closing g)
    (hs : endSettled g) : endSettled g2 := by
  have h2 : g2.PostGame = g.PostGame := congrArg (fun c => c.2.1) h
  have h3 : g2.ActiveTimer = g.ActiveTimer := congrArg (fun c => c.2.2) h
  unfold endSettled postGameActive at hs ⊢
  rw [h2, h3]
  exact hs

theorem passTurnFrom_closing (g : gameSession) (id : String) :
    closing (passTurnFrom g id) = closing g := by
  unfold passTurnFrom
  split <;> rfl

theorem handleOnOwnerEliminated_closing (g : gameSession) (id : String) :
    closing (handleOnOwnerEliminated g id) = closing g := by
  unfold handleOnOwnerEliminated
  split <;> rfl

theorem handleSecretEliminationTriggers_closing (g : gameSession) (id : String) :
    closing (handleSecretEliminationTriggers g id) = closing g := by
  unfold handleSecretEliminationTriggers
  refine foldl_keeps _ closing ?_ _ _
  intro s a
  rfl

theorem applyElimination_closing (g : gameSession) (id : String) :
    closing (applyElimination g id) = closing g := by
  unfold applyElimination
  split
  · rfl
  · split
    · rfl
    · refine Eq.trans (show _ = closing (handleSecretEliminationTriggers _ id) from rfl) ?_
      rw [handleSecretEliminationTriggers_closing, handleOnOwnerEliminated_closing]
      rfl

theorem kickPlayer_closing (g : gameSession) (t : String) (now : Int)
    (pg : postGameStateView) (h : finale g = (scenarioPhaseEnded, some pg))
    (ha : pg.IsActive = true) : closing (kickPlayer g t now).1 = closing g := by
  have h1 : g.Phase = scenarioPhaseEnded := congrArg Prod.fst h
  have h2 : g.PostGame = some pg := congrArg Prod.snd h
  generalize hr : kickPlayer g t now = res
  unfold kickPlayer at hr
  cases hp : mapGet? g.Players t with
  | none =>
    rw [hp] at hr
    subst hr
    rfl
  | some player =>
    rw [hp] at hr
    dsimp only at hr
    generalize hE : applyElimination g t = E at hr
    have hEf : closing E = closing g := hE ▸ applyElimination_closing g t
    clear hE
    have hE1 : E.Phase = g.Phase := congrArg Prod.fst hEf
    have hE2 : E.PostGame = g.PostGame := congrArg (fun c => c.2.1) hEf
    have hE3 : E.ActiveTimer = g.ActiveTimer := congrArg (fun c => c.2.2) hEf
    repeat' split at hr
    all_goals subst hr
    all_goals first
      | rfl
      | (simp only [closing, makeEvent, removeFromVoting, hE1, hE2, hE3]
         done)
      | (dsimp only [makeEvent]
         rw [finishGame_settled _ _ _ pg ?_ ha]
         · simp only [closing, removeFromVoting, hE1, hE2, hE3]
         · simp only [finale, removeFromVoting, hE1, hE2, h1, h2])

theorem finishGame_noTimer (g : gameSession) (reason : String) (now : Int)
    (h : g.ActiveTimer = none) : (finishGame g reason now).1.ActiveTimer = none := by
  unfold finishGame
  split
  · exact h
  · rfl

theorem passTurnFrom_ActiveTimer (g : gameSession) (id : String) :
    (passTurnFrom g id).ActiveTimer = g.ActiveTimer := by
  unfold passTurnFrom
  split <;> rfl

theorem markLeftBunker_noTimer (g : gameSession) (targetID : String) (now : Int)
    (h : g.Phase = scenarioPhaseEnded) (ht : g.ActiveTimer = none) :
    (markLeftBunker g targetID now).1.ActiveTimer = none := by
  unfold markLeftBunker
  dsimp only [makeEvent, clearActiveTimer, removeFromVoting]
  repeat' (first
    | with_reducible exact ht
    | with_reducible exact (passTurnFrom_ActiveTimer _ _).trans ht
    | (exfalso
       have hv := (‹_ ∧ _› : _ ∧ _).1
       revert hv
       refine ite_of (fun s : gameSession => s.Phase = scenarioPhaseVoting → False) _ _ _ ?_ ?_
       all_goals (intro _ hv; exact absurd (hv.symm.trans ((passTurnFrom_Phase _ _).trans h)) (by decide)))
    | with_reducible refine finishGame_noTimer _ _ _ ?_
    | with_reducible refine ite_of (fun s : gameSession => s.ActiveTimer = none) _ _ _ (fun _ => ?_) (fun _ => ?_)
    | with_reducible refine ite_of (fun r : gameSession × gameActionResult => r.1.ActiveTimer = none) _ _ _ (fun _ => ?_) (fun _ => ?_)
    | split)

theorem markLeftBunker_settled (g : gameSession) (t : String) (now : Int)
    (pg : postGameStateView) (h : finale g = (scenarioPhaseEnded, some pg))
    (ha : pg.IsActive = true) (hs : endSettled g) : endSettled (markLeftBunker g t now).1 := by
  have h2 : (markLeftBunker g t now).1.PostGame = g.PostGame :=
    congrArg Prod.snd (markLeftBunker_finale g t now pg h ha)
  refine ⟨?_, markLeftBunker_noTimer g t now (congrArg Prod.fst h) hs.2⟩
  unfold postGameActive
  rw [h2]
  exact hs.1

theorem revealCard_closing (g : gameSession) (actorID cardID : String) (now : Int)
    (h : g.Phase = scenarioPhaseEnded) :
    closing (revealCard g actorID cardID now).1 = closing g := by
  generalize hr : revealCard g actorID cardID now = res
  unfold revealCard at hr
  cases hp : mapGet? g.Players actorID with
  | none =>
    rw [hp] at hr
    subst hr
    rfl
  | some player =>
    rw [hp] at hr
    dsimp only at hr
    rw [if_pos h] at hr
    repeat' split at hr
    all_goals subst hr
    all_goals rfl

theorem revealWorldThreat_closing (g : gameSession) (a : String) (i : Int) :
    closing (revealWorldThreat g a i).1 = closing g := by
  unfold revealWorldThreat
  repeat' split
  all_goals rfl

theorem setBunkerOutcome_settled (g : gameSession) (actorID outcome : String) (now : Int)
    (hs : endSettled g) : endSettled (setBunkerOutcome g actorID outcome now).1 := by
  rcases setBunkerOutcome_cases g actorID outcome now with
    ⟨q, hq, _, hact, _, _, _, _, _, heq⟩ | ⟨_, h2, _⟩
  · rw [heq]
    exact ⟨hact, hs.2⟩
  · rw [h2]
    exact hs

/-- Without a running timer `handleTimerExpired` does nothing. -/
theorem handleTimerExpired_idle (g : gameSession) (now : Int) (h : g.ActiveTimer = none) :
    (handleTimerExpired g now).1 = g := by
  unfold handleTimerExpired
  rw [h]

/-- In a session that is over with an active post-game, and in which the end test holds,
`startNextRoundOrEnd` does nothing. -/
theorem startNextRoundOrEnd_closed (g : gameSession) (now : Int)
    (hp : g.Phase = scenarioPhaseEnded) (ha : postGameActive g = true) (hD : endReached g) :
    (startNextRoundOrEnd g now).1 = g := by
  have hfin : ∀ reason, (finishGame g reason now).1 = g := by
    intro reason
    unfold finishGame
    rw [if_pos ⟨hp, ha⟩]
  unfold startNextRoundOrEnd
  split
  · exact hfin _
  · rename_i hse
    rcases hD with hD | hD
    · exact absurd hD hse
    · dsimp only
      rw [if_pos hD]
      exact hfin _

theorem finale_of_settled (g : gameSession) (hp : g.Phase = scenarioPhaseEnded)
    (hs : endSettled g) : ∃ pg, finale g = (scenarioPhaseEnded, some pg) ∧ pg.IsActive = true := by
  have ha := hs.1
  unfold postGameActive at ha
  cases hpg : g.PostGame with
  | none =>
    rw [hpg] at ha
    exact absurd ha (by decide)
  | some pg =>
    rw [hpg] at ha
    refine ⟨pg, ?_, ha⟩
    unfold finale
    rw [hp, hpg]

/-- In a session that is over and not a dev session, with an active post-game, no timer and
the end test true, every action leaves the post-game active and sets no timer. -/
theorem handleAction_closed (g : gameSession) (actorID actionType : String)
    (payload : GoMap AnyVal) (now : Int) (hp : g.Phase = scenarioPhaseEnded)
    (hdev : g.IsDev = false) (hD : endReached g) (hs : endSettled g) :
    endSettled (handleAction g actorID actionType payload now).1 := by
  obtain ⟨pg, hf, ha⟩ := finale_of_settled g hp hs
  unfold handleAction
  split
  · exact hs
  · split
    · exact endSettled_of_closing g _ (revealCard_closing _ _ _ _ hp) hs
    · rw [continueRound_ended g _ _ hp]
      exact hs
    · rw [vote_ended g _ _ _ hp]
      exact hs
    · rw [finalizeVoting_ended g _ _ hp]
      exact hs
    · rw [(applySpecial_rejects g _ _ _ _ (Or.inr (Or.inl hp))).2]
      exact hs
    · exact endSettled_of_closing g _ (revealWorldThreat_closing _ _ _) hs
    · exact setBunkerOutcome_settled _ _ _ _ hs
    · rw [startNextRoundOrEnd_closed g now hp hs.1 hD]
      exact hs
    · exact endSettled_of_closing g _ (kickPlayer_closing _ _ _ pg hf ha) hs
    · rw [devAddPlayer_nondev _ _ _ hdev]
      exact hs
    · rw [devRemovePlayer_nondev _ _ _ hdev]
      exact hs
    · exact markLeftBunker_settled _ _ _ pg hf ha hs
    · exact hs

/-- In a session that is not over and not a dev session, an action ends the game only where
the end test of `startNextRoundOrEnd` holds, with an active post-game and no timer. -/
theorem handleAction_B (g : gameSession) (actorID actionType : String)
    (payload : GoMap AnyVal) (now : Int) (hp : g.Phase ≠ scenarioPhaseEnded)
    (hdev : g.IsDev = false) :
    (handleAction g actorID actionType payload now).1.Phase = scenarioPhaseEnded →
      endReached (handleAction g actorID actionType payload now).1 ∧
        endSettled (handleAction g actorID actionType payload now).1 := by
  unfold handleAction
  split
  · exact fun hh => absurd hh hp
  · split
    · exact revealCard_B _ _ _ _ hp
    · exact continueRound_B _ _ _ hp
    · exact vote_B _ _ _ _ hp
    · exact finalizeVoting_B _ _ _ hp
    · exact fun hh => absurd ((applySpecial_Phase g _ _ _ _).symm.trans hh) hp
    · exact fun hh => absurd ((hard_Phase (revealWorldThreat_hard g _ _)).symm.trans hh) hp
    · exact fun hh => absurd ((hard_Phase (setBunkerOutcome_hard g _ _ _)).symm.trans hh) hp
    · exact startNextRoundOrEnd_B _ _ hp
    · exact kickPlayer_B _ _ _ hp
    · rw [devAddPlayer_nondev _ _ _ hdev]
      exact fun hh => absurd hh hp
    · rw [devRemovePlayer_nondev _ _ _ hdev]
      exact fun hh => absurd hh hp
    · exact markLeftBunker_B _ _ _ hp
    · exact fun hh => absurd hh hp

/-- The state of a session that is over and not a dev session: the end test of
`startNextRoundOrEnd` holds, the post-game is active and no timer runs. -/
theorem serverRun_closed (g0 g : gameSession) (h : ServerRun g0 g) (hd0 : g0.IsDev = false)
    (h0 : g0.Phase ≠ scenarioPhaseEnded) :
    g.Phase = scenarioPhaseEnded → endReached g ∧ endSettled g := by
  induction h with
  | start => exact fun hh => absurd hh h0
  | action g actorID actionType payload now _ hdev ih =>
    by_cases hp : g.Phase = scenarioPhaseEnded
    · exact fun _ => ⟨handleAction_reached g actorID actionType payload now hp hdev (ih hp).1,
        handleAction_closed g actorID actionType payload now hp hdev (ih hp).1 (ih hp).2⟩
    · exact handleAction_B g actorID actionType payload now hp hdev
  | timer g now _ hdev ih =>
    by_cases hp : g.Phase = scenarioPhaseEnded
    · rw [handleTimerExpired_idle g now (ih hp).2.2]
      exact ih
    · exact handleTimerExpired_B g now hp
  | devAction g actorID actionType payload now hrun hdev ih =>
    rw [serverRun_IsDev g0 g hrun, hd0] at hdev
    exact Bool.noConfusion hdev
  | devTimer g now hrun hdev ih =>
    rw [serverRun_IsDev g0 g hrun, hd0] at hdev
    exact Bool.noConfusion hdev
  | host g hostID _ ih =>
    exact fun hh => ⟨endReached_same g _ rfl rfl (ih hh).1, (ih hh).2⟩

/-- In every state of a room's session, the session made by `newGameSession`, the phase
`ended` comes with the end test of `startNextRoundOrEnd` unless the session is a dev
session. -/
theorem room_ended_reached (roomCode hostID scenarioID : String) (settings : gameSettings)
    (ruleset : gameRuleset) (roomPlayers : List player) (assets : GoMap (List assetCard))
    (specialDefinitions : List specialDefinition) (rng : List Nat) (now0 : Int)
    (g : gameSession)
    (hrun : ServerRun (newGameSession roomCode hostID scenarioID settings ruleset roomPlayers
      assets specialDefinitions rng now0) g)
    (hp : g.Phase = scenarioPhaseEnded) : g.IsDev = false → endReached g := by
  intro hdev
  refine (serverRun_closed _ g hrun ?_ ?_ hp).1
  · rw [← serverRun_IsDev _ g hrun]
    exact hdev
  · rw [newGameSession_Phase]
    decide



/-! ## The ended phase is terminal, and a recorded outcome is final -/

set_option maxRecDepth 100000 in
/-- The example session `exampleQuotaTwo` is a state of the room's session: the server
reaches it from the session made by `newGameSession` with two `markLeftBunker` actions of
the host. -/
theorem exampleQuotaTwo_run : ServerRun exampleQuotaStart exampleQuotaTwo :=
  ServerRun.action _ "p1" "markLeftBunker" (targetPayload "p3") 2
    (ServerRun.action _ "p1" "markLeftBunker" (targetPayload "p4") 1 ServerRun.start
      (by decide)) (by decide)

/-- Claim C28.  Let `g` be a state of the session that a room holds, that is, a state that
the session made by `newGameSession` reaches by the calls of the server (`ServerRun`).  The
function `setBunkerOutcome` succeeds exactly when the phase is `ended`, the post-game is
active, the actor is the host, no outcome is recorded yet and the outcome named is
`survived` or `failed`; it then records that outcome, the deciding actor and the time, and
changes nothing else but the stage text and the event counter; in every other case it
returns an error and changes nothing.  Once an outcome is recorded, no later action and no
timer expiry changes it: every later state of the session has the phase `ended` and the
same post-game record, and after a successful `setBunkerOutcome` every later state holds
the outcome it recorded. -/
theorem setBunkerOutcome_final (roomCode hostID scenarioID : String)
    (settings : gameSettings) (ruleset : gameRuleset) (roomPlayers : List player)
    (assets : GoMap (List assetCard)) (specialDefinitions : List specialDefinition)
    (rng : List Nat) (now0 : Int) (g : gameSession) (actorID outcome : String) (now : Int)
    (hrun : ServerRun (newGameSession roomCode hostID scenarioID settings ruleset roomPlayers
      assets specialDefinitions rng now0) g) :
    ((setBunkerOutcome g actorID outcome now).2.Error = "" ↔
      ∃ pg, g.PostGame = some pg ∧ g.Phase = scenarioPhaseEnded ∧ pg.IsActive = true ∧
        actorID = g.HostID ∧ pg.Outcome = "" ∧ (outcome = "survived" ∨ outcome = "failed")) ∧
    (∀ pg, g.PostGame = some pg → (setBunkerOutcome g actorID outcome now).2.Error = "" →
      (setBunkerOutcome g actorID outcome now).2.StateChanged = true ∧
      (setBunkerOutcome g actorID outcome now).1 =
        { g with
          PostGame := some { pg with Outcome := outcome, DecidedBy := actorID, DecidedAt := now }
          LastStageText :=
            (if outcome = "survived" then "Финал: бункер выжил."
             else "Финал: бункер не выжил.")
          EventCounter := g.EventCounter + 1 }) ∧
    ((setBunkerOutcome g actorID outcome now).2.Error ≠ "" →
      (setBunkerOutcome g actorID outcome now).1 = g) ∧
    (∀ pg, g.Phase = scenarioPhaseEnded → g.PostGame = some pg → pg.IsActive = true →
      pg.Outcome ≠ "" →
      ∀ g2, ServerRun g g2 → g2.Phase = scenarioPhaseEnded ∧ g2.PostGame = some pg) ∧
    ((setBunkerOutcome g actorID outcome now).2.Error = "" →
      ∀ g2, ServerRun (setBunkerOutcome g actorID outcome now).1 g2 →
        g2.Phase = scenarioPhaseEnded ∧ recordedOutcome g2 = outcome) := by
  have hreached : g.Phase = scenarioPhaseEnded → g.IsDev = false → endReached g :=
    room_ended_reached roomCode hostID scenarioID settings ruleset roomPlayers assets
      specialDefinitions rng now0 g hrun
  have hkeep : ∀ (r : gameSession) (pg : postGameStateView), r.Phase = scenarioPhaseEnded →
      r.PostGame = some pg → pg.IsActive = true → pg.Outcome ≠ "" →
      (r.IsDev = false → endReached r) →
      ∀ g2, ServerRun r g2 → g2.Phase = scenarioPhaseEnded ∧ g2.PostGame = some pg := by
    intro r pg h1 h2 ha ho hD g2 h2run
    have hf : finale r = (scenarioPhaseEnded, some pg) := by
      unfold finale
      rw [h1, h2]
    have hfin := serverRun_outcome r g2 h2run pg hf ha ho hD
    exact ⟨congrArg Prod.fst hfin, congrArg Prod.snd hfin⟩
  refine ⟨?_, ?_, ?_, ?_, ?_⟩
  · rcases setBunkerOutcome_cases g actorID outcome now with
      ⟨pg, h1, h2, h3, h4, h5, h6, h7, _⟩ | ⟨h1, _, h3⟩
    · exact ⟨fun _ => ⟨pg, h1, h2, h3, h4, h5, h6⟩, fun _ => h7⟩
    · exact ⟨fun h => absurd h h1, fun h => absurd h h3⟩
  · intro pg hpg herr
    rcases setBunkerOutcome_cases g actorID outcome now with
      ⟨q, h1, _, _, _, _, _, _, h8, h9⟩ | ⟨h1, _⟩
    · rw [hpg] at h1
      simp only [Option.some.injEq] at h1
      subst h1
      exact ⟨h8, h9⟩
    · exact absurd herr h1
  · intro herr
    rcases setBunkerOutcome_cases g actorID outcome now with
      ⟨_, _, _, _, _, _, _, h7, _⟩ | ⟨_, h2, _⟩
    · exact absurd h7 herr
    · exact h2
  · intro pg h1 h2 ha ho g2 h2run
    exact hkeep g pg h1 h2 ha ho (hreached h1) g2 h2run
  · intro herr g2 h2run
    rcases setBunkerOutcome_cases g actorID outcome now with
      ⟨pg, h1, h2, h3, _, _, h6, _, _, h9⟩ | ⟨h1, _⟩
    · have hout : outcome ≠ "" := by
        rcases h6 with h6 | h6 <;> rw [h6] <;> decide
      have hres := hkeep (setBunkerOutcome g actorID outcome now).1
        { pg with Outcome := outcome, DecidedBy := actorID, DecidedAt := now }
        (by rw [h9]; exact h2) (by rw [h9]) h3 hout
        (fun hdev => by
          rw [h9] at hdev ⊢
          exact endReached_same g _ rfl rfl (hreached h2 hdev)) g2 h2run
      refine ⟨hres.1, ?_⟩
      unfold recordedOutcome
      rw [hres.2]
    · exact absurd herr h1

set_option maxRecDepth 100000 in
/-- Witness of `setBunkerOutcome_final` at the ended classic session `exampleQuotaTwo`: the
host records the outcome `survived`; after the later departure of `p2` the session is still
over and still holds that outcome. -/
theorem setBunkerOutcome_final_witness :
    exampleQuotaTwo.Phase = scenarioPhaseEnded ∧
      recordedOutcome exampleQuotaTwo = "" ∧
      (setBunkerOutcome exampleQuotaTwo "p1" "survived" 3).2.Error = "" ∧
      (handleAction (setBunkerOutcome exampleQuotaTwo "p1" "survived" 3).1 "p1"
        "markLeftBunker" (targetPayload "p2") 4).2.Error = "" ∧
      (handleAction (setBunkerOutcome exampleQuotaTwo "p1" "survived" 3).1 "p1"
        "markLeftBunker" (targetPayload "p2") 4).1.Phase = scenarioPhaseEnded ∧
      recordedOutcome (handleAction (setBunkerOutcome exampleQuotaTwo "p1" "survived" 3).1 "p1"
        "markLeftBunker" (targetPayload "p2") 4).1 = "survived" := by
  have hall := (setBunkerOutcome_final "ROOM" "p1" "classic" exampleSettings
    exampleQuotaRuleset
    [{ ID := "p1", Name := "A" }, { ID := "p2", Name := "B" }, { ID := "p3", Name := "C" },
     { ID := "p4", Name := "D" }] [] [] [] 0 exampleQuotaTwo "p1" "survived" 3
    exampleQuotaTwo_run).2.2.2.2 (by decide) _
      (ServerRun.action _ "p1" "markLeftBunker" (targetPayload "p2") 4 ServerRun.start
        (by decide))
  exact ⟨by decide, by decide, by decide, by decide, hall.1, hall.2⟩


end ProtocolBunker
